import Mathlib

/-!
The `dbx` repositories of voting-svc.

A shallow embedding of `internal/dbx`: the seven repository values
(`PetitionsQ`, `PetitionSignaturesQ`, `PollsQ`, `PollOptionsQ`, `PollVotesQ`,
`ProposalsQ`, `ProposalVotesQ`), the statement builders they accumulate, and
the statement each terminal operation hands to `database/sql`.

Go values are modelled as plain data. A method with a value receiver is a
function of the receiver; the statement builders of the `squirrel` library are
records whose lists grow at the end, as the library's persistent lists do.
-/

namespace Dbx

/-! ## Go values -/

/-- A `uuid.UUID`: sixteen bytes, read as one number. -/
structure UUID where
  val : Nat
deriving DecidableEq, Repr

/-- A `time.Time`, as nanoseconds since the epoch. -/
structure Time where
  unixNano : Int
deriving DecidableEq, Repr

/-- The instant a PostgreSQL timestamp keeps of a time: the driver sends the
time with its nanoseconds and the store keeps microseconds, the nanoseconds
rounded to the nearest microsecond (half a microsecond, which PostgreSQL
settles in floating point, to the even one). -/
def Time.stored (t : Time) : Time :=
  if t.unixNano % 1000 < 500 then ⟨t.unixNano / 1000 * 1000⟩
  else if 500 < t.unixNano % 1000 then ⟨(t.unixNano / 1000 + 1) * 1000⟩
  else if t.unixNano / 1000 % 2 = 0 then ⟨t.unixNano / 1000 * 1000⟩
  else ⟨(t.unixNano / 1000 + 1) * 1000⟩

/-- A `float64`, as its bit pattern; the repositories only pass it on. -/
structure Float64 where
  bits : Nat
deriving DecidableEq, Repr

/-- Source: `GeoPoint` in `petitions.go`. -/
structure GeoPoint where
  Lat : Float64
  Lng : Float64
deriving DecidableEq, Repr

/-- The dynamic Go values that reach a statement as bound arguments. -/
inductive Value where
  | uuid (v : UUID)
  | uuidPtr (p : Option UUID)
  | str (s : String)
  | int (i : Int)
  | bool (b : Bool)
  | float (f : Float64)
  | time (t : Time)
  | null
deriving DecidableEq, Repr

/-- What the `database/sql` layer sends for a bound Go value: a nil pointer
(and the untyped nil) is SQL NULL, a non-nil pointer is the value it points to. -/
def Value.driverValue : Value → Value
  | .uuidPtr none => .null
  | .uuidPtr (some u) => .uuid u
  | v => v

/-! ## squirrel: expressions and predicates -/

/-- The value `sq.Expr(sql, args...)` with plain arguments. -/
structure Expr where
  sql : String
  args : List Value
deriving DecidableEq, Repr

/-- An `interface{}` argument: a plain value, or an `sq.Expr` to be expanded. -/
inductive Arg where
  | val (v : Value)
  | expr (e : Expr)
deriving DecidableEq, Repr

/-- The predicates handed to `Where`. -/
inductive Pred where
  | eq (column : String) (v : Value)
  | str (sql : String) (args : List Arg)
  | expr (sql : String) (args : List Arg)
deriving DecidableEq, Repr

/-- The loop of squirrel's `expr.ToSql`: each `?` consumes one argument, an
`sq.Expr` argument is spliced in with its own arguments, `??` is kept, and
what is left of the text and of the arguments is appended. -/
def expandExpr : List Char → List Arg → List Char × List Arg
  | [], ap => ([], ap)
  | sp, [] => (sp, [])
  | '?' :: '?' :: rest, a :: ap =>
      let r := expandExpr rest (a :: ap)
      ('?' :: '?' :: r.1, r.2)
  | '?' :: rest, Arg.val v :: ap =>
      let r := expandExpr rest ap
      ('?' :: r.1, Arg.val v :: r.2)
  | '?' :: rest, Arg.expr e :: ap =>
      let r := expandExpr rest ap
      (e.sql.toList ++ r.1, e.args.map Arg.val ++ r.2)
  | c :: rest, a :: ap =>
      let r := expandExpr rest (a :: ap)
      (c :: r.1, r.2)

/-- Whether an argument is a Sqlizer. -/
def Arg.isExpr : Arg → Bool
  | .expr _ => true
  | .val _ => false

/-- The SQL text and arguments of `sq.Expr(sql, args...)`. -/
def exprToSql (sql : String) (args : List Arg) : String × List Arg :=
  if args.any Arg.isExpr then
    let r := expandExpr sql.toList args
    (String.mk r.1, r.2)
  else (sql, args)

/-- `uuid.UUID.String`: the sixteen bytes as 32 lower-case hexadecimal digits
in the groups 8-4-4-4-12. -/
def UUID.String (u : UUID) : String :=
  let hex := (List.range 32).map (fun i => Nat.digitChar (u.val / 16 ^ (31 - i) % 16))
  String.mk (hex.take 8 ++ '-' :: (hex.drop 8).take 4 ++ '-' :: (hex.drop 12).take 4
    ++ '-' :: (hex.drop 16).take 4 ++ '-' :: hex.drop 20)

/-- What `sq.Eq` binds for a value: a `driver.Valuer` is replaced by what its
`Value()` returns, so a `uuid.UUID` is bound as its text; any other value is
bound as it is. -/
def Value.valued : Value → Value
  | .uuid u => .str u.String
  | v => v

/-- The SQL text and arguments of one `Where` part. `sq.Eq` over one column is
`col = ?` with the value bound, or `col IS NULL` for a nil value. -/
def Pred.ToSql : Pred → String × List Arg
  | .eq column .null => (column ++ " IS NULL", [])
  | .eq column (.uuidPtr none) => (column ++ " IS NULL", [])
  | .eq column v => (column ++ " = ?", [Arg.val v.valued])
  | .str sql args => (sql, args)
  | .expr sql args => exprToSql sql args

/-- squirrel's `appendToSql`: parts with empty text are skipped, the separator
is written before every part but the one at index 0. -/
def appendToSql (sep : String) : Nat → List (String × List Arg) → String × List Arg
  | _, [] => ("", [])
  | i, p :: ps =>
      let r := appendToSql sep (i + 1) ps
      if p.1.isEmpty then r
      else ((if i = 0 then "" else sep) ++ p.1 ++ r.1, p.2 ++ r.2)

/-- The `Dollar` placeholder format: the n-th `?` becomes `$n`, `??` becomes `?`. -/
def replacePositionalPlaceholders : Nat → List Char → List Char
  | _, [] => []
  | i, '?' :: '?' :: rest => '?' :: replacePositionalPlaceholders i rest
  | i, '?' :: rest =>
      '$' :: ((Nat.repr (i + 1)).toList ++ replacePositionalPlaceholders (i + 1) rest)
  | i, c :: rest => c :: replacePositionalPlaceholders i rest

/-- The number of placeholders the `Dollar` format numbers in a text. -/
def placeholderCount : List Char → Nat
  | [] => 0
  | '?' :: '?' :: rest => placeholderCount rest
  | '?' :: rest => placeholderCount rest + 1
  | _ :: rest => placeholderCount rest

/-- The text after `Dollar.ReplacePlaceholders`. -/
def dollar (sql : String) : String :=
  String.mk (replacePositionalPlaceholders 0 sql.toList)

/-- The errors of this layer: one made by squirrel while building a statement,
an error wrapped by `fmt.Errorf("...: %w", err)`, and the errors that come
back from `database/sql`: `sql.ErrNoRows`, the error of a cancelled context, a
scan error on a column, a scan with the wrong number of destinations, and an
error of the store with its SQLSTATE code (`23505` is a uniqueness violation). -/
inductive Error where
  | build (msg : String)
  | wrapf (msg : String) (cause : Error)
  | noRows
  | canceled
  | scan (column : Nat) (msg : String)
  | scanCount (columns dests : Nat)
  | store (code : String)
deriving DecidableEq, Repr

/-! ## squirrel: statement builders

All builders are made from `sq.StatementBuilder.PlaceholderFormat(sq.Dollar)`. -/

/-- The state of an `sq.SelectBuilder`. -/
structure SelectBuilder where
  columns : List String
  table : String
  whereParts : List Pred
  orderBys : List String
  limit : Option Nat
  offset : Option Nat
deriving DecidableEq, Repr

/-- One `SET column = value` clause of an update. -/
structure SetClause where
  column : String
  value : Arg
deriving DecidableEq, Repr

/-- The state of an `sq.UpdateBuilder`. -/
structure UpdateBuilder where
  table : String
  setClauses : List SetClause
  whereParts : List Pred
deriving DecidableEq, Repr

/-- The state of an `sq.DeleteBuilder`. -/
structure DeleteBuilder where
  table : String
  whereParts : List Pred
deriving DecidableEq, Repr

/-- The state of an `sq.InsertBuilder`. -/
structure InsertBuilder where
  table : String
  columns : List String
  values : List (List Arg)
deriving DecidableEq, Repr

/-- Whether a predicate is the empty string, which `SelectBuilder.Where` ignores. -/
def Pred.isBlank : Pred → Bool
  | .str sql _ => sql.isEmpty
  | _ => false

/-- `SelectBuilder.Where(pred, args...)`: an empty-string predicate is ignored,
every other one is appended. -/
def SelectBuilder.Where (b : SelectBuilder) (p : Pred) : SelectBuilder :=
  if p.isBlank then b else { b with whereParts := b.whereParts ++ [p] }

/-- `UpdateBuilder.Where(pred, args...)`. -/
def UpdateBuilder.Where (b : UpdateBuilder) (p : Pred) : UpdateBuilder :=
  { b with whereParts := b.whereParts ++ [p] }

/-- `DeleteBuilder.Where(pred, args...)`. -/
def DeleteBuilder.Where (b : DeleteBuilder) (p : Pred) : DeleteBuilder :=
  { b with whereParts := b.whereParts ++ [p] }

/-- `SelectBuilder.OrderBy` with one term. -/
def SelectBuilder.OrderBy (b : SelectBuilder) (term : String) : SelectBuilder :=
  { b with orderBys := b.orderBys ++ [term] }

/-- `SelectBuilder.Limit`: the limit is kept as its decimal text. -/
def SelectBuilder.Limit (b : SelectBuilder) (limit : Nat) : SelectBuilder :=
  { b with limit := some limit }

/-- `SelectBuilder.Offset`: the offset is kept as its decimal text. -/
def SelectBuilder.Offset (b : SelectBuilder) (offset : Nat) : SelectBuilder :=
  { b with offset := some offset }

/-- `builder.Select(columns...).From(table)`. -/
def selectFrom (columns : List String) (table : String) : SelectBuilder :=
  { columns := columns, table := table, whereParts := [], orderBys := [],
    limit := none, offset := none }

/-- `builder.Insert(table)`. -/
def insertInto (table : String) : InsertBuilder :=
  { table := table, columns := [], values := [] }

/-- `builder.Update(table)`. -/
def updateTable (table : String) : UpdateBuilder :=
  { table := table, setClauses := [], whereParts := [] }

/-- `builder.Delete(table)`. -/
def deleteFrom (table : String) : DeleteBuilder :=
  { table := table, whereParts := [] }

/-- `UpdateBuilder.Set`. -/
def UpdateBuilder.Set (b : UpdateBuilder) (column : String) (value : Arg) : UpdateBuilder :=
  { b with setClauses := b.setClauses ++ [⟨column, value⟩] }

/-- A Go `map[string]interface{}`, as its entries in the order they were first
assigned; assigning an existing key replaces its value. -/
abbrev GoMap := List (String × Arg)

/-- The assignment `m[k] = v`. -/
def GoMap.set (m : GoMap) (k : String) (v : Arg) : GoMap :=
  if m.any (fun e => e.1 == k) then m.map (fun e => if e.1 == k then (k, v) else e)
  else m ++ [(k, v)]

/-- Byte-wise comparison of two texts, the order of Go's `sort.Strings`. -/
def strLe : List Char → List Char → Bool
  | [], _ => true
  | _ :: _, [] => false
  | a :: as, b :: bs => if a.toNat < b.toNat then true else if b.toNat < a.toNat then false else strLe as bs

/-- The map's entries with the keys in `sort.Strings` order. -/
def GoMap.sorted (m : GoMap) : List (String × Arg) :=
  m.insertionSort (fun a b => strLe a.1.toList b.1.toList = true)

/-- `UpdateBuilder.SetMap`: one `Set` per key, keys sorted. -/
def UpdateBuilder.SetMap (b : UpdateBuilder) (clauses : GoMap) : UpdateBuilder :=
  clauses.sorted.foldl (fun acc e => acc.Set e.1 e.2) b

/-- `InsertBuilder.SetMap`: the sorted keys become the columns and the values
one row, replacing what was there. -/
def InsertBuilder.SetMap (b : InsertBuilder) (clauses : GoMap) : InsertBuilder :=
  { b with columns := clauses.sorted.map Prod.fst, values := [clauses.sorted.map Prod.snd] }

/-- The text and arguments of one bound value: an `sq.Expr` is written out,
anything else is one `?`. -/
def Arg.ToSql : Arg → String × List Arg
  | .expr e => exprToSql e.sql (e.args.map Arg.val)
  | .val v => ("?", [Arg.val v])

/-- The text and arguments of one `SET` clause. -/
def SetClause.ToSql (c : SetClause) : String × List Arg :=
  (c.column ++ " = " ++ c.value.ToSql.1, c.value.ToSql.2)

/-- The `WHERE` clause of a statement: nothing without parts, else the parts
joined by `AND`. -/
def whereToSql (parts : List Pred) : String × List Arg :=
  if parts.isEmpty then ("", [])
  else
    let r := appendToSql " AND " 0 (parts.map Pred.ToSql)
    (" WHERE " ++ r.1, r.2)

/-- The statement text before placeholder replacement, and the arguments,
of `SelectBuilder.ToSql`. -/
def SelectBuilder.toSqlRaw (b : SelectBuilder) : Except Error (String × List Arg) :=
  if b.columns.isEmpty then
    .error (.build "select statements must have at least one result column")
  else
    let w := whereToSql b.whereParts
    .ok ("SELECT " ++ ", ".intercalate b.columns ++ " FROM " ++ b.table ++ w.1
          ++ (if b.orderBys.isEmpty then "" else " ORDER BY " ++ ", ".intercalate b.orderBys)
          ++ (match b.limit with | some n => " LIMIT " ++ Nat.repr n | none => "")
          ++ (match b.offset with | some n => " OFFSET " ++ Nat.repr n | none => ""),
         w.2)

/-- `SelectBuilder.ToSql`. -/
def SelectBuilder.ToSql (b : SelectBuilder) : Except Error (String × List Arg) :=
  match b.toSqlRaw with
  | .error e => .error e
  | .ok r => .ok (dollar r.1, r.2)

/-- The statement text before placeholder replacement, and the arguments,
of `UpdateBuilder.ToSql`. -/
def UpdateBuilder.toSqlRaw (b : UpdateBuilder) : Except Error (String × List Arg) :=
  if b.table.isEmpty then .error (.build "update statements must specify a table")
  else if b.setClauses.isEmpty then
    .error (.build "update statements must have at least one Set clause")
  else
    let sets := b.setClauses.map SetClause.ToSql
    let w := whereToSql b.whereParts
    .ok ("UPDATE " ++ b.table ++ " SET " ++ ", ".intercalate (sets.map Prod.fst) ++ w.1,
         (sets.map Prod.snd).flatten ++ w.2)

/-- `UpdateBuilder.ToSql`. -/
def UpdateBuilder.ToSql (b : UpdateBuilder) : Except Error (String × List Arg) :=
  match b.toSqlRaw with
  | .error e => .error e
  | .ok r => .ok (dollar r.1, r.2)

/-- The statement text before placeholder replacement, and the arguments,
of `DeleteBuilder.ToSql`. -/
def DeleteBuilder.toSqlRaw (b : DeleteBuilder) : Except Error (String × List Arg) :=
  if b.table.isEmpty then .error (.build "delete statements must specify a From table")
  else
    let w := whereToSql b.whereParts
    .ok ("DELETE FROM " ++ b.table ++ w.1, w.2)

/-- `DeleteBuilder.ToSql`. -/
def DeleteBuilder.ToSql (b : DeleteBuilder) : Except Error (String × List Arg) :=
  match b.toSqlRaw with
  | .error e => .error e
  | .ok r => .ok (dollar r.1, r.2)

/-- The statement text before placeholder replacement, and the arguments,
of `InsertBuilder.ToSql`. -/
def InsertBuilder.toSqlRaw (b : InsertBuilder) : Except Error (String × List Arg) :=
  if b.table.isEmpty then .error (.build "insert statements must specify a table")
  else if b.values.isEmpty then
    .error (.build "insert statements must have at least one set of values or select clause")
  else
    let rows := b.values.map (fun row => row.map Arg.ToSql)
    .ok ("INSERT INTO " ++ b.table ++ " "
          ++ (if b.columns.isEmpty then "" else "(" ++ ",".intercalate b.columns ++ ") ")
          ++ "VALUES "
          ++ ",".intercalate (rows.map (fun row => "(" ++ ",".intercalate (row.map Prod.fst) ++ ")")),
         (rows.map (fun row => (row.map Prod.snd).flatten)).flatten)

/-- `InsertBuilder.ToSql`. -/
def InsertBuilder.ToSql (b : InsertBuilder) : Except Error (String × List Arg) :=
  match b.toSqlRaw with
  | .error e => .error e
  | .ok r => .ok (dollar r.1, r.2)

/-! ## Contexts, execution targets and round trips -/

/-- A `*sql.DB`, the connection pool. -/
structure DB where
  id : Nat
deriving DecidableEq, Repr

/-- A `sql.Tx`, an open transaction. -/
structure Tx where
  id : Nat
deriving DecidableEq, Repr

/-- The keys of context values: `TxKey` of `utils.go`, or any other key. -/
inductive CtxKey where
  | TxKey
  | other (n : Nat)
deriving DecidableEq, Repr

/-- The dynamic value stored under a context key: a `*sql.Tx` (possibly a nil
pointer), or a value of some other type. -/
inductive CtxValue where
  | tx (p : Option Tx)
  | other (n : Nat)
deriving DecidableEq, Repr

/-- A `context.Context`: its values, innermost `WithValue` first, and whether
it is cancelled. -/
structure Context where
  values : List (CtxKey × CtxValue)
  cancelled : Bool
deriving DecidableEq, Repr

/-- `ctx.Value(key)`: the innermost value stored under the key, `none` for the
nil interface. -/
def Context.Value (ctx : Context) (key : CtxKey) : Option CtxValue :=
  match ctx.values.find? (fun e => e.1 == key) with
  | some e => some e.2
  | none => none

/-- The handle a statement is executed on: the pool, or a `*sql.Tx`
(`none` for a method call on a nil `*sql.Tx`). -/
inductive Target where
  | pool (db : DB)
  | tx (p : Option Tx)
deriving DecidableEq, Repr

/-- The branch every terminal operation repeats:
`if tx, ok := ctx.Value(TxKey).(*sql.Tx); ok` uses `tx`, else `q.db`.
The type assertion succeeds on the dynamic type alone. -/
def resolveTarget (db : DB) (ctx : Context) : Target :=
  match ctx.Value CtxKey.TxKey with
  | some (CtxValue.tx p) => Target.tx p
  | _ => Target.pool db

/-- The `database/sql` method a terminal operation calls. -/
inductive Method where
  | ExecContext
  | QueryRowContext
  | QueryContext
deriving DecidableEq, Repr

/-- One statement handed to `database/sql`. -/
structure Call where
  target : Target
  method : Method
  ctx : Context
  query : String
  args : List Arg
deriving DecidableEq, Repr

/-- What a terminal operation does up to its round trip: it returns on its own
(with an error or with nil) and issues nothing, or it issues one statement and
then passes on what the driver answers. -/
inductive Outcome where
  | returned (err : Option Error)
  | roundTrip (call : Call)
deriving DecidableEq, Repr

/-- The shared tail of a terminal operation: a build error is wrapped and
returned, else the statement goes to the resolved target. -/
def issue (db : DB) (ctx : Context) (method : Method) (wrap : String)
    (built : Except Error (String × List Arg)) : Outcome :=
  match built with
  | .error e => .returned (some (.wrapf wrap e))
  | .ok r => .roundTrip ⟨resolveTarget db ctx, method, ctx, r.1, r.2⟩

/-- The bound point `sq.Expr("ST_SetSRID(ST_MakePoint(?, ?), 4326)", p.Lng, p.Lat)`. -/
def pointExpr (p : GeoPoint) : Arg :=
  .expr ⟨"ST_SetSRID(ST_MakePoint(?, ?), 4326)", [.float p.Lng, .float p.Lat]⟩

/-! ## petitions.go -/

/-- Source: `petitionsTable`. -/
def petitionsTable : String := "petitions"

/-- Source: `PetitionsQ`. -/
structure PetitionsQ where
  db : DB
  selector : SelectBuilder
  inserter : InsertBuilder
  updater : UpdateBuilder
  deleter : DeleteBuilder
  counter : SelectBuilder
deriving DecidableEq, Repr

/-- Source: `NewPetitionsQ`. -/
def NewPetitionsQ (db : DB) : PetitionsQ :=
  let selectCols := [
    "id",
    "city_id",
    "title",
    "description",
    "initiator_id",
    "address_to_id",
    "status",
    "signatures",
    "goal",
    "end_date",
    "created_at",
    "updated_at",
    "ST_Y(location) AS lat",
    "ST_X(location) AS lng"]
  { db := db,
    selector := selectFrom selectCols petitionsTable,
    inserter := insertInto petitionsTable,
    updater := updateTable petitionsTable,
    deleter := deleteFrom petitionsTable,
    counter := selectFrom ["COUNT(*) AS count"] petitionsTable }

/-- Source: `PetitionsQ.New`. -/
def PetitionsQ.New (q : PetitionsQ) : PetitionsQ :=
  NewPetitionsQ q.db

/-- Source: `InsertPetitionInput`. -/
structure InsertPetitionInput where
  ID : UUID
  CityID : UUID
  Title : String
  Description : String
  InitiatorID : UUID
  AddressToID : Option UUID
  Status : String
  Signatures : Int
  Goal : Int
  EndDate : Time
  CreatedAt : Time
  UpdatedAt : Time
  Location : Option GeoPoint
deriving DecidableEq, Repr

/-- Source: `PetitionsQ.Insert`. -/
def PetitionsQ.Insert (q : PetitionsQ) (ctx : Context) (inp : InsertPetitionInput) : Outcome :=
  let values : GoMap := [
    ("id", .val (.uuid inp.ID)),
    ("city_id", .val (.uuid inp.CityID)),
    ("title", .val (.str inp.Title)),
    ("description", .val (.str inp.Description)),
    ("initiator_id", .val (.uuid inp.InitiatorID)),
    ("address_to_id", .val (.uuidPtr inp.AddressToID)),
    ("status", .val (.str inp.Status)),
    ("signatures", .val (.int inp.Signatures)),
    ("goal", .val (.int inp.Goal)),
    ("end_date", .val (.time inp.EndDate)),
    ("created_at", .val (.time inp.CreatedAt)),
    ("updated_at", .val (.time inp.UpdatedAt))]
  let values :=
    match inp.Location with
    | some loc => values.set "location" (pointExpr loc)
    | none => values.set "location" (.val .null)
  issue q.db ctx .ExecContext ("building inserter query for table " ++ petitionsTable ++ ": ")
    (q.inserter.SetMap values).ToSql

/-- Source: `PetitionsQ.Get`, up to the round trip. -/
def PetitionsQ.Get (q : PetitionsQ) (ctx : Context) : Outcome :=
  issue q.db ctx .QueryRowContext ("building selector query for table " ++ petitionsTable ++ ": ")
    (q.selector.Limit 1).ToSql

/-- Source: `PetitionsQ.Select`, up to the round trip. -/
def PetitionsQ.Select (q : PetitionsQ) (ctx : Context) : Outcome :=
  issue q.db ctx .QueryContext ("building selector query for table " ++ petitionsTable ++ ": ")
    q.selector.ToSql

/-- Source: `UpdatePetitionInput`. A nil pointer is `none`; `AddressToID` is a
pointer to a pointer. -/
structure UpdatePetitionInput where
  Title : Option String
  Description : Option String
  AddressToID : Option (Option UUID)
  Status : Option String
  Goal : Option Int
  EndDate : Option Time
  UpdatedAt : Option Time
  Location : Option GeoPoint
deriving DecidableEq, Repr

/-- The map `updates` that `PetitionsQ.Update` fills before `len(updates) == 0`. -/
def PetitionsQ.updates (inp : UpdatePetitionInput) : GoMap :=
  let updates : GoMap := []
  let updates := match inp.Title with
    | some v => updates.set "title" (.val (.str v))
    | none => updates
  let updates := match inp.Description with
    | some v => updates.set "description" (.val (.str v))
    | none => updates
  let updates := match inp.AddressToID with
    | some v => updates.set "address_to_id" (.val (.uuidPtr v))
    | none => updates
  let updates := match inp.Status with
    | some v => updates.set "status" (.val (.str v))
    | none => updates
  let updates := match inp.Goal with
    | some v => updates.set "goal" (.val (.int v))
    | none => updates
  let updates := match inp.EndDate with
    | some v => updates.set "end_date" (.val (.time v))
    | none => updates
  let updates := match inp.UpdatedAt with
    | some v => updates.set "updated_at" (.val (.time v))
    | none => updates
  let updates := match inp.Location with
    | some loc => updates.set "location" (pointExpr loc)
    | none => updates
  updates

/-- Source: `PetitionsQ.Update`. -/
def PetitionsQ.Update (q : PetitionsQ) (ctx : Context) (inp : UpdatePetitionInput) : Outcome :=
  let updates := PetitionsQ.updates inp
  if updates.length = 0 then .returned none
  else
    issue q.db ctx .ExecContext ("building updater query for table " ++ petitionsTable ++ ": ")
      (q.updater.SetMap updates).ToSql

/-- Source: `PetitionsQ.Delete`. -/
def PetitionsQ.Delete (q : PetitionsQ) (ctx : Context) : Outcome :=
  issue q.db ctx .ExecContext ("building deleter query for table " ++ petitionsTable ++ ": ")
    q.deleter.ToSql

/-- Source: `PetitionsQ.FilterID`. -/
def PetitionsQ.FilterID (q : PetitionsQ) (id : UUID) : PetitionsQ :=
  let q := { q with selector := q.selector.Where (.eq "id" (.uuid id)) }
  let q := { q with counter := q.counter.Where (.eq "id" (.uuid id)) }
  let q := { q with updater := q.updater.Where (.eq "id" (.uuid id)) }
  let q := { q with deleter := q.deleter.Where (.eq "id" (.uuid id)) }
  q

/-- Source: `PetitionsQ.FilterCityID`. -/
def PetitionsQ.FilterCityID (q : PetitionsQ) (cityID : UUID) : PetitionsQ :=
  let q := { q with selector := q.selector.Where (.eq "city_id" (.uuid cityID)) }
  let q := { q with counter := q.counter.Where (.eq "city_id" (.uuid cityID)) }
  let q := { q with updater := q.updater.Where (.eq "city_id" (.uuid cityID)) }
  let q := { q with deleter := q.deleter.Where (.eq "city_id" (.uuid cityID)) }
  q

/-- Source: `PetitionsQ.FilterInitiatorID`. -/
def PetitionsQ.FilterInitiatorID (q : PetitionsQ) (initiatorID : UUID) : PetitionsQ :=
  let q := { q with selector := q.selector.Where (.eq "initiator_id" (.uuid initiatorID)) }
  let q := { q with counter := q.counter.Where (.eq "initiator_id" (.uuid initiatorID)) }
  let q := { q with updater := q.updater.Where (.eq "initiator_id" (.uuid initiatorID)) }
  let q := { q with deleter := q.deleter.Where (.eq "initiator_id" (.uuid initiatorID)) }
  q

/-- Source: `PetitionsQ.FilterStatus`. -/
def PetitionsQ.FilterStatus (q : PetitionsQ) (status : String) : PetitionsQ :=
  let q := { q with selector := q.selector.Where (.eq "status" (.str status)) }
  let q := { q with counter := q.counter.Where (.eq "status" (.str status)) }
  let q := { q with updater := q.updater.Where (.eq "status" (.str status)) }
  let q := { q with deleter := q.deleter.Where (.eq "status" (.str status)) }
  q

/-- Source: `PetitionsQ.TitleLike`. -/
def PetitionsQ.TitleLike (q : PetitionsQ) (s : String) : PetitionsQ :=
  let p := "%" ++ s ++ "%"
  let q := { q with selector := q.selector.Where (.str "title ILIKE ?" [.val (.str p)]) }
  let q := { q with counter := q.counter.Where (.str "title ILIKE ?" [.val (.str p)]) }
  q

/-- Source: `PetitionsQ.BBox`. -/
def PetitionsQ.BBox (q : PetitionsQ) (minLng minLat maxLng maxLat : Float64) : PetitionsQ :=
  let env : Arg := .expr ⟨"ST_MakeEnvelope(?, ?, ?, ?, 4326)",
    [.float minLng, .float minLat, .float maxLng, .float maxLat]⟩
  let q := { q with
    selector := q.selector.Where
      (.expr "location IS NOT NULL AND ST_Intersects(location, ?)" [env]) }
  let q := { q with
    counter := q.counter.Where
      (.expr "location IS NOT NULL AND ST_Intersects(location, ?)" [env]) }
  q

/-- Source: `PetitionsQ.WithinRadius`. -/
def PetitionsQ.WithinRadius (q : PetitionsQ) (lng lat radiusMeters : Float64) : PetitionsQ :=
  let pt : Arg := .expr ⟨"ST_SetSRID(ST_MakePoint(?, ?), 4326)", [.float lng, .float lat]⟩
  let q := { q with
    selector := q.selector.Where
      (.expr "location IS NOT NULL AND ST_DWithin(location::geography, (? )::geography, ?)"
        [pt, .val (.float radiusMeters)]) }
  let q := { q with
    counter := q.counter.Where
      (.expr "location IS NOT NULL AND ST_DWithin(location::geography, (? )::geography, ?)"
        [pt, .val (.float radiusMeters)]) }
  q

/-- Source: `PetitionsQ.Count`, up to the round trip. -/
def PetitionsQ.Count (q : PetitionsQ) (ctx : Context) : Outcome :=
  issue q.db ctx .QueryRowContext ("building count query for table " ++ petitionsTable ++ ": ")
    q.counter.ToSql

/-- Source: `PetitionsQ.Page`. -/
def PetitionsQ.Page (q : PetitionsQ) (limit offset : Nat) : PetitionsQ :=
  let q := { q with selector := (q.selector.Limit limit).Offset offset }
  let q := { q with counter := (q.counter.Limit limit).Offset offset }
  q

/-- Source: `PetitionsQ.IncrementSignatures`. -/
def PetitionsQ.IncrementSignatures (q : PetitionsQ) (ctx : Context) (delta : Int) : Outcome :=
  issue q.db ctx .ExecContext "building increment signatures query: "
    (q.updater.Set "signatures" (.expr ⟨"GREATEST(signatures + ?, 0)", [.int delta]⟩)).ToSql

/-! ## petition_signatures.go -/

/-- Source: `petitionSignaturesTable`. -/
def petitionSignaturesTable : String := "petition_signatures"

/-- Source: `PetitionSignaturesQ`. -/
structure PetitionSignaturesQ where
  db : DB
  selector : SelectBuilder
  inserter : InsertBuilder
  updater : UpdateBuilder
  deleter : DeleteBuilder
  counter : SelectBuilder
deriving DecidableEq, Repr

/-- Source: `NewPetitionSignaturesQ`. -/
def NewPetitionSignaturesQ (db : DB) : PetitionSignaturesQ :=
  { db := db,
    selector := selectFrom ["*"] petitionSignaturesTable,
    inserter := insertInto petitionSignaturesTable,
    updater := updateTable petitionSignaturesTable,
    deleter := deleteFrom petitionSignaturesTable,
    counter := selectFrom ["COUNT(*) AS count"] petitionSignaturesTable }

/-- Source: `PetitionSignaturesQ.New`. -/
def PetitionSignaturesQ.New (q : PetitionSignaturesQ) : PetitionSignaturesQ :=
  NewPetitionSignaturesQ q.db

/-- Source: `PetitionSignature`. -/
structure PetitionSignature where
  ID : UUID
  PetitionID : UUID
  UserID : UUID
  CreatedAt : Time
deriving DecidableEq, Repr

/-- Source: `PetitionSignaturesQ.Insert`. -/
def PetitionSignaturesQ.Insert (q : PetitionSignaturesQ) (ctx : Context) (inp : PetitionSignature) : Outcome :=
  let values : GoMap := [
    ("id", .val (.uuid inp.ID)),
    ("petition_id", .val (.uuid inp.PetitionID)),
    ("user_id", .val (.uuid inp.UserID)),
    ("created_at", .val (.time inp.CreatedAt))]
  issue q.db ctx .ExecContext ("building inserter query for table: " ++ petitionSignaturesTable ++ " input: ")
    (q.inserter.SetMap values).ToSql

/-- Source: `PetitionSignaturesQ.Get`, up to the round trip. -/
def PetitionSignaturesQ.Get (q : PetitionSignaturesQ) (ctx : Context) : Outcome :=
  issue q.db ctx .QueryRowContext ("building selector query for table: " ++ petitionSignaturesTable ++ ": ")
    (q.selector.Limit 1).ToSql

/-- Source: `PetitionSignaturesQ.Select`, up to the round trip. -/
def PetitionSignaturesQ.Select (q : PetitionSignaturesQ) (ctx : Context) : Outcome :=
  issue q.db ctx .QueryContext ("building selector query for table: " ++ petitionSignaturesTable ++ ": ")
    q.selector.ToSql

/-- Source: `PetitionSignaturesQ.Delete`. -/
def PetitionSignaturesQ.Delete (q : PetitionSignaturesQ) (ctx : Context) : Outcome :=
  issue q.db ctx .ExecContext ("building deleter query for table: " ++ petitionSignaturesTable ++ ": ")
    q.deleter.ToSql

/-- Source: `PetitionSignaturesQ.FilterID`. -/
def PetitionSignaturesQ.FilterID (q : PetitionSignaturesQ) (id : UUID) : PetitionSignaturesQ :=
  let q := { q with selector := q.selector.Where (.eq "id" (.uuid id)) }
  let q := { q with counter := q.counter.Where (.eq "id" (.uuid id)) }
  let q := { q with updater := q.updater.Where (.eq "id" (.uuid id)) }
  let q := { q with deleter := q.deleter.Where (.eq "id" (.uuid id)) }
  q

/-- Source: `PetitionSignaturesQ.FilterPetitionID`. -/
def PetitionSignaturesQ.FilterPetitionID (q : PetitionSignaturesQ) (petitionID : UUID) : PetitionSignaturesQ :=
  let q := { q with selector := q.selector.Where (.eq "petition_id" (.uuid petitionID)) }
  let q := { q with counter := q.counter.Where (.eq "petition_id" (.uuid petitionID)) }
  let q := { q with updater := q.updater.Where (.eq "petition_id" (.uuid petitionID)) }
  let q := { q with deleter := q.deleter.Where (.eq "petition_id" (.uuid petitionID)) }
  q

/-- Source: `PetitionSignaturesQ.FilterUserID`. -/
def PetitionSignaturesQ.FilterUserID (q : PetitionSignaturesQ) (userID : UUID) : PetitionSignaturesQ :=
  let q := { q with selector := q.selector.Where (.eq "user_id" (.uuid userID)) }
  let q := { q with counter := q.counter.Where (.eq "user_id" (.uuid userID)) }
  let q := { q with updater := q.updater.Where (.eq "user_id" (.uuid userID)) }
  let q := { q with deleter := q.deleter.Where (.eq "user_id" (.uuid userID)) }
  q

/-- Source: `PetitionSignaturesQ.Count`, up to the round trip. -/
def PetitionSignaturesQ.Count (q : PetitionSignaturesQ) (ctx : Context) : Outcome :=
  issue q.db ctx .QueryRowContext ("building count query for table: " ++ petitionSignaturesTable ++ ": ")
    q.counter.ToSql

/-- Source: `PetitionSignaturesQ.Page`. -/
def PetitionSignaturesQ.Page (q : PetitionSignaturesQ) (limit offset : Nat) : PetitionSignaturesQ :=
  let q := { q with selector := (q.selector.Limit limit).Offset offset }
  let q := { q with counter := (q.counter.Limit limit).Offset offset }
  q

/-! ## polls.go -/

/-- Source: `pollsTable`. -/
def pollsTable : String := "polls"

/-- Source: `PollsQ`. -/
structure PollsQ where
  db : DB
  selector : SelectBuilder
  inserter : InsertBuilder
  updater : UpdateBuilder
  deleter : DeleteBuilder
  counter : SelectBuilder
deriving DecidableEq, Repr

/-- Source: `NewPollsQ`. -/
def NewPollsQ (db : DB) : PollsQ :=
  let selectCols := [
    "id",
    "city_id",
    "title",
    "description",
    "status",
    "initiator_id",
    "end_date",
    "created_at",
    "updated_at",
    "ST_Y(location) AS lat",
    "ST_X(location) AS lng"]
  { db := db,
    selector := selectFrom selectCols pollsTable,
    inserter := insertInto pollsTable,
    updater := updateTable pollsTable,
    deleter := deleteFrom pollsTable,
    counter := selectFrom ["COUNT(*) AS count"] pollsTable }

/-- Source: `PollsQ.New`. -/
def PollsQ.New (q : PollsQ) : PollsQ :=
  NewPollsQ q.db

/-- Source: `InsertPollInput`. -/
structure InsertPollInput where
  ID : UUID
  CityID : UUID
  Title : String
  Description : String
  Status : String
  InitiatorID : UUID
  EndDate : Time
  CreatedAt : Time
  UpdatedAt : Time
  Location : Option GeoPoint
deriving DecidableEq, Repr

/-- Source: `PollsQ.Insert`. -/
def PollsQ.Insert (q : PollsQ) (ctx : Context) (inp : InsertPollInput) : Outcome :=
  let values : GoMap := [
    ("id", .val (.uuid inp.ID)),
    ("city_id", .val (.uuid inp.CityID)),
    ("title", .val (.str inp.Title)),
    ("description", .val (.str inp.Description)),
    ("status", .val (.str inp.Status)),
    ("initiator_id", .val (.uuid inp.InitiatorID)),
    ("end_date", .val (.time inp.EndDate)),
    ("created_at", .val (.time inp.CreatedAt)),
    ("updated_at", .val (.time inp.UpdatedAt))]
  let values :=
    match inp.Location with
    | some loc => values.set "location" (pointExpr loc)
    | none => values.set "location" (.val .null)
  issue q.db ctx .ExecContext ("building inserter query for table " ++ pollsTable ++ ": ")
    (q.inserter.SetMap values).ToSql

/-- Source: `UpdatePollInput`. A nil pointer is `none`. -/
structure UpdatePollInput where
  Title : Option String
  Description : Option String
  Status : Option String
  EndDate : Option Time
  UpdatedAt : Option Time
  Location : Option GeoPoint
deriving DecidableEq, Repr

/-- The map `updates` that `PollsQ.Update` fills before `len(updates) == 0`. -/
def PollsQ.updates (inp : UpdatePollInput) : GoMap :=
  let updates : GoMap := []
  let updates := match inp.Title with
    | some v => updates.set "title" (.val (.str v))
    | none => updates
  let updates := match inp.Description with
    | some v => updates.set "description" (.val (.str v))
    | none => updates
  let updates := match inp.Status with
    | some v => updates.set "status" (.val (.str v))
    | none => updates
  let updates := match inp.EndDate with
    | some v => updates.set "end_date" (.val (.time v))
    | none => updates
  let updates := match inp.UpdatedAt with
    | some v => updates.set "updated_at" (.val (.time v))
    | none => updates
  let updates := match inp.Location with
    | some loc => updates.set "location" (pointExpr loc)
    | none => updates
  updates

/-- Source: `PollsQ.Update`. -/
def PollsQ.Update (q : PollsQ) (ctx : Context) (inp : UpdatePollInput) : Outcome :=
  let updates := PollsQ.updates inp
  if updates.length = 0 then .returned none
  else
    issue q.db ctx .ExecContext ("building updater query for table " ++ pollsTable ++ ": ")
      (q.updater.SetMap updates).ToSql

/-- Source: `PollsQ.Delete`. -/
def PollsQ.Delete (q : PollsQ) (ctx : Context) : Outcome :=
  issue q.db ctx .ExecContext ("building deleter query for table " ++ pollsTable ++ ": ")
    q.deleter.ToSql

/-- Source: `PollsQ.Get`, up to the round trip. -/
def PollsQ.Get (q : PollsQ) (ctx : Context) : Outcome :=
  issue q.db ctx .QueryRowContext ("building selector query for table " ++ pollsTable ++ ": ")
    (q.selector.Limit 1).ToSql

/-- Source: `PollsQ.Select`, up to the round trip. -/
def PollsQ.Select (q : PollsQ) (ctx : Context) : Outcome :=
  issue q.db ctx .QueryContext ("building selector query for table " ++ pollsTable ++ ": ")
    q.selector.ToSql

/-- Source: `PollsQ.FilterID`. -/
def PollsQ.FilterID (q : PollsQ) (id : UUID) : PollsQ :=
  let q := { q with selector := q.selector.Where (.eq "id" (.uuid id)) }
  let q := { q with counter := q.counter.Where (.eq "id" (.uuid id)) }
  let q := { q with updater := q.updater.Where (.eq "id" (.uuid id)) }
  let q := { q with deleter := q.deleter.Where (.eq "id" (.uuid id)) }
  q

/-- Source: `PollsQ.FilterCityID`. -/
def PollsQ.FilterCityID (q : PollsQ) (cityID : UUID) : PollsQ :=
  let q := { q with selector := q.selector.Where (.eq "city_id" (.uuid cityID)) }
  let q := { q with counter := q.counter.Where (.eq "city_id" (.uuid cityID)) }
  let q := { q with updater := q.updater.Where (.eq "city_id" (.uuid cityID)) }
  let q := { q with deleter := q.deleter.Where (.eq "city_id" (.uuid cityID)) }
  q

/-- Source: `PollsQ.FilterInitiatorID`. -/
def PollsQ.FilterInitiatorID (q : PollsQ) (initiatorID : UUID) : PollsQ :=
  let q := { q with selector := q.selector.Where (.eq "initiator_id" (.uuid initiatorID)) }
  let q := { q with counter := q.counter.Where (.eq "initiator_id" (.uuid initiatorID)) }
  let q := { q with updater := q.updater.Where (.eq "initiator_id" (.uuid initiatorID)) }
  let q := { q with deleter := q.deleter.Where (.eq "initiator_id" (.uuid initiatorID)) }
  q

/-- Source: `PollsQ.FilterStatus`. -/
def PollsQ.FilterStatus (q : PollsQ) (status : String) : PollsQ :=
  let q := { q with selector := q.selector.Where (.eq "status" (.str status)) }
  let q := { q with counter := q.counter.Where (.eq "status" (.str status)) }
  let q := { q with updater := q.updater.Where (.eq "status" (.str status)) }
  let q := { q with deleter := q.deleter.Where (.eq "status" (.str status)) }
  q

/-- Source: `PollsQ.TitleLike`. -/
def PollsQ.TitleLike (q : PollsQ) (s : String) : PollsQ :=
  let p := "%" ++ s ++ "%"
  let q := { q with selector := q.selector.Where (.str "title ILIKE ?" [.val (.str p)]) }
  let q := { q with counter := q.counter.Where (.str "title ILIKE ?" [.val (.str p)]) }
  q

/-- Source: `PollsQ.BBox`. -/
def PollsQ.BBox (q : PollsQ) (minLng minLat maxLng maxLat : Float64) : PollsQ :=
  let env : Arg := .expr ⟨"ST_MakeEnvelope(?, ?, ?, ?, 4326)",
    [.float minLng, .float minLat, .float maxLng, .float maxLat]⟩
  let q := { q with
    selector := q.selector.Where
      (.expr "location IS NOT NULL AND ST_Intersects(location, ?)" [env]) }
  let q := { q with
    counter := q.counter.Where
      (.expr "location IS NOT NULL AND ST_Intersects(location, ?)" [env]) }
  q

/-- Source: `PollsQ.WithinRadius`. -/
def PollsQ.WithinRadius (q : PollsQ) (lng lat radiusMeters : Float64) : PollsQ :=
  let pt : Arg := .expr ⟨"ST_SetSRID(ST_MakePoint(?, ?), 4326)", [.float lng, .float lat]⟩
  let q := { q with
    selector := q.selector.Where
      (.expr "location IS NOT NULL AND ST_DWithin(location::geography, (? )::geography, ?)"
        [pt, .val (.float radiusMeters)]) }
  let q := { q with
    counter := q.counter.Where
      (.expr "location IS NOT NULL AND ST_DWithin(location::geography, (? )::geography, ?)"
        [pt, .val (.float radiusMeters)]) }
  q

/-- Source: `PollsQ.Count`, up to the round trip. -/
def PollsQ.Count (q : PollsQ) (ctx : Context) : Outcome :=
  issue q.db ctx .QueryRowContext ("building count query for table " ++ pollsTable ++ ": ")
    q.counter.ToSql

/-- Source: `PollsQ.Page`. -/
def PollsQ.Page (q : PollsQ) (limit offset : Nat) : PollsQ :=
  let q := { q with selector := (q.selector.Limit limit).Offset offset }
  let q := { q with counter := (q.counter.Limit limit).Offset offset }
  q

/-! ## poll_options.go -/

/-- Source: `pollOptionsTable`. -/
def pollOptionsTable : String := "poll_options"

/-- Source: `PollOptionsQ`. -/
structure PollOptionsQ where
  db : DB
  selector : SelectBuilder
  inserter : InsertBuilder
  updater : UpdateBuilder
  deleter : DeleteBuilder
  counter : SelectBuilder
deriving DecidableEq, Repr

/-- Source: `NewPollOptionsQ`. -/
def NewPollOptionsQ (db : DB) : PollOptionsQ :=
  let selectCols := [
    "id",
    "poll_id",
    "option_text",
    "votes_count",
    "created_at"]
  { db := db,
    selector := selectFrom selectCols pollOptionsTable,
    inserter := insertInto pollOptionsTable,
    updater := updateTable pollOptionsTable,
    deleter := deleteFrom pollOptionsTable,
    counter := selectFrom ["COUNT(*) AS count"] pollOptionsTable }

/-- Source: `PollOptionsQ.New`. -/
def PollOptionsQ.New (q : PollOptionsQ) : PollOptionsQ :=
  NewPollOptionsQ q.db

/-- Source: `InsertPollOptionInput`. -/
structure InsertPollOptionInput where
  ID : UUID
  PollID : UUID
  OptionText : String
  CreatedAt : Time
deriving DecidableEq, Repr

/-- Source: `PollOptionsQ.Insert`. -/
def PollOptionsQ.Insert (q : PollOptionsQ) (ctx : Context) (inp : InsertPollOptionInput) : Outcome :=
  let values : GoMap := [
    ("id", .val (.uuid inp.ID)),
    ("poll_id", .val (.uuid inp.PollID)),
    ("option_text", .val (.str inp.OptionText)),
    ("created_at", .val (.time inp.CreatedAt))]
  issue q.db ctx .ExecContext ("building inserter query for table " ++ pollOptionsTable ++ ": ")
    (q.inserter.SetMap values).ToSql

/-- Source: `PollOptionsQ.Get`, up to the round trip. -/
def PollOptionsQ.Get (q : PollOptionsQ) (ctx : Context) : Outcome :=
  issue q.db ctx .QueryRowContext ("building selector query for table " ++ pollOptionsTable ++ ": ")
    (q.selector.Limit 1).ToSql

/-- Source: `PollOptionsQ.Select`, up to the round trip. -/
def PollOptionsQ.Select (q : PollOptionsQ) (ctx : Context) : Outcome :=
  issue q.db ctx .QueryContext ("building selector query for table " ++ pollOptionsTable ++ ": ")
    q.selector.ToSql

/-- Source: `PollOptionsQ.Delete`. -/
def PollOptionsQ.Delete (q : PollOptionsQ) (ctx : Context) : Outcome :=
  issue q.db ctx .ExecContext ("building deleter query for table " ++ pollOptionsTable ++ ": ")
    q.deleter.ToSql

/-- Source: `PollOptionsQ.FilterID`. -/
def PollOptionsQ.FilterID (q : PollOptionsQ) (id : UUID) : PollOptionsQ :=
  let q := { q with selector := q.selector.Where (.eq "id" (.uuid id)) }
  let q := { q with counter := q.counter.Where (.eq "id" (.uuid id)) }
  let q := { q with updater := q.updater.Where (.eq "id" (.uuid id)) }
  let q := { q with deleter := q.deleter.Where (.eq "id" (.uuid id)) }
  q

/-- Source: `PollOptionsQ.FilterPollID`. -/
def PollOptionsQ.FilterPollID (q : PollOptionsQ) (pollID : UUID) : PollOptionsQ :=
  let q := { q with selector := q.selector.Where (.eq "poll_id" (.uuid pollID)) }
  let q := { q with counter := q.counter.Where (.eq "poll_id" (.uuid pollID)) }
  let q := { q with updater := q.updater.Where (.eq "poll_id" (.uuid pollID)) }
  let q := { q with deleter := q.deleter.Where (.eq "poll_id" (.uuid pollID)) }
  q

/-- Source: `PollOptionsQ.OrderByCreatedAsc`. -/
def PollOptionsQ.OrderByCreatedAsc (q : PollOptionsQ) : PollOptionsQ :=
  let q := { q with selector := q.selector.OrderBy "created_at ASC" }
  q

/-- Source: `PollOptionsQ.OrderByCreatedDesc`. -/
def PollOptionsQ.OrderByCreatedDesc (q : PollOptionsQ) : PollOptionsQ :=
  let q := { q with selector := q.selector.OrderBy "created_at DESC" }
  q

/-- Source: `PollOptionsQ.OrderByVotesDesc`. -/
def PollOptionsQ.OrderByVotesDesc (q : PollOptionsQ) : PollOptionsQ :=
  let q := { q with selector := q.selector.OrderBy "votes_count DESC" }
  q

/-- Source: `PollOptionsQ.Count`, up to the round trip. -/
def PollOptionsQ.Count (q : PollOptionsQ) (ctx : Context) : Outcome :=
  issue q.db ctx .QueryRowContext ("building count query for table " ++ pollOptionsTable ++ ": ")
    q.counter.ToSql

/-- Source: `PollOptionsQ.Page`. -/
def PollOptionsQ.Page (q : PollOptionsQ) (limit offset : Nat) : PollOptionsQ :=
  let q := { q with selector := (q.selector.Limit limit).Offset offset }
  let q := { q with counter := (q.counter.Limit limit).Offset offset }
  q

/-! ## poll_votes.go -/

/-- Source: `pollVotesTable`. -/
def pollVotesTable : String := "poll_votes"

/-- Source: `PollVotesQ`. -/
structure PollVotesQ where
  db : DB
  selector : SelectBuilder
  inserter : InsertBuilder
  updater : UpdateBuilder
  deleter : DeleteBuilder
  counter : SelectBuilder
deriving DecidableEq, Repr

/-- Source: `NewPollVotesQ`. -/
def NewPollVotesQ (db : DB) : PollVotesQ :=
  let selectCols := [
    "id",
    "poll_id",
    "user_id",
    "option_id",
    "created_at"]
  { db := db,
    selector := selectFrom selectCols pollVotesTable,
    inserter := insertInto pollVotesTable,
    updater := updateTable pollVotesTable,
    deleter := deleteFrom pollVotesTable,
    counter := selectFrom ["COUNT(*) AS count"] pollVotesTable }

/-- Source: `PollVotesQ.New`. -/
def PollVotesQ.New (q : PollVotesQ) : PollVotesQ :=
  NewPollVotesQ q.db

/-- Source: `InsertPollVoteInput`. -/
structure InsertPollVoteInput where
  ID : UUID
  PollID : UUID
  UserID : UUID
  OptionID : UUID
  CreatedAt : Time
deriving DecidableEq, Repr

/-- Source: `PollVotesQ.Insert`. -/
def PollVotesQ.Insert (q : PollVotesQ) (ctx : Context) (inp : InsertPollVoteInput) : Outcome :=
  let values : GoMap := [
    ("id", .val (.uuid inp.ID)),
    ("poll_id", .val (.uuid inp.PollID)),
    ("user_id", .val (.uuid inp.UserID)),
    ("option_id", .val (.uuid inp.OptionID)),
    ("created_at", .val (.time inp.CreatedAt))]
  issue q.db ctx .ExecContext ("building inserter query for table " ++ pollVotesTable ++ ": ")
    (q.inserter.SetMap values).ToSql

/-- Source: `PollVotesQ.Get`, up to the round trip. -/
def PollVotesQ.Get (q : PollVotesQ) (ctx : Context) : Outcome :=
  issue q.db ctx .QueryRowContext ("building selector query for table " ++ pollVotesTable ++ ": ")
    (q.selector.Limit 1).ToSql

/-- Source: `PollVotesQ.Select`, up to the round trip. -/
def PollVotesQ.Select (q : PollVotesQ) (ctx : Context) : Outcome :=
  issue q.db ctx .QueryContext ("building selector query for table " ++ pollVotesTable ++ ": ")
    q.selector.ToSql

/-- Source: `UpdatePollVoteInput`. A nil pointer is `none`. -/
structure UpdatePollVoteInput where
  OptionID : Option UUID
deriving DecidableEq, Repr

/-- The map `updates` that `PollVotesQ.Update` fills before `len(updates) == 0`. -/
def PollVotesQ.updates (inp : UpdatePollVoteInput) : GoMap :=
  let updates : GoMap := []
  let updates := match inp.OptionID with
    | some v => updates.set "option_id" (.val (.uuid v))
    | none => updates
  updates

/-- Source: `PollVotesQ.Update`. -/
def PollVotesQ.Update (q : PollVotesQ) (ctx : Context) (inp : UpdatePollVoteInput) : Outcome :=
  let updates := PollVotesQ.updates inp
  if updates.length = 0 then .returned none
  else
    issue q.db ctx .ExecContext ("building updater query for table " ++ pollVotesTable ++ ": ")
      (q.updater.SetMap updates).ToSql

/-- Source: `PollVotesQ.Delete`. -/
def PollVotesQ.Delete (q : PollVotesQ) (ctx : Context) : Outcome :=
  issue q.db ctx .ExecContext ("building deleter query for table " ++ pollVotesTable ++ ": ")
    q.deleter.ToSql

/-- Source: `PollVotesQ.FilterID`. -/
def PollVotesQ.FilterID (q : PollVotesQ) (id : UUID) : PollVotesQ :=
  let q := { q with selector := q.selector.Where (.eq "id" (.uuid id)) }
  let q := { q with counter := q.counter.Where (.eq "id" (.uuid id)) }
  let q := { q with updater := q.updater.Where (.eq "id" (.uuid id)) }
  let q := { q with deleter := q.deleter.Where (.eq "id" (.uuid id)) }
  q

/-- Source: `PollVotesQ.FilterPollID`. -/
def PollVotesQ.FilterPollID (q : PollVotesQ) (pollID : UUID) : PollVotesQ :=
  let q := { q with selector := q.selector.Where (.eq "poll_id" (.uuid pollID)) }
  let q := { q with counter := q.counter.Where (.eq "poll_id" (.uuid pollID)) }
  let q := { q with updater := q.updater.Where (.eq "poll_id" (.uuid pollID)) }
  let q := { q with deleter := q.deleter.Where (.eq "poll_id" (.uuid pollID)) }
  q

/-- Source: `PollVotesQ.FilterUserID`. -/
def PollVotesQ.FilterUserID (q : PollVotesQ) (userID : UUID) : PollVotesQ :=
  let q := { q with selector := q.selector.Where (.eq "user_id" (.uuid userID)) }
  let q := { q with counter := q.counter.Where (.eq "user_id" (.uuid userID)) }
  let q := { q with updater := q.updater.Where (.eq "user_id" (.uuid userID)) }
  let q := { q with deleter := q.deleter.Where (.eq "user_id" (.uuid userID)) }
  q

/-- Source: `PollVotesQ.FilterOptionID`. -/
def PollVotesQ.FilterOptionID (q : PollVotesQ) (optionID : UUID) : PollVotesQ :=
  let q := { q with selector := q.selector.Where (.eq "option_id" (.uuid optionID)) }
  let q := { q with counter := q.counter.Where (.eq "option_id" (.uuid optionID)) }
  let q := { q with updater := q.updater.Where (.eq "option_id" (.uuid optionID)) }
  let q := { q with deleter := q.deleter.Where (.eq "option_id" (.uuid optionID)) }
  q

/-- Source: `PollVotesQ.OrderByCreatedAsc`. -/
def PollVotesQ.OrderByCreatedAsc (q : PollVotesQ) : PollVotesQ :=
  let q := { q with selector := q.selector.OrderBy "created_at ASC" }
  q

/-- Source: `PollVotesQ.OrderByCreatedDesc`. -/
def PollVotesQ.OrderByCreatedDesc (q : PollVotesQ) : PollVotesQ :=
  let q := { q with selector := q.selector.OrderBy "created_at DESC" }
  q

/-- Source: `PollVotesQ.Page`. -/
def PollVotesQ.Page (q : PollVotesQ) (limit offset : Nat) : PollVotesQ :=
  let q := { q with selector := (q.selector.Limit limit).Offset offset }
  let q := { q with counter := (q.counter.Limit limit).Offset offset }
  q

/-- Source: `PollVotesQ.Count`, up to the round trip. -/
def PollVotesQ.Count (q : PollVotesQ) (ctx : Context) : Outcome :=
  issue q.db ctx .QueryRowContext ("building count query for table " ++ pollVotesTable ++ ": ")
    q.counter.ToSql

/-! ## proposals.go -/

/-- Source: `proposalsTable`. -/
def proposalsTable : String := "proposals"

/-- Source: `ProposalsQ`. -/
structure ProposalsQ where
  db : DB
  selector : SelectBuilder
  inserter : InsertBuilder
  updater : UpdateBuilder
  deleter : DeleteBuilder
  counter : SelectBuilder
deriving DecidableEq, Repr

/-- Source: `NewProposalsQ`. -/
def NewProposalsQ (db : DB) : ProposalsQ :=
  let selectCols := [
    "id",
    "city_id",
    "title",
    "description",
    "status",
    "initiator_id",
    "address_to_id",
    "agreed_num",
    "disagreed_num",
    "end_date",
    "created_at",
    "updated_at",
    "ST_Y(location) AS lat",
    "ST_X(location) AS lng"]
  { db := db,
    selector := selectFrom selectCols proposalsTable,
    inserter := insertInto proposalsTable,
    updater := updateTable proposalsTable,
    deleter := deleteFrom proposalsTable,
    counter := selectFrom ["COUNT(*) AS count"] proposalsTable }

/-- Source: `ProposalsQ.New`. -/
def ProposalsQ.New (q : ProposalsQ) : ProposalsQ :=
  NewProposalsQ q.db

/-- Source: `InsertProposalInput`. -/
structure InsertProposalInput where
  ID : UUID
  CityID : UUID
  Title : String
  Description : String
  Status : String
  InitiatorID : UUID
  AddressToID : Option UUID
  EndDate : Time
  CreatedAt : Time
  UpdatedAt : Time
  Location : Option GeoPoint
deriving DecidableEq, Repr

/-- Source: `ProposalsQ.Insert`. -/
def ProposalsQ.Insert (q : ProposalsQ) (ctx : Context) (inp : InsertProposalInput) : Outcome :=
  let values : GoMap := [
    ("id", .val (.uuid inp.ID)),
    ("city_id", .val (.uuid inp.CityID)),
    ("title", .val (.str inp.Title)),
    ("description", .val (.str inp.Description)),
    ("status", .val (.str inp.Status)),
    ("initiator_id", .val (.uuid inp.InitiatorID)),
    ("address_to_id", .val (.uuidPtr inp.AddressToID)),
    ("end_date", .val (.time inp.EndDate)),
    ("created_at", .val (.time inp.CreatedAt)),
    ("updated_at", .val (.time inp.UpdatedAt))]
  let values :=
    match inp.Location with
    | some loc => values.set "location" (pointExpr loc)
    | none => values.set "location" (.val .null)
  issue q.db ctx .ExecContext ("building inserter query for table " ++ proposalsTable ++ ": ")
    (q.inserter.SetMap values).ToSql

/-- Source: `ProposalsQ.Get`, up to the round trip. -/
def ProposalsQ.Get (q : ProposalsQ) (ctx : Context) : Outcome :=
  issue q.db ctx .QueryRowContext ("building selector query for table " ++ proposalsTable ++ ": ")
    (q.selector.Limit 1).ToSql

/-- Source: `ProposalsQ.Select`, up to the round trip. -/
def ProposalsQ.Select (q : ProposalsQ) (ctx : Context) : Outcome :=
  issue q.db ctx .QueryContext ("building selector query for table " ++ proposalsTable ++ ": ")
    q.selector.ToSql

/-- Source: `UpdateProposalInput`. A nil pointer is `none`; `AddressToID` is a
pointer to a pointer. -/
structure UpdateProposalInput where
  Title : Option String
  Description : Option String
  Status : Option String
  AddressToID : Option (Option UUID)
  EndDate : Option Time
  UpdatedAt : Option Time
  Location : Option GeoPoint
deriving DecidableEq, Repr

/-- The map `updates` that `ProposalsQ.Update` fills before `len(updates) == 0`. -/
def ProposalsQ.updates (inp : UpdateProposalInput) : GoMap :=
  let updates : GoMap := []
  let updates := match inp.Title with
    | some v => updates.set "title" (.val (.str v))
    | none => updates
  let updates := match inp.Description with
    | some v => updates.set "description" (.val (.str v))
    | none => updates
  let updates := match inp.Status with
    | some v => updates.set "status" (.val (.str v))
    | none => updates
  let updates := match inp.AddressToID with
    | some v => updates.set "address_to_id" (.val (.uuidPtr v))
    | none => updates
  let updates := match inp.EndDate with
    | some v => updates.set "end_date" (.val (.time v))
    | none => updates
  let updates := match inp.UpdatedAt with
    | some v => updates.set "updated_at" (.val (.time v))
    | none => updates
  let updates := match inp.Location with
    | some loc => updates.set "location" (pointExpr loc)
    | none => updates
  updates

/-- Source: `ProposalsQ.Update`. -/
def ProposalsQ.Update (q : ProposalsQ) (ctx : Context) (inp : UpdateProposalInput) : Outcome :=
  let updates := ProposalsQ.updates inp
  if updates.length = 0 then .returned none
  else
    issue q.db ctx .ExecContext ("building updater query for table " ++ proposalsTable ++ ": ")
      (q.updater.SetMap updates).ToSql

/-- Source: `ProposalsQ.Delete`. -/
def ProposalsQ.Delete (q : ProposalsQ) (ctx : Context) : Outcome :=
  issue q.db ctx .ExecContext ("building deleter query for table " ++ proposalsTable ++ ": ")
    q.deleter.ToSql

/-- Source: `ProposalsQ.FilterID`. -/
def ProposalsQ.FilterID (q : ProposalsQ) (id : UUID) : ProposalsQ :=
  let q := { q with selector := q.selector.Where (.eq "id" (.uuid id)) }
  let q := { q with counter := q.counter.Where (.eq "id" (.uuid id)) }
  let q := { q with updater := q.updater.Where (.eq "id" (.uuid id)) }
  let q := { q with deleter := q.deleter.Where (.eq "id" (.uuid id)) }
  q

/-- Source: `ProposalsQ.FilterCityID`. -/
def ProposalsQ.FilterCityID (q : ProposalsQ) (cityID : UUID) : ProposalsQ :=
  let q := { q with selector := q.selector.Where (.eq "city_id" (.uuid cityID)) }
  let q := { q with counter := q.counter.Where (.eq "city_id" (.uuid cityID)) }
  let q := { q with updater := q.updater.Where (.eq "city_id" (.uuid cityID)) }
  let q := { q with deleter := q.deleter.Where (.eq "city_id" (.uuid cityID)) }
  q

/-- Source: `ProposalsQ.FilterInitiatorID`. -/
def ProposalsQ.FilterInitiatorID (q : ProposalsQ) (initiatorID : UUID) : ProposalsQ :=
  let q := { q with selector := q.selector.Where (.eq "initiator_id" (.uuid initiatorID)) }
  let q := { q with counter := q.counter.Where (.eq "initiator_id" (.uuid initiatorID)) }
  let q := { q with updater := q.updater.Where (.eq "initiator_id" (.uuid initiatorID)) }
  let q := { q with deleter := q.deleter.Where (.eq "initiator_id" (.uuid initiatorID)) }
  q

/-- Source: `ProposalsQ.FilterStatus`. -/
def ProposalsQ.FilterStatus (q : ProposalsQ) (status : String) : ProposalsQ :=
  let q := { q with selector := q.selector.Where (.eq "status" (.str status)) }
  let q := { q with counter := q.counter.Where (.eq "status" (.str status)) }
  let q := { q with updater := q.updater.Where (.eq "status" (.str status)) }
  let q := { q with deleter := q.deleter.Where (.eq "status" (.str status)) }
  q

/-- Source: `ProposalsQ.FilterAddressedTo`. -/
def ProposalsQ.FilterAddressedTo (q : ProposalsQ) (addressToID : UUID) : ProposalsQ :=
  let q := { q with selector := q.selector.Where (.eq "address_to_id" (.uuid addressToID)) }
  let q := { q with counter := q.counter.Where (.eq "address_to_id" (.uuid addressToID)) }
  let q := { q with updater := q.updater.Where (.eq "address_to_id" (.uuid addressToID)) }
  let q := { q with deleter := q.deleter.Where (.eq "address_to_id" (.uuid addressToID)) }
  q

/-- Source: `ProposalsQ.FilterAddressedToCityGov`. -/
def ProposalsQ.FilterAddressedToCityGov (q : ProposalsQ) : ProposalsQ :=
  let q := { q with selector := q.selector.Where (.str "address_to_id IS NULL" []) }
  let q := { q with counter := q.counter.Where (.str "address_to_id IS NULL" []) }
  let q := { q with updater := q.updater.Where (.str "address_to_id IS NULL" []) }
  let q := { q with deleter := q.deleter.Where (.str "address_to_id IS NULL" []) }
  q

/-- Source: `ProposalsQ.TitleLike`. -/
def ProposalsQ.TitleLike (q : ProposalsQ) (s : String) : ProposalsQ :=
  let p := "%" ++ s ++ "%"
  let q := { q with selector := q.selector.Where (.str "title ILIKE ?" [.val (.str p)]) }
  let q := { q with counter := q.counter.Where (.str "title ILIKE ?" [.val (.str p)]) }
  q

/-- Source: `ProposalsQ.BBox`. -/
def ProposalsQ.BBox (q : ProposalsQ) (minLng minLat maxLng maxLat : Float64) : ProposalsQ :=
  let env : Arg := .expr ⟨"ST_MakeEnvelope(?, ?, ?, ?, 4326)",
    [.float minLng, .float minLat, .float maxLng, .float maxLat]⟩
  let q := { q with
    selector := q.selector.Where
      (.expr "location IS NOT NULL AND ST_Intersects(location, ?)" [env]) }
  let q := { q with
    counter := q.counter.Where
      (.expr "location IS NOT NULL AND ST_Intersects(location, ?)" [env]) }
  q

/-- Source: `ProposalsQ.WithinRadius`. -/
def ProposalsQ.WithinRadius (q : ProposalsQ) (lng lat radiusMeters : Float64) : ProposalsQ :=
  let pt : Arg := .expr ⟨"ST_SetSRID(ST_MakePoint(?, ?), 4326)", [.float lng, .float lat]⟩
  let q := { q with
    selector := q.selector.Where
      (.expr "location IS NOT NULL AND ST_DWithin(location::geography, (? )::geography, ?)"
        [pt, .val (.float radiusMeters)]) }
  let q := { q with
    counter := q.counter.Where
      (.expr "location IS NOT NULL AND ST_DWithin(location::geography, (? )::geography, ?)"
        [pt, .val (.float radiusMeters)]) }
  q

/-- Source: `ProposalsQ.OrderByCreatedAsc`. -/
def ProposalsQ.OrderByCreatedAsc (q : ProposalsQ) : ProposalsQ :=
  let q := { q with selector := q.selector.OrderBy "created_at ASC" }
  q

/-- Source: `ProposalsQ.OrderByCreatedDesc`. -/
def ProposalsQ.OrderByCreatedDesc (q : ProposalsQ) : ProposalsQ :=
  let q := { q with selector := q.selector.OrderBy "created_at DESC" }
  q

/-- Source: `ProposalsQ.OrderByAgreedDesc`. -/
def ProposalsQ.OrderByAgreedDesc (q : ProposalsQ) : ProposalsQ :=
  let q := { q with selector := q.selector.OrderBy "agreed_num DESC" }
  q

/-- Source: `ProposalsQ.OrderByDisagreedDesc`. -/
def ProposalsQ.OrderByDisagreedDesc (q : ProposalsQ) : ProposalsQ :=
  let q := { q with selector := q.selector.OrderBy "disagreed_num DESC" }
  q

/-- Source: `ProposalsQ.Page`. -/
def ProposalsQ.Page (q : ProposalsQ) (limit offset : Nat) : ProposalsQ :=
  let q := { q with selector := (q.selector.Limit limit).Offset offset }
  let q := { q with counter := (q.counter.Limit limit).Offset offset }
  q

/-- Source: `ProposalsQ.Count`, up to the round trip. -/
def ProposalsQ.Count (q : ProposalsQ) (ctx : Context) : Outcome :=
  issue q.db ctx .QueryRowContext ("building count query for table " ++ proposalsTable ++ ": ")
    q.counter.ToSql

/-! ## proposal_votes.go -/

/-- Source: `proposalVotesTable`. -/
def proposalVotesTable : String := "proposal_votes"

/-- Source: `ProposalVotesQ`. -/
structure ProposalVotesQ where
  db : DB
  selector : SelectBuilder
  inserter : InsertBuilder
  updater : UpdateBuilder
  deleter : DeleteBuilder
  counter : SelectBuilder
deriving DecidableEq, Repr

/-- Source: `NewProposalVotesQ`. -/
def NewProposalVotesQ (db : DB) : ProposalVotesQ :=
  let selectCols := [
    "id",
    "proposal_id",
    "user_id",
    "vote",
    "created_at"]
  { db := db,
    selector := selectFrom selectCols proposalVotesTable,
    inserter := insertInto proposalVotesTable,
    updater := updateTable proposalVotesTable,
    deleter := deleteFrom proposalVotesTable,
    counter := selectFrom ["COUNT(*) AS count"] proposalVotesTable }

/-- Source: `ProposalVotesQ.New`. -/
def ProposalVotesQ.New (q : ProposalVotesQ) : ProposalVotesQ :=
  NewProposalVotesQ q.db

/-- Source: `InsertProposalVoteInput`. -/
structure InsertProposalVoteInput where
  ID : UUID
  ProposalID : UUID
  UserID : UUID
  Vote : Bool
  CreatedAt : Time
deriving DecidableEq, Repr

/-- Source: `ProposalVotesQ.Insert`. -/
def ProposalVotesQ.Insert (q : ProposalVotesQ) (ctx : Context) (inp : InsertProposalVoteInput) : Outcome :=
  let values : GoMap := [
    ("id", .val (.uuid inp.ID)),
    ("proposal_id", .val (.uuid inp.ProposalID)),
    ("user_id", .val (.uuid inp.UserID)),
    ("vote", .val (.bool inp.Vote)),
    ("created_at", .val (.time inp.CreatedAt))]
  issue q.db ctx .ExecContext ("building inserter query for table " ++ proposalVotesTable ++ ": ")
    (q.inserter.SetMap values).ToSql

/-- Source: `ProposalVotesQ.Get`, up to the round trip. -/
def ProposalVotesQ.Get (q : ProposalVotesQ) (ctx : Context) : Outcome :=
  issue q.db ctx .QueryRowContext ("building selector query for table " ++ proposalVotesTable ++ ": ")
    (q.selector.Limit 1).ToSql

/-- Source: `ProposalVotesQ.Select`, up to the round trip. -/
def ProposalVotesQ.Select (q : ProposalVotesQ) (ctx : Context) : Outcome :=
  issue q.db ctx .QueryContext ("building selector query for table " ++ proposalVotesTable ++ ": ")
    q.selector.ToSql

/-- Source: `UpdateProposalVoteInput`. A nil pointer is `none`. -/
structure UpdateProposalVoteInput where
  Vote : Option Bool
deriving DecidableEq, Repr

/-- The map `updates` that `ProposalVotesQ.Update` fills before `len(updates) == 0`. -/
def ProposalVotesQ.updates (inp : UpdateProposalVoteInput) : GoMap :=
  let updates : GoMap := []
  let updates := match inp.Vote with
    | some v => updates.set "vote" (.val (.bool v))
    | none => updates
  updates

/-- Source: `ProposalVotesQ.Update`. -/
def ProposalVotesQ.Update (q : ProposalVotesQ) (ctx : Context) (inp : UpdateProposalVoteInput) : Outcome :=
  let updates := ProposalVotesQ.updates inp
  if updates.length = 0 then .returned none
  else
    issue q.db ctx .ExecContext ("building updater query for table " ++ proposalVotesTable ++ ": ")
      (q.updater.SetMap updates).ToSql

/-- Source: `ProposalVotesQ.Delete`. -/
def ProposalVotesQ.Delete (q : ProposalVotesQ) (ctx : Context) : Outcome :=
  issue q.db ctx .ExecContext ("building deleter query for table " ++ proposalVotesTable ++ ": ")
    q.deleter.ToSql

/-- Source: `ProposalVotesQ.FilterID`. -/
def ProposalVotesQ.FilterID (q : ProposalVotesQ) (id : UUID) : ProposalVotesQ :=
  let q := { q with selector := q.selector.Where (.eq "id" (.uuid id)) }
  let q := { q with counter := q.counter.Where (.eq "id" (.uuid id)) }
  let q := { q with updater := q.updater.Where (.eq "id" (.uuid id)) }
  let q := { q with deleter := q.deleter.Where (.eq "id" (.uuid id)) }
  q

/-- Source: `ProposalVotesQ.FilterProposalID`. -/
def ProposalVotesQ.FilterProposalID (q : ProposalVotesQ) (proposalID : UUID) : ProposalVotesQ :=
  let q := { q with selector := q.selector.Where (.eq "proposal_id" (.uuid proposalID)) }
  let q := { q with counter := q.counter.Where (.eq "proposal_id" (.uuid proposalID)) }
  let q := { q with updater := q.updater.Where (.eq "proposal_id" (.uuid proposalID)) }
  let q := { q with deleter := q.deleter.Where (.eq "proposal_id" (.uuid proposalID)) }
  q

/-- Source: `ProposalVotesQ.FilterUserID`. -/
def ProposalVotesQ.FilterUserID (q : ProposalVotesQ) (userID : UUID) : ProposalVotesQ :=
  let q := { q with selector := q.selector.Where (.eq "user_id" (.uuid userID)) }
  let q := { q with counter := q.counter.Where (.eq "user_id" (.uuid userID)) }
  let q := { q with updater := q.updater.Where (.eq "user_id" (.uuid userID)) }
  let q := { q with deleter := q.deleter.Where (.eq "user_id" (.uuid userID)) }
  q

/-- Source: `ProposalVotesQ.FilterVote`. -/
def ProposalVotesQ.FilterVote (q : ProposalVotesQ) (v : Bool) : ProposalVotesQ :=
  let q := { q with selector := q.selector.Where (.eq "vote" (.bool v)) }
  let q := { q with counter := q.counter.Where (.eq "vote" (.bool v)) }
  let q := { q with updater := q.updater.Where (.eq "vote" (.bool v)) }
  let q := { q with deleter := q.deleter.Where (.eq "vote" (.bool v)) }
  q

/-- Source: `ProposalVotesQ.OrderByCreatedAsc`. -/
def ProposalVotesQ.OrderByCreatedAsc (q : ProposalVotesQ) : ProposalVotesQ :=
  let q := { q with selector := q.selector.OrderBy "created_at ASC" }
  q

/-- Source: `ProposalVotesQ.OrderByCreatedDesc`. -/
def ProposalVotesQ.OrderByCreatedDesc (q : ProposalVotesQ) : ProposalVotesQ :=
  let q := { q with selector := q.selector.OrderBy "created_at DESC" }
  q

/-- Source: `ProposalVotesQ.Page`. -/
def ProposalVotesQ.Page (q : ProposalVotesQ) (limit offset : Nat) : ProposalVotesQ :=
  let q := { q with selector := (q.selector.Limit limit).Offset offset }
  let q := { q with counter := (q.counter.Limit limit).Offset offset }
  q

/-- Source: `ProposalVotesQ.Count`, up to the round trip. -/
def ProposalVotesQ.Count (q : ProposalVotesQ) (ctx : Context) : Outcome :=
  issue q.db ctx .QueryRowContext ("building count query for table " ++ proposalVotesTable ++ ": ")
    q.counter.ToSql

/-! ## The value transformers of each repository

The filter, ordering and `Page` methods of a repository, as data: one
constructor per method with its arguments. -/

/-- The five statements a repository value carries. -/
structure Statements where
  selector : SelectBuilder
  counter : SelectBuilder
  updater : UpdateBuilder
  deleter : DeleteBuilder
  inserter : InsertBuilder
deriving DecidableEq, Repr

/-- The statements of a `PetitionsQ`. -/
def PetitionsQ.statements (q : PetitionsQ) : Statements :=
  ⟨q.selector, q.counter, q.updater, q.deleter, q.inserter⟩

/-- The filter, ordering and `Page` methods of `PetitionsQ`. -/
inductive PetitionsOp where
  | FilterID (id : UUID)
  | FilterCityID (cityID : UUID)
  | FilterInitiatorID (initiatorID : UUID)
  | FilterStatus (status : String)
  | TitleLike (s : String)
  | BBox (minLng : Float64) (minLat : Float64) (maxLng : Float64) (maxLat : Float64)
  | WithinRadius (lng : Float64) (lat : Float64) (radiusMeters : Float64)
  | Page (limit : Nat) (offset : Nat)
deriving DecidableEq, Repr

/-- The method call an operation stands for. -/
def PetitionsOp.apply : PetitionsOp → PetitionsQ → PetitionsQ
  | .FilterID id, q => q.FilterID id
  | .FilterCityID cityID, q => q.FilterCityID cityID
  | .FilterInitiatorID initiatorID, q => q.FilterInitiatorID initiatorID
  | .FilterStatus status, q => q.FilterStatus status
  | .TitleLike s, q => q.TitleLike s
  | .BBox minLng minLat maxLng maxLat, q => q.BBox minLng minLat maxLng maxLat
  | .WithinRadius lng lat radiusMeters, q => q.WithinRadius lng lat radiusMeters
  | .Page limit offset, q => q.Page limit offset

/-- The repository value after a chain of calls on the constructor's value. -/
def PetitionsQ.chain (db : DB) (ops : List PetitionsOp) : PetitionsQ :=
  ops.foldl (fun q op => op.apply q) (NewPetitionsQ db)

/-- The statements of a `PetitionSignaturesQ`. -/
def PetitionSignaturesQ.statements (q : PetitionSignaturesQ) : Statements :=
  ⟨q.selector, q.counter, q.updater, q.deleter, q.inserter⟩

/-- The filter, ordering and `Page` methods of `PetitionSignaturesQ`. -/
inductive PetitionSignaturesOp where
  | FilterID (id : UUID)
  | FilterPetitionID (petitionID : UUID)
  | FilterUserID (userID : UUID)
  | Page (limit : Nat) (offset : Nat)
deriving DecidableEq, Repr

/-- The method call an operation stands for. -/
def PetitionSignaturesOp.apply : PetitionSignaturesOp → PetitionSignaturesQ → PetitionSignaturesQ
  | .FilterID id, q => q.FilterID id
  | .FilterPetitionID petitionID, q => q.FilterPetitionID petitionID
  | .FilterUserID userID, q => q.FilterUserID userID
  | .Page limit offset, q => q.Page limit offset

/-- The repository value after a chain of calls on the constructor's value. -/
def PetitionSignaturesQ.chain (db : DB) (ops : List PetitionSignaturesOp) : PetitionSignaturesQ :=
  ops.foldl (fun q op => op.apply q) (NewPetitionSignaturesQ db)

/-- The statements of a `PollsQ`. -/
def PollsQ.statements (q : PollsQ) : Statements :=
  ⟨q.selector, q.counter, q.updater, q.deleter, q.inserter⟩

/-- The filter, ordering and `Page` methods of `PollsQ`. -/
inductive PollsOp where
  | FilterID (id : UUID)
  | FilterCityID (cityID : UUID)
  | FilterInitiatorID (initiatorID : UUID)
  | FilterStatus (status : String)
  | TitleLike (s : String)
  | BBox (minLng : Float64) (minLat : Float64) (maxLng : Float64) (maxLat : Float64)
  | WithinRadius (lng : Float64) (lat : Float64) (radiusMeters : Float64)
  | Page (limit : Nat) (offset : Nat)
deriving DecidableEq, Repr

/-- The method call an operation stands for. -/
def PollsOp.apply : PollsOp → PollsQ → PollsQ
  | .FilterID id, q => q.FilterID id
  | .FilterCityID cityID, q => q.FilterCityID cityID
  | .FilterInitiatorID initiatorID, q => q.FilterInitiatorID initiatorID
  | .FilterStatus status, q => q.FilterStatus status
  | .TitleLike s, q => q.TitleLike s
  | .BBox minLng minLat maxLng maxLat, q => q.BBox minLng minLat maxLng maxLat
  | .WithinRadius lng lat radiusMeters, q => q.WithinRadius lng lat radiusMeters
  | .Page limit offset, q => q.Page limit offset

/-- The repository value after a chain of calls on the constructor's value. -/
def PollsQ.chain (db : DB) (ops : List PollsOp) : PollsQ :=
  ops.foldl (fun q op => op.apply q) (NewPollsQ db)

/-- The statements of a `PollOptionsQ`. -/
def PollOptionsQ.statements (q : PollOptionsQ) : Statements :=
  ⟨q.selector, q.counter, q.updater, q.deleter, q.inserter⟩

/-- The filter, ordering and `Page` methods of `PollOptionsQ`. -/
inductive PollOptionsOp where
  | FilterID (id : UUID)
  | FilterPollID (pollID : UUID)
  | OrderByCreatedAsc
  | OrderByCreatedDesc
  | OrderByVotesDesc
  | Page (limit : Nat) (offset : Nat)
deriving DecidableEq, Repr

/-- The method call an operation stands for. -/
def PollOptionsOp.apply : PollOptionsOp → PollOptionsQ → PollOptionsQ
  | .FilterID id, q => q.FilterID id
  | .FilterPollID pollID, q => q.FilterPollID pollID
  | .OrderByCreatedAsc, q => q.OrderByCreatedAsc
  | .OrderByCreatedDesc, q => q.OrderByCreatedDesc
  | .OrderByVotesDesc, q => q.OrderByVotesDesc
  | .Page limit offset, q => q.Page limit offset

/-- The repository value after a chain of calls on the constructor's value. -/
def PollOptionsQ.chain (db : DB) (ops : List PollOptionsOp) : PollOptionsQ :=
  ops.foldl (fun q op => op.apply q) (NewPollOptionsQ db)

/-- The statements of a `PollVotesQ`. -/
def PollVotesQ.statements (q : PollVotesQ) : Statements :=
  ⟨q.selector, q.counter, q.updater, q.deleter, q.inserter⟩

/-- The filter, ordering and `Page` methods of `PollVotesQ`. -/
inductive PollVotesOp where
  | FilterID (id : UUID)
  | FilterPollID (pollID : UUID)
  | FilterUserID (userID : UUID)
  | FilterOptionID (optionID : UUID)
  | OrderByCreatedAsc
  | OrderByCreatedDesc
  | Page (limit : Nat) (offset : Nat)
deriving DecidableEq, Repr

/-- The method call an operation stands for. -/
def PollVotesOp.apply : PollVotesOp → PollVotesQ → PollVotesQ
  | .FilterID id, q => q.FilterID id
  | .FilterPollID pollID, q => q.FilterPollID pollID
  | .FilterUserID userID, q => q.FilterUserID userID
  | .FilterOptionID optionID, q => q.FilterOptionID optionID
  | .OrderByCreatedAsc, q => q.OrderByCreatedAsc
  | .OrderByCreatedDesc, q => q.OrderByCreatedDesc
  | .Page limit offset, q => q.Page limit offset

/-- The repository value after a chain of calls on the constructor's value. -/
def PollVotesQ.chain (db : DB) (ops : List PollVotesOp) : PollVotesQ :=
  ops.foldl (fun q op => op.apply q) (NewPollVotesQ db)

/-- The statements of a `ProposalsQ`. -/
def ProposalsQ.statements (q : ProposalsQ) : Statements :=
  ⟨q.selector, q.counter, q.updater, q.deleter, q.inserter⟩

/-- The filter, ordering and `Page` methods of `ProposalsQ`. -/
inductive ProposalsOp where
  | FilterID (id : UUID)
  | FilterCityID (cityID : UUID)
  | FilterInitiatorID (initiatorID : UUID)
  | FilterStatus (status : String)
  | FilterAddressedTo (addressToID : UUID)
  | FilterAddressedToCityGov
  | TitleLike (s : String)
  | BBox (minLng : Float64) (minLat : Float64) (maxLng : Float64) (maxLat : Float64)
  | WithinRadius (lng : Float64) (lat : Float64) (radiusMeters : Float64)
  | OrderByCreatedAsc
  | OrderByCreatedDesc
  | OrderByAgreedDesc
  | OrderByDisagreedDesc
  | Page (limit : Nat) (offset : Nat)
deriving DecidableEq, Repr

/-- The method call an operation stands for. -/
def ProposalsOp.apply : ProposalsOp → ProposalsQ → ProposalsQ
  | .FilterID id, q => q.FilterID id
  | .FilterCityID cityID, q => q.FilterCityID cityID
  | .FilterInitiatorID initiatorID, q => q.FilterInitiatorID initiatorID
  | .FilterStatus status, q => q.FilterStatus status
  | .FilterAddressedTo addressToID, q => q.FilterAddressedTo addressToID
  | .FilterAddressedToCityGov, q => q.FilterAddressedToCityGov
  | .TitleLike s, q => q.TitleLike s
  | .BBox minLng minLat maxLng maxLat, q => q.BBox minLng minLat maxLng maxLat
  | .WithinRadius lng lat radiusMeters, q => q.WithinRadius lng lat radiusMeters
  | .OrderByCreatedAsc, q => q.OrderByCreatedAsc
  | .OrderByCreatedDesc, q => q.OrderByCreatedDesc
  | .OrderByAgreedDesc, q => q.OrderByAgreedDesc
  | .OrderByDisagreedDesc, q => q.OrderByDisagreedDesc
  | .Page limit offset, q => q.Page limit offset

/-- The repository value after a chain of calls on the constructor's value. -/
def ProposalsQ.chain (db : DB) (ops : List ProposalsOp) : ProposalsQ :=
  ops.foldl (fun q op => op.apply q) (NewProposalsQ db)

/-- The statements of a `ProposalVotesQ`. -/
def ProposalVotesQ.statements (q : ProposalVotesQ) : Statements :=
  ⟨q.selector, q.counter, q.updater, q.deleter, q.inserter⟩

/-- The filter, ordering and `Page` methods of `ProposalVotesQ`. -/
inductive ProposalVotesOp where
  | FilterID (id : UUID)
  | FilterProposalID (proposalID : UUID)
  | FilterUserID (userID : UUID)
  | FilterVote (v : Bool)
  | OrderByCreatedAsc
  | OrderByCreatedDesc
  | Page (limit : Nat) (offset : Nat)
deriving DecidableEq, Repr

/-- The method call an operation stands for. -/
def ProposalVotesOp.apply : ProposalVotesOp → ProposalVotesQ → ProposalVotesQ
  | .FilterID id, q => q.FilterID id
  | .FilterProposalID proposalID, q => q.FilterProposalID proposalID
  | .FilterUserID userID, q => q.FilterUserID userID
  | .FilterVote v, q => q.FilterVote v
  | .OrderByCreatedAsc, q => q.OrderByCreatedAsc
  | .OrderByCreatedDesc, q => q.OrderByCreatedDesc
  | .Page limit offset, q => q.Page limit offset

/-- The repository value after a chain of calls on the constructor's value. -/
def ProposalVotesQ.chain (db : DB) (ops : List ProposalVotesOp) : ProposalVotesQ :=
  ops.foldl (fun q op => op.apply q) (NewProposalVotesQ db)

/-! ## The terminal operations

Every terminal operation of every repository, as data: the receiver and the
input of the call. -/

/-- A call of a terminal operation on a repository value. -/
inductive Terminal where
  | petitionsInsert (q : PetitionsQ) (inp : InsertPetitionInput)
  | petitionsGet (q : PetitionsQ)
  | petitionsSelect (q : PetitionsQ)
  | petitionsUpdate (q : PetitionsQ) (inp : UpdatePetitionInput)
  | petitionsDelete (q : PetitionsQ)
  | petitionsCount (q : PetitionsQ)
  | petitionsIncrementSignatures (q : PetitionsQ) (delta : Int)
  | petitionSignaturesInsert (q : PetitionSignaturesQ) (inp : PetitionSignature)
  | petitionSignaturesGet (q : PetitionSignaturesQ)
  | petitionSignaturesSelect (q : PetitionSignaturesQ)
  | petitionSignaturesDelete (q : PetitionSignaturesQ)
  | petitionSignaturesCount (q : PetitionSignaturesQ)
  | pollsInsert (q : PollsQ) (inp : InsertPollInput)
  | pollsUpdate (q : PollsQ) (inp : UpdatePollInput)
  | pollsDelete (q : PollsQ)
  | pollsGet (q : PollsQ)
  | pollsSelect (q : PollsQ)
  | pollsCount (q : PollsQ)
  | pollOptionsInsert (q : PollOptionsQ) (inp : InsertPollOptionInput)
  | pollOptionsGet (q : PollOptionsQ)
  | pollOptionsSelect (q : PollOptionsQ)
  | pollOptionsDelete (q : PollOptionsQ)
  | pollOptionsCount (q : PollOptionsQ)
  | pollVotesInsert (q : PollVotesQ) (inp : InsertPollVoteInput)
  | pollVotesGet (q : PollVotesQ)
  | pollVotesSelect (q : PollVotesQ)
  | pollVotesUpdate (q : PollVotesQ) (inp : UpdatePollVoteInput)
  | pollVotesDelete (q : PollVotesQ)
  | pollVotesCount (q : PollVotesQ)
  | proposalsInsert (q : ProposalsQ) (inp : InsertProposalInput)
  | proposalsGet (q : ProposalsQ)
  | proposalsSelect (q : ProposalsQ)
  | proposalsUpdate (q : ProposalsQ) (inp : UpdateProposalInput)
  | proposalsDelete (q : ProposalsQ)
  | proposalsCount (q : ProposalsQ)
  | proposalVotesInsert (q : ProposalVotesQ) (inp : InsertProposalVoteInput)
  | proposalVotesGet (q : ProposalVotesQ)
  | proposalVotesSelect (q : ProposalVotesQ)
  | proposalVotesUpdate (q : ProposalVotesQ) (inp : UpdateProposalVoteInput)
  | proposalVotesDelete (q : ProposalVotesQ)
  | proposalVotesCount (q : ProposalVotesQ)

/-- The pool held by the receiver of a terminal call. -/
def Terminal.db : Terminal → DB
  | .petitionsInsert q _ => q.db
  | .petitionsGet q => q.db
  | .petitionsSelect q => q.db
  | .petitionsUpdate q _ => q.db
  | .petitionsDelete q => q.db
  | .petitionsCount q => q.db
  | .petitionsIncrementSignatures q _ => q.db
  | .petitionSignaturesInsert q _ => q.db
  | .petitionSignaturesGet q => q.db
  | .petitionSignaturesSelect q => q.db
  | .petitionSignaturesDelete q => q.db
  | .petitionSignaturesCount q => q.db
  | .pollsInsert q _ => q.db
  | .pollsUpdate q _ => q.db
  | .pollsDelete q => q.db
  | .pollsGet q => q.db
  | .pollsSelect q => q.db
  | .pollsCount q => q.db
  | .pollOptionsInsert q _ => q.db
  | .pollOptionsGet q => q.db
  | .pollOptionsSelect q => q.db
  | .pollOptionsDelete q => q.db
  | .pollOptionsCount q => q.db
  | .pollVotesInsert q _ => q.db
  | .pollVotesGet q => q.db
  | .pollVotesSelect q => q.db
  | .pollVotesUpdate q _ => q.db
  | .pollVotesDelete q => q.db
  | .pollVotesCount q => q.db
  | .proposalsInsert q _ => q.db
  | .proposalsGet q => q.db
  | .proposalsSelect q => q.db
  | .proposalsUpdate q _ => q.db
  | .proposalsDelete q => q.db
  | .proposalsCount q => q.db
  | .proposalVotesInsert q _ => q.db
  | .proposalVotesGet q => q.db
  | .proposalVotesSelect q => q.db
  | .proposalVotesUpdate q _ => q.db
  | .proposalVotesDelete q => q.db
  | .proposalVotesCount q => q.db

/-- The terminal call, run with a context. -/
def Terminal.run : Terminal → Context → Outcome
  | .petitionsInsert q inp, ctx => q.Insert ctx inp
  | .petitionsGet q, ctx => q.Get ctx
  | .petitionsSelect q, ctx => q.Select ctx
  | .petitionsUpdate q inp, ctx => q.Update ctx inp
  | .petitionsDelete q, ctx => q.Delete ctx
  | .petitionsCount q, ctx => q.Count ctx
  | .petitionsIncrementSignatures q delta, ctx => q.IncrementSignatures ctx delta
  | .petitionSignaturesInsert q inp, ctx => q.Insert ctx inp
  | .petitionSignaturesGet q, ctx => q.Get ctx
  | .petitionSignaturesSelect q, ctx => q.Select ctx
  | .petitionSignaturesDelete q, ctx => q.Delete ctx
  | .petitionSignaturesCount q, ctx => q.Count ctx
  | .pollsInsert q inp, ctx => q.Insert ctx inp
  | .pollsUpdate q inp, ctx => q.Update ctx inp
  | .pollsDelete q, ctx => q.Delete ctx
  | .pollsGet q, ctx => q.Get ctx
  | .pollsSelect q, ctx => q.Select ctx
  | .pollsCount q, ctx => q.Count ctx
  | .pollOptionsInsert q inp, ctx => q.Insert ctx inp
  | .pollOptionsGet q, ctx => q.Get ctx
  | .pollOptionsSelect q, ctx => q.Select ctx
  | .pollOptionsDelete q, ctx => q.Delete ctx
  | .pollOptionsCount q, ctx => q.Count ctx
  | .pollVotesInsert q inp, ctx => q.Insert ctx inp
  | .pollVotesGet q, ctx => q.Get ctx
  | .pollVotesSelect q, ctx => q.Select ctx
  | .pollVotesUpdate q inp, ctx => q.Update ctx inp
  | .pollVotesDelete q, ctx => q.Delete ctx
  | .pollVotesCount q, ctx => q.Count ctx
  | .proposalsInsert q inp, ctx => q.Insert ctx inp
  | .proposalsGet q, ctx => q.Get ctx
  | .proposalsSelect q, ctx => q.Select ctx
  | .proposalsUpdate q inp, ctx => q.Update ctx inp
  | .proposalsDelete q, ctx => q.Delete ctx
  | .proposalsCount q, ctx => q.Count ctx
  | .proposalVotesInsert q inp, ctx => q.Insert ctx inp
  | .proposalVotesGet q, ctx => q.Get ctx
  | .proposalVotesSelect q, ctx => q.Select ctx
  | .proposalVotesUpdate q inp, ctx => q.Update ctx inp
  | .proposalVotesDelete q, ctx => q.Delete ctx
  | .proposalVotesCount q, ctx => q.Count ctx

/-! ## The meaning of a DELETE statement -/

/-- The rows a DELETE statement leaves in its table, for a store that decides
with `holds` whether a WHERE part holds of a row: a row is removed when every
WHERE part holds of it, so a statement without WHERE parts removes every row. -/
def DeleteBuilder.rowsLeft {Row : Type} (holds : Pred → Row → Bool) (b : DeleteBuilder)
    (rows : List Row) : List Row :=
  rows.filter (fun r => !(b.whereParts.all (fun p => holds p r)))

/-! ## The assignments an Update input asks for

For each Update input, the column assignments the specification asks for: one
per field that is not nil, with the pointed-to value, in the order of the
fields. -/

/-- The assignment a set field asks for, none for a nil field. -/
def assignOf {α : Type} (column : String) (field : Option α) (value : α → Arg) : List SetClause :=
  match field with
  | some v => [⟨column, value v⟩]
  | none => []

/-- The assignments `UpdatePetitionInput` asks for. -/
def UpdatePetitionInput.assignments (inp : UpdatePetitionInput) : List SetClause :=
  assignOf "title" inp.Title (fun v => .val (.str v)) ++
  assignOf "description" inp.Description (fun v => .val (.str v)) ++
  assignOf "address_to_id" inp.AddressToID (fun v => .val (.uuidPtr v)) ++
  assignOf "status" inp.Status (fun v => .val (.str v)) ++
  assignOf "goal" inp.Goal (fun v => .val (.int v)) ++
  assignOf "end_date" inp.EndDate (fun v => .val (.time v)) ++
  assignOf "updated_at" inp.UpdatedAt (fun v => .val (.time v)) ++
  assignOf "location" inp.Location
    (fun loc => .expr ⟨"ST_SetSRID(ST_MakePoint(?, ?), 4326)", [.float loc.Lng, .float loc.Lat]⟩)

/-- The assignments `UpdatePollInput` asks for. -/
def UpdatePollInput.assignments (inp : UpdatePollInput) : List SetClause :=
  assignOf "title" inp.Title (fun v => .val (.str v)) ++
  assignOf "description" inp.Description (fun v => .val (.str v)) ++
  assignOf "status" inp.Status (fun v => .val (.str v)) ++
  assignOf "end_date" inp.EndDate (fun v => .val (.time v)) ++
  assignOf "updated_at" inp.UpdatedAt (fun v => .val (.time v)) ++
  assignOf "location" inp.Location
    (fun loc => .expr ⟨"ST_SetSRID(ST_MakePoint(?, ?), 4326)", [.float loc.Lng, .float loc.Lat]⟩)

/-- The assignments `UpdatePollVoteInput` asks for. -/
def UpdatePollVoteInput.assignments (inp : UpdatePollVoteInput) : List SetClause :=
  assignOf "option_id" inp.OptionID (fun v => .val (.uuid v))

/-- The assignments `UpdateProposalInput` asks for. -/
def UpdateProposalInput.assignments (inp : UpdateProposalInput) : List SetClause :=
  assignOf "title" inp.Title (fun v => .val (.str v)) ++
  assignOf "description" inp.Description (fun v => .val (.str v)) ++
  assignOf "status" inp.Status (fun v => .val (.str v)) ++
  assignOf "address_to_id" inp.AddressToID (fun v => .val (.uuidPtr v)) ++
  assignOf "end_date" inp.EndDate (fun v => .val (.time v)) ++
  assignOf "updated_at" inp.UpdatedAt (fun v => .val (.time v)) ++
  assignOf "location" inp.Location
    (fun loc => .expr ⟨"ST_SetSRID(ST_MakePoint(?, ?), 4326)", [.float loc.Lng, .float loc.Lat]⟩)

/-- The assignments `UpdateProposalVoteInput` asks for. -/
def UpdateProposalVoteInput.assignments (inp : UpdateProposalVoteInput) : List SetClause :=
  assignOf "vote" inp.Vote (fun v => .val (.bool v))

/-- The SET clauses of the statement `PetitionsQ.Update` builds: those of
`q.updater.SetMap(updates)`. -/
def PetitionsQ.updateClauses (q : PetitionsQ) (inp : UpdatePetitionInput) : List SetClause :=
  (q.updater.SetMap (PetitionsQ.updates inp)).setClauses

/-- The SET clauses of the statement `PollsQ.Update` builds: those of
`q.updater.SetMap(updates)`. -/
def PollsQ.updateClauses (q : PollsQ) (inp : UpdatePollInput) : List SetClause :=
  (q.updater.SetMap (PollsQ.updates inp)).setClauses

/-- The SET clauses of the statement `PollVotesQ.Update` builds: those of
`q.updater.SetMap(updates)`. -/
def PollVotesQ.updateClauses (q : PollVotesQ) (inp : UpdatePollVoteInput) : List SetClause :=
  (q.updater.SetMap (PollVotesQ.updates inp)).setClauses

/-- The SET clauses of the statement `ProposalsQ.Update` builds: those of
`q.updater.SetMap(updates)`. -/
def ProposalsQ.updateClauses (q : ProposalsQ) (inp : UpdateProposalInput) : List SetClause :=
  (q.updater.SetMap (ProposalsQ.updates inp)).setClauses

/-- The SET clauses of the statement `ProposalVotesQ.Update` builds: those of
`q.updater.SetMap(updates)`. -/
def ProposalVotesQ.updateClauses (q : ProposalVotesQ) (inp : UpdateProposalVoteInput) : List SetClause :=
  (q.updater.SetMap (ProposalVotesQ.updates inp)).setClauses

/-! ## Properties stated on the statements -/

/-- The statements `t` are the statements `s` with the predicate `p` appended
to the WHERE parts of the selector, the counter, the updater and the deleter,
and with nothing else changed. -/
def Statements.AppendedToAll (s t : Statements) (p : Pred) : Prop :=
  t.selector = { s.selector with whereParts := s.selector.whereParts ++ [p] } ∧
  t.counter = { s.counter with whereParts := s.counter.whereParts ++ [p] } ∧
  t.updater = { s.updater with whereParts := s.updater.whereParts ++ [p] } ∧
  t.deleter = { s.deleter with whereParts := s.deleter.whereParts ++ [p] } ∧
  t.inserter = s.inserter

/-- The statements `t` are the statements `s` with the predicate `p` appended
to the WHERE parts of the selector and the counter only; the updater, the
deleter and the inserter are the same. -/
def Statements.AppendedToReads (s t : Statements) (p : Pred) : Prop :=
  t.selector = { s.selector with whereParts := s.selector.whereParts ++ [p] } ∧
  t.counter = { s.counter with whereParts := s.counter.whereParts ++ [p] } ∧
  t.updater = s.updater ∧
  t.deleter = s.deleter ∧
  t.inserter = s.inserter

/-- The counter agrees with the selector: the same WHERE parts (predicates and
bound arguments, in order), the same LIMIT and the same OFFSET. -/
def Statements.ReadsAgree (s : Statements) : Prop :=
  s.counter.whereParts = s.selector.whereParts ∧
  s.counter.limit = s.selector.limit ∧
  s.counter.offset = s.selector.offset

/-- The parts of the statements that no filter, ordering or Page call touches:
the columns and tables are those the constructor set, the updater has no SET
clause yet and the inserter is the constructor's. -/
def Statements.Shaped (columns : List String) (table : String) (s : Statements) : Prop :=
  s.selector.columns = columns ∧ s.selector.table = table ∧
  s.counter.columns = ["COUNT(*) AS count"] ∧ s.counter.table = table ∧
  s.updater.table = table ∧ s.updater.setClauses = [] ∧
  s.deleter.table = table ∧ s.inserter = insertInto table

/-! ## Predicates and placeholders -/

/-- A WHERE part is well bound: its text is not empty, does not start with a
placeholder, and has as many placeholders as the part has bound arguments. -/
def Pred.Bound (p : Pred) : Prop :=
  p.ToSql.1.isEmpty = false ∧
  (p.ToSql.1.toList.head? == some '?') = false ∧
  placeholderCount p.ToSql.1.toList = p.ToSql.2.length

/-- The bound arguments of a list of WHERE parts, in the order of the parts. -/
def boundArgs (parts : List Pred) : List Arg :=
  (parts.map (fun p => p.ToSql.2)).flatten

/-- The ORDER BY terms the repositories use. -/
def orderTerms : List String :=
  ["created_at ASC", "created_at DESC", "votes_count DESC", "agreed_num DESC",
    "disagreed_num DESC"]

/-- The selector of the statements is well bound: every WHERE part is, and
every ORDER BY term is one of the repositories' terms. -/
def Statements.WellBound (s : Statements) : Prop :=
  (∀ p ∈ s.selector.whereParts, p.Bound) ∧ (∀ t ∈ s.selector.orderBys, t ∈ orderTerms)

/-- The predicate each filter of `PetitionsQ` hands to `Where` on the selector, as the
source writes it; an ordering or `Page` call hands none. -/
def PetitionsOp.preds : PetitionsOp → List Pred
  | .FilterID id => [.eq "id" (.uuid id)]
  | .FilterCityID cityID => [.eq "city_id" (.uuid cityID)]
  | .FilterInitiatorID initiatorID => [.eq "initiator_id" (.uuid initiatorID)]
  | .FilterStatus status => [.eq "status" (.str status)]
  | .TitleLike s => [.str "title ILIKE ?" [.val (.str ("%" ++ s ++ "%"))]]
  | .BBox minLng minLat maxLng maxLat => [.expr "location IS NOT NULL AND ST_Intersects(location, ?)"
      [.expr ⟨"ST_MakeEnvelope(?, ?, ?, ?, 4326)",
        [.float minLng, .float minLat, .float maxLng, .float maxLat]⟩]]
  | .WithinRadius lng lat radiusMeters => [.expr "location IS NOT NULL AND ST_DWithin(location::geography, (? )::geography, ?)"
      [.expr ⟨"ST_SetSRID(ST_MakePoint(?, ?), 4326)", [.float lng, .float lat]⟩,
        .val (.float radiusMeters)]]
  | .Page _ _ => []

/-- The predicate each filter of `PetitionSignaturesQ` hands to `Where` on the selector, as the
source writes it; an ordering or `Page` call hands none. -/
def PetitionSignaturesOp.preds : PetitionSignaturesOp → List Pred
  | .FilterID id => [.eq "id" (.uuid id)]
  | .FilterPetitionID petitionID => [.eq "petition_id" (.uuid petitionID)]
  | .FilterUserID userID => [.eq "user_id" (.uuid userID)]
  | .Page _ _ => []

/-- The predicate each filter of `PollsQ` hands to `Where` on the selector, as the
source writes it; an ordering or `Page` call hands none. -/
def PollsOp.preds : PollsOp → List Pred
  | .FilterID id => [.eq "id" (.uuid id)]
  | .FilterCityID cityID => [.eq "city_id" (.uuid cityID)]
  | .FilterInitiatorID initiatorID => [.eq "initiator_id" (.uuid initiatorID)]
  | .FilterStatus status => [.eq "status" (.str status)]
  | .TitleLike s => [.str "title ILIKE ?" [.val (.str ("%" ++ s ++ "%"))]]
  | .BBox minLng minLat maxLng maxLat => [.expr "location IS NOT NULL AND ST_Intersects(location, ?)"
      [.expr ⟨"ST_MakeEnvelope(?, ?, ?, ?, 4326)",
        [.float minLng, .float minLat, .float maxLng, .float maxLat]⟩]]
  | .WithinRadius lng lat radiusMeters => [.expr "location IS NOT NULL AND ST_DWithin(location::geography, (? )::geography, ?)"
      [.expr ⟨"ST_SetSRID(ST_MakePoint(?, ?), 4326)", [.float lng, .float lat]⟩,
        .val (.float radiusMeters)]]
  | .Page _ _ => []

/-- The predicate each filter of `PollOptionsQ` hands to `Where` on the selector, as the
source writes it; an ordering or `Page` call hands none. -/
def PollOptionsOp.preds : PollOptionsOp → List Pred
  | .FilterID id => [.eq "id" (.uuid id)]
  | .FilterPollID pollID => [.eq "poll_id" (.uuid pollID)]
  | .OrderByCreatedAsc => []
  | .OrderByCreatedDesc => []
  | .OrderByVotesDesc => []
  | .Page _ _ => []

/-- The predicate each filter of `PollVotesQ` hands to `Where` on the selector, as the
source writes it; an ordering or `Page` call hands none. -/
def PollVotesOp.preds : PollVotesOp → List Pred
  | .FilterID id => [.eq "id" (.uuid id)]
  | .FilterPollID pollID => [.eq "poll_id" (.uuid pollID)]
  | .FilterUserID userID => [.eq "user_id" (.uuid userID)]
  | .FilterOptionID optionID => [.eq "option_id" (.uuid optionID)]
  | .OrderByCreatedAsc => []
  | .OrderByCreatedDesc => []
  | .Page _ _ => []

/-- The predicate each filter of `ProposalsQ` hands to `Where` on the selector, as the
source writes it; an ordering or `Page` call hands none. -/
def ProposalsOp.preds : ProposalsOp → List Pred
  | .FilterID id => [.eq "id" (.uuid id)]
  | .FilterCityID cityID => [.eq "city_id" (.uuid cityID)]
  | .FilterInitiatorID initiatorID => [.eq "initiator_id" (.uuid initiatorID)]
  | .FilterStatus status => [.eq "status" (.str status)]
  | .FilterAddressedTo addressToID => [.eq "address_to_id" (.uuid addressToID)]
  | .FilterAddressedToCityGov => [.str "address_to_id IS NULL" []]
  | .TitleLike s => [.str "title ILIKE ?" [.val (.str ("%" ++ s ++ "%"))]]
  | .BBox minLng minLat maxLng maxLat => [.expr "location IS NOT NULL AND ST_Intersects(location, ?)"
      [.expr ⟨"ST_MakeEnvelope(?, ?, ?, ?, 4326)",
        [.float minLng, .float minLat, .float maxLng, .float maxLat]⟩]]
  | .WithinRadius lng lat radiusMeters => [.expr "location IS NOT NULL AND ST_DWithin(location::geography, (? )::geography, ?)"
      [.expr ⟨"ST_SetSRID(ST_MakePoint(?, ?), 4326)", [.float lng, .float lat]⟩,
        .val (.float radiusMeters)]]
  | .OrderByCreatedAsc => []
  | .OrderByCreatedDesc => []
  | .OrderByAgreedDesc => []
  | .OrderByDisagreedDesc => []
  | .Page _ _ => []

/-- The predicate each filter of `ProposalVotesQ` hands to `Where` on the selector, as the
source writes it; an ordering or `Page` call hands none. -/
def ProposalVotesOp.preds : ProposalVotesOp → List Pred
  | .FilterID id => [.eq "id" (.uuid id)]
  | .FilterProposalID proposalID => [.eq "proposal_id" (.uuid proposalID)]
  | .FilterUserID userID => [.eq "user_id" (.uuid userID)]
  | .FilterVote v => [.eq "vote" (.bool v)]
  | .OrderByCreatedAsc => []
  | .OrderByCreatedDesc => []
  | .Page _ _ => []

/-- The selector `s` of `R.F1(...).F2(...)` and the outcome `out` of Select on
it, for a receiver whose WHERE parts are `base` and calls that add the
predicates `p1` and `p2`: the WHERE parts are `base`, then `p1`, then `p2`; the
WHERE clause is the parts' texts joined by `AND`; Select issues the selector's
statement to `target` with the arguments of `base`, `p1` and `p2` in that
order; and the statement has one placeholder for each argument. -/
def ComposedInOrder (base p1 p2 : List Pred) (s : SelectBuilder) (out : Outcome)
    (target : Target) (ctx : Context) : Prop :=
  s.whereParts = base ++ p1 ++ p2 ∧
  (whereToSql s.whereParts).1
    = (if s.whereParts.isEmpty then ""
       else " WHERE " ++ " AND ".intercalate (s.whereParts.map (fun p => p.ToSql.1))) ∧
  ∃ raw : String,
    s.toSqlRaw = .ok (raw, boundArgs base ++ boundArgs p1 ++ boundArgs p2) ∧
    out = .roundTrip ⟨target, .QueryContext, ctx, dollar raw,
            boundArgs base ++ boundArgs p1 ++ boundArgs p2⟩ ∧
    placeholderCount raw.toList = (boundArgs base ++ boundArgs p1 ++ boundArgs p2).length

/-! ## The store: rows, conditions and what a SELECT answers

The relational store behind `database/sql`, as far as the repositories use it.
A statement means what its builder says: the rows of its table that satisfy
every WHERE part, in the order of its ORDER BY terms, cut by OFFSET and LIMIT. -/

/-- A value stored in a column. A point is a geometry of SRID 4326 with its
X (longitude) and Y (latitude). -/
inductive Cell where
  | null
  | uuid (v : UUID)
  | text (s : String)
  | int (i : Int)
  | bool (b : Bool)
  | float (f : Float64)
  | timestamp (t : Time)
  | point (x y : Float64)
deriving DecidableEq, Repr

/-- A stored row: its columns by name, in the order of the table. -/
abbrev Row := List (String × Cell)

/-- The value of a column of a row, NULL when the row has no such column. -/
def Row.get (r : Row) (column : String) : Cell :=
  match r.find? (fun e => e.1 == column) with
  | some e => e.2
  | none => .null

/-- The row with one column assigned. -/
def Row.set (r : Row) (column : String) (c : Cell) : Row :=
  r.map (fun e => if e.1 == column then (column, c) else e)

/-- A store: the rows of every table, by table name, in stored order. -/
abbrev Store := String → List Row

/-- The store with the rows of one table replaced. -/
def Store.setTable (s : Store) (table : String) (rows : List Row) : Store :=
  fun t => if t = table then rows else s t

/-- What the store brings for pattern matching and for PostGIS: whether a text
matches an ILIKE pattern, whether a point (x, y) intersects the envelope
(xmin, ymin, xmax, ymax), and whether a point is within a distance in meters
of another on the geography; and the width in bits of the integer type of the
counter `signatures` (16, 32 or 64 in PostgreSQL). -/
structure Engine where
  ilike : String → String → Bool
  intersects : Float64 → Float64 → Float64 → Float64 → Float64 → Float64 → Bool
  dwithin : Float64 → Float64 → Float64 → Float64 → Float64 → Bool
  intBits : Nat

/-- The value a bound Go value stores in a column; a time is stored as the
timestamp keeps it, `Time.stored`. -/
def Value.cell (v : Value) : Cell :=
  match v.driverValue with
  | .uuid u => .uuid u
  | .uuidPtr _ => .null
  | .str s => .text s
  | .int i => .int i
  | .bool b => .bool b
  | .float f => .float f
  | .time t => .timestamp t.stored
  | .null => .null

/-- The conditions the repositories put in a WHERE clause. -/
inductive Cond where
  | eq (column : String) (v : Value)
  | isNull (column : String)
  | isNotNull (column : String)
  | ilike (column : String) (pattern : Value)
  | intersects (column : String) (xmin ymin xmax ymax : Value) (srid : Nat)
  | dwithin (column : String) (x y : Value) (srid : Nat) (meters : Value)
  | and (a b : Cond)
deriving DecidableEq, Repr

/-- The SQL text of a condition, as the repositories spell it, and its bound
arguments from left to right. -/
def Cond.render : Cond → String × List Arg
  | .eq column v => (column ++ " = ?", [.val v.valued])
  | .isNull column => (column ++ " IS NULL", [])
  | .isNotNull column => (column ++ " IS NOT NULL", [])
  | .ilike column pattern => (column ++ " ILIKE ?", [.val pattern])
  | .intersects column xmin ymin xmax ymax srid =>
      ("ST_Intersects(" ++ column ++ ", ST_MakeEnvelope(?, ?, ?, ?, " ++ Nat.repr srid ++ "))",
       [.val xmin, .val ymin, .val xmax, .val ymax])
  | .dwithin column x y srid meters =>
      ("ST_DWithin(" ++ column ++ "::geography, (ST_SetSRID(ST_MakePoint(?, ?), "
          ++ Nat.repr srid ++ ") )::geography, ?)",
       [.val x, .val y, .val meters])
  | .and a b => (a.render.1 ++ " AND " ++ b.render.1, a.render.2 ++ b.render.2)

/-- Whether a condition is TRUE of a row. A comparison with NULL, a pattern or
spatial test on NULL, is not TRUE. -/
def Cond.isTrue (e : Engine) (row : Row) : Cond → Bool
  | .eq column v => row.get column != .null && row.get column == v.cell
  | .isNull column => row.get column == .null
  | .isNotNull column => row.get column != .null
  | .ilike column pattern =>
      match row.get column, pattern with
      | .text t, .str p => e.ilike t p
      | _, _ => false
  | .intersects column xmin ymin xmax ymax _ =>
      match row.get column, xmin, ymin, xmax, ymax with
      | .point x y, .float a, .float b, .float c, .float d => e.intersects x y a b c d
      | _, _, _, _, _ => false
  | .dwithin column x y _ meters =>
      match row.get column, x, y, meters with
      | .point px py, .float a, .float b, .float m => e.dwithin px py a b m
      | _, _, _, _ => false
  | .and a b => a.isTrue e row && b.isTrue e row

/-- The condition a WHERE part of the repositories stands for, `none` for a
part the store does not know. -/
def Pred.cond : Pred → Option Cond
  | .eq column .null => some (.isNull column)
  | .eq column (.uuidPtr none) => some (.isNull column)
  | .eq column v => some (.eq column v)
  | .str "address_to_id IS NULL" [] => some (.isNull "address_to_id")
  | .str "title ILIKE ?" [.val p] => some (.ilike "title" p)
  | .expr "location IS NOT NULL AND ST_Intersects(location, ?)"
      [.expr ⟨"ST_MakeEnvelope(?, ?, ?, ?, 4326)", [a, b, c, d]⟩] =>
      some (.and (.isNotNull "location") (.intersects "location" a b c d 4326))
  | .expr "location IS NOT NULL AND ST_DWithin(location::geography, (? )::geography, ?)"
      [.expr ⟨"ST_SetSRID(ST_MakePoint(?, ?), 4326)", [x, y]⟩, .val m] =>
      some (.and (.isNotNull "location") (.dwithin "location" x y 4326 m))
  | _ => none

/-- Whether a WHERE part holds of a row: its condition is TRUE of the row. -/
def Pred.holds (e : Engine) (p : Pred) (row : Row) : Bool :=
  match p.cond with
  | some c => c.isTrue e row
  | none => false

/-- The order of two cells of the same kind, `eq` for cells that do not compare. -/
def Cell.compare : Cell → Cell → Ordering
  | .int a, .int b => Ord.compare a b
  | .timestamp a, .timestamp b => Ord.compare a.unixNano b.unixNano
  | _, _ => .eq

/-- The order of two rows under one ORDER BY term of the repositories. -/
def compareByTerm (term : String) (a b : Row) : Ordering :=
  if term = "created_at ASC" then (a.get "created_at").compare (b.get "created_at")
  else if term = "created_at DESC" then (b.get "created_at").compare (a.get "created_at")
  else if term = "votes_count DESC" then (b.get "votes_count").compare (a.get "votes_count")
  else if term = "agreed_num DESC" then (b.get "agreed_num").compare (a.get "agreed_num")
  else if term = "disagreed_num DESC" then
    (b.get "disagreed_num").compare (a.get "disagreed_num")
  else .eq

/-- The order of two rows under `ORDER BY t1, t2, ...`: the first term decides,
a later term only breaks the ties of the terms before it. -/
def compareByTerms : List String → Row → Row → Ordering
  | [], _, _ => .eq
  | t :: ts, a, b =>
      match compareByTerm t a b with
      | .eq => compareByTerms ts a b
      | o => o

/-- The rows in the order of the ORDER BY terms; rows the terms do not tell
apart keep their stored order. -/
def sortRows (terms : List String) (rows : List Row) : List Row :=
  rows.insertionSort (fun a b => compareByTerms terms a b ≠ .gt)

/-- The cells one result column of a SELECT gives for a row: `*` is every
column of the row, `ST_Y(location) AS lat` and `ST_X(location) AS lng` are the
Y and the X of the stored point (NULL for a NULL location), any other column
is the column of that name. -/
def projectColumn (row : Row) (column : String) : List Cell :=
  if column = "*" then row.map Prod.snd
  else if column = "ST_Y(location) AS lat" then
    [match row.get "location" with
     | .point _ y => .float y
     | _ => .null]
  else if column = "ST_X(location) AS lng" then
    [match row.get "location" with
     | .point x _ => .float x
     | _ => .null]
  else [row.get column]

/-- The result row a SELECT gives for a stored row. -/
def project (columns : List String) (row : Row) : List Cell :=
  (columns.map (projectColumn row)).flatten

/-- The part of a result that OFFSET and LIMIT leave. -/
def SelectBuilder.paged {α : Type} (b : SelectBuilder) (l : List α) : List α :=
  let l := match b.offset with
    | some o => l.drop o
    | none => l
  match b.limit with
  | some n => l.take n
  | none => l

/-- The rows of the table that satisfy every WHERE part. -/
def SelectBuilder.matching (e : Engine) (s : Store) (b : SelectBuilder) : List Row :=
  (s b.table).filter (fun r => b.whereParts.all (fun p => p.holds e r))

/-- The stored rows a SELECT picks: the matching rows, ordered, then cut by
OFFSET and LIMIT. -/
def SelectBuilder.rowsOn (e : Engine) (s : Store) (b : SelectBuilder) : List Row :=
  b.paged (sortRows b.orderBys (b.matching e s))

/-- The result rows the statement of a builder gives on a store. With the one
column `COUNT(*) AS count` the result before OFFSET and LIMIT is one row, the
number of matching rows; otherwise it is one row per matching row. -/
def SelectBuilder.answer (e : Engine) (s : Store) (b : SelectBuilder) : List (List Cell) :=
  if b.columns = ["COUNT(*) AS count"] then
    b.paged [[Cell.int (b.matching e s).length]]
  else (b.rowsOn e s).map (project b.columns)

/-! ## What `database/sql` gives back -/

/-- The result set of a query: the rows it delivers, and the error `rows.Err()`
reports after the last of them. -/
structure Rows where
  cells : List (List Cell)
  err : Option Error
deriving DecidableEq, Repr

/-- What a call of `database/sql` gives back for a statement whose result on
the store is `a`: nothing at all for a call on a nil `*sql.Tx` (the call
panics), the context's error for a cancelled context, else the result. A
transaction handle that is not nil is taken to be open and to see the store. -/
def Call.answer {α : Type} (c : Call) (a : α) : Option (Except Error α) :=
  match c.target with
  | .tx none => none
  | _ => some (if c.ctx.cancelled then .error .canceled else .ok a)

/-- A Go slice: `none` is the nil slice. -/
abbrev GoSlice (α : Type) := Option (List α)

/-- Go's `append(s, x)`. -/
def GoSlice.append {α : Type} (s : GoSlice α) (x : α) : GoSlice α :=
  match s with
  | none => some [x]
  | some l => some (l ++ [x])

/-- The elements of a Go slice, none for the nil slice. -/
def GoSlice.elems {α : Type} (s : GoSlice α) : List α :=
  match s with
  | none => []
  | some l => l

/-- A destination of `Scan`: it stores a cell in a field of the model or fails. -/
abbrev Dest (M : Type) := Cell → M → Except String M

/-- The loop of `Rows.Scan` over the destinations: each cell is stored in its
destination in turn, and the first failure is returned with the index of its
column, the destinations before it already written. -/
def scanLoop {M : Type} : Nat → List (Dest M) → List Cell → M → M × Option Error
  | _, [], _, p => (p, none)
  | _, _ :: _, [], p => (p, none)
  | i, d :: ds, c :: cs, p =>
      match d c p with
      | .error msg => (p, some (.scan i msg))
      | .ok p' => scanLoop (i + 1) ds cs p'

/-- `Rows.Scan(dest...)` on one result row: the number of destinations must be
the number of columns. -/
def scanInto {M : Type} (dests : List (Dest M)) (p : M) (cells : List Cell) :
    M × Option Error :=
  if cells.length ≠ dests.length then (p, some (.scanCount cells.length dests.length))
  else scanLoop 0 dests cells p

/-- `Row.Scan(dest...)` after `QueryRowContext`: the error of the query; with no
row, the error of the result set or else `sql.ErrNoRows`; else the scan of the
first row. -/
def rowScan {M : Type} (dests : List (Dest M)) (zero : M) (resp : Except Error Rows) :
    M × Option Error :=
  match resp with
  | .error e => (zero, some e)
  | .ok r =>
      match r.cells with
      | [] => (zero, some (r.err.getD .noRows))
      | cells :: _ => scanInto dests zero cells

/-- The loop `for rows.Next()` of every Select: each row is scanned into a
fresh model and appended; a scan error returns nil and the error. -/
def rowsLoop {M : Type} (dests : List (Dest M)) (zero : M) :
    List (List Cell) → GoSlice M → GoSlice M × Option Error
  | [], out => (out, none)
  | cells :: rest, out =>
      match scanInto dests zero cells with
      | (_, some e) => (none, some e)
      | (p, none) => rowsLoop dests zero rest (out.append p)

/-- The tail of every Select after `QueryContext`: the error of the query, or
the loop over the rows starting from `var out []T`; `rows.Err()` is not read. -/
def selectRows {M : Type} (dests : List (Dest M)) (zero : M) (resp : Except Error Rows) :
    GoSlice M × Option Error :=
  match resp with
  | .error e => (none, some e)
  | .ok r => rowsLoop dests zero r.cells none

/-! ## Scanning into Go values -/

/-- The zero `uuid.UUID`. -/
def UUID.zero : UUID := ⟨0⟩

/-- The zero `time.Time`: January 1 of year 1, UTC. -/
def Time.zero : Time := ⟨-62135596800000000000⟩

/-- Scan into a `uuid.UUID`: a NULL leaves the destination as it is. A cell of
another kind is a scan error; so it is for all destinations here, where
`database/sql` would still convert some kinds that no column of the tables
gives. -/
def scanUUID (old : UUID) : Cell → Except String UUID
  | .null => .ok old
  | .uuid u => .ok u
  | _ => .error "Scan: unable to scan into UUID"

/-- Scan into a `*uuid.UUID`: a NULL is the nil pointer. -/
def scanUUIDPtr : Cell → Except String (Option UUID)
  | .null => .ok none
  | .uuid u => .ok (some u)
  | _ => .error "Scan: unable to scan into UUID"

/-- Scan into a `string`. -/
def scanString : Cell → Except String String
  | .text s => .ok s
  | .null => .error "converting NULL to string is unsupported"
  | _ => .error "unsupported Scan"

/-- Scan into an `int`. -/
def scanInt : Cell → Except String Int
  | .int i => .ok i
  | .null => .error "converting NULL to int is unsupported"
  | _ => .error "unsupported Scan"

/-- Scan into a `bool`. -/
def scanBool : Cell → Except String Bool
  | .bool b => .ok b
  | .null => .error "converting NULL to bool is unsupported"
  | _ => .error "unsupported Scan"

/-- Scan into a `time.Time`. -/
def scanTime : Cell → Except String Time
  | .timestamp t => .ok t
  | _ => .error "unsupported Scan"

/-- Scan into a `*float64`: a NULL is the nil pointer. -/
def scanFloatPtr : Cell → Except String (Option Float64)
  | .null => .ok none
  | .float f => .ok (some f)
  | _ => .error "unsupported Scan"

/-- Scan into a `uint64`. -/
def scanUint64 : Cell → Except String Nat
  | .int i => if 0 ≤ i then .ok i.toNat else .error "converting driver.Value type int64 to a uint64"
  | .null => .error "converting NULL to uint64 is unsupported"
  | _ => .error "unsupported Scan"

/-- The one destination `&count` of every Count. -/
def countDests : List (Dest Nat) :=
  [fun c _ => scanUint64 c]

/-- The tail every Count shares: `QueryRowContext(...).Scan(&count)` on what
the counter's statement gives on the store. -/
def countOn (out : Outcome) (e : Engine) (s : Store) (counter : SelectBuilder) :
    Option (Nat × Option Error) :=
  match out with
  | .returned err => some (0, err)
  | .roundTrip call =>
      (call.answer (Rows.mk (counter.answer e s) none)).map (rowScan countDests 0)

/-- The tail every Get shares: `QueryRowContext(...)` and `row.Scan` on what
the statement of `selector.Limit(1)` gives on the store. -/
def getOn {M : Type} (out : Outcome) (dests : List (Dest M)) (zero : M) (e : Engine)
    (s : Store) (selector : SelectBuilder) : Option (M × Option Error) :=
  match out with
  | .returned err => some (zero, err)
  | .roundTrip call =>
      (call.answer (Rows.mk ((selector.Limit 1).answer e s) none)).map (rowScan dests zero)

/-- The tail every Select shares: `QueryContext(...)` and the loop over the rows
the selector's statement gives on the store. -/
def selectOn {M : Type} (out : Outcome) (dests : List (Dest M)) (zero : M) (e : Engine)
    (s : Store) (selector : SelectBuilder) : Option (GoSlice M × Option Error) :=
  match out with
  | .returned err => some (none, err)
  | .roundTrip call =>
      (call.answer (Rows.mk (selector.answer e s) none)).map (selectRows dests zero)

/-! ## The repositories run on a store -/

/-- Source: `PetitionModel`. A nil pointer is `none`. -/
structure PetitionModel where
  ID : UUID
  CityID : UUID
  Title : String
  Description : String
  InitiatorID : UUID
  AddressToID : Option UUID
  Status : String
  Signatures : Int
  Goal : Int
  EndDate : Time
  CreatedAt : Time
  UpdatedAt : Time
  Lat : Option Float64
  Lng : Option Float64
deriving DecidableEq, Repr

/-- The zero value `PetitionModel{}`. -/
def PetitionModel.zero : PetitionModel :=
  ⟨UUID.zero, UUID.zero, "", "", UUID.zero, none, "", 0, 0, Time.zero, Time.zero, Time.zero, none, none⟩

/-- The destinations of the `Scan` in `PetitionsQ.Get`, in the order of the call. -/
def PetitionsQ.getDests : List (Dest PetitionModel) :=
  [fun c p => (scanUUID p.ID c).map (fun v => { p with ID := v }),
   fun c p => (scanUUID p.CityID c).map (fun v => { p with CityID := v }),
   fun c p => (scanString c).map (fun v => { p with Title := v }),
   fun c p => (scanString c).map (fun v => { p with Description := v }),
   fun c p => (scanUUID p.InitiatorID c).map (fun v => { p with InitiatorID := v }),
   fun c p => (scanUUIDPtr c).map (fun v => { p with AddressToID := v }),
   fun c p => (scanString c).map (fun v => { p with Status := v }),
   fun c p => (scanInt c).map (fun v => { p with Signatures := v }),
   fun c p => (scanInt c).map (fun v => { p with Goal := v }),
   fun c p => (scanTime c).map (fun v => { p with EndDate := v }),
   fun c p => (scanTime c).map (fun v => { p with CreatedAt := v }),
   fun c p => (scanTime c).map (fun v => { p with UpdatedAt := v }),
   fun c p => (scanFloatPtr c).map (fun v => { p with Lat := v }),
   fun c p => (scanFloatPtr c).map (fun v => { p with Lng := v })]

/-- The destinations of the `Scan` in `PetitionsQ.Select`, in the order of the call. -/
def PetitionsQ.selectDests : List (Dest PetitionModel) :=
  [fun c p => (scanUUID p.ID c).map (fun v => { p with ID := v }),
   fun c p => (scanUUID p.CityID c).map (fun v => { p with CityID := v }),
   fun c p => (scanString c).map (fun v => { p with Title := v }),
   fun c p => (scanString c).map (fun v => { p with Description := v }),
   fun c p => (scanUUID p.InitiatorID c).map (fun v => { p with InitiatorID := v }),
   fun c p => (scanUUIDPtr c).map (fun v => { p with AddressToID := v }),
   fun c p => (scanString c).map (fun v => { p with Status := v }),
   fun c p => (scanInt c).map (fun v => { p with Signatures := v }),
   fun c p => (scanInt c).map (fun v => { p with Goal := v }),
   fun c p => (scanTime c).map (fun v => { p with EndDate := v }),
   fun c p => (scanTime c).map (fun v => { p with CreatedAt := v }),
   fun c p => (scanTime c).map (fun v => { p with UpdatedAt := v }),
   fun c p => (scanFloatPtr c).map (fun v => { p with Lat := v }),
   fun c p => (scanFloatPtr c).map (fun v => { p with Lng := v })]

/-- Source: `PetitionsQ.Get`, run on a store. The result is `none` when the call does
not return. -/
def PetitionsQ.GetOn (q : PetitionsQ) (e : Engine) (s : Store) (ctx : Context) :
    Option (PetitionModel × Option Error) :=
  getOn (q.Get ctx) PetitionsQ.getDests PetitionModel.zero e s q.selector

/-- Source: `PetitionsQ.Select`, run on a store. -/
def PetitionsQ.SelectOn (q : PetitionsQ) (e : Engine) (s : Store) (ctx : Context) :
    Option (GoSlice PetitionModel × Option Error) :=
  selectOn (q.Select ctx) PetitionsQ.selectDests PetitionModel.zero e s q.selector

/-- Source: `PetitionsQ.Count`, run on a store. -/
def PetitionsQ.CountOn (q : PetitionsQ) (e : Engine) (s : Store) (ctx : Context) :
    Option (Nat × Option Error) :=
  countOn (q.Count ctx) e s q.counter

/-- The zero value `PetitionSignature{}`. -/
def PetitionSignature.zero : PetitionSignature :=
  ⟨UUID.zero, UUID.zero, UUID.zero, Time.zero⟩

/-- The destinations of the `Scan` in `PetitionSignaturesQ.Get`, in the order of the call. -/
def PetitionSignaturesQ.getDests : List (Dest PetitionSignature) :=
  [fun c p => (scanUUID p.ID c).map (fun v => { p with ID := v }),
   fun c p => (scanUUID p.PetitionID c).map (fun v => { p with PetitionID := v }),
   fun c p => (scanUUID p.UserID c).map (fun v => { p with UserID := v }),
   fun c p => (scanTime c).map (fun v => { p with CreatedAt := v })]

/-- The destinations of the `Scan` in `PetitionSignaturesQ.Select`, in the order of the call. -/
def PetitionSignaturesQ.selectDests : List (Dest PetitionSignature) :=
  [fun c p => (scanUUID p.ID c).map (fun v => { p with ID := v }),
   fun c p => (scanUUID p.PetitionID c).map (fun v => { p with PetitionID := v }),
   fun c p => (scanUUID p.UserID c).map (fun v => { p with UserID := v }),
   fun c p => (scanTime c).map (fun v => { p with CreatedAt := v })]

/-- Source: `PetitionSignaturesQ.Get`, run on a store. The result is `none` when the call does
not return. -/
def PetitionSignaturesQ.GetOn (q : PetitionSignaturesQ) (e : Engine) (s : Store) (ctx : Context) :
    Option (PetitionSignature × Option Error) :=
  getOn (q.Get ctx) PetitionSignaturesQ.getDests PetitionSignature.zero e s q.selector

/-- Source: `PetitionSignaturesQ.Select`, run on a store. -/
def PetitionSignaturesQ.SelectOn (q : PetitionSignaturesQ) (e : Engine) (s : Store) (ctx : Context) :
    Option (GoSlice PetitionSignature × Option Error) :=
  selectOn (q.Select ctx) PetitionSignaturesQ.selectDests PetitionSignature.zero e s q.selector

/-- Source: `PetitionSignaturesQ.Count`, run on a store. -/
def PetitionSignaturesQ.CountOn (q : PetitionSignaturesQ) (e : Engine) (s : Store) (ctx : Context) :
    Option (Nat × Option Error) :=
  countOn (q.Count ctx) e s q.counter

/-- Source: `PollModel`. A nil pointer is `none`. -/
structure PollModel where
  ID : UUID
  CityID : UUID
  Title : String
  Description : String
  Status : String
  InitiatorID : UUID
  EndDate : Time
  CreatedAt : Time
  UpdatedAt : Time
  Lat : Option Float64
  Lng : Option Float64
deriving DecidableEq, Repr

/-- The zero value `PollModel{}`. -/
def PollModel.zero : PollModel :=
  ⟨UUID.zero, UUID.zero, "", "", "", UUID.zero, Time.zero, Time.zero, Time.zero, none, none⟩

/-- The destinations of the `Scan` in `PollsQ.Get`, in the order of the call. -/
def PollsQ.getDests : List (Dest PollModel) :=
  [fun c p => (scanUUID p.ID c).map (fun v => { p with ID := v }),
   fun c p => (scanUUID p.CityID c).map (fun v => { p with CityID := v }),
   fun c p => (scanString c).map (fun v => { p with Title := v }),
   fun c p => (scanString c).map (fun v => { p with Description := v }),
   fun c p => (scanString c).map (fun v => { p with Status := v }),
   fun c p => (scanUUID p.InitiatorID c).map (fun v => { p with InitiatorID := v }),
   fun c p => (scanTime c).map (fun v => { p with EndDate := v }),
   fun c p => (scanTime c).map (fun v => { p with CreatedAt := v }),
   fun c p => (scanTime c).map (fun v => { p with UpdatedAt := v }),
   fun c p => (scanFloatPtr c).map (fun v => { p with Lat := v }),
   fun c p => (scanFloatPtr c).map (fun v => { p with Lng := v })]

/-- The destinations of the `Scan` in `PollsQ.Select`, in the order of the call. -/
def PollsQ.selectDests : List (Dest PollModel) :=
  [fun c p => (scanUUID p.ID c).map (fun v => { p with ID := v }),
   fun c p => (scanUUID p.CityID c).map (fun v => { p with CityID := v }),
   fun c p => (scanString c).map (fun v => { p with Title := v }),
   fun c p => (scanString c).map (fun v => { p with Description := v }),
   fun c p => (scanString c).map (fun v => { p with Status := v }),
   fun c p => (scanUUID p.InitiatorID c).map (fun v => { p with InitiatorID := v }),
   fun c p => (scanTime c).map (fun v => { p with EndDate := v }),
   fun c p => (scanTime c).map (fun v => { p with CreatedAt := v }),
   fun c p => (scanTime c).map (fun v => { p with UpdatedAt := v }),
   fun c p => (scanFloatPtr c).map (fun v => { p with Lat := v }),
   fun c p => (scanFloatPtr c).map (fun v => { p with Lng := v })]

/-- Source: `PollsQ.Get`, run on a store. The result is `none` when the call does
not return. -/
def PollsQ.GetOn (q : PollsQ) (e : Engine) (s : Store) (ctx : Context) :
    Option (PollModel × Option Error) :=
  getOn (q.Get ctx) PollsQ.getDests PollModel.zero e s q.selector

/-- Source: `PollsQ.Select`, run on a store. -/
def PollsQ.SelectOn (q : PollsQ) (e : Engine) (s : Store) (ctx : Context) :
    Option (GoSlice PollModel × Option Error) :=
  selectOn (q.Select ctx) PollsQ.selectDests PollModel.zero e s q.selector

/-- Source: `PollsQ.Count`, run on a store. -/
def PollsQ.CountOn (q : PollsQ) (e : Engine) (s : Store) (ctx : Context) :
    Option (Nat × Option Error) :=
  countOn (q.Count ctx) e s q.counter

/-- Source: `PollOption`. A nil pointer is `none`. -/
structure PollOption where
  ID : UUID
  PollID : UUID
  OptionText : String
  VotesCount : Int
  CreatedAt : Time
deriving DecidableEq, Repr

/-- The zero value `PollOption{}`. -/
def PollOption.zero : PollOption :=
  ⟨UUID.zero, UUID.zero, "", 0, Time.zero⟩

/-- The destinations of the `Scan` in `PollOptionsQ.Get`, in the order of the call. -/
def PollOptionsQ.getDests : List (Dest PollOption) :=
  [fun c p => (scanUUID p.ID c).map (fun v => { p with ID := v }),
   fun c p => (scanUUID p.PollID c).map (fun v => { p with PollID := v }),
   fun c p => (scanString c).map (fun v => { p with OptionText := v }),
   fun c p => (scanInt c).map (fun v => { p with VotesCount := v }),
   fun c p => (scanTime c).map (fun v => { p with CreatedAt := v })]

/-- The destinations of the `Scan` in `PollOptionsQ.Select`, in the order of the call. -/
def PollOptionsQ.selectDests : List (Dest PollOption) :=
  [fun c p => (scanUUID p.ID c).map (fun v => { p with ID := v }),
   fun c p => (scanUUID p.PollID c).map (fun v => { p with PollID := v }),
   fun c p => (scanString c).map (fun v => { p with OptionText := v }),
   fun c p => (scanInt c).map (fun v => { p with VotesCount := v }),
   fun c p => (scanTime c).map (fun v => { p with CreatedAt := v })]

/-- Source: `PollOptionsQ.Get`, run on a store. The result is `none` when the call does
not return. -/
def PollOptionsQ.GetOn (q : PollOptionsQ) (e : Engine) (s : Store) (ctx : Context) :
    Option (PollOption × Option Error) :=
  getOn (q.Get ctx) PollOptionsQ.getDests PollOption.zero e s q.selector

/-- Source: `PollOptionsQ.Select`, run on a store. -/
def PollOptionsQ.SelectOn (q : PollOptionsQ) (e : Engine) (s : Store) (ctx : Context) :
    Option (GoSlice PollOption × Option Error) :=
  selectOn (q.Select ctx) PollOptionsQ.selectDests PollOption.zero e s q.selector

/-- Source: `PollOptionsQ.Count`, run on a store. -/
def PollOptionsQ.CountOn (q : PollOptionsQ) (e : Engine) (s : Store) (ctx : Context) :
    Option (Nat × Option Error) :=
  countOn (q.Count ctx) e s q.counter

/-- Source: `PollVoteModel`. A nil pointer is `none`. -/
structure PollVoteModel where
  ID : UUID
  PollID : UUID
  UserID : UUID
  OptionID : UUID
  CreatedAt : Time
deriving DecidableEq, Repr

/-- The zero value `PollVoteModel{}`. -/
def PollVoteModel.zero : PollVoteModel :=
  ⟨UUID.zero, UUID.zero, UUID.zero, UUID.zero, Time.zero⟩

/-- The destinations of the `Scan` in `PollVotesQ.Get`, in the order of the call. -/
def PollVotesQ.getDests : List (Dest PollVoteModel) :=
  [fun c p => (scanUUID p.ID c).map (fun v => { p with ID := v }),
   fun c p => (scanUUID p.PollID c).map (fun v => { p with PollID := v }),
   fun c p => (scanUUID p.UserID c).map (fun v => { p with UserID := v }),
   fun c p => (scanUUID p.OptionID c).map (fun v => { p with OptionID := v }),
   fun c p => (scanTime c).map (fun v => { p with CreatedAt := v })]

/-- The destinations of the `Scan` in `PollVotesQ.Select`, in the order of the call. -/
def PollVotesQ.selectDests : List (Dest PollVoteModel) :=
  [fun c p => (scanUUID p.ID c).map (fun v => { p with ID := v }),
   fun c p => (scanUUID p.PollID c).map (fun v => { p with PollID := v }),
   fun c p => (scanUUID p.UserID c).map (fun v => { p with UserID := v }),
   fun c p => (scanUUID p.OptionID c).map (fun v => { p with OptionID := v }),
   fun c p => (scanTime c).map (fun v => { p with CreatedAt := v })]

/-- Source: `PollVotesQ.Get`, run on a store. The result is `none` when the call does
not return. -/
def PollVotesQ.GetOn (q : PollVotesQ) (e : Engine) (s : Store) (ctx : Context) :
    Option (PollVoteModel × Option Error) :=
  getOn (q.Get ctx) PollVotesQ.getDests PollVoteModel.zero e s q.selector

/-- Source: `PollVotesQ.Select`, run on a store. -/
def PollVotesQ.SelectOn (q : PollVotesQ) (e : Engine) (s : Store) (ctx : Context) :
    Option (GoSlice PollVoteModel × Option Error) :=
  selectOn (q.Select ctx) PollVotesQ.selectDests PollVoteModel.zero e s q.selector

/-- Source: `PollVotesQ.Count`, run on a store. -/
def PollVotesQ.CountOn (q : PollVotesQ) (e : Engine) (s : Store) (ctx : Context) :
    Option (Nat × Option Error) :=
  countOn (q.Count ctx) e s q.counter

/-- Source: `Proposal`. A nil pointer is `none`. -/
structure Proposal where
  ID : UUID
  CityID : UUID
  Title : String
  Description : String
  Status : String
  InitiatorID : UUID
  AddressToID : Option UUID
  AgreedNum : Int
  DisagreedNum : Int
  EndDate : Time
  CreatedAt : Time
  UpdatedAt : Time
  Lat : Option Float64
  Lng : Option Float64
deriving DecidableEq, Repr

/-- The zero value `Proposal{}`. -/
def Proposal.zero : Proposal :=
  ⟨UUID.zero, UUID.zero, "", "", "", UUID.zero, none, 0, 0, Time.zero, Time.zero, Time.zero, none, none⟩

/-- The destinations of the `Scan` in `ProposalsQ.Get`, in the order of the call. -/
def ProposalsQ.getDests : List (Dest Proposal) :=
  [fun c p => (scanUUID p.ID c).map (fun v => { p with ID := v }),
   fun c p => (scanUUID p.CityID c).map (fun v => { p with CityID := v }),
   fun c p => (scanString c).map (fun v => { p with Title := v }),
   fun c p => (scanString c).map (fun v => { p with Description := v }),
   fun c p => (scanString c).map (fun v => { p with Status := v }),
   fun c p => (scanUUID p.InitiatorID c).map (fun v => { p with InitiatorID := v }),
   fun c p => (scanUUIDPtr c).map (fun v => { p with AddressToID := v }),
   fun c p => (scanInt c).map (fun v => { p with AgreedNum := v }),
   fun c p => (scanInt c).map (fun v => { p with DisagreedNum := v }),
   fun c p => (scanTime c).map (fun v => { p with EndDate := v }),
   fun c p => (scanTime c).map (fun v => { p with CreatedAt := v }),
   fun c p => (scanTime c).map (fun v => { p with UpdatedAt := v }),
   fun c p => (scanFloatPtr c).map (fun v => { p with Lat := v }),
   fun c p => (scanFloatPtr c).map (fun v => { p with Lng := v })]

/-- The destinations of the `Scan` in `ProposalsQ.Select`, in the order of the call. -/
def ProposalsQ.selectDests : List (Dest Proposal) :=
  [fun c p => (scanUUID p.ID c).map (fun v => { p with ID := v }),
   fun c p => (scanUUID p.CityID c).map (fun v => { p with CityID := v }),
   fun c p => (scanString c).map (fun v => { p with Title := v }),
   fun c p => (scanString c).map (fun v => { p with Description := v }),
   fun c p => (scanString c).map (fun v => { p with Status := v }),
   fun c p => (scanUUID p.InitiatorID c).map (fun v => { p with InitiatorID := v }),
   fun c p => (scanUUIDPtr c).map (fun v => { p with AddressToID := v }),
   fun c p => (scanInt c).map (fun v => { p with AgreedNum := v }),
   fun c p => (scanInt c).map (fun v => { p with DisagreedNum := v }),
   fun c p => (scanTime c).map (fun v => { p with EndDate := v }),
   fun c p => (scanTime c).map (fun v => { p with CreatedAt := v }),
   fun c p => (scanTime c).map (fun v => { p with UpdatedAt := v }),
   fun c p => (scanFloatPtr c).map (fun v => { p with Lat := v }),
   fun c p => (scanFloatPtr c).map (fun v => { p with Lng := v })]

/-- Source: `ProposalsQ.Get`, run on a store. The result is `none` when the call does
not return. -/
def ProposalsQ.GetOn (q : ProposalsQ) (e : Engine) (s : Store) (ctx : Context) :
    Option (Proposal × Option Error) :=
  getOn (q.Get ctx) ProposalsQ.getDests Proposal.zero e s q.selector

/-- Source: `ProposalsQ.Select`, run on a store. -/
def ProposalsQ.SelectOn (q : ProposalsQ) (e : Engine) (s : Store) (ctx : Context) :
    Option (GoSlice Proposal × Option Error) :=
  selectOn (q.Select ctx) ProposalsQ.selectDests Proposal.zero e s q.selector

/-- Source: `ProposalsQ.Count`, run on a store. -/
def ProposalsQ.CountOn (q : ProposalsQ) (e : Engine) (s : Store) (ctx : Context) :
    Option (Nat × Option Error) :=
  countOn (q.Count ctx) e s q.counter

/-- Source: `ProposalVoteModel`. A nil pointer is `none`. -/
structure ProposalVoteModel where
  ID : UUID
  ProposalID : UUID
  UserID : UUID
  Vote : Bool
  CreatedAt : Time
deriving DecidableEq, Repr

/-- The zero value `ProposalVoteModel{}`. -/
def ProposalVoteModel.zero : ProposalVoteModel :=
  ⟨UUID.zero, UUID.zero, UUID.zero, false, Time.zero⟩

/-- The destinations of the `Scan` in `ProposalVotesQ.Get`, in the order of the call. -/
def ProposalVotesQ.getDests : List (Dest ProposalVoteModel) :=
  [fun c p => (scanUUID p.ID c).map (fun v => { p with ID := v }),
   fun c p => (scanUUID p.ProposalID c).map (fun v => { p with ProposalID := v }),
   fun c p => (scanUUID p.UserID c).map (fun v => { p with UserID := v }),
   fun c p => (scanBool c).map (fun v => { p with Vote := v }),
   fun c p => (scanTime c).map (fun v => { p with CreatedAt := v })]

/-- The destinations of the `Scan` in `ProposalVotesQ.Select`, in the order of the call. -/
def ProposalVotesQ.selectDests : List (Dest ProposalVoteModel) :=
  [fun c p => (scanUUID p.ID c).map (fun v => { p with ID := v }),
   fun c p => (scanUUID p.ProposalID c).map (fun v => { p with ProposalID := v }),
   fun c p => (scanUUID p.UserID c).map (fun v => { p with UserID := v }),
   fun c p => (scanBool c).map (fun v => { p with Vote := v }),
   fun c p => (scanTime c).map (fun v => { p with CreatedAt := v })]

/-- Source: `ProposalVotesQ.Get`, run on a store. The result is `none` when the call does
not return. -/
def ProposalVotesQ.GetOn (q : ProposalVotesQ) (e : Engine) (s : Store) (ctx : Context) :
    Option (ProposalVoteModel × Option Error) :=
  getOn (q.Get ctx) ProposalVotesQ.getDests ProposalVoteModel.zero e s q.selector

/-- Source: `ProposalVotesQ.Select`, run on a store. -/
def ProposalVotesQ.SelectOn (q : ProposalVotesQ) (e : Engine) (s : Store) (ctx : Context) :
    Option (GoSlice ProposalVoteModel × Option Error) :=
  selectOn (q.Select ctx) ProposalVotesQ.selectDests ProposalVoteModel.zero e s q.selector

/-- Source: `ProposalVotesQ.Count`, run on a store. -/
def ProposalVotesQ.CountOn (q : ProposalVotesQ) (e : Engine) (s : Store) (ctx : Context) :
    Option (Nat × Option Error) :=
  countOn (q.Count ctx) e s q.counter

/-! ## The maps the Insert methods fill -/

/-- The map `values` that `PetitionsQ.Insert` hands to `SetMap`. -/
def PetitionsQ.insertValues (inp : InsertPetitionInput) : GoMap :=
  let values : GoMap := [
    ("id", .val (.uuid inp.ID)),
    ("city_id", .val (.uuid inp.CityID)),
    ("title", .val (.str inp.Title)),
    ("description", .val (.str inp.Description)),
    ("initiator_id", .val (.uuid inp.InitiatorID)),
    ("address_to_id", .val (.uuidPtr inp.AddressToID)),
    ("status", .val (.str inp.Status)),
    ("signatures", .val (.int inp.Signatures)),
    ("goal", .val (.int inp.Goal)),
    ("end_date", .val (.time inp.EndDate)),
    ("created_at", .val (.time inp.CreatedAt)),
    ("updated_at", .val (.time inp.UpdatedAt))]
  let values :=
    match inp.Location with
    | some loc => values.set "location" (pointExpr loc)
    | none => values.set "location" (.val .null)
  values

/-- The map `values` that `PetitionSignaturesQ.Insert` hands to `SetMap`. -/
def PetitionSignaturesQ.insertValues (inp : PetitionSignature) : GoMap :=
  let values : GoMap := [
    ("id", .val (.uuid inp.ID)),
    ("petition_id", .val (.uuid inp.PetitionID)),
    ("user_id", .val (.uuid inp.UserID)),
    ("created_at", .val (.time inp.CreatedAt))]
  values

/-- The map `values` that `PollsQ.Insert` hands to `SetMap`. -/
def PollsQ.insertValues (inp : InsertPollInput) : GoMap :=
  let values : GoMap := [
    ("id", .val (.uuid inp.ID)),
    ("city_id", .val (.uuid inp.CityID)),
    ("title", .val (.str inp.Title)),
    ("description", .val (.str inp.Description)),
    ("status", .val (.str inp.Status)),
    ("initiator_id", .val (.uuid inp.InitiatorID)),
    ("end_date", .val (.time inp.EndDate)),
    ("created_at", .val (.time inp.CreatedAt)),
    ("updated_at", .val (.time inp.UpdatedAt))]
  let values :=
    match inp.Location with
    | some loc => values.set "location" (pointExpr loc)
    | none => values.set "location" (.val .null)
  values

/-- The map `values` that `PollOptionsQ.Insert` hands to `SetMap`. -/
def PollOptionsQ.insertValues (inp : InsertPollOptionInput) : GoMap :=
  let values : GoMap := [
    ("id", .val (.uuid inp.ID)),
    ("poll_id", .val (.uuid inp.PollID)),
    ("option_text", .val (.str inp.OptionText)),
    ("created_at", .val (.time inp.CreatedAt))]
  values

/-- The map `values` that `PollVotesQ.Insert` hands to `SetMap`. -/
def PollVotesQ.insertValues (inp : InsertPollVoteInput) : GoMap :=
  let values : GoMap := [
    ("id", .val (.uuid inp.ID)),
    ("poll_id", .val (.uuid inp.PollID)),
    ("user_id", .val (.uuid inp.UserID)),
    ("option_id", .val (.uuid inp.OptionID)),
    ("created_at", .val (.time inp.CreatedAt))]
  values

/-- The map `values` that `ProposalsQ.Insert` hands to `SetMap`. -/
def ProposalsQ.insertValues (inp : InsertProposalInput) : GoMap :=
  let values : GoMap := [
    ("id", .val (.uuid inp.ID)),
    ("city_id", .val (.uuid inp.CityID)),
    ("title", .val (.str inp.Title)),
    ("description", .val (.str inp.Description)),
    ("status", .val (.str inp.Status)),
    ("initiator_id", .val (.uuid inp.InitiatorID)),
    ("address_to_id", .val (.uuidPtr inp.AddressToID)),
    ("end_date", .val (.time inp.EndDate)),
    ("created_at", .val (.time inp.CreatedAt)),
    ("updated_at", .val (.time inp.UpdatedAt))]
  let values :=
    match inp.Location with
    | some loc => values.set "location" (pointExpr loc)
    | none => values.set "location" (.val .null)
  values

/-- The map `values` that `ProposalVotesQ.Insert` hands to `SetMap`. -/
def ProposalVotesQ.insertValues (inp : InsertProposalVoteInput) : GoMap :=
  let values : GoMap := [
    ("id", .val (.uuid inp.ID)),
    ("proposal_id", .val (.uuid inp.ProposalID)),
    ("user_id", .val (.uuid inp.UserID)),
    ("vote", .val (.bool inp.Vote)),
    ("created_at", .val (.time inp.CreatedAt))]
  values

/-! ## Tables and writes -/

/-- What the repositories rely on of a table: its columns in order, each with
the value a row gets when an INSERT leaves the column out, and the sets of
columns that must be unique among the rows. -/
structure Schema where
  columns : List (String × Cell)
  unique : List (List String)

/-- Modelled from the spec: the migration that creates table `petitions` (not
among the sources). The columns are those the repository lists, the
identifier is unique. -/
def petitionsSchema : Schema :=
  { columns := [("id", .null), ("city_id", .null), ("title", .null), ("description", .null),
      ("initiator_id", .null), ("address_to_id", .null), ("status", .null),
      ("signatures", .int 0), ("goal", .null), ("end_date", .null), ("created_at", .null),
      ("updated_at", .null), ("location", .null)],
    unique := [["id"]] }

/-- Modelled from the spec: the migration that creates table
`petition_signatures` (not among the sources). The columns are in the order of
`PetitionSignature`, the identifier is unique, and so is the pair
(petition_id, user_id): one signature per signer per petition. -/
def petitionSignaturesSchema : Schema :=
  { columns := [("id", .null), ("petition_id", .null), ("user_id", .null),
      ("created_at", .null)],
    unique := [["id"], ["petition_id", "user_id"]] }

/-- Modelled from the spec: the migration that creates table `polls` (not among
the sources). The columns are those the repository lists, the identifier is
unique. -/
def pollsSchema : Schema :=
  { columns := [("id", .null), ("city_id", .null), ("title", .null), ("description", .null),
      ("status", .null), ("initiator_id", .null), ("end_date", .null), ("created_at", .null),
      ("updated_at", .null), ("location", .null)],
    unique := [["id"]] }

/-- Modelled from the spec: the migration that creates table `proposals` (not
among the sources). The columns are those the repository lists, the
identifier is unique, and the two outcome counters are 0 when an INSERT leaves
them out. -/
def proposalsSchema : Schema :=
  { columns := [("id", .null), ("city_id", .null), ("title", .null), ("description", .null),
      ("status", .null), ("initiator_id", .null), ("address_to_id", .null),
      ("agreed_num", .int 0), ("disagreed_num", .int 0), ("end_date", .null),
      ("created_at", .null), ("updated_at", .null), ("location", .null)],
    unique := [["id"]] }

/-- Whether an integer is in the range of the integer type of `bits` bits:
from -2^(bits - 1) to 2^(bits - 1) - 1. -/
def fitsInt (bits : Nat) (i : Int) : Bool :=
  decide (-((2 : Int) ^ (bits - 1)) ≤ i ∧ i < (2 : Int) ^ (bits - 1))

/-- The value a bound argument stores in a column of a row: a plain value as
the driver sends it, `ST_SetSRID(ST_MakePoint(x, y), 4326)` the point (x, y),
and `GREATEST(signatures + d, 0)` the row's signatures plus d, at least 0; on
NULL signatures the sum is NULL, which GREATEST ignores, and the value is 0.
Whether the sum is in the range of the integer type is `Arg.outOfRange`. -/
def Arg.cell (old : Row) : Arg → Cell
  | .val v => v.cell
  | .expr ⟨"ST_SetSRID(ST_MakePoint(?, ?), 4326)", [.float x, .float y]⟩ => .point x y
  | .expr ⟨"GREATEST(signatures + ?, 0)", [.int d]⟩ =>
      match old.get "signatures" with
      | .int n => .int (max (n + d) 0)
      | .null => .int 0
      | _ => .null
  | .expr _ => .null

/-- Whether the store refuses the bound value of an argument when it binds it
to the statement, the integer type having `bits` bits: the d of
`GREATEST(signatures + d, 0)` is bound as an integer of the type of
`signatures` and is refused when it is not in its range. -/
def Arg.unbound (bits : Nat) : Arg → Bool
  | .expr ⟨"GREATEST(signatures + ?, 0)", [.int d]⟩ => !fitsInt bits d
  | _ => false

/-- Whether the store fails to evaluate an argument on a row, the integer type
having `bits` bits: the sum signatures + d of `GREATEST(signatures + d, 0)` is
not in the range of the type ("integer out of range"). -/
def Arg.outOfRange (bits : Nat) (old : Row) : Arg → Bool
  | .expr ⟨"GREATEST(signatures + ?, 0)", [.int d]⟩ =>
      match old.get "signatures" with
      | .int n => !fitsInt bits (n + d)
      | _ => false
  | _ => false

/-- The row an INSERT with one row of values writes: every column of the table,
with the value given for it or else the column's default. -/
def InsertBuilder.row (schema : Schema) (b : InsertBuilder) : Row :=
  let given := b.columns.zip (b.values.headD [])
  schema.columns.map (fun cd =>
    (cd.1, match given.find? (fun g => g.1 == cd.1) with
      | some g => g.2.cell []
      | none => cd.2))

/-- Whether two rows have the same values, none of them NULL, in the columns of
a uniqueness constraint. -/
def Row.conflicts (key : List String) (a b : Row) : Bool :=
  key.all (fun c => a.get c != .null && a.get c == b.get c)

/-- An INSERT of one row on a store: a row that conflicts with a stored row on a
uniqueness constraint is refused with SQLSTATE 23505 and the store is left as
it was; any other row is appended to the table. -/
def Store.insert (schema : Schema) (table : String) (row : Row) (s : Store) :
    Store × Option Error :=
  if schema.unique.any (fun key => (s table).any (fun r => Row.conflicts key r row)) then
    (s, some (.store "23505"))
  else (s.setTable table (s table ++ [row]), none)

/-- An UPDATE on a store: every row of the table that satisfies every WHERE
part gets the SET clauses assigned in order; the other rows are left alone. No
Update of the repositories assigns a column of a uniqueness constraint. -/
def UpdateBuilder.applyTo (e : Engine) (s : Store) (b : UpdateBuilder) : Store :=
  s.setTable b.table ((s b.table).map (fun r =>
    if b.whereParts.all (fun p => p.holds e r) then
      b.setClauses.foldl (fun acc c => acc.set c.column (c.value.cell r)) r
    else r))

/-- Whether the store refuses an UPDATE with SQLSTATE 22003 (numeric value out
of range): a bound value is not in the range of its type, or the value to
assign is out of range on a row that satisfies every WHERE part. -/
def UpdateBuilder.outOfRange (e : Engine) (s : Store) (b : UpdateBuilder) : Bool :=
  b.setClauses.any (fun c => c.value.unbound e.intBits) ||
  (s b.table).any (fun r =>
    b.whereParts.all (fun p => p.holds e r) &&
      b.setClauses.any (fun c => c.value.outOfRange e.intBits r))

/-- Whether the statement a call carries is the one a builder gives: the text
and the arguments handed to `database/sql` are those of its `ToSql()`. -/
def Call.carries (c : Call) (built : Except Error (String × List Arg)) : Bool :=
  match built with
  | .ok r => decide (c.query = r.1 ∧ c.args = r.2)
  | .error _ => false

/-- The tail every Insert shares: `ExecContext` of the issued statement on the
store. The store acts on the statement of the call: it is read as the INSERT
of the builder `b` when the text and the arguments of the call are those `b`
gives, and the model gives no result for a call that carries anything else.
The result is the store after the call and the returned error, `none` when
the call does not return. -/
def insertOn (out : Outcome) (schema : Schema) (s : Store) (b : InsertBuilder) :
    Option (Store × Option Error) :=
  match out with
  | .returned err => some (s, err)
  | .roundTrip call =>
      if call.carries b.ToSql then
        match call.answer () with
        | none => none
        | some (.error e) => some (s, some e)
        | some (.ok _) => some (Store.insert schema b.table (b.row schema) s)
      else none

/-- The tail every Update and IncrementSignatures share: `ExecContext` of the
issued statement on the store, read as the UPDATE of the builder `b` when the
text and the arguments of the call are those `b` gives. A statement the store
refuses as out of range fails as a whole: the error is returned as the store
gives it and no row changes. -/
def updateOn (out : Outcome) (e : Engine) (s : Store) (b : UpdateBuilder) :
    Option (Store × Option Error) :=
  match out with
  | .returned err => some (s, err)
  | .roundTrip call =>
      if call.carries b.ToSql then
        match call.answer () with
        | none => none
        | some (.error err) => some (s, some err)
        | some (.ok _) =>
            if b.outOfRange e s then some (s, some (.store "22003"))
            else some (b.applyTo e s, none)
      else none

/-- Source: `PetitionsQ.Insert`, run on a store. -/
def PetitionsQ.InsertOn (q : PetitionsQ) (s : Store) (ctx : Context) (inp : InsertPetitionInput) :
    Option (Store × Option Error) :=
  insertOn (q.Insert ctx inp) petitionsSchema s (q.inserter.SetMap (PetitionsQ.insertValues inp))

/-- Source: `PetitionSignaturesQ.Insert`, run on a store. -/
def PetitionSignaturesQ.InsertOn (q : PetitionSignaturesQ) (s : Store) (ctx : Context) (inp : PetitionSignature) :
    Option (Store × Option Error) :=
  insertOn (q.Insert ctx inp) petitionSignaturesSchema s (q.inserter.SetMap (PetitionSignaturesQ.insertValues inp))

/-- Source: `PollsQ.Insert`, run on a store. -/
def PollsQ.InsertOn (q : PollsQ) (s : Store) (ctx : Context) (inp : InsertPollInput) :
    Option (Store × Option Error) :=
  insertOn (q.Insert ctx inp) pollsSchema s (q.inserter.SetMap (PollsQ.insertValues inp))

/-- Source: `ProposalsQ.Insert`, run on a store. -/
def ProposalsQ.InsertOn (q : ProposalsQ) (s : Store) (ctx : Context) (inp : InsertProposalInput) :
    Option (Store × Option Error) :=
  insertOn (q.Insert ctx inp) proposalsSchema s (q.inserter.SetMap (ProposalsQ.insertValues inp))

/-- Source: `PetitionsQ.Update`, run on a store. -/
def PetitionsQ.UpdateOn (q : PetitionsQ) (e : Engine) (s : Store) (ctx : Context) (inp : UpdatePetitionInput) :
    Option (Store × Option Error) :=
  updateOn (q.Update ctx inp) e s (q.updater.SetMap (PetitionsQ.updates inp))

/-- Source: `PollsQ.Update`, run on a store. -/
def PollsQ.UpdateOn (q : PollsQ) (e : Engine) (s : Store) (ctx : Context) (inp : UpdatePollInput) :
    Option (Store × Option Error) :=
  updateOn (q.Update ctx inp) e s (q.updater.SetMap (PollsQ.updates inp))

/-- Source: `ProposalsQ.Update`, run on a store. -/
def ProposalsQ.UpdateOn (q : ProposalsQ) (e : Engine) (s : Store) (ctx : Context) (inp : UpdateProposalInput) :
    Option (Store × Option Error) :=
  updateOn (q.Update ctx inp) e s (q.updater.SetMap (ProposalsQ.updates inp))

/-! ## What the results are compared with -/

/-- A context on which a call of `database/sql` answers from the store: it is
not cancelled and holds no nil `*sql.Tx` under `TxKey`. -/
def Context.Live (ctx : Context) : Prop :=
  ctx.cancelled = false ∧ ctx.Value CtxKey.TxKey ≠ some (CtxValue.tx none)

instance (ctx : Context) : Decidable ctx.Live := by
  unfold Context.Live
  infer_instance

/-- The Go slice a loop of `append` leaves from `var out []T`: the nil slice
when nothing was appended. -/
def GoSlice.ofList {α : Type} (l : List α) : GoSlice α :=
  match l with
  | [] => none
  | _ :: _ => some l

/-- What `Row.Scan` gives for the first of the candidate rows of a statement
with the given result columns: `sql.ErrNoRows` and the destination untouched
when there is no candidate, else the scan of the first candidate. -/
def scanFirst {M : Type} (dests : List (Dest M)) (zero : M) (columns : List String)
    (candidates : List Row) : M × Option Error :=
  match candidates with
  | [] => (zero, some .noRows)
  | r :: _ => scanInto dests zero (project columns r)

/-- The rows that satisfy the WHERE parts of a statement, in the order of its
ORDER BY terms, before OFFSET and LIMIT. -/
def SelectBuilder.ordered (e : Engine) (s : Store) (b : SelectBuilder) : List Row :=
  sortRows b.orderBys (b.matching e s)

/-- An engine whose pattern and spatial tests hold of nothing and whose
integers are `bigint`, the widest integer type, which holds every Go `int`. -/
def Engine.strict : Engine :=
  ⟨fun _ _ => false, fun _ _ _ _ _ _ => false, fun _ _ _ _ _ => false, 64⟩

/-- A context with no values that is not cancelled, `context.Background()`. -/
def Context.background : Context := ⟨[], false⟩

/-- A row of `poll_votes` for poll 1: vote n by user n + 10 for option 7, cast
at time 100 - n. -/
def sampleVote (n : Nat) : Row :=
  [("id", .uuid ⟨n⟩), ("poll_id", .uuid ⟨1⟩), ("user_id", .uuid ⟨n + 10⟩),
   ("option_id", .uuid ⟨7⟩), ("created_at", .timestamp ⟨100 - n⟩)]

/-- A row of `petition_signatures`: signature n by user n + 10 on petition 1. -/
def sampleSignature (n : Nat) : Row :=
  [("id", .uuid ⟨n⟩), ("petition_id", .uuid ⟨1⟩), ("user_id", .uuid ⟨n + 10⟩),
   ("created_at", .timestamp ⟨100 + n⟩)]

/-- A store with three poll votes and two petition signatures. -/
def sampleStore : Store :=
  fun t =>
    if t = "poll_votes" then [sampleVote 1, sampleVote 2, sampleVote 3]
    else if t = "petition_signatures" then [sampleSignature 1, sampleSignature 2]
    else []

/-- A store with one poll vote. -/
def oneVoteStore : Store :=
  fun t => if t = "poll_votes" then [sampleVote 1] else []

/-- The store with no rows. -/
def Store.empty : Store := fun _ => []

/-- What Count gives without and with a page, for n rows that satisfy the
filters: the count n without the page; with `Page(l, o)` the count n only for
offset 0 and a limit of at least 1, and otherwise 0 with `sql.ErrNoRows`. -/
def CountsAfterPage (plain paged : Option (Nat × Option Error)) (n l o : Nat) : Prop :=
  plain = some (n, none) ∧
  paged = some (if o = 0 ∧ 0 < l then (n, none) else (0, some .noRows))

/-! ## Stored columns, inserted models and reachable stores -/

/-- The stored column a result column of a selector reads:
`ST_Y(location) AS lat` and `ST_X(location) AS lng` read `location`, any other
result column reads the column of its name. -/
def storedColumn (column : String) : String :=
  if column = "ST_Y(location) AS lat" ∨ column = "ST_X(location) AS lng" then "location"
  else column

/-- The stored columns a selector reads, each once; `*` reads every column of
the table. -/
def SelectBuilder.reads (tableColumns : List String) (b : SelectBuilder) : List String :=
  (b.columns.map (fun c => if c = "*" then tableColumns else [storedColumn c])).flatten.dedup

/-- The model a petition is read back as when every field is as inserted. -/
def InsertPetitionInput.model (inp : InsertPetitionInput) : PetitionModel :=
  { ID := inp.ID, CityID := inp.CityID, Title := inp.Title, Description := inp.Description,
    InitiatorID := inp.InitiatorID, AddressToID := inp.AddressToID, Status := inp.Status,
    Signatures := inp.Signatures, Goal := inp.Goal, EndDate := inp.EndDate,
    CreatedAt := inp.CreatedAt, UpdatedAt := inp.UpdatedAt,
    Lat := inp.Location.map (fun loc => loc.Lat),
    Lng := inp.Location.map (fun loc => loc.Lng) }

/-- The model a poll is read back as when every field is as inserted. -/
def InsertPollInput.model (inp : InsertPollInput) : PollModel :=
  { ID := inp.ID, CityID := inp.CityID, Title := inp.Title, Description := inp.Description,
    Status := inp.Status, InitiatorID := inp.InitiatorID, EndDate := inp.EndDate,
    CreatedAt := inp.CreatedAt, UpdatedAt := inp.UpdatedAt,
    Lat := inp.Location.map (fun loc => loc.Lat),
    Lng := inp.Location.map (fun loc => loc.Lng) }

/-- The model a proposal is read back as when every field is as inserted; the
two outcome counters, which the input does not have, are 0. -/
def InsertProposalInput.model (inp : InsertProposalInput) : Proposal :=
  { ID := inp.ID, CityID := inp.CityID, Title := inp.Title, Description := inp.Description,
    Status := inp.Status, InitiatorID := inp.InitiatorID, AddressToID := inp.AddressToID,
    AgreedNum := 0, DisagreedNum := 0, EndDate := inp.EndDate,
    CreatedAt := inp.CreatedAt, UpdatedAt := inp.UpdatedAt,
    Lat := inp.Location.map (fun loc => loc.Lat),
    Lng := inp.Location.map (fun loc => loc.Lng) }

/-- The input of a petition with its three times as the store keeps them. -/
def InsertPetitionInput.stored (inp : InsertPetitionInput) : InsertPetitionInput :=
  { inp with
    EndDate := inp.EndDate.stored, CreatedAt := inp.CreatedAt.stored,
    UpdatedAt := inp.UpdatedAt.stored }

/-- The input of a poll with its three times as the store keeps them. -/
def InsertPollInput.stored (inp : InsertPollInput) : InsertPollInput :=
  { inp with
    EndDate := inp.EndDate.stored, CreatedAt := inp.CreatedAt.stored,
    UpdatedAt := inp.UpdatedAt.stored }

/-- The input of a proposal with its three times as the store keeps them. -/
def InsertProposalInput.stored (inp : InsertProposalInput) : InsertProposalInput :=
  { inp with
    EndDate := inp.EndDate.stored, CreatedAt := inp.CreatedAt.stored,
    UpdatedAt := inp.UpdatedAt.stored }

/-- A call of Insert or Update on a value of one of the three repositories with
a location, the value given by the chain of calls that reached it. -/
inductive GeoWrite where
  | petitionsInsert (ops : List PetitionsOp) (ctx : Context) (inp : InsertPetitionInput)
  | petitionsUpdate (ops : List PetitionsOp) (ctx : Context) (inp : UpdatePetitionInput)
  | pollsInsert (ops : List PollsOp) (ctx : Context) (inp : InsertPollInput)
  | pollsUpdate (ops : List PollsOp) (ctx : Context) (inp : UpdatePollInput)
  | proposalsInsert (ops : List ProposalsOp) (ctx : Context) (inp : InsertProposalInput)
  | proposalsUpdate (ops : List ProposalsOp) (ctx : Context) (inp : UpdateProposalInput)

/-- The store after a write; a call that does not return leaves the store as
it was. -/
def GeoWrite.run (db : DB) (e : Engine) (s : Store) : GeoWrite → Store
  | .petitionsInsert ops ctx inp =>
      (((PetitionsQ.chain db ops).InsertOn s ctx inp).map Prod.fst).getD s
  | .petitionsUpdate ops ctx inp =>
      (((PetitionsQ.chain db ops).UpdateOn e s ctx inp).map Prod.fst).getD s
  | .pollsInsert ops ctx inp =>
      (((PollsQ.chain db ops).InsertOn s ctx inp).map Prod.fst).getD s
  | .pollsUpdate ops ctx inp =>
      (((PollsQ.chain db ops).UpdateOn e s ctx inp).map Prod.fst).getD s
  | .proposalsInsert ops ctx inp =>
      (((ProposalsQ.chain db ops).InsertOn s ctx inp).map Prod.fst).getD s
  | .proposalsUpdate ops ctx inp =>
      (((ProposalsQ.chain db ops).UpdateOn e s ctx inp).map Prod.fst).getD s

/-- The store reached from the empty store by a sequence of writes. -/
def reachedStore (db : DB) (e : Engine) (writes : List GeoWrite) : Store :=
  writes.foldl (GeoWrite.run db e) Store.empty

/-- A model read from one of the rows: it is the scan of a row of the list, its
two coordinates are nil together, and they are nil exactly when the stored
location of that row is NULL. -/
def ReadsLocation {M : Type} (lat lng : M → Option Float64) (dests : List (Dest M)) (zero : M)
    (columns : List String) (rows : List Row) (m : M) : Prop :=
  ∃ r ∈ rows, scanInto dests zero (project columns r) = (m, none) ∧
    (lat m = none ↔ lng m = none) ∧ (lat m = none ↔ r.get "location" = .null)

/-- The location an Insert writes: NULL for a nil `Location`, else the point
with the longitude as X and the latitude as Y. -/
def writtenLocation (location : Option GeoPoint) : Cell :=
  match location with
  | none => .null
  | some loc => .point loc.Lng loc.Lat

/-- Whether a cell is a value the `location` column can hold: NULL or a point. -/
def Cell.isLocation : Cell → Bool
  | .null => true
  | .point _ _ => true
  | _ => false

/-- Every row of the store has NULL or a point as its `location`. -/
def Store.Located (s : Store) : Prop :=
  ∀ t, ∀ r ∈ s t, (r.get "location").isLocation = true

/-- The WHERE part `BBox` appends. -/
def bboxPred (minLng minLat maxLng maxLat : Float64) : Pred :=
  .expr "location IS NOT NULL AND ST_Intersects(location, ?)"
    [.expr ⟨"ST_MakeEnvelope(?, ?, ?, ?, 4326)",
      [.float minLng, .float minLat, .float maxLng, .float maxLat]⟩]

/-- The condition of a bounding box: the location is not NULL and intersects
the envelope of SRID 4326 with the four bounds in the order minLng, minLat,
maxLng, maxLat. -/
def bboxCond (minLng minLat maxLng maxLat : Float64) : Cond :=
  .and (.isNotNull "location")
    (.intersects "location" (.float minLng) (.float minLat) (.float maxLng) (.float maxLat) 4326)

/-- The WHERE part `WithinRadius` appends. -/
def withinRadiusPred (lng lat radiusMeters : Float64) : Pred :=
  .expr "location IS NOT NULL AND ST_DWithin(location::geography, (? )::geography, ?)"
    [.expr ⟨"ST_SetSRID(ST_MakePoint(?, ?), 4326)", [.float lng, .float lat]⟩,
      .val (.float radiusMeters)]

/-- The condition of a radius: the location is not NULL and, both taken as
geographies, is within the distance of the point of SRID 4326 built from lng
and lat in that order. -/
def withinRadiusCond (lng lat radiusMeters : Float64) : Cond :=
  .and (.isNotNull "location")
    (.dwithin "location" (.float lng) (.float lat) 4326 (.float radiusMeters))

/-! ## What a terminal call builds and issues -/

/-- The statement a terminal call builds: the `ToSql()` of its source. -/
def Terminal.built : Terminal → Except Error (String × List Arg)
  | .petitionsInsert q inp => (q.inserter.SetMap (PetitionsQ.insertValues inp)).ToSql
  | .petitionsGet q => (q.selector.Limit 1).ToSql
  | .petitionsSelect q => q.selector.ToSql
  | .petitionsUpdate q inp => (q.updater.SetMap (PetitionsQ.updates inp)).ToSql
  | .petitionsDelete q => q.deleter.ToSql
  | .petitionsCount q => q.counter.ToSql
  | .petitionsIncrementSignatures q delta => (q.updater.Set "signatures"
        (.expr ⟨"GREATEST(signatures + ?, 0)", [.int delta]⟩)).ToSql
  | .petitionSignaturesInsert q inp => (q.inserter.SetMap (PetitionSignaturesQ.insertValues inp)).ToSql
  | .petitionSignaturesGet q => (q.selector.Limit 1).ToSql
  | .petitionSignaturesSelect q => q.selector.ToSql
  | .petitionSignaturesDelete q => q.deleter.ToSql
  | .petitionSignaturesCount q => q.counter.ToSql
  | .pollsInsert q inp => (q.inserter.SetMap (PollsQ.insertValues inp)).ToSql
  | .pollsUpdate q inp => (q.updater.SetMap (PollsQ.updates inp)).ToSql
  | .pollsDelete q => q.deleter.ToSql
  | .pollsGet q => (q.selector.Limit 1).ToSql
  | .pollsSelect q => q.selector.ToSql
  | .pollsCount q => q.counter.ToSql
  | .pollOptionsInsert q inp => (q.inserter.SetMap (PollOptionsQ.insertValues inp)).ToSql
  | .pollOptionsGet q => (q.selector.Limit 1).ToSql
  | .pollOptionsSelect q => q.selector.ToSql
  | .pollOptionsDelete q => q.deleter.ToSql
  | .pollOptionsCount q => q.counter.ToSql
  | .pollVotesInsert q inp => (q.inserter.SetMap (PollVotesQ.insertValues inp)).ToSql
  | .pollVotesGet q => (q.selector.Limit 1).ToSql
  | .pollVotesSelect q => q.selector.ToSql
  | .pollVotesUpdate q inp => (q.updater.SetMap (PollVotesQ.updates inp)).ToSql
  | .pollVotesDelete q => q.deleter.ToSql
  | .pollVotesCount q => q.counter.ToSql
  | .proposalsInsert q inp => (q.inserter.SetMap (ProposalsQ.insertValues inp)).ToSql
  | .proposalsGet q => (q.selector.Limit 1).ToSql
  | .proposalsSelect q => q.selector.ToSql
  | .proposalsUpdate q inp => (q.updater.SetMap (ProposalsQ.updates inp)).ToSql
  | .proposalsDelete q => q.deleter.ToSql
  | .proposalsCount q => q.counter.ToSql
  | .proposalVotesInsert q inp => (q.inserter.SetMap (ProposalVotesQ.insertValues inp)).ToSql
  | .proposalVotesGet q => (q.selector.Limit 1).ToSql
  | .proposalVotesSelect q => q.selector.ToSql
  | .proposalVotesUpdate q inp => (q.updater.SetMap (ProposalVotesQ.updates inp)).ToSql
  | .proposalVotesDelete q => q.deleter.ToSql
  | .proposalVotesCount q => q.counter.ToSql

/-- The `database/sql` method a terminal call uses for its statement. -/
def Terminal.method : Terminal → Method
  | .petitionsInsert _ _ => .ExecContext
  | .petitionsGet _ => .QueryRowContext
  | .petitionsSelect _ => .QueryContext
  | .petitionsUpdate _ _ => .ExecContext
  | .petitionsDelete _ => .ExecContext
  | .petitionsCount _ => .QueryRowContext
  | .petitionsIncrementSignatures _ _ => .ExecContext
  | .petitionSignaturesInsert _ _ => .ExecContext
  | .petitionSignaturesGet _ => .QueryRowContext
  | .petitionSignaturesSelect _ => .QueryContext
  | .petitionSignaturesDelete _ => .ExecContext
  | .petitionSignaturesCount _ => .QueryRowContext
  | .pollsInsert _ _ => .ExecContext
  | .pollsUpdate _ _ => .ExecContext
  | .pollsDelete _ => .ExecContext
  | .pollsGet _ => .QueryRowContext
  | .pollsSelect _ => .QueryContext
  | .pollsCount _ => .QueryRowContext
  | .pollOptionsInsert _ _ => .ExecContext
  | .pollOptionsGet _ => .QueryRowContext
  | .pollOptionsSelect _ => .QueryContext
  | .pollOptionsDelete _ => .ExecContext
  | .pollOptionsCount _ => .QueryRowContext
  | .pollVotesInsert _ _ => .ExecContext
  | .pollVotesGet _ => .QueryRowContext
  | .pollVotesSelect _ => .QueryContext
  | .pollVotesUpdate _ _ => .ExecContext
  | .pollVotesDelete _ => .ExecContext
  | .pollVotesCount _ => .QueryRowContext
  | .proposalsInsert _ _ => .ExecContext
  | .proposalsGet _ => .QueryRowContext
  | .proposalsSelect _ => .QueryContext
  | .proposalsUpdate _ _ => .ExecContext
  | .proposalsDelete _ => .ExecContext
  | .proposalsCount _ => .QueryRowContext
  | .proposalVotesInsert _ _ => .ExecContext
  | .proposalVotesGet _ => .QueryRowContext
  | .proposalVotesSelect _ => .QueryContext
  | .proposalVotesUpdate _ _ => .ExecContext
  | .proposalVotesDelete _ => .ExecContext
  | .proposalVotesCount _ => .QueryRowContext

/-- Whether a terminal call returns before it builds a statement: an Update
whose map of updates is empty. -/
def Terminal.skips : Terminal → Bool
  | .petitionsUpdate _ inp => decide ((PetitionsQ.updates inp).length = 0)
  | .pollsUpdate _ inp => decide ((PollsQ.updates inp).length = 0)
  | .pollVotesUpdate _ inp => decide ((PollVotesQ.updates inp).length = 0)
  | .proposalsUpdate _ inp => decide ((ProposalsQ.updates inp).length = 0)
  | .proposalVotesUpdate _ inp => decide ((ProposalVotesQ.updates inp).length = 0)
  | _ => false

/-- Source: `PetitionsQ.IncrementSignatures`, run on a store: the statement
the method issues, read by the store as the UPDATE the method builds. -/
def PetitionsQ.IncrementSignaturesOn (q : PetitionsQ) (e : Engine) (s : Store) (ctx : Context)
    (delta : Int) : Option (Store × Option Error) :=
  updateOn (q.IncrementSignatures ctx delta) e s
    (q.updater.Set "signatures" (.expr ⟨"GREATEST(signatures + ?, 0)", [.int delta]⟩))

/-- The predicate each equality filter of `PetitionsQ` hands to `Where` on the
updater, as the source writes it; TitleLike, BBox, WithinRadius and Page do
not assign the updater. -/
def PetitionsOp.writePreds : PetitionsOp → List Pred
  | .FilterID id => [.eq "id" (.uuid id)]
  | .FilterCityID cityID => [.eq "city_id" (.uuid cityID)]
  | .FilterInitiatorID initiatorID => [.eq "initiator_id" (.uuid initiatorID)]
  | .FilterStatus status => [.eq "status" (.str status)]
  | .TitleLike _ => []
  | .BBox _ _ _ _ => []
  | .WithinRadius _ _ _ => []
  | .Page _ _ => []

/-- The columns no Update is to assign: the identifier, the creation time and
the counters kept elsewhere. -/
def protectedColumns : List String :=
  ["id", "created_at", "signatures", "agreed_num", "disagreed_num"]

/-- The term each ordering method of `PollOptionsQ` hands to `OrderBy` on the
selector, as the source writes it; a filter or `Page` call hands none. -/
def PollOptionsOp.terms : PollOptionsOp → List String
  | .OrderByCreatedAsc => ["created_at ASC"]
  | .OrderByCreatedDesc => ["created_at DESC"]
  | .OrderByVotesDesc => ["votes_count DESC"]
  | _ => []

/-- The term each ordering method of `PollVotesQ` hands to `OrderBy` on the
selector, as the source writes it; a filter or `Page` call hands none. -/
def PollVotesOp.terms : PollVotesOp → List String
  | .OrderByCreatedAsc => ["created_at ASC"]
  | .OrderByCreatedDesc => ["created_at DESC"]
  | _ => []

/-- The term each ordering method of `ProposalsQ` hands to `OrderBy` on the
selector, as the source writes it; a filter or `Page` call hands none. -/
def ProposalsOp.terms : ProposalsOp → List String
  | .OrderByCreatedAsc => ["created_at ASC"]
  | .OrderByCreatedDesc => ["created_at DESC"]
  | .OrderByAgreedDesc => ["agreed_num DESC"]
  | .OrderByDisagreedDesc => ["disagreed_num DESC"]
  | _ => []

/-- The term each ordering method of `ProposalVotesQ` hands to `OrderBy` on the
selector, as the source writes it; a filter or `Page` call hands none. -/
def ProposalVotesOp.terms : ProposalVotesOp → List String
  | .OrderByCreatedAsc => ["created_at ASC"]
  | .OrderByCreatedDesc => ["created_at DESC"]
  | _ => []

/-! ## The `db` tags of the models -/

/-- The name under which a result column is delivered: its alias after `AS`,
else the column itself. -/
def columnAlias (column : String) : String :=
  if column = "ST_Y(location) AS lat" then "lat"
  else if column = "ST_X(location) AS lng" then "lng"
  else column

/-- A `*uuid.UUID` as a cell: NULL for nil. -/
def Cell.ofUUIDPtr : Option UUID → Cell
  | none => .null
  | some u => .uuid u

/-- A `*float64` as a cell: NULL for nil. -/
def Cell.ofFloatPtr : Option Float64 → Cell
  | none => .null
  | some f => .float f

/-- Source: the `db` tags of `PetitionModel`: the value of the field a tag names, NULL
for a tag of no field. -/
def PetitionModel.get (m : PetitionModel) (tag : String) : Cell :=
  if tag = "id" then .uuid m.ID
  else if tag = "city_id" then .uuid m.CityID
  else if tag = "title" then .text m.Title
  else if tag = "description" then .text m.Description
  else if tag = "initiator_id" then .uuid m.InitiatorID
  else if tag = "address_to_id" then Cell.ofUUIDPtr m.AddressToID
  else if tag = "status" then .text m.Status
  else if tag = "signatures" then .int m.Signatures
  else if tag = "goal" then .int m.Goal
  else if tag = "end_date" then .timestamp m.EndDate
  else if tag = "created_at" then .timestamp m.CreatedAt
  else if tag = "updated_at" then .timestamp m.UpdatedAt
  else if tag = "lat" then Cell.ofFloatPtr m.Lat
  else if tag = "lng" then Cell.ofFloatPtr m.Lng
  else .null

/-- Source: the `db` tags of `PollModel`: the value of the field a tag names, NULL
for a tag of no field. -/
def PollModel.get (m : PollModel) (tag : String) : Cell :=
  if tag = "id" then .uuid m.ID
  else if tag = "city_id" then .uuid m.CityID
  else if tag = "title" then .text m.Title
  else if tag = "description" then .text m.Description
  else if tag = "status" then .text m.Status
  else if tag = "initiator_id" then .uuid m.InitiatorID
  else if tag = "end_date" then .timestamp m.EndDate
  else if tag = "created_at" then .timestamp m.CreatedAt
  else if tag = "updated_at" then .timestamp m.UpdatedAt
  else if tag = "lat" then Cell.ofFloatPtr m.Lat
  else if tag = "lng" then Cell.ofFloatPtr m.Lng
  else .null

/-- Source: the `db` tags of `PollOption`: the value of the field a tag names, NULL
for a tag of no field. -/
def PollOption.get (m : PollOption) (tag : String) : Cell :=
  if tag = "id" then .uuid m.ID
  else if tag = "poll_id" then .uuid m.PollID
  else if tag = "option_text" then .text m.OptionText
  else if tag = "votes_count" then .int m.VotesCount
  else if tag = "created_at" then .timestamp m.CreatedAt
  else .null

/-- Source: the `db` tags of `PollVoteModel`: the value of the field a tag names, NULL
for a tag of no field. -/
def PollVoteModel.get (m : PollVoteModel) (tag : String) : Cell :=
  if tag = "id" then .uuid m.ID
  else if tag = "poll_id" then .uuid m.PollID
  else if tag = "user_id" then .uuid m.UserID
  else if tag = "option_id" then .uuid m.OptionID
  else if tag = "created_at" then .timestamp m.CreatedAt
  else .null

/-- Source: the `db` tags of `Proposal`: the value of the field a tag names, NULL
for a tag of no field. -/
def Proposal.get (m : Proposal) (tag : String) : Cell :=
  if tag = "id" then .uuid m.ID
  else if tag = "city_id" then .uuid m.CityID
  else if tag = "title" then .text m.Title
  else if tag = "description" then .text m.Description
  else if tag = "status" then .text m.Status
  else if tag = "initiator_id" then .uuid m.InitiatorID
  else if tag = "address_to_id" then Cell.ofUUIDPtr m.AddressToID
  else if tag = "agreed_num" then .int m.AgreedNum
  else if tag = "disagreed_num" then .int m.DisagreedNum
  else if tag = "end_date" then .timestamp m.EndDate
  else if tag = "created_at" then .timestamp m.CreatedAt
  else if tag = "updated_at" then .timestamp m.UpdatedAt
  else if tag = "lat" then Cell.ofFloatPtr m.Lat
  else if tag = "lng" then Cell.ofFloatPtr m.Lng
  else .null

/-- Source: the `db` tags of `ProposalVoteModel`: the value of the field a tag names, NULL
for a tag of no field. -/
def ProposalVoteModel.get (m : ProposalVoteModel) (tag : String) : Cell :=
  if tag = "id" then .uuid m.ID
  else if tag = "proposal_id" then .uuid m.ProposalID
  else if tag = "user_id" then .uuid m.UserID
  else if tag = "vote" then .bool m.Vote
  else if tag = "created_at" then .timestamp m.CreatedAt
  else .null

/-- A destination of Scan writes the field a tag names: a successful scan
leaves the fields of the other tags as they were, and a cell that is not NULL
is then the value of the field of the tag. -/
def WritesTag {M : Type} (get : M → String → Cell) (d : Dest M) (tag : String) : Prop :=
  ∀ (c : Cell) (p p1 : M), d c p = .ok p1 →
    (∀ k, k ≠ tag → get p1 k = get p k) ∧ (c ≠ .null → get p1 tag = c)

/-- What a Get gives when it reads at position o of the rows: `sql.ErrNoRows`
and a zero model when there are fewer than o + 1 rows, else the scan of the
row at position o. -/
def GetsAt {M : Type} (result : Option (M × Option Error)) (dests : List (Dest M)) (zero : M)
    (columns : List String) (rows : List Row) (o : Nat) : Prop :=
  (rows.length < o + 1 → result = some (zero, some .noRows)) ∧
  (∀ r, rows[o]? = some r → result = some (scanInto dests zero (project columns r)))

/-- The call an Update issues for a table, SET clauses and WHERE parts: the
UPDATE statement with the clauses in order and then the WHERE clause, the
arguments of the clauses before those of the WHERE parts, handed to the
resolved target by `ExecContext`. -/
def updateCall (db : DB) (ctx : Context) (table : String) (clauses : List SetClause)
    (parts : List Pred) : Call :=
  ⟨resolveTarget db ctx, .ExecContext, ctx,
    dollar ("UPDATE " ++ table ++ " SET "
      ++ ", ".intercalate (clauses.map (fun c => c.ToSql.1)) ++ (whereToSql parts).1),
    (clauses.map (fun c => c.ToSql.2)).flatten ++ (whereToSql parts).2⟩

/-- The three states of `AddressToID`, for the SET clauses `rest` of the other
fields, the WHERE parts of the updater and the outcomes of Update with nil,
with a pointer to a nil pointer and with a pointer to a pointer to v. With nil
no clause is on address_to_id, and Update issues the UPDATE of `rest`, or
returns without a statement when `rest` is empty. With a pointer the clause on
address_to_id comes first, bound to the inner pointer, which the driver sends
as NULL when it is nil and as v when it points to v. The three outcomes are
pairwise different. -/
def AddressStates (db : DB) (ctx : Context) (table : String) (rest : List SetClause)
    (parts : List Pred) (withNil withNull withValue : Outcome) (v : UUID) : Prop :=
  (∀ c ∈ rest, c.column ≠ "address_to_id") ∧
  (withNil = .roundTrip (updateCall db ctx table rest parts) ∨
    (rest = [] ∧ withNil = .returned none)) ∧
  withNull = .roundTrip (updateCall db ctx table
    (⟨"address_to_id", .val (.uuidPtr none)⟩ :: rest) parts) ∧
  withValue = .roundTrip (updateCall db ctx table
    (⟨"address_to_id", .val (.uuidPtr (some v))⟩ :: rest) parts) ∧
  (Value.uuidPtr none).driverValue = .null ∧
  (Value.uuidPtr (some v)).driverValue = .uuid v ∧
  withNil ≠ withNull ∧ withNil ≠ withValue ∧ withNull ≠ withValue

/-! ## Method bodies as scripts of `database/sql` calls

A method body seen from `database/sql`: the requests it makes, one after the
other, each followed by what the body does with the answer. -/

/-- A request a method body can make of `database/sql`: begin a transaction,
commit or roll back one, or hand a statement to `ExecContext`,
`QueryRowContext` or `QueryContext`. -/
inductive Request where
  | begin (target : Target) (ctx : Context)
  | commit (tx : Option Tx)
  | rollback (tx : Option Tx)
  | statement (call : Call)
deriving DecidableEq, Repr

/-- What answers the requests of a body: for the request number n, the error
or the result set of a statement (the result set of `ExecContext` is not
looked at), the transaction or the error of a begin, and the error of a commit
or a rollback. Any answer is possible, and a repeated request may be answered
differently. -/
structure Driver where
  reply : Nat → Call → Except Error Rows
  begun : Nat → Target → Context → Except Error Tx
  ended : Nat → Option Tx → Option Error

/-- A method body as the requests it makes: it is done with a result, or it
makes one request and goes on with the answer. -/
inductive Script (α : Type) where
  | done (result : α)
  | statement (call : Call) (next : Except Error Rows → Script α)
  | begin (target : Target) (ctx : Context) (next : Except Error Tx → Script α)
  | commit (tx : Option Tx) (next : Option Error → Script α)
  | rollback (tx : Option Tx) (next : Option Error → Script α)

/-- A script run against a driver, from request number n on: the result, and
the requests made in order. -/
def Script.run {α : Type} (d : Driver) : Nat → Script α → α × List Request
  | _, .done result => (result, [])
  | n, .statement call next =>
      let r := Script.run d (n + 1) (next (d.reply n call))
      (r.1, .statement call :: r.2)
  | n, .begin target ctx next =>
      let r := Script.run d (n + 1) (next (d.begun n target ctx))
      (r.1, .begin target ctx :: r.2)
  | n, .commit tx next =>
      let r := Script.run d (n + 1) (next (d.ended n tx))
      (r.1, .commit tx :: r.2)
  | n, .rollback tx next =>
      let r := Script.run d (n + 1) (next (d.ended n tx))
      (r.1, .rollback tx :: r.2)

/-- The script with a function applied to its result. -/
def Script.map {α β : Type} (f : α → β) : Script α → Script β
  | .done result => .done (f result)
  | .statement call next => .statement call (fun r => Script.map f (next r))
  | .begin target ctx next => .begin target ctx (fun r => Script.map f (next r))
  | .commit tx next => .commit tx (fun r => Script.map f (next r))
  | .rollback tx next => .rollback tx (fun r => Script.map f (next r))

/-- The `err` of `_, err = ...ExecContext(ctx, query, args...)`. -/
def replyError : Except Error Rows → Option Error
  | .error err => some err
  | .ok _ => none

/-- The body every Insert, Update, Delete and IncrementSignatures shares from
`ToSql()` on: a build error is wrapped and returned; else the statement goes
to `tx.ExecContext` when the context holds a `*sql.Tx` under `TxKey` and to
`q.db.ExecContext` otherwise, and the error of that call is returned. -/
def execScript (db : DB) (ctx : Context) (wrap : String)
    (built : Except Error (String × List Arg)) : Script (Option Error) :=
  match built with
  | .error err => .done (some (.wrapf wrap err))
  | .ok (query, args) =>
      match ctx.Value CtxKey.TxKey with
      | some (CtxValue.tx tx) =>
          .statement ⟨.tx tx, .ExecContext, ctx, query, args⟩ (fun r => .done (replyError r))
      | _ =>
          .statement ⟨.pool db, .ExecContext, ctx, query, args⟩ (fun r => .done (replyError r))

/-- The body every Get shares from `ToSql()` on: a build error is wrapped and
returned with a zero model; else `QueryRowContext` on the transaction or the
pool, then `row.Scan`, whose model and error are returned. -/
def getScript {M : Type} (db : DB) (ctx : Context) (wrap : String)
    (built : Except Error (String × List Arg)) (dests : List (Dest M)) (zero : M) :
    Script (M × Option Error) :=
  match built with
  | .error err => .done (zero, some (.wrapf wrap err))
  | .ok (query, args) =>
      match ctx.Value CtxKey.TxKey with
      | some (CtxValue.tx tx) =>
          .statement ⟨.tx tx, .QueryRowContext, ctx, query, args⟩
            (fun r => .done (rowScan dests zero r))
      | _ =>
          .statement ⟨.pool db, .QueryRowContext, ctx, query, args⟩
            (fun r => .done (rowScan dests zero r))

/-- The body every Select shares from `ToSql()` on: a build error is wrapped
and returned with nil; else `QueryContext` on the transaction or the pool,
then the error of the query or the loop over the rows. -/
def selectScript {M : Type} (db : DB) (ctx : Context) (wrap : String)
    (built : Except Error (String × List Arg)) (dests : List (Dest M)) (zero : M) :
    Script (GoSlice M × Option Error) :=
  match built with
  | .error err => .done (none, some (.wrapf wrap err))
  | .ok (query, args) =>
      match ctx.Value CtxKey.TxKey with
      | some (CtxValue.tx tx) =>
          .statement ⟨.tx tx, .QueryContext, ctx, query, args⟩
            (fun r => .done (selectRows dests zero r))
      | _ =>
          .statement ⟨.pool db, .QueryContext, ctx, query, args⟩
            (fun r => .done (selectRows dests zero r))

/-- The body every Count shares from `ToSql()` on: a build error is wrapped and
returned with 0; else `QueryRowContext(...).Scan(&count)` on the transaction
or the pool. -/
def countScript (db : DB) (ctx : Context) (wrap : String)
    (built : Except Error (String × List Arg)) : Script (Nat × Option Error) :=
  match built with
  | .error err => .done (0, some (.wrapf wrap err))
  | .ok (query, args) =>
      match ctx.Value CtxKey.TxKey with
      | some (CtxValue.tx tx) =>
          .statement ⟨.tx tx, .QueryRowContext, ctx, query, args⟩
            (fun r => .done (rowScan countDests 0 r))
      | _ =>
          .statement ⟨.pool db, .QueryRowContext, ctx, query, args⟩
            (fun r => .done (rowScan countDests 0 r))

/-- Source: the body of every terminal operation, as the script of its
requests; the result kept is the error the operation returns. -/
def Terminal.script : Terminal → Context → Script (Option Error)
  | .petitionsInsert q inp, ctx =>
      execScript q.db ctx ("building inserter query for table " ++ petitionsTable ++ ": ")
        (q.inserter.SetMap (PetitionsQ.insertValues inp)).ToSql
  | .petitionsGet q, ctx =>
      (getScript q.db ctx ("building selector query for table " ++ petitionsTable ++ ": ")
        (q.selector.Limit 1).ToSql PetitionsQ.getDests PetitionModel.zero).map Prod.snd
  | .petitionsSelect q, ctx =>
      (selectScript q.db ctx ("building selector query for table " ++ petitionsTable ++ ": ")
        q.selector.ToSql PetitionsQ.selectDests PetitionModel.zero).map Prod.snd
  | .petitionsUpdate q inp, ctx =>
      if (PetitionsQ.updates inp).length = 0 then .done none
      else execScript q.db ctx ("building updater query for table " ++ petitionsTable ++ ": ")
        (q.updater.SetMap (PetitionsQ.updates inp)).ToSql
  | .petitionsDelete q, ctx =>
      execScript q.db ctx ("building deleter query for table " ++ petitionsTable ++ ": ")
        q.deleter.ToSql
  | .petitionsCount q, ctx =>
      (countScript q.db ctx ("building count query for table " ++ petitionsTable ++ ": ")
        q.counter.ToSql).map Prod.snd
  | .petitionsIncrementSignatures q delta, ctx =>
      execScript q.db ctx "building increment signatures query: "
        (q.updater.Set "signatures" (.expr ⟨"GREATEST(signatures + ?, 0)", [.int delta]⟩)).ToSql
  | .petitionSignaturesInsert q inp, ctx =>
      execScript q.db ctx ("building inserter query for table: " ++ petitionSignaturesTable ++ " input: ")
        (q.inserter.SetMap (PetitionSignaturesQ.insertValues inp)).ToSql
  | .petitionSignaturesGet q, ctx =>
      (getScript q.db ctx ("building selector query for table: " ++ petitionSignaturesTable ++ ": ")
        (q.selector.Limit 1).ToSql PetitionSignaturesQ.getDests PetitionSignature.zero).map Prod.snd
  | .petitionSignaturesSelect q, ctx =>
      (selectScript q.db ctx ("building selector query for table: " ++ petitionSignaturesTable ++ ": ")
        q.selector.ToSql PetitionSignaturesQ.selectDests PetitionSignature.zero).map Prod.snd
  | .petitionSignaturesDelete q, ctx =>
      execScript q.db ctx ("building deleter query for table: " ++ petitionSignaturesTable ++ ": ")
        q.deleter.ToSql
  | .petitionSignaturesCount q, ctx =>
      (countScript q.db ctx ("building count query for table: " ++ petitionSignaturesTable ++ ": ")
        q.counter.ToSql).map Prod.snd
  | .pollsInsert q inp, ctx =>
      execScript q.db ctx ("building inserter query for table " ++ pollsTable ++ ": ")
        (q.inserter.SetMap (PollsQ.insertValues inp)).ToSql
  | .pollsUpdate q inp, ctx =>
      if (PollsQ.updates inp).length = 0 then .done none
      else execScript q.db ctx ("building updater query for table " ++ pollsTable ++ ": ")
        (q.updater.SetMap (PollsQ.updates inp)).ToSql
  | .pollsDelete q, ctx =>
      execScript q.db ctx ("building deleter query for table " ++ pollsTable ++ ": ")
        q.deleter.ToSql
  | .pollsGet q, ctx =>
      (getScript q.db ctx ("building selector query for table " ++ pollsTable ++ ": ")
        (q.selector.Limit 1).ToSql PollsQ.getDests PollModel.zero).map Prod.snd
  | .pollsSelect q, ctx =>
      (selectScript q.db ctx ("building selector query for table " ++ pollsTable ++ ": ")
        q.selector.ToSql PollsQ.selectDests PollModel.zero).map Prod.snd
  | .pollsCount q, ctx =>
      (countScript q.db ctx ("building count query for table " ++ pollsTable ++ ": ")
        q.counter.ToSql).map Prod.snd
  | .pollOptionsInsert q inp, ctx =>
      execScript q.db ctx ("building inserter query for table " ++ pollOptionsTable ++ ": ")
        (q.inserter.SetMap (PollOptionsQ.insertValues inp)).ToSql
  | .pollOptionsGet q, ctx =>
      (getScript q.db ctx ("building selector query for table " ++ pollOptionsTable ++ ": ")
        (q.selector.Limit 1).ToSql PollOptionsQ.getDests PollOption.zero).map Prod.snd
  | .pollOptionsSelect q, ctx =>
      (selectScript q.db ctx ("building selector query for table " ++ pollOptionsTable ++ ": ")
        q.selector.ToSql PollOptionsQ.selectDests PollOption.zero).map Prod.snd
  | .pollOptionsDelete q, ctx =>
      execScript q.db ctx ("building deleter query for table " ++ pollOptionsTable ++ ": ")
        q.deleter.ToSql
  | .pollOptionsCount q, ctx =>
      (countScript q.db ctx ("building count query for table " ++ pollOptionsTable ++ ": ")
        q.counter.ToSql).map Prod.snd
  | .pollVotesInsert q inp, ctx =>
      execScript q.db ctx ("building inserter query for table " ++ pollVotesTable ++ ": ")
        (q.inserter.SetMap (PollVotesQ.insertValues inp)).ToSql
  | .pollVotesGet q, ctx =>
      (getScript q.db ctx ("building selector query for table " ++ pollVotesTable ++ ": ")
        (q.selector.Limit 1).ToSql PollVotesQ.getDests PollVoteModel.zero).map Prod.snd
  | .pollVotesSelect q, ctx =>
      (selectScript q.db ctx ("building selector query for table " ++ pollVotesTable ++ ": ")
        q.selector.ToSql PollVotesQ.selectDests PollVoteModel.zero).map Prod.snd
  | .pollVotesUpdate q inp, ctx =>
      if (PollVotesQ.updates inp).length = 0 then .done none
      else execScript q.db ctx ("building updater query for table " ++ pollVotesTable ++ ": ")
        (q.updater.SetMap (PollVotesQ.updates inp)).ToSql
  | .pollVotesDelete q, ctx =>
      execScript q.db ctx ("building deleter query for table " ++ pollVotesTable ++ ": ")
        q.deleter.ToSql
  | .pollVotesCount q, ctx =>
      (countScript q.db ctx ("building count query for table " ++ pollVotesTable ++ ": ")
        q.counter.ToSql).map Prod.snd
  | .proposalsInsert q inp, ctx =>
      execScript q.db ctx ("building inserter query for table " ++ proposalsTable ++ ": ")
        (q.inserter.SetMap (ProposalsQ.insertValues inp)).ToSql
  | .proposalsGet q, ctx =>
      (getScript q.db ctx ("building selector query for table " ++ proposalsTable ++ ": ")
        (q.selector.Limit 1).ToSql ProposalsQ.getDests Proposal.zero).map Prod.snd
  | .proposalsSelect q, ctx =>
      (selectScript q.db ctx ("building selector query for table " ++ proposalsTable ++ ": ")
        q.selector.ToSql ProposalsQ.selectDests Proposal.zero).map Prod.snd
  | .proposalsUpdate q inp, ctx =>
      if (ProposalsQ.updates inp).length = 0 then .done none
      else execScript q.db ctx ("building updater query for table " ++ proposalsTable ++ ": ")
        (q.updater.SetMap (ProposalsQ.updates inp)).ToSql
  | .proposalsDelete q, ctx =>
      execScript q.db ctx ("building deleter query for table " ++ proposalsTable ++ ": ")
        q.deleter.ToSql
  | .proposalsCount q, ctx =>
      (countScript q.db ctx ("building count query for table " ++ proposalsTable ++ ": ")
        q.counter.ToSql).map Prod.snd
  | .proposalVotesInsert q inp, ctx =>
      execScript q.db ctx ("building inserter query for table " ++ proposalVotesTable ++ ": ")
        (q.inserter.SetMap (ProposalVotesQ.insertValues inp)).ToSql
  | .proposalVotesGet q, ctx =>
      (getScript q.db ctx ("building selector query for table " ++ proposalVotesTable ++ ": ")
        (q.selector.Limit 1).ToSql ProposalVotesQ.getDests ProposalVoteModel.zero).map Prod.snd
  | .proposalVotesSelect q, ctx =>
      (selectScript q.db ctx ("building selector query for table " ++ proposalVotesTable ++ ": ")
        q.selector.ToSql ProposalVotesQ.selectDests ProposalVoteModel.zero).map Prod.snd
  | .proposalVotesUpdate q inp, ctx =>
      if (ProposalVotesQ.updates inp).length = 0 then .done none
      else execScript q.db ctx ("building updater query for table " ++ proposalVotesTable ++ ": ")
        (q.updater.SetMap (ProposalVotesQ.updates inp)).ToSql
  | .proposalVotesDelete q, ctx =>
      execScript q.db ctx ("building deleter query for table " ++ proposalVotesTable ++ ": ")
        q.deleter.ToSql
  | .proposalVotesCount q, ctx =>
      (countScript q.db ctx ("building count query for table " ++ proposalVotesTable ++ ": ")
        q.counter.ToSql).map Prod.snd

/-- The text a terminal operation is to put before the cause of a build
failure, as the source spells it: the statement being built and the table,
or for IncrementSignatures the operation alone. -/
def Terminal.wrapText : Terminal → String
  | .petitionsInsert _ _ => "building inserter query for table petitions: "
  | .petitionsGet _ => "building selector query for table petitions: "
  | .petitionsSelect _ => "building selector query for table petitions: "
  | .petitionsUpdate _ _ => "building updater query for table petitions: "
  | .petitionsDelete _ => "building deleter query for table petitions: "
  | .petitionsCount _ => "building count query for table petitions: "
  | .petitionsIncrementSignatures _ _ => "building increment signatures query: "
  | .petitionSignaturesInsert _ _ => "building inserter query for table: petition_signatures input: "
  | .petitionSignaturesGet _ => "building selector query for table: petition_signatures: "
  | .petitionSignaturesSelect _ => "building selector query for table: petition_signatures: "
  | .petitionSignaturesDelete _ => "building deleter query for table: petition_signatures: "
  | .petitionSignaturesCount _ => "building count query for table: petition_signatures: "
  | .pollsInsert _ _ => "building inserter query for table polls: "
  | .pollsUpdate _ _ => "building updater query for table polls: "
  | .pollsDelete _ => "building deleter query for table polls: "
  | .pollsGet _ => "building selector query for table polls: "
  | .pollsSelect _ => "building selector query for table polls: "
  | .pollsCount _ => "building count query for table polls: "
  | .pollOptionsInsert _ _ => "building inserter query for table poll_options: "
  | .pollOptionsGet _ => "building selector query for table poll_options: "
  | .pollOptionsSelect _ => "building selector query for table poll_options: "
  | .pollOptionsDelete _ => "building deleter query for table poll_options: "
  | .pollOptionsCount _ => "building count query for table poll_options: "
  | .pollVotesInsert _ _ => "building inserter query for table poll_votes: "
  | .pollVotesGet _ => "building selector query for table poll_votes: "
  | .pollVotesSelect _ => "building selector query for table poll_votes: "
  | .pollVotesUpdate _ _ => "building updater query for table poll_votes: "
  | .pollVotesDelete _ => "building deleter query for table poll_votes: "
  | .pollVotesCount _ => "building count query for table poll_votes: "
  | .proposalsInsert _ _ => "building inserter query for table proposals: "
  | .proposalsGet _ => "building selector query for table proposals: "
  | .proposalsSelect _ => "building selector query for table proposals: "
  | .proposalsUpdate _ _ => "building updater query for table proposals: "
  | .proposalsDelete _ => "building deleter query for table proposals: "
  | .proposalsCount _ => "building count query for table proposals: "
  | .proposalVotesInsert _ _ => "building inserter query for table proposal_votes: "
  | .proposalVotesGet _ => "building selector query for table proposal_votes: "
  | .proposalVotesSelect _ => "building selector query for table proposal_votes: "
  | .proposalVotesUpdate _ _ => "building updater query for table proposal_votes: "
  | .proposalVotesDelete _ => "building deleter query for table proposal_votes: "
  | .proposalVotesCount _ => "building count query for table proposal_votes: "

/-- What an operation returns as its error after a round trip that gave a
result set: nil, the error the result set ends with, `sql.ErrNoRows`, or the
error of a Scan, each as it came. -/
def ReturnedAfter (err : Option Error) (rows : Rows) : Prop :=
  err = none ∨ err = rows.err ∨ err = some .noRows ∨ (∃ j msg, err = some (.scan j msg)) ∨
    ∃ a b, err = some (.scanCount a b)

/-- A script of one request at most agrees with an outcome: both return the
same error without a request, or the one request of the script is the
statement of the outcome. -/
def Script.Agrees (s : Script (Option Error)) (out : Outcome) : Prop :=
  match s with
  | .done err => out = .returned err
  | .statement call _ => out = .roundTrip call
  | _ => False

/-! ## Memory: receivers and persistent builders

The calls of the filter, ordering and `Page` methods with the memory they work
on made explicit: the struct variables of caller and callee, and the heap of
the maps squirrel's builders point to. -/

/-- The map a squirrel builder points to, by the kind of its builder. -/
inductive BuilderMap where
  | select (b : SelectBuilder)
  | insert (b : InsertBuilder)
  | update (b : UpdateBuilder)
  | delete (b : DeleteBuilder)
deriving DecidableEq, Repr

/-- The builder fields of a repository struct. -/
inductive BuilderField where
  | selector
  | inserter
  | updater
  | deleter
  | counter
deriving DecidableEq, Repr

/-- Source: the struct every repository type declares, as it lies in memory:
the pool and, for each builder field, the address of the map the builder
points to. Copying the struct copies the addresses, not the maps. -/
structure RepoStruct where
  db : DB
  selector : Nat
  inserter : Nat
  updater : Nat
  deleter : Nat
  counter : Nat
deriving DecidableEq, Repr

/-- The address in a builder field. -/
def RepoStruct.get (r : RepoStruct) : BuilderField → Nat
  | .selector => r.selector
  | .inserter => r.inserter
  | .updater => r.updater
  | .deleter => r.deleter
  | .counter => r.counter

/-- The struct with a builder field assigned. -/
def RepoStruct.set (r : RepoStruct) (f : BuilderField) (a : Nat) : RepoStruct :=
  match f with
  | .selector => { r with selector := a }
  | .inserter => { r with inserter := a }
  | .updater => { r with updater := a }
  | .deleter => { r with deleter := a }
  | .counter => { r with counter := a }

/-- The memory of a run: the heap of builder maps by address, and the
repository struct variables of the callers and callees by index. -/
structure Memory where
  heap : List BuilderMap
  vars : List RepoStruct
deriving DecidableEq, Repr

/-- The squirrel calls the methods make on a builder. -/
inductive BuilderCall where
  | Where (p : Pred)
  | OrderBy (term : String)
  | Limit (n : Nat)
  | Offset (n : Nat)
deriving DecidableEq, Repr

/-- The call on a `SelectBuilder`. -/
def BuilderCall.select : BuilderCall → SelectBuilder → SelectBuilder
  | .Where p, b => b.Where p
  | .OrderBy term, b => b.OrderBy term
  | .Limit n, b => b.Limit n
  | .Offset n, b => b.Offset n

/-- The call on an `UpdateBuilder`, which has `Where` only. -/
def BuilderCall.update : BuilderCall → UpdateBuilder → UpdateBuilder
  | .Where p, b => b.Where p
  | _, b => b

/-- The call on a `DeleteBuilder`, which has `Where` only. -/
def BuilderCall.delete : BuilderCall → DeleteBuilder → DeleteBuilder
  | .Where p, b => b.Where p
  | _, b => b

/-- The map of the builder a call returns, from the map of its receiver. -/
def BuilderCall.result (c : BuilderCall) : BuilderMap → BuilderMap
  | .select b => .select (c.select b)
  | .insert b => .insert b
  | .update b => .update (c.update b)
  | .delete b => .delete (c.delete b)

/-- A squirrel call on the builder at an address. The builders are persistent:
the call leaves the map of its receiver as it is, allocates the map of the
result and returns its address. -/
def Memory.builderCall (m : Memory) (a : Nat) (c : BuilderCall) : Memory × Nat :=
  match m.heap[a]? with
  | some b => ({ m with heap := m.heap ++ [c.result b] }, m.heap.length)
  | none => (m, a)

/-- One assignment of a method body, `q.f = q.f.C1(...)...Cn(...)`. -/
structure Assign where
  field : BuilderField
  calls : List BuilderCall
deriving DecidableEq, Repr

/-- The assignment run on the struct variable `v`: the calls are made one after
the other from the builder in the field, and the field of `v` is assigned the
address of the last result. -/
def Memory.assign (m : Memory) (v : Nat) (s : Assign) : Memory :=
  match m.vars[v]? with
  | none => m
  | some q =>
      let r := s.calls.foldl (fun (acc : Memory × Nat) c => acc.1.builderCall acc.2 c)
        (m, q.get s.field)
      { r.1 with vars := r.1.vars.set v (q.set s.field r.2) }

/-- How a method takes its receiver: `func (q T) M` or `func (q *T) M`. -/
inductive Receiver where
  | value
  | pointer
deriving DecidableEq, Repr

/-- The declaration of a method that returns its receiver: how it takes the
receiver, and the assignments of its body before `return q`. -/
structure MethodDecl where
  receiver : Receiver
  body : List Assign
deriving DecidableEq, Repr

/-- The Go call `r.M(...)` on the struct variable `r`. With a value receiver
the struct of `r` is copied into a new variable `q` of the callee, the body
assigns to `q`, and the value of `q` is returned; with a pointer receiver the
body assigns to the struct of `r` itself. The result is the memory after the
call and the returned struct, none when there is no variable `r`. -/
def Memory.call (m : Memory) (r : Nat) (t : MethodDecl) : Memory × Option RepoStruct :=
  match t.receiver with
  | .value =>
      match m.vars[r]? with
      | none => (m, none)
      | some repo =>
          let m1 := t.body.foldl (fun acc s => acc.assign m.vars.length s)
            { m with vars := m.vars ++ [repo] }
          (m1, m1.vars[m.vars.length]?)
  | .pointer =>
      let m1 := t.body.foldl (fun acc s => acc.assign r s) m
      (m1, m1.vars[r]?)

/-- The `SelectBuilder` at an address of the heap. -/
def heapSelect (h : List BuilderMap) (a : Nat) : Option SelectBuilder :=
  match h[a]? with
  | some (.select b) => some b
  | _ => none

/-- The `InsertBuilder` at an address of the heap. -/
def heapInsert (h : List BuilderMap) (a : Nat) : Option InsertBuilder :=
  match h[a]? with
  | some (.insert b) => some b
  | _ => none

/-- The `UpdateBuilder` at an address of the heap. -/
def heapUpdate (h : List BuilderMap) (a : Nat) : Option UpdateBuilder :=
  match h[a]? with
  | some (.update b) => some b
  | _ => none

/-- The `DeleteBuilder` at an address of the heap. -/
def heapDelete (h : List BuilderMap) (a : Nat) : Option DeleteBuilder :=
  match h[a]? with
  | some (.delete b) => some b
  | _ => none

/-- The statements a struct carries in a memory: the builders its fields point
to, none when a field points to no builder of its kind. -/
def Memory.read (m : Memory) (r : RepoStruct) : Option Statements :=
  match heapSelect m.heap r.selector, heapSelect m.heap r.counter, heapUpdate m.heap r.updater,
      heapDelete m.heap r.deleter, heapInsert m.heap r.inserter with
  | some s, some c, some u, some d, some i => some ⟨s, c, u, d, i⟩
  | _, _, _, _, _ => none

/-- The statements after one assignment of a method body. -/
def Statements.assign (st : Statements) (s : Assign) : Statements :=
  match s.field with
  | .selector => { st with selector := s.calls.foldl (fun b c => c.select b) st.selector }
  | .counter => { st with counter := s.calls.foldl (fun b c => c.select b) st.counter }
  | .updater => { st with updater := s.calls.foldl (fun b c => c.update b) st.updater }
  | .deleter => { st with deleter := s.calls.foldl (fun b c => c.delete b) st.deleter }
  | .inserter => st
/-- Source: the declaration of each filter, ordering and `Page` method of `PetitionsQ`:
the value receiver `func (q PetitionsQ)` and the assignments of the body, in order. -/
def PetitionsOp.decl : PetitionsOp → MethodDecl
  | .FilterID id => ⟨.value, [
      ⟨.selector, [.Where (.eq "id" (.uuid id))]⟩,
      ⟨.counter, [.Where (.eq "id" (.uuid id))]⟩,
      ⟨.updater, [.Where (.eq "id" (.uuid id))]⟩,
      ⟨.deleter, [.Where (.eq "id" (.uuid id))]⟩]⟩
  | .FilterCityID cityID => ⟨.value, [
      ⟨.selector, [.Where (.eq "city_id" (.uuid cityID))]⟩,
      ⟨.counter, [.Where (.eq "city_id" (.uuid cityID))]⟩,
      ⟨.updater, [.Where (.eq "city_id" (.uuid cityID))]⟩,
      ⟨.deleter, [.Where (.eq "city_id" (.uuid cityID))]⟩]⟩
  | .FilterInitiatorID initiatorID => ⟨.value, [
      ⟨.selector, [.Where (.eq "initiator_id" (.uuid initiatorID))]⟩,
      ⟨.counter, [.Where (.eq "initiator_id" (.uuid initiatorID))]⟩,
      ⟨.updater, [.Where (.eq "initiator_id" (.uuid initiatorID))]⟩,
      ⟨.deleter, [.Where (.eq "initiator_id" (.uuid initiatorID))]⟩]⟩
  | .FilterStatus status => ⟨.value, [
      ⟨.selector, [.Where (.eq "status" (.str status))]⟩,
      ⟨.counter, [.Where (.eq "status" (.str status))]⟩,
      ⟨.updater, [.Where (.eq "status" (.str status))]⟩,
      ⟨.deleter, [.Where (.eq "status" (.str status))]⟩]⟩
  | .TitleLike s =>
      let p := "%" ++ s ++ "%"
      ⟨.value, [⟨.selector, [.Where (.str "title ILIKE ?" [.val (.str p)])]⟩,
        ⟨.counter, [.Where (.str "title ILIKE ?" [.val (.str p)])]⟩]⟩
  | .BBox minLng minLat maxLng maxLat =>
      let env : Arg := .expr ⟨"ST_MakeEnvelope(?, ?, ?, ?, 4326)",
        [.float minLng, .float minLat, .float maxLng, .float maxLat]⟩
      ⟨.value, [⟨.selector, [.Where (.expr "location IS NOT NULL AND ST_Intersects(location, ?)" [env])]⟩,
        ⟨.counter, [.Where (.expr "location IS NOT NULL AND ST_Intersects(location, ?)" [env])]⟩]⟩
  | .WithinRadius lng lat radiusMeters =>
      let pt : Arg := .expr ⟨"ST_SetSRID(ST_MakePoint(?, ?), 4326)", [.float lng, .float lat]⟩
      ⟨.value, [⟨.selector, [.Where (.expr "location IS NOT NULL AND ST_DWithin(location::geography, (? )::geography, ?)"
          [pt, .val (.float radiusMeters)])]⟩,
        ⟨.counter, [.Where (.expr "location IS NOT NULL AND ST_DWithin(location::geography, (? )::geography, ?)"
          [pt, .val (.float radiusMeters)])]⟩]⟩
  | .Page limit offset => ⟨.value, [
      ⟨.selector, [.Limit limit, .Offset offset]⟩,
      ⟨.counter, [.Limit limit, .Offset offset]⟩]⟩

/-- Source: the declaration of each filter, ordering and `Page` method of `PetitionSignaturesQ`:
the value receiver `func (q PetitionSignaturesQ)` and the assignments of the body, in order. -/
def PetitionSignaturesOp.decl : PetitionSignaturesOp → MethodDecl
  | .FilterID id => ⟨.value, [
      ⟨.selector, [.Where (.eq "id" (.uuid id))]⟩,
      ⟨.counter, [.Where (.eq "id" (.uuid id))]⟩,
      ⟨.updater, [.Where (.eq "id" (.uuid id))]⟩,
      ⟨.deleter, [.Where (.eq "id" (.uuid id))]⟩]⟩
  | .FilterPetitionID petitionID => ⟨.value, [
      ⟨.selector, [.Where (.eq "petition_id" (.uuid petitionID))]⟩,
      ⟨.counter, [.Where (.eq "petition_id" (.uuid petitionID))]⟩,
      ⟨.updater, [.Where (.eq "petition_id" (.uuid petitionID))]⟩,
      ⟨.deleter, [.Where (.eq "petition_id" (.uuid petitionID))]⟩]⟩
  | .FilterUserID userID => ⟨.value, [
      ⟨.selector, [.Where (.eq "user_id" (.uuid userID))]⟩,
      ⟨.counter, [.Where (.eq "user_id" (.uuid userID))]⟩,
      ⟨.updater, [.Where (.eq "user_id" (.uuid userID))]⟩,
      ⟨.deleter, [.Where (.eq "user_id" (.uuid userID))]⟩]⟩
  | .Page limit offset => ⟨.value, [
      ⟨.selector, [.Limit limit, .Offset offset]⟩,
      ⟨.counter, [.Limit limit, .Offset offset]⟩]⟩

/-- Source: the declaration of each filter, ordering and `Page` method of `PollsQ`:
the value receiver `func (q PollsQ)` and the assignments of the body, in order. -/
def PollsOp.decl : PollsOp → MethodDecl
  | .FilterID id => ⟨.value, [
      ⟨.selector, [.Where (.eq "id" (.uuid id))]⟩,
      ⟨.counter, [.Where (.eq "id" (.uuid id))]⟩,
      ⟨.updater, [.Where (.eq "id" (.uuid id))]⟩,
      ⟨.deleter, [.Where (.eq "id" (.uuid id))]⟩]⟩
  | .FilterCityID cityID => ⟨.value, [
      ⟨.selector, [.Where (.eq "city_id" (.uuid cityID))]⟩,
      ⟨.counter, [.Where (.eq "city_id" (.uuid cityID))]⟩,
      ⟨.updater, [.Where (.eq "city_id" (.uuid cityID))]⟩,
      ⟨.deleter, [.Where (.eq "city_id" (.uuid cityID))]⟩]⟩
  | .FilterInitiatorID initiatorID => ⟨.value, [
      ⟨.selector, [.Where (.eq "initiator_id" (.uuid initiatorID))]⟩,
      ⟨.counter, [.Where (.eq "initiator_id" (.uuid initiatorID))]⟩,
      ⟨.updater, [.Where (.eq "initiator_id" (.uuid initiatorID))]⟩,
      ⟨.deleter, [.Where (.eq "initiator_id" (.uuid initiatorID))]⟩]⟩
  | .FilterStatus status => ⟨.value, [
      ⟨.selector, [.Where (.eq "status" (.str status))]⟩,
      ⟨.counter, [.Where (.eq "status" (.str status))]⟩,
      ⟨.updater, [.Where (.eq "status" (.str status))]⟩,
      ⟨.deleter, [.Where (.eq "status" (.str status))]⟩]⟩
  | .TitleLike s =>
      let p := "%" ++ s ++ "%"
      ⟨.value, [⟨.selector, [.Where (.str "title ILIKE ?" [.val (.str p)])]⟩,
        ⟨.counter, [.Where (.str "title ILIKE ?" [.val (.str p)])]⟩]⟩
  | .BBox minLng minLat maxLng maxLat =>
      let env : Arg := .expr ⟨"ST_MakeEnvelope(?, ?, ?, ?, 4326)",
        [.float minLng, .float minLat, .float maxLng, .float maxLat]⟩
      ⟨.value, [⟨.selector, [.Where (.expr "location IS NOT NULL AND ST_Intersects(location, ?)" [env])]⟩,
        ⟨.counter, [.Where (.expr "location IS NOT NULL AND ST_Intersects(location, ?)" [env])]⟩]⟩
  | .WithinRadius lng lat radiusMeters =>
      let pt : Arg := .expr ⟨"ST_SetSRID(ST_MakePoint(?, ?), 4326)", [.float lng, .float lat]⟩
      ⟨.value, [⟨.selector, [.Where (.expr "location IS NOT NULL AND ST_DWithin(location::geography, (? )::geography, ?)"
          [pt, .val (.float radiusMeters)])]⟩,
        ⟨.counter, [.Where (.expr "location IS NOT NULL AND ST_DWithin(location::geography, (? )::geography, ?)"
          [pt, .val (.float radiusMeters)])]⟩]⟩
  | .Page limit offset => ⟨.value, [
      ⟨.selector, [.Limit limit, .Offset offset]⟩,
      ⟨.counter, [.Limit limit, .Offset offset]⟩]⟩

/-- Source: the declaration of each filter, ordering and `Page` method of `PollOptionsQ`:
the value receiver `func (q PollOptionsQ)` and the assignments of the body, in order. -/
def PollOptionsOp.decl : PollOptionsOp → MethodDecl
  | .FilterID id => ⟨.value, [
      ⟨.selector, [.Where (.eq "id" (.uuid id))]⟩,
      ⟨.counter, [.Where (.eq "id" (.uuid id))]⟩,
      ⟨.updater, [.Where (.eq "id" (.uuid id))]⟩,
      ⟨.deleter, [.Where (.eq "id" (.uuid id))]⟩]⟩
  | .FilterPollID pollID => ⟨.value, [
      ⟨.selector, [.Where (.eq "poll_id" (.uuid pollID))]⟩,
      ⟨.counter, [.Where (.eq "poll_id" (.uuid pollID))]⟩,
      ⟨.updater, [.Where (.eq "poll_id" (.uuid pollID))]⟩,
      ⟨.deleter, [.Where (.eq "poll_id" (.uuid pollID))]⟩]⟩
  | .OrderByCreatedAsc => ⟨.value, [
      ⟨.selector, [.OrderBy "created_at ASC"]⟩]⟩
  | .OrderByCreatedDesc => ⟨.value, [
      ⟨.selector, [.OrderBy "created_at DESC"]⟩]⟩
  | .OrderByVotesDesc => ⟨.value, [
      ⟨.selector, [.OrderBy "votes_count DESC"]⟩]⟩
  | .Page limit offset => ⟨.value, [
      ⟨.selector, [.Limit limit, .Offset offset]⟩,
      ⟨.counter, [.Limit limit, .Offset offset]⟩]⟩

/-- Source: the declaration of each filter, ordering and `Page` method of `PollVotesQ`:
the value receiver `func (q PollVotesQ)` and the assignments of the body, in order. -/
def PollVotesOp.decl : PollVotesOp → MethodDecl
  | .FilterID id => ⟨.value, [
      ⟨.selector, [.Where (.eq "id" (.uuid id))]⟩,
      ⟨.counter, [.Where (.eq "id" (.uuid id))]⟩,
      ⟨.updater, [.Where (.eq "id" (.uuid id))]⟩,
      ⟨.deleter, [.Where (.eq "id" (.uuid id))]⟩]⟩
  | .FilterPollID pollID => ⟨.value, [
      ⟨.selector, [.Where (.eq "poll_id" (.uuid pollID))]⟩,
      ⟨.counter, [.Where (.eq "poll_id" (.uuid pollID))]⟩,
      ⟨.updater, [.Where (.eq "poll_id" (.uuid pollID))]⟩,
      ⟨.deleter, [.Where (.eq "poll_id" (.uuid pollID))]⟩]⟩
  | .FilterUserID userID => ⟨.value, [
      ⟨.selector, [.Where (.eq "user_id" (.uuid userID))]⟩,
      ⟨.counter, [.Where (.eq "user_id" (.uuid userID))]⟩,
      ⟨.updater, [.Where (.eq "user_id" (.uuid userID))]⟩,
      ⟨.deleter, [.Where (.eq "user_id" (.uuid userID))]⟩]⟩
  | .FilterOptionID optionID => ⟨.value, [
      ⟨.selector, [.Where (.eq "option_id" (.uuid optionID))]⟩,
      ⟨.counter, [.Where (.eq "option_id" (.uuid optionID))]⟩,
      ⟨.updater, [.Where (.eq "option_id" (.uuid optionID))]⟩,
      ⟨.deleter, [.Where (.eq "option_id" (.uuid optionID))]⟩]⟩
  | .OrderByCreatedAsc => ⟨.value, [
      ⟨.selector, [.OrderBy "created_at ASC"]⟩]⟩
  | .OrderByCreatedDesc => ⟨.value, [
      ⟨.selector, [.OrderBy "created_at DESC"]⟩]⟩
  | .Page limit offset => ⟨.value, [
      ⟨.selector, [.Limit limit, .Offset offset]⟩,
      ⟨.counter, [.Limit limit, .Offset offset]⟩]⟩

/-- Source: the declaration of each filter, ordering and `Page` method of `ProposalsQ`:
the value receiver `func (q ProposalsQ)` and the assignments of the body, in order. -/
def ProposalsOp.decl : ProposalsOp → MethodDecl
  | .FilterID id => ⟨.value, [
      ⟨.selector, [.Where (.eq "id" (.uuid id))]⟩,
      ⟨.counter, [.Where (.eq "id" (.uuid id))]⟩,
      ⟨.updater, [.Where (.eq "id" (.uuid id))]⟩,
      ⟨.deleter, [.Where (.eq "id" (.uuid id))]⟩]⟩
  | .FilterCityID cityID => ⟨.value, [
      ⟨.selector, [.Where (.eq "city_id" (.uuid cityID))]⟩,
      ⟨.counter, [.Where (.eq "city_id" (.uuid cityID))]⟩,
      ⟨.updater, [.Where (.eq "city_id" (.uuid cityID))]⟩,
      ⟨.deleter, [.Where (.eq "city_id" (.uuid cityID))]⟩]⟩
  | .FilterInitiatorID initiatorID => ⟨.value, [
      ⟨.selector, [.Where (.eq "initiator_id" (.uuid initiatorID))]⟩,
      ⟨.counter, [.Where (.eq "initiator_id" (.uuid initiatorID))]⟩,
      ⟨.updater, [.Where (.eq "initiator_id" (.uuid initiatorID))]⟩,
      ⟨.deleter, [.Where (.eq "initiator_id" (.uuid initiatorID))]⟩]⟩
  | .FilterStatus status => ⟨.value, [
      ⟨.selector, [.Where (.eq "status" (.str status))]⟩,
      ⟨.counter, [.Where (.eq "status" (.str status))]⟩,
      ⟨.updater, [.Where (.eq "status" (.str status))]⟩,
      ⟨.deleter, [.Where (.eq "status" (.str status))]⟩]⟩
  | .FilterAddressedTo addressToID => ⟨.value, [
      ⟨.selector, [.Where (.eq "address_to_id" (.uuid addressToID))]⟩,
      ⟨.counter, [.Where (.eq "address_to_id" (.uuid addressToID))]⟩,
      ⟨.updater, [.Where (.eq "address_to_id" (.uuid addressToID))]⟩,
      ⟨.deleter, [.Where (.eq "address_to_id" (.uuid addressToID))]⟩]⟩
  | .FilterAddressedToCityGov => ⟨.value, [
      ⟨.selector, [.Where (.str "address_to_id IS NULL" [])]⟩,
      ⟨.counter, [.Where (.str "address_to_id IS NULL" [])]⟩,
      ⟨.updater, [.Where (.str "address_to_id IS NULL" [])]⟩,
      ⟨.deleter, [.Where (.str "address_to_id IS NULL" [])]⟩]⟩
  | .TitleLike s =>
      let p := "%" ++ s ++ "%"
      ⟨.value, [⟨.selector, [.Where (.str "title ILIKE ?" [.val (.str p)])]⟩,
        ⟨.counter, [.Where (.str "title ILIKE ?" [.val (.str p)])]⟩]⟩
  | .BBox minLng minLat maxLng maxLat =>
      let env : Arg := .expr ⟨"ST_MakeEnvelope(?, ?, ?, ?, 4326)",
        [.float minLng, .float minLat, .float maxLng, .float maxLat]⟩
      ⟨.value, [⟨.selector, [.Where (.expr "location IS NOT NULL AND ST_Intersects(location, ?)" [env])]⟩,
        ⟨.counter, [.Where (.expr "location IS NOT NULL AND ST_Intersects(location, ?)" [env])]⟩]⟩
  | .WithinRadius lng lat radiusMeters =>
      let pt : Arg := .expr ⟨"ST_SetSRID(ST_MakePoint(?, ?), 4326)", [.float lng, .float lat]⟩
      ⟨.value, [⟨.selector, [.Where (.expr "location IS NOT NULL AND ST_DWithin(location::geography, (? )::geography, ?)"
          [pt, .val (.float radiusMeters)])]⟩,
        ⟨.counter, [.Where (.expr "location IS NOT NULL AND ST_DWithin(location::geography, (? )::geography, ?)"
          [pt, .val (.float radiusMeters)])]⟩]⟩
  | .OrderByCreatedAsc => ⟨.value, [
      ⟨.selector, [.OrderBy "created_at ASC"]⟩]⟩
  | .OrderByCreatedDesc => ⟨.value, [
      ⟨.selector, [.OrderBy "created_at DESC"]⟩]⟩
  | .OrderByAgreedDesc => ⟨.value, [
      ⟨.selector, [.OrderBy "agreed_num DESC"]⟩]⟩
  | .OrderByDisagreedDesc => ⟨.value, [
      ⟨.selector, [.OrderBy "disagreed_num DESC"]⟩]⟩
  | .Page limit offset => ⟨.value, [
      ⟨.selector, [.Limit limit, .Offset offset]⟩,
      ⟨.counter, [.Limit limit, .Offset offset]⟩]⟩

/-- Source: the declaration of each filter, ordering and `Page` method of `ProposalVotesQ`:
the value receiver `func (q ProposalVotesQ)` and the assignments of the body, in order. -/
def ProposalVotesOp.decl : ProposalVotesOp → MethodDecl
  | .FilterID id => ⟨.value, [
      ⟨.selector, [.Where (.eq "id" (.uuid id))]⟩,
      ⟨.counter, [.Where (.eq "id" (.uuid id))]⟩,
      ⟨.updater, [.Where (.eq "id" (.uuid id))]⟩,
      ⟨.deleter, [.Where (.eq "id" (.uuid id))]⟩]⟩
  | .FilterProposalID proposalID => ⟨.value, [
      ⟨.selector, [.Where (.eq "proposal_id" (.uuid proposalID))]⟩,
      ⟨.counter, [.Where (.eq "proposal_id" (.uuid proposalID))]⟩,
      ⟨.updater, [.Where (.eq "proposal_id" (.uuid proposalID))]⟩,
      ⟨.deleter, [.Where (.eq "proposal_id" (.uuid proposalID))]⟩]⟩
  | .FilterUserID userID => ⟨.value, [
      ⟨.selector, [.Where (.eq "user_id" (.uuid userID))]⟩,
      ⟨.counter, [.Where (.eq "user_id" (.uuid userID))]⟩,
      ⟨.updater, [.Where (.eq "user_id" (.uuid userID))]⟩,
      ⟨.deleter, [.Where (.eq "user_id" (.uuid userID))]⟩]⟩
  | .FilterVote v => ⟨.value, [
      ⟨.selector, [.Where (.eq "vote" (.bool v))]⟩,
      ⟨.counter, [.Where (.eq "vote" (.bool v))]⟩,
      ⟨.updater, [.Where (.eq "vote" (.bool v))]⟩,
      ⟨.deleter, [.Where (.eq "vote" (.bool v))]⟩]⟩
  | .OrderByCreatedAsc => ⟨.value, [
      ⟨.selector, [.OrderBy "created_at ASC"]⟩]⟩
  | .OrderByCreatedDesc => ⟨.value, [
      ⟨.selector, [.OrderBy "created_at DESC"]⟩]⟩
  | .Page limit offset => ⟨.value, [
      ⟨.selector, [.Limit limit, .Offset offset]⟩,
      ⟨.counter, [.Limit limit, .Offset offset]⟩]⟩

/-- A family of methods keeps the receiver. For every memory, struct variable
`r` holding the repository value R and methods F and G: after the call
`r.F(...)` the variable `r` holds the same struct and carries the statements
of R; the struct the call returns carries the statements of R.F(...); and the
struct a following call `r.G(...)` returns carries the statements of R.G(...),
as the one it returns without the call of F before. -/
def ReceiverKept {Q Op : Type} (decl : Op → MethodDecl) (apply : Op → Q → Q)
    (statements : Q → Statements) : Prop :=
  ∀ (m : Memory) (r : Nat) (repo : RepoStruct) (R : Q) (F G : Op),
    m.vars[r]? = some repo → m.read repo = some (statements R) →
    (m.call r (decl F)).1.vars[r]? = some repo ∧
    (m.call r (decl F)).1.read repo = some (statements R) ∧
    (m.call r (decl F)).2.bind (m.call r (decl F)).1.read = some (statements (apply F R)) ∧
    ((m.call r (decl F)).1.call r (decl G)).2.bind ((m.call r (decl F)).1.call r (decl G)).1.read
      = some (statements (apply G R)) ∧
    (m.call r (decl G)).2.bind (m.call r (decl G)).1.read = some (statements (apply G R))

/-! # Theorems -/

/-! ## Calls in memory -/

/-- A chain of calls on a `SelectBuilder` map gives a `SelectBuilder` map. -/
theorem foldl_result_select (calls : List BuilderCall) (b : SelectBuilder) :
    calls.foldl (fun x c => c.result x) (.select b)
      = .select (calls.foldl (fun b c => c.select b) b) := by
  induction calls generalizing b with
  | nil => rfl
  | cons c rest ih => exact ih (c.select b)

/-- A chain of calls on an `UpdateBuilder` map gives an `UpdateBuilder` map. -/
theorem foldl_result_update (calls : List BuilderCall) (b : UpdateBuilder) :
    calls.foldl (fun x c => c.result x) (.update b)
      = .update (calls.foldl (fun b c => c.update b) b) := by
  induction calls generalizing b with
  | nil => rfl
  | cons c rest ih => exact ih (c.update b)

/-- A chain of calls on a `DeleteBuilder` map gives a `DeleteBuilder` map. -/
theorem foldl_result_delete (calls : List BuilderCall) (b : DeleteBuilder) :
    calls.foldl (fun x c => c.result x) (.delete b)
      = .delete (calls.foldl (fun b c => c.delete b) b) := by
  induction calls generalizing b with
  | nil => rfl
  | cons c rest ih => exact ih (c.delete b)

/-- A chain of calls on an `InsertBuilder` map leaves it. -/
theorem foldl_result_insert (calls : List BuilderCall) (b : InsertBuilder) :
    calls.foldl (fun x c => c.result x) (.insert b) = .insert b := by
  induction calls with
  | nil => rfl
  | cons c rest ih => exact ih

/-- A chain of squirrel calls from the builder at an address: the variables
are untouched, the heap only grows, and the address returned holds the map of
the last result. -/
theorem builderCalls_spec (calls : List BuilderCall) :
    ∀ (m : Memory) (a : Nat) (x : BuilderMap), m.heap[a]? = some x →
      ∃ ext,
        (calls.foldl (fun (acc : Memory × Nat) c => acc.1.builderCall acc.2 c) (m, a)).1.heap
          = m.heap ++ ext ∧
        (calls.foldl (fun (acc : Memory × Nat) c => acc.1.builderCall acc.2 c) (m, a)).1.vars
          = m.vars ∧
        (m.heap ++ ext)[(calls.foldl (fun (acc : Memory × Nat) c =>
            acc.1.builderCall acc.2 c) (m, a)).2]?
          = some (calls.foldl (fun x c => c.result x) x) := by
  induction calls with
  | nil =>
      intro m a x hx
      exact ⟨[], by simp, rfl, by simpa using hx⟩
  | cons c rest ih =>
      intro m a x hx
      have hstep : m.builderCall a c
          = ({ m with heap := m.heap ++ [c.result x] }, m.heap.length) := by
        simp [Memory.builderCall, hx]
      have hx1 : ({ m with heap := m.heap ++ [c.result x] } : Memory).heap[m.heap.length]?
          = some (c.result x) := by simp
      obtain ⟨ext, h1, h2, h3⟩ := ih _ _ _ hx1
      refine ⟨c.result x :: ext, ?_, ?_, ?_⟩
      · simp only [List.foldl_cons, hstep, h1]
        simp
      · simp only [List.foldl_cons, hstep, h2]
      · simp only [List.foldl_cons, hstep]
        simpa using h3

/-- A builder read from the heap is still read after the heap has grown. -/
theorem heapSelect_append (h ext : List BuilderMap) (a : Nat) (b : SelectBuilder)
    (hb : heapSelect h a = some b) : heapSelect (h ++ ext) a = some b := by
  unfold heapSelect at hb ⊢
  cases hx : h[a]? with
  | none => rw [hx] at hb; simp at hb
  | some x => rw [List.getElem?_append_left (List.getElem?_eq_some.mp hx).1, hx]; rw [hx] at hb; exact hb

/-- A builder read from the heap is still read after the heap has grown. -/
theorem heapInsert_append (h ext : List BuilderMap) (a : Nat) (b : InsertBuilder)
    (hb : heapInsert h a = some b) : heapInsert (h ++ ext) a = some b := by
  unfold heapInsert at hb ⊢
  cases hx : h[a]? with
  | none => rw [hx] at hb; simp at hb
  | some x => rw [List.getElem?_append_left (List.getElem?_eq_some.mp hx).1, hx]; rw [hx] at hb; exact hb

/-- A builder read from the heap is still read after the heap has grown. -/
theorem heapUpdate_append (h ext : List BuilderMap) (a : Nat) (b : UpdateBuilder)
    (hb : heapUpdate h a = some b) : heapUpdate (h ++ ext) a = some b := by
  unfold heapUpdate at hb ⊢
  cases hx : h[a]? with
  | none => rw [hx] at hb; simp at hb
  | some x => rw [List.getElem?_append_left (List.getElem?_eq_some.mp hx).1, hx]; rw [hx] at hb; exact hb

/-- A builder read from the heap is still read after the heap has grown. -/
theorem heapDelete_append (h ext : List BuilderMap) (a : Nat) (b : DeleteBuilder)
    (hb : heapDelete h a = some b) : heapDelete (h ++ ext) a = some b := by
  unfold heapDelete at hb ⊢
  cases hx : h[a]? with
  | none => rw [hx] at hb; simp at hb
  | some x => rw [List.getElem?_append_left (List.getElem?_eq_some.mp hx).1, hx]; rw [hx] at hb; exact hb

/-- What reading the statements of a struct amounts to. -/
theorem read_eq_some (m : Memory) (r : RepoStruct) (st : Statements) :
    m.read r = some st ↔
      heapSelect m.heap r.selector = some st.selector ∧
      heapSelect m.heap r.counter = some st.counter ∧
      heapUpdate m.heap r.updater = some st.updater ∧
      heapDelete m.heap r.deleter = some st.deleter ∧
      heapInsert m.heap r.inserter = some st.inserter := by
  unfold Memory.read
  obtain ⟨s, c, u, d, i⟩ := st
  cases heapSelect m.heap r.selector <;> cases heapSelect m.heap r.counter <;>
    cases heapUpdate m.heap r.updater <;> cases heapDelete m.heap r.deleter <;>
    cases heapInsert m.heap r.inserter <;> simp

/-- The statements of a struct are the same after the heap has grown. -/
theorem read_append (m m1 : Memory) (ext : List BuilderMap) (r : RepoStruct) (st : Statements)
    (hh : m1.heap = m.heap ++ ext) (hr : m.read r = some st) : m1.read r = some st := by
  rw [read_eq_some] at hr ⊢
  rw [hh]
  exact ⟨heapSelect_append _ _ _ _ hr.1, heapSelect_append _ _ _ _ hr.2.1,
    heapUpdate_append _ _ _ _ hr.2.2.1, heapDelete_append _ _ _ _ hr.2.2.2.1,
    heapInsert_append _ _ _ _ hr.2.2.2.2⟩

/-- One assignment on the variable `v`: the heap only grows, and `v` alone is
written, with a struct that carries the statements after the assignment. -/
theorem assign_spec (m : Memory) (v : Nat) (q : RepoStruct) (st : Statements) (s : Assign)
    (hv : m.vars[v]? = some q) (hst : m.read q = some st) :
    ∃ ext q1, (m.assign v s).heap = m.heap ++ ext ∧ (m.assign v s).vars = m.vars.set v q1 ∧
      (m.assign v s).read q1 = some (st.assign s) := by
  obtain ⟨field, calls⟩ := s
  have hread := (read_eq_some m q st).mp hst
  have hx : ∃ x, m.heap[q.get field]? = some x := by
    obtain ⟨h1, h2, h3, h4, h5⟩ := hread
    cases field
    · unfold heapSelect at h1
      cases hh : m.heap[q.selector]? with
      | none => rw [hh] at h1; simp at h1
      | some x => exact ⟨x, hh⟩
    · unfold heapInsert at h5
      cases hh : m.heap[q.inserter]? with
      | none => rw [hh] at h5; simp at h5
      | some x => exact ⟨x, hh⟩
    · unfold heapUpdate at h3
      cases hh : m.heap[q.updater]? with
      | none => rw [hh] at h3; simp at h3
      | some x => exact ⟨x, hh⟩
    · unfold heapDelete at h4
      cases hh : m.heap[q.deleter]? with
      | none => rw [hh] at h4; simp at h4
      | some x => exact ⟨x, hh⟩
    · unfold heapSelect at h2
      cases hh : m.heap[q.counter]? with
      | none => rw [hh] at h2; simp at h2
      | some x => exact ⟨x, hh⟩
  obtain ⟨x, hx⟩ := hx
  obtain ⟨ext, e1, e2, e3⟩ := builderCalls_spec calls m (q.get field) x hx
  generalize hres : calls.foldl (fun (acc : Memory × Nat) c => acc.1.builderCall acc.2 c)
    (m, q.get field) = res at e1 e2 e3
  have hassign : m.assign v ⟨field, calls⟩
      = { res.1 with vars := res.1.vars.set v (q.set field res.2) } := by
    simp [Memory.assign, hv, hres]
  refine ⟨ext, q.set field res.2, ?_, ?_, ?_⟩
  · rw [hassign]; exact e1
  · rw [hassign]; simp only [e2]
  · rw [hassign, read_eq_some]
    simp only [e1]
    obtain ⟨h1, h2, h3, h4, h5⟩ := hread
    have k1 := heapSelect_append _ ext _ _ h1
    have k2 := heapSelect_append _ ext _ _ h2
    have k3 := heapUpdate_append _ ext _ _ h3
    have k4 := heapDelete_append _ ext _ _ h4
    have k5 := heapInsert_append _ ext _ _ h5
    cases field
    · have hxs : x = .select st.selector := by
        unfold heapSelect at h1
        simp only [RepoStruct.get] at hx
        rw [hx] at h1
        cases x <;> simp at h1
        rw [h1]
      subst hxs
      rw [foldl_result_select] at e3
      refine ⟨?_, k2, k3, k4, k5⟩
      simp only [RepoStruct.set, RepoStruct.get, Statements.assign, heapSelect] at e3 ⊢
      rw [e3]
    · refine ⟨k1, k2, k3, k4, ?_⟩
      have hxs : x = .insert st.inserter := by
        unfold heapInsert at h5
        simp only [RepoStruct.get] at hx
        rw [hx] at h5
        cases x <;> simp at h5
        rw [h5]
      subst hxs
      rw [foldl_result_insert] at e3
      simp only [RepoStruct.set, RepoStruct.get, Statements.assign, heapInsert] at e3 ⊢
      rw [e3]
    · have hxs : x = .update st.updater := by
        unfold heapUpdate at h3
        simp only [RepoStruct.get] at hx
        rw [hx] at h3
        cases x <;> simp at h3
        rw [h3]
      subst hxs
      rw [foldl_result_update] at e3
      refine ⟨k1, k2, ?_, k4, k5⟩
      simp only [RepoStruct.set, RepoStruct.get, Statements.assign, heapUpdate] at e3 ⊢
      rw [e3]
    · have hxs : x = .delete st.deleter := by
        unfold heapDelete at h4
        simp only [RepoStruct.get] at hx
        rw [hx] at h4
        cases x <;> simp at h4
        rw [h4]
      subst hxs
      rw [foldl_result_delete] at e3
      refine ⟨k1, k2, k3, ?_, k5⟩
      simp only [RepoStruct.set, RepoStruct.get, Statements.assign, heapDelete] at e3 ⊢
      rw [e3]
    · have hxs : x = .select st.counter := by
        unfold heapSelect at h2
        simp only [RepoStruct.get] at hx
        rw [hx] at h2
        cases x <;> simp at h2
        rw [h2]
      subst hxs
      rw [foldl_result_select] at e3
      refine ⟨k1, ?_, k3, k4, k5⟩
      simp only [RepoStruct.set, RepoStruct.get, Statements.assign, heapSelect] at e3 ⊢
      rw [e3]

/-- Writing to a variable the struct it holds changes nothing. -/
theorem list_set_self {α : Type} (l : List α) (v : Nat) (q : α) (h : l[v]? = some q) :
    l.set v q = l := by
  apply List.ext_getElem?
  intro k
  by_cases hk : v = k
  · subst hk
    rw [List.getElem?_set_self (List.getElem?_eq_some.mp h).1, h]
  · rw [List.getElem?_set_ne hk]

/-- A body run on the variable `v`: the heap only grows, `v` alone is written,
and it ends with a struct that carries the statements after the body. -/
theorem body_spec (body : List Assign) :
    ∀ (m : Memory) (v : Nat) (q : RepoStruct) (st : Statements),
      m.vars[v]? = some q → m.read q = some st →
      ∃ ext q1, (body.foldl (fun acc s => acc.assign v s) m).heap = m.heap ++ ext ∧
        (body.foldl (fun acc s => acc.assign v s) m).vars = m.vars.set v q1 ∧
        (body.foldl (fun acc s => acc.assign v s) m).read q1
          = some (body.foldl Statements.assign st) := by
  induction body with
  | nil =>
      intro m v q st hv hst
      refine ⟨[], q, by simp, ?_, hst⟩
      simp only [List.foldl_nil]
      exact (list_set_self _ _ _ hv).symm
  | cons s rest ih =>
      intro m v q st hv hst
      obtain ⟨ext, q1, a1, a2, a3⟩ := assign_spec m v q st s hv hst
      have hv1 : (m.assign v s).vars[v]? = some q1 := by
        rw [a2]
        simp [(List.getElem?_eq_some.mp hv).1]
      obtain ⟨ext2, q2, b1, b2, b3⟩ := ih (m.assign v s) v q1 (st.assign s) hv1 a3
      refine ⟨ext ++ ext2, q2, ?_, ?_, ?_⟩
      · simp only [List.foldl_cons, b1, a1, List.append_assoc]
      · simp only [List.foldl_cons, b2, a2, List.set_set]
      · simpa only [List.foldl_cons] using b3

/-- A call with a value receiver: the heap only grows, every variable of the
caller holds the struct it held, and the returned struct carries the
statements after the body. -/
theorem call_value_spec (m : Memory) (r : Nat) (repo : RepoStruct) (st : Statements)
    (body : List Assign) (hr : m.vars[r]? = some repo) (hst : m.read repo = some st) :
    (∃ ext, (m.call r ⟨.value, body⟩).1.heap = m.heap ++ ext) ∧
    (∀ (k : Nat) (x : RepoStruct), m.vars[k]? = some x →
      (m.call r ⟨.value, body⟩).1.vars[k]? = some x) ∧
    (m.call r ⟨.value, body⟩).2.bind (m.call r ⟨.value, body⟩).1.read
      = some (body.foldl Statements.assign st) := by
  have hv : ({ m with vars := m.vars ++ [repo] } : Memory).vars[m.vars.length]? = some repo := by
    simp
  obtain ⟨ext, q1, b1, b2, b3⟩ := body_spec body { m with vars := m.vars ++ [repo] }
    m.vars.length repo st hv hst
  generalize hm1 : body.foldl (fun (acc : Memory) s => acc.assign m.vars.length s)
    { m with vars := m.vars ++ [repo] } = m1 at b1 b2 b3
  have hcall : m.call r ⟨.value, body⟩ = (m1, m1.vars[m.vars.length]?) := by
    simp [Memory.call, hr, hm1]
  rw [hcall]
  refine ⟨⟨ext, b1⟩, ?_, ?_⟩
  · intro k x hk
    have hlt : k < m.vars.length := (List.getElem?_eq_some.mp hk).1
    have hne : m.vars.length ≠ k := by omega
    simp only [b2]
    rw [List.getElem?_set_ne hne, List.getElem?_append_left hlt]
    exact hk
  · simp only [b2]
    rw [List.getElem?_set_self (by simp)]
    exact b3

/-- Methods declared with a value receiver whose bodies compute `apply` keep
the receiver. -/
theorem receiverKept_of_decl {Q Op : Type} (decl : Op → MethodDecl) (apply : Op → Q → Q)
    (statements : Q → Statements)
    (h : ∀ (op : Op) (q : Q), (decl op).receiver = .value ∧
      (decl op).body.foldl Statements.assign (statements q) = statements (apply op q)) :
    ReceiverKept decl apply statements := by
  intro m r repo R F G hr hst
  have hF : decl F = ⟨.value, (decl F).body⟩ := by
    rw [← (h F R).1]
  have hG : decl G = ⟨.value, (decl G).body⟩ := by
    rw [← (h G R).1]
  obtain ⟨⟨ext, f1⟩, f2, f3⟩ := call_value_spec m r repo (statements R) (decl F).body hr hst
  rw [← hF] at f1 f2 f3
  have hst1 : (m.call r (decl F)).1.read repo = some (statements R) :=
    read_append m _ ext repo _ f1 hst
  obtain ⟨-, -, g3⟩ := call_value_spec (m.call r (decl F)).1 r repo (statements R) (decl G).body
    (f2 r repo hr) hst1
  rw [← hG] at g3
  obtain ⟨-, -, k3⟩ := call_value_spec m r repo (statements R) (decl G).body hr hst
  rw [← hG] at k3
  refine ⟨f2 r repo hr, hst1, ?_, ?_, ?_⟩
  · rw [f3, (h F R).2]
  · rw [g3, (h G R).2]
  · rw [k3, (h G R).2]

/-- Every method of `PetitionsQ` is declared with a value receiver, and its body
computes the method. -/
theorem PetitionsOp_decl (op : PetitionsOp) (q : PetitionsQ) :
    op.decl.receiver = .value ∧
    op.decl.body.foldl Statements.assign q.statements = (op.apply q).statements := by
  cases op <;> exact ⟨rfl, rfl⟩

/-- Every method of `PetitionSignaturesQ` is declared with a value receiver, and its body
computes the method. -/
theorem PetitionSignaturesOp_decl (op : PetitionSignaturesOp) (q : PetitionSignaturesQ) :
    op.decl.receiver = .value ∧
    op.decl.body.foldl Statements.assign q.statements = (op.apply q).statements := by
  cases op <;> exact ⟨rfl, rfl⟩

/-- Every method of `PollsQ` is declared with a value receiver, and its body
computes the method. -/
theorem PollsOp_decl (op : PollsOp) (q : PollsQ) :
    op.decl.receiver = .value ∧
    op.decl.body.foldl Statements.assign q.statements = (op.apply q).statements := by
  cases op <;> exact ⟨rfl, rfl⟩

/-- Every method of `PollOptionsQ` is declared with a value receiver, and its body
computes the method. -/
theorem PollOptionsOp_decl (op : PollOptionsOp) (q : PollOptionsQ) :
    op.decl.receiver = .value ∧
    op.decl.body.foldl Statements.assign q.statements = (op.apply q).statements := by
  cases op <;> exact ⟨rfl, rfl⟩

/-- Every method of `PollVotesQ` is declared with a value receiver, and its body
computes the method. -/
theorem PollVotesOp_decl (op : PollVotesOp) (q : PollVotesQ) :
    op.decl.receiver = .value ∧
    op.decl.body.foldl Statements.assign q.statements = (op.apply q).statements := by
  cases op <;> exact ⟨rfl, rfl⟩

/-- Every method of `ProposalsQ` is declared with a value receiver, and its body
computes the method. -/
theorem ProposalsOp_decl (op : ProposalsOp) (q : ProposalsQ) :
    op.decl.receiver = .value ∧
    op.decl.body.foldl Statements.assign q.statements = (op.apply q).statements := by
  cases op <;> exact ⟨rfl, rfl⟩

/-- Every method of `ProposalVotesQ` is declared with a value receiver, and its body
computes the method. -/
theorem ProposalVotesOp_decl (op : ProposalVotesOp) (q : ProposalVotesQ) :
    op.decl.receiver = .value ∧
    op.decl.body.foldl Statements.assign q.statements = (op.apply q).statements := by
  cases op <;> exact ⟨rfl, rfl⟩

/-- With a pointer receiver the same body writes the struct of the caller: the
memory model tells the two kinds of receiver apart. -/
theorem pointer_receiver_writes_the_caller :
    ((Memory.mk [.select (NewPetitionsQ ⟨0⟩).selector] [⟨⟨0⟩, 0, 0, 0, 0, 0⟩]).call 0
        ⟨.pointer, [⟨.selector, [.Limit 1]⟩]⟩).1.vars
      = [⟨⟨0⟩, 1, 0, 0, 0, 0⟩] ∧
    ((Memory.mk [.select (NewPetitionsQ ⟨0⟩).selector] [⟨⟨0⟩, 0, 0, 0, 0, 0⟩]).call 0
        ⟨.value, [⟨.selector, [.Limit 1]⟩]⟩).1.vars
      = [⟨⟨0⟩, 0, 0, 0, 0, 0⟩, ⟨⟨0⟩, 1, 0, 0, 0, 0⟩] := by
  decide

/-- C1: for each of the seven repository types, in every memory and for every
struct variable `r` that holds a repository value R, a filter, ordering or
Page call `r.F(...)` leaves `r` holding the same struct, which still carries
the selector, counter, updater, deleter and inserter of R: the method has a
value receiver, so its body assigns to a copy, and the builders in the copy
are persistent, so a call on them allocates and writes nothing that R points
to. The struct the call returns carries the statements of R.F(...), and the
struct `r.G(...)` returns carries the statements of R.G(...) whether or not
`r.F(...)` was called before. The last part runs FilterID on a fresh
PetitionsQ in memory. -/
theorem C1_value_transformers_leave_receiver_unchanged :
    ReceiverKept PetitionsOp.decl PetitionsOp.apply PetitionsQ.statements ∧
    ReceiverKept PetitionSignaturesOp.decl PetitionSignaturesOp.apply
      PetitionSignaturesQ.statements ∧
    ReceiverKept PollsOp.decl PollsOp.apply PollsQ.statements ∧
    ReceiverKept PollOptionsOp.decl PollOptionsOp.apply PollOptionsQ.statements ∧
    ReceiverKept PollVotesOp.decl PollVotesOp.apply PollVotesQ.statements ∧
    ReceiverKept ProposalsOp.decl ProposalsOp.apply ProposalsQ.statements ∧
    ReceiverKept ProposalVotesOp.decl ProposalVotesOp.apply ProposalVotesQ.statements ∧
    (Memory.mk
        [.select (NewPetitionsQ ⟨0⟩).selector, .insert (NewPetitionsQ ⟨0⟩).inserter,
          .update (NewPetitionsQ ⟨0⟩).updater, .delete (NewPetitionsQ ⟨0⟩).deleter,
          .select (NewPetitionsQ ⟨0⟩).counter]
        [⟨⟨0⟩, 0, 1, 2, 3, 4⟩]).call 0 (PetitionsOp.FilterID ⟨5⟩).decl
      = (Memory.mk
          [.select (NewPetitionsQ ⟨0⟩).selector, .insert (NewPetitionsQ ⟨0⟩).inserter,
            .update (NewPetitionsQ ⟨0⟩).updater, .delete (NewPetitionsQ ⟨0⟩).deleter,
            .select (NewPetitionsQ ⟨0⟩).counter,
            .select ((NewPetitionsQ ⟨0⟩).FilterID ⟨5⟩).selector,
            .select ((NewPetitionsQ ⟨0⟩).FilterID ⟨5⟩).counter,
            .update ((NewPetitionsQ ⟨0⟩).FilterID ⟨5⟩).updater,
            .delete ((NewPetitionsQ ⟨0⟩).FilterID ⟨5⟩).deleter]
          [⟨⟨0⟩, 0, 1, 2, 3, 4⟩, ⟨⟨0⟩, 5, 1, 7, 8, 6⟩],
         some ⟨⟨0⟩, 5, 1, 7, 8, 6⟩) :=
  ⟨receiverKept_of_decl _ _ _ PetitionsOp_decl,
   receiverKept_of_decl _ _ _ PetitionSignaturesOp_decl,
   receiverKept_of_decl _ _ _ PollsOp_decl,
   receiverKept_of_decl _ _ _ PollOptionsOp_decl,
   receiverKept_of_decl _ _ _ PollVotesOp_decl,
   receiverKept_of_decl _ _ _ ProposalsOp_decl,
   receiverKept_of_decl _ _ _ ProposalVotesOp_decl,
   by decide⟩

/-- C2: every equality filter of every repository returns a value in which
one and the same predicate, with the same bound argument, is appended to the
selector, the counter, the updater and the deleter, the inserter being
unchanged. -/
theorem C2_equality_filters_append_to_all_four :
    (∀ (q : PetitionsQ) (id : UUID),
      Statements.AppendedToAll q.statements (q.FilterID id).statements
        (.eq "id" (.uuid id))) ∧
    (∀ (q : PetitionsQ) (cityID : UUID),
      Statements.AppendedToAll q.statements (q.FilterCityID cityID).statements
        (.eq "city_id" (.uuid cityID))) ∧
    (∀ (q : PetitionsQ) (initiatorID : UUID),
      Statements.AppendedToAll q.statements (q.FilterInitiatorID initiatorID).statements
        (.eq "initiator_id" (.uuid initiatorID))) ∧
    (∀ (q : PetitionsQ) (status : String),
      Statements.AppendedToAll q.statements (q.FilterStatus status).statements
        (.eq "status" (.str status))) ∧
    (∀ (q : PetitionSignaturesQ) (id : UUID),
      Statements.AppendedToAll q.statements (q.FilterID id).statements
        (.eq "id" (.uuid id))) ∧
    (∀ (q : PetitionSignaturesQ) (petitionID : UUID),
      Statements.AppendedToAll q.statements (q.FilterPetitionID petitionID).statements
        (.eq "petition_id" (.uuid petitionID))) ∧
    (∀ (q : PetitionSignaturesQ) (userID : UUID),
      Statements.AppendedToAll q.statements (q.FilterUserID userID).statements
        (.eq "user_id" (.uuid userID))) ∧
    (∀ (q : PollsQ) (id : UUID),
      Statements.AppendedToAll q.statements (q.FilterID id).statements
        (.eq "id" (.uuid id))) ∧
    (∀ (q : PollsQ) (cityID : UUID),
      Statements.AppendedToAll q.statements (q.FilterCityID cityID).statements
        (.eq "city_id" (.uuid cityID))) ∧
    (∀ (q : PollsQ) (initiatorID : UUID),
      Statements.AppendedToAll q.statements (q.FilterInitiatorID initiatorID).statements
        (.eq "initiator_id" (.uuid initiatorID))) ∧
    (∀ (q : PollsQ) (status : String),
      Statements.AppendedToAll q.statements (q.FilterStatus status).statements
        (.eq "status" (.str status))) ∧
    (∀ (q : PollOptionsQ) (id : UUID),
      Statements.AppendedToAll q.statements (q.FilterID id).statements
        (.eq "id" (.uuid id))) ∧
    (∀ (q : PollOptionsQ) (pollID : UUID),
      Statements.AppendedToAll q.statements (q.FilterPollID pollID).statements
        (.eq "poll_id" (.uuid pollID))) ∧
    (∀ (q : PollVotesQ) (id : UUID),
      Statements.AppendedToAll q.statements (q.FilterID id).statements
        (.eq "id" (.uuid id))) ∧
    (∀ (q : PollVotesQ) (pollID : UUID),
      Statements.AppendedToAll q.statements (q.FilterPollID pollID).statements
        (.eq "poll_id" (.uuid pollID))) ∧
    (∀ (q : PollVotesQ) (userID : UUID),
      Statements.AppendedToAll q.statements (q.FilterUserID userID).statements
        (.eq "user_id" (.uuid userID))) ∧
    (∀ (q : PollVotesQ) (optionID : UUID),
      Statements.AppendedToAll q.statements (q.FilterOptionID optionID).statements
        (.eq "option_id" (.uuid optionID))) ∧
    (∀ (q : ProposalsQ) (id : UUID),
      Statements.AppendedToAll q.statements (q.FilterID id).statements
        (.eq "id" (.uuid id))) ∧
    (∀ (q : ProposalsQ) (cityID : UUID),
      Statements.AppendedToAll q.statements (q.FilterCityID cityID).statements
        (.eq "city_id" (.uuid cityID))) ∧
    (∀ (q : ProposalsQ) (initiatorID : UUID),
      Statements.AppendedToAll q.statements (q.FilterInitiatorID initiatorID).statements
        (.eq "initiator_id" (.uuid initiatorID))) ∧
    (∀ (q : ProposalsQ) (status : String),
      Statements.AppendedToAll q.statements (q.FilterStatus status).statements
        (.eq "status" (.str status))) ∧
    (∀ (q : ProposalsQ) (addressToID : UUID),
      Statements.AppendedToAll q.statements (q.FilterAddressedTo addressToID).statements
        (.eq "address_to_id" (.uuid addressToID))) ∧
    (∀ (q : ProposalsQ),
      Statements.AppendedToAll q.statements (q.FilterAddressedToCityGov).statements
        (.str "address_to_id IS NULL" [])) ∧
    (∀ (q : ProposalVotesQ) (id : UUID),
      Statements.AppendedToAll q.statements (q.FilterID id).statements
        (.eq "id" (.uuid id))) ∧
    (∀ (q : ProposalVotesQ) (proposalID : UUID),
      Statements.AppendedToAll q.statements (q.FilterProposalID proposalID).statements
        (.eq "proposal_id" (.uuid proposalID))) ∧
    (∀ (q : ProposalVotesQ) (userID : UUID),
      Statements.AppendedToAll q.statements (q.FilterUserID userID).statements
        (.eq "user_id" (.uuid userID))) ∧
    (∀ (q : ProposalVotesQ) (v : Bool),
      Statements.AppendedToAll q.statements (q.FilterVote v).statements
        (.eq "vote" (.bool v))) := by
  refine ⟨?_, ?_, ?_, ?_, ?_, ?_, ?_, ?_, ?_, ?_, ?_, ?_, ?_, ?_, ?_, ?_, ?_, ?_, ?_, ?_, ?_, ?_, ?_, ?_, ?_, ?_, ?_⟩ <;> intros <;> exact ⟨rfl, rfl, rfl, rfl, rfl⟩

/-- C3, amended: TitleLike, BBox and WithinRadius of PetitionsQ, PollsQ and
ProposalsQ append their predicate to the selector and the counter only; the
updater, the deleter and the inserter of the returned value are those of the
receiver. -/
theorem C3_pattern_and_spatial_filters_append_to_reads_only :
    (∀ (q : PetitionsQ) (s : String),
      Statements.AppendedToReads q.statements (q.TitleLike s).statements
        (.str "title ILIKE ?" [.val (.str ("%" ++ s ++ "%"))])) ∧
    (∀ (q : PetitionsQ) (minLng : Float64) (minLat : Float64) (maxLng : Float64) (maxLat : Float64),
      Statements.AppendedToReads q.statements (q.BBox minLng minLat maxLng maxLat).statements
        (.expr "location IS NOT NULL AND ST_Intersects(location, ?)"
      [.expr ⟨"ST_MakeEnvelope(?, ?, ?, ?, 4326)",
        [.float minLng, .float minLat, .float maxLng, .float maxLat]⟩])) ∧
    (∀ (q : PetitionsQ) (lng : Float64) (lat : Float64) (radiusMeters : Float64),
      Statements.AppendedToReads q.statements (q.WithinRadius lng lat radiusMeters).statements
        (.expr "location IS NOT NULL AND ST_DWithin(location::geography, (? )::geography, ?)"
      [.expr ⟨"ST_SetSRID(ST_MakePoint(?, ?), 4326)", [.float lng, .float lat]⟩,
        .val (.float radiusMeters)])) ∧
    (∀ (q : PollsQ) (s : String),
      Statements.AppendedToReads q.statements (q.TitleLike s).statements
        (.str "title ILIKE ?" [.val (.str ("%" ++ s ++ "%"))])) ∧
    (∀ (q : PollsQ) (minLng : Float64) (minLat : Float64) (maxLng : Float64) (maxLat : Float64),
      Statements.AppendedToReads q.statements (q.BBox minLng minLat maxLng maxLat).statements
        (.expr "location IS NOT NULL AND ST_Intersects(location, ?)"
      [.expr ⟨"ST_MakeEnvelope(?, ?, ?, ?, 4326)",
        [.float minLng, .float minLat, .float maxLng, .float maxLat]⟩])) ∧
    (∀ (q : PollsQ) (lng : Float64) (lat : Float64) (radiusMeters : Float64),
      Statements.AppendedToReads q.statements (q.WithinRadius lng lat radiusMeters).statements
        (.expr "location IS NOT NULL AND ST_DWithin(location::geography, (? )::geography, ?)"
      [.expr ⟨"ST_SetSRID(ST_MakePoint(?, ?), 4326)", [.float lng, .float lat]⟩,
        .val (.float radiusMeters)])) ∧
    (∀ (q : ProposalsQ) (s : String),
      Statements.AppendedToReads q.statements (q.TitleLike s).statements
        (.str "title ILIKE ?" [.val (.str ("%" ++ s ++ "%"))])) ∧
    (∀ (q : ProposalsQ) (minLng : Float64) (minLat : Float64) (maxLng : Float64) (maxLat : Float64),
      Statements.AppendedToReads q.statements (q.BBox minLng minLat maxLng maxLat).statements
        (.expr "location IS NOT NULL AND ST_Intersects(location, ?)"
      [.expr ⟨"ST_MakeEnvelope(?, ?, ?, ?, 4326)",
        [.float minLng, .float minLat, .float maxLng, .float maxLat]⟩])) ∧
    (∀ (q : ProposalsQ) (lng : Float64) (lat : Float64) (radiusMeters : Float64),
      Statements.AppendedToReads q.statements (q.WithinRadius lng lat radiusMeters).statements
        (.expr "location IS NOT NULL AND ST_DWithin(location::geography, (? )::geography, ?)"
      [.expr ⟨"ST_SetSRID(ST_MakePoint(?, ?), 4326)", [.float lng, .float lat]⟩,
        .val (.float radiusMeters)])) := by
  refine ⟨?_, ?_, ?_, ?_, ?_, ?_, ?_, ?_, ?_⟩ <;> intros <;> exact ⟨rfl, rfl, rfl, rfl, rfl⟩

/-- C3 as stated fails: on a fresh PetitionsQ, `TitleLike "x"` does not append
its predicate to all four statements. The counter carries it, the updater and
the deleter carry nothing, so Count counts the matching rows while Delete is
issued for the whole table. -/
theorem C3_counterexample_title_like_skips_updater_and_deleter :
    ¬ Statements.AppendedToAll (NewPetitionsQ ⟨0⟩).statements
        ((NewPetitionsQ ⟨0⟩).TitleLike "x").statements
        (.str "title ILIKE ?" [.val (.str "%x%")]) ∧
    ((NewPetitionsQ ⟨0⟩).TitleLike "x").counter.whereParts
      = [.str "title ILIKE ?" [.val (.str "%x%")]] ∧
    ((NewPetitionsQ ⟨0⟩).TitleLike "x").updater.whereParts = [] ∧
    ((NewPetitionsQ ⟨0⟩).TitleLike "x").deleter.whereParts = [] ∧
    ((NewPetitionsQ ⟨0⟩).TitleLike "x").Count ⟨[], false⟩
      = .roundTrip ⟨.pool ⟨0⟩, .QueryRowContext, ⟨[], false⟩,
          "SELECT COUNT(*) AS count FROM petitions WHERE title ILIKE $1",
          [.val (.str "%x%")]⟩ ∧
    ((NewPetitionsQ ⟨0⟩).TitleLike "x").Delete ⟨[], false⟩
      = .roundTrip ⟨.pool ⟨0⟩, .ExecContext, ⟨[], false⟩, "DELETE FROM petitions", []⟩ := by
  refine ⟨?_, by decide, by decide, by decide, by decide, by decide⟩
  intro h
  exact absurd h.2.2.1 (by decide)


/-- A statement issued through the shared tail goes to the resolved target. -/
theorem issue_target (db : DB) (ctx : Context) (method : Method) (wrap : String)
    (built : Except Error (String × List Arg)) (c : Call)
    (h : issue db ctx method wrap built = .roundTrip c) : c.target = resolveTarget db ctx := by
  unfold issue at h
  cases built with
  | error e => simp at h
  | ok r => simp at h; rw [← h]

/-- The pattern predicate is not the empty string. -/
theorem titleLike_not_empty : "title ILIKE ?".isEmpty = false := by decide

/-- The city-government predicate is not the empty string. -/
theorem cityGov_not_empty : "address_to_id IS NULL".isEmpty = false := by decide

/-- A property that holds of a start value and is kept by every operation
holds after any finite chain of operations. -/
theorem foldl_keeps {Q Op : Type} (apply : Op → Q → Q) (P : Q → Prop)
    (hstep : ∀ op q, P q → P (apply op q)) :
    ∀ (ops : List Op) (q : Q), P q → P (ops.foldl (fun q op => apply op q) q) := by
  intro ops
  induction ops with
  | nil => intro q hq; exact hq
  | cons op rest ih => intro q hq; exact ih (apply op q) (hstep op q hq)

/-- Every operation of `PetitionsQ` keeps the counter in step with the selector. -/
theorem PetitionsOp_apply_readsAgree (op : PetitionsOp) (q : PetitionsQ)
    (h : q.statements.ReadsAgree) : (op.apply q).statements.ReadsAgree := by
  obtain ⟨h1, h2, h3⟩ := h
  simp only [PetitionsQ.statements] at h1 h2 h3
  cases op <;>
    simp [Statements.ReadsAgree, PetitionsOp.apply, PetitionsQ.statements, PetitionsQ.FilterID, PetitionsQ.FilterCityID, PetitionsQ.FilterInitiatorID, PetitionsQ.FilterStatus, PetitionsQ.TitleLike, PetitionsQ.BBox, PetitionsQ.WithinRadius, PetitionsQ.Page,
      SelectBuilder.Where, SelectBuilder.Limit, SelectBuilder.Offset, SelectBuilder.OrderBy,
      Pred.isBlank, titleLike_not_empty, cityGov_not_empty, h1, h2, h3]

/-- Every operation of `PetitionSignaturesQ` keeps the counter in step with the selector. -/
theorem PetitionSignaturesOp_apply_readsAgree (op : PetitionSignaturesOp) (q : PetitionSignaturesQ)
    (h : q.statements.ReadsAgree) : (op.apply q).statements.ReadsAgree := by
  obtain ⟨h1, h2, h3⟩ := h
  simp only [PetitionSignaturesQ.statements] at h1 h2 h3
  cases op <;>
    simp [Statements.ReadsAgree, PetitionSignaturesOp.apply, PetitionSignaturesQ.statements, PetitionSignaturesQ.FilterID, PetitionSignaturesQ.FilterPetitionID, PetitionSignaturesQ.FilterUserID, PetitionSignaturesQ.Page,
      SelectBuilder.Where, SelectBuilder.Limit, SelectBuilder.Offset, SelectBuilder.OrderBy,
      Pred.isBlank, titleLike_not_empty, cityGov_not_empty, h1, h2, h3]

/-- Every operation of `PollsQ` keeps the counter in step with the selector. -/
theorem PollsOp_apply_readsAgree (op : PollsOp) (q : PollsQ)
    (h : q.statements.ReadsAgree) : (op.apply q).statements.ReadsAgree := by
  obtain ⟨h1, h2, h3⟩ := h
  simp only [PollsQ.statements] at h1 h2 h3
  cases op <;>
    simp [Statements.ReadsAgree, PollsOp.apply, PollsQ.statements, PollsQ.FilterID, PollsQ.FilterCityID, PollsQ.FilterInitiatorID, PollsQ.FilterStatus, PollsQ.TitleLike, PollsQ.BBox, PollsQ.WithinRadius, PollsQ.Page,
      SelectBuilder.Where, SelectBuilder.Limit, SelectBuilder.Offset, SelectBuilder.OrderBy,
      Pred.isBlank, titleLike_not_empty, cityGov_not_empty, h1, h2, h3]

/-- Every operation of `PollOptionsQ` keeps the counter in step with the selector. -/
theorem PollOptionsOp_apply_readsAgree (op : PollOptionsOp) (q : PollOptionsQ)
    (h : q.statements.ReadsAgree) : (op.apply q).statements.ReadsAgree := by
  obtain ⟨h1, h2, h3⟩ := h
  simp only [PollOptionsQ.statements] at h1 h2 h3
  cases op <;>
    simp [Statements.ReadsAgree, PollOptionsOp.apply, PollOptionsQ.statements, PollOptionsQ.FilterID, PollOptionsQ.FilterPollID, PollOptionsQ.OrderByCreatedAsc, PollOptionsQ.OrderByCreatedDesc, PollOptionsQ.OrderByVotesDesc, PollOptionsQ.Page,
      SelectBuilder.Where, SelectBuilder.Limit, SelectBuilder.Offset, SelectBuilder.OrderBy,
      Pred.isBlank, titleLike_not_empty, cityGov_not_empty, h1, h2, h3]

/-- Every operation of `PollVotesQ` keeps the counter in step with the selector. -/
theorem PollVotesOp_apply_readsAgree (op : PollVotesOp) (q : PollVotesQ)
    (h : q.statements.ReadsAgree) : (op.apply q).statements.ReadsAgree := by
  obtain ⟨h1, h2, h3⟩ := h
  simp only [PollVotesQ.statements] at h1 h2 h3
  cases op <;>
    simp [Statements.ReadsAgree, PollVotesOp.apply, PollVotesQ.statements, PollVotesQ.FilterID, PollVotesQ.FilterPollID, PollVotesQ.FilterUserID, PollVotesQ.FilterOptionID, PollVotesQ.OrderByCreatedAsc, PollVotesQ.OrderByCreatedDesc, PollVotesQ.Page,
      SelectBuilder.Where, SelectBuilder.Limit, SelectBuilder.Offset, SelectBuilder.OrderBy,
      Pred.isBlank, titleLike_not_empty, cityGov_not_empty, h1, h2, h3]

/-- Every operation of `ProposalsQ` keeps the counter in step with the selector. -/
theorem ProposalsOp_apply_readsAgree (op : ProposalsOp) (q : ProposalsQ)
    (h : q.statements.ReadsAgree) : (op.apply q).statements.ReadsAgree := by
  obtain ⟨h1, h2, h3⟩ := h
  simp only [ProposalsQ.statements] at h1 h2 h3
  cases op <;>
    simp [Statements.ReadsAgree, ProposalsOp.apply, ProposalsQ.statements, ProposalsQ.FilterID, ProposalsQ.FilterCityID, ProposalsQ.FilterInitiatorID, ProposalsQ.FilterStatus, ProposalsQ.FilterAddressedTo, ProposalsQ.FilterAddressedToCityGov, ProposalsQ.TitleLike, ProposalsQ.BBox, ProposalsQ.WithinRadius, ProposalsQ.OrderByCreatedAsc, ProposalsQ.OrderByCreatedDesc, ProposalsQ.OrderByAgreedDesc, ProposalsQ.OrderByDisagreedDesc, ProposalsQ.Page,
      SelectBuilder.Where, SelectBuilder.Limit, SelectBuilder.Offset, SelectBuilder.OrderBy,
      Pred.isBlank, titleLike_not_empty, cityGov_not_empty, h1, h2, h3]

/-- Every operation of `ProposalVotesQ` keeps the counter in step with the selector. -/
theorem ProposalVotesOp_apply_readsAgree (op : ProposalVotesOp) (q : ProposalVotesQ)
    (h : q.statements.ReadsAgree) : (op.apply q).statements.ReadsAgree := by
  obtain ⟨h1, h2, h3⟩ := h
  simp only [ProposalVotesQ.statements] at h1 h2 h3
  cases op <;>
    simp [Statements.ReadsAgree, ProposalVotesOp.apply, ProposalVotesQ.statements, ProposalVotesQ.FilterID, ProposalVotesQ.FilterProposalID, ProposalVotesQ.FilterUserID, ProposalVotesQ.FilterVote, ProposalVotesQ.OrderByCreatedAsc, ProposalVotesQ.OrderByCreatedDesc, ProposalVotesQ.Page,
      SelectBuilder.Where, SelectBuilder.Limit, SelectBuilder.Offset, SelectBuilder.OrderBy,
      Pred.isBlank, titleLike_not_empty, cityGov_not_empty, h1, h2, h3]

/-- C4: for every repository value reached from its constructor by a finite
chain of filter, TitleLike, BBox, WithinRadius, OrderBy and Page calls, the
counter carries the same WHERE predicates with the same bound arguments in the
same order, and the same LIMIT and OFFSET, as the selector. -/
theorem C4_counter_follows_selector :
    (∀ (db : DB) (ops : List PetitionsOp), (PetitionsQ.chain db ops).statements.ReadsAgree) ∧
    (∀ (db : DB) (ops : List PetitionSignaturesOp), (PetitionSignaturesQ.chain db ops).statements.ReadsAgree) ∧
    (∀ (db : DB) (ops : List PollsOp), (PollsQ.chain db ops).statements.ReadsAgree) ∧
    (∀ (db : DB) (ops : List PollOptionsOp), (PollOptionsQ.chain db ops).statements.ReadsAgree) ∧
    (∀ (db : DB) (ops : List PollVotesOp), (PollVotesQ.chain db ops).statements.ReadsAgree) ∧
    (∀ (db : DB) (ops : List ProposalsOp), (ProposalsQ.chain db ops).statements.ReadsAgree) ∧
    (∀ (db : DB) (ops : List ProposalVotesOp), (ProposalVotesQ.chain db ops).statements.ReadsAgree) :=
  ⟨fun _ ops => foldl_keeps _ (fun q : PetitionsQ => q.statements.ReadsAgree)
      PetitionsOp_apply_readsAgree ops _ ⟨rfl, rfl, rfl⟩,
   fun _ ops => foldl_keeps _ (fun q : PetitionSignaturesQ => q.statements.ReadsAgree)
      PetitionSignaturesOp_apply_readsAgree ops _ ⟨rfl, rfl, rfl⟩,
   fun _ ops => foldl_keeps _ (fun q : PollsQ => q.statements.ReadsAgree)
      PollsOp_apply_readsAgree ops _ ⟨rfl, rfl, rfl⟩,
   fun _ ops => foldl_keeps _ (fun q : PollOptionsQ => q.statements.ReadsAgree)
      PollOptionsOp_apply_readsAgree ops _ ⟨rfl, rfl, rfl⟩,
   fun _ ops => foldl_keeps _ (fun q : PollVotesQ => q.statements.ReadsAgree)
      PollVotesOp_apply_readsAgree ops _ ⟨rfl, rfl, rfl⟩,
   fun _ ops => foldl_keeps _ (fun q : ProposalsQ => q.statements.ReadsAgree)
      ProposalsOp_apply_readsAgree ops _ ⟨rfl, rfl, rfl⟩,
   fun _ ops => foldl_keeps _ (fun q : ProposalVotesQ => q.statements.ReadsAgree)
      ProposalVotesOp_apply_readsAgree ops _ ⟨rfl, rfl, rfl⟩⟩


/-- C6, amended: every terminal operation that issues a statement sends it to
the handle found by the type assertion on the context value under TxKey: to
the stored `*sql.Tx` whenever the value has that dynamic type (a nil pointer
included), and to the receiver's pool when there is no value under TxKey or a
value of another type. -/
theorem C6_target_follows_dynamic_type (t : Terminal) (ctx : Context) (c : Call)
    (h : t.run ctx = .roundTrip c) :
    (∀ p, ctx.Value .TxKey = some (.tx p) → c.target = .tx p) ∧
    (ctx.Value .TxKey = none → c.target = .pool t.db) ∧
    (∀ n, ctx.Value .TxKey = some (.other n) → c.target = .pool t.db) := by
  have key : c.target = resolveTarget t.db ctx := by
    cases t <;>
      simp only [Terminal.run, Terminal.db, PetitionsQ.Insert, PetitionsQ.Get, PetitionsQ.Select,
        PetitionsQ.Update, PetitionsQ.Delete, PetitionsQ.Count, PetitionsQ.IncrementSignatures,
        PetitionSignaturesQ.Insert, PetitionSignaturesQ.Get, PetitionSignaturesQ.Select,
        PetitionSignaturesQ.Delete, PetitionSignaturesQ.Count,
        PollsQ.Insert, PollsQ.Update, PollsQ.Delete, PollsQ.Get, PollsQ.Select, PollsQ.Count,
        PollOptionsQ.Insert, PollOptionsQ.Get, PollOptionsQ.Select, PollOptionsQ.Delete,
        PollOptionsQ.Count,
        PollVotesQ.Insert, PollVotesQ.Get, PollVotesQ.Select, PollVotesQ.Update,
        PollVotesQ.Delete, PollVotesQ.Count,
        ProposalsQ.Insert, ProposalsQ.Get, ProposalsQ.Select, ProposalsQ.Update,
        ProposalsQ.Delete, ProposalsQ.Count,
        ProposalVotesQ.Insert, ProposalVotesQ.Get, ProposalVotesQ.Select, ProposalVotesQ.Update,
        ProposalVotesQ.Delete, ProposalVotesQ.Count] at h ⊢ <;>
      first
        | exact issue_target _ _ _ _ _ _ h
        | (split at h
           · cases h
           · exact issue_target _ _ _ _ _ _ h)
  rw [key]
  refine ⟨?_, ?_, ?_⟩
  · intro p hp; simp [resolveTarget, hp]
  · intro hp; simp [resolveTarget, hp]
  · intro n hp; simp [resolveTarget, hp]


/-- C6 at a context that holds an open transaction: the Delete of a fresh
PetitionsQ goes to that transaction. -/
theorem C6_target_witness :
    Context.Value ⟨[(.TxKey, .tx (some ⟨7⟩))], false⟩ .TxKey = some (.tx (some ⟨7⟩)) ∧
    (Terminal.petitionsDelete (NewPetitionsQ ⟨0⟩)).run ⟨[(.TxKey, .tx (some ⟨7⟩))], false⟩
      = .roundTrip ⟨.tx (some ⟨7⟩), .ExecContext, ⟨[(.TxKey, .tx (some ⟨7⟩))], false⟩,
          "DELETE FROM petitions", []⟩ ∧
    (Call.mk (.tx (some ⟨7⟩)) .ExecContext ⟨[(.TxKey, .tx (some ⟨7⟩))], false⟩
      "DELETE FROM petitions" []).target = .tx (some ⟨7⟩) :=
  ⟨by decide, by decide,
   (C6_target_follows_dynamic_type (Terminal.petitionsDelete (NewPetitionsQ ⟨0⟩))
      ⟨[(.TxKey, .tx (some ⟨7⟩))], false⟩ _ (by decide)).1 _ (by decide)⟩

/-- C6 as stated fails: with a nil `*sql.Tx` stored under TxKey the type
assertion succeeds, and Delete on a fresh PetitionsQ is issued on the nil
transaction handle, not on the pool. -/
theorem C6_counterexample_nil_tx_not_sent_to_pool :
    Context.Value ⟨[(.TxKey, .tx none)], false⟩ .TxKey = some (.tx none) ∧
    (NewPetitionsQ ⟨0⟩).Delete ⟨[(.TxKey, .tx none)], false⟩
      = .roundTrip ⟨.tx none, .ExecContext, ⟨[(.TxKey, .tx none)], false⟩,
          "DELETE FROM petitions", []⟩ ∧
    (NewPetitionsQ ⟨0⟩).Delete ⟨[(.TxKey, .tx none)], false⟩
      ≠ .roundTrip ⟨.pool ⟨0⟩, .ExecContext, ⟨[(.TxKey, .tx none)], false⟩,
          "DELETE FROM petitions", []⟩ := by
  refine ⟨by decide, by decide, by decide⟩

/-- C8: for every repository with an Update, every receiver (whatever filters
it has accumulated) and every context (with or without a transaction,
cancelled or not), Update with every input field unset returns nil and issues
no statement. -/
theorem C8_update_without_fields_is_a_no_op :
    (∀ (q : PetitionsQ) (ctx : Context),
      q.Update ctx ⟨none, none, none, none, none, none, none, none⟩ = .returned none) ∧
    (∀ (q : PollsQ) (ctx : Context),
      q.Update ctx ⟨none, none, none, none, none, none⟩ = .returned none) ∧
    (∀ (q : PollVotesQ) (ctx : Context),
      q.Update ctx ⟨none⟩ = .returned none) ∧
    (∀ (q : ProposalsQ) (ctx : Context),
      q.Update ctx ⟨none, none, none, none, none, none, none⟩ = .returned none) ∧
    (∀ (q : ProposalVotesQ) (ctx : Context),
      q.Update ctx ⟨none⟩ = .returned none) :=
  ⟨fun _ _ => rfl, fun _ _ => rfl, fun _ _ => rfl, fun _ _ => rfl, fun _ _ => rfl⟩

/-- C10: Delete on a repository value fresh from its constructor or from New,
with no filter applied, issues `DELETE FROM <table>` with no WHERE clause and
no bound arguments; under the meaning of a DELETE statement no row of the
table is left. -/
theorem C10_unfiltered_delete_removes_every_row :
    (∀ (db : DB) (ctx : Context),
      (NewPetitionsQ db).Delete ctx
        = .roundTrip ⟨resolveTarget db ctx, .ExecContext, ctx, "DELETE FROM petitions", []⟩) ∧
    (∀ (q : PetitionsQ) (ctx : Context),
      q.New.Delete ctx
        = .roundTrip ⟨resolveTarget q.db ctx, .ExecContext, ctx, "DELETE FROM petitions", []⟩) ∧
    (∀ (Row : Type) (holds : Pred → Row → Bool) (db : DB) (rows : List Row),
      (NewPetitionsQ db).deleter.whereParts = [] ∧ (NewPetitionsQ db).deleter.rowsLeft holds rows = []) ∧
    (∀ (db : DB) (ctx : Context),
      (NewPetitionSignaturesQ db).Delete ctx
        = .roundTrip ⟨resolveTarget db ctx, .ExecContext, ctx, "DELETE FROM petition_signatures", []⟩) ∧
    (∀ (q : PetitionSignaturesQ) (ctx : Context),
      q.New.Delete ctx
        = .roundTrip ⟨resolveTarget q.db ctx, .ExecContext, ctx, "DELETE FROM petition_signatures", []⟩) ∧
    (∀ (Row : Type) (holds : Pred → Row → Bool) (db : DB) (rows : List Row),
      (NewPetitionSignaturesQ db).deleter.whereParts = [] ∧ (NewPetitionSignaturesQ db).deleter.rowsLeft holds rows = []) ∧
    (∀ (db : DB) (ctx : Context),
      (NewPollsQ db).Delete ctx
        = .roundTrip ⟨resolveTarget db ctx, .ExecContext, ctx, "DELETE FROM polls", []⟩) ∧
    (∀ (q : PollsQ) (ctx : Context),
      q.New.Delete ctx
        = .roundTrip ⟨resolveTarget q.db ctx, .ExecContext, ctx, "DELETE FROM polls", []⟩) ∧
    (∀ (Row : Type) (holds : Pred → Row → Bool) (db : DB) (rows : List Row),
      (NewPollsQ db).deleter.whereParts = [] ∧ (NewPollsQ db).deleter.rowsLeft holds rows = []) ∧
    (∀ (db : DB) (ctx : Context),
      (NewPollOptionsQ db).Delete ctx
        = .roundTrip ⟨resolveTarget db ctx, .ExecContext, ctx, "DELETE FROM poll_options", []⟩) ∧
    (∀ (q : PollOptionsQ) (ctx : Context),
      q.New.Delete ctx
        = .roundTrip ⟨resolveTarget q.db ctx, .ExecContext, ctx, "DELETE FROM poll_options", []⟩) ∧
    (∀ (Row : Type) (holds : Pred → Row → Bool) (db : DB) (rows : List Row),
      (NewPollOptionsQ db).deleter.whereParts = [] ∧ (NewPollOptionsQ db).deleter.rowsLeft holds rows = []) ∧
    (∀ (db : DB) (ctx : Context),
      (NewPollVotesQ db).Delete ctx
        = .roundTrip ⟨resolveTarget db ctx, .ExecContext, ctx, "DELETE FROM poll_votes", []⟩) ∧
    (∀ (q : PollVotesQ) (ctx : Context),
      q.New.Delete ctx
        = .roundTrip ⟨resolveTarget q.db ctx, .ExecContext, ctx, "DELETE FROM poll_votes", []⟩) ∧
    (∀ (Row : Type) (holds : Pred → Row → Bool) (db : DB) (rows : List Row),
      (NewPollVotesQ db).deleter.whereParts = [] ∧ (NewPollVotesQ db).deleter.rowsLeft holds rows = []) ∧
    (∀ (db : DB) (ctx : Context),
      (NewProposalsQ db).Delete ctx
        = .roundTrip ⟨resolveTarget db ctx, .ExecContext, ctx, "DELETE FROM proposals", []⟩) ∧
    (∀ (q : ProposalsQ) (ctx : Context),
      q.New.Delete ctx
        = .roundTrip ⟨resolveTarget q.db ctx, .ExecContext, ctx, "DELETE FROM proposals", []⟩) ∧
    (∀ (Row : Type) (holds : Pred → Row → Bool) (db : DB) (rows : List Row),
      (NewProposalsQ db).deleter.whereParts = [] ∧ (NewProposalsQ db).deleter.rowsLeft holds rows = []) ∧
    (∀ (db : DB) (ctx : Context),
      (NewProposalVotesQ db).Delete ctx
        = .roundTrip ⟨resolveTarget db ctx, .ExecContext, ctx, "DELETE FROM proposal_votes", []⟩) ∧
    (∀ (q : ProposalVotesQ) (ctx : Context),
      q.New.Delete ctx
        = .roundTrip ⟨resolveTarget q.db ctx, .ExecContext, ctx, "DELETE FROM proposal_votes", []⟩) ∧
    (∀ (Row : Type) (holds : Pred → Row → Bool) (db : DB) (rows : List Row),
      (NewProposalVotesQ db).deleter.whereParts = [] ∧ (NewProposalVotesQ db).deleter.rowsLeft holds rows = []) := by
  refine ⟨?_, ?_, ?_, ?_, ?_, ?_, ?_, ?_, ?_, ?_, ?_, ?_, ?_, ?_, ?_, ?_, ?_, ?_, ?_, ?_, ?_⟩ <;>
    first
      | (intro _ _; rfl)
      | (intro Row holds db rows; exact ⟨rfl, by simp [DeleteBuilder.rowsLeft, NewPetitionsQ, NewPetitionSignaturesQ, NewPollsQ, NewPollOptionsQ, NewPollVotesQ, NewProposalsQ, NewProposalVotesQ, deleteFrom]⟩)


/-- The map Update fills holds the assignments the input asks for. -/
theorem PetitionsQ_updates_eq (inp : UpdatePetitionInput) :
    PetitionsQ.updates inp = inp.assignments.map (fun c => (c.column, c.value)) := by
  obtain ⟨t, d, a, s, g, e, u, l⟩ := inp
  cases t <;> cases d <;> cases a <;> cases s <;> cases g <;> cases e <;> cases u <;> cases l <;>
    simp [PetitionsQ.updates, UpdatePetitionInput.assignments, assignOf, GoMap.set, pointExpr]


/-- A field asks for no assignment exactly when it is nil. -/
theorem assignOf_eq_nil {α : Type} (column : String) (field : Option α) (value : α → Arg) :
    assignOf column field value = [] ↔ field = none := by
  cases field <;> simp [assignOf]

/-- Sorting a map by key keeps its entries. -/
theorem goMap_sorted_perm (m : GoMap) : m.sorted.Perm m :=
  List.perm_insertionSort _ m

/-- `SetMap` appends one SET clause per entry of the map, keys sorted. -/
theorem updateBuilder_setMap (b : UpdateBuilder) (m : GoMap) :
    b.SetMap m = { b with setClauses := b.setClauses ++ m.sorted.map (fun e => ⟨e.1, e.2⟩) } := by
  unfold UpdateBuilder.SetMap
  generalize m.sorted = l
  induction l generalizing b with
  | nil => simp
  | cons e rest ih =>
    rw [List.foldl_cons, ih (b.Set e.1 e.2)]
    simp [UpdateBuilder.Set]

/-- The SET clauses handed to the updater are a rearrangement of the entries. -/
theorem setClauses_perm (l : List SetClause) :
    ((GoMap.sorted (l.map (fun c => (c.column, c.value)))).map
      (fun e => (⟨e.1, e.2⟩ : SetClause))).Perm l := by
  have h := (goMap_sorted_perm (l.map (fun c => (c.column, c.value)))).map
    (fun e => (⟨e.1, e.2⟩ : SetClause))
  have hid : (l.map (fun c => (c.column, c.value))).map (fun e => (⟨e.1, e.2⟩ : SetClause)) = l := by
    rw [List.map_map]
    exact List.map_id l
  rw [hid] at h
  exact h

/-- The UPDATE statement built from a table, a nonempty list of SET clauses and
WHERE parts. -/
theorem updateBuilder_toSql (table : String) (clauses : List SetClause) (parts : List Pred)
    (ht : table.isEmpty = false) (hc : clauses ≠ []) :
    (UpdateBuilder.mk table clauses parts).ToSql
      = .ok (dollar ("UPDATE " ++ table ++ " SET "
              ++ ", ".intercalate (clauses.map (fun c => c.ToSql.1)) ++ (whereToSql parts).1),
             (clauses.map (fun c => c.ToSql.2)).flatten ++ (whereToSql parts).2) := by
  have hc2 : clauses.isEmpty = false := by
    cases clauses with
    | nil => exact absurd rfl hc
    | cons a l => rfl
  simp only [UpdateBuilder.ToSql, UpdateBuilder.toSqlRaw, ht, hc2, List.map_map]
  rfl


/-- Every operation of `PetitionsQ` keeps the shape the constructor set and the pool. -/
theorem PetitionsOp_apply_shaped (op : PetitionsOp) (q : PetitionsQ) (db : DB)
    (h : q.statements.Shaped (NewPetitionsQ ⟨0⟩).selector.columns petitionsTable ∧ q.db = db) :
    (op.apply q).statements.Shaped (NewPetitionsQ ⟨0⟩).selector.columns petitionsTable
      ∧ (op.apply q).db = db := by
  obtain ⟨⟨h1, h2, h3, h4, h5, h6, h7, h8⟩, h9⟩ := h
  simp only [PetitionsQ.statements] at h1 h2 h3 h4 h5 h6 h7 h8
  cases op <;>
    simp [Statements.Shaped, PetitionsOp.apply, PetitionsQ.statements, PetitionsQ.FilterID, PetitionsQ.FilterCityID, PetitionsQ.FilterInitiatorID, PetitionsQ.FilterStatus, PetitionsQ.TitleLike, PetitionsQ.BBox, PetitionsQ.WithinRadius, PetitionsQ.Page,
      SelectBuilder.Where, SelectBuilder.Limit, SelectBuilder.Offset, SelectBuilder.OrderBy,
      UpdateBuilder.Where, DeleteBuilder.Where,
      Pred.isBlank, titleLike_not_empty, cityGov_not_empty, h1, h2, h3, h4, h5, h6, h7, h8, h9]

/-- A value reached from `NewPetitionsQ` has the constructor's shape and pool. -/
theorem PetitionsQ_chain_shaped (db : DB) (ops : List PetitionsOp) :
    (PetitionsQ.chain db ops).statements.Shaped (NewPetitionsQ ⟨0⟩).selector.columns petitionsTable
      ∧ (PetitionsQ.chain db ops).db = db :=
  foldl_keeps _ (fun q : PetitionsQ =>
      q.statements.Shaped (NewPetitionsQ ⟨0⟩).selector.columns petitionsTable ∧ q.db = db)
    (fun op q h => PetitionsOp_apply_shaped op q db h) ops _
    ⟨⟨rfl, rfl, rfl, rfl, rfl, rfl, rfl, rfl⟩, rfl⟩

/-- Every operation of `PetitionSignaturesQ` keeps the shape the constructor set and the pool. -/
theorem PetitionSignaturesOp_apply_shaped (op : PetitionSignaturesOp) (q : PetitionSignaturesQ) (db : DB)
    (h : q.statements.Shaped (NewPetitionSignaturesQ ⟨0⟩).selector.columns petitionSignaturesTable ∧ q.db = db) :
    (op.apply q).statements.Shaped (NewPetitionSignaturesQ ⟨0⟩).selector.columns petitionSignaturesTable
      ∧ (op.apply q).db = db := by
  obtain ⟨⟨h1, h2, h3, h4, h5, h6, h7, h8⟩, h9⟩ := h
  simp only [PetitionSignaturesQ.statements] at h1 h2 h3 h4 h5 h6 h7 h8
  cases op <;>
    simp [Statements.Shaped, PetitionSignaturesOp.apply, PetitionSignaturesQ.statements, PetitionSignaturesQ.FilterID, PetitionSignaturesQ.FilterPetitionID, PetitionSignaturesQ.FilterUserID, PetitionSignaturesQ.Page,
      SelectBuilder.Where, SelectBuilder.Limit, SelectBuilder.Offset, SelectBuilder.OrderBy,
      UpdateBuilder.Where, DeleteBuilder.Where,
      Pred.isBlank, titleLike_not_empty, cityGov_not_empty, h1, h2, h3, h4, h5, h6, h7, h8, h9]

/-- A value reached from `NewPetitionSignaturesQ` has the constructor's shape and pool. -/
theorem PetitionSignaturesQ_chain_shaped (db : DB) (ops : List PetitionSignaturesOp) :
    (PetitionSignaturesQ.chain db ops).statements.Shaped (NewPetitionSignaturesQ ⟨0⟩).selector.columns petitionSignaturesTable
      ∧ (PetitionSignaturesQ.chain db ops).db = db :=
  foldl_keeps _ (fun q : PetitionSignaturesQ =>
      q.statements.Shaped (NewPetitionSignaturesQ ⟨0⟩).selector.columns petitionSignaturesTable ∧ q.db = db)
    (fun op q h => PetitionSignaturesOp_apply_shaped op q db h) ops _
    ⟨⟨rfl, rfl, rfl, rfl, rfl, rfl, rfl, rfl⟩, rfl⟩

/-- Every operation of `PollsQ` keeps the shape the constructor set and the pool. -/
theorem PollsOp_apply_shaped (op : PollsOp) (q : PollsQ) (db : DB)
    (h : q.statements.Shaped (NewPollsQ ⟨0⟩).selector.columns pollsTable ∧ q.db = db) :
    (op.apply q).statements.Shaped (NewPollsQ ⟨0⟩).selector.columns pollsTable
      ∧ (op.apply q).db = db := by
  obtain ⟨⟨h1, h2, h3, h4, h5, h6, h7, h8⟩, h9⟩ := h
  simp only [PollsQ.statements] at h1 h2 h3 h4 h5 h6 h7 h8
  cases op <;>
    simp [Statements.Shaped, PollsOp.apply, PollsQ.statements, PollsQ.FilterID, PollsQ.FilterCityID, PollsQ.FilterInitiatorID, PollsQ.FilterStatus, PollsQ.TitleLike, PollsQ.BBox, PollsQ.WithinRadius, PollsQ.Page,
      SelectBuilder.Where, SelectBuilder.Limit, SelectBuilder.Offset, SelectBuilder.OrderBy,
      UpdateBuilder.Where, DeleteBuilder.Where,
      Pred.isBlank, titleLike_not_empty, cityGov_not_empty, h1, h2, h3, h4, h5, h6, h7, h8, h9]

/-- A value reached from `NewPollsQ` has the constructor's shape and pool. -/
theorem PollsQ_chain_shaped (db : DB) (ops : List PollsOp) :
    (PollsQ.chain db ops).statements.Shaped (NewPollsQ ⟨0⟩).selector.columns pollsTable
      ∧ (PollsQ.chain db ops).db = db :=
  foldl_keeps _ (fun q : PollsQ =>
      q.statements.Shaped (NewPollsQ ⟨0⟩).selector.columns pollsTable ∧ q.db = db)
    (fun op q h => PollsOp_apply_shaped op q db h) ops _
    ⟨⟨rfl, rfl, rfl, rfl, rfl, rfl, rfl, rfl⟩, rfl⟩

/-- Every operation of `PollOptionsQ` keeps the shape the constructor set and the pool. -/
theorem PollOptionsOp_apply_shaped (op : PollOptionsOp) (q : PollOptionsQ) (db : DB)
    (h : q.statements.Shaped (NewPollOptionsQ ⟨0⟩).selector.columns pollOptionsTable ∧ q.db = db) :
    (op.apply q).statements.Shaped (NewPollOptionsQ ⟨0⟩).selector.columns pollOptionsTable
      ∧ (op.apply q).db = db := by
  obtain ⟨⟨h1, h2, h3, h4, h5, h6, h7, h8⟩, h9⟩ := h
  simp only [PollOptionsQ.statements] at h1 h2 h3 h4 h5 h6 h7 h8
  cases op <;>
    simp [Statements.Shaped, PollOptionsOp.apply, PollOptionsQ.statements, PollOptionsQ.FilterID, PollOptionsQ.FilterPollID, PollOptionsQ.OrderByCreatedAsc, PollOptionsQ.OrderByCreatedDesc, PollOptionsQ.OrderByVotesDesc, PollOptionsQ.Page,
      SelectBuilder.Where, SelectBuilder.Limit, SelectBuilder.Offset, SelectBuilder.OrderBy,
      UpdateBuilder.Where, DeleteBuilder.Where,
      Pred.isBlank, titleLike_not_empty, cityGov_not_empty, h1, h2, h3, h4, h5, h6, h7, h8, h9]

/-- A value reached from `NewPollOptionsQ` has the constructor's shape and pool. -/
theorem PollOptionsQ_chain_shaped (db : DB) (ops : List PollOptionsOp) :
    (PollOptionsQ.chain db ops).statements.Shaped (NewPollOptionsQ ⟨0⟩).selector.columns pollOptionsTable
      ∧ (PollOptionsQ.chain db ops).db = db :=
  foldl_keeps _ (fun q : PollOptionsQ =>
      q.statements.Shaped (NewPollOptionsQ ⟨0⟩).selector.columns pollOptionsTable ∧ q.db = db)
    (fun op q h => PollOptionsOp_apply_shaped op q db h) ops _
    ⟨⟨rfl, rfl, rfl, rfl, rfl, rfl, rfl, rfl⟩, rfl⟩

/-- Every operation of `PollVotesQ` keeps the shape the constructor set and the pool. -/
theorem PollVotesOp_apply_shaped (op : PollVotesOp) (q : PollVotesQ) (db : DB)
    (h : q.statements.Shaped (NewPollVotesQ ⟨0⟩).selector.columns pollVotesTable ∧ q.db = db) :
    (op.apply q).statements.Shaped (NewPollVotesQ ⟨0⟩).selector.columns pollVotesTable
      ∧ (op.apply q).db = db := by
  obtain ⟨⟨h1, h2, h3, h4, h5, h6, h7, h8⟩, h9⟩ := h
  simp only [PollVotesQ.statements] at h1 h2 h3 h4 h5 h6 h7 h8
  cases op <;>
    simp [Statements.Shaped, PollVotesOp.apply, PollVotesQ.statements, PollVotesQ.FilterID, PollVotesQ.FilterPollID, PollVotesQ.FilterUserID, PollVotesQ.FilterOptionID, PollVotesQ.OrderByCreatedAsc, PollVotesQ.OrderByCreatedDesc, PollVotesQ.Page,
      SelectBuilder.Where, SelectBuilder.Limit, SelectBuilder.Offset, SelectBuilder.OrderBy,
      UpdateBuilder.Where, DeleteBuilder.Where,
      Pred.isBlank, titleLike_not_empty, cityGov_not_empty, h1, h2, h3, h4, h5, h6, h7, h8, h9]

/-- A value reached from `NewPollVotesQ` has the constructor's shape and pool. -/
theorem PollVotesQ_chain_shaped (db : DB) (ops : List PollVotesOp) :
    (PollVotesQ.chain db ops).statements.Shaped (NewPollVotesQ ⟨0⟩).selector.columns pollVotesTable
      ∧ (PollVotesQ.chain db ops).db = db :=
  foldl_keeps _ (fun q : PollVotesQ =>
      q.statements.Shaped (NewPollVotesQ ⟨0⟩).selector.columns pollVotesTable ∧ q.db = db)
    (fun op q h => PollVotesOp_apply_shaped op q db h) ops _
    ⟨⟨rfl, rfl, rfl, rfl, rfl, rfl, rfl, rfl⟩, rfl⟩

/-- Every operation of `ProposalsQ` keeps the shape the constructor set and the pool. -/
theorem ProposalsOp_apply_shaped (op : ProposalsOp) (q : ProposalsQ) (db : DB)
    (h : q.statements.Shaped (NewProposalsQ ⟨0⟩).selector.columns proposalsTable ∧ q.db = db) :
    (op.apply q).statements.Shaped (NewProposalsQ ⟨0⟩).selector.columns proposalsTable
      ∧ (op.apply q).db = db := by
  obtain ⟨⟨h1, h2, h3, h4, h5, h6, h7, h8⟩, h9⟩ := h
  simp only [ProposalsQ.statements] at h1 h2 h3 h4 h5 h6 h7 h8
  cases op <;>
    simp [Statements.Shaped, ProposalsOp.apply, ProposalsQ.statements, ProposalsQ.FilterID, ProposalsQ.FilterCityID, ProposalsQ.FilterInitiatorID, ProposalsQ.FilterStatus, ProposalsQ.FilterAddressedTo, ProposalsQ.FilterAddressedToCityGov, ProposalsQ.TitleLike, ProposalsQ.BBox, ProposalsQ.WithinRadius, ProposalsQ.OrderByCreatedAsc, ProposalsQ.OrderByCreatedDesc, ProposalsQ.OrderByAgreedDesc, ProposalsQ.OrderByDisagreedDesc, ProposalsQ.Page,
      SelectBuilder.Where, SelectBuilder.Limit, SelectBuilder.Offset, SelectBuilder.OrderBy,
      UpdateBuilder.Where, DeleteBuilder.Where,
      Pred.isBlank, titleLike_not_empty, cityGov_not_empty, h1, h2, h3, h4, h5, h6, h7, h8, h9]

/-- A value reached from `NewProposalsQ` has the constructor's shape and pool. -/
theorem ProposalsQ_chain_shaped (db : DB) (ops : List ProposalsOp) :
    (ProposalsQ.chain db ops).statements.Shaped (NewProposalsQ ⟨0⟩).selector.columns proposalsTable
      ∧ (ProposalsQ.chain db ops).db = db :=
  foldl_keeps _ (fun q : ProposalsQ =>
      q.statements.Shaped (NewProposalsQ ⟨0⟩).selector.columns proposalsTable ∧ q.db = db)
    (fun op q h => ProposalsOp_apply_shaped op q db h) ops _
    ⟨⟨rfl, rfl, rfl, rfl, rfl, rfl, rfl, rfl⟩, rfl⟩

/-- Every operation of `ProposalVotesQ` keeps the shape the constructor set and the pool. -/
theorem ProposalVotesOp_apply_shaped (op : ProposalVotesOp) (q : ProposalVotesQ) (db : DB)
    (h : q.statements.Shaped (NewProposalVotesQ ⟨0⟩).selector.columns proposalVotesTable ∧ q.db = db) :
    (op.apply q).statements.Shaped (NewProposalVotesQ ⟨0⟩).selector.columns proposalVotesTable
      ∧ (op.apply q).db = db := by
  obtain ⟨⟨h1, h2, h3, h4, h5, h6, h7, h8⟩, h9⟩ := h
  simp only [ProposalVotesQ.statements] at h1 h2 h3 h4 h5 h6 h7 h8
  cases op <;>
    simp [Statements.Shaped, ProposalVotesOp.apply, ProposalVotesQ.statements, ProposalVotesQ.FilterID, ProposalVotesQ.FilterProposalID, ProposalVotesQ.FilterUserID, ProposalVotesQ.FilterVote, ProposalVotesQ.OrderByCreatedAsc, ProposalVotesQ.OrderByCreatedDesc, ProposalVotesQ.Page,
      SelectBuilder.Where, SelectBuilder.Limit, SelectBuilder.Offset, SelectBuilder.OrderBy,
      UpdateBuilder.Where, DeleteBuilder.Where,
      Pred.isBlank, titleLike_not_empty, cityGov_not_empty, h1, h2, h3, h4, h5, h6, h7, h8, h9]

/-- A value reached from `NewProposalVotesQ` has the constructor's shape and pool. -/
theorem ProposalVotesQ_chain_shaped (db : DB) (ops : List ProposalVotesOp) :
    (ProposalVotesQ.chain db ops).statements.Shaped (NewProposalVotesQ ⟨0⟩).selector.columns proposalVotesTable
      ∧ (ProposalVotesQ.chain db ops).db = db :=
  foldl_keeps _ (fun q : ProposalVotesQ =>
      q.statements.Shaped (NewProposalVotesQ ⟨0⟩).selector.columns proposalVotesTable ∧ q.db = db)
    (fun op q h => ProposalVotesOp_apply_shaped op q db h) ops _
    ⟨⟨rfl, rfl, rfl, rfl, rfl, rfl, rfl, rfl⟩, rfl⟩

/-- On a reached `PetitionsQ` the SET clauses Update builds are the sorted entries of the
assignments asked for. -/
theorem PetitionsQ_updateClauses_eq (db : DB) (ops : List PetitionsOp) (inp : UpdatePetitionInput) :
    (PetitionsQ.chain db ops).updateClauses inp
      = (GoMap.sorted (inp.assignments.map (fun c => (c.column, c.value)))).map
          (fun e => (⟨e.1, e.2⟩ : SetClause)) := by
  obtain ⟨⟨-, -, -, -, -, hs, -, -⟩, -⟩ := PetitionsQ_chain_shaped db ops
  simp only [PetitionsQ.statements] at hs
  unfold PetitionsQ.updateClauses
  rw [updateBuilder_setMap, PetitionsQ_updates_eq, hs, List.nil_append]

/-- On a reached `PetitionsQ` the SET clauses Update builds are a rearrangement of the
assignments asked for. -/
theorem PetitionsQ_updateClauses_perm (db : DB) (ops : List PetitionsOp) (inp : UpdatePetitionInput) :
    ((PetitionsQ.chain db ops).updateClauses inp).Perm inp.assignments := by
  rw [PetitionsQ_updateClauses_eq]
  exact setClauses_perm inp.assignments

/-- The statement Update issues on a reached `PetitionsQ` for an input with a set field. -/
theorem PetitionsQ_update_issues (db : DB) (ops : List PetitionsOp) (ctx : Context)
    (inp : UpdatePetitionInput) (h : inp ≠ ⟨none, none, none, none, none, none, none, none⟩) :
    (PetitionsQ.chain db ops).Update ctx inp
      = .roundTrip ⟨resolveTarget db ctx, .ExecContext, ctx,
          dollar ("UPDATE petitions SET "
            ++ ", ".intercalate (((PetitionsQ.chain db ops).updateClauses inp).map (fun c => c.ToSql.1))
            ++ (whereToSql (PetitionsQ.chain db ops).updater.whereParts).1),
          (((PetitionsQ.chain db ops).updateClauses inp).map (fun c => c.ToSql.2)).flatten
            ++ (whereToSql (PetitionsQ.chain db ops).updater.whereParts).2⟩ := by
  obtain ⟨⟨-, -, -, -, ht, hs, -, -⟩, hdb⟩ := PetitionsQ_chain_shaped db ops
  simp only [PetitionsQ.statements] at ht hs
  have hne : inp.assignments ≠ [] := by
    intro h0
    apply h
    obtain ⟨a1, a2, a3, a4, a5, a6, a7, a8⟩ := inp
    simp only [UpdatePetitionInput.assignments, List.append_eq_nil, assignOf_eq_nil] at h0
    simp [h0]
  have hc : (GoMap.sorted (inp.assignments.map (fun c => (c.column, c.value)))).map
      (fun e => (⟨e.1, e.2⟩ : SetClause)) ≠ [] :=
    fun h0 => hne ((List.perm_nil.mp (h0 ▸ (setClauses_perm inp.assignments).symm)))
  have hlen : ¬ (inp.assignments.map (fun c => (c.column, c.value))).length = 0 := by
    simpa using hne
  rw [PetitionsQ_updateClauses_eq]
  unfold PetitionsQ.Update
  rw [PetitionsQ_updates_eq]
  simp only [hlen, if_false]
  rw [updateBuilder_setMap, hs, ht, List.nil_append,
    updateBuilder_toSql _ _ _ (by decide) hc, hdb]
  rfl

/-- The map Update fills holds the assignments the input asks for. -/
theorem PollsQ_updates_eq (inp : UpdatePollInput) :
    PollsQ.updates inp = inp.assignments.map (fun c => (c.column, c.value)) := by
  obtain ⟨a1, a2, a3, a4, a5, a6⟩ := inp
  cases a1 <;> cases a2 <;> cases a3 <;> cases a4 <;> cases a5 <;> cases a6 <;>
    simp [PollsQ.updates, UpdatePollInput.assignments, assignOf, GoMap.set, pointExpr]

/-- On a reached `PollsQ` the SET clauses Update builds are the sorted entries of the
assignments asked for. -/
theorem PollsQ_updateClauses_eq (db : DB) (ops : List PollsOp) (inp : UpdatePollInput) :
    (PollsQ.chain db ops).updateClauses inp
      = (GoMap.sorted (inp.assignments.map (fun c => (c.column, c.value)))).map
          (fun e => (⟨e.1, e.2⟩ : SetClause)) := by
  obtain ⟨⟨-, -, -, -, -, hs, -, -⟩, -⟩ := PollsQ_chain_shaped db ops
  simp only [PollsQ.statements] at hs
  unfold PollsQ.updateClauses
  rw [updateBuilder_setMap, PollsQ_updates_eq, hs, List.nil_append]

/-- On a reached `PollsQ` the SET clauses Update builds are a rearrangement of the
assignments asked for. -/
theorem PollsQ_updateClauses_perm (db : DB) (ops : List PollsOp) (inp : UpdatePollInput) :
    ((PollsQ.chain db ops).updateClauses inp).Perm inp.assignments := by
  rw [PollsQ_updateClauses_eq]
  exact setClauses_perm inp.assignments

/-- The statement Update issues on a reached `PollsQ` for an input with a set field. -/
theorem PollsQ_update_issues (db : DB) (ops : List PollsOp) (ctx : Context)
    (inp : UpdatePollInput) (h : inp ≠ ⟨none, none, none, none, none, none⟩) :
    (PollsQ.chain db ops).Update ctx inp
      = .roundTrip ⟨resolveTarget db ctx, .ExecContext, ctx,
          dollar ("UPDATE polls SET "
            ++ ", ".intercalate (((PollsQ.chain db ops).updateClauses inp).map (fun c => c.ToSql.1))
            ++ (whereToSql (PollsQ.chain db ops).updater.whereParts).1),
          (((PollsQ.chain db ops).updateClauses inp).map (fun c => c.ToSql.2)).flatten
            ++ (whereToSql (PollsQ.chain db ops).updater.whereParts).2⟩ := by
  obtain ⟨⟨-, -, -, -, ht, hs, -, -⟩, hdb⟩ := PollsQ_chain_shaped db ops
  simp only [PollsQ.statements] at ht hs
  have hne : inp.assignments ≠ [] := by
    intro h0
    apply h
    obtain ⟨a1, a2, a3, a4, a5, a6⟩ := inp
    simp only [UpdatePollInput.assignments, List.append_eq_nil, assignOf_eq_nil] at h0
    simp [h0]
  have hc : (GoMap.sorted (inp.assignments.map (fun c => (c.column, c.value)))).map
      (fun e => (⟨e.1, e.2⟩ : SetClause)) ≠ [] :=
    fun h0 => hne ((List.perm_nil.mp (h0 ▸ (setClauses_perm inp.assignments).symm)))
  have hlen : ¬ (inp.assignments.map (fun c => (c.column, c.value))).length = 0 := by
    simpa using hne
  rw [PollsQ_updateClauses_eq]
  unfold PollsQ.Update
  rw [PollsQ_updates_eq]
  simp only [hlen, if_false]
  rw [updateBuilder_setMap, hs, ht, List.nil_append,
    updateBuilder_toSql _ _ _ (by decide) hc, hdb]
  rfl

/-- The map Update fills holds the assignments the input asks for. -/
theorem PollVotesQ_updates_eq (inp : UpdatePollVoteInput) :
    PollVotesQ.updates inp = inp.assignments.map (fun c => (c.column, c.value)) := by
  obtain ⟨a1⟩ := inp
  cases a1 <;>
    simp [PollVotesQ.updates, UpdatePollVoteInput.assignments, assignOf, GoMap.set, pointExpr]

/-- On a reached `PollVotesQ` the SET clauses Update builds are the sorted entries of the
assignments asked for. -/
theorem PollVotesQ_updateClauses_eq (db : DB) (ops : List PollVotesOp) (inp : UpdatePollVoteInput) :
    (PollVotesQ.chain db ops).updateClauses inp
      = (GoMap.sorted (inp.assignments.map (fun c => (c.column, c.value)))).map
          (fun e => (⟨e.1, e.2⟩ : SetClause)) := by
  obtain ⟨⟨-, -, -, -, -, hs, -, -⟩, -⟩ := PollVotesQ_chain_shaped db ops
  simp only [PollVotesQ.statements] at hs
  unfold PollVotesQ.updateClauses
  rw [updateBuilder_setMap, PollVotesQ_updates_eq, hs, List.nil_append]

/-- On a reached `PollVotesQ` the SET clauses Update builds are a rearrangement of the
assignments asked for. -/
theorem PollVotesQ_updateClauses_perm (db : DB) (ops : List PollVotesOp) (inp : UpdatePollVoteInput) :
    ((PollVotesQ.chain db ops).updateClauses inp).Perm inp.assignments := by
  rw [PollVotesQ_updateClauses_eq]
  exact setClauses_perm inp.assignments

/-- The statement Update issues on a reached `PollVotesQ` for an input with a set field. -/
theorem PollVotesQ_update_issues (db : DB) (ops : List PollVotesOp) (ctx : Context)
    (inp : UpdatePollVoteInput) (h : inp ≠ ⟨none⟩) :
    (PollVotesQ.chain db ops).Update ctx inp
      = .roundTrip ⟨resolveTarget db ctx, .ExecContext, ctx,
          dollar ("UPDATE poll_votes SET "
            ++ ", ".intercalate (((PollVotesQ.chain db ops).updateClauses inp).map (fun c => c.ToSql.1))
            ++ (whereToSql (PollVotesQ.chain db ops).updater.whereParts).1),
          (((PollVotesQ.chain db ops).updateClauses inp).map (fun c => c.ToSql.2)).flatten
            ++ (whereToSql (PollVotesQ.chain db ops).updater.whereParts).2⟩ := by
  obtain ⟨⟨-, -, -, -, ht, hs, -, -⟩, hdb⟩ := PollVotesQ_chain_shaped db ops
  simp only [PollVotesQ.statements] at ht hs
  have hne : inp.assignments ≠ [] := by
    intro h0
    apply h
    obtain ⟨a1⟩ := inp
    simp only [UpdatePollVoteInput.assignments, List.append_eq_nil, assignOf_eq_nil] at h0
    simp [h0]
  have hc : (GoMap.sorted (inp.assignments.map (fun c => (c.column, c.value)))).map
      (fun e => (⟨e.1, e.2⟩ : SetClause)) ≠ [] :=
    fun h0 => hne ((List.perm_nil.mp (h0 ▸ (setClauses_perm inp.assignments).symm)))
  have hlen : ¬ (inp.assignments.map (fun c => (c.column, c.value))).length = 0 := by
    simpa using hne
  rw [PollVotesQ_updateClauses_eq]
  unfold PollVotesQ.Update
  rw [PollVotesQ_updates_eq]
  simp only [hlen, if_false]
  rw [updateBuilder_setMap, hs, ht, List.nil_append,
    updateBuilder_toSql _ _ _ (by decide) hc, hdb]
  rfl

/-- The map Update fills holds the assignments the input asks for. -/
theorem ProposalsQ_updates_eq (inp : UpdateProposalInput) :
    ProposalsQ.updates inp = inp.assignments.map (fun c => (c.column, c.value)) := by
  obtain ⟨a1, a2, a3, a4, a5, a6, a7⟩ := inp
  cases a1 <;> cases a2 <;> cases a3 <;> cases a4 <;> cases a5 <;> cases a6 <;> cases a7 <;>
    simp [ProposalsQ.updates, UpdateProposalInput.assignments, assignOf, GoMap.set, pointExpr]

/-- On a reached `ProposalsQ` the SET clauses Update builds are the sorted entries of the
assignments asked for. -/
theorem ProposalsQ_updateClauses_eq (db : DB) (ops : List ProposalsOp) (inp : UpdateProposalInput) :
    (ProposalsQ.chain db ops).updateClauses inp
      = (GoMap.sorted (inp.assignments.map (fun c => (c.column, c.value)))).map
          (fun e => (⟨e.1, e.2⟩ : SetClause)) := by
  obtain ⟨⟨-, -, -, -, -, hs, -, -⟩, -⟩ := ProposalsQ_chain_shaped db ops
  simp only [ProposalsQ.statements] at hs
  unfold ProposalsQ.updateClauses
  rw [updateBuilder_setMap, ProposalsQ_updates_eq, hs, List.nil_append]

/-- On a reached `ProposalsQ` the SET clauses Update builds are a rearrangement of the
assignments asked for. -/
theorem ProposalsQ_updateClauses_perm (db : DB) (ops : List ProposalsOp) (inp : UpdateProposalInput) :
    ((ProposalsQ.chain db ops).updateClauses inp).Perm inp.assignments := by
  rw [ProposalsQ_updateClauses_eq]
  exact setClauses_perm inp.assignments

/-- The statement Update issues on a reached `ProposalsQ` for an input with a set field. -/
theorem ProposalsQ_update_issues (db : DB) (ops : List ProposalsOp) (ctx : Context)
    (inp : UpdateProposalInput) (h : inp ≠ ⟨none, none, none, none, none, none, none⟩) :
    (ProposalsQ.chain db ops).Update ctx inp
      = .roundTrip ⟨resolveTarget db ctx, .ExecContext, ctx,
          dollar ("UPDATE proposals SET "
            ++ ", ".intercalate (((ProposalsQ.chain db ops).updateClauses inp).map (fun c => c.ToSql.1))
            ++ (whereToSql (ProposalsQ.chain db ops).updater.whereParts).1),
          (((ProposalsQ.chain db ops).updateClauses inp).map (fun c => c.ToSql.2)).flatten
            ++ (whereToSql (ProposalsQ.chain db ops).updater.whereParts).2⟩ := by
  obtain ⟨⟨-, -, -, -, ht, hs, -, -⟩, hdb⟩ := ProposalsQ_chain_shaped db ops
  simp only [ProposalsQ.statements] at ht hs
  have hne : inp.assignments ≠ [] := by
    intro h0
    apply h
    obtain ⟨a1, a2, a3, a4, a5, a6, a7⟩ := inp
    simp only [UpdateProposalInput.assignments, List.append_eq_nil, assignOf_eq_nil] at h0
    simp [h0]
  have hc : (GoMap.sorted (inp.assignments.map (fun c => (c.column, c.value)))).map
      (fun e => (⟨e.1, e.2⟩ : SetClause)) ≠ [] :=
    fun h0 => hne ((List.perm_nil.mp (h0 ▸ (setClauses_perm inp.assignments).symm)))
  have hlen : ¬ (inp.assignments.map (fun c => (c.column, c.value))).length = 0 := by
    simpa using hne
  rw [ProposalsQ_updateClauses_eq]
  unfold ProposalsQ.Update
  rw [ProposalsQ_updates_eq]
  simp only [hlen, if_false]
  rw [updateBuilder_setMap, hs, ht, List.nil_append,
    updateBuilder_toSql _ _ _ (by decide) hc, hdb]
  rfl

/-- The map Update fills holds the assignments the input asks for. -/
theorem ProposalVotesQ_updates_eq (inp : UpdateProposalVoteInput) :
    ProposalVotesQ.updates inp = inp.assignments.map (fun c => (c.column, c.value)) := by
  obtain ⟨a1⟩ := inp
  cases a1 <;>
    simp [ProposalVotesQ.updates, UpdateProposalVoteInput.assignments, assignOf, GoMap.set, pointExpr]

/-- On a reached `ProposalVotesQ` the SET clauses Update builds are the sorted entries of the
assignments asked for. -/
theorem ProposalVotesQ_updateClauses_eq (db : DB) (ops : List ProposalVotesOp) (inp : UpdateProposalVoteInput) :
    (ProposalVotesQ.chain db ops).updateClauses inp
      = (GoMap.sorted (inp.assignments.map (fun c => (c.column, c.value)))).map
          (fun e => (⟨e.1, e.2⟩ : SetClause)) := by
  obtain ⟨⟨-, -, -, -, -, hs, -, -⟩, -⟩ := ProposalVotesQ_chain_shaped db ops
  simp only [ProposalVotesQ.statements] at hs
  unfold ProposalVotesQ.updateClauses
  rw [updateBuilder_setMap, ProposalVotesQ_updates_eq, hs, List.nil_append]

/-- On a reached `ProposalVotesQ` the SET clauses Update builds are a rearrangement of the
assignments asked for. -/
theorem ProposalVotesQ_updateClauses_perm (db : DB) (ops : List ProposalVotesOp) (inp : UpdateProposalVoteInput) :
    ((ProposalVotesQ.chain db ops).updateClauses inp).Perm inp.assignments := by
  rw [ProposalVotesQ_updateClauses_eq]
  exact setClauses_perm inp.assignments

/-- The statement Update issues on a reached `ProposalVotesQ` for an input with a set field. -/
theorem ProposalVotesQ_update_issues (db : DB) (ops : List ProposalVotesOp) (ctx : Context)
    (inp : UpdateProposalVoteInput) (h : inp ≠ ⟨none⟩) :
    (ProposalVotesQ.chain db ops).Update ctx inp
      = .roundTrip ⟨resolveTarget db ctx, .ExecContext, ctx,
          dollar ("UPDATE proposal_votes SET "
            ++ ", ".intercalate (((ProposalVotesQ.chain db ops).updateClauses inp).map (fun c => c.ToSql.1))
            ++ (whereToSql (ProposalVotesQ.chain db ops).updater.whereParts).1),
          (((ProposalVotesQ.chain db ops).updateClauses inp).map (fun c => c.ToSql.2)).flatten
            ++ (whereToSql (ProposalVotesQ.chain db ops).updater.whereParts).2⟩ := by
  obtain ⟨⟨-, -, -, -, ht, hs, -, -⟩, hdb⟩ := ProposalVotesQ_chain_shaped db ops
  simp only [ProposalVotesQ.statements] at ht hs
  have hne : inp.assignments ≠ [] := by
    intro h0
    apply h
    obtain ⟨a1⟩ := inp
    simp only [UpdateProposalVoteInput.assignments, List.append_eq_nil, assignOf_eq_nil] at h0
    simp [h0]
  have hc : (GoMap.sorted (inp.assignments.map (fun c => (c.column, c.value)))).map
      (fun e => (⟨e.1, e.2⟩ : SetClause)) ≠ [] :=
    fun h0 => hne ((List.perm_nil.mp (h0 ▸ (setClauses_perm inp.assignments).symm)))
  have hlen : ¬ (inp.assignments.map (fun c => (c.column, c.value))).length = 0 := by
    simpa using hne
  rw [ProposalVotesQ_updateClauses_eq]
  unfold ProposalVotesQ.Update
  rw [ProposalVotesQ_updates_eq]
  simp only [hlen, if_false]
  rw [updateBuilder_setMap, hs, ht, List.nil_append,
    updateBuilder_toSql _ _ _ (by decide) hc, hdb]
  rfl

/-- C7: for each of the five Update inputs with at least one field set, on a
repository value reached from its constructor, Update issues one UPDATE whose
SET clauses are a rearrangement of the assignments the input asks for: one
clause per non-nil field, assigning the pointed-to value (location the point
built from Lng, Lat), and no clause for a nil field. -/
theorem C7_update_assigns_exactly_the_set_fields :
    (∀ (db : DB) (ops : List PetitionsOp) (ctx : Context) (inp : UpdatePetitionInput),
      inp ≠ ⟨none, none, none, none, none, none, none, none⟩ →
      ((PetitionsQ.chain db ops).updateClauses inp).Perm inp.assignments ∧
      (PetitionsQ.chain db ops).Update ctx inp
        = .roundTrip ⟨resolveTarget db ctx, .ExecContext, ctx,
            dollar ("UPDATE petitions SET "
              ++ ", ".intercalate (((PetitionsQ.chain db ops).updateClauses inp).map (fun c => c.ToSql.1))
              ++ (whereToSql (PetitionsQ.chain db ops).updater.whereParts).1),
            (((PetitionsQ.chain db ops).updateClauses inp).map (fun c => c.ToSql.2)).flatten
              ++ (whereToSql (PetitionsQ.chain db ops).updater.whereParts).2⟩) ∧
    (∀ (db : DB) (ops : List PollsOp) (ctx : Context) (inp : UpdatePollInput),
      inp ≠ ⟨none, none, none, none, none, none⟩ →
      ((PollsQ.chain db ops).updateClauses inp).Perm inp.assignments ∧
      (PollsQ.chain db ops).Update ctx inp
        = .roundTrip ⟨resolveTarget db ctx, .ExecContext, ctx,
            dollar ("UPDATE polls SET "
              ++ ", ".intercalate (((PollsQ.chain db ops).updateClauses inp).map (fun c => c.ToSql.1))
              ++ (whereToSql (PollsQ.chain db ops).updater.whereParts).1),
            (((PollsQ.chain db ops).updateClauses inp).map (fun c => c.ToSql.2)).flatten
              ++ (whereToSql (PollsQ.chain db ops).updater.whereParts).2⟩) ∧
    (∀ (db : DB) (ops : List PollVotesOp) (ctx : Context) (inp : UpdatePollVoteInput),
      inp ≠ ⟨none⟩ →
      ((PollVotesQ.chain db ops).updateClauses inp).Perm inp.assignments ∧
      (PollVotesQ.chain db ops).Update ctx inp
        = .roundTrip ⟨resolveTarget db ctx, .ExecContext, ctx,
            dollar ("UPDATE poll_votes SET "
              ++ ", ".intercalate (((PollVotesQ.chain db ops).updateClauses inp).map (fun c => c.ToSql.1))
              ++ (whereToSql (PollVotesQ.chain db ops).updater.whereParts).1),
            (((PollVotesQ.chain db ops).updateClauses inp).map (fun c => c.ToSql.2)).flatten
              ++ (whereToSql (PollVotesQ.chain db ops).updater.whereParts).2⟩) ∧
    (∀ (db : DB) (ops : List ProposalsOp) (ctx : Context) (inp : UpdateProposalInput),
      inp ≠ ⟨none, none, none, none, none, none, none⟩ →
      ((ProposalsQ.chain db ops).updateClauses inp).Perm inp.assignments ∧
      (ProposalsQ.chain db ops).Update ctx inp
        = .roundTrip ⟨resolveTarget db ctx, .ExecContext, ctx,
            dollar ("UPDATE proposals SET "
              ++ ", ".intercalate (((ProposalsQ.chain db ops).updateClauses inp).map (fun c => c.ToSql.1))
              ++ (whereToSql (ProposalsQ.chain db ops).updater.whereParts).1),
            (((ProposalsQ.chain db ops).updateClauses inp).map (fun c => c.ToSql.2)).flatten
              ++ (whereToSql (ProposalsQ.chain db ops).updater.whereParts).2⟩) ∧
    (∀ (db : DB) (ops : List ProposalVotesOp) (ctx : Context) (inp : UpdateProposalVoteInput),
      inp ≠ ⟨none⟩ →
      ((ProposalVotesQ.chain db ops).updateClauses inp).Perm inp.assignments ∧
      (ProposalVotesQ.chain db ops).Update ctx inp
        = .roundTrip ⟨resolveTarget db ctx, .ExecContext, ctx,
            dollar ("UPDATE proposal_votes SET "
              ++ ", ".intercalate (((ProposalVotesQ.chain db ops).updateClauses inp).map (fun c => c.ToSql.1))
              ++ (whereToSql (ProposalVotesQ.chain db ops).updater.whereParts).1),
            (((ProposalVotesQ.chain db ops).updateClauses inp).map (fun c => c.ToSql.2)).flatten
              ++ (whereToSql (ProposalVotesQ.chain db ops).updater.whereParts).2⟩) :=
  ⟨fun db ops ctx inp h =>
     ⟨PetitionsQ_updateClauses_perm db ops inp, PetitionsQ_update_issues db ops ctx inp h⟩,
   fun db ops ctx inp h =>
     ⟨PollsQ_updateClauses_perm db ops inp, PollsQ_update_issues db ops ctx inp h⟩,
   fun db ops ctx inp h =>
     ⟨PollVotesQ_updateClauses_perm db ops inp, PollVotesQ_update_issues db ops ctx inp h⟩,
   fun db ops ctx inp h =>
     ⟨ProposalsQ_updateClauses_perm db ops inp, ProposalsQ_update_issues db ops ctx inp h⟩,
   fun db ops ctx inp h =>
     ⟨ProposalVotesQ_updateClauses_perm db ops inp, ProposalVotesQ_update_issues db ops ctx inp h⟩⟩

/-- C7 at a concrete input: on a fresh ProposalVotesQ filtered by id, an Update
with Vote set issues one UPDATE assigning vote. -/
theorem C7_update_witness :
    (⟨some true⟩ : UpdateProposalVoteInput) ≠ ⟨none⟩ ∧
    ((ProposalVotesQ.chain ⟨0⟩ [.FilterID ⟨5⟩]).updateClauses ⟨some true⟩).Perm
      [⟨"vote", .val (.bool true)⟩] ∧
    (ProposalVotesQ.chain ⟨0⟩ [.FilterID ⟨5⟩]).Update ⟨[], false⟩ ⟨some true⟩
      = .roundTrip ⟨.pool ⟨0⟩, .ExecContext, ⟨[], false⟩,
          "UPDATE proposal_votes SET vote = $1 WHERE id = $2",
          [.val (.bool true), .val (.str "00000000-0000-0000-0000-000000000005")]⟩ :=
  ⟨by decide,
   (C7_update_assigns_exactly_the_set_fields.2.2.2.2 ⟨0⟩ [.FilterID ⟨5⟩] ⟨[], false⟩
      ⟨some true⟩ (by decide)).1,
   by decide⟩


/-- A clause is asked for by a field exactly when the field is set and the
clause assigns its value to the field's column. -/
theorem mem_assignOf {α : Type} (column : String) (field : Option α) (value : α → Arg)
    (c : SetClause) :
    c ∈ assignOf column field value ↔ ∃ v, field = some v ∧ c = ⟨column, value v⟩ := by
  cases field <;> simp [assignOf]

/-- A clause asked for by a field assigns the field's column. -/
theorem assignOf_column {α : Type} (column : String) (field : Option α) (value : α → Arg)
    (c : SetClause) (h : c ∈ assignOf column field value) : c.column = column := by
  cases field with
  | none => simp [assignOf] at h
  | some v => simp [assignOf] at h; rw [h]

/-- The three states of `AddressToID` in the SET clauses `PetitionsQ.Update` builds. -/
theorem PetitionsQ_address_states (db : DB) (ops : List PetitionsOp) (inp : UpdatePetitionInput) :
    (∀ c ∈ (PetitionsQ.chain db ops).updateClauses { inp with AddressToID := none },
      c.column ≠ "address_to_id") ∧
    (∀ a : Option UUID,
      (⟨"address_to_id", .val (.uuidPtr a)⟩
        ∈ (PetitionsQ.chain db ops).updateClauses { inp with AddressToID := some a }) ∧
      (∀ c ∈ (PetitionsQ.chain db ops).updateClauses { inp with AddressToID := some a },
        c.column = "address_to_id" → c.value = .val (.uuidPtr a))) := by
  refine ⟨?_, ?_⟩
  · intro c hc hcol
    rw [(PetitionsQ_updateClauses_perm db ops _).mem_iff] at hc
    simp only [UpdatePetitionInput.assignments, List.mem_append, or_assoc] at hc
    rcases hc with h | h | h | h | h | h | h | h
    all_goals
      first
        | exact absurd ((assignOf_column _ _ _ _ h).symm.trans hcol) (by decide)
        | simp [assignOf] at h
  · intro a
    refine ⟨?_, ?_⟩
    · rw [(PetitionsQ_updateClauses_perm db ops _).mem_iff]
      simp [UpdatePetitionInput.assignments, mem_assignOf]
    · intro c hc hcol
      rw [(PetitionsQ_updateClauses_perm db ops _).mem_iff] at hc
      simp only [UpdatePetitionInput.assignments, List.mem_append, or_assoc] at hc
      rcases hc with h | h | h | h | h | h | h | h
      all_goals
        first
          | exact absurd ((assignOf_column _ _ _ _ h).symm.trans hcol) (by decide)
          | (simp [assignOf] at h; rw [h])

/-- The three states of `AddressToID` in the SET clauses `ProposalsQ.Update` builds. -/
theorem ProposalsQ_address_states (db : DB) (ops : List ProposalsOp) (inp : UpdateProposalInput) :
    (∀ c ∈ (ProposalsQ.chain db ops).updateClauses { inp with AddressToID := none },
      c.column ≠ "address_to_id") ∧
    (∀ a : Option UUID,
      (⟨"address_to_id", .val (.uuidPtr a)⟩
        ∈ (ProposalsQ.chain db ops).updateClauses { inp with AddressToID := some a }) ∧
      (∀ c ∈ (ProposalsQ.chain db ops).updateClauses { inp with AddressToID := some a },
        c.column = "address_to_id" → c.value = .val (.uuidPtr a))) := by
  refine ⟨?_, ?_⟩
  · intro c hc hcol
    rw [(ProposalsQ_updateClauses_perm db ops _).mem_iff] at hc
    simp only [UpdateProposalInput.assignments, List.mem_append, or_assoc] at hc
    rcases hc with h | h | h | h | h | h | h
    all_goals
      first
        | exact absurd ((assignOf_column _ _ _ _ h).symm.trans hcol) (by decide)
        | simp [assignOf] at h
  · intro a
    refine ⟨?_, ?_⟩
    · rw [(ProposalsQ_updateClauses_perm db ops _).mem_iff]
      simp [UpdateProposalInput.assignments, mem_assignOf]
    · intro c hc hcol
      rw [(ProposalsQ_updateClauses_perm db ops _).mem_iff] at hc
      simp only [UpdateProposalInput.assignments, List.mem_append, or_assoc] at hc
      rcases hc with h | h | h | h | h | h | h
      all_goals
        first
          | exact absurd ((assignOf_column _ _ _ _ h).symm.trans hcol) (by decide)
          | (simp [assignOf] at h; rw [h])

/-- An entry whose key sorts before every other key of the map comes first in
the sorted map, and the rest is the sorted map without it. -/
theorem goMap_sorted_min (k : String) (v : Arg) (l2 : GoMap)
    (h2 : ∀ x ∈ l2, strLe k.toList x.1.toList = true) :
    ∀ l1 : GoMap, (∀ x ∈ l1, strLe x.1.toList k.toList = false) →
      GoMap.sorted (l1 ++ (k, v) :: l2) = (k, v) :: GoMap.sorted (l1 ++ l2) := by
  intro l1
  induction l1 with
  | nil =>
      intro _
      rw [List.nil_append, List.nil_append]
      show List.orderedInsert _ (k, v) (GoMap.sorted l2) = _
      have hall : ∀ x ∈ GoMap.sorted l2, strLe k.toList x.1.toList = true :=
        fun x hx => h2 x ((goMap_sorted_perm l2).mem_iff.mp hx)
      cases hs : GoMap.sorted l2 with
      | nil => rfl
      | cons y ys =>
          rw [hs] at hall
          rw [List.orderedInsert, if_pos (hall y (List.mem_cons_self _ _))]
  | cons x xs ih =>
      intro h1
      have hx : ¬ (strLe x.1.toList k.toList = true) := by
        rw [h1 x (List.mem_cons_self _ _)]
        exact Bool.false_ne_true
      show List.orderedInsert _ x (GoMap.sorted (xs ++ (k, v) :: l2)) = _
      rw [ih (fun y hy => h1 y (List.mem_cons_of_mem _ hy)), List.orderedInsert, if_neg hx]
      rfl

/-- An Update that returns without a statement differs from one that issues a call. -/
theorem update_skip_ne (c : Call) : Outcome.returned none ≠ Outcome.roundTrip c := by
  intro h
  cases h

/-- The call for a list of SET clauses differs from the call for the list with
one more clause on a plain value in front: it binds one argument less. -/
theorem updateCall_ne_cons (db : DB) (ctx : Context) (table : String) (clauses : List SetClause)
    (parts : List Pred) (c : String) (v : Value) :
    Outcome.roundTrip (updateCall db ctx table clauses parts)
      ≠ Outcome.roundTrip (updateCall db ctx table (⟨c, .val v⟩ :: clauses) parts) := by
  intro heq
  have := congrArg (fun o => match o with
    | Outcome.roundTrip k => k.args.length
    | _ => 0) heq
  simp [updateCall, SetClause.ToSql, Arg.ToSql] at this

/-- With `AddressToID` set, the clause on address_to_id is the first SET clause
`PetitionsQ.Update` builds, before those of the other fields: the keys of the map are
sorted. -/
theorem PetitionsQ_address_first (db : DB) (ops : List PetitionsOp) (inp : UpdatePetitionInput)
    (a : Option UUID) :
    (PetitionsQ.chain db ops).updateClauses { inp with AddressToID := some a }
      = ⟨"address_to_id", .val (.uuidPtr a)⟩ ::
        (PetitionsQ.chain db ops).updateClauses { inp with AddressToID := none } := by
  rw [PetitionsQ_updateClauses_eq, PetitionsQ_updateClauses_eq]
  have h := goMap_sorted_min "address_to_id" (.val (.uuidPtr a))
    ((assignOf "status" inp.Status (fun v => .val (.str v)) ++
      assignOf "goal" inp.Goal (fun v => .val (.int v)) ++
      assignOf "end_date" inp.EndDate (fun v => .val (.time v)) ++
      assignOf "updated_at" inp.UpdatedAt (fun v => .val (.time v)) ++
      assignOf "location" inp.Location (fun loc => .expr ⟨"ST_SetSRID(ST_MakePoint(?, ?), 4326)",
          [.float loc.Lng, .float loc.Lat]⟩)).map (fun c => (c.column, c.value)))
    (by
      intro x hx
      simp only [List.mem_map, List.mem_append] at hx
      obtain ⟨c, hc, rfl⟩ := hx
      rcases hc with (((hc | hc) | hc) | hc) | hc <;>
        (rw [assignOf_column _ _ _ _ hc]; rfl))
    ((assignOf "title" inp.Title (fun v => .val (.str v)) ++
      assignOf "description" inp.Description (fun v => .val (.str v))).map
        (fun c => (c.column, c.value)))
    (by
      intro x hx
      simp only [List.mem_map, List.mem_append] at hx
      obtain ⟨c, hc, rfl⟩ := hx
      rcases hc with hc | hc <;> (rw [assignOf_column _ _ _ _ hc]; rfl))
  simp only [UpdatePetitionInput.assignments, assignOf, List.map_append, List.map_cons,
    List.map_nil, List.append_assoc, List.cons_append, List.nil_append, List.append_nil] at h ⊢
  rw [h]
  rfl

/-- The three states of `AddressToID` in the statement `PetitionsQ.Update` issues. -/
theorem PetitionsQ_address_update (db : DB) (ops : List PetitionsOp) (ctx : Context)
    (inp : UpdatePetitionInput) (v : UUID) :
    AddressStates db ctx petitionsTable
      ((PetitionsQ.chain db ops).updateClauses { inp with AddressToID := none })
      (PetitionsQ.chain db ops).updater.whereParts
      ((PetitionsQ.chain db ops).Update ctx { inp with AddressToID := none })
      ((PetitionsQ.chain db ops).Update ctx { inp with AddressToID := some none })
      ((PetitionsQ.chain db ops).Update ctx { inp with AddressToID := some (some v) }) v := by
  have hfirst := PetitionsQ_address_first db ops inp
  have hsome : ∀ a : Option UUID,
      (PetitionsQ.chain db ops).Update ctx { inp with AddressToID := some a }
        = .roundTrip (updateCall db ctx petitionsTable
            (⟨"address_to_id", .val (.uuidPtr a)⟩ ::
              (PetitionsQ.chain db ops).updateClauses { inp with AddressToID := none })
            (PetitionsQ.chain db ops).updater.whereParts) := by
    intro a
    rw [PetitionsQ_update_issues db ops ctx _ (by simp), hfirst a]
    rfl
  have hnil : ∀ c ∈ (PetitionsQ.chain db ops).updateClauses { inp with AddressToID := none },
      c.column ≠ "address_to_id" := (PetitionsQ_address_states db ops inp).1
  refine ⟨hnil, ?_, hsome none, hsome (some v), rfl, rfl, ?_, ?_, ?_⟩
  · by_cases hall : ({ inp with AddressToID := none } : UpdatePetitionInput) = ⟨none, none, none, none, none, none, none, none⟩
    · right
      rw [hall]
      exact ⟨by rw [PetitionsQ_updateClauses_eq]; rfl, rfl⟩
    · left
      rw [PetitionsQ_update_issues db ops ctx _ hall]
      rfl
  · by_cases hall : ({ inp with AddressToID := none } : UpdatePetitionInput) = ⟨none, none, none, none, none, none, none, none⟩
    · rw [hsome none, hall]
      exact update_skip_ne _
    · rw [hsome none, PetitionsQ_update_issues db ops ctx _ hall]
      exact updateCall_ne_cons db ctx petitionsTable
        ((PetitionsQ.chain db ops).updateClauses { inp with AddressToID := none })
        (PetitionsQ.chain db ops).updater.whereParts "address_to_id" _
  · by_cases hall : ({ inp with AddressToID := none } : UpdatePetitionInput) = ⟨none, none, none, none, none, none, none, none⟩
    · rw [hsome (some v), hall]
      exact update_skip_ne _
    · rw [hsome (some v), PetitionsQ_update_issues db ops ctx _ hall]
      exact updateCall_ne_cons db ctx petitionsTable
        ((PetitionsQ.chain db ops).updateClauses { inp with AddressToID := none })
        (PetitionsQ.chain db ops).updater.whereParts "address_to_id" _
  · rw [hsome none, hsome (some v)]
    intro heq
    have := congrArg (fun o => match o with
      | Outcome.roundTrip c => c.args.head?
      | _ => none) heq
    simp [updateCall, SetClause.ToSql, Arg.ToSql] at this

/-- With `AddressToID` set, the clause on address_to_id is the first SET clause
`ProposalsQ.Update` builds, before those of the other fields: the keys of the map are
sorted. -/
theorem ProposalsQ_address_first (db : DB) (ops : List ProposalsOp) (inp : UpdateProposalInput)
    (a : Option UUID) :
    (ProposalsQ.chain db ops).updateClauses { inp with AddressToID := some a }
      = ⟨"address_to_id", .val (.uuidPtr a)⟩ ::
        (ProposalsQ.chain db ops).updateClauses { inp with AddressToID := none } := by
  rw [ProposalsQ_updateClauses_eq, ProposalsQ_updateClauses_eq]
  have h := goMap_sorted_min "address_to_id" (.val (.uuidPtr a))
    ((assignOf "end_date" inp.EndDate (fun v => .val (.time v)) ++
      assignOf "updated_at" inp.UpdatedAt (fun v => .val (.time v)) ++
      assignOf "location" inp.Location (fun loc => .expr ⟨"ST_SetSRID(ST_MakePoint(?, ?), 4326)",
          [.float loc.Lng, .float loc.Lat]⟩)).map (fun c => (c.column, c.value)))
    (by
      intro x hx
      simp only [List.mem_map, List.mem_append] at hx
      obtain ⟨c, hc, rfl⟩ := hx
      rcases hc with (hc | hc) | hc <;>
        (rw [assignOf_column _ _ _ _ hc]; rfl))
    ((assignOf "title" inp.Title (fun v => .val (.str v)) ++
      assignOf "description" inp.Description (fun v => .val (.str v)) ++
      assignOf "status" inp.Status (fun v => .val (.str v))).map
        (fun c => (c.column, c.value)))
    (by
      intro x hx
      simp only [List.mem_map, List.mem_append] at hx
      obtain ⟨c, hc, rfl⟩ := hx
      rcases hc with (hc | hc) | hc <;> (rw [assignOf_column _ _ _ _ hc]; rfl))
  simp only [UpdateProposalInput.assignments, assignOf, List.map_append, List.map_cons,
    List.map_nil, List.append_assoc, List.cons_append, List.nil_append, List.append_nil] at h ⊢
  rw [h]
  rfl

/-- The three states of `AddressToID` in the statement `ProposalsQ.Update` issues. -/
theorem ProposalsQ_address_update (db : DB) (ops : List ProposalsOp) (ctx : Context)
    (inp : UpdateProposalInput) (v : UUID) :
    AddressStates db ctx proposalsTable
      ((ProposalsQ.chain db ops).updateClauses { inp with AddressToID := none })
      (ProposalsQ.chain db ops).updater.whereParts
      ((ProposalsQ.chain db ops).Update ctx { inp with AddressToID := none })
      ((ProposalsQ.chain db ops).Update ctx { inp with AddressToID := some none })
      ((ProposalsQ.chain db ops).Update ctx { inp with AddressToID := some (some v) }) v := by
  have hfirst := ProposalsQ_address_first db ops inp
  have hsome : ∀ a : Option UUID,
      (ProposalsQ.chain db ops).Update ctx { inp with AddressToID := some a }
        = .roundTrip (updateCall db ctx proposalsTable
            (⟨"address_to_id", .val (.uuidPtr a)⟩ ::
              (ProposalsQ.chain db ops).updateClauses { inp with AddressToID := none })
            (ProposalsQ.chain db ops).updater.whereParts) := by
    intro a
    rw [ProposalsQ_update_issues db ops ctx _ (by simp), hfirst a]
    rfl
  have hnil : ∀ c ∈ (ProposalsQ.chain db ops).updateClauses { inp with AddressToID := none },
      c.column ≠ "address_to_id" := (ProposalsQ_address_states db ops inp).1
  refine ⟨hnil, ?_, hsome none, hsome (some v), rfl, rfl, ?_, ?_, ?_⟩
  · by_cases hall : ({ inp with AddressToID := none } : UpdateProposalInput) = ⟨none, none, none, none, none, none, none⟩
    · right
      rw [hall]
      exact ⟨by rw [ProposalsQ_updateClauses_eq]; rfl, rfl⟩
    · left
      rw [ProposalsQ_update_issues db ops ctx _ hall]
      rfl
  · by_cases hall : ({ inp with AddressToID := none } : UpdateProposalInput) = ⟨none, none, none, none, none, none, none⟩
    · rw [hsome none, hall]
      exact update_skip_ne _
    · rw [hsome none, ProposalsQ_update_issues db ops ctx _ hall]
      exact updateCall_ne_cons db ctx proposalsTable
        ((ProposalsQ.chain db ops).updateClauses { inp with AddressToID := none })
        (ProposalsQ.chain db ops).updater.whereParts "address_to_id" _
  · by_cases hall : ({ inp with AddressToID := none } : UpdateProposalInput) = ⟨none, none, none, none, none, none, none⟩
    · rw [hsome (some v), hall]
      exact update_skip_ne _
    · rw [hsome (some v), ProposalsQ_update_issues db ops ctx _ hall]
      exact updateCall_ne_cons db ctx proposalsTable
        ((ProposalsQ.chain db ops).updateClauses { inp with AddressToID := none })
        (ProposalsQ.chain db ops).updater.whereParts "address_to_id" _
  · rw [hsome none, hsome (some v)]
    intro heq
    have := congrArg (fun o => match o with
      | Outcome.roundTrip c => c.args.head?
      | _ => none) heq
    simp [updateCall, SetClause.ToSql, Arg.ToSql] at this

/-- C9: in PetitionsQ.Update and ProposalsQ.Update the AddressToID field has
three states, told apart in the statement Update issues on a repository value
reached from its constructor. With nil no SET clause is on address_to_id:
Update issues the UPDATE of the other fields, or returns without a statement
when no other field is set. With a pointer to a nil pointer Update issues the
UPDATE whose first SET clause is `address_to_id = $1` bound to the nil
pointer, which the driver sends as NULL, followed by the clauses of the other
fields. With a pointer to a pointer to v the first clause is bound to the
pointer to v, which the driver sends as v. For the same other fields the three
calls are pairwise different. The last part shows the second state in full. -/
theorem C9_address_to_id_has_three_states :
    (∀ (db : DB) (ops : List PetitionsOp) (ctx : Context) (inp : UpdatePetitionInput) (v : UUID),
      AddressStates db ctx petitionsTable
        ((PetitionsQ.chain db ops).updateClauses { inp with AddressToID := none })
        (PetitionsQ.chain db ops).updater.whereParts
        ((PetitionsQ.chain db ops).Update ctx { inp with AddressToID := none })
        ((PetitionsQ.chain db ops).Update ctx { inp with AddressToID := some none })
        ((PetitionsQ.chain db ops).Update ctx { inp with AddressToID := some (some v) }) v) ∧
    (∀ (db : DB) (ops : List ProposalsOp) (ctx : Context) (inp : UpdateProposalInput) (v : UUID),
      AddressStates db ctx proposalsTable
        ((ProposalsQ.chain db ops).updateClauses { inp with AddressToID := none })
        (ProposalsQ.chain db ops).updater.whereParts
        ((ProposalsQ.chain db ops).Update ctx { inp with AddressToID := none })
        ((ProposalsQ.chain db ops).Update ctx { inp with AddressToID := some none })
        ((ProposalsQ.chain db ops).Update ctx { inp with AddressToID := some (some v) }) v) ∧
    ((NewPetitionsQ ⟨0⟩).FilterID ⟨5⟩).Update Context.background
        ⟨some "t", none, some none, none, none, none, none, none⟩
      = .roundTrip ⟨.pool ⟨0⟩, .ExecContext, Context.background,
          "UPDATE petitions SET address_to_id = $1, title = $2 WHERE id = $3",
          [.val (.uuidPtr none), .val (.str "t"),
            .val (.str "00000000-0000-0000-0000-000000000005")]⟩ :=
  ⟨PetitionsQ_address_update, ProposalsQ_address_update, by decide⟩

/-- A character other than `?` is no placeholder. -/
theorem placeholderCount_cons_of_ne (c : Char) (rest : List Char) (h : c ≠ '?') :
    placeholderCount (c :: rest) = placeholderCount rest :=
  placeholderCount.eq_4 c rest (fun _ hc _ => h hc) h

/-- A `?` not followed by another `?` is one placeholder. -/
theorem placeholderCount_mark (rest : List Char) (h : rest.head? ≠ some '?') :
    placeholderCount ('?' :: rest) = placeholderCount rest + 1 :=
  placeholderCount.eq_3 rest (fun r hr => h (by rw [hr]; rfl))

/-- A text without `?` has no placeholder. -/
theorem placeholderCount_of_not_mem (a : List Char) (h : '?' ∉ a) : placeholderCount a = 0 := by
  induction a with
  | nil => rfl
  | cons c rest ih =>
    have hc : c ≠ '?' := fun e => h (e ▸ List.mem_cons_self _ _)
    have hr : '?' ∉ rest := fun e => h (List.mem_cons_of_mem _ e)
    rw [placeholderCount_cons_of_ne c rest hc]
    exact ih hr

/-- A text without `?` in front does not change the placeholders that follow. -/
theorem placeholderCount_append_left (a b : List Char) (h : '?' ∉ a) :
    placeholderCount (a ++ b) = placeholderCount b := by
  induction a with
  | nil => rfl
  | cons c rest ih =>
    have hc : c ≠ '?' := fun e => h (e ▸ List.mem_cons_self _ _)
    have hr : '?' ∉ rest := fun e => h (List.mem_cons_of_mem _ e)
    rw [List.cons_append, placeholderCount_cons_of_ne c _ hc]
    exact ih hr

/-- The placeholders of two texts add up when the second does not start with `?`. -/
theorem placeholderCount_append (a b : List Char) (hb : b.head? ≠ some '?') :
    placeholderCount (a ++ b) = placeholderCount a + placeholderCount b := by
  induction a using placeholderCount.induct with
  | case1 => simp [placeholderCount]
  | case2 rest ih =>
    rw [List.cons_append, List.cons_append, placeholderCount.eq_2, placeholderCount.eq_2]
    exact ih
  | case3 rest hne ih =>
    have h1 : rest.head? ≠ some '?' := by
      cases rest with
      | nil => simp
      | cons c r =>
        intro hc
        simp only [List.head?_cons, Option.some.injEq] at hc
        exact hne r (by rw [hc])
    have h2 : (rest ++ b).head? ≠ some '?' := by
      cases rest with
      | nil => simpa using hb
      | cons c r => simpa using h1
    rw [List.cons_append, placeholderCount_mark _ h2, placeholderCount_mark _ h1, ih]
    omega
  | case4 c rest _ h2 ih =>
    rw [List.cons_append, placeholderCount_cons_of_ne c _ h2, placeholderCount_cons_of_ne c _ h2, ih]

/-- A text without `?` at the end does not change the placeholders before it. -/
theorem placeholderCount_append_right (a b : List Char) (h : '?' ∉ b) :
    placeholderCount (a ++ b) = placeholderCount a := by
  have hb : b.head? ≠ some '?' := by
    cases b with
    | nil => simp
    | cons c r =>
      intro hc
      simp only [List.head?_cons, Option.some.injEq] at hc
      exact h (hc ▸ List.mem_cons_self _ _)
  rw [placeholderCount_append a b hb, placeholderCount_of_not_mem b h]
  rfl

/-- No digit character is `?`. -/
theorem digitChar_ne_mark (k : Nat) : Nat.digitChar k ≠ '?' := by
  by_cases h : k < 16
  · interval_cases k <;> decide
  · unfold Nat.digitChar
    iterate 16 rw [if_neg (by omega)]
    decide

/-- The digits of a number hold no `?` when the digits already written hold none. -/
theorem toDigitsCore_no_mark (base : Nat) :
    ∀ (fuel n : Nat) (ds : List Char), '?' ∉ ds → '?' ∉ Nat.toDigitsCore base fuel n ds := by
  intro fuel
  induction fuel with
  | zero => intro n ds h; simpa [Nat.toDigitsCore] using h
  | succ f ih =>
    intro n ds h
    have hd : '?' ∉ Nat.digitChar (n % base) :: ds := by
      intro hc
      rcases List.mem_cons.mp hc with e | e
      · exact digitChar_ne_mark _ e.symm
      · exact h e
    simp only [Nat.toDigitsCore]
    split
    · exact hd
    · exact ih _ _ hd

/-- The decimal text of a number holds no `?`. -/
theorem repr_no_mark (n : Nat) : '?' ∉ (Nat.repr n).toList := by
  show '?' ∉ (Nat.toDigits 10 n).asString.toList
  exact toDigitsCore_no_mark 10 _ _ [] (by simp)

/-- The helper of `String.intercalate` keeps what is already written in front. -/
theorem intercalate_go_append (x y s : String) (l : List String) :
    String.intercalate.go (x ++ y) s l = x ++ String.intercalate.go y s l := by
  induction l generalizing y with
  | nil => rfl
  | cons a rest ih =>
    simp only [String.intercalate.go]
    rw [String.append_assoc, String.append_assoc, ih, ← String.append_assoc]

/-- Joining at least two texts: the first, the separator, the rest joined. -/
theorem intercalate_cons_cons (s a b : String) (l : List String) :
    s.intercalate (a :: b :: l) = a ++ s ++ s.intercalate (b :: l) := by
  show String.intercalate.go a s (b :: l) = a ++ s ++ String.intercalate.go b s l
  simp only [String.intercalate.go]
  exact intercalate_go_append (a ++ s) b s l

/-- Joined texts hold no `?` when neither they nor the separator do. -/
theorem intercalate_no_mark (s : String) (hs : '?' ∉ s.toList) :
    ∀ (l : List String), (∀ t ∈ l, '?' ∉ t.toList) → '?' ∉ (s.intercalate l).toList := by
  intro l
  induction l with
  | nil => intro _; simp [String.intercalate]
  | cons a rest ih =>
    intro h
    cases rest with
    | nil => simpa [String.intercalate, String.intercalate.go] using h a (List.mem_cons_self _ _)
    | cons b r =>
      rw [intercalate_cons_cons]
      have ha := h a (List.mem_cons_self _ _)
      have hr := ih (fun t ht => h t (List.mem_cons_of_mem _ ht))
      simp only [String.toList, String.data_append, List.mem_append, not_or] at ha hr hs ⊢
      exact ⟨⟨ha, hs⟩, hr⟩


/-- The ORDER BY terms of the repositories hold no `?`. -/
theorem orderTerms_no_mark : ∀ t ∈ orderTerms, '?' ∉ t.toList := by decide

/-- The text in front of a joined list of well-bound parts, joined with them. -/
theorem appendToSql_later (parts : List Pred) (hp : ∀ p ∈ parts, p.Bound) :
    ∀ (i : Nat) (a : String), i ≠ 0 →
      a ++ (appendToSql " AND " i (parts.map Pred.ToSql)).1
        = " AND ".intercalate (a :: parts.map (fun p => p.ToSql.1)) := by
  induction parts with
  | nil => intro i a _; simp [appendToSql, String.intercalate, String.intercalate.go]
  | cons p ps ih =>
    intro i a hi
    have hpe := (hp p (List.mem_cons_self _ _)).1
    have ih2 := ih (fun x hx => hp x (List.mem_cons_of_mem _ hx)) (i + 1) p.ToSql.1 (by omega)
    simp only [List.map_cons, appendToSql, hpe, hi, if_false, Bool.false_eq_true]
    rw [intercalate_cons_cons, ← ih2]
    simp only [String.append_assoc]

/-- The WHERE parts joined from index 0 are the texts joined by `AND`. -/
theorem appendToSql_first (parts : List Pred) (hp : ∀ p ∈ parts, p.Bound) :
    (appendToSql " AND " 0 (parts.map Pred.ToSql)).1
      = " AND ".intercalate (parts.map (fun p => p.ToSql.1)) := by
  cases parts with
  | nil => simp [appendToSql, String.intercalate]
  | cons p ps =>
    have hpe := (hp p (List.mem_cons_self _ _)).1
    have h := appendToSql_later ps (fun x hx => hp x (List.mem_cons_of_mem _ hx)) 1
      p.ToSql.1 (by omega)
    simp only [List.map_cons, appendToSql, hpe, if_false, Bool.false_eq_true, if_true]
    rw [← h]
    simp [String.append_assoc]

/-- The arguments of joined well-bound parts are the parts' arguments in order,
and there are as many as the joined text has placeholders; joined from a later
index the text does not start with a placeholder. -/
theorem appendToSql_args (parts : List Pred) (hp : ∀ p ∈ parts, p.Bound) :
    ∀ (i : Nat),
      (appendToSql " AND " i (parts.map Pred.ToSql)).2
          = (parts.map (fun p => p.ToSql.2)).flatten ∧
      placeholderCount (appendToSql " AND " i (parts.map Pred.ToSql)).1.toList
          = (appendToSql " AND " i (parts.map Pred.ToSql)).2.length ∧
      (i ≠ 0 →
        (appendToSql " AND " i (parts.map Pred.ToSql)).1.toList.head? ≠ some '?') := by
  induction parts with
  | nil => intro i; simp [appendToSql, placeholderCount]
  | cons p ps ih =>
    intro i
    obtain ⟨hpe, hph, hpc⟩ := hp p (List.mem_cons_self _ _)
    obtain ⟨h1, h2, h3⟩ := ih (fun x hx => hp x (List.mem_cons_of_mem _ hx)) (i + 1)
    have hph2 : p.ToSql.1.toList.head? ≠ some '?' := by simpa using hph
    have hne : p.ToSql.1.toList ≠ [] := by
      intro h0
      have : p.ToSql.1 = "" := by
        cases hs : p.ToSql.1 with
        | mk l => rw [hs] at h0; simp only [String.toList] at h0; rw [h0]
      rw [this] at hpe
      exact absurd hpe (by decide)
    simp only [List.map_cons, appendToSql, hpe, if_false, Bool.false_eq_true, List.flatten_cons]
    refine ⟨by rw [h1], ?_, ?_⟩
    · have hrest : placeholderCount (p.ToSql.1.toList
          ++ (appendToSql " AND " (i + 1) (ps.map Pred.ToSql)).1.toList)
          = p.ToSql.2.length + (appendToSql " AND " (i + 1) (ps.map Pred.ToSql)).2.length := by
        rw [placeholderCount_append _ _ (h3 (by omega)), hpc, h2]
      by_cases hi : i = 0
      · subst hi
        simp only [if_true, String.toList, String.data_append, List.length_append]
        simpa [String.toList] using hrest
      · simp only [hi, if_false, String.toList, String.data_append, List.length_append,
          List.append_assoc]
        rw [placeholderCount_append_left _ _ (by decide)]
        simpa [String.toList] using hrest
    · intro hi
      simp [hi, String.toList, String.data_append]

/-- The WHERE clause of well-bound parts: the parts' texts joined by `AND`
after `WHERE`, the parts' arguments in order, one per placeholder. -/
theorem whereToSql_bound (parts : List Pred) (hp : ∀ p ∈ parts, p.Bound) :
    (whereToSql parts).1
        = (if parts.isEmpty then ""
           else " WHERE " ++ " AND ".intercalate (parts.map (fun p => p.ToSql.1))) ∧
    (whereToSql parts).2 = (parts.map (fun p => p.ToSql.2)).flatten ∧
    placeholderCount (whereToSql parts).1.toList = (whereToSql parts).2.length := by
  obtain ⟨h1, h2, -⟩ := appendToSql_args parts hp 0
  cases parts with
  | nil => simp [whereToSql, placeholderCount]
  | cons p ps =>
    simp only [whereToSql, List.isEmpty_cons, if_false, Bool.false_eq_true]
    refine ⟨by rw [appendToSql_first _ hp], h1, ?_⟩
    simp only [String.toList, String.data_append]
    rw [placeholderCount_append_left _ _ (by decide)]
    exact h2

/-- The raw SELECT text of a builder with columns, a head without `?`,
well-bound WHERE parts and the repositories' ORDER BY terms: its arguments are
those of the WHERE parts in order, one per placeholder. -/
theorem selectBuilder_toSqlRaw_bound (b : SelectBuilder) (hc : b.columns.isEmpty = false)
    (hh : '?' ∉ ("SELECT " ++ ", ".intercalate b.columns ++ " FROM " ++ b.table).toList)
    (hp : ∀ p ∈ b.whereParts, p.Bound) (ho : ∀ t ∈ b.orderBys, t ∈ orderTerms) :
    ∃ raw : String,
      b.toSqlRaw = .ok (raw, (b.whereParts.map (fun p => p.ToSql.2)).flatten) ∧
      placeholderCount raw.toList = ((b.whereParts.map (fun p => p.ToSql.2)).flatten).length := by
  obtain ⟨-, w2, w3⟩ := whereToSql_bound b.whereParts hp
  refine ⟨"SELECT " ++ ", ".intercalate b.columns ++ " FROM " ++ b.table
      ++ (whereToSql b.whereParts).1
      ++ (if b.orderBys.isEmpty then "" else " ORDER BY " ++ ", ".intercalate b.orderBys)
      ++ (match b.limit with | some n => " LIMIT " ++ Nat.repr n | none => "")
      ++ (match b.offset with | some n => " OFFSET " ++ Nat.repr n | none => ""), ?_, ?_⟩
  · simp only [SelectBuilder.toSqlRaw, hc, if_false, Bool.false_eq_true, w2]
  · have hob : '?' ∉ (if b.orderBys.isEmpty then ""
        else " ORDER BY " ++ ", ".intercalate b.orderBys).toList := by
      split
      · decide
      · simp only [String.toList, String.data_append, List.mem_append, not_or]
        exact ⟨by decide, intercalate_no_mark ", " (by decide) _
          (fun t ht => orderTerms_no_mark t (ho t ht))⟩
    have hl : '?' ∉ (match b.limit with
        | some n => " LIMIT " ++ Nat.repr n
        | none => "").toList := by
      split
      · simp only [String.toList, String.data_append, List.mem_append, not_or]
        exact ⟨by decide, repr_no_mark _⟩
      · decide
    have hf : '?' ∉ (match b.offset with
        | some n => " OFFSET " ++ Nat.repr n
        | none => "").toList := by
      split
      · simp only [String.toList, String.data_append, List.mem_append, not_or]
        exact ⟨by decide, repr_no_mark _⟩
      · decide
    simp only [String.toList, String.data_append] at hh hob hl hf w3 ⊢
    rw [placeholderCount_append_right _ _ hf, placeholderCount_append_right _ _ hl,
      placeholderCount_append_right _ _ hob, placeholderCount_append_left _ _ hh, w3, w2]

/-- A call on a `PetitionsQ` appends the operation's predicates to the selector. -/
theorem PetitionsOp_apply_whereParts (op : PetitionsOp) (q : PetitionsQ) :
    (op.apply q).selector.whereParts = q.selector.whereParts ++ op.preds := by
  cases op <;> simp [PetitionsOp.preds, PetitionsOp.apply, PetitionsQ.FilterID, PetitionsQ.FilterCityID, PetitionsQ.FilterInitiatorID, PetitionsQ.FilterStatus, PetitionsQ.TitleLike, PetitionsQ.BBox, PetitionsQ.WithinRadius, PetitionsQ.Page, NewPetitionsQ, selectFrom,
    SelectBuilder.Where, SelectBuilder.Limit, SelectBuilder.Offset, SelectBuilder.OrderBy,
    Pred.isBlank, titleLike_not_empty, cityGov_not_empty]

/-- The predicates of every operation of `PetitionsQ` are well bound. -/
theorem PetitionsOp_preds_bound (op : PetitionsOp) : ∀ p ∈ op.preds, p.Bound := by
  intro p hp
  cases op <;>
    simp [PetitionsOp.preds, PetitionsOp.apply, PetitionsQ.FilterID, PetitionsQ.FilterCityID, PetitionsQ.FilterInitiatorID, PetitionsQ.FilterStatus, PetitionsQ.TitleLike, PetitionsQ.BBox, PetitionsQ.WithinRadius, PetitionsQ.Page, NewPetitionsQ, selectFrom,
      SelectBuilder.Where, SelectBuilder.Limit, SelectBuilder.Offset, SelectBuilder.OrderBy,
      Pred.isBlank, titleLike_not_empty, cityGov_not_empty] at hp <;>
    subst hp <;> exact ⟨rfl, rfl, rfl⟩

/-- Every operation of `PetitionsQ` keeps the selector well bound. -/
theorem PetitionsOp_apply_wellBound (op : PetitionsOp) (q : PetitionsQ)
    (h : q.statements.WellBound) : (op.apply q).statements.WellBound := by
  obtain ⟨h1, h2⟩ := h
  simp only [PetitionsQ.statements] at h1 h2
  refine ⟨?_, ?_⟩
  · intro p hp
    simp only [PetitionsQ.statements, PetitionsOp_apply_whereParts, List.mem_append] at hp
    rcases hp with hp | hp
    · exact h1 p hp
    · exact PetitionsOp_preds_bound op p hp
  · intro t ht
    revert ht
    cases op <;>
      simp [PetitionsOp.apply, PetitionsQ.statements, PetitionsQ.FilterID, PetitionsQ.FilterCityID, PetitionsQ.FilterInitiatorID, PetitionsQ.FilterStatus, PetitionsQ.TitleLike, PetitionsQ.BBox, PetitionsQ.WithinRadius, PetitionsQ.Page,
        SelectBuilder.Where, SelectBuilder.Limit, SelectBuilder.Offset, SelectBuilder.OrderBy,
        Pred.isBlank, titleLike_not_empty, cityGov_not_empty] <;>
      exact h2 t

/-- A value reached from `NewPetitionsQ` has a well-bound selector. -/
theorem PetitionsQ_chain_wellBound (db : DB) (ops : List PetitionsOp) :
    (PetitionsQ.chain db ops).statements.WellBound :=
  foldl_keeps _ (fun q : PetitionsQ => q.statements.WellBound)
    PetitionsOp_apply_wellBound ops _
    ⟨fun _ h => absurd h (List.not_mem_nil _), fun _ h => absurd h (List.not_mem_nil _)⟩

/-- The statement Select issues on a reached `PetitionsQ`. -/
theorem PetitionsQ_select_bound (db : DB) (ops : List PetitionsOp) (ctx : Context) :
    ∃ raw : String,
      (PetitionsQ.chain db ops).selector.toSqlRaw
        = .ok (raw, ((PetitionsQ.chain db ops).selector.whereParts.map (fun p => p.ToSql.2)).flatten) ∧
      (PetitionsQ.chain db ops).Select ctx
        = .roundTrip ⟨resolveTarget db ctx, .QueryContext, ctx, dollar raw,
            ((PetitionsQ.chain db ops).selector.whereParts.map (fun p => p.ToSql.2)).flatten⟩ ∧
      placeholderCount raw.toList
        = (((PetitionsQ.chain db ops).selector.whereParts.map (fun p => p.ToSql.2)).flatten).length := by
  obtain ⟨⟨hc, ht, -, -, -, -, -, -⟩, hdb⟩ := PetitionsQ_chain_shaped db ops
  obtain ⟨hp, ho⟩ := PetitionsQ_chain_wellBound db ops
  simp only [PetitionsQ.statements] at hc ht hp ho
  obtain ⟨raw, hraw, hcount⟩ := selectBuilder_toSqlRaw_bound (PetitionsQ.chain db ops).selector
    (by rw [hc]; rfl) (by rw [hc, ht]; decide) hp ho
  refine ⟨raw, hraw, ?_, hcount⟩
  simp [PetitionsQ.Select, SelectBuilder.ToSql, hraw, issue, hdb]

/-- A call on a `PetitionSignaturesQ` appends the operation's predicates to the selector. -/
theorem PetitionSignaturesOp_apply_whereParts (op : PetitionSignaturesOp) (q : PetitionSignaturesQ) :
    (op.apply q).selector.whereParts = q.selector.whereParts ++ op.preds := by
  cases op <;> simp [PetitionSignaturesOp.preds, PetitionSignaturesOp.apply, PetitionSignaturesQ.FilterID, PetitionSignaturesQ.FilterPetitionID, PetitionSignaturesQ.FilterUserID, PetitionSignaturesQ.Page, NewPetitionSignaturesQ, selectFrom,
    SelectBuilder.Where, SelectBuilder.Limit, SelectBuilder.Offset, SelectBuilder.OrderBy,
    Pred.isBlank, titleLike_not_empty, cityGov_not_empty]

/-- The predicates of every operation of `PetitionSignaturesQ` are well bound. -/
theorem PetitionSignaturesOp_preds_bound (op : PetitionSignaturesOp) : ∀ p ∈ op.preds, p.Bound := by
  intro p hp
  cases op <;>
    simp [PetitionSignaturesOp.preds, PetitionSignaturesOp.apply, PetitionSignaturesQ.FilterID, PetitionSignaturesQ.FilterPetitionID, PetitionSignaturesQ.FilterUserID, PetitionSignaturesQ.Page, NewPetitionSignaturesQ, selectFrom,
      SelectBuilder.Where, SelectBuilder.Limit, SelectBuilder.Offset, SelectBuilder.OrderBy,
      Pred.isBlank, titleLike_not_empty, cityGov_not_empty] at hp <;>
    subst hp <;> exact ⟨rfl, rfl, rfl⟩

/-- Every operation of `PetitionSignaturesQ` keeps the selector well bound. -/
theorem PetitionSignaturesOp_apply_wellBound (op : PetitionSignaturesOp) (q : PetitionSignaturesQ)
    (h : q.statements.WellBound) : (op.apply q).statements.WellBound := by
  obtain ⟨h1, h2⟩ := h
  simp only [PetitionSignaturesQ.statements] at h1 h2
  refine ⟨?_, ?_⟩
  · intro p hp
    simp only [PetitionSignaturesQ.statements, PetitionSignaturesOp_apply_whereParts, List.mem_append] at hp
    rcases hp with hp | hp
    · exact h1 p hp
    · exact PetitionSignaturesOp_preds_bound op p hp
  · intro t ht
    revert ht
    cases op <;>
      simp [PetitionSignaturesOp.apply, PetitionSignaturesQ.statements, PetitionSignaturesQ.FilterID, PetitionSignaturesQ.FilterPetitionID, PetitionSignaturesQ.FilterUserID, PetitionSignaturesQ.Page,
        SelectBuilder.Where, SelectBuilder.Limit, SelectBuilder.Offset, SelectBuilder.OrderBy,
        Pred.isBlank, titleLike_not_empty, cityGov_not_empty] <;>
      exact h2 t

/-- A value reached from `NewPetitionSignaturesQ` has a well-bound selector. -/
theorem PetitionSignaturesQ_chain_wellBound (db : DB) (ops : List PetitionSignaturesOp) :
    (PetitionSignaturesQ.chain db ops).statements.WellBound :=
  foldl_keeps _ (fun q : PetitionSignaturesQ => q.statements.WellBound)
    PetitionSignaturesOp_apply_wellBound ops _
    ⟨fun _ h => absurd h (List.not_mem_nil _), fun _ h => absurd h (List.not_mem_nil _)⟩

/-- The statement Select issues on a reached `PetitionSignaturesQ`. -/
theorem PetitionSignaturesQ_select_bound (db : DB) (ops : List PetitionSignaturesOp) (ctx : Context) :
    ∃ raw : String,
      (PetitionSignaturesQ.chain db ops).selector.toSqlRaw
        = .ok (raw, ((PetitionSignaturesQ.chain db ops).selector.whereParts.map (fun p => p.ToSql.2)).flatten) ∧
      (PetitionSignaturesQ.chain db ops).Select ctx
        = .roundTrip ⟨resolveTarget db ctx, .QueryContext, ctx, dollar raw,
            ((PetitionSignaturesQ.chain db ops).selector.whereParts.map (fun p => p.ToSql.2)).flatten⟩ ∧
      placeholderCount raw.toList
        = (((PetitionSignaturesQ.chain db ops).selector.whereParts.map (fun p => p.ToSql.2)).flatten).length := by
  obtain ⟨⟨hc, ht, -, -, -, -, -, -⟩, hdb⟩ := PetitionSignaturesQ_chain_shaped db ops
  obtain ⟨hp, ho⟩ := PetitionSignaturesQ_chain_wellBound db ops
  simp only [PetitionSignaturesQ.statements] at hc ht hp ho
  obtain ⟨raw, hraw, hcount⟩ := selectBuilder_toSqlRaw_bound (PetitionSignaturesQ.chain db ops).selector
    (by rw [hc]; rfl) (by rw [hc, ht]; decide) hp ho
  refine ⟨raw, hraw, ?_, hcount⟩
  simp [PetitionSignaturesQ.Select, SelectBuilder.ToSql, hraw, issue, hdb]

/-- A call on a `PollsQ` appends the operation's predicates to the selector. -/
theorem PollsOp_apply_whereParts (op : PollsOp) (q : PollsQ) :
    (op.apply q).selector.whereParts = q.selector.whereParts ++ op.preds := by
  cases op <;> simp [PollsOp.preds, PollsOp.apply, PollsQ.FilterID, PollsQ.FilterCityID, PollsQ.FilterInitiatorID, PollsQ.FilterStatus, PollsQ.TitleLike, PollsQ.BBox, PollsQ.WithinRadius, PollsQ.Page, NewPollsQ, selectFrom,
    SelectBuilder.Where, SelectBuilder.Limit, SelectBuilder.Offset, SelectBuilder.OrderBy,
    Pred.isBlank, titleLike_not_empty, cityGov_not_empty]

/-- The predicates of every operation of `PollsQ` are well bound. -/
theorem PollsOp_preds_bound (op : PollsOp) : ∀ p ∈ op.preds, p.Bound := by
  intro p hp
  cases op <;>
    simp [PollsOp.preds, PollsOp.apply, PollsQ.FilterID, PollsQ.FilterCityID, PollsQ.FilterInitiatorID, PollsQ.FilterStatus, PollsQ.TitleLike, PollsQ.BBox, PollsQ.WithinRadius, PollsQ.Page, NewPollsQ, selectFrom,
      SelectBuilder.Where, SelectBuilder.Limit, SelectBuilder.Offset, SelectBuilder.OrderBy,
      Pred.isBlank, titleLike_not_empty, cityGov_not_empty] at hp <;>
    subst hp <;> exact ⟨rfl, rfl, rfl⟩

/-- Every operation of `PollsQ` keeps the selector well bound. -/
theorem PollsOp_apply_wellBound (op : PollsOp) (q : PollsQ)
    (h : q.statements.WellBound) : (op.apply q).statements.WellBound := by
  obtain ⟨h1, h2⟩ := h
  simp only [PollsQ.statements] at h1 h2
  refine ⟨?_, ?_⟩
  · intro p hp
    simp only [PollsQ.statements, PollsOp_apply_whereParts, List.mem_append] at hp
    rcases hp with hp | hp
    · exact h1 p hp
    · exact PollsOp_preds_bound op p hp
  · intro t ht
    revert ht
    cases op <;>
      simp [PollsOp.apply, PollsQ.statements, PollsQ.FilterID, PollsQ.FilterCityID, PollsQ.FilterInitiatorID, PollsQ.FilterStatus, PollsQ.TitleLike, PollsQ.BBox, PollsQ.WithinRadius, PollsQ.Page,
        SelectBuilder.Where, SelectBuilder.Limit, SelectBuilder.Offset, SelectBuilder.OrderBy,
        Pred.isBlank, titleLike_not_empty, cityGov_not_empty] <;>
      exact h2 t

/-- A value reached from `NewPollsQ` has a well-bound selector. -/
theorem PollsQ_chain_wellBound (db : DB) (ops : List PollsOp) :
    (PollsQ.chain db ops).statements.WellBound :=
  foldl_keeps _ (fun q : PollsQ => q.statements.WellBound)
    PollsOp_apply_wellBound ops _
    ⟨fun _ h => absurd h (List.not_mem_nil _), fun _ h => absurd h (List.not_mem_nil _)⟩

/-- The statement Select issues on a reached `PollsQ`. -/
theorem PollsQ_select_bound (db : DB) (ops : List PollsOp) (ctx : Context) :
    ∃ raw : String,
      (PollsQ.chain db ops).selector.toSqlRaw
        = .ok (raw, ((PollsQ.chain db ops).selector.whereParts.map (fun p => p.ToSql.2)).flatten) ∧
      (PollsQ.chain db ops).Select ctx
        = .roundTrip ⟨resolveTarget db ctx, .QueryContext, ctx, dollar raw,
            ((PollsQ.chain db ops).selector.whereParts.map (fun p => p.ToSql.2)).flatten⟩ ∧
      placeholderCount raw.toList
        = (((PollsQ.chain db ops).selector.whereParts.map (fun p => p.ToSql.2)).flatten).length := by
  obtain ⟨⟨hc, ht, -, -, -, -, -, -⟩, hdb⟩ := PollsQ_chain_shaped db ops
  obtain ⟨hp, ho⟩ := PollsQ_chain_wellBound db ops
  simp only [PollsQ.statements] at hc ht hp ho
  obtain ⟨raw, hraw, hcount⟩ := selectBuilder_toSqlRaw_bound (PollsQ.chain db ops).selector
    (by rw [hc]; rfl) (by rw [hc, ht]; decide) hp ho
  refine ⟨raw, hraw, ?_, hcount⟩
  simp [PollsQ.Select, SelectBuilder.ToSql, hraw, issue, hdb]

/-- A call on a `PollOptionsQ` appends the operation's predicates to the selector. -/
theorem PollOptionsOp_apply_whereParts (op : PollOptionsOp) (q : PollOptionsQ) :
    (op.apply q).selector.whereParts = q.selector.whereParts ++ op.preds := by
  cases op <;> simp [PollOptionsOp.preds, PollOptionsOp.apply, PollOptionsQ.FilterID, PollOptionsQ.FilterPollID, PollOptionsQ.OrderByCreatedAsc, PollOptionsQ.OrderByCreatedDesc, PollOptionsQ.OrderByVotesDesc, PollOptionsQ.Page, NewPollOptionsQ, selectFrom,
    SelectBuilder.Where, SelectBuilder.Limit, SelectBuilder.Offset, SelectBuilder.OrderBy,
    Pred.isBlank, titleLike_not_empty, cityGov_not_empty]

/-- The predicates of every operation of `PollOptionsQ` are well bound. -/
theorem PollOptionsOp_preds_bound (op : PollOptionsOp) : ∀ p ∈ op.preds, p.Bound := by
  intro p hp
  cases op <;>
    simp [PollOptionsOp.preds, PollOptionsOp.apply, PollOptionsQ.FilterID, PollOptionsQ.FilterPollID, PollOptionsQ.OrderByCreatedAsc, PollOptionsQ.OrderByCreatedDesc, PollOptionsQ.OrderByVotesDesc, PollOptionsQ.Page, NewPollOptionsQ, selectFrom,
      SelectBuilder.Where, SelectBuilder.Limit, SelectBuilder.Offset, SelectBuilder.OrderBy,
      Pred.isBlank, titleLike_not_empty, cityGov_not_empty] at hp <;>
    subst hp <;> exact ⟨rfl, rfl, rfl⟩

/-- Every operation of `PollOptionsQ` keeps the selector well bound. -/
theorem PollOptionsOp_apply_wellBound (op : PollOptionsOp) (q : PollOptionsQ)
    (h : q.statements.WellBound) : (op.apply q).statements.WellBound := by
  obtain ⟨h1, h2⟩ := h
  simp only [PollOptionsQ.statements] at h1 h2
  refine ⟨?_, ?_⟩
  · intro p hp
    simp only [PollOptionsQ.statements, PollOptionsOp_apply_whereParts, List.mem_append] at hp
    rcases hp with hp | hp
    · exact h1 p hp
    · exact PollOptionsOp_preds_bound op p hp
  · intro t ht
    revert ht
    cases op <;>
      simp [PollOptionsOp.apply, PollOptionsQ.statements, PollOptionsQ.FilterID, PollOptionsQ.FilterPollID, PollOptionsQ.OrderByCreatedAsc, PollOptionsQ.OrderByCreatedDesc, PollOptionsQ.OrderByVotesDesc, PollOptionsQ.Page,
        SelectBuilder.Where, SelectBuilder.Limit, SelectBuilder.Offset, SelectBuilder.OrderBy,
        Pred.isBlank, titleLike_not_empty, cityGov_not_empty] <;>
      first
        | exact h2 t
        | (intro ht
           rcases ht with ht | ht
           · exact h2 t ht
           · subst ht; decide)

/-- A value reached from `NewPollOptionsQ` has a well-bound selector. -/
theorem PollOptionsQ_chain_wellBound (db : DB) (ops : List PollOptionsOp) :
    (PollOptionsQ.chain db ops).statements.WellBound :=
  foldl_keeps _ (fun q : PollOptionsQ => q.statements.WellBound)
    PollOptionsOp_apply_wellBound ops _
    ⟨fun _ h => absurd h (List.not_mem_nil _), fun _ h => absurd h (List.not_mem_nil _)⟩

/-- The statement Select issues on a reached `PollOptionsQ`. -/
theorem PollOptionsQ_select_bound (db : DB) (ops : List PollOptionsOp) (ctx : Context) :
    ∃ raw : String,
      (PollOptionsQ.chain db ops).selector.toSqlRaw
        = .ok (raw, ((PollOptionsQ.chain db ops).selector.whereParts.map (fun p => p.ToSql.2)).flatten) ∧
      (PollOptionsQ.chain db ops).Select ctx
        = .roundTrip ⟨resolveTarget db ctx, .QueryContext, ctx, dollar raw,
            ((PollOptionsQ.chain db ops).selector.whereParts.map (fun p => p.ToSql.2)).flatten⟩ ∧
      placeholderCount raw.toList
        = (((PollOptionsQ.chain db ops).selector.whereParts.map (fun p => p.ToSql.2)).flatten).length := by
  obtain ⟨⟨hc, ht, -, -, -, -, -, -⟩, hdb⟩ := PollOptionsQ_chain_shaped db ops
  obtain ⟨hp, ho⟩ := PollOptionsQ_chain_wellBound db ops
  simp only [PollOptionsQ.statements] at hc ht hp ho
  obtain ⟨raw, hraw, hcount⟩ := selectBuilder_toSqlRaw_bound (PollOptionsQ.chain db ops).selector
    (by rw [hc]; rfl) (by rw [hc, ht]; decide) hp ho
  refine ⟨raw, hraw, ?_, hcount⟩
  simp [PollOptionsQ.Select, SelectBuilder.ToSql, hraw, issue, hdb]

/-- A call on a `PollVotesQ` appends the operation's predicates to the selector. -/
theorem PollVotesOp_apply_whereParts (op : PollVotesOp) (q : PollVotesQ) :
    (op.apply q).selector.whereParts = q.selector.whereParts ++ op.preds := by
  cases op <;> simp [PollVotesOp.preds, PollVotesOp.apply, PollVotesQ.FilterID, PollVotesQ.FilterPollID, PollVotesQ.FilterUserID, PollVotesQ.FilterOptionID, PollVotesQ.OrderByCreatedAsc, PollVotesQ.OrderByCreatedDesc, PollVotesQ.Page, NewPollVotesQ, selectFrom,
    SelectBuilder.Where, SelectBuilder.Limit, SelectBuilder.Offset, SelectBuilder.OrderBy,
    Pred.isBlank, titleLike_not_empty, cityGov_not_empty]

/-- The predicates of every operation of `PollVotesQ` are well bound. -/
theorem PollVotesOp_preds_bound (op : PollVotesOp) : ∀ p ∈ op.preds, p.Bound := by
  intro p hp
  cases op <;>
    simp [PollVotesOp.preds, PollVotesOp.apply, PollVotesQ.FilterID, PollVotesQ.FilterPollID, PollVotesQ.FilterUserID, PollVotesQ.FilterOptionID, PollVotesQ.OrderByCreatedAsc, PollVotesQ.OrderByCreatedDesc, PollVotesQ.Page, NewPollVotesQ, selectFrom,
      SelectBuilder.Where, SelectBuilder.Limit, SelectBuilder.Offset, SelectBuilder.OrderBy,
      Pred.isBlank, titleLike_not_empty, cityGov_not_empty] at hp <;>
    subst hp <;> exact ⟨rfl, rfl, rfl⟩

/-- Every operation of `PollVotesQ` keeps the selector well bound. -/
theorem PollVotesOp_apply_wellBound (op : PollVotesOp) (q : PollVotesQ)
    (h : q.statements.WellBound) : (op.apply q).statements.WellBound := by
  obtain ⟨h1, h2⟩ := h
  simp only [PollVotesQ.statements] at h1 h2
  refine ⟨?_, ?_⟩
  · intro p hp
    simp only [PollVotesQ.statements, PollVotesOp_apply_whereParts, List.mem_append] at hp
    rcases hp with hp | hp
    · exact h1 p hp
    · exact PollVotesOp_preds_bound op p hp
  · intro t ht
    revert ht
    cases op <;>
      simp [PollVotesOp.apply, PollVotesQ.statements, PollVotesQ.FilterID, PollVotesQ.FilterPollID, PollVotesQ.FilterUserID, PollVotesQ.FilterOptionID, PollVotesQ.OrderByCreatedAsc, PollVotesQ.OrderByCreatedDesc, PollVotesQ.Page,
        SelectBuilder.Where, SelectBuilder.Limit, SelectBuilder.Offset, SelectBuilder.OrderBy,
        Pred.isBlank, titleLike_not_empty, cityGov_not_empty] <;>
      first
        | exact h2 t
        | (intro ht
           rcases ht with ht | ht
           · exact h2 t ht
           · subst ht; decide)

/-- A value reached from `NewPollVotesQ` has a well-bound selector. -/
theorem PollVotesQ_chain_wellBound (db : DB) (ops : List PollVotesOp) :
    (PollVotesQ.chain db ops).statements.WellBound :=
  foldl_keeps _ (fun q : PollVotesQ => q.statements.WellBound)
    PollVotesOp_apply_wellBound ops _
    ⟨fun _ h => absurd h (List.not_mem_nil _), fun _ h => absurd h (List.not_mem_nil _)⟩

/-- The statement Select issues on a reached `PollVotesQ`. -/
theorem PollVotesQ_select_bound (db : DB) (ops : List PollVotesOp) (ctx : Context) :
    ∃ raw : String,
      (PollVotesQ.chain db ops).selector.toSqlRaw
        = .ok (raw, ((PollVotesQ.chain db ops).selector.whereParts.map (fun p => p.ToSql.2)).flatten) ∧
      (PollVotesQ.chain db ops).Select ctx
        = .roundTrip ⟨resolveTarget db ctx, .QueryContext, ctx, dollar raw,
            ((PollVotesQ.chain db ops).selector.whereParts.map (fun p => p.ToSql.2)).flatten⟩ ∧
      placeholderCount raw.toList
        = (((PollVotesQ.chain db ops).selector.whereParts.map (fun p => p.ToSql.2)).flatten).length := by
  obtain ⟨⟨hc, ht, -, -, -, -, -, -⟩, hdb⟩ := PollVotesQ_chain_shaped db ops
  obtain ⟨hp, ho⟩ := PollVotesQ_chain_wellBound db ops
  simp only [PollVotesQ.statements] at hc ht hp ho
  obtain ⟨raw, hraw, hcount⟩ := selectBuilder_toSqlRaw_bound (PollVotesQ.chain db ops).selector
    (by rw [hc]; rfl) (by rw [hc, ht]; decide) hp ho
  refine ⟨raw, hraw, ?_, hcount⟩
  simp [PollVotesQ.Select, SelectBuilder.ToSql, hraw, issue, hdb]

/-- A call on a `ProposalsQ` appends the operation's predicates to the selector. -/
theorem ProposalsOp_apply_whereParts (op : ProposalsOp) (q : ProposalsQ) :
    (op.apply q).selector.whereParts = q.selector.whereParts ++ op.preds := by
  cases op <;> simp [ProposalsOp.preds, ProposalsOp.apply, ProposalsQ.FilterID, ProposalsQ.FilterCityID, ProposalsQ.FilterInitiatorID, ProposalsQ.FilterStatus, ProposalsQ.FilterAddressedTo, ProposalsQ.FilterAddressedToCityGov, ProposalsQ.TitleLike, ProposalsQ.BBox, ProposalsQ.WithinRadius, ProposalsQ.OrderByCreatedAsc, ProposalsQ.OrderByCreatedDesc, ProposalsQ.OrderByAgreedDesc, ProposalsQ.OrderByDisagreedDesc, ProposalsQ.Page, NewProposalsQ, selectFrom,
    SelectBuilder.Where, SelectBuilder.Limit, SelectBuilder.Offset, SelectBuilder.OrderBy,
    Pred.isBlank, titleLike_not_empty, cityGov_not_empty]

/-- The predicates of every operation of `ProposalsQ` are well bound. -/
theorem ProposalsOp_preds_bound (op : ProposalsOp) : ∀ p ∈ op.preds, p.Bound := by
  intro p hp
  cases op <;>
    simp [ProposalsOp.preds, ProposalsOp.apply, ProposalsQ.FilterID, ProposalsQ.FilterCityID, ProposalsQ.FilterInitiatorID, ProposalsQ.FilterStatus, ProposalsQ.FilterAddressedTo, ProposalsQ.FilterAddressedToCityGov, ProposalsQ.TitleLike, ProposalsQ.BBox, ProposalsQ.WithinRadius, ProposalsQ.OrderByCreatedAsc, ProposalsQ.OrderByCreatedDesc, ProposalsQ.OrderByAgreedDesc, ProposalsQ.OrderByDisagreedDesc, ProposalsQ.Page, NewProposalsQ, selectFrom,
      SelectBuilder.Where, SelectBuilder.Limit, SelectBuilder.Offset, SelectBuilder.OrderBy,
      Pred.isBlank, titleLike_not_empty, cityGov_not_empty] at hp <;>
    subst hp <;> exact ⟨rfl, rfl, rfl⟩

/-- Every operation of `ProposalsQ` keeps the selector well bound. -/
theorem ProposalsOp_apply_wellBound (op : ProposalsOp) (q : ProposalsQ)
    (h : q.statements.WellBound) : (op.apply q).statements.WellBound := by
  obtain ⟨h1, h2⟩ := h
  simp only [ProposalsQ.statements] at h1 h2
  refine ⟨?_, ?_⟩
  · intro p hp
    simp only [ProposalsQ.statements, ProposalsOp_apply_whereParts, List.mem_append] at hp
    rcases hp with hp | hp
    · exact h1 p hp
    · exact ProposalsOp_preds_bound op p hp
  · intro t ht
    revert ht
    cases op <;>
      simp [ProposalsOp.apply, ProposalsQ.statements, ProposalsQ.FilterID, ProposalsQ.FilterCityID, ProposalsQ.FilterInitiatorID, ProposalsQ.FilterStatus, ProposalsQ.FilterAddressedTo, ProposalsQ.FilterAddressedToCityGov, ProposalsQ.TitleLike, ProposalsQ.BBox, ProposalsQ.WithinRadius, ProposalsQ.OrderByCreatedAsc, ProposalsQ.OrderByCreatedDesc, ProposalsQ.OrderByAgreedDesc, ProposalsQ.OrderByDisagreedDesc, ProposalsQ.Page,
        SelectBuilder.Where, SelectBuilder.Limit, SelectBuilder.Offset, SelectBuilder.OrderBy,
        Pred.isBlank, titleLike_not_empty, cityGov_not_empty] <;>
      first
        | exact h2 t
        | (intro ht
           rcases ht with ht | ht
           · exact h2 t ht
           · subst ht; decide)

/-- A value reached from `NewProposalsQ` has a well-bound selector. -/
theorem ProposalsQ_chain_wellBound (db : DB) (ops : List ProposalsOp) :
    (ProposalsQ.chain db ops).statements.WellBound :=
  foldl_keeps _ (fun q : ProposalsQ => q.statements.WellBound)
    ProposalsOp_apply_wellBound ops _
    ⟨fun _ h => absurd h (List.not_mem_nil _), fun _ h => absurd h (List.not_mem_nil _)⟩

/-- The statement Select issues on a reached `ProposalsQ`. -/
theorem ProposalsQ_select_bound (db : DB) (ops : List ProposalsOp) (ctx : Context) :
    ∃ raw : String,
      (ProposalsQ.chain db ops).selector.toSqlRaw
        = .ok (raw, ((ProposalsQ.chain db ops).selector.whereParts.map (fun p => p.ToSql.2)).flatten) ∧
      (ProposalsQ.chain db ops).Select ctx
        = .roundTrip ⟨resolveTarget db ctx, .QueryContext, ctx, dollar raw,
            ((ProposalsQ.chain db ops).selector.whereParts.map (fun p => p.ToSql.2)).flatten⟩ ∧
      placeholderCount raw.toList
        = (((ProposalsQ.chain db ops).selector.whereParts.map (fun p => p.ToSql.2)).flatten).length := by
  obtain ⟨⟨hc, ht, -, -, -, -, -, -⟩, hdb⟩ := ProposalsQ_chain_shaped db ops
  obtain ⟨hp, ho⟩ := ProposalsQ_chain_wellBound db ops
  simp only [ProposalsQ.statements] at hc ht hp ho
  obtain ⟨raw, hraw, hcount⟩ := selectBuilder_toSqlRaw_bound (ProposalsQ.chain db ops).selector
    (by rw [hc]; rfl) (by rw [hc, ht]; decide) hp ho
  refine ⟨raw, hraw, ?_, hcount⟩
  simp [ProposalsQ.Select, SelectBuilder.ToSql, hraw, issue, hdb]

/-- A call on a `ProposalVotesQ` appends the operation's predicates to the selector. -/
theorem ProposalVotesOp_apply_whereParts (op : ProposalVotesOp) (q : ProposalVotesQ) :
    (op.apply q).selector.whereParts = q.selector.whereParts ++ op.preds := by
  cases op <;> simp [ProposalVotesOp.preds, ProposalVotesOp.apply, ProposalVotesQ.FilterID, ProposalVotesQ.FilterProposalID, ProposalVotesQ.FilterUserID, ProposalVotesQ.FilterVote, ProposalVotesQ.OrderByCreatedAsc, ProposalVotesQ.OrderByCreatedDesc, ProposalVotesQ.Page, NewProposalVotesQ, selectFrom,
    SelectBuilder.Where, SelectBuilder.Limit, SelectBuilder.Offset, SelectBuilder.OrderBy,
    Pred.isBlank, titleLike_not_empty, cityGov_not_empty]

/-- The predicates of every operation of `ProposalVotesQ` are well bound. -/
theorem ProposalVotesOp_preds_bound (op : ProposalVotesOp) : ∀ p ∈ op.preds, p.Bound := by
  intro p hp
  cases op <;>
    simp [ProposalVotesOp.preds, ProposalVotesOp.apply, ProposalVotesQ.FilterID, ProposalVotesQ.FilterProposalID, ProposalVotesQ.FilterUserID, ProposalVotesQ.FilterVote, ProposalVotesQ.OrderByCreatedAsc, ProposalVotesQ.OrderByCreatedDesc, ProposalVotesQ.Page, NewProposalVotesQ, selectFrom,
      SelectBuilder.Where, SelectBuilder.Limit, SelectBuilder.Offset, SelectBuilder.OrderBy,
      Pred.isBlank, titleLike_not_empty, cityGov_not_empty] at hp <;>
    subst hp <;> exact ⟨rfl, rfl, rfl⟩

/-- Every operation of `ProposalVotesQ` keeps the selector well bound. -/
theorem ProposalVotesOp_apply_wellBound (op : ProposalVotesOp) (q : ProposalVotesQ)
    (h : q.statements.WellBound) : (op.apply q).statements.WellBound := by
  obtain ⟨h1, h2⟩ := h
  simp only [ProposalVotesQ.statements] at h1 h2
  refine ⟨?_, ?_⟩
  · intro p hp
    simp only [ProposalVotesQ.statements, ProposalVotesOp_apply_whereParts, List.mem_append] at hp
    rcases hp with hp | hp
    · exact h1 p hp
    · exact ProposalVotesOp_preds_bound op p hp
  · intro t ht
    revert ht
    cases op <;>
      simp [ProposalVotesOp.apply, ProposalVotesQ.statements, ProposalVotesQ.FilterID, ProposalVotesQ.FilterProposalID, ProposalVotesQ.FilterUserID, ProposalVotesQ.FilterVote, ProposalVotesQ.OrderByCreatedAsc, ProposalVotesQ.OrderByCreatedDesc, ProposalVotesQ.Page,
        SelectBuilder.Where, SelectBuilder.Limit, SelectBuilder.Offset, SelectBuilder.OrderBy,
        Pred.isBlank, titleLike_not_empty, cityGov_not_empty] <;>
      first
        | exact h2 t
        | (intro ht
           rcases ht with ht | ht
           · exact h2 t ht
           · subst ht; decide)

/-- A value reached from `NewProposalVotesQ` has a well-bound selector. -/
theorem ProposalVotesQ_chain_wellBound (db : DB) (ops : List ProposalVotesOp) :
    (ProposalVotesQ.chain db ops).statements.WellBound :=
  foldl_keeps _ (fun q : ProposalVotesQ => q.statements.WellBound)
    ProposalVotesOp_apply_wellBound ops _
    ⟨fun _ h => absurd h (List.not_mem_nil _), fun _ h => absurd h (List.not_mem_nil _)⟩

/-- The statement Select issues on a reached `ProposalVotesQ`. -/
theorem ProposalVotesQ_select_bound (db : DB) (ops : List ProposalVotesOp) (ctx : Context) :
    ∃ raw : String,
      (ProposalVotesQ.chain db ops).selector.toSqlRaw
        = .ok (raw, ((ProposalVotesQ.chain db ops).selector.whereParts.map (fun p => p.ToSql.2)).flatten) ∧
      (ProposalVotesQ.chain db ops).Select ctx
        = .roundTrip ⟨resolveTarget db ctx, .QueryContext, ctx, dollar raw,
            ((ProposalVotesQ.chain db ops).selector.whereParts.map (fun p => p.ToSql.2)).flatten⟩ ∧
      placeholderCount raw.toList
        = (((ProposalVotesQ.chain db ops).selector.whereParts.map (fun p => p.ToSql.2)).flatten).length := by
  obtain ⟨⟨hc, ht, -, -, -, -, -, -⟩, hdb⟩ := ProposalVotesQ_chain_shaped db ops
  obtain ⟨hp, ho⟩ := ProposalVotesQ_chain_wellBound db ops
  simp only [ProposalVotesQ.statements] at hc ht hp ho
  obtain ⟨raw, hraw, hcount⟩ := selectBuilder_toSqlRaw_bound (ProposalVotesQ.chain db ops).selector
    (by rw [hc]; rfl) (by rw [hc, ht]; decide) hp ho
  refine ⟨raw, hraw, ?_, hcount⟩
  simp [ProposalVotesQ.Select, SelectBuilder.ToSql, hraw, issue, hdb]

/-- Two calls in a row on a reached `PetitionsQ`: the WHERE parts, the WHERE clause and
the statement Select issues. -/
theorem PetitionsQ_two_calls (db : DB) (ops : List PetitionsOp) (F1 F2 : PetitionsOp) (ctx : Context) :
    ComposedInOrder (PetitionsQ.chain db ops).selector.whereParts F1.preds F2.preds
      (F2.apply (F1.apply (PetitionsQ.chain db ops))).selector
      ((F2.apply (F1.apply (PetitionsQ.chain db ops))).Select ctx) (resolveTarget db ctx) ctx := by
  have hq : (F2.apply (F1.apply (PetitionsQ.chain db ops))) = PetitionsQ.chain db (ops ++ [F1, F2]) := by
    simp [PetitionsQ.chain, List.foldl_append]
  have hw : (F2.apply (F1.apply (PetitionsQ.chain db ops))).selector.whereParts
      = (PetitionsQ.chain db ops).selector.whereParts ++ F1.preds ++ F2.preds := by
    rw [PetitionsOp_apply_whereParts, PetitionsOp_apply_whereParts]
  have ha : boundArgs (F2.apply (F1.apply (PetitionsQ.chain db ops))).selector.whereParts
      = boundArgs (PetitionsQ.chain db ops).selector.whereParts
          ++ boundArgs F1.preds ++ boundArgs F2.preds := by
    rw [hw]
    simp [boundArgs]
  obtain ⟨raw, h1, h2, h3⟩ := PetitionsQ_select_bound db (ops ++ [F1, F2]) ctx
  rw [← hq] at h1 h2 h3
  refine ⟨hw, ?_, raw, ?_, ?_, ?_⟩
  · exact (whereToSql_bound _ (hq ▸ (PetitionsQ_chain_wellBound db (ops ++ [F1, F2])).1)).1
  · rw [← ha]; exact h1
  · rw [← ha]; exact h2
  · rw [← ha]; exact h3

/-- Two calls in a row on a reached `PetitionSignaturesQ`: the WHERE parts, the WHERE clause and
the statement Select issues. -/
theorem PetitionSignaturesQ_two_calls (db : DB) (ops : List PetitionSignaturesOp) (F1 F2 : PetitionSignaturesOp) (ctx : Context) :
    ComposedInOrder (PetitionSignaturesQ.chain db ops).selector.whereParts F1.preds F2.preds
      (F2.apply (F1.apply (PetitionSignaturesQ.chain db ops))).selector
      ((F2.apply (F1.apply (PetitionSignaturesQ.chain db ops))).Select ctx) (resolveTarget db ctx) ctx := by
  have hq : (F2.apply (F1.apply (PetitionSignaturesQ.chain db ops))) = PetitionSignaturesQ.chain db (ops ++ [F1, F2]) := by
    simp [PetitionSignaturesQ.chain, List.foldl_append]
  have hw : (F2.apply (F1.apply (PetitionSignaturesQ.chain db ops))).selector.whereParts
      = (PetitionSignaturesQ.chain db ops).selector.whereParts ++ F1.preds ++ F2.preds := by
    rw [PetitionSignaturesOp_apply_whereParts, PetitionSignaturesOp_apply_whereParts]
  have ha : boundArgs (F2.apply (F1.apply (PetitionSignaturesQ.chain db ops))).selector.whereParts
      = boundArgs (PetitionSignaturesQ.chain db ops).selector.whereParts
          ++ boundArgs F1.preds ++ boundArgs F2.preds := by
    rw [hw]
    simp [boundArgs]
  obtain ⟨raw, h1, h2, h3⟩ := PetitionSignaturesQ_select_bound db (ops ++ [F1, F2]) ctx
  rw [← hq] at h1 h2 h3
  refine ⟨hw, ?_, raw, ?_, ?_, ?_⟩
  · exact (whereToSql_bound _ (hq ▸ (PetitionSignaturesQ_chain_wellBound db (ops ++ [F1, F2])).1)).1
  · rw [← ha]; exact h1
  · rw [← ha]; exact h2
  · rw [← ha]; exact h3

/-- Two calls in a row on a reached `PollsQ`: the WHERE parts, the WHERE clause and
the statement Select issues. -/
theorem PollsQ_two_calls (db : DB) (ops : List PollsOp) (F1 F2 : PollsOp) (ctx : Context) :
    ComposedInOrder (PollsQ.chain db ops).selector.whereParts F1.preds F2.preds
      (F2.apply (F1.apply (PollsQ.chain db ops))).selector
      ((F2.apply (F1.apply (PollsQ.chain db ops))).Select ctx) (resolveTarget db ctx) ctx := by
  have hq : (F2.apply (F1.apply (PollsQ.chain db ops))) = PollsQ.chain db (ops ++ [F1, F2]) := by
    simp [PollsQ.chain, List.foldl_append]
  have hw : (F2.apply (F1.apply (PollsQ.chain db ops))).selector.whereParts
      = (PollsQ.chain db ops).selector.whereParts ++ F1.preds ++ F2.preds := by
    rw [PollsOp_apply_whereParts, PollsOp_apply_whereParts]
  have ha : boundArgs (F2.apply (F1.apply (PollsQ.chain db ops))).selector.whereParts
      = boundArgs (PollsQ.chain db ops).selector.whereParts
          ++ boundArgs F1.preds ++ boundArgs F2.preds := by
    rw [hw]
    simp [boundArgs]
  obtain ⟨raw, h1, h2, h3⟩ := PollsQ_select_bound db (ops ++ [F1, F2]) ctx
  rw [← hq] at h1 h2 h3
  refine ⟨hw, ?_, raw, ?_, ?_, ?_⟩
  · exact (whereToSql_bound _ (hq ▸ (PollsQ_chain_wellBound db (ops ++ [F1, F2])).1)).1
  · rw [← ha]; exact h1
  · rw [← ha]; exact h2
  · rw [← ha]; exact h3

/-- Two calls in a row on a reached `PollOptionsQ`: the WHERE parts, the WHERE clause and
the statement Select issues. -/
theorem PollOptionsQ_two_calls (db : DB) (ops : List PollOptionsOp) (F1 F2 : PollOptionsOp) (ctx : Context) :
    ComposedInOrder (PollOptionsQ.chain db ops).selector.whereParts F1.preds F2.preds
      (F2.apply (F1.apply (PollOptionsQ.chain db ops))).selector
      ((F2.apply (F1.apply (PollOptionsQ.chain db ops))).Select ctx) (resolveTarget db ctx) ctx := by
  have hq : (F2.apply (F1.apply (PollOptionsQ.chain db ops))) = PollOptionsQ.chain db (ops ++ [F1, F2]) := by
    simp [PollOptionsQ.chain, List.foldl_append]
  have hw : (F2.apply (F1.apply (PollOptionsQ.chain db ops))).selector.whereParts
      = (PollOptionsQ.chain db ops).selector.whereParts ++ F1.preds ++ F2.preds := by
    rw [PollOptionsOp_apply_whereParts, PollOptionsOp_apply_whereParts]
  have ha : boundArgs (F2.apply (F1.apply (PollOptionsQ.chain db ops))).selector.whereParts
      = boundArgs (PollOptionsQ.chain db ops).selector.whereParts
          ++ boundArgs F1.preds ++ boundArgs F2.preds := by
    rw [hw]
    simp [boundArgs]
  obtain ⟨raw, h1, h2, h3⟩ := PollOptionsQ_select_bound db (ops ++ [F1, F2]) ctx
  rw [← hq] at h1 h2 h3
  refine ⟨hw, ?_, raw, ?_, ?_, ?_⟩
  · exact (whereToSql_bound _ (hq ▸ (PollOptionsQ_chain_wellBound db (ops ++ [F1, F2])).1)).1
  · rw [← ha]; exact h1
  · rw [← ha]; exact h2
  · rw [← ha]; exact h3

/-- Two calls in a row on a reached `PollVotesQ`: the WHERE parts, the WHERE clause and
the statement Select issues. -/
theorem PollVotesQ_two_calls (db : DB) (ops : List PollVotesOp) (F1 F2 : PollVotesOp) (ctx : Context) :
    ComposedInOrder (PollVotesQ.chain db ops).selector.whereParts F1.preds F2.preds
      (F2.apply (F1.apply (PollVotesQ.chain db ops))).selector
      ((F2.apply (F1.apply (PollVotesQ.chain db ops))).Select ctx) (resolveTarget db ctx) ctx := by
  have hq : (F2.apply (F1.apply (PollVotesQ.chain db ops))) = PollVotesQ.chain db (ops ++ [F1, F2]) := by
    simp [PollVotesQ.chain, List.foldl_append]
  have hw : (F2.apply (F1.apply (PollVotesQ.chain db ops))).selector.whereParts
      = (PollVotesQ.chain db ops).selector.whereParts ++ F1.preds ++ F2.preds := by
    rw [PollVotesOp_apply_whereParts, PollVotesOp_apply_whereParts]
  have ha : boundArgs (F2.apply (F1.apply (PollVotesQ.chain db ops))).selector.whereParts
      = boundArgs (PollVotesQ.chain db ops).selector.whereParts
          ++ boundArgs F1.preds ++ boundArgs F2.preds := by
    rw [hw]
    simp [boundArgs]
  obtain ⟨raw, h1, h2, h3⟩ := PollVotesQ_select_bound db (ops ++ [F1, F2]) ctx
  rw [← hq] at h1 h2 h3
  refine ⟨hw, ?_, raw, ?_, ?_, ?_⟩
  · exact (whereToSql_bound _ (hq ▸ (PollVotesQ_chain_wellBound db (ops ++ [F1, F2])).1)).1
  · rw [← ha]; exact h1
  · rw [← ha]; exact h2
  · rw [← ha]; exact h3

/-- Two calls in a row on a reached `ProposalsQ`: the WHERE parts, the WHERE clause and
the statement Select issues. -/
theorem ProposalsQ_two_calls (db : DB) (ops : List ProposalsOp) (F1 F2 : ProposalsOp) (ctx : Context) :
    ComposedInOrder (ProposalsQ.chain db ops).selector.whereParts F1.preds F2.preds
      (F2.apply (F1.apply (ProposalsQ.chain db ops))).selector
      ((F2.apply (F1.apply (ProposalsQ.chain db ops))).Select ctx) (resolveTarget db ctx) ctx := by
  have hq : (F2.apply (F1.apply (ProposalsQ.chain db ops))) = ProposalsQ.chain db (ops ++ [F1, F2]) := by
    simp [ProposalsQ.chain, List.foldl_append]
  have hw : (F2.apply (F1.apply (ProposalsQ.chain db ops))).selector.whereParts
      = (ProposalsQ.chain db ops).selector.whereParts ++ F1.preds ++ F2.preds := by
    rw [ProposalsOp_apply_whereParts, ProposalsOp_apply_whereParts]
  have ha : boundArgs (F2.apply (F1.apply (ProposalsQ.chain db ops))).selector.whereParts
      = boundArgs (ProposalsQ.chain db ops).selector.whereParts
          ++ boundArgs F1.preds ++ boundArgs F2.preds := by
    rw [hw]
    simp [boundArgs]
  obtain ⟨raw, h1, h2, h3⟩ := ProposalsQ_select_bound db (ops ++ [F1, F2]) ctx
  rw [← hq] at h1 h2 h3
  refine ⟨hw, ?_, raw, ?_, ?_, ?_⟩
  · exact (whereToSql_bound _ (hq ▸ (ProposalsQ_chain_wellBound db (ops ++ [F1, F2])).1)).1
  · rw [← ha]; exact h1
  · rw [← ha]; exact h2
  · rw [← ha]; exact h3

/-- Two calls in a row on a reached `ProposalVotesQ`: the WHERE parts, the WHERE clause and
the statement Select issues. -/
theorem ProposalVotesQ_two_calls (db : DB) (ops : List ProposalVotesOp) (F1 F2 : ProposalVotesOp) (ctx : Context) :
    ComposedInOrder (ProposalVotesQ.chain db ops).selector.whereParts F1.preds F2.preds
      (F2.apply (F1.apply (ProposalVotesQ.chain db ops))).selector
      ((F2.apply (F1.apply (ProposalVotesQ.chain db ops))).Select ctx) (resolveTarget db ctx) ctx := by
  have hq : (F2.apply (F1.apply (ProposalVotesQ.chain db ops))) = ProposalVotesQ.chain db (ops ++ [F1, F2]) := by
    simp [ProposalVotesQ.chain, List.foldl_append]
  have hw : (F2.apply (F1.apply (ProposalVotesQ.chain db ops))).selector.whereParts
      = (ProposalVotesQ.chain db ops).selector.whereParts ++ F1.preds ++ F2.preds := by
    rw [ProposalVotesOp_apply_whereParts, ProposalVotesOp_apply_whereParts]
  have ha : boundArgs (F2.apply (F1.apply (ProposalVotesQ.chain db ops))).selector.whereParts
      = boundArgs (ProposalVotesQ.chain db ops).selector.whereParts
          ++ boundArgs F1.preds ++ boundArgs F2.preds := by
    rw [hw]
    simp [boundArgs]
  obtain ⟨raw, h1, h2, h3⟩ := ProposalVotesQ_select_bound db (ops ++ [F1, F2]) ctx
  rw [← hq] at h1 h2 h3
  refine ⟨hw, ?_, raw, ?_, ?_, ?_⟩
  · exact (whereToSql_bound _ (hq ▸ (ProposalVotesQ_chain_wellBound db (ops ++ [F1, F2])).1)).1
  · rw [← ha]; exact h1
  · rw [← ha]; exact h2
  · rw [← ha]; exact h3

set_option maxRecDepth 100000 in
/-- C5: for a repository value R reached from its constructor and two filter
calls F1, F2 (or ordering and Page calls, which hand no predicate to Where),
with the predicate of each filter as the source writes it, the WHERE parts of
the selector of R.F1().F2() are R's parts, then F1's predicate, then F2's; the
WHERE clause is these parts joined by AND; the bound arguments of the
statement Select issues are R's, F1's and F2's in that order, and the statement
has exactly one placeholder for each of them, which the Dollar format numbers
from left to right. The last part shows one such statement in full, the
identifier bound as the text `sq.Eq` takes from its `Value()`. -/
theorem C5_filters_compose_in_call_order :
    (∀ (db : DB) (ops : List PetitionsOp) (F1 F2 : PetitionsOp) (ctx : Context),
      ComposedInOrder (PetitionsQ.chain db ops).selector.whereParts F1.preds F2.preds
        (F2.apply (F1.apply (PetitionsQ.chain db ops))).selector
        ((F2.apply (F1.apply (PetitionsQ.chain db ops))).Select ctx) (resolveTarget db ctx) ctx) ∧
    (∀ (db : DB) (ops : List PetitionSignaturesOp) (F1 F2 : PetitionSignaturesOp) (ctx : Context),
      ComposedInOrder (PetitionSignaturesQ.chain db ops).selector.whereParts F1.preds F2.preds
        (F2.apply (F1.apply (PetitionSignaturesQ.chain db ops))).selector
        ((F2.apply (F1.apply (PetitionSignaturesQ.chain db ops))).Select ctx) (resolveTarget db ctx) ctx) ∧
    (∀ (db : DB) (ops : List PollsOp) (F1 F2 : PollsOp) (ctx : Context),
      ComposedInOrder (PollsQ.chain db ops).selector.whereParts F1.preds F2.preds
        (F2.apply (F1.apply (PollsQ.chain db ops))).selector
        ((F2.apply (F1.apply (PollsQ.chain db ops))).Select ctx) (resolveTarget db ctx) ctx) ∧
    (∀ (db : DB) (ops : List PollOptionsOp) (F1 F2 : PollOptionsOp) (ctx : Context),
      ComposedInOrder (PollOptionsQ.chain db ops).selector.whereParts F1.preds F2.preds
        (F2.apply (F1.apply (PollOptionsQ.chain db ops))).selector
        ((F2.apply (F1.apply (PollOptionsQ.chain db ops))).Select ctx) (resolveTarget db ctx) ctx) ∧
    (∀ (db : DB) (ops : List PollVotesOp) (F1 F2 : PollVotesOp) (ctx : Context),
      ComposedInOrder (PollVotesQ.chain db ops).selector.whereParts F1.preds F2.preds
        (F2.apply (F1.apply (PollVotesQ.chain db ops))).selector
        ((F2.apply (F1.apply (PollVotesQ.chain db ops))).Select ctx) (resolveTarget db ctx) ctx) ∧
    (∀ (db : DB) (ops : List ProposalsOp) (F1 F2 : ProposalsOp) (ctx : Context),
      ComposedInOrder (ProposalsQ.chain db ops).selector.whereParts F1.preds F2.preds
        (F2.apply (F1.apply (ProposalsQ.chain db ops))).selector
        ((F2.apply (F1.apply (ProposalsQ.chain db ops))).Select ctx) (resolveTarget db ctx) ctx) ∧
    (∀ (db : DB) (ops : List ProposalVotesOp) (F1 F2 : ProposalVotesOp) (ctx : Context),
      ComposedInOrder (ProposalVotesQ.chain db ops).selector.whereParts F1.preds F2.preds
        (F2.apply (F1.apply (ProposalVotesQ.chain db ops))).selector
        ((F2.apply (F1.apply (ProposalVotesQ.chain db ops))).Select ctx) (resolveTarget db ctx) ctx) ∧
    (((NewProposalsQ ⟨0⟩).FilterCityID ⟨3⟩).TitleLike "x").Select ⟨[], false⟩
      = .roundTrip ⟨.pool ⟨0⟩, .QueryContext, ⟨[], false⟩,
          "SELECT id, city_id, title, description, status, initiator_id, address_to_id, agreed_num, disagreed_num, end_date, created_at, updated_at, ST_Y(location) AS lat, ST_X(location) AS lng FROM proposals WHERE city_id = $1 AND title ILIKE $2",
          [.val (.str "00000000-0000-0000-0000-000000000003"), .val (.str "%x%")]⟩ :=
  ⟨PetitionsQ_two_calls, PetitionSignaturesQ_two_calls, PollsQ_two_calls, PollOptionsQ_two_calls, PollVotesQ_two_calls, ProposalsQ_two_calls, ProposalVotesQ_two_calls, by decide⟩

/-! ## Running the reads on a store -/

/-- On a live context a call answers with the result on the store. -/
theorem call_answer_live {α : Type} (db : DB) (ctx : Context) (m : Method) (sql : String)
    (args : List Arg) (a : α) (h : ctx.Live) :
    (Call.mk (resolveTarget db ctx) m ctx sql args).answer a = some (.ok a) := by
  obtain ⟨hc, hv⟩ := h
  unfold Call.answer resolveTarget
  simp only [hc]
  cases hval : ctx.Value CtxKey.TxKey with
  | none => simp
  | some v =>
      cases v with
      | other n => simp
      | tx p =>
          cases p with
          | none => exact absurd hval hv
          | some t => simp

/-- A call that answers without error answers with the result on the store, on
a live context. -/
theorem call_answer_ok {α : Type} (db : DB) (ctx : Context) (m : Method) (sql : String)
    (args : List Arg) (a b : α)
    (h : (Call.mk (resolveTarget db ctx) m ctx sql args).answer a = some (.ok b)) :
    ctx.Live ∧ b = a := by
  unfold Call.answer resolveTarget at h
  unfold Context.Live
  cases hc : ctx.cancelled <;> cases hval : ctx.Value CtxKey.TxKey with
  | none => simp_all
  | some v =>
      cases v with
      | other n => simp_all
      | tx p =>
          cases p with
          | none => simp_all
          | some t => simp_all

/-- A SELECT with a result column builds, so the operation makes its round trip. -/
theorem issue_select (b : SelectBuilder) (hc : b.columns.isEmpty = false) (db : DB)
    (ctx : Context) (m : Method) (wrap : String) :
    ∃ sql args, issue db ctx m wrap b.ToSql
      = .roundTrip ⟨resolveTarget db ctx, m, ctx, sql, args⟩ := by
  unfold issue SelectBuilder.ToSql SelectBuilder.toSqlRaw
  simp only [hc]
  exact ⟨_, _, rfl⟩

/-- The slice the loop of Select leaves when every row scans. -/
theorem rowsLoop_scanned {M : Type} (dests : List (Dest M)) (zero : M) :
    ∀ (cells : List (List Cell)) (out : List M),
      (∀ c ∈ cells, (scanInto dests zero c).2 = none) →
      rowsLoop dests zero cells (GoSlice.ofList out)
        = (GoSlice.ofList (out ++ cells.map (fun c => (scanInto dests zero c).1)), none) := by
  intro cells
  induction cells with
  | nil => intro out _; simp [rowsLoop]
  | cons c rest ih =>
      intro out h
      have hc := h c (List.mem_cons_self _ _)
      have hrest : ∀ c ∈ rest, (scanInto dests zero c).2 = none :=
        fun c hm => h c (List.mem_cons_of_mem _ hm)
      have happ : (GoSlice.ofList out).append (scanInto dests zero c).1
          = GoSlice.ofList (out ++ [(scanInto dests zero c).1]) := by
        cases out <;> rfl
      rw [rowsLoop]
      cases hs : scanInto dests zero c with
      | mk p err =>
          rw [hs] at hc happ
          simp only at hc
          subst hc
          simp only
          rw [happ, ih _ hrest]
          simp [hs]

/-- When the loop of Select ends without error every row has scanned. -/
theorem rowsLoop_ok {M : Type} (dests : List (Dest M)) (zero : M) :
    ∀ (cells : List (List Cell)) (out g : GoSlice M),
      rowsLoop dests zero cells out = (g, none) →
      ∀ c ∈ cells, (scanInto dests zero c).2 = none := by
  intro cells
  induction cells with
  | nil => intro out g _ c hc; cases hc
  | cons c rest ih =>
      intro out g h c' hc'
      rw [rowsLoop] at h
      cases hs : scanInto dests zero c with
      | mk p err =>
          rw [hs] at h
          cases err with
          | some e => simp at h
          | none =>
              simp only at h
              rcases List.mem_cons.mp hc' with heq | hmem
              · rw [heq, hs]
              · exact ih _ _ h c' hmem

/-- The elements of the slice a loop of `append` leaves. -/
theorem GoSlice.elems_ofList {α : Type} (l : List α) : (GoSlice.ofList l).elems = l := by
  cases l <;> rfl

/-- A Select that returns no error has run on a live context, every result row
has scanned, and the slice holds the models of the result rows in order. -/
theorem selectOn_ok {M : Type} (b : SelectBuilder) (hc : b.columns.isEmpty = false)
    (db : DB) (ctx : Context) (wrap : String) (dests : List (Dest M)) (zero : M)
    (e : Engine) (s : Store) (g : GoSlice M)
    (h : selectOn (issue db ctx .QueryContext wrap b.ToSql) dests zero e s b = some (g, none)) :
    ctx.Live ∧ (∀ c ∈ b.answer e s, (scanInto dests zero c).2 = none) ∧
      g = GoSlice.ofList ((b.answer e s).map (fun c => (scanInto dests zero c).1)) := by
  obtain ⟨sql, args, hi⟩ := issue_select b hc db ctx .QueryContext wrap
  rw [hi] at h
  simp only [selectOn] at h
  cases ha : (Call.mk (resolveTarget db ctx) .QueryContext ctx sql args).answer
      (Rows.mk (b.answer e s) none) with
  | none => rw [ha] at h; simp at h
  | some r =>
      rw [ha] at h
      cases r with
      | error err => simp [selectRows] at h
      | ok rows =>
          obtain ⟨hlive, hrows⟩ := call_answer_ok _ _ _ _ _ _ _ ha
          subst hrows
          simp only [Option.map_some', selectRows, Option.some.injEq] at h
          have hall := rowsLoop_ok dests zero _ _ _ h
          refine ⟨hlive, hall, ?_⟩
          have := rowsLoop_scanned dests zero (b.answer e s) [] hall
          simp only [List.nil_append] at this
          have h0 : (GoSlice.ofList ([] : List M)) = none := rfl
          rw [h0, h] at this
          exact (Prod.mk.inj this).1

/-- A Select on a live context whose result rows all scan returns their models. -/
theorem selectOn_live {M : Type} (b : SelectBuilder) (hc : b.columns.isEmpty = false)
    (db : DB) (ctx : Context) (wrap : String) (dests : List (Dest M)) (zero : M)
    (e : Engine) (s : Store) (hlive : ctx.Live)
    (hall : ∀ c ∈ b.answer e s, (scanInto dests zero c).2 = none) :
    selectOn (issue db ctx .QueryContext wrap b.ToSql) dests zero e s b
      = some (GoSlice.ofList ((b.answer e s).map (fun c => (scanInto dests zero c).1)), none) := by
  obtain ⟨sql, args, hi⟩ := issue_select b hc db ctx .QueryContext wrap
  rw [hi]
  simp only [selectOn]
  rw [call_answer_live _ _ _ _ _ _ hlive]
  simp only [Option.map_some', selectRows]
  have := rowsLoop_scanned dests zero (b.answer e s) [] hall
  simp only [List.nil_append] at this
  exact congrArg some this

/-- The result rows of a statement that does not count: one per picked row. -/
theorem answer_rows (b : SelectBuilder) (hn : b.columns ≠ ["COUNT(*) AS count"]) (e : Engine)
    (s : Store) : b.answer e s = (b.paged (b.ordered e s)).map (project b.columns) := by
  unfold SelectBuilder.answer SelectBuilder.rowsOn SelectBuilder.ordered
  rw [if_neg hn]

/-- The result rows after `Limit(l).Offset(o)` on a statement without LIMIT and
OFFSET: the result rows from position o, at most l of them. -/
theorem answer_page (b : SelectBuilder) (hn : b.columns ≠ ["COUNT(*) AS count"])
    (hl : b.limit = none) (ho : b.offset = none) (e : Engine) (s : Store) (l o : Nat) :
    ((b.Limit l).Offset o).answer e s = ((b.answer e s).drop o).take l := by
  rw [answer_rows _ (by exact hn), answer_rows _ hn]
  simp only [SelectBuilder.paged, SelectBuilder.Limit, SelectBuilder.Offset,
    SelectBuilder.ordered, SelectBuilder.matching, hl, ho, List.map_take, List.map_drop]

/-- A Select after `Page(l, o)` on a statement without LIMIT and OFFSET, when
the Select without the page returns no error: the elements from position o, at
most l of them. -/
theorem selectOn_page {M : Type} (b : SelectBuilder) (hc : b.columns.isEmpty = false)
    (hn : b.columns ≠ ["COUNT(*) AS count"]) (hl : b.limit = none) (ho : b.offset = none)
    (db : DB) (ctx : Context) (wrap : String) (dests : List (Dest M)) (zero : M)
    (e : Engine) (s : Store) (l o : Nat) (g : GoSlice M)
    (h : selectOn (issue db ctx .QueryContext wrap b.ToSql) dests zero e s b = some (g, none)) :
    selectOn (issue db ctx .QueryContext wrap ((b.Limit l).Offset o).ToSql) dests zero e s
        ((b.Limit l).Offset o)
      = some (GoSlice.ofList ((g.elems.drop o).take l), none) := by
  obtain ⟨hlive, hall, hg⟩ := selectOn_ok b hc db ctx wrap dests zero e s g h
  have hc2 : ((b.Limit l).Offset o).columns.isEmpty = false := hc
  have hpage := answer_page b hn hl ho e s l o
  rw [selectOn_live _ hc2 db ctx wrap dests zero e s hlive
    (by
      intro c hcm
      rw [hpage] at hcm
      exact hall c (List.mem_of_mem_drop (List.mem_of_mem_take hcm)))]
  rw [hpage, hg, GoSlice.elems_ofList, List.map_take, List.map_drop]

/-- A Get on a live context scans the first of the rows that satisfy the
filters, in the active ordering, after the OFFSET the selector carries. -/
theorem getOn_live {M : Type} (b : SelectBuilder) (hc : b.columns.isEmpty = false)
    (hn : b.columns ≠ ["COUNT(*) AS count"]) (db : DB) (ctx : Context) (wrap : String)
    (dests : List (Dest M)) (zero : M) (e : Engine) (s : Store) (hlive : ctx.Live) :
    getOn (issue db ctx .QueryRowContext wrap (b.Limit 1).ToSql) dests zero e s b
      = some (scanFirst dests zero b.columns ((b.ordered e s).drop (b.offset.getD 0))) := by
  have hc2 : (b.Limit 1).columns.isEmpty = false := hc
  have hn2 : (b.Limit 1).columns ≠ ["COUNT(*) AS count"] := hn
  obtain ⟨sql, args, hi⟩ := issue_select (b.Limit 1) hc2 db ctx .QueryRowContext wrap
  rw [hi]
  simp only [getOn]
  rw [call_answer_live _ _ _ _ _ _ hlive, answer_rows _ hn2]
  have hord : (b.Limit 1).ordered e s = b.ordered e s := rfl
  have hcols : (b.Limit 1).columns = b.columns := rfl
  rw [hord, hcols]
  simp only [Option.map_some', rowScan, SelectBuilder.paged, SelectBuilder.Limit]
  cases hoff : b.offset with
  | none =>
      simp only [Option.getD_none, List.drop_zero]
      cases b.ordered e s <;> simp [scanFirst]
  | some o =>
      simp only [Option.getD_some]
      cases (b.ordered e s).drop o <;> simp [scanFirst]

/-- The one result row of a counting statement scans into the count. -/
theorem scan_count (n : Nat) : scanInto countDests 0 [Cell.int n] = (n, none) := by
  simp [scanInto, countDests, scanLoop, scanUint64]

/-- A Count after `Page(l, o)` on a live context: the OFFSET and LIMIT cut the
one result row of the counting statement, so that the count comes back only
for offset 0 and a limit of at least 1; otherwise no row is left to scan. -/
theorem countOn_page (b : SelectBuilder) (hcnt : b.columns = ["COUNT(*) AS count"])
    (db : DB) (ctx : Context) (wrap : String) (e : Engine) (s : Store) (l o : Nat)
    (hlive : ctx.Live) :
    countOn (issue db ctx .QueryRowContext wrap ((b.Limit l).Offset o).ToSql) e s
        ((b.Limit l).Offset o)
      = some (if o = 0 ∧ 0 < l then ((b.matching e s).length, none)
          else (0, some .noRows)) := by
  have hc2 : ((b.Limit l).Offset o).columns.isEmpty = false := by
    show b.columns.isEmpty = false
    rw [hcnt]; rfl
  have hcnt2 : ((b.Limit l).Offset o).columns = ["COUNT(*) AS count"] := hcnt
  have hm : ((b.Limit l).Offset o).matching e s = b.matching e s := rfl
  obtain ⟨sql, args, hi⟩ := issue_select _ hc2 db ctx .QueryRowContext wrap
  rw [hi]
  simp only [countOn]
  rw [call_answer_live _ _ _ _ _ _ hlive]
  simp only [Option.map_some', SelectBuilder.answer, hcnt2, if_true, hm]
  simp only [SelectBuilder.paged, SelectBuilder.Limit, SelectBuilder.Offset, rowScan]
  cases o with
  | succ o => simp
  | zero =>
      cases l with
      | zero => simp
      | succ l => simp [scan_count]

/-- A Count on a live context with a counter that has no LIMIT and OFFSET: the
number of rows that satisfy the filters. -/
theorem countOn_plain (b : SelectBuilder) (hcnt : b.columns = ["COUNT(*) AS count"])
    (hl : b.limit = none) (ho : b.offset = none)
    (db : DB) (ctx : Context) (wrap : String) (e : Engine) (s : Store) (hlive : ctx.Live) :
    countOn (issue db ctx .QueryRowContext wrap b.ToSql) e s b
      = some ((b.matching e s).length, none) := by
  have hc2 : b.columns.isEmpty = false := by rw [hcnt]; rfl
  obtain ⟨sql, args, hi⟩ := issue_select _ hc2 db ctx .QueryRowContext wrap
  rw [hi]
  simp only [countOn]
  rw [call_answer_live _ _ _ _ _ _ hlive]
  simp [SelectBuilder.answer, hcnt, SelectBuilder.paged, hl, ho, rowScan, scan_count]

/-- A Select that returns no error returns the nil slice exactly when the
statement picks no row. -/
theorem selectOn_nil_iff {M : Type} (b : SelectBuilder) (hc : b.columns.isEmpty = false)
    (hn : b.columns ≠ ["COUNT(*) AS count"])
    (db : DB) (ctx : Context) (wrap : String) (dests : List (Dest M)) (zero : M)
    (e : Engine) (s : Store) (g : GoSlice M)
    (h : selectOn (issue db ctx .QueryContext wrap b.ToSql) dests zero e s b = some (g, none)) :
    (g = none ↔ b.rowsOn e s = []) ∧ g.elems.length = (b.rowsOn e s).length := by
  obtain ⟨_, _, hg⟩ := selectOn_ok b hc db ctx wrap dests zero e s g h
  have ha : b.answer e s = (b.rowsOn e s).map (project b.columns) := answer_rows b hn e s
  rw [ha] at hg
  subst hg
  constructor
  · cases b.rowsOn e s <;> simp [GoSlice.ofList]
  · rw [GoSlice.elems_ofList]; simp
/-! ## The reads of each repository on a store -/

/-- The reading statements of a value reached from `NewPetitionsQ`: the selector has
result columns and does not count, the counter counts, and both pick among
the same rows. -/
theorem PetitionsQ_chain_reads (db : DB) (ops : List PetitionsOp) :
    (PetitionsQ.chain db ops).selector.columns.isEmpty = false ∧
    (PetitionsQ.chain db ops).selector.columns ≠ ["COUNT(*) AS count"] ∧
    (PetitionsQ.chain db ops).counter.columns = ["COUNT(*) AS count"] ∧
    (∀ e s, (PetitionsQ.chain db ops).counter.matching e s = (PetitionsQ.chain db ops).selector.matching e s) ∧
    (PetitionsQ.chain db ops).counter.limit = (PetitionsQ.chain db ops).selector.limit ∧
    (PetitionsQ.chain db ops).counter.offset = (PetitionsQ.chain db ops).selector.offset := by
  obtain ⟨⟨h1, h2, h3, h4, _⟩, _⟩ := PetitionsQ_chain_shaped db ops
  obtain ⟨hw, hl, ho⟩ := foldl_keeps _ (fun q : PetitionsQ => q.statements.ReadsAgree)
    PetitionsOp_apply_readsAgree ops (NewPetitionsQ db) ⟨rfl, rfl, rfl⟩
  have h1 : (PetitionsQ.chain db ops).selector.columns = (NewPetitionsQ ⟨0⟩).selector.columns := h1
  have h2 : (PetitionsQ.chain db ops).selector.table = petitionsTable := h2
  have h4 : (PetitionsQ.chain db ops).counter.table = petitionsTable := h4
  have hw : (PetitionsQ.chain db ops).counter.whereParts = (PetitionsQ.chain db ops).selector.whereParts := hw
  refine ⟨by rw [h1]; rfl, by rw [h1]; decide, h3, ?_, hl, ho⟩
  intro e s
  unfold SelectBuilder.matching
  rw [h2, h4, hw]

/-- Count on a value reached from `NewPetitionsQ`, without and with a page. -/
theorem PetitionsQ_count_page (db : DB) (ops : List PetitionsOp) (e : Engine) (s : Store)
    (ctx : Context) (l o : Nat) (hlive : ctx.Live)
    (hl : (PetitionsQ.chain db ops).selector.limit = none) (ho : (PetitionsQ.chain db ops).selector.offset = none) :
    CountsAfterPage ((PetitionsQ.chain db ops).CountOn e s ctx) (((PetitionsQ.chain db ops).Page l o).CountOn e s ctx)
      ((PetitionsQ.chain db ops).selector.matching e s).length l o := by
  obtain ⟨_, _, hcnt, hm, hl2, ho2⟩ := PetitionsQ_chain_reads db ops
  have h1 : (PetitionsQ.chain db ops).CountOn e s ctx = some (((PetitionsQ.chain db ops).counter.matching e s).length, none) :=
    countOn_plain (PetitionsQ.chain db ops).counter hcnt (hl2.trans hl) (ho2.trans ho) _ ctx _ e s hlive
  have h2 : ((PetitionsQ.chain db ops).Page l o).CountOn e s ctx
      = some (if o = 0 ∧ 0 < l then (((PetitionsQ.chain db ops).counter.matching e s).length, none)
          else (0, some .noRows)) :=
    countOn_page (PetitionsQ.chain db ops).counter hcnt _ ctx _ e s l o hlive
  rw [hm] at h1 h2
  exact ⟨h1, h2⟩

/-- Select after Page on a value reached from `NewPetitionsQ` that carries no page. -/
theorem PetitionsQ_select_page (db : DB) (ops : List PetitionsOp) (e : Engine) (s : Store)
    (ctx : Context) (l o : Nat) (g : GoSlice PetitionModel)
    (hl : (PetitionsQ.chain db ops).selector.limit = none) (ho : (PetitionsQ.chain db ops).selector.offset = none)
    (h : (PetitionsQ.chain db ops).SelectOn e s ctx = some (g, none)) :
    ((PetitionsQ.chain db ops).Page l o).SelectOn e s ctx = some (GoSlice.ofList ((g.elems.drop o).take l), none) := by
  obtain ⟨hc, hn, _⟩ := PetitionsQ_chain_reads db ops
  exact selectOn_page _ hc hn hl ho _ ctx _ _ _ e s l o g h

/-- Get on a value reached from `NewPetitionsQ`, on a live context. -/
theorem PetitionsQ_get_first (db : DB) (ops : List PetitionsOp) (e : Engine) (s : Store)
    (ctx : Context) (hlive : ctx.Live) :
    (PetitionsQ.chain db ops).GetOn e s ctx = some (scanFirst PetitionsQ.getDests PetitionModel.zero (PetitionsQ.chain db ops).selector.columns
      (((PetitionsQ.chain db ops).selector.ordered e s).drop ((PetitionsQ.chain db ops).selector.offset.getD 0))) := by
  obtain ⟨hc, hn, _⟩ := PetitionsQ_chain_reads db ops
  exact getOn_live _ hc hn _ ctx _ _ _ e s hlive

/-- A Select without error on a value reached from `NewPetitionsQ`. -/
theorem PetitionsQ_select_nil_iff (db : DB) (ops : List PetitionsOp) (e : Engine) (s : Store)
    (ctx : Context) (g : GoSlice PetitionModel) (h : (PetitionsQ.chain db ops).SelectOn e s ctx = some (g, none)) :
    (g = none ↔ (PetitionsQ.chain db ops).selector.rowsOn e s = []) ∧
      g.elems.length = ((PetitionsQ.chain db ops).selector.rowsOn e s).length := by
  obtain ⟨hc, hn, _⟩ := PetitionsQ_chain_reads db ops
  exact selectOn_nil_iff _ hc hn _ ctx _ _ _ e s g h

/-- The reading statements of a value reached from `NewPetitionSignaturesQ`: the selector has
result columns and does not count, the counter counts, and both pick among
the same rows. -/
theorem PetitionSignaturesQ_chain_reads (db : DB) (ops : List PetitionSignaturesOp) :
    (PetitionSignaturesQ.chain db ops).selector.columns.isEmpty = false ∧
    (PetitionSignaturesQ.chain db ops).selector.columns ≠ ["COUNT(*) AS count"] ∧
    (PetitionSignaturesQ.chain db ops).counter.columns = ["COUNT(*) AS count"] ∧
    (∀ e s, (PetitionSignaturesQ.chain db ops).counter.matching e s = (PetitionSignaturesQ.chain db ops).selector.matching e s) ∧
    (PetitionSignaturesQ.chain db ops).counter.limit = (PetitionSignaturesQ.chain db ops).selector.limit ∧
    (PetitionSignaturesQ.chain db ops).counter.offset = (PetitionSignaturesQ.chain db ops).selector.offset := by
  obtain ⟨⟨h1, h2, h3, h4, _⟩, _⟩ := PetitionSignaturesQ_chain_shaped db ops
  obtain ⟨hw, hl, ho⟩ := foldl_keeps _ (fun q : PetitionSignaturesQ => q.statements.ReadsAgree)
    PetitionSignaturesOp_apply_readsAgree ops (NewPetitionSignaturesQ db) ⟨rfl, rfl, rfl⟩
  have h1 : (PetitionSignaturesQ.chain db ops).selector.columns = (NewPetitionSignaturesQ ⟨0⟩).selector.columns := h1
  have h2 : (PetitionSignaturesQ.chain db ops).selector.table = petitionSignaturesTable := h2
  have h4 : (PetitionSignaturesQ.chain db ops).counter.table = petitionSignaturesTable := h4
  have hw : (PetitionSignaturesQ.chain db ops).counter.whereParts = (PetitionSignaturesQ.chain db ops).selector.whereParts := hw
  refine ⟨by rw [h1]; rfl, by rw [h1]; decide, h3, ?_, hl, ho⟩
  intro e s
  unfold SelectBuilder.matching
  rw [h2, h4, hw]

/-- Count on a value reached from `NewPetitionSignaturesQ`, without and with a page. -/
theorem PetitionSignaturesQ_count_page (db : DB) (ops : List PetitionSignaturesOp) (e : Engine) (s : Store)
    (ctx : Context) (l o : Nat) (hlive : ctx.Live)
    (hl : (PetitionSignaturesQ.chain db ops).selector.limit = none) (ho : (PetitionSignaturesQ.chain db ops).selector.offset = none) :
    CountsAfterPage ((PetitionSignaturesQ.chain db ops).CountOn e s ctx) (((PetitionSignaturesQ.chain db ops).Page l o).CountOn e s ctx)
      ((PetitionSignaturesQ.chain db ops).selector.matching e s).length l o := by
  obtain ⟨_, _, hcnt, hm, hl2, ho2⟩ := PetitionSignaturesQ_chain_reads db ops
  have h1 : (PetitionSignaturesQ.chain db ops).CountOn e s ctx = some (((PetitionSignaturesQ.chain db ops).counter.matching e s).length, none) :=
    countOn_plain (PetitionSignaturesQ.chain db ops).counter hcnt (hl2.trans hl) (ho2.trans ho) _ ctx _ e s hlive
  have h2 : ((PetitionSignaturesQ.chain db ops).Page l o).CountOn e s ctx
      = some (if o = 0 ∧ 0 < l then (((PetitionSignaturesQ.chain db ops).counter.matching e s).length, none)
          else (0, some .noRows)) :=
    countOn_page (PetitionSignaturesQ.chain db ops).counter hcnt _ ctx _ e s l o hlive
  rw [hm] at h1 h2
  exact ⟨h1, h2⟩

/-- Select after Page on a value reached from `NewPetitionSignaturesQ` that carries no page. -/
theorem PetitionSignaturesQ_select_page (db : DB) (ops : List PetitionSignaturesOp) (e : Engine) (s : Store)
    (ctx : Context) (l o : Nat) (g : GoSlice PetitionSignature)
    (hl : (PetitionSignaturesQ.chain db ops).selector.limit = none) (ho : (PetitionSignaturesQ.chain db ops).selector.offset = none)
    (h : (PetitionSignaturesQ.chain db ops).SelectOn e s ctx = some (g, none)) :
    ((PetitionSignaturesQ.chain db ops).Page l o).SelectOn e s ctx = some (GoSlice.ofList ((g.elems.drop o).take l), none) := by
  obtain ⟨hc, hn, _⟩ := PetitionSignaturesQ_chain_reads db ops
  exact selectOn_page _ hc hn hl ho _ ctx _ _ _ e s l o g h

/-- Get on a value reached from `NewPetitionSignaturesQ`, on a live context. -/
theorem PetitionSignaturesQ_get_first (db : DB) (ops : List PetitionSignaturesOp) (e : Engine) (s : Store)
    (ctx : Context) (hlive : ctx.Live) :
    (PetitionSignaturesQ.chain db ops).GetOn e s ctx = some (scanFirst PetitionSignaturesQ.getDests PetitionSignature.zero (PetitionSignaturesQ.chain db ops).selector.columns
      (((PetitionSignaturesQ.chain db ops).selector.ordered e s).drop ((PetitionSignaturesQ.chain db ops).selector.offset.getD 0))) := by
  obtain ⟨hc, hn, _⟩ := PetitionSignaturesQ_chain_reads db ops
  exact getOn_live _ hc hn _ ctx _ _ _ e s hlive

/-- A Select without error on a value reached from `NewPetitionSignaturesQ`. -/
theorem PetitionSignaturesQ_select_nil_iff (db : DB) (ops : List PetitionSignaturesOp) (e : Engine) (s : Store)
    (ctx : Context) (g : GoSlice PetitionSignature) (h : (PetitionSignaturesQ.chain db ops).SelectOn e s ctx = some (g, none)) :
    (g = none ↔ (PetitionSignaturesQ.chain db ops).selector.rowsOn e s = []) ∧
      g.elems.length = ((PetitionSignaturesQ.chain db ops).selector.rowsOn e s).length := by
  obtain ⟨hc, hn, _⟩ := PetitionSignaturesQ_chain_reads db ops
  exact selectOn_nil_iff _ hc hn _ ctx _ _ _ e s g h

/-- The reading statements of a value reached from `NewPollsQ`: the selector has
result columns and does not count, the counter counts, and both pick among
the same rows. -/
theorem PollsQ_chain_reads (db : DB) (ops : List PollsOp) :
    (PollsQ.chain db ops).selector.columns.isEmpty = false ∧
    (PollsQ.chain db ops).selector.columns ≠ ["COUNT(*) AS count"] ∧
    (PollsQ.chain db ops).counter.columns = ["COUNT(*) AS count"] ∧
    (∀ e s, (PollsQ.chain db ops).counter.matching e s = (PollsQ.chain db ops).selector.matching e s) ∧
    (PollsQ.chain db ops).counter.limit = (PollsQ.chain db ops).selector.limit ∧
    (PollsQ.chain db ops).counter.offset = (PollsQ.chain db ops).selector.offset := by
  obtain ⟨⟨h1, h2, h3, h4, _⟩, _⟩ := PollsQ_chain_shaped db ops
  obtain ⟨hw, hl, ho⟩ := foldl_keeps _ (fun q : PollsQ => q.statements.ReadsAgree)
    PollsOp_apply_readsAgree ops (NewPollsQ db) ⟨rfl, rfl, rfl⟩
  have h1 : (PollsQ.chain db ops).selector.columns = (NewPollsQ ⟨0⟩).selector.columns := h1
  have h2 : (PollsQ.chain db ops).selector.table = pollsTable := h2
  have h4 : (PollsQ.chain db ops).counter.table = pollsTable := h4
  have hw : (PollsQ.chain db ops).counter.whereParts = (PollsQ.chain db ops).selector.whereParts := hw
  refine ⟨by rw [h1]; rfl, by rw [h1]; decide, h3, ?_, hl, ho⟩
  intro e s
  unfold SelectBuilder.matching
  rw [h2, h4, hw]

/-- Count on a value reached from `NewPollsQ`, without and with a page. -/
theorem PollsQ_count_page (db : DB) (ops : List PollsOp) (e : Engine) (s : Store)
    (ctx : Context) (l o : Nat) (hlive : ctx.Live)
    (hl : (PollsQ.chain db ops).selector.limit = none) (ho : (PollsQ.chain db ops).selector.offset = none) :
    CountsAfterPage ((PollsQ.chain db ops).CountOn e s ctx) (((PollsQ.chain db ops).Page l o).CountOn e s ctx)
      ((PollsQ.chain db ops).selector.matching e s).length l o := by
  obtain ⟨_, _, hcnt, hm, hl2, ho2⟩ := PollsQ_chain_reads db ops
  have h1 : (PollsQ.chain db ops).CountOn e s ctx = some (((PollsQ.chain db ops).counter.matching e s).length, none) :=
    countOn_plain (PollsQ.chain db ops).counter hcnt (hl2.trans hl) (ho2.trans ho) _ ctx _ e s hlive
  have h2 : ((PollsQ.chain db ops).Page l o).CountOn e s ctx
      = some (if o = 0 ∧ 0 < l then (((PollsQ.chain db ops).counter.matching e s).length, none)
          else (0, some .noRows)) :=
    countOn_page (PollsQ.chain db ops).counter hcnt _ ctx _ e s l o hlive
  rw [hm] at h1 h2
  exact ⟨h1, h2⟩

/-- Select after Page on a value reached from `NewPollsQ` that carries no page. -/
theorem PollsQ_select_page (db : DB) (ops : List PollsOp) (e : Engine) (s : Store)
    (ctx : Context) (l o : Nat) (g : GoSlice PollModel)
    (hl : (PollsQ.chain db ops).selector.limit = none) (ho : (PollsQ.chain db ops).selector.offset = none)
    (h : (PollsQ.chain db ops).SelectOn e s ctx = some (g, none)) :
    ((PollsQ.chain db ops).Page l o).SelectOn e s ctx = some (GoSlice.ofList ((g.elems.drop o).take l), none) := by
  obtain ⟨hc, hn, _⟩ := PollsQ_chain_reads db ops
  exact selectOn_page _ hc hn hl ho _ ctx _ _ _ e s l o g h

/-- Get on a value reached from `NewPollsQ`, on a live context. -/
theorem PollsQ_get_first (db : DB) (ops : List PollsOp) (e : Engine) (s : Store)
    (ctx : Context) (hlive : ctx.Live) :
    (PollsQ.chain db ops).GetOn e s ctx = some (scanFirst PollsQ.getDests PollModel.zero (PollsQ.chain db ops).selector.columns
      (((PollsQ.chain db ops).selector.ordered e s).drop ((PollsQ.chain db ops).selector.offset.getD 0))) := by
  obtain ⟨hc, hn, _⟩ := PollsQ_chain_reads db ops
  exact getOn_live _ hc hn _ ctx _ _ _ e s hlive

/-- A Select without error on a value reached from `NewPollsQ`. -/
theorem PollsQ_select_nil_iff (db : DB) (ops : List PollsOp) (e : Engine) (s : Store)
    (ctx : Context) (g : GoSlice PollModel) (h : (PollsQ.chain db ops).SelectOn e s ctx = some (g, none)) :
    (g = none ↔ (PollsQ.chain db ops).selector.rowsOn e s = []) ∧
      g.elems.length = ((PollsQ.chain db ops).selector.rowsOn e s).length := by
  obtain ⟨hc, hn, _⟩ := PollsQ_chain_reads db ops
  exact selectOn_nil_iff _ hc hn _ ctx _ _ _ e s g h

/-- The reading statements of a value reached from `NewPollOptionsQ`: the selector has
result columns and does not count, the counter counts, and both pick among
the same rows. -/
theorem PollOptionsQ_chain_reads (db : DB) (ops : List PollOptionsOp) :
    (PollOptionsQ.chain db ops).selector.columns.isEmpty = false ∧
    (PollOptionsQ.chain db ops).selector.columns ≠ ["COUNT(*) AS count"] ∧
    (PollOptionsQ.chain db ops).counter.columns = ["COUNT(*) AS count"] ∧
    (∀ e s, (PollOptionsQ.chain db ops).counter.matching e s = (PollOptionsQ.chain db ops).selector.matching e s) ∧
    (PollOptionsQ.chain db ops).counter.limit = (PollOptionsQ.chain db ops).selector.limit ∧
    (PollOptionsQ.chain db ops).counter.offset = (PollOptionsQ.chain db ops).selector.offset := by
  obtain ⟨⟨h1, h2, h3, h4, _⟩, _⟩ := PollOptionsQ_chain_shaped db ops
  obtain ⟨hw, hl, ho⟩ := foldl_keeps _ (fun q : PollOptionsQ => q.statements.ReadsAgree)
    PollOptionsOp_apply_readsAgree ops (NewPollOptionsQ db) ⟨rfl, rfl, rfl⟩
  have h1 : (PollOptionsQ.chain db ops).selector.columns = (NewPollOptionsQ ⟨0⟩).selector.columns := h1
  have h2 : (PollOptionsQ.chain db ops).selector.table = pollOptionsTable := h2
  have h4 : (PollOptionsQ.chain db ops).counter.table = pollOptionsTable := h4
  have hw : (PollOptionsQ.chain db ops).counter.whereParts = (PollOptionsQ.chain db ops).selector.whereParts := hw
  refine ⟨by rw [h1]; rfl, by rw [h1]; decide, h3, ?_, hl, ho⟩
  intro e s
  unfold SelectBuilder.matching
  rw [h2, h4, hw]

/-- Count on a value reached from `NewPollOptionsQ`, without and with a page. -/
theorem PollOptionsQ_count_page (db : DB) (ops : List PollOptionsOp) (e : Engine) (s : Store)
    (ctx : Context) (l o : Nat) (hlive : ctx.Live)
    (hl : (PollOptionsQ.chain db ops).selector.limit = none) (ho : (PollOptionsQ.chain db ops).selector.offset = none) :
    CountsAfterPage ((PollOptionsQ.chain db ops).CountOn e s ctx) (((PollOptionsQ.chain db ops).Page l o).CountOn e s ctx)
      ((PollOptionsQ.chain db ops).selector.matching e s).length l o := by
  obtain ⟨_, _, hcnt, hm, hl2, ho2⟩ := PollOptionsQ_chain_reads db ops
  have h1 : (PollOptionsQ.chain db ops).CountOn e s ctx = some (((PollOptionsQ.chain db ops).counter.matching e s).length, none) :=
    countOn_plain (PollOptionsQ.chain db ops).counter hcnt (hl2.trans hl) (ho2.trans ho) _ ctx _ e s hlive
  have h2 : ((PollOptionsQ.chain db ops).Page l o).CountOn e s ctx
      = some (if o = 0 ∧ 0 < l then (((PollOptionsQ.chain db ops).counter.matching e s).length, none)
          else (0, some .noRows)) :=
    countOn_page (PollOptionsQ.chain db ops).counter hcnt _ ctx _ e s l o hlive
  rw [hm] at h1 h2
  exact ⟨h1, h2⟩

/-- Select after Page on a value reached from `NewPollOptionsQ` that carries no page. -/
theorem PollOptionsQ_select_page (db : DB) (ops : List PollOptionsOp) (e : Engine) (s : Store)
    (ctx : Context) (l o : Nat) (g : GoSlice PollOption)
    (hl : (PollOptionsQ.chain db ops).selector.limit = none) (ho : (PollOptionsQ.chain db ops).selector.offset = none)
    (h : (PollOptionsQ.chain db ops).SelectOn e s ctx = some (g, none)) :
    ((PollOptionsQ.chain db ops).Page l o).SelectOn e s ctx = some (GoSlice.ofList ((g.elems.drop o).take l), none) := by
  obtain ⟨hc, hn, _⟩ := PollOptionsQ_chain_reads db ops
  exact selectOn_page _ hc hn hl ho _ ctx _ _ _ e s l o g h

/-- Get on a value reached from `NewPollOptionsQ`, on a live context. -/
theorem PollOptionsQ_get_first (db : DB) (ops : List PollOptionsOp) (e : Engine) (s : Store)
    (ctx : Context) (hlive : ctx.Live) :
    (PollOptionsQ.chain db ops).GetOn e s ctx = some (scanFirst PollOptionsQ.getDests PollOption.zero (PollOptionsQ.chain db ops).selector.columns
      (((PollOptionsQ.chain db ops).selector.ordered e s).drop ((PollOptionsQ.chain db ops).selector.offset.getD 0))) := by
  obtain ⟨hc, hn, _⟩ := PollOptionsQ_chain_reads db ops
  exact getOn_live _ hc hn _ ctx _ _ _ e s hlive

/-- A Select without error on a value reached from `NewPollOptionsQ`. -/
theorem PollOptionsQ_select_nil_iff (db : DB) (ops : List PollOptionsOp) (e : Engine) (s : Store)
    (ctx : Context) (g : GoSlice PollOption) (h : (PollOptionsQ.chain db ops).SelectOn e s ctx = some (g, none)) :
    (g = none ↔ (PollOptionsQ.chain db ops).selector.rowsOn e s = []) ∧
      g.elems.length = ((PollOptionsQ.chain db ops).selector.rowsOn e s).length := by
  obtain ⟨hc, hn, _⟩ := PollOptionsQ_chain_reads db ops
  exact selectOn_nil_iff _ hc hn _ ctx _ _ _ e s g h

/-- The reading statements of a value reached from `NewPollVotesQ`: the selector has
result columns and does not count, the counter counts, and both pick among
the same rows. -/
theorem PollVotesQ_chain_reads (db : DB) (ops : List PollVotesOp) :
    (PollVotesQ.chain db ops).selector.columns.isEmpty = false ∧
    (PollVotesQ.chain db ops).selector.columns ≠ ["COUNT(*) AS count"] ∧
    (PollVotesQ.chain db ops).counter.columns = ["COUNT(*) AS count"] ∧
    (∀ e s, (PollVotesQ.chain db ops).counter.matching e s = (PollVotesQ.chain db ops).selector.matching e s) ∧
    (PollVotesQ.chain db ops).counter.limit = (PollVotesQ.chain db ops).selector.limit ∧
    (PollVotesQ.chain db ops).counter.offset = (PollVotesQ.chain db ops).selector.offset := by
  obtain ⟨⟨h1, h2, h3, h4, _⟩, _⟩ := PollVotesQ_chain_shaped db ops
  obtain ⟨hw, hl, ho⟩ := foldl_keeps _ (fun q : PollVotesQ => q.statements.ReadsAgree)
    PollVotesOp_apply_readsAgree ops (NewPollVotesQ db) ⟨rfl, rfl, rfl⟩
  have h1 : (PollVotesQ.chain db ops).selector.columns = (NewPollVotesQ ⟨0⟩).selector.columns := h1
  have h2 : (PollVotesQ.chain db ops).selector.table = pollVotesTable := h2
  have h4 : (PollVotesQ.chain db ops).counter.table = pollVotesTable := h4
  have hw : (PollVotesQ.chain db ops).counter.whereParts = (PollVotesQ.chain db ops).selector.whereParts := hw
  refine ⟨by rw [h1]; rfl, by rw [h1]; decide, h3, ?_, hl, ho⟩
  intro e s
  unfold SelectBuilder.matching
  rw [h2, h4, hw]

/-- Count on a value reached from `NewPollVotesQ`, without and with a page. -/
theorem PollVotesQ_count_page (db : DB) (ops : List PollVotesOp) (e : Engine) (s : Store)
    (ctx : Context) (l o : Nat) (hlive : ctx.Live)
    (hl : (PollVotesQ.chain db ops).selector.limit = none) (ho : (PollVotesQ.chain db ops).selector.offset = none) :
    CountsAfterPage ((PollVotesQ.chain db ops).CountOn e s ctx) (((PollVotesQ.chain db ops).Page l o).CountOn e s ctx)
      ((PollVotesQ.chain db ops).selector.matching e s).length l o := by
  obtain ⟨_, _, hcnt, hm, hl2, ho2⟩ := PollVotesQ_chain_reads db ops
  have h1 : (PollVotesQ.chain db ops).CountOn e s ctx = some (((PollVotesQ.chain db ops).counter.matching e s).length, none) :=
    countOn_plain (PollVotesQ.chain db ops).counter hcnt (hl2.trans hl) (ho2.trans ho) _ ctx _ e s hlive
  have h2 : ((PollVotesQ.chain db ops).Page l o).CountOn e s ctx
      = some (if o = 0 ∧ 0 < l then (((PollVotesQ.chain db ops).counter.matching e s).length, none)
          else (0, some .noRows)) :=
    countOn_page (PollVotesQ.chain db ops).counter hcnt _ ctx _ e s l o hlive
  rw [hm] at h1 h2
  exact ⟨h1, h2⟩

/-- Select after Page on a value reached from `NewPollVotesQ` that carries no page. -/
theorem PollVotesQ_select_page (db : DB) (ops : List PollVotesOp) (e : Engine) (s : Store)
    (ctx : Context) (l o : Nat) (g : GoSlice PollVoteModel)
    (hl : (PollVotesQ.chain db ops).selector.limit = none) (ho : (PollVotesQ.chain db ops).selector.offset = none)
    (h : (PollVotesQ.chain db ops).SelectOn e s ctx = some (g, none)) :
    ((PollVotesQ.chain db ops).Page l o).SelectOn e s ctx = some (GoSlice.ofList ((g.elems.drop o).take l), none) := by
  obtain ⟨hc, hn, _⟩ := PollVotesQ_chain_reads db ops
  exact selectOn_page _ hc hn hl ho _ ctx _ _ _ e s l o g h

/-- Get on a value reached from `NewPollVotesQ`, on a live context. -/
theorem PollVotesQ_get_first (db : DB) (ops : List PollVotesOp) (e : Engine) (s : Store)
    (ctx : Context) (hlive : ctx.Live) :
    (PollVotesQ.chain db ops).GetOn e s ctx = some (scanFirst PollVotesQ.getDests PollVoteModel.zero (PollVotesQ.chain db ops).selector.columns
      (((PollVotesQ.chain db ops).selector.ordered e s).drop ((PollVotesQ.chain db ops).selector.offset.getD 0))) := by
  obtain ⟨hc, hn, _⟩ := PollVotesQ_chain_reads db ops
  exact getOn_live _ hc hn _ ctx _ _ _ e s hlive

/-- A Select without error on a value reached from `NewPollVotesQ`. -/
theorem PollVotesQ_select_nil_iff (db : DB) (ops : List PollVotesOp) (e : Engine) (s : Store)
    (ctx : Context) (g : GoSlice PollVoteModel) (h : (PollVotesQ.chain db ops).SelectOn e s ctx = some (g, none)) :
    (g = none ↔ (PollVotesQ.chain db ops).selector.rowsOn e s = []) ∧
      g.elems.length = ((PollVotesQ.chain db ops).selector.rowsOn e s).length := by
  obtain ⟨hc, hn, _⟩ := PollVotesQ_chain_reads db ops
  exact selectOn_nil_iff _ hc hn _ ctx _ _ _ e s g h

/-- The reading statements of a value reached from `NewProposalsQ`: the selector has
result columns and does not count, the counter counts, and both pick among
the same rows. -/
theorem ProposalsQ_chain_reads (db : DB) (ops : List ProposalsOp) :
    (ProposalsQ.chain db ops).selector.columns.isEmpty = false ∧
    (ProposalsQ.chain db ops).selector.columns ≠ ["COUNT(*) AS count"] ∧
    (ProposalsQ.chain db ops).counter.columns = ["COUNT(*) AS count"] ∧
    (∀ e s, (ProposalsQ.chain db ops).counter.matching e s = (ProposalsQ.chain db ops).selector.matching e s) ∧
    (ProposalsQ.chain db ops).counter.limit = (ProposalsQ.chain db ops).selector.limit ∧
    (ProposalsQ.chain db ops).counter.offset = (ProposalsQ.chain db ops).selector.offset := by
  obtain ⟨⟨h1, h2, h3, h4, _⟩, _⟩ := ProposalsQ_chain_shaped db ops
  obtain ⟨hw, hl, ho⟩ := foldl_keeps _ (fun q : ProposalsQ => q.statements.ReadsAgree)
    ProposalsOp_apply_readsAgree ops (NewProposalsQ db) ⟨rfl, rfl, rfl⟩
  have h1 : (ProposalsQ.chain db ops).selector.columns = (NewProposalsQ ⟨0⟩).selector.columns := h1
  have h2 : (ProposalsQ.chain db ops).selector.table = proposalsTable := h2
  have h4 : (ProposalsQ.chain db ops).counter.table = proposalsTable := h4
  have hw : (ProposalsQ.chain db ops).counter.whereParts = (ProposalsQ.chain db ops).selector.whereParts := hw
  refine ⟨by rw [h1]; rfl, by rw [h1]; decide, h3, ?_, hl, ho⟩
  intro e s
  unfold SelectBuilder.matching
  rw [h2, h4, hw]

/-- Count on a value reached from `NewProposalsQ`, without and with a page. -/
theorem ProposalsQ_count_page (db : DB) (ops : List ProposalsOp) (e : Engine) (s : Store)
    (ctx : Context) (l o : Nat) (hlive : ctx.Live)
    (hl : (ProposalsQ.chain db ops).selector.limit = none) (ho : (ProposalsQ.chain db ops).selector.offset = none) :
    CountsAfterPage ((ProposalsQ.chain db ops).CountOn e s ctx) (((ProposalsQ.chain db ops).Page l o).CountOn e s ctx)
      ((ProposalsQ.chain db ops).selector.matching e s).length l o := by
  obtain ⟨_, _, hcnt, hm, hl2, ho2⟩ := ProposalsQ_chain_reads db ops
  have h1 : (ProposalsQ.chain db ops).CountOn e s ctx = some (((ProposalsQ.chain db ops).counter.matching e s).length, none) :=
    countOn_plain (ProposalsQ.chain db ops).counter hcnt (hl2.trans hl) (ho2.trans ho) _ ctx _ e s hlive
  have h2 : ((ProposalsQ.chain db ops).Page l o).CountOn e s ctx
      = some (if o = 0 ∧ 0 < l then (((ProposalsQ.chain db ops).counter.matching e s).length, none)
          else (0, some .noRows)) :=
    countOn_page (ProposalsQ.chain db ops).counter hcnt _ ctx _ e s l o hlive
  rw [hm] at h1 h2
  exact ⟨h1, h2⟩

/-- Select after Page on a value reached from `NewProposalsQ` that carries no page. -/
theorem ProposalsQ_select_page (db : DB) (ops : List ProposalsOp) (e : Engine) (s : Store)
    (ctx : Context) (l o : Nat) (g : GoSlice Proposal)
    (hl : (ProposalsQ.chain db ops).selector.limit = none) (ho : (ProposalsQ.chain db ops).selector.offset = none)
    (h : (ProposalsQ.chain db ops).SelectOn e s ctx = some (g, none)) :
    ((ProposalsQ.chain db ops).Page l o).SelectOn e s ctx = some (GoSlice.ofList ((g.elems.drop o).take l), none) := by
  obtain ⟨hc, hn, _⟩ := ProposalsQ_chain_reads db ops
  exact selectOn_page _ hc hn hl ho _ ctx _ _ _ e s l o g h

/-- Get on a value reached from `NewProposalsQ`, on a live context. -/
theorem ProposalsQ_get_first (db : DB) (ops : List ProposalsOp) (e : Engine) (s : Store)
    (ctx : Context) (hlive : ctx.Live) :
    (ProposalsQ.chain db ops).GetOn e s ctx = some (scanFirst ProposalsQ.getDests Proposal.zero (ProposalsQ.chain db ops).selector.columns
      (((ProposalsQ.chain db ops).selector.ordered e s).drop ((ProposalsQ.chain db ops).selector.offset.getD 0))) := by
  obtain ⟨hc, hn, _⟩ := ProposalsQ_chain_reads db ops
  exact getOn_live _ hc hn _ ctx _ _ _ e s hlive

/-- A Select without error on a value reached from `NewProposalsQ`. -/
theorem ProposalsQ_select_nil_iff (db : DB) (ops : List ProposalsOp) (e : Engine) (s : Store)
    (ctx : Context) (g : GoSlice Proposal) (h : (ProposalsQ.chain db ops).SelectOn e s ctx = some (g, none)) :
    (g = none ↔ (ProposalsQ.chain db ops).selector.rowsOn e s = []) ∧
      g.elems.length = ((ProposalsQ.chain db ops).selector.rowsOn e s).length := by
  obtain ⟨hc, hn, _⟩ := ProposalsQ_chain_reads db ops
  exact selectOn_nil_iff _ hc hn _ ctx _ _ _ e s g h

/-- The reading statements of a value reached from `NewProposalVotesQ`: the selector has
result columns and does not count, the counter counts, and both pick among
the same rows. -/
theorem ProposalVotesQ_chain_reads (db : DB) (ops : List ProposalVotesOp) :
    (ProposalVotesQ.chain db ops).selector.columns.isEmpty = false ∧
    (ProposalVotesQ.chain db ops).selector.columns ≠ ["COUNT(*) AS count"] ∧
    (ProposalVotesQ.chain db ops).counter.columns = ["COUNT(*) AS count"] ∧
    (∀ e s, (ProposalVotesQ.chain db ops).counter.matching e s = (ProposalVotesQ.chain db ops).selector.matching e s) ∧
    (ProposalVotesQ.chain db ops).counter.limit = (ProposalVotesQ.chain db ops).selector.limit ∧
    (ProposalVotesQ.chain db ops).counter.offset = (ProposalVotesQ.chain db ops).selector.offset := by
  obtain ⟨⟨h1, h2, h3, h4, _⟩, _⟩ := ProposalVotesQ_chain_shaped db ops
  obtain ⟨hw, hl, ho⟩ := foldl_keeps _ (fun q : ProposalVotesQ => q.statements.ReadsAgree)
    ProposalVotesOp_apply_readsAgree ops (NewProposalVotesQ db) ⟨rfl, rfl, rfl⟩
  have h1 : (ProposalVotesQ.chain db ops).selector.columns = (NewProposalVotesQ ⟨0⟩).selector.columns := h1
  have h2 : (ProposalVotesQ.chain db ops).selector.table = proposalVotesTable := h2
  have h4 : (ProposalVotesQ.chain db ops).counter.table = proposalVotesTable := h4
  have hw : (ProposalVotesQ.chain db ops).counter.whereParts = (ProposalVotesQ.chain db ops).selector.whereParts := hw
  refine ⟨by rw [h1]; rfl, by rw [h1]; decide, h3, ?_, hl, ho⟩
  intro e s
  unfold SelectBuilder.matching
  rw [h2, h4, hw]

/-- Count on a value reached from `NewProposalVotesQ`, without and with a page. -/
theorem ProposalVotesQ_count_page (db : DB) (ops : List ProposalVotesOp) (e : Engine) (s : Store)
    (ctx : Context) (l o : Nat) (hlive : ctx.Live)
    (hl : (ProposalVotesQ.chain db ops).selector.limit = none) (ho : (ProposalVotesQ.chain db ops).selector.offset = none) :
    CountsAfterPage ((ProposalVotesQ.chain db ops).CountOn e s ctx) (((ProposalVotesQ.chain db ops).Page l o).CountOn e s ctx)
      ((ProposalVotesQ.chain db ops).selector.matching e s).length l o := by
  obtain ⟨_, _, hcnt, hm, hl2, ho2⟩ := ProposalVotesQ_chain_reads db ops
  have h1 : (ProposalVotesQ.chain db ops).CountOn e s ctx = some (((ProposalVotesQ.chain db ops).counter.matching e s).length, none) :=
    countOn_plain (ProposalVotesQ.chain db ops).counter hcnt (hl2.trans hl) (ho2.trans ho) _ ctx _ e s hlive
  have h2 : ((ProposalVotesQ.chain db ops).Page l o).CountOn e s ctx
      = some (if o = 0 ∧ 0 < l then (((ProposalVotesQ.chain db ops).counter.matching e s).length, none)
          else (0, some .noRows)) :=
    countOn_page (ProposalVotesQ.chain db ops).counter hcnt _ ctx _ e s l o hlive
  rw [hm] at h1 h2
  exact ⟨h1, h2⟩

/-- Select after Page on a value reached from `NewProposalVotesQ` that carries no page. -/
theorem ProposalVotesQ_select_page (db : DB) (ops : List ProposalVotesOp) (e : Engine) (s : Store)
    (ctx : Context) (l o : Nat) (g : GoSlice ProposalVoteModel)
    (hl : (ProposalVotesQ.chain db ops).selector.limit = none) (ho : (ProposalVotesQ.chain db ops).selector.offset = none)
    (h : (ProposalVotesQ.chain db ops).SelectOn e s ctx = some (g, none)) :
    ((ProposalVotesQ.chain db ops).Page l o).SelectOn e s ctx = some (GoSlice.ofList ((g.elems.drop o).take l), none) := by
  obtain ⟨hc, hn, _⟩ := ProposalVotesQ_chain_reads db ops
  exact selectOn_page _ hc hn hl ho _ ctx _ _ _ e s l o g h

/-- Get on a value reached from `NewProposalVotesQ`, on a live context. -/
theorem ProposalVotesQ_get_first (db : DB) (ops : List ProposalVotesOp) (e : Engine) (s : Store)
    (ctx : Context) (hlive : ctx.Live) :
    (ProposalVotesQ.chain db ops).GetOn e s ctx = some (scanFirst ProposalVotesQ.getDests ProposalVoteModel.zero (ProposalVotesQ.chain db ops).selector.columns
      (((ProposalVotesQ.chain db ops).selector.ordered e s).drop ((ProposalVotesQ.chain db ops).selector.offset.getD 0))) := by
  obtain ⟨hc, hn, _⟩ := ProposalVotesQ_chain_reads db ops
  exact getOn_live _ hc hn _ ctx _ _ _ e s hlive

/-- A Select without error on a value reached from `NewProposalVotesQ`. -/
theorem ProposalVotesQ_select_nil_iff (db : DB) (ops : List ProposalVotesOp) (e : Engine) (s : Store)
    (ctx : Context) (g : GoSlice ProposalVoteModel) (h : (ProposalVotesQ.chain db ops).SelectOn e s ctx = some (g, none)) :
    (g = none ↔ (ProposalVotesQ.chain db ops).selector.rowsOn e s = []) ∧
      g.elems.length = ((ProposalVotesQ.chain db ops).selector.rowsOn e s).length := by
  obtain ⟨hc, hn, _⟩ := ProposalVotesQ_chain_reads db ops
  exact selectOn_nil_iff _ hc hn _ ctx _ _ _ e s g h

/-- C11, as the code behaves: `Page` puts its LIMIT and OFFSET on the counter
too, and they cut the one result row of `SELECT COUNT(*)`. On a live context
and for a value R reached from a constructor that carries no page, R.Count
returns the number of rows that satisfy R's filters, but R.Page(l, o).Count
returns that number only for o = 0 and l > 0; for every other limit and offset
it returns 0 together with `sql.ErrNoRows`. -/
theorem C11_count_after_page_loses_its_row :
    (∀ (db : DB) (ops : List PetitionsOp) (e : Engine) (s : Store) (ctx : Context) (l o : Nat),
      ctx.Live → (PetitionsQ.chain db ops).selector.limit = none →
      (PetitionsQ.chain db ops).selector.offset = none →
      CountsAfterPage ((PetitionsQ.chain db ops).CountOn e s ctx)
        (((PetitionsQ.chain db ops).Page l o).CountOn e s ctx)
        ((PetitionsQ.chain db ops).selector.matching e s).length l o) ∧
    (∀ (db : DB) (ops : List PetitionSignaturesOp) (e : Engine) (s : Store) (ctx : Context) (l o : Nat),
      ctx.Live → (PetitionSignaturesQ.chain db ops).selector.limit = none →
      (PetitionSignaturesQ.chain db ops).selector.offset = none →
      CountsAfterPage ((PetitionSignaturesQ.chain db ops).CountOn e s ctx)
        (((PetitionSignaturesQ.chain db ops).Page l o).CountOn e s ctx)
        ((PetitionSignaturesQ.chain db ops).selector.matching e s).length l o) ∧
    (∀ (db : DB) (ops : List PollsOp) (e : Engine) (s : Store) (ctx : Context) (l o : Nat),
      ctx.Live → (PollsQ.chain db ops).selector.limit = none →
      (PollsQ.chain db ops).selector.offset = none →
      CountsAfterPage ((PollsQ.chain db ops).CountOn e s ctx)
        (((PollsQ.chain db ops).Page l o).CountOn e s ctx)
        ((PollsQ.chain db ops).selector.matching e s).length l o) ∧
    (∀ (db : DB) (ops : List PollOptionsOp) (e : Engine) (s : Store) (ctx : Context) (l o : Nat),
      ctx.Live → (PollOptionsQ.chain db ops).selector.limit = none →
      (PollOptionsQ.chain db ops).selector.offset = none →
      CountsAfterPage ((PollOptionsQ.chain db ops).CountOn e s ctx)
        (((PollOptionsQ.chain db ops).Page l o).CountOn e s ctx)
        ((PollOptionsQ.chain db ops).selector.matching e s).length l o) ∧
    (∀ (db : DB) (ops : List PollVotesOp) (e : Engine) (s : Store) (ctx : Context) (l o : Nat),
      ctx.Live → (PollVotesQ.chain db ops).selector.limit = none →
      (PollVotesQ.chain db ops).selector.offset = none →
      CountsAfterPage ((PollVotesQ.chain db ops).CountOn e s ctx)
        (((PollVotesQ.chain db ops).Page l o).CountOn e s ctx)
        ((PollVotesQ.chain db ops).selector.matching e s).length l o) ∧
    (∀ (db : DB) (ops : List ProposalsOp) (e : Engine) (s : Store) (ctx : Context) (l o : Nat),
      ctx.Live → (ProposalsQ.chain db ops).selector.limit = none →
      (ProposalsQ.chain db ops).selector.offset = none →
      CountsAfterPage ((ProposalsQ.chain db ops).CountOn e s ctx)
        (((ProposalsQ.chain db ops).Page l o).CountOn e s ctx)
        ((ProposalsQ.chain db ops).selector.matching e s).length l o) ∧
    (∀ (db : DB) (ops : List ProposalVotesOp) (e : Engine) (s : Store) (ctx : Context) (l o : Nat),
      ctx.Live → (ProposalVotesQ.chain db ops).selector.limit = none →
      (ProposalVotesQ.chain db ops).selector.offset = none →
      CountsAfterPage ((ProposalVotesQ.chain db ops).CountOn e s ctx)
        (((ProposalVotesQ.chain db ops).Page l o).CountOn e s ctx)
        ((ProposalVotesQ.chain db ops).selector.matching e s).length l o) :=
  ⟨fun db ops e s ctx l o hlive hl ho => PetitionsQ_count_page db ops e s ctx l o hlive hl ho,
   fun db ops e s ctx l o hlive hl ho => PetitionSignaturesQ_count_page db ops e s ctx l o hlive hl ho,
   fun db ops e s ctx l o hlive hl ho => PollsQ_count_page db ops e s ctx l o hlive hl ho,
   fun db ops e s ctx l o hlive hl ho => PollOptionsQ_count_page db ops e s ctx l o hlive hl ho,
   fun db ops e s ctx l o hlive hl ho => PollVotesQ_count_page db ops e s ctx l o hlive hl ho,
   fun db ops e s ctx l o hlive hl ho => ProposalsQ_count_page db ops e s ctx l o hlive hl ho,
   fun db ops e s ctx l o hlive hl ho => ProposalVotesQ_count_page db ops e s ctx l o hlive hl ho⟩

/-- C11 at a store with two petition signatures: Count on the fresh repository
returns 2, and after `Page(10, 1)` it returns 0 and `sql.ErrNoRows`, from the
statement `SELECT COUNT(*) AS count FROM petition_signatures LIMIT 10 OFFSET 1`. -/
theorem C11_count_witness :
    Context.background.Live ∧
    (NewPetitionSignaturesQ ⟨0⟩).CountOn Engine.strict sampleStore Context.background
      = some (2, none) ∧
    ((NewPetitionSignaturesQ ⟨0⟩).Page 10 1).CountOn Engine.strict sampleStore Context.background
      = some (0, some .noRows) ∧
    ((NewPetitionSignaturesQ ⟨0⟩).Page 10 1).Count Context.background
      = .roundTrip ⟨.pool ⟨0⟩, .QueryRowContext, Context.background,
          "SELECT COUNT(*) AS count FROM petition_signatures LIMIT 10 OFFSET 1", []⟩ :=
  ⟨by decide,
   (C11_count_after_page_loses_its_row.2.1 ⟨0⟩ [] Engine.strict sampleStore
      Context.background 10 1 (by decide) rfl rfl).1,
   (C11_count_after_page_loses_its_row.2.1 ⟨0⟩ [] Engine.strict sampleStore
      Context.background 10 1 (by decide) rfl rfl).2,
   by decide⟩

/-- C12: for every repository value R reached from a constructor by filter and
ordering calls, so that it carries no LIMIT and OFFSET of its own and
R.Select fetches all rows, for every store, context, limit and offset: when
R.Select returns a sequence without error then R.Page(limit, offset).Select
returns, without error, exactly the elements at positions
[offset, offset+limit) of that sequence, in the same order (the nil slice when
there is none). -/
theorem C12_page_select_is_the_slice :
    (∀ (db : DB) (ops : List PetitionsOp) (e : Engine) (s : Store) (ctx : Context) (l o : Nat)
        (g : GoSlice PetitionModel),
      (PetitionsQ.chain db ops).selector.limit = none → (PetitionsQ.chain db ops).selector.offset = none →
      (PetitionsQ.chain db ops).SelectOn e s ctx = some (g, none) →
      ((PetitionsQ.chain db ops).Page l o).SelectOn e s ctx
        = some (GoSlice.ofList ((g.elems.drop o).take l), none)) ∧
    (∀ (db : DB) (ops : List PetitionSignaturesOp) (e : Engine) (s : Store) (ctx : Context) (l o : Nat)
        (g : GoSlice PetitionSignature),
      (PetitionSignaturesQ.chain db ops).selector.limit = none → (PetitionSignaturesQ.chain db ops).selector.offset = none →
      (PetitionSignaturesQ.chain db ops).SelectOn e s ctx = some (g, none) →
      ((PetitionSignaturesQ.chain db ops).Page l o).SelectOn e s ctx
        = some (GoSlice.ofList ((g.elems.drop o).take l), none)) ∧
    (∀ (db : DB) (ops : List PollsOp) (e : Engine) (s : Store) (ctx : Context) (l o : Nat)
        (g : GoSlice PollModel),
      (PollsQ.chain db ops).selector.limit = none → (PollsQ.chain db ops).selector.offset = none →
      (PollsQ.chain db ops).SelectOn e s ctx = some (g, none) →
      ((PollsQ.chain db ops).Page l o).SelectOn e s ctx
        = some (GoSlice.ofList ((g.elems.drop o).take l), none)) ∧
    (∀ (db : DB) (ops : List PollOptionsOp) (e : Engine) (s : Store) (ctx : Context) (l o : Nat)
        (g : GoSlice PollOption),
      (PollOptionsQ.chain db ops).selector.limit = none → (PollOptionsQ.chain db ops).selector.offset = none →
      (PollOptionsQ.chain db ops).SelectOn e s ctx = some (g, none) →
      ((PollOptionsQ.chain db ops).Page l o).SelectOn e s ctx
        = some (GoSlice.ofList ((g.elems.drop o).take l), none)) ∧
    (∀ (db : DB) (ops : List PollVotesOp) (e : Engine) (s : Store) (ctx : Context) (l o : Nat)
        (g : GoSlice PollVoteModel),
      (PollVotesQ.chain db ops).selector.limit = none → (PollVotesQ.chain db ops).selector.offset = none →
      (PollVotesQ.chain db ops).SelectOn e s ctx = some (g, none) →
      ((PollVotesQ.chain db ops).Page l o).SelectOn e s ctx
        = some (GoSlice.ofList ((g.elems.drop o).take l), none)) ∧
    (∀ (db : DB) (ops : List ProposalsOp) (e : Engine) (s : Store) (ctx : Context) (l o : Nat)
        (g : GoSlice Proposal),
      (ProposalsQ.chain db ops).selector.limit = none → (ProposalsQ.chain db ops).selector.offset = none →
      (ProposalsQ.chain db ops).SelectOn e s ctx = some (g, none) →
      ((ProposalsQ.chain db ops).Page l o).SelectOn e s ctx
        = some (GoSlice.ofList ((g.elems.drop o).take l), none)) ∧
    (∀ (db : DB) (ops : List ProposalVotesOp) (e : Engine) (s : Store) (ctx : Context) (l o : Nat)
        (g : GoSlice ProposalVoteModel),
      (ProposalVotesQ.chain db ops).selector.limit = none → (ProposalVotesQ.chain db ops).selector.offset = none →
      (ProposalVotesQ.chain db ops).SelectOn e s ctx = some (g, none) →
      ((ProposalVotesQ.chain db ops).Page l o).SelectOn e s ctx
        = some (GoSlice.ofList ((g.elems.drop o).take l), none)) :=
  ⟨fun db ops e s ctx l o g hl ho h => PetitionsQ_select_page db ops e s ctx l o g hl ho h,
   fun db ops e s ctx l o g hl ho h => PetitionSignaturesQ_select_page db ops e s ctx l o g hl ho h,
   fun db ops e s ctx l o g hl ho h => PollsQ_select_page db ops e s ctx l o g hl ho h,
   fun db ops e s ctx l o g hl ho h => PollOptionsQ_select_page db ops e s ctx l o g hl ho h,
   fun db ops e s ctx l o g hl ho h => PollVotesQ_select_page db ops e s ctx l o g hl ho h,
   fun db ops e s ctx l o g hl ho h => ProposalsQ_select_page db ops e s ctx l o g hl ho h,
   fun db ops e s ctx l o g hl ho h => ProposalVotesQ_select_page db ops e s ctx l o g hl ho h⟩

/-- C12 at a store with three poll votes, oldest first: the whole sequence is
votes 3, 2, 1 and `Page(2, 1)` returns votes 2, 1. -/
theorem C12_page_select_witness :
    (PollVotesQ.chain ⟨0⟩ [.OrderByCreatedAsc]).SelectOn Engine.strict sampleStore
        Context.background
      = some (some [⟨⟨3⟩, ⟨1⟩, ⟨13⟩, ⟨7⟩, ⟨97⟩⟩, ⟨⟨2⟩, ⟨1⟩, ⟨12⟩, ⟨7⟩, ⟨98⟩⟩,
          ⟨⟨1⟩, ⟨1⟩, ⟨11⟩, ⟨7⟩, ⟨99⟩⟩], none) ∧
    ((PollVotesQ.chain ⟨0⟩ [.OrderByCreatedAsc]).Page 2 1).SelectOn Engine.strict sampleStore
        Context.background
      = some (some [⟨⟨2⟩, ⟨1⟩, ⟨12⟩, ⟨7⟩, ⟨98⟩⟩, ⟨⟨1⟩, ⟨1⟩, ⟨11⟩, ⟨7⟩, ⟨99⟩⟩], none) :=
  ⟨by decide,
   C12_page_select_is_the_slice.2.2.2.2.1 ⟨0⟩ [.OrderByCreatedAsc] Engine.strict sampleStore
     Context.background 2 1
     (some [⟨⟨3⟩, ⟨1⟩, ⟨13⟩, ⟨7⟩, ⟨97⟩⟩, ⟨⟨2⟩, ⟨1⟩, ⟨12⟩, ⟨7⟩, ⟨98⟩⟩, ⟨⟨1⟩, ⟨1⟩, ⟨11⟩, ⟨7⟩, ⟨99⟩⟩])
     rfl rfl (by decide)⟩

/-- A second `Page` replaces the LIMIT and OFFSET of the first: with
R = NewPollVotesQ(db).OrderByCreatedAsc().Page(1, 0) on a store with three
poll votes, R.Select returns the one vote 3, and R.Page(2, 0).Select returns
votes 3 and 2, the slice of all rows and not of the one row R.Select returns. -/
theorem page_after_page_replaces_the_page :
    (PollVotesQ.chain ⟨0⟩ [.OrderByCreatedAsc, .Page 1 0]).SelectOn Engine.strict sampleStore
        Context.background
      = some (some [⟨⟨3⟩, ⟨1⟩, ⟨13⟩, ⟨7⟩, ⟨97⟩⟩], none) ∧
    ((PollVotesQ.chain ⟨0⟩ [.OrderByCreatedAsc, .Page 1 0]).Page 2 0).SelectOn Engine.strict
        sampleStore Context.background
      = some (some [⟨⟨3⟩, ⟨1⟩, ⟨13⟩, ⟨7⟩, ⟨97⟩⟩, ⟨⟨2⟩, ⟨1⟩, ⟨12⟩, ⟨7⟩, ⟨98⟩⟩], none) ∧
    ¬ ∃ g1 g2 : GoSlice PollVoteModel,
      (PollVotesQ.chain ⟨0⟩ [.OrderByCreatedAsc, .Page 1 0]).SelectOn Engine.strict sampleStore
          Context.background = some (g1, none) ∧
      ((PollVotesQ.chain ⟨0⟩ [.OrderByCreatedAsc, .Page 1 0]).Page 2 0).SelectOn Engine.strict
          sampleStore Context.background = some (g2, none) ∧
      g2.elems = (g1.elems.drop 0).take 2 := by
  have h1 : (PollVotesQ.chain ⟨0⟩ [.OrderByCreatedAsc, .Page 1 0]).SelectOn Engine.strict
      sampleStore Context.background
      = some (some [⟨⟨3⟩, ⟨1⟩, ⟨13⟩, ⟨7⟩, ⟨97⟩⟩], none) := by decide
  have h2 : ((PollVotesQ.chain ⟨0⟩ [.OrderByCreatedAsc, .Page 1 0]).Page 2 0).SelectOn
      Engine.strict sampleStore Context.background
      = some (some [⟨⟨3⟩, ⟨1⟩, ⟨13⟩, ⟨7⟩, ⟨97⟩⟩, ⟨⟨2⟩, ⟨1⟩, ⟨12⟩, ⟨7⟩, ⟨98⟩⟩], none) := by decide
  refine ⟨h1, h2, ?_⟩
  rintro ⟨g1, g2, e1, e2, e3⟩
  rw [h1] at e1
  rw [h2] at e2
  cases e1
  cases e2
  exact absurd e3 (by decide)

/-- C13, amended: for every repository value reached from a constructor, every
store and every live context, with o the OFFSET the selector carries (0 when
no Page was called): when fewer than o + 1 rows satisfy the accumulated
filters, Get returns `sql.ErrNoRows` together with a zero-valued model;
otherwise Get returns the scan of the row at position o of the rows that
satisfy the filters, in the active ordering. -/
theorem C13_get_scans_the_row_at_the_offset :
    (∀ (db : DB) (ops : List PetitionsOp) (e : Engine) (s : Store) (ctx : Context),
      ctx.Live →
      (PetitionsQ.chain db ops).GetOn e s ctx
        = some (scanFirst PetitionsQ.getDests PetitionModel.zero (PetitionsQ.chain db ops).selector.columns
            (((PetitionsQ.chain db ops).selector.ordered e s).drop
              ((PetitionsQ.chain db ops).selector.offset.getD 0)))) ∧
    (∀ (db : DB) (ops : List PetitionSignaturesOp) (e : Engine) (s : Store) (ctx : Context),
      ctx.Live →
      (PetitionSignaturesQ.chain db ops).GetOn e s ctx
        = some (scanFirst PetitionSignaturesQ.getDests PetitionSignature.zero (PetitionSignaturesQ.chain db ops).selector.columns
            (((PetitionSignaturesQ.chain db ops).selector.ordered e s).drop
              ((PetitionSignaturesQ.chain db ops).selector.offset.getD 0)))) ∧
    (∀ (db : DB) (ops : List PollsOp) (e : Engine) (s : Store) (ctx : Context),
      ctx.Live →
      (PollsQ.chain db ops).GetOn e s ctx
        = some (scanFirst PollsQ.getDests PollModel.zero (PollsQ.chain db ops).selector.columns
            (((PollsQ.chain db ops).selector.ordered e s).drop
              ((PollsQ.chain db ops).selector.offset.getD 0)))) ∧
    (∀ (db : DB) (ops : List PollOptionsOp) (e : Engine) (s : Store) (ctx : Context),
      ctx.Live →
      (PollOptionsQ.chain db ops).GetOn e s ctx
        = some (scanFirst PollOptionsQ.getDests PollOption.zero (PollOptionsQ.chain db ops).selector.columns
            (((PollOptionsQ.chain db ops).selector.ordered e s).drop
              ((PollOptionsQ.chain db ops).selector.offset.getD 0)))) ∧
    (∀ (db : DB) (ops : List PollVotesOp) (e : Engine) (s : Store) (ctx : Context),
      ctx.Live →
      (PollVotesQ.chain db ops).GetOn e s ctx
        = some (scanFirst PollVotesQ.getDests PollVoteModel.zero (PollVotesQ.chain db ops).selector.columns
            (((PollVotesQ.chain db ops).selector.ordered e s).drop
              ((PollVotesQ.chain db ops).selector.offset.getD 0)))) ∧
    (∀ (db : DB) (ops : List ProposalsOp) (e : Engine) (s : Store) (ctx : Context),
      ctx.Live →
      (ProposalsQ.chain db ops).GetOn e s ctx
        = some (scanFirst ProposalsQ.getDests Proposal.zero (ProposalsQ.chain db ops).selector.columns
            (((ProposalsQ.chain db ops).selector.ordered e s).drop
              ((ProposalsQ.chain db ops).selector.offset.getD 0)))) ∧
    (∀ (db : DB) (ops : List ProposalVotesOp) (e : Engine) (s : Store) (ctx : Context),
      ctx.Live →
      (ProposalVotesQ.chain db ops).GetOn e s ctx
        = some (scanFirst ProposalVotesQ.getDests ProposalVoteModel.zero (ProposalVotesQ.chain db ops).selector.columns
            (((ProposalVotesQ.chain db ops).selector.ordered e s).drop
              ((ProposalVotesQ.chain db ops).selector.offset.getD 0)))) :=
  ⟨fun db ops e s ctx hlive => PetitionsQ_get_first db ops e s ctx hlive,
   fun db ops e s ctx hlive => PetitionSignaturesQ_get_first db ops e s ctx hlive,
   fun db ops e s ctx hlive => PollsQ_get_first db ops e s ctx hlive,
   fun db ops e s ctx hlive => PollOptionsQ_get_first db ops e s ctx hlive,
   fun db ops e s ctx hlive => PollVotesQ_get_first db ops e s ctx hlive,
   fun db ops e s ctx hlive => ProposalsQ_get_first db ops e s ctx hlive,
   fun db ops e s ctx hlive => ProposalVotesQ_get_first db ops e s ctx hlive⟩

/-- C13 at a store with three poll votes: Get after `FilterID(2)` returns vote
2 and no error, Get after `FilterID(9)` returns the zero model and
`sql.ErrNoRows`. -/
theorem C13_get_witness :
    Context.background.Live ∧
    (PollVotesQ.chain ⟨0⟩ [.FilterID ⟨2⟩]).GetOn Engine.strict sampleStore Context.background
      = some (⟨⟨2⟩, ⟨1⟩, ⟨12⟩, ⟨7⟩, ⟨98⟩⟩, none) ∧
    (PollVotesQ.chain ⟨0⟩ [.FilterID ⟨9⟩]).GetOn Engine.strict sampleStore Context.background
      = some (PollVoteModel.zero, some .noRows) :=
  ⟨by decide,
   (C13_get_scans_the_row_at_the_offset.2.2.2.2.1 ⟨0⟩ [.FilterID ⟨2⟩] Engine.strict sampleStore
      Context.background (by decide)).trans (by decide),
   (C13_get_scans_the_row_at_the_offset.2.2.2.2.1 ⟨0⟩ [.FilterID ⟨9⟩] Engine.strict sampleStore
      Context.background (by decide)).trans (by decide)⟩

/-- C13 as stated fails on a value that carries a page. On a store with one poll
vote, after `Page(10, 1)` the vote satisfies the accumulated filters and yet
Get returns the zero model and `sql.ErrNoRows`; after `Page(0, 0)` the
selector picks no row, Select returns nothing, and yet Get returns the vote
and no error: Get replaces the LIMIT by 1 and keeps the OFFSET. -/
theorem C13_counterexample_get_keeps_offset_and_drops_limit :
    ((NewPollVotesQ ⟨0⟩).Page 10 1).selector.matching Engine.strict oneVoteStore
      = [sampleVote 1] ∧
    ((NewPollVotesQ ⟨0⟩).Page 10 1).GetOn Engine.strict oneVoteStore Context.background
      = some (PollVoteModel.zero, some .noRows) ∧
    ((NewPollVotesQ ⟨0⟩).Page 0 0).selector.rowsOn Engine.strict oneVoteStore = [] ∧
    ((NewPollVotesQ ⟨0⟩).Page 0 0).SelectOn Engine.strict oneVoteStore Context.background
      = some (none, none) ∧
    ((NewPollVotesQ ⟨0⟩).Page 0 0).GetOn Engine.strict oneVoteStore Context.background
      = some (⟨⟨1⟩, ⟨1⟩, ⟨11⟩, ⟨7⟩, ⟨99⟩⟩, none) := by
  refine ⟨by decide, by decide, by decide, by decide, by decide⟩

/-- C14, amended: for every repository value reached from a constructor and
every store, when Select returns no error the returned slice has one element
per row the selector picks, and it is the nil slice exactly when the selector
picks no row: a non-nil slice for one row or more, a nil slice for none. -/
theorem C14_select_is_nil_exactly_without_rows :
    (∀ (db : DB) (ops : List PetitionsOp) (e : Engine) (s : Store) (ctx : Context)
        (g : GoSlice PetitionModel),
      (PetitionsQ.chain db ops).SelectOn e s ctx = some (g, none) →
      (g = none ↔ (PetitionsQ.chain db ops).selector.rowsOn e s = []) ∧
        g.elems.length = ((PetitionsQ.chain db ops).selector.rowsOn e s).length) ∧
    (∀ (db : DB) (ops : List PetitionSignaturesOp) (e : Engine) (s : Store) (ctx : Context)
        (g : GoSlice PetitionSignature),
      (PetitionSignaturesQ.chain db ops).SelectOn e s ctx = some (g, none) →
      (g = none ↔ (PetitionSignaturesQ.chain db ops).selector.rowsOn e s = []) ∧
        g.elems.length = ((PetitionSignaturesQ.chain db ops).selector.rowsOn e s).length) ∧
    (∀ (db : DB) (ops : List PollsOp) (e : Engine) (s : Store) (ctx : Context)
        (g : GoSlice PollModel),
      (PollsQ.chain db ops).SelectOn e s ctx = some (g, none) →
      (g = none ↔ (PollsQ.chain db ops).selector.rowsOn e s = []) ∧
        g.elems.length = ((PollsQ.chain db ops).selector.rowsOn e s).length) ∧
    (∀ (db : DB) (ops : List PollOptionsOp) (e : Engine) (s : Store) (ctx : Context)
        (g : GoSlice PollOption),
      (PollOptionsQ.chain db ops).SelectOn e s ctx = some (g, none) →
      (g = none ↔ (PollOptionsQ.chain db ops).selector.rowsOn e s = []) ∧
        g.elems.length = ((PollOptionsQ.chain db ops).selector.rowsOn e s).length) ∧
    (∀ (db : DB) (ops : List PollVotesOp) (e : Engine) (s : Store) (ctx : Context)
        (g : GoSlice PollVoteModel),
      (PollVotesQ.chain db ops).SelectOn e s ctx = some (g, none) →
      (g = none ↔ (PollVotesQ.chain db ops).selector.rowsOn e s = []) ∧
        g.elems.length = ((PollVotesQ.chain db ops).selector.rowsOn e s).length) ∧
    (∀ (db : DB) (ops : List ProposalsOp) (e : Engine) (s : Store) (ctx : Context)
        (g : GoSlice Proposal),
      (ProposalsQ.chain db ops).SelectOn e s ctx = some (g, none) →
      (g = none ↔ (ProposalsQ.chain db ops).selector.rowsOn e s = []) ∧
        g.elems.length = ((ProposalsQ.chain db ops).selector.rowsOn e s).length) ∧
    (∀ (db : DB) (ops : List ProposalVotesOp) (e : Engine) (s : Store) (ctx : Context)
        (g : GoSlice ProposalVoteModel),
      (ProposalVotesQ.chain db ops).SelectOn e s ctx = some (g, none) →
      (g = none ↔ (ProposalVotesQ.chain db ops).selector.rowsOn e s = []) ∧
        g.elems.length = ((ProposalVotesQ.chain db ops).selector.rowsOn e s).length) :=
  ⟨fun db ops e s ctx g h => PetitionsQ_select_nil_iff db ops e s ctx g h,
   fun db ops e s ctx g h => PetitionSignaturesQ_select_nil_iff db ops e s ctx g h,
   fun db ops e s ctx g h => PollsQ_select_nil_iff db ops e s ctx g h,
   fun db ops e s ctx g h => PollOptionsQ_select_nil_iff db ops e s ctx g h,
   fun db ops e s ctx g h => PollVotesQ_select_nil_iff db ops e s ctx g h,
   fun db ops e s ctx g h => ProposalsQ_select_nil_iff db ops e s ctx g h,
   fun db ops e s ctx g h => ProposalVotesQ_select_nil_iff db ops e s ctx g h⟩

/-- C14 at a store with two petition signatures: Select on the fresh repository
returns a slice that is not nil, with two elements. -/
theorem C14_select_witness :
    (PetitionSignaturesQ.chain ⟨0⟩ []).SelectOn Engine.strict sampleStore Context.background
      = some (some [⟨⟨1⟩, ⟨1⟩, ⟨11⟩, ⟨101⟩⟩, ⟨⟨2⟩, ⟨1⟩, ⟨12⟩, ⟨102⟩⟩], none) ∧
    ((some [⟨⟨1⟩, ⟨1⟩, ⟨11⟩, ⟨101⟩⟩, ⟨⟨2⟩, ⟨1⟩, ⟨12⟩, ⟨102⟩⟩] : GoSlice PetitionSignature) = none
      ↔ (PetitionSignaturesQ.chain ⟨0⟩ []).selector.rowsOn Engine.strict sampleStore = []) :=
  ⟨by decide,
   (C14_select_is_nil_exactly_without_rows.2.1 ⟨0⟩ [] Engine.strict sampleStore
     Context.background (some [⟨⟨1⟩, ⟨1⟩, ⟨11⟩, ⟨101⟩⟩, ⟨⟨2⟩, ⟨1⟩, ⟨12⟩, ⟨102⟩⟩])
     (by decide)).1⟩

/-- C14 as stated fails: on a store without rows, and on a store where no row
satisfies the filter, Select of `PetitionSignaturesQ` succeeds and returns the
nil slice, the value of `var out []PetitionSignature` that no `append` has
touched. -/
theorem C14_counterexample_select_returns_nil_slice :
    (NewPetitionSignaturesQ ⟨0⟩).SelectOn Engine.strict Store.empty Context.background
      = some (none, none) ∧
    ((NewPetitionSignaturesQ ⟨0⟩).FilterID ⟨9⟩).SelectOn Engine.strict sampleStore
        Context.background
      = some (none, none) := by
  refine ⟨by decide, by decide⟩

/-! ## Writes on a store -/

/-- An INSERT with a table and a row of values builds, so Insert makes its
round trip. -/
theorem issue_insert (b : InsertBuilder) (ht : b.table.isEmpty = false)
    (hv : b.values.isEmpty = false) (db : DB) (ctx : Context) (wrap : String) :
    ∃ sql args, issue db ctx .ExecContext wrap b.ToSql
      = .roundTrip ⟨resolveTarget db ctx, .ExecContext, ctx, sql, args⟩ := by
  unfold issue InsertBuilder.ToSql InsertBuilder.toSqlRaw
  simp only [ht, hv]
  exact ⟨_, _, rfl⟩

/-- A round trip of the shared tail hands over the statement that was built. -/
theorem built_of_issue (db : DB) (ctx : Context) (m : Method) (wrap : String)
    (built : Except Error (String × List Arg)) (sql : String) (args : List Arg)
    (h : issue db ctx m wrap built = .roundTrip ⟨resolveTarget db ctx, m, ctx, sql, args⟩) :
    built = .ok (sql, args) := by
  cases built with
  | error e => simp [issue] at h
  | ok r =>
      simp only [issue, Outcome.roundTrip.injEq, Call.mk.injEq] at h
      obtain ⟨_, _, _, h1, h2⟩ := h
      rw [← h1, ← h2]

/-- The call the shared tail issues carries the statement that was built. -/
theorem carries_of_issue (db : DB) (ctx : Context) (m : Method) (wrap : String)
    (built : Except Error (String × List Arg)) (call : Call)
    (h : issue db ctx m wrap built = .roundTrip call) : call.carries built = true := by
  cases built with
  | error e => simp [issue] at h
  | ok r =>
      simp only [issue, Outcome.roundTrip.injEq] at h
      subst h
      simp [Call.carries]

/-- An Insert on a live context is the INSERT of its row on the store. -/
theorem insertOn_live (b : InsertBuilder) (ht : b.table.isEmpty = false)
    (hv : b.values.isEmpty = false) (db : DB) (ctx : Context) (wrap : String)
    (schema : Schema) (s : Store) (hlive : ctx.Live) :
    insertOn (issue db ctx .ExecContext wrap b.ToSql) schema s b
      = some (Store.insert schema b.table (b.row schema) s) := by
  obtain ⟨sql, args, hi⟩ := issue_insert b ht hv db ctx wrap
  have hc := carries_of_issue _ _ _ _ _ _ hi
  rw [hi]
  simp only [insertOn, hc, if_true]
  rw [call_answer_live _ _ _ _ _ _ hlive]

/-- An Insert returns one of three things: the store as it was, with an error
or without a return; or the INSERT of its row on the store. -/
theorem insertOn_cases (out : Outcome) (schema : Schema) (s : Store) (b : InsertBuilder) :
    insertOn out schema s b = none ∨ (∃ err, insertOn out schema s b = some (s, some err)) ∨
    insertOn out schema s b = some (s, none) ∨
    insertOn out schema s b = some (Store.insert schema b.table (b.row schema) s) := by
  cases out with
  | returned err => cases err <;> simp [insertOn]
  | roundTrip call =>
      cases hc : call.carries b.ToSql <;>
        rcases h : call.answer () with _ | (e | u) <;> simp [insertOn, h, hc]

/-- An Insert that made its round trip and returned no error has appended its
row to the table. -/
theorem insertOn_ok (b : InsertBuilder) (ht : b.table.isEmpty = false)
    (hv : b.values.isEmpty = false) (db : DB) (ctx : Context) (wrap : String)
    (schema : Schema) (s s1 : Store)
    (h : insertOn (issue db ctx .ExecContext wrap b.ToSql) schema s b = some (s1, none)) :
    s1 = s.setTable b.table (s b.table ++ [b.row schema]) := by
  obtain ⟨sql, args, hi⟩ := issue_insert b ht hv db ctx wrap
  have hc := carries_of_issue _ _ _ _ _ _ hi
  rw [hi] at h
  simp only [insertOn, hc, if_true] at h
  cases ha : (Call.mk (resolveTarget db ctx) .ExecContext ctx sql args).answer () with
  | none => rw [ha] at h; simp at h
  | some r =>
      rw [ha] at h
      cases r with
      | error e => simp at h
      | ok u =>
          simp only [Store.insert, Option.some.injEq] at h
          split at h
          · simp at h
          · exact ((Prod.mk.inj h).1).symm

/-- A row that conflicts with a stored row on a uniqueness constraint is refused
and the store stays as it was. -/
theorem insert_conflict (schema : Schema) (table : String) (row r : Row) (s : Store)
    (key : List String) (hk : key ∈ schema.unique) (hr : r ∈ s table)
    (hc : Row.conflicts key r row = true) :
    Store.insert schema table row s = (s, some (.store "23505")) := by
  unfold Store.insert
  rw [if_pos]
  exact List.any_eq_true.mpr ⟨key, hk, List.any_eq_true.mpr ⟨r, hr, hc⟩⟩

/-- A row that conflicts with no stored row is appended to the table. -/
theorem insert_fresh (schema : Schema) (table : String) (row : Row) (s : Store)
    (h : ∀ key ∈ schema.unique, ∀ r ∈ s table, Row.conflicts key r row = false) :
    Store.insert schema table row s = (s.setTable table (s table ++ [row]), none) := by
  unfold Store.insert
  rw [if_neg]
  intro hany
  obtain ⟨key, hk, hany2⟩ := List.any_eq_true.mp hany
  obtain ⟨r, hr, hc⟩ := List.any_eq_true.mp hany2
  rw [h key hk r hr] at hc
  exact Bool.noConfusion hc

/-- The rows of a table after it was replaced. -/
theorem setTable_same (s : Store) (table : String) (rows : List Row) :
    s.setTable table rows table = rows := by
  simp [Store.setTable]

/-- The rows of another table after a table was replaced. -/
theorem setTable_other (s : Store) (table t : String) (rows : List Row) (h : t ≠ table) :
    s.setTable table rows t = s t := by
  simp [Store.setTable, h]

/-- The statement `PetitionSignaturesQ.Insert` builds on a value reached from
the constructor. -/
theorem PetitionSignaturesQ_insert_builder (db : DB) (ops : List PetitionSignaturesOp)
    (a : PetitionSignature) :
    (PetitionSignaturesQ.chain db ops).inserter.SetMap (PetitionSignaturesQ.insertValues a)
      = ⟨"petition_signatures", ["created_at", "id", "petition_id", "user_id"],
          [[.val (.time a.CreatedAt), .val (.uuid a.ID), .val (.uuid a.PetitionID),
            .val (.uuid a.UserID)]]⟩ := by
  obtain ⟨⟨_, _, _, _, _, _, _, hins⟩, _⟩ := PetitionSignaturesQ_chain_shaped db ops
  have hins : (PetitionSignaturesQ.chain db ops).inserter = insertInto petitionSignaturesTable :=
    hins
  rw [hins]
  rfl

/-- C15: on a store that enforces the uniqueness of (petition_id, user_id),
after an Insert of a petition signature that succeeded, an Insert of a
signature with the same PetitionID and UserID, on a live context, returns the
uniqueness error of the store (SQLSTATE 23505) as it is, and the store after
the second call is the store after the first. The one statement the second
call issues is a plain INSERT of the four columns, with no ON CONFLICT clause. -/
theorem C15_second_signature_insert_conflicts (db : DB)
    (ops1 ops2 : List PetitionSignaturesOp) (s s1 : Store) (ctx1 ctx2 : Context)
    (a b : PetitionSignature) (hp : a.PetitionID = b.PetitionID) (hu : a.UserID = b.UserID)
    (hfirst : (PetitionSignaturesQ.chain db ops1).InsertOn s ctx1 a = some (s1, none))
    (hlive : ctx2.Live) :
    (PetitionSignaturesQ.chain db ops2).InsertOn s1 ctx2 b
      = some (s1, some (.store "23505")) ∧
    (PetitionSignaturesQ.chain db ops2).Insert ctx2 b
      = .roundTrip ⟨resolveTarget db ctx2, .ExecContext, ctx2,
          "INSERT INTO petition_signatures (created_at,id,petition_id,user_id) VALUES ($1,$2,$3,$4)",
          [.val (.time b.CreatedAt), .val (.uuid b.ID), .val (.uuid b.PetitionID),
            .val (.uuid b.UserID)]⟩ := by
  have hdb : (PetitionSignaturesQ.chain db ops2).db = db :=
    (PetitionSignaturesQ_chain_shaped db ops2).2
  have h1 : insertOn (issue (PetitionSignaturesQ.chain db ops1).db ctx1 .ExecContext
      ("building inserter query for table: " ++ petitionSignaturesTable ++ " input: ")
      ((PetitionSignaturesQ.chain db ops1).inserter.SetMap
        (PetitionSignaturesQ.insertValues a)).ToSql)
      petitionSignaturesSchema s
      ((PetitionSignaturesQ.chain db ops1).inserter.SetMap (PetitionSignaturesQ.insertValues a))
      = some (s1, none) := hfirst
  rw [PetitionSignaturesQ_insert_builder] at h1
  have hs1 := insertOn_ok _ (by rfl) (by rfl) _ _ _ _ _ _ h1
  have hrow : s1 "petition_signatures"
      = s "petition_signatures" ++ [[("id", .uuid a.ID), ("petition_id", .uuid a.PetitionID),
          ("user_id", .uuid a.UserID), ("created_at", .timestamp a.CreatedAt.stored)]] := by
    rw [hs1]
    exact setTable_same _ _ _
  constructor
  · show insertOn (issue (PetitionSignaturesQ.chain db ops2).db ctx2 .ExecContext
      ("building inserter query for table: " ++ petitionSignaturesTable ++ " input: ")
      ((PetitionSignaturesQ.chain db ops2).inserter.SetMap
        (PetitionSignaturesQ.insertValues b)).ToSql)
      petitionSignaturesSchema s1
      ((PetitionSignaturesQ.chain db ops2).inserter.SetMap (PetitionSignaturesQ.insertValues b))
      = some (s1, some (.store "23505"))
    rw [PetitionSignaturesQ_insert_builder, insertOn_live _ (by rfl) (by rfl) _ _ _ _ _ hlive]
    refine congrArg some (insert_conflict _ _ _
      [("id", .uuid a.ID), ("petition_id", .uuid a.PetitionID),
          ("user_id", .uuid a.UserID), ("created_at", .timestamp a.CreatedAt.stored)] _
      ["petition_id", "user_id"] (by decide) ?_ ?_)
    · show _ ∈ s1 "petition_signatures"
      rw [hrow]
      exact List.mem_append_right _ (List.mem_singleton_self _)
    · rw [hp, hu]
      simp [Row.conflicts, Row.get, InsertBuilder.row, petitionSignaturesSchema, Arg.cell,
        Value.cell, Value.driverValue]
  · show issue (PetitionSignaturesQ.chain db ops2).db ctx2 .ExecContext
      ("building inserter query for table: " ++ petitionSignaturesTable ++ " input: ")
      ((PetitionSignaturesQ.chain db ops2).inserter.SetMap
        (PetitionSignaturesQ.insertValues b)).ToSql = _
    rw [PetitionSignaturesQ_insert_builder, hdb]
    rfl

/-- C15 at the empty store: the signature of user 6 on petition 5 is inserted,
and a second signature of user 6 on petition 5 is refused, the store holding
the first row only. -/
theorem C15_insert_witness :
    (PetitionSignaturesQ.chain ⟨0⟩ []).InsertOn
        (Store.empty.setTable "petition_signatures"
          (Store.empty "petition_signatures" ++ [[("id", .uuid ⟨1⟩), ("petition_id", .uuid ⟨5⟩),
            ("user_id", .uuid ⟨6⟩), ("created_at", .timestamp ⟨10000⟩)]]))
        Context.background ⟨⟨2⟩, ⟨5⟩, ⟨6⟩, ⟨11000⟩⟩
      = some (Store.empty.setTable "petition_signatures"
          (Store.empty "petition_signatures" ++ [[("id", .uuid ⟨1⟩), ("petition_id", .uuid ⟨5⟩),
            ("user_id", .uuid ⟨6⟩), ("created_at", .timestamp ⟨10000⟩)]]),
          some (.store "23505")) :=
  (C15_second_signature_insert_conflicts ⟨0⟩ [] [] Store.empty _ Context.background
    Context.background ⟨⟨1⟩, ⟨5⟩, ⟨6⟩, ⟨10000⟩⟩ ⟨⟨2⟩, ⟨5⟩, ⟨6⟩, ⟨11000⟩⟩ rfl rfl rfl (by decide)).1

/-! ## The columns Insert assigns -/

/-- A selector without `*` reads the same stored columns whatever the columns
of the table are. -/
theorem reads_without_star (b : SelectBuilder) (cols : List String) (h : "*" ∉ b.columns) :
    b.reads cols = b.reads [] := by
  unfold SelectBuilder.reads
  congr 2
  apply List.map_congr_left
  intro c hc
  have hne : c ≠ "*" := fun heq => h (heq ▸ hc)
  simp [hne]

/-- The statement `PetitionsQ.Insert` issues is the INSERT of the map it fills. -/
theorem PetitionsQ_insert_eq (q : PetitionsQ) (ctx : Context) (inp : InsertPetitionInput) :
    q.Insert ctx inp = issue q.db ctx .ExecContext
      ("building inserter query for table " ++ petitionsTable ++ ": ")
      (q.inserter.SetMap (PetitionsQ.insertValues inp)).ToSql := rfl

/-- The columns `PetitionsQ.Insert` assigns on a value reached from the constructor. -/
theorem PetitionsQ_insert_columns (db : DB) (ops : List PetitionsOp) (inp : InsertPetitionInput) :
    ((PetitionsQ.chain db ops).inserter.SetMap (PetitionsQ.insertValues inp)).columns
      = ["address_to_id", "city_id", "created_at", "description", "end_date", "goal", "id", "initiator_id", "location", "signatures", "status", "title", "updated_at"] := by
  obtain ⟨⟨_, _, _, _, _, _, _, hins⟩, _⟩ := PetitionsQ_chain_shaped db ops
  have hins : (PetitionsQ.chain db ops).inserter = insertInto petitionsTable := hins
  rw [hins]
  obtain ⟨a0, a1, a2, a3, a4, a5, a6, a7, a8, a9, a10, a11, a12⟩ := inp
  cases a12 <;> rfl

/-- The statement `PetitionSignaturesQ.Insert` issues is the INSERT of the map it fills. -/
theorem PetitionSignaturesQ_insert_eq (q : PetitionSignaturesQ) (ctx : Context) (inp : PetitionSignature) :
    q.Insert ctx inp = issue q.db ctx .ExecContext
      ("building inserter query for table: " ++ petitionSignaturesTable ++ " input: ")
      (q.inserter.SetMap (PetitionSignaturesQ.insertValues inp)).ToSql := rfl

/-- The columns `PetitionSignaturesQ.Insert` assigns on a value reached from the constructor. -/
theorem PetitionSignaturesQ_insert_columns (db : DB) (ops : List PetitionSignaturesOp) (inp : PetitionSignature) :
    ((PetitionSignaturesQ.chain db ops).inserter.SetMap (PetitionSignaturesQ.insertValues inp)).columns
      = ["created_at", "id", "petition_id", "user_id"] := by
  obtain ⟨⟨_, _, _, _, _, _, _, hins⟩, _⟩ := PetitionSignaturesQ_chain_shaped db ops
  have hins : (PetitionSignaturesQ.chain db ops).inserter = insertInto petitionSignaturesTable := hins
  rw [hins]
  rfl

/-- The statement `PollsQ.Insert` issues is the INSERT of the map it fills. -/
theorem PollsQ_insert_eq (q : PollsQ) (ctx : Context) (inp : InsertPollInput) :
    q.Insert ctx inp = issue q.db ctx .ExecContext
      ("building inserter query for table " ++ pollsTable ++ ": ")
      (q.inserter.SetMap (PollsQ.insertValues inp)).ToSql := rfl

/-- The columns `PollsQ.Insert` assigns on a value reached from the constructor. -/
theorem PollsQ_insert_columns (db : DB) (ops : List PollsOp) (inp : InsertPollInput) :
    ((PollsQ.chain db ops).inserter.SetMap (PollsQ.insertValues inp)).columns
      = ["city_id", "created_at", "description", "end_date", "id", "initiator_id", "location", "status", "title", "updated_at"] := by
  obtain ⟨⟨_, _, _, _, _, _, _, hins⟩, _⟩ := PollsQ_chain_shaped db ops
  have hins : (PollsQ.chain db ops).inserter = insertInto pollsTable := hins
  rw [hins]
  obtain ⟨a0, a1, a2, a3, a4, a5, a6, a7, a8, a9⟩ := inp
  cases a9 <;> rfl

/-- The statement `PollOptionsQ.Insert` issues is the INSERT of the map it fills. -/
theorem PollOptionsQ_insert_eq (q : PollOptionsQ) (ctx : Context) (inp : InsertPollOptionInput) :
    q.Insert ctx inp = issue q.db ctx .ExecContext
      ("building inserter query for table " ++ pollOptionsTable ++ ": ")
      (q.inserter.SetMap (PollOptionsQ.insertValues inp)).ToSql := rfl

/-- The columns `PollOptionsQ.Insert` assigns on a value reached from the constructor. -/
theorem PollOptionsQ_insert_columns (db : DB) (ops : List PollOptionsOp) (inp : InsertPollOptionInput) :
    ((PollOptionsQ.chain db ops).inserter.SetMap (PollOptionsQ.insertValues inp)).columns
      = ["created_at", "id", "option_text", "poll_id"] := by
  obtain ⟨⟨_, _, _, _, _, _, _, hins⟩, _⟩ := PollOptionsQ_chain_shaped db ops
  have hins : (PollOptionsQ.chain db ops).inserter = insertInto pollOptionsTable := hins
  rw [hins]
  rfl

/-- The statement `PollVotesQ.Insert` issues is the INSERT of the map it fills. -/
theorem PollVotesQ_insert_eq (q : PollVotesQ) (ctx : Context) (inp : InsertPollVoteInput) :
    q.Insert ctx inp = issue q.db ctx .ExecContext
      ("building inserter query for table " ++ pollVotesTable ++ ": ")
      (q.inserter.SetMap (PollVotesQ.insertValues inp)).ToSql := rfl

/-- The columns `PollVotesQ.Insert` assigns on a value reached from the constructor. -/
theorem PollVotesQ_insert_columns (db : DB) (ops : List PollVotesOp) (inp : InsertPollVoteInput) :
    ((PollVotesQ.chain db ops).inserter.SetMap (PollVotesQ.insertValues inp)).columns
      = ["created_at", "id", "option_id", "poll_id", "user_id"] := by
  obtain ⟨⟨_, _, _, _, _, _, _, hins⟩, _⟩ := PollVotesQ_chain_shaped db ops
  have hins : (PollVotesQ.chain db ops).inserter = insertInto pollVotesTable := hins
  rw [hins]
  rfl

/-- The statement `ProposalsQ.Insert` issues is the INSERT of the map it fills. -/
theorem ProposalsQ_insert_eq (q : ProposalsQ) (ctx : Context) (inp : InsertProposalInput) :
    q.Insert ctx inp = issue q.db ctx .ExecContext
      ("building inserter query for table " ++ proposalsTable ++ ": ")
      (q.inserter.SetMap (ProposalsQ.insertValues inp)).ToSql := rfl

/-- The columns `ProposalsQ.Insert` assigns on a value reached from the constructor. -/
theorem ProposalsQ_insert_columns (db : DB) (ops : List ProposalsOp) (inp : InsertProposalInput) :
    ((ProposalsQ.chain db ops).inserter.SetMap (ProposalsQ.insertValues inp)).columns
      = ["address_to_id", "city_id", "created_at", "description", "end_date", "id", "initiator_id", "location", "status", "title", "updated_at"] := by
  obtain ⟨⟨_, _, _, _, _, _, _, hins⟩, _⟩ := ProposalsQ_chain_shaped db ops
  have hins : (ProposalsQ.chain db ops).inserter = insertInto proposalsTable := hins
  rw [hins]
  obtain ⟨a0, a1, a2, a3, a4, a5, a6, a7, a8, a9, a10⟩ := inp
  cases a10 <;> rfl

/-- The statement `ProposalVotesQ.Insert` issues is the INSERT of the map it fills. -/
theorem ProposalVotesQ_insert_eq (q : ProposalVotesQ) (ctx : Context) (inp : InsertProposalVoteInput) :
    q.Insert ctx inp = issue q.db ctx .ExecContext
      ("building inserter query for table " ++ proposalVotesTable ++ ": ")
      (q.inserter.SetMap (ProposalVotesQ.insertValues inp)).ToSql := rfl

/-- The columns `ProposalVotesQ.Insert` assigns on a value reached from the constructor. -/
theorem ProposalVotesQ_insert_columns (db : DB) (ops : List ProposalVotesOp) (inp : InsertProposalVoteInput) :
    ((ProposalVotesQ.chain db ops).inserter.SetMap (ProposalVotesQ.insertValues inp)).columns
      = ["created_at", "id", "proposal_id", "user_id", "vote"] := by
  obtain ⟨⟨_, _, _, _, _, _, _, hins⟩, _⟩ := ProposalVotesQ_chain_shaped db ops
  have hins : (ProposalVotesQ.chain db ops).inserter = insertInto proposalVotesTable := hins
  rw [hins]
  rfl

/-- C16, amended: for every entity family and every input, every column the
INSERT assigns is a stored column the selector reads (location standing for
the derived lat and lng outputs), and the stored columns the selector reads
that the INSERT does not assign are: none for petitions, petition signatures,
polls, poll votes and proposal votes; `votes_count` for poll options; and
`agreed_num` and `disagreed_num` for proposals. Those are left to the defaults
of the table. The INSERT is the statement Insert issues: on every value
reached from the constructor the statement builds and Insert hands its text
and arguments to `ExecContext` on the resolved target. -/
theorem C16_insert_assigns_the_read_columns_but_the_counters :
    (∀ (db : DB) (ops : List PetitionsOp) (inp : InsertPetitionInput) (tableColumns : List String),
      ((PetitionsQ.chain db ops).inserter.SetMap (PetitionsQ.insertValues inp)).columns.Perm
        (((PetitionsQ.chain db ops).selector.reads tableColumns).filter
          (fun c => c ∉ ([] : List String)))) ∧
    (∀ (db : DB) (ops : List PetitionSignaturesOp) (inp : PetitionSignature),
      ((PetitionSignaturesQ.chain db ops).inserter.SetMap (PetitionSignaturesQ.insertValues inp)).columns.Perm
        (((PetitionSignaturesQ.chain db ops).selector.reads
            (petitionSignaturesSchema.columns.map Prod.fst)).filter
          (fun c => c ∉ ([] : List String)))) ∧
    (∀ (db : DB) (ops : List PollsOp) (inp : InsertPollInput) (tableColumns : List String),
      ((PollsQ.chain db ops).inserter.SetMap (PollsQ.insertValues inp)).columns.Perm
        (((PollsQ.chain db ops).selector.reads tableColumns).filter
          (fun c => c ∉ ([] : List String)))) ∧
    (∀ (db : DB) (ops : List PollOptionsOp) (inp : InsertPollOptionInput) (tableColumns : List String),
      ((PollOptionsQ.chain db ops).inserter.SetMap (PollOptionsQ.insertValues inp)).columns.Perm
        (((PollOptionsQ.chain db ops).selector.reads tableColumns).filter
          (fun c => c ∉ (["votes_count"] : List String)))) ∧
    (∀ (db : DB) (ops : List PollVotesOp) (inp : InsertPollVoteInput) (tableColumns : List String),
      ((PollVotesQ.chain db ops).inserter.SetMap (PollVotesQ.insertValues inp)).columns.Perm
        (((PollVotesQ.chain db ops).selector.reads tableColumns).filter
          (fun c => c ∉ ([] : List String)))) ∧
    (∀ (db : DB) (ops : List ProposalsOp) (inp : InsertProposalInput) (tableColumns : List String),
      ((ProposalsQ.chain db ops).inserter.SetMap (ProposalsQ.insertValues inp)).columns.Perm
        (((ProposalsQ.chain db ops).selector.reads tableColumns).filter
          (fun c => c ∉ (["agreed_num", "disagreed_num"] : List String)))) ∧
    (∀ (db : DB) (ops : List ProposalVotesOp) (inp : InsertProposalVoteInput) (tableColumns : List String),
      ((ProposalVotesQ.chain db ops).inserter.SetMap (ProposalVotesQ.insertValues inp)).columns.Perm
        (((ProposalVotesQ.chain db ops).selector.reads tableColumns).filter
          (fun c => c ∉ ([] : List String)))) ∧
    (∀ (db : DB) (ops : List PetitionsOp) (ctx : Context) (inp : InsertPetitionInput),
      ∃ sql args,
        ((PetitionsQ.chain db ops).inserter.SetMap (PetitionsQ.insertValues inp)).ToSql = .ok (sql, args) ∧
        (PetitionsQ.chain db ops).Insert ctx inp
          = .roundTrip ⟨resolveTarget db ctx, .ExecContext, ctx, sql, args⟩) ∧
    (∀ (db : DB) (ops : List PetitionSignaturesOp) (ctx : Context) (inp : PetitionSignature),
      ∃ sql args,
        ((PetitionSignaturesQ.chain db ops).inserter.SetMap (PetitionSignaturesQ.insertValues inp)).ToSql = .ok (sql, args) ∧
        (PetitionSignaturesQ.chain db ops).Insert ctx inp
          = .roundTrip ⟨resolveTarget db ctx, .ExecContext, ctx, sql, args⟩) ∧
    (∀ (db : DB) (ops : List PollsOp) (ctx : Context) (inp : InsertPollInput),
      ∃ sql args,
        ((PollsQ.chain db ops).inserter.SetMap (PollsQ.insertValues inp)).ToSql = .ok (sql, args) ∧
        (PollsQ.chain db ops).Insert ctx inp
          = .roundTrip ⟨resolveTarget db ctx, .ExecContext, ctx, sql, args⟩) ∧
    (∀ (db : DB) (ops : List PollOptionsOp) (ctx : Context) (inp : InsertPollOptionInput),
      ∃ sql args,
        ((PollOptionsQ.chain db ops).inserter.SetMap (PollOptionsQ.insertValues inp)).ToSql = .ok (sql, args) ∧
        (PollOptionsQ.chain db ops).Insert ctx inp
          = .roundTrip ⟨resolveTarget db ctx, .ExecContext, ctx, sql, args⟩) ∧
    (∀ (db : DB) (ops : List PollVotesOp) (ctx : Context) (inp : InsertPollVoteInput),
      ∃ sql args,
        ((PollVotesQ.chain db ops).inserter.SetMap (PollVotesQ.insertValues inp)).ToSql = .ok (sql, args) ∧
        (PollVotesQ.chain db ops).Insert ctx inp
          = .roundTrip ⟨resolveTarget db ctx, .ExecContext, ctx, sql, args⟩) ∧
    (∀ (db : DB) (ops : List ProposalsOp) (ctx : Context) (inp : InsertProposalInput),
      ∃ sql args,
        ((ProposalsQ.chain db ops).inserter.SetMap (ProposalsQ.insertValues inp)).ToSql = .ok (sql, args) ∧
        (ProposalsQ.chain db ops).Insert ctx inp
          = .roundTrip ⟨resolveTarget db ctx, .ExecContext, ctx, sql, args⟩) ∧
    (∀ (db : DB) (ops : List ProposalVotesOp) (ctx : Context) (inp : InsertProposalVoteInput),
      ∃ sql args,
        ((ProposalVotesQ.chain db ops).inserter.SetMap (ProposalVotesQ.insertValues inp)).ToSql = .ok (sql, args) ∧
        (ProposalVotesQ.chain db ops).Insert ctx inp
          = .roundTrip ⟨resolveTarget db ctx, .ExecContext, ctx, sql, args⟩) := by
  refine ⟨?_, ?_, ?_, ?_, ?_, ?_, ?_, ?_, ?_, ?_, ?_, ?_, ?_, ?_⟩
  · intro db ops inp tableColumns
    have hsel : (PetitionsQ.chain db ops).selector.columns = (NewPetitionsQ ⟨0⟩).selector.columns :=
      (PetitionsQ_chain_shaped db ops).1.1
    rw [PetitionsQ_insert_columns, reads_without_star _ _ (by rw [hsel]; decide)]
    unfold SelectBuilder.reads
    rw [hsel]
    decide
  · intro db ops inp
    have hsel : (PetitionSignaturesQ.chain db ops).selector.columns = (NewPetitionSignaturesQ ⟨0⟩).selector.columns :=
      (PetitionSignaturesQ_chain_shaped db ops).1.1
    rw [PetitionSignaturesQ_insert_columns]
    unfold SelectBuilder.reads
    rw [hsel]
    decide
  · intro db ops inp tableColumns
    have hsel : (PollsQ.chain db ops).selector.columns = (NewPollsQ ⟨0⟩).selector.columns :=
      (PollsQ_chain_shaped db ops).1.1
    rw [PollsQ_insert_columns, reads_without_star _ _ (by rw [hsel]; decide)]
    unfold SelectBuilder.reads
    rw [hsel]
    decide
  · intro db ops inp tableColumns
    have hsel : (PollOptionsQ.chain db ops).selector.columns = (NewPollOptionsQ ⟨0⟩).selector.columns :=
      (PollOptionsQ_chain_shaped db ops).1.1
    rw [PollOptionsQ_insert_columns, reads_without_star _ _ (by rw [hsel]; decide)]
    unfold SelectBuilder.reads
    rw [hsel]
    decide
  · intro db ops inp tableColumns
    have hsel : (PollVotesQ.chain db ops).selector.columns = (NewPollVotesQ ⟨0⟩).selector.columns :=
      (PollVotesQ_chain_shaped db ops).1.1
    rw [PollVotesQ_insert_columns, reads_without_star _ _ (by rw [hsel]; decide)]
    unfold SelectBuilder.reads
    rw [hsel]
    decide
  · intro db ops inp tableColumns
    have hsel : (ProposalsQ.chain db ops).selector.columns = (NewProposalsQ ⟨0⟩).selector.columns :=
      (ProposalsQ_chain_shaped db ops).1.1
    rw [ProposalsQ_insert_columns, reads_without_star _ _ (by rw [hsel]; decide)]
    unfold SelectBuilder.reads
    rw [hsel]
    decide
  · intro db ops inp tableColumns
    have hsel : (ProposalVotesQ.chain db ops).selector.columns = (NewProposalVotesQ ⟨0⟩).selector.columns :=
      (ProposalVotesQ_chain_shaped db ops).1.1
    rw [ProposalVotesQ_insert_columns, reads_without_star _ _ (by rw [hsel]; decide)]
    unfold SelectBuilder.reads
    rw [hsel]
    decide
  · intro db ops ctx inp
    obtain ⟨⟨_, _, _, _, _, _, _, hins⟩, hdb⟩ := PetitionsQ_chain_shaped db ops
    have hins : (PetitionsQ.chain db ops).inserter = insertInto petitionsTable := hins
    obtain ⟨sql, args, hi⟩ := issue_insert ((insertInto petitionsTable).SetMap (PetitionsQ.insertValues inp))
      (by rfl) (by rfl) db ctx ("building inserter query for table " ++ petitionsTable ++ ": ")
    refine ⟨sql, args, ?_, ?_⟩
    · rw [hins]
      exact built_of_issue _ _ _ _ _ _ _ hi
    · rw [PetitionsQ_insert_eq, hdb, hins]
      exact hi
  · intro db ops ctx inp
    obtain ⟨⟨_, _, _, _, _, _, _, hins⟩, hdb⟩ := PetitionSignaturesQ_chain_shaped db ops
    have hins : (PetitionSignaturesQ.chain db ops).inserter = insertInto petitionSignaturesTable := hins
    obtain ⟨sql, args, hi⟩ := issue_insert ((insertInto petitionSignaturesTable).SetMap (PetitionSignaturesQ.insertValues inp))
      (by rfl) (by rfl) db ctx ("building inserter query for table: " ++ petitionSignaturesTable ++ " input: ")
    refine ⟨sql, args, ?_, ?_⟩
    · rw [hins]
      exact built_of_issue _ _ _ _ _ _ _ hi
    · rw [PetitionSignaturesQ_insert_eq, hdb, hins]
      exact hi
  · intro db ops ctx inp
    obtain ⟨⟨_, _, _, _, _, _, _, hins⟩, hdb⟩ := PollsQ_chain_shaped db ops
    have hins : (PollsQ.chain db ops).inserter = insertInto pollsTable := hins
    obtain ⟨sql, args, hi⟩ := issue_insert ((insertInto pollsTable).SetMap (PollsQ.insertValues inp))
      (by rfl) (by rfl) db ctx ("building inserter query for table " ++ pollsTable ++ ": ")
    refine ⟨sql, args, ?_, ?_⟩
    · rw [hins]
      exact built_of_issue _ _ _ _ _ _ _ hi
    · rw [PollsQ_insert_eq, hdb, hins]
      exact hi
  · intro db ops ctx inp
    obtain ⟨⟨_, _, _, _, _, _, _, hins⟩, hdb⟩ := PollOptionsQ_chain_shaped db ops
    have hins : (PollOptionsQ.chain db ops).inserter = insertInto pollOptionsTable := hins
    obtain ⟨sql, args, hi⟩ := issue_insert ((insertInto pollOptionsTable).SetMap (PollOptionsQ.insertValues inp))
      (by rfl) (by rfl) db ctx ("building inserter query for table " ++ pollOptionsTable ++ ": ")
    refine ⟨sql, args, ?_, ?_⟩
    · rw [hins]
      exact built_of_issue _ _ _ _ _ _ _ hi
    · rw [PollOptionsQ_insert_eq, hdb, hins]
      exact hi
  · intro db ops ctx inp
    obtain ⟨⟨_, _, _, _, _, _, _, hins⟩, hdb⟩ := PollVotesQ_chain_shaped db ops
    have hins : (PollVotesQ.chain db ops).inserter = insertInto pollVotesTable := hins
    obtain ⟨sql, args, hi⟩ := issue_insert ((insertInto pollVotesTable).SetMap (PollVotesQ.insertValues inp))
      (by rfl) (by rfl) db ctx ("building inserter query for table " ++ pollVotesTable ++ ": ")
    refine ⟨sql, args, ?_, ?_⟩
    · rw [hins]
      exact built_of_issue _ _ _ _ _ _ _ hi
    · rw [PollVotesQ_insert_eq, hdb, hins]
      exact hi
  · intro db ops ctx inp
    obtain ⟨⟨_, _, _, _, _, _, _, hins⟩, hdb⟩ := ProposalsQ_chain_shaped db ops
    have hins : (ProposalsQ.chain db ops).inserter = insertInto proposalsTable := hins
    obtain ⟨sql, args, hi⟩ := issue_insert ((insertInto proposalsTable).SetMap (ProposalsQ.insertValues inp))
      (by rfl) (by rfl) db ctx ("building inserter query for table " ++ proposalsTable ++ ": ")
    refine ⟨sql, args, ?_, ?_⟩
    · rw [hins]
      exact built_of_issue _ _ _ _ _ _ _ hi
    · rw [ProposalsQ_insert_eq, hdb, hins]
      exact hi
  · intro db ops ctx inp
    obtain ⟨⟨_, _, _, _, _, _, _, hins⟩, hdb⟩ := ProposalVotesQ_chain_shaped db ops
    have hins : (ProposalVotesQ.chain db ops).inserter = insertInto proposalVotesTable := hins
    obtain ⟨sql, args, hi⟩ := issue_insert ((insertInto proposalVotesTable).SetMap (ProposalVotesQ.insertValues inp))
      (by rfl) (by rfl) db ctx ("building inserter query for table " ++ proposalVotesTable ++ ": ")
    refine ⟨sql, args, ?_, ?_⟩
    · rw [hins]
      exact built_of_issue _ _ _ _ _ _ _ hi
    · rw [ProposalVotesQ_insert_eq, hdb, hins]
      exact hi

/-- C16 as stated fails for poll options and for proposals: the selector of
`PollOptionsQ` reads `votes_count`, and the selector of `ProposalsQ` reads
`agreed_num` and `disagreed_num`, and the INSERT statements assign none of
them. -/
theorem C16_counterexample_insert_leaves_the_counters_out :
    "votes_count" ∈ (NewPollOptionsQ ⟨0⟩).selector.reads [] ∧
    "votes_count" ∉ ((NewPollOptionsQ ⟨0⟩).inserter.SetMap
      (PollOptionsQ.insertValues ⟨⟨1⟩, ⟨2⟩, "yes", ⟨3⟩⟩)).columns ∧
    (NewPollOptionsQ ⟨0⟩).Insert Context.background ⟨⟨1⟩, ⟨2⟩, "yes", ⟨3⟩⟩
      = .roundTrip ⟨.pool ⟨0⟩, .ExecContext, Context.background,
          "INSERT INTO poll_options (created_at,id,option_text,poll_id) VALUES ($1,$2,$3,$4)",
          [.val (.time ⟨3⟩), .val (.uuid ⟨1⟩), .val (.str "yes"), .val (.uuid ⟨2⟩)]⟩ ∧
    "agreed_num" ∈ (NewProposalsQ ⟨0⟩).selector.reads [] ∧
    "disagreed_num" ∈ (NewProposalsQ ⟨0⟩).selector.reads [] ∧
    "agreed_num" ∉ ((NewProposalsQ ⟨0⟩).inserter.SetMap
      (ProposalsQ.insertValues ⟨⟨1⟩, ⟨2⟩, "t", "d", "s", ⟨3⟩, none, ⟨4⟩, ⟨5⟩, ⟨6⟩,
        none⟩)).columns ∧
    "disagreed_num" ∉ ((NewProposalsQ ⟨0⟩).inserter.SetMap
      (ProposalsQ.insertValues ⟨⟨1⟩, ⟨2⟩, "t", "d", "s", ⟨3⟩, none, ⟨4⟩, ⟨5⟩, ⟨6⟩,
        none⟩)).columns := by
  refine ⟨by decide, by decide, by decide, by decide, by decide, by decide, by decide⟩

/-! ## Insert, then Get by identifier -/

/-- Among rows none of which has the identifier, followed by one row that has
it, the filter on the identifier keeps that one row. -/
theorem filter_id_new (e : Engine) (id : UUID) (rows : List Row) (row : Row)
    (hold : ∀ r ∈ rows, r.get "id" ≠ .uuid id) (hrow : row.get "id" = .uuid id) :
    (rows ++ [row]).filter
        (fun r => [Pred.eq "id" (.uuid id)].all (fun p => p.holds e r))
      = [row] := by
  have hh : ∀ r : Row, [Pred.eq "id" (.uuid id)].all (fun p => p.holds e r)
      = (r.get "id" != .null && r.get "id" == .uuid id) := by
    intro r
    simp [Pred.holds, Pred.cond, Cond.isTrue, Value.cell, Value.driverValue]
  rw [List.filter_append]
  have h1 : rows.filter (fun r => [Pred.eq "id" (.uuid id)].all (fun p => p.holds e r)) = [] := by
    rw [List.filter_eq_nil_iff]
    intro r hr
    rw [hh]
    simp [hold r hr]
  have h2 : [row].filter (fun r => [Pred.eq "id" (.uuid id)].all (fun p => p.holds e r))
      = [row] := by
    rw [List.filter_cons, hh, hrow]
    simp
  rw [h1, h2]
  rfl

/-- The cell a plain bound value stores. -/
theorem arg_cell_val (old : Row) (v : Value) : Arg.cell old (.val v) = v.cell := rfl

/-- The cell a bound point stores: the longitude as X, the latitude as Y. -/
theorem arg_cell_point (old : Row) (loc : GeoPoint) :
    Arg.cell old (pointExpr loc) = .point loc.Lng loc.Lat := rfl

/-- A row with a fresh identifier conflicts with no stored row on the
identifier. -/
theorem no_conflict_on_id (id : UUID) (rows : List Row) (row : Row)
    (hold : ∀ r ∈ rows, r.get "id" ≠ .uuid id) (hrow : row.get "id" = .uuid id) :
    ∀ key ∈ [["id"]], ∀ r ∈ rows, Row.conflicts key r row = false := by
  intro key hk r hr
  rw [List.mem_singleton] at hk
  subst hk
  simp [Row.conflicts, hrow, hold r hr]

/-- The statement `PetitionsQ.Insert` builds from the constructor's inserter: the
keys of the map in `sort.Strings` order, and their values. -/
theorem PetitionsQ_insert_builder (inp : InsertPetitionInput) :
    (insertInto petitionsTable).SetMap (PetitionsQ.insertValues inp)
      = ⟨petitionsTable,
         ["address_to_id", "city_id", "created_at", "description", "end_date", "goal", "id", "initiator_id", "location", "signatures", "status", "title", "updated_at"],
         [[.val (.uuidPtr inp.AddressToID),
           .val (.uuid inp.CityID),
           .val (.time inp.CreatedAt),
           .val (.str inp.Description),
           .val (.time inp.EndDate),
           .val (.int inp.Goal),
           .val (.uuid inp.ID),
           .val (.uuid inp.InitiatorID),
           (match inp.Location with
            | some loc => pointExpr loc
            | none => .val .null),
           .val (.int inp.Signatures),
           .val (.str inp.Status),
           .val (.str inp.Title),
           .val (.time inp.UpdatedAt)]]⟩ := by
  obtain ⟨a0, a1, a2, a3, a4, a5, a6, a7, a8, a9, a10, a11, a12⟩ := inp
  cases a12 <;> rfl

/-- The row `PetitionsQ.Insert` writes on a value reached from the constructor. -/
theorem PetitionsQ_insert_row (db : DB) (ops : List PetitionsOp) (inp : InsertPetitionInput) :
    ((PetitionsQ.chain db ops).inserter.SetMap (PetitionsQ.insertValues inp)).row petitionsSchema
      = [("id", .uuid inp.ID), ("city_id", .uuid inp.CityID), ("title", .text inp.Title),
       ("description", .text inp.Description), ("initiator_id", .uuid inp.InitiatorID),
       ("address_to_id", (Value.uuidPtr inp.AddressToID).cell),
       ("status", .text inp.Status), ("signatures", .int inp.Signatures),
       ("goal", .int inp.Goal), ("end_date", .timestamp inp.EndDate.stored),
       ("created_at", .timestamp inp.CreatedAt.stored),
       ("updated_at", .timestamp inp.UpdatedAt.stored),
       ("location", writtenLocation inp.Location)] := by
  obtain ⟨⟨_, _, _, _, _, _, _, hins⟩, _⟩ := PetitionsQ_chain_shaped db ops
  have hins : (PetitionsQ.chain db ops).inserter = insertInto petitionsTable := hins
  rw [hins, PetitionsQ_insert_builder]
  cases inp.Location <;>
    simp [InsertBuilder.row, petitionsSchema, List.find?, arg_cell_val, arg_cell_point,
      writtenLocation] <;>
    (repeat' constructor)

/-- The table and the values of the statement `PetitionsQ.Insert` builds. -/
theorem PetitionsQ_insert_built (db : DB) (ops : List PetitionsOp) (inp : InsertPetitionInput) :
    ((PetitionsQ.chain db ops).inserter.SetMap (PetitionsQ.insertValues inp)).table = petitionsTable ∧
    ((PetitionsQ.chain db ops).inserter.SetMap (PetitionsQ.insertValues inp)).table.isEmpty = false ∧
    ((PetitionsQ.chain db ops).inserter.SetMap (PetitionsQ.insertValues inp)).values.isEmpty = false := by
  obtain ⟨⟨_, _, _, _, _, _, _, hins⟩, _⟩ := PetitionsQ_chain_shaped db ops
  have hins : (PetitionsQ.chain db ops).inserter = insertInto petitionsTable := hins
  rw [hins]
  exact ⟨rfl, rfl, rfl⟩

/-- The row `PetitionsQ.Insert` writes scans into the model of the input. -/
theorem PetitionsQ_scan_inserted (inp : InsertPetitionInput) :
    scanInto PetitionsQ.getDests PetitionModel.zero
        (project (NewPetitionsQ ⟨0⟩).selector.columns
          [("id", .uuid inp.ID), ("city_id", .uuid inp.CityID), ("title", .text inp.Title),
            ("description", .text inp.Description), ("initiator_id", .uuid inp.InitiatorID),
            ("address_to_id", (Value.uuidPtr inp.AddressToID).cell),
            ("status", .text inp.Status), ("signatures", .int inp.Signatures),
            ("goal", .int inp.Goal), ("end_date", .timestamp inp.EndDate),
            ("created_at", .timestamp inp.CreatedAt),
            ("updated_at", .timestamp inp.UpdatedAt),
            ("location", writtenLocation inp.Location)])
      = (inp.model, none) := by
  obtain ⟨a0, a1, a2, a3, a4, a5, a6, a7, a8, a9, a10, a11, a12⟩ := inp
  cases a12 <;> cases a5 <;>
    simp [project, projectColumn, Row.get, NewPetitionsQ, selectFrom, writtenLocation, Value.cell,
      Value.driverValue] <;> rfl

/-- Insert on a store without a row of the identifier, then Get by the
identifier, on `PetitionsQ`. -/
theorem PetitionsQ_insert_then_get (db : DB) (ops : List PetitionsOp) (e : Engine) (s : Store)
    (ctx : Context) (inp : InsertPetitionInput) (hlive : ctx.Live)
    (hnew : ∀ r ∈ s petitionsTable, r.get "id" ≠ .uuid inp.ID) :
    ∃ s1, (PetitionsQ.chain db ops).InsertOn s ctx inp = some (s1, none) ∧
      ((NewPetitionsQ db).FilterID inp.ID).GetOn e s1 ctx = some (inp.stored.model, none) := by
  obtain ⟨ht, hte, hve⟩ := PetitionsQ_insert_built db ops inp
  have hid : (((PetitionsQ.chain db ops).inserter.SetMap (PetitionsQ.insertValues inp)).row petitionsSchema).get "id"
      = .uuid inp.ID := by
    rw [PetitionsQ_insert_row]; rfl
  refine ⟨s.setTable petitionsTable (s petitionsTable ++
    [((PetitionsQ.chain db ops).inserter.SetMap (PetitionsQ.insertValues inp)).row petitionsSchema]), ?_, ?_⟩
  · show insertOn ((PetitionsQ.chain db ops).Insert ctx inp) petitionsSchema s _ = _
    rw [PetitionsQ_insert_eq, insertOn_live _ hte hve _ _ _ _ _ hlive, ht,
      insert_fresh _ _ _ _ (no_conflict_on_id inp.ID _ _ hnew hid)]
  · have hg := PetitionsQ_get_first db [.FilterID inp.ID] e
      (s.setTable petitionsTable (s petitionsTable ++
        [((PetitionsQ.chain db ops).inserter.SetMap (PetitionsQ.insertValues inp)).row petitionsSchema])) ctx hlive
    have hcols : (PetitionsQ.chain db [.FilterID inp.ID]).selector.columns
        = (NewPetitionsQ ⟨0⟩).selector.columns := rfl
    have hord : (PetitionsQ.chain db [.FilterID inp.ID]).selector.ordered e
        (s.setTable petitionsTable (s petitionsTable ++
          [((PetitionsQ.chain db ops).inserter.SetMap (PetitionsQ.insertValues inp)).row petitionsSchema]))
        = [((PetitionsQ.chain db ops).inserter.SetMap (PetitionsQ.insertValues inp)).row petitionsSchema] := by
      show sortRows [] (List.filter
        (fun r => [Pred.eq "id" (.uuid inp.ID)].all (fun p => p.holds e r))
        ((s.setTable petitionsTable (s petitionsTable ++
          [((PetitionsQ.chain db ops).inserter.SetMap (PetitionsQ.insertValues inp)).row petitionsSchema])) petitionsTable)) = _
      rw [setTable_same, filter_id_new e inp.ID _ _ hnew hid]
      rfl
    have hoff : (PetitionsQ.chain db [.FilterID inp.ID]).selector.offset.getD 0 = 0 := rfl
    rw [hcols, hord, hoff] at hg
    rw [PetitionsQ_insert_row] at hg ⊢
    have hscan := PetitionsQ_scan_inserted inp.stored
    exact hg.trans (congrArg some hscan)

/-- The statement `PollsQ.Insert` builds from the constructor's inserter: the
keys of the map in `sort.Strings` order, and their values. -/
theorem PollsQ_insert_builder (inp : InsertPollInput) :
    (insertInto pollsTable).SetMap (PollsQ.insertValues inp)
      = ⟨pollsTable,
         ["city_id", "created_at", "description", "end_date", "id", "initiator_id", "location", "status", "title", "updated_at"],
         [[.val (.uuid inp.CityID),
           .val (.time inp.CreatedAt),
           .val (.str inp.Description),
           .val (.time inp.EndDate),
           .val (.uuid inp.ID),
           .val (.uuid inp.InitiatorID),
           (match inp.Location with
            | some loc => pointExpr loc
            | none => .val .null),
           .val (.str inp.Status),
           .val (.str inp.Title),
           .val (.time inp.UpdatedAt)]]⟩ := by
  obtain ⟨a0, a1, a2, a3, a4, a5, a6, a7, a8, a9⟩ := inp
  cases a9 <;> rfl

/-- The row `PollsQ.Insert` writes on a value reached from the constructor. -/
theorem PollsQ_insert_row (db : DB) (ops : List PollsOp) (inp : InsertPollInput) :
    ((PollsQ.chain db ops).inserter.SetMap (PollsQ.insertValues inp)).row pollsSchema
      = [("id", .uuid inp.ID), ("city_id", .uuid inp.CityID), ("title", .text inp.Title),
       ("description", .text inp.Description), ("status", .text inp.Status),
       ("initiator_id", .uuid inp.InitiatorID), ("end_date", .timestamp inp.EndDate.stored),
       ("created_at", .timestamp inp.CreatedAt.stored),
       ("updated_at", .timestamp inp.UpdatedAt.stored),
       ("location", writtenLocation inp.Location)] := by
  obtain ⟨⟨_, _, _, _, _, _, _, hins⟩, _⟩ := PollsQ_chain_shaped db ops
  have hins : (PollsQ.chain db ops).inserter = insertInto pollsTable := hins
  rw [hins, PollsQ_insert_builder]
  cases inp.Location <;>
    simp [InsertBuilder.row, pollsSchema, List.find?, arg_cell_val, arg_cell_point,
      writtenLocation] <;>
    (repeat' constructor)

/-- The table and the values of the statement `PollsQ.Insert` builds. -/
theorem PollsQ_insert_built (db : DB) (ops : List PollsOp) (inp : InsertPollInput) :
    ((PollsQ.chain db ops).inserter.SetMap (PollsQ.insertValues inp)).table = pollsTable ∧
    ((PollsQ.chain db ops).inserter.SetMap (PollsQ.insertValues inp)).table.isEmpty = false ∧
    ((PollsQ.chain db ops).inserter.SetMap (PollsQ.insertValues inp)).values.isEmpty = false := by
  obtain ⟨⟨_, _, _, _, _, _, _, hins⟩, _⟩ := PollsQ_chain_shaped db ops
  have hins : (PollsQ.chain db ops).inserter = insertInto pollsTable := hins
  rw [hins]
  exact ⟨rfl, rfl, rfl⟩

/-- The row `PollsQ.Insert` writes scans into the model of the input. -/
theorem PollsQ_scan_inserted (inp : InsertPollInput) :
    scanInto PollsQ.getDests PollModel.zero
        (project (NewPollsQ ⟨0⟩).selector.columns
          [("id", .uuid inp.ID), ("city_id", .uuid inp.CityID), ("title", .text inp.Title),
            ("description", .text inp.Description), ("status", .text inp.Status),
            ("initiator_id", .uuid inp.InitiatorID), ("end_date", .timestamp inp.EndDate),
            ("created_at", .timestamp inp.CreatedAt),
            ("updated_at", .timestamp inp.UpdatedAt),
            ("location", writtenLocation inp.Location)])
      = (inp.model, none) := by
  obtain ⟨a0, a1, a2, a3, a4, a5, a6, a7, a8, a9⟩ := inp
  cases a9 <;>
    simp [project, projectColumn, Row.get, NewPollsQ, selectFrom, writtenLocation, Value.cell,
      Value.driverValue] <;> rfl

/-- Insert on a store without a row of the identifier, then Get by the
identifier, on `PollsQ`. -/
theorem PollsQ_insert_then_get (db : DB) (ops : List PollsOp) (e : Engine) (s : Store)
    (ctx : Context) (inp : InsertPollInput) (hlive : ctx.Live)
    (hnew : ∀ r ∈ s pollsTable, r.get "id" ≠ .uuid inp.ID) :
    ∃ s1, (PollsQ.chain db ops).InsertOn s ctx inp = some (s1, none) ∧
      ((NewPollsQ db).FilterID inp.ID).GetOn e s1 ctx = some (inp.stored.model, none) := by
  obtain ⟨ht, hte, hve⟩ := PollsQ_insert_built db ops inp
  have hid : (((PollsQ.chain db ops).inserter.SetMap (PollsQ.insertValues inp)).row pollsSchema).get "id"
      = .uuid inp.ID := by
    rw [PollsQ_insert_row]; rfl
  refine ⟨s.setTable pollsTable (s pollsTable ++
    [((PollsQ.chain db ops).inserter.SetMap (PollsQ.insertValues inp)).row pollsSchema]), ?_, ?_⟩
  · show insertOn ((PollsQ.chain db ops).Insert ctx inp) pollsSchema s _ = _
    rw [PollsQ_insert_eq, insertOn_live _ hte hve _ _ _ _ _ hlive, ht,
      insert_fresh _ _ _ _ (no_conflict_on_id inp.ID _ _ hnew hid)]
  · have hg := PollsQ_get_first db [.FilterID inp.ID] e
      (s.setTable pollsTable (s pollsTable ++
        [((PollsQ.chain db ops).inserter.SetMap (PollsQ.insertValues inp)).row pollsSchema])) ctx hlive
    have hcols : (PollsQ.chain db [.FilterID inp.ID]).selector.columns
        = (NewPollsQ ⟨0⟩).selector.columns := rfl
    have hord : (PollsQ.chain db [.FilterID inp.ID]).selector.ordered e
        (s.setTable pollsTable (s pollsTable ++
          [((PollsQ.chain db ops).inserter.SetMap (PollsQ.insertValues inp)).row pollsSchema]))
        = [((PollsQ.chain db ops).inserter.SetMap (PollsQ.insertValues inp)).row pollsSchema] := by
      show sortRows [] (List.filter
        (fun r => [Pred.eq "id" (.uuid inp.ID)].all (fun p => p.holds e r))
        ((s.setTable pollsTable (s pollsTable ++
          [((PollsQ.chain db ops).inserter.SetMap (PollsQ.insertValues inp)).row pollsSchema])) pollsTable)) = _
      rw [setTable_same, filter_id_new e inp.ID _ _ hnew hid]
      rfl
    have hoff : (PollsQ.chain db [.FilterID inp.ID]).selector.offset.getD 0 = 0 := rfl
    rw [hcols, hord, hoff] at hg
    rw [PollsQ_insert_row] at hg ⊢
    have hscan := PollsQ_scan_inserted inp.stored
    exact hg.trans (congrArg some hscan)

/-- The statement `ProposalsQ.Insert` builds from the constructor's inserter: the
keys of the map in `sort.Strings` order, and their values. -/
theorem ProposalsQ_insert_builder (inp : InsertProposalInput) :
    (insertInto proposalsTable).SetMap (ProposalsQ.insertValues inp)
      = ⟨proposalsTable,
         ["address_to_id", "city_id", "created_at", "description", "end_date", "id", "initiator_id", "location", "status", "title", "updated_at"],
         [[.val (.uuidPtr inp.AddressToID),
           .val (.uuid inp.CityID),
           .val (.time inp.CreatedAt),
           .val (.str inp.Description),
           .val (.time inp.EndDate),
           .val (.uuid inp.ID),
           .val (.uuid inp.InitiatorID),
           (match inp.Location with
            | some loc => pointExpr loc
            | none => .val .null),
           .val (.str inp.Status),
           .val (.str inp.Title),
           .val (.time inp.UpdatedAt)]]⟩ := by
  obtain ⟨a0, a1, a2, a3, a4, a5, a6, a7, a8, a9, a10⟩ := inp
  cases a10 <;> rfl

/-- The row `ProposalsQ.Insert` writes on a value reached from the constructor. -/
theorem ProposalsQ_insert_row (db : DB) (ops : List ProposalsOp) (inp : InsertProposalInput) :
    ((ProposalsQ.chain db ops).inserter.SetMap (ProposalsQ.insertValues inp)).row proposalsSchema
      = [("id", .uuid inp.ID), ("city_id", .uuid inp.CityID), ("title", .text inp.Title),
       ("description", .text inp.Description), ("status", .text inp.Status),
       ("initiator_id", .uuid inp.InitiatorID),
       ("address_to_id", (Value.uuidPtr inp.AddressToID).cell), ("agreed_num", .int 0),
       ("disagreed_num", .int 0), ("end_date", .timestamp inp.EndDate.stored),
       ("created_at", .timestamp inp.CreatedAt.stored),
       ("updated_at", .timestamp inp.UpdatedAt.stored),
       ("location", writtenLocation inp.Location)] := by
  obtain ⟨⟨_, _, _, _, _, _, _, hins⟩, _⟩ := ProposalsQ_chain_shaped db ops
  have hins : (ProposalsQ.chain db ops).inserter = insertInto proposalsTable := hins
  rw [hins, ProposalsQ_insert_builder]
  cases inp.Location <;>
    simp [InsertBuilder.row, proposalsSchema, List.find?, arg_cell_val, arg_cell_point,
      writtenLocation] <;>
    (repeat' constructor)

/-- The table and the values of the statement `ProposalsQ.Insert` builds. -/
theorem ProposalsQ_insert_built (db : DB) (ops : List ProposalsOp) (inp : InsertProposalInput) :
    ((ProposalsQ.chain db ops).inserter.SetMap (ProposalsQ.insertValues inp)).table = proposalsTable ∧
    ((ProposalsQ.chain db ops).inserter.SetMap (ProposalsQ.insertValues inp)).table.isEmpty = false ∧
    ((ProposalsQ.chain db ops).inserter.SetMap (ProposalsQ.insertValues inp)).values.isEmpty = false := by
  obtain ⟨⟨_, _, _, _, _, _, _, hins⟩, _⟩ := ProposalsQ_chain_shaped db ops
  have hins : (ProposalsQ.chain db ops).inserter = insertInto proposalsTable := hins
  rw [hins]
  exact ⟨rfl, rfl, rfl⟩

/-- The row `ProposalsQ.Insert` writes scans into the model of the input. -/
theorem ProposalsQ_scan_inserted (inp : InsertProposalInput) :
    scanInto ProposalsQ.getDests Proposal.zero
        (project (NewProposalsQ ⟨0⟩).selector.columns
          [("id", .uuid inp.ID), ("city_id", .uuid inp.CityID), ("title", .text inp.Title),
            ("description", .text inp.Description), ("status", .text inp.Status),
            ("initiator_id", .uuid inp.InitiatorID),
            ("address_to_id", (Value.uuidPtr inp.AddressToID).cell), ("agreed_num", .int 0),
            ("disagreed_num", .int 0), ("end_date", .timestamp inp.EndDate),
            ("created_at", .timestamp inp.CreatedAt),
            ("updated_at", .timestamp inp.UpdatedAt),
            ("location", writtenLocation inp.Location)])
      = (inp.model, none) := by
  obtain ⟨a0, a1, a2, a3, a4, a5, a6, a7, a8, a9, a10⟩ := inp
  cases a10 <;> cases a6 <;>
    simp [project, projectColumn, Row.get, NewProposalsQ, selectFrom, writtenLocation, Value.cell,
      Value.driverValue] <;> rfl

/-- Insert on a store without a row of the identifier, then Get by the
identifier, on `ProposalsQ`. -/
theorem ProposalsQ_insert_then_get (db : DB) (ops : List ProposalsOp) (e : Engine) (s : Store)
    (ctx : Context) (inp : InsertProposalInput) (hlive : ctx.Live)
    (hnew : ∀ r ∈ s proposalsTable, r.get "id" ≠ .uuid inp.ID) :
    ∃ s1, (ProposalsQ.chain db ops).InsertOn s ctx inp = some (s1, none) ∧
      ((NewProposalsQ db).FilterID inp.ID).GetOn e s1 ctx = some (inp.stored.model, none) := by
  obtain ⟨ht, hte, hve⟩ := ProposalsQ_insert_built db ops inp
  have hid : (((ProposalsQ.chain db ops).inserter.SetMap (ProposalsQ.insertValues inp)).row proposalsSchema).get "id"
      = .uuid inp.ID := by
    rw [ProposalsQ_insert_row]; rfl
  refine ⟨s.setTable proposalsTable (s proposalsTable ++
    [((ProposalsQ.chain db ops).inserter.SetMap (ProposalsQ.insertValues inp)).row proposalsSchema]), ?_, ?_⟩
  · show insertOn ((ProposalsQ.chain db ops).Insert ctx inp) proposalsSchema s _ = _
    rw [ProposalsQ_insert_eq, insertOn_live _ hte hve _ _ _ _ _ hlive, ht,
      insert_fresh _ _ _ _ (no_conflict_on_id inp.ID _ _ hnew hid)]
  · have hg := ProposalsQ_get_first db [.FilterID inp.ID] e
      (s.setTable proposalsTable (s proposalsTable ++
        [((ProposalsQ.chain db ops).inserter.SetMap (ProposalsQ.insertValues inp)).row proposalsSchema])) ctx hlive
    have hcols : (ProposalsQ.chain db [.FilterID inp.ID]).selector.columns
        = (NewProposalsQ ⟨0⟩).selector.columns := rfl
    have hord : (ProposalsQ.chain db [.FilterID inp.ID]).selector.ordered e
        (s.setTable proposalsTable (s proposalsTable ++
          [((ProposalsQ.chain db ops).inserter.SetMap (ProposalsQ.insertValues inp)).row proposalsSchema]))
        = [((ProposalsQ.chain db ops).inserter.SetMap (ProposalsQ.insertValues inp)).row proposalsSchema] := by
      show sortRows [] (List.filter
        (fun r => [Pred.eq "id" (.uuid inp.ID)].all (fun p => p.holds e r))
        ((s.setTable proposalsTable (s proposalsTable ++
          [((ProposalsQ.chain db ops).inserter.SetMap (ProposalsQ.insertValues inp)).row proposalsSchema])) proposalsTable)) = _
      rw [setTable_same, filter_id_new e inp.ID _ _ hnew hid]
      rfl
    have hoff : (ProposalsQ.chain db [.FilterID inp.ID]).selector.offset.getD 0 = 0 := rfl
    rw [hcols, hord, hoff] at hg
    rw [ProposalsQ_insert_row] at hg ⊢
    have hscan := ProposalsQ_scan_inserted inp.stored
    exact hg.trans (congrArg some hscan)

/-- A time of whole microseconds is stored as it is. -/
theorem Time.stored_of_whole (t : Time) (h : t.unixNano % 1000 = 0) : t.stored = t := by
  obtain ⟨n⟩ := t
  have h : n % 1000 = 0 := h
  unfold Time.stored
  simp only [h]
  rw [if_pos (by decide)]
  congr 1
  omega

/-- The stored time is of whole microseconds and at most half a microsecond
from the time. -/
theorem Time.stored_near (t : Time) :
    t.stored.unixNano % 1000 = 0 ∧
    t.stored.unixNano - t.unixNano ≤ 500 ∧ t.unixNano - t.stored.unixNano ≤ 500 := by
  obtain ⟨n⟩ := t
  unfold Time.stored
  simp only
  split_ifs <;> simp only <;> omega

/-- An input of `PetitionsQ.Insert` whose times are of whole microseconds is stored
as it is. -/
theorem InsertPetitionInput_stored_of_whole (inp : InsertPetitionInput)
    (h1 : inp.EndDate.unixNano % 1000 = 0) (h2 : inp.CreatedAt.unixNano % 1000 = 0)
    (h3 : inp.UpdatedAt.unixNano % 1000 = 0) : inp.stored = inp := by
  unfold InsertPetitionInput.stored
  rw [Time.stored_of_whole _ h1, Time.stored_of_whole _ h2, Time.stored_of_whole _ h3]

/-- An input of `PollsQ.Insert` whose times are of whole microseconds is stored
as it is. -/
theorem InsertPollInput_stored_of_whole (inp : InsertPollInput)
    (h1 : inp.EndDate.unixNano % 1000 = 0) (h2 : inp.CreatedAt.unixNano % 1000 = 0)
    (h3 : inp.UpdatedAt.unixNano % 1000 = 0) : inp.stored = inp := by
  unfold InsertPollInput.stored
  rw [Time.stored_of_whole _ h1, Time.stored_of_whole _ h2, Time.stored_of_whole _ h3]

/-- An input of `ProposalsQ.Insert` whose times are of whole microseconds is stored
as it is. -/
theorem InsertProposalInput_stored_of_whole (inp : InsertProposalInput)
    (h1 : inp.EndDate.unixNano % 1000 = 0) (h2 : inp.CreatedAt.unixNano % 1000 = 0)
    (h3 : inp.UpdatedAt.unixNano % 1000 = 0) : inp.stored = inp := by
  unfold InsertProposalInput.stored
  rw [Time.stored_of_whole _ h1, Time.stored_of_whole _ h2, Time.stored_of_whole _ h3]

/-- C17: for petitions, polls and proposals, every insert input, every store
that holds no row with the identifier of the input and every live context,
Insert succeeds and FilterID(in.ID).Get on the store it leaves returns, with no
error, the model of the input with its three times as the store keeps them,
which is the model whose fields are the fields of the input when the times are
of whole microseconds; when in.Location is nil the model has nil Lat and Lng,
and when it is a point the model has Lat = in.Location.Lat and
Lng = in.Location.Lng: the point is built with the longitude first and read
back with ST_Y as lat and ST_X as lng. The input as stored differs from the
input in the three times only, each kept in whole microseconds at most half a
microsecond from the time given. Get after FilterID(id) issues the SELECT of
the columns of the constructor with `WHERE id = $1 LIMIT 1`, bound to the text
of the identifier. -/
theorem C17_insert_then_get_round_trip :
    (∀ (db : DB) (ops : List PetitionsOp) (e : Engine) (s : Store) (ctx : Context) (inp : InsertPetitionInput),
      ctx.Live → (∀ r ∈ s petitionsTable, r.get "id" ≠ .uuid inp.ID) →
      (∃ s1, (PetitionsQ.chain db ops).InsertOn s ctx inp = some (s1, none) ∧
        ((NewPetitionsQ db).FilterID inp.ID).GetOn e s1 ctx = some (inp.stored.model, none)) ∧
      (inp.EndDate.unixNano % 1000 = 0 → inp.CreatedAt.unixNano % 1000 = 0 →
        inp.UpdatedAt.unixNano % 1000 = 0 → inp.stored.model = inp.model) ∧
      (inp.Location = none → inp.stored.model.Lat = none ∧ inp.stored.model.Lng = none) ∧
      (∀ loc, inp.Location = some loc →
        inp.stored.model.Lat = some loc.Lat ∧ inp.stored.model.Lng = some loc.Lng)) ∧
    (∀ (db : DB) (ops : List PollsOp) (e : Engine) (s : Store) (ctx : Context) (inp : InsertPollInput),
      ctx.Live → (∀ r ∈ s pollsTable, r.get "id" ≠ .uuid inp.ID) →
      (∃ s1, (PollsQ.chain db ops).InsertOn s ctx inp = some (s1, none) ∧
        ((NewPollsQ db).FilterID inp.ID).GetOn e s1 ctx = some (inp.stored.model, none)) ∧
      (inp.EndDate.unixNano % 1000 = 0 → inp.CreatedAt.unixNano % 1000 = 0 →
        inp.UpdatedAt.unixNano % 1000 = 0 → inp.stored.model = inp.model) ∧
      (inp.Location = none → inp.stored.model.Lat = none ∧ inp.stored.model.Lng = none) ∧
      (∀ loc, inp.Location = some loc →
        inp.stored.model.Lat = some loc.Lat ∧ inp.stored.model.Lng = some loc.Lng)) ∧
    (∀ (db : DB) (ops : List ProposalsOp) (e : Engine) (s : Store) (ctx : Context) (inp : InsertProposalInput),
      ctx.Live → (∀ r ∈ s proposalsTable, r.get "id" ≠ .uuid inp.ID) →
      (∃ s1, (ProposalsQ.chain db ops).InsertOn s ctx inp = some (s1, none) ∧
        ((NewProposalsQ db).FilterID inp.ID).GetOn e s1 ctx = some (inp.stored.model, none)) ∧
      (inp.EndDate.unixNano % 1000 = 0 → inp.CreatedAt.unixNano % 1000 = 0 →
        inp.UpdatedAt.unixNano % 1000 = 0 → inp.stored.model = inp.model) ∧
      (inp.Location = none → inp.stored.model.Lat = none ∧ inp.stored.model.Lng = none) ∧
      (∀ loc, inp.Location = some loc →
        inp.stored.model.Lat = some loc.Lat ∧ inp.stored.model.Lng = some loc.Lng)) ∧
    (∀ t : Time, t.stored.unixNano % 1000 = 0 ∧
      t.stored.unixNano - t.unixNano ≤ 500 ∧ t.unixNano - t.stored.unixNano ≤ 500) ∧
    (∀ inp : InsertPetitionInput,
      { inp.stored with
        EndDate := inp.EndDate, CreatedAt := inp.CreatedAt, UpdatedAt := inp.UpdatedAt } = inp) ∧
    (∀ inp : InsertPollInput,
      { inp.stored with
        EndDate := inp.EndDate, CreatedAt := inp.CreatedAt, UpdatedAt := inp.UpdatedAt } = inp) ∧
    (∀ inp : InsertProposalInput,
      { inp.stored with
        EndDate := inp.EndDate, CreatedAt := inp.CreatedAt, UpdatedAt := inp.UpdatedAt } = inp) ∧
    (∀ (db : DB) (ctx : Context) (id : UUID),
      ((NewPetitionsQ db).FilterID id).Get ctx
        = .roundTrip ⟨resolveTarget db ctx, .QueryRowContext, ctx,
            "SELECT id, city_id, title, description, initiator_id, address_to_id, status, signatures, goal, end_date, created_at, updated_at, ST_Y(location) AS lat, ST_X(location) AS lng FROM petitions WHERE id = $1 LIMIT 1",
            [.val (.str id.String)]⟩) ∧
    (∀ (db : DB) (ctx : Context) (id : UUID),
      ((NewPollsQ db).FilterID id).Get ctx
        = .roundTrip ⟨resolveTarget db ctx, .QueryRowContext, ctx,
            "SELECT id, city_id, title, description, status, initiator_id, end_date, created_at, updated_at, ST_Y(location) AS lat, ST_X(location) AS lng FROM polls WHERE id = $1 LIMIT 1",
            [.val (.str id.String)]⟩) ∧
    (∀ (db : DB) (ctx : Context) (id : UUID),
      ((NewProposalsQ db).FilterID id).Get ctx
        = .roundTrip ⟨resolveTarget db ctx, .QueryRowContext, ctx,
            "SELECT id, city_id, title, description, status, initiator_id, address_to_id, agreed_num, disagreed_num, end_date, created_at, updated_at, ST_Y(location) AS lat, ST_X(location) AS lng FROM proposals WHERE id = $1 LIMIT 1",
            [.val (.str id.String)]⟩) := by
  refine ⟨?_, ?_, ?_, Time.stored_near, fun _ => rfl, fun _ => rfl, fun _ => rfl,
    fun _ _ _ => rfl, fun _ _ _ => rfl, fun _ _ _ => rfl⟩
  · intro db ops e s ctx inp hlive hnew
    refine ⟨PetitionsQ_insert_then_get db ops e s ctx inp hlive hnew, ?_, ?_, ?_⟩
    · intro h1 h2 h3
      rw [InsertPetitionInput_stored_of_whole inp h1 h2 h3]
    · intro h; simp [InsertPetitionInput.model, InsertPetitionInput.stored, h]
    · intro loc h; simp [InsertPetitionInput.model, InsertPetitionInput.stored, h]
  · intro db ops e s ctx inp hlive hnew
    refine ⟨PollsQ_insert_then_get db ops e s ctx inp hlive hnew, ?_, ?_, ?_⟩
    · intro h1 h2 h3
      rw [InsertPollInput_stored_of_whole inp h1 h2 h3]
    · intro h; simp [InsertPollInput.model, InsertPollInput.stored, h]
    · intro loc h; simp [InsertPollInput.model, InsertPollInput.stored, h]
  · intro db ops e s ctx inp hlive hnew
    refine ⟨ProposalsQ_insert_then_get db ops e s ctx inp hlive hnew, ?_, ?_, ?_⟩
    · intro h1 h2 h3
      rw [InsertProposalInput_stored_of_whole inp h1 h2 h3]
    · intro h; simp [InsertProposalInput.model, InsertProposalInput.stored, h]
    · intro loc h; simp [InsertProposalInput.model, InsertProposalInput.stored, h]

set_option maxRecDepth 100000 in
/-- C17 at the empty store: a petition with the location of latitude 111 and
longitude 222 and times of whole microseconds is inserted by the INSERT of its
thirteen columns, and Get by its identifier returns its fields, with Lat 111
and Lng 222. -/
theorem C17_round_trip_witness :
    Context.background.Live ∧
    (PetitionsQ.chain ⟨0⟩ []).Insert Context.background
        ⟨⟨1⟩, ⟨2⟩, "t", "d", ⟨3⟩, none, "active", 0, 10, ⟨5000⟩, ⟨6000⟩, ⟨7000⟩,
          some ⟨⟨111⟩, ⟨222⟩⟩⟩
      = .roundTrip ⟨resolveTarget ⟨0⟩ Context.background, .ExecContext, Context.background,
          "INSERT INTO petitions (address_to_id,city_id,created_at,description,end_date,goal,id,initiator_id,location,signatures,status,title,updated_at) VALUES ($1,$2,$3,$4,$5,$6,$7,$8,ST_SetSRID(ST_MakePoint($9, $10), 4326),$11,$12,$13,$14)",
          [.val (.uuidPtr none), .val (.uuid ⟨2⟩), .val (.time ⟨6000⟩), .val (.str "d"),
            .val (.time ⟨5000⟩), .val (.int 10), .val (.uuid ⟨1⟩), .val (.uuid ⟨3⟩),
            .val (.float ⟨222⟩), .val (.float ⟨111⟩), .val (.int 0), .val (.str "active"),
            .val (.str "t"), .val (.time ⟨7000⟩)]⟩ ∧
    ∃ s1, (PetitionsQ.chain ⟨0⟩ []).InsertOn Store.empty Context.background
        ⟨⟨1⟩, ⟨2⟩, "t", "d", ⟨3⟩, none, "active", 0, 10, ⟨5000⟩, ⟨6000⟩, ⟨7000⟩,
          some ⟨⟨111⟩, ⟨222⟩⟩⟩
        = some (s1, none) ∧
      ((NewPetitionsQ ⟨0⟩).FilterID ⟨1⟩).GetOn Engine.strict s1 Context.background
        = some (⟨⟨1⟩, ⟨2⟩, "t", "d", ⟨3⟩, none, "active", 0, 10, ⟨5000⟩, ⟨6000⟩, ⟨7000⟩,
            some ⟨111⟩, some ⟨222⟩⟩, none) :=
  ⟨by decide, by decide,
   (C17_insert_then_get_round_trip.1 ⟨0⟩ [] Engine.strict Store.empty Context.background
      ⟨⟨1⟩, ⟨2⟩, "t", "d", ⟨3⟩, none, "active", 0, 10, ⟨5000⟩, ⟨6000⟩, ⟨7000⟩,
        some ⟨⟨111⟩, ⟨222⟩⟩⟩
      (by decide) (fun r hr => nomatch hr)).1⟩

/-- C17 fails on a time that is not of whole microseconds: a petition updated
at 7001 nanoseconds is inserted in the empty store, and Get by its identifier
returns it as updated at 7000 nanoseconds, which is not the field of the
input. -/
theorem C17_counterexample_nanoseconds_are_not_kept :
    Context.background.Live ∧
    ∃ s1, (PetitionsQ.chain ⟨0⟩ []).InsertOn Store.empty Context.background
        ⟨⟨1⟩, ⟨2⟩, "t", "d", ⟨3⟩, none, "active", 0, 10, ⟨5000⟩, ⟨6000⟩, ⟨7001⟩, none⟩
        = some (s1, none) ∧
      ((NewPetitionsQ ⟨0⟩).FilterID ⟨1⟩).GetOn Engine.strict s1 Context.background
        = some (⟨⟨1⟩, ⟨2⟩, "t", "d", ⟨3⟩, none, "active", 0, 10, ⟨5000⟩, ⟨6000⟩, ⟨7000⟩,
            none, none⟩, none) ∧
      (⟨⟨1⟩, ⟨2⟩, "t", "d", ⟨3⟩, none, "active", 0, 10, ⟨5000⟩, ⟨6000⟩, ⟨7000⟩,
            none, none⟩ : PetitionModel)
        ≠ InsertPetitionInput.model
            ⟨⟨1⟩, ⟨2⟩, "t", "d", ⟨3⟩, none, "active", 0, 10, ⟨5000⟩, ⟨6000⟩, ⟨7001⟩, none⟩ := by
  obtain ⟨s1, h1, h2⟩ := PetitionsQ_insert_then_get ⟨0⟩ [] Engine.strict Store.empty
    Context.background
    ⟨⟨1⟩, ⟨2⟩, "t", "d", ⟨3⟩, none, "active", 0, 10, ⟨5000⟩, ⟨6000⟩, ⟨7001⟩, none⟩
    (by decide) (fun r hr => nomatch hr)
  exact ⟨by decide, s1, h1, h2, by decide⟩

/-! ## The location of the rows of a reachable store -/

/-- The value of a column of a row with a first column. -/
theorem Row.get_cons (e : String × Cell) (rest : Row) (k : String) :
    Row.get (e :: rest) k = if e.1 = k then e.2 else Row.get rest k := by
  unfold Row.get
  rw [List.find?_cons]
  by_cases h : e.1 = k
  · have hb : (e.1 == k) = true := by simpa using h
    simp only [hb, if_pos h]
  · have hb : (e.1 == k) = false := by simpa using h
    simp only [hb, if_neg h]

/-- An assignment on a row with a first column. -/
theorem Row.set_cons (e : String × Cell) (rest : Row) (c : String) (v : Cell) :
    Row.set (e :: rest) c v = (if e.1 = c then (c, v) else e) :: Row.set rest c v := by
  simp [Row.set]

/-- After an assignment a column holds what it held, or it is the assigned
column and holds the assigned value. -/
theorem Row.get_set (r : Row) (c k : String) (v : Cell) :
    (r.set c v).get k = r.get k ∨ (k = c ∧ (r.set c v).get k = v) := by
  induction r with
  | nil => exact Or.inl rfl
  | cons e rest ih =>
      rw [Row.set_cons, Row.get_cons, Row.get_cons]
      by_cases hec : e.1 = c
      · rw [if_pos hec]
        by_cases hck : c = k
        · right
          exact ⟨hck.symm, by simp [hck]⟩
        · left
          have hek : ¬ e.1 = k := by rw [hec]; exact hck
          simp only [hck, hek, if_false]
          rcases ih with h | ⟨h, _⟩
          · exact h
          · exact absurd h.symm hck
      · rw [if_neg hec]
        by_cases hek : e.1 = k
        · left
          simp [hek]
        · simp only [hek, if_false]
          exact ih

/-- SET clauses that give `location` nothing but a point leave NULL or a point
in the `location` of a row that had NULL or a point. -/
theorem set_clauses_keep_location (clauses : List SetClause) (r0 : Row)
    (hcl : ∀ c ∈ clauses, c.column = "location" → ∃ loc, c.value = pointExpr loc) :
    ∀ r : Row, (r.get "location").isLocation = true →
      ((clauses.foldl (fun acc c => acc.set c.column (c.value.cell r0)) r).get
        "location").isLocation = true := by
  induction clauses with
  | nil => intro r h; exact h
  | cons c rest ih =>
      intro r h
      rw [List.foldl_cons]
      apply ih (fun c' hc' => hcl c' (List.mem_cons_of_mem _ hc'))
      rcases Row.get_set r c.column "location" (c.value.cell r0) with hg | ⟨hk, hg⟩
      · rw [hg]; exact h
      · obtain ⟨loc, hv⟩ := hcl c (List.mem_cons_self _ _) hk.symm
        rw [hg, hv, arg_cell_point]
        rfl

/-- An UPDATE whose SET clauses give `location` nothing but a point keeps every
location NULL or a point. -/
theorem applyTo_located (e : Engine) (s : Store) (b : UpdateBuilder)
    (hcl : ∀ c ∈ b.setClauses, c.column = "location" → ∃ loc, c.value = pointExpr loc)
    (hs : s.Located) : (b.applyTo e s).Located := by
  intro t r hr
  unfold UpdateBuilder.applyTo Store.setTable at hr
  by_cases ht : t = b.table
  · rw [if_pos ht] at hr
    obtain ⟨r1, hr1, rfl⟩ := List.mem_map.mp hr
    have h1 := hs b.table r1 hr1
    by_cases hw : (b.whereParts.all (fun p => p.holds e r1)) = true
    · rw [if_pos hw]
      exact set_clauses_keep_location _ r1 hcl r1 h1
    · rw [if_neg hw]
      exact h1
  · rw [if_neg ht] at hr
    exact hs t r hr

/-- An INSERT of a row whose location is NULL or a point keeps every location
NULL or a point. -/
theorem insert_located (schema : Schema) (table : String) (row : Row) (s : Store)
    (hrow : (row.get "location").isLocation = true) (hs : s.Located) :
    (Store.insert schema table row s).1.Located := by
  unfold Store.insert
  split
  · exact hs
  · intro t r hr
    simp only [Store.setTable] at hr
    by_cases ht : t = table
    · rw [if_pos ht] at hr
      rcases List.mem_append.mp hr with h | h
      · exact hs table r h
      · rw [List.mem_singleton.mp h]; exact hrow
    · rw [if_neg ht] at hr
      exact hs t r hr

/-- The store an Insert leaves: the store as it was, or the INSERT of its row. -/
theorem insertOn_store (out : Outcome) (schema : Schema) (s : Store) (b : InsertBuilder) :
    ((insertOn out schema s b).map Prod.fst).getD s = s ∨
    ((insertOn out schema s b).map Prod.fst).getD s
      = (Store.insert schema b.table (b.row schema) s).1 := by
  rcases insertOn_cases out schema s b with h | ⟨err, h⟩ | h | h <;> rw [h] <;> simp

/-- The store an Update leaves: the store as it was, or the UPDATE applied. -/
theorem updateOn_store (out : Outcome) (e : Engine) (s : Store) (b : UpdateBuilder) :
    ((updateOn out e s b).map Prod.fst).getD s = s ∨
    ((updateOn out e s b).map Prod.fst).getD s = b.applyTo e s := by
  cases out with
  | returned err => left; simp [updateOn]
  | roundTrip call =>
      cases hc : call.carries b.ToSql <;>
        rcases h : call.answer () with _ | (err | u) <;>
        cases hr : b.outOfRange e s <;> simp [updateOn, h, hc, hr]

/-- The rows a statement picks are rows of its table. -/
theorem rowsOn_subset (b : SelectBuilder) (e : Engine) (s : Store) (r : Row)
    (h : r ∈ b.rowsOn e s) : r ∈ s b.table := by
  unfold SelectBuilder.rowsOn SelectBuilder.paged at h
  have hsorted : ∀ r, r ∈ sortRows b.orderBys (b.matching e s) → r ∈ s b.table := by
    intro r hr
    unfold sortRows at hr
    have := (List.perm_insertionSort _ _).mem_iff.mp hr
    exact (List.mem_filter.mp this).1
  cases ho : b.offset <;> cases hl : b.limit <;> simp only [ho, hl] at h
  · exact hsorted r h
  · exact hsorted r (List.mem_of_mem_take h)
  · exact hsorted r (List.mem_of_mem_drop h)
  · exact hsorted r (List.mem_of_mem_drop (List.mem_of_mem_take h))

/-- Every model a Select without error returns is the scan of a row of the
table. -/
theorem selectOn_elems {M : Type} (b : SelectBuilder) (hc : b.columns.isEmpty = false)
    (hn : b.columns ≠ ["COUNT(*) AS count"])
    (db : DB) (ctx : Context) (wrap : String) (dests : List (Dest M)) (zero : M)
    (e : Engine) (s : Store) (g : GoSlice M)
    (h : selectOn (issue db ctx .QueryContext wrap b.ToSql) dests zero e s b = some (g, none))
    (m : M) (hm : m ∈ g.elems) :
    ∃ r ∈ s b.table, scanInto dests zero (project b.columns r) = (m, none) := by
  obtain ⟨_, hall, hg⟩ := selectOn_ok b hc db ctx wrap dests zero e s g h
  have ha : b.answer e s = (b.rowsOn e s).map (project b.columns) := answer_rows b hn e s
  rw [hg, GoSlice.elems_ofList, ha, List.map_map] at hm
  obtain ⟨r, hr, hrm⟩ := List.mem_map.mp hm
  refine ⟨r, rowsOn_subset b e s r hr, ?_⟩
  have h2 := hall (project b.columns r) (by rw [ha]; exact List.mem_map_of_mem _ hr)
  simp only [Function.comp] at hrm
  rw [← hrm]
  exact Prod.ext rfl h2

/-- The model a Get without error returns is the scan of a row of the table. -/
theorem getOn_elem {M : Type} (b : SelectBuilder) (hc : b.columns.isEmpty = false)
    (hn : b.columns ≠ ["COUNT(*) AS count"])
    (db : DB) (ctx : Context) (wrap : String) (dests : List (Dest M)) (zero : M)
    (e : Engine) (s : Store) (m : M)
    (h : getOn (issue db ctx .QueryRowContext wrap (b.Limit 1).ToSql) dests zero e s b
      = some (m, none)) :
    ∃ r ∈ s b.table, scanInto dests zero (project b.columns r) = (m, none) := by
  have hc2 : (b.Limit 1).columns.isEmpty = false := hc
  have hn2 : (b.Limit 1).columns ≠ ["COUNT(*) AS count"] := hn
  obtain ⟨sql, args, hi⟩ := issue_select (b.Limit 1) hc2 db ctx .QueryRowContext wrap
  rw [hi] at h
  simp only [getOn] at h
  cases ha : (Call.mk (resolveTarget db ctx) .QueryRowContext ctx sql args).answer
      (Rows.mk ((b.Limit 1).answer e s) none) with
  | none => rw [ha] at h; simp at h
  | some resp =>
      rw [ha] at h
      cases resp with
      | error err => simp [rowScan] at h
      | ok rows =>
          obtain ⟨_, hrows⟩ := call_answer_ok _ _ _ _ _ _ _ ha
          subst hrows
          simp only [Option.map_some', rowScan, Option.some.injEq] at h
          have hans : (b.Limit 1).answer e s
              = ((b.Limit 1).rowsOn e s).map (project b.columns) := answer_rows _ hn2 e s
          rw [hans] at h
          cases hrs : (b.Limit 1).rowsOn e s with
          | nil => rw [hrs] at h; simp at h
          | cons r rest =>
              rw [hrs] at h
              simp only [List.map_cons] at h
              have hr : r ∈ (b.Limit 1).rowsOn e s := by rw [hrs]; exact List.mem_cons_self _ _
              exact ⟨r, rowsOn_subset (b.Limit 1) e s r hr, h⟩

/-- The loop of Scan over two lists of destinations, the first with one cell
each. -/
theorem scanLoop_append {M : Type} (ds2 : List (Dest M)) (cs2 : List Cell) :
    ∀ (ds1 : List (Dest M)) (cs1 : List Cell) (i : Nat) (p m : M),
      cs1.length = ds1.length →
      scanLoop i (ds1 ++ ds2) (cs1 ++ cs2) p = (m, none) →
      ∃ p1 j, scanLoop j ds2 cs2 p1 = (m, none) := by
  intro ds1
  induction ds1 with
  | nil =>
      intro cs1 i p m hlen h
      have : cs1 = [] := List.length_eq_zero.mp hlen
      subst this
      exact ⟨p, i, h⟩
  | cons d rest ih =>
      intro cs1 i p m hlen h
      cases cs1 with
      | nil => simp at hlen
      | cons c cs =>
          simp only [List.cons_append, scanLoop] at h
          cases hd : d c p with
          | error msg => rw [hd] at h; simp at h
          | ok p2 =>
              rw [hd] at h
              exact ih cs (i + 1) p2 m (by simpa using hlen) h

/-- The two coordinates scanned from the last two result columns of a row:
they are nil together, and nil exactly when the location is not a point. -/
theorem scan_coordinates {M : Type} (withLat withLng : Option Float64 → M → M)
    (lat lng : M → Option Float64)
    (hlat : ∀ v p, lat (withLng v p) = lat p) (hlat2 : ∀ v p, lat (withLat v p) = v)
    (hlng : ∀ v p, lng (withLng v p) = v)
    (ds1 : List (Dest M)) (cs1 : List Cell) (zero m : M) (r : Row)
    (hlen : cs1.length = ds1.length)
    (h : scanInto (ds1 ++ [fun c p => (scanFloatPtr c).map (fun v => withLat v p),
                           fun c p => (scanFloatPtr c).map (fun v => withLng v p)]) zero
          (cs1 ++ [match r.get "location" with
                   | .point _ y => .float y
                   | _ => .null,
                   match r.get "location" with
                   | .point x _ => .float x
                   | _ => .null])
        = (m, none)) :
    (lat m = none ↔ lng m = none) ∧
      ((r.get "location").isLocation = true → (lat m = none ↔ r.get "location" = .null)) := by
  unfold scanInto at h
  split at h
  · simp at h
  · obtain ⟨p1, j, h2⟩ := scanLoop_append _ _ ds1 cs1 0 zero m hlen h
    cases hloc : r.get "location" <;> rw [hloc] at h2 <;>
      simp [scanLoop, scanFloatPtr, Except.map] at h2 <;>
      subst h2 <;> simp [hlat, hlat2, hlng, Cell.isLocation]
/-- Among the assignments `UpdatePetitionInput` asks for, `location` is assigned only
for a `Location` that is not nil, and then the point built from it. -/
theorem PetitionsQ_assignments_location (inp : UpdatePetitionInput) :
    ∀ c ∈ inp.assignments, c.column = "location" →
      ∃ loc, inp.Location = some loc ∧ c.value = pointExpr loc := by
  intro c hc hcol
  simp only [UpdatePetitionInput.assignments, List.mem_append, mem_assignOf, or_assoc] at hc
  rcases hc with ⟨v, hv, rfl⟩ | ⟨v, hv, rfl⟩ | ⟨v, hv, rfl⟩ | ⟨v, hv, rfl⟩ | ⟨v, hv, rfl⟩ | ⟨v, hv, rfl⟩ | ⟨v, hv, rfl⟩ | ⟨v, hv, rfl⟩
  all_goals first
    | exact ⟨v, hv, rfl⟩
    | simp at hcol

/-- The SET clauses `PetitionsQ.Update` builds assign `location` only for a
`Location` that is not nil, and then the point built from it. -/
theorem PetitionsQ_update_location (db : DB) (ops : List PetitionsOp) (inp : UpdatePetitionInput) :
    ∀ c ∈ (PetitionsQ.chain db ops).updateClauses inp, c.column = "location" →
      ∃ loc, inp.Location = some loc ∧ c.value = pointExpr loc := by
  intro c hc hcol
  exact PetitionsQ_assignments_location inp c
    ((PetitionsQ_updateClauses_perm db ops inp).mem_iff.mp hc) hcol

/-- The location of the row `PetitionsQ.Insert` writes. -/
theorem PetitionsQ_insert_location (db : DB) (ops : List PetitionsOp) (inp : InsertPetitionInput) :
    (((PetitionsQ.chain db ops).inserter.SetMap (PetitionsQ.insertValues inp)).row petitionsSchema).get "location"
      = writtenLocation inp.Location := by
  rw [PetitionsQ_insert_row]
  rfl

/-- An Insert of `PetitionsQ` keeps every location NULL or a point. -/
theorem PetitionsQ_insert_located (db : DB) (ops : List PetitionsOp) (s : Store) (ctx : Context)
    (inp : InsertPetitionInput) (hs : s.Located) :
    ((((PetitionsQ.chain db ops).InsertOn s ctx inp).map Prod.fst).getD s).Located := by
  rcases insertOn_store ((PetitionsQ.chain db ops).Insert ctx inp) petitionsSchema s
      ((PetitionsQ.chain db ops).inserter.SetMap (PetitionsQ.insertValues inp)) with h | h
  · show (((insertOn ((PetitionsQ.chain db ops).Insert ctx inp) petitionsSchema s
      ((PetitionsQ.chain db ops).inserter.SetMap (PetitionsQ.insertValues inp))).map Prod.fst).getD s).Located
    rw [h]
    exact hs
  · show (((insertOn ((PetitionsQ.chain db ops).Insert ctx inp) petitionsSchema s
      ((PetitionsQ.chain db ops).inserter.SetMap (PetitionsQ.insertValues inp))).map Prod.fst).getD s).Located
    rw [h]
    refine insert_located _ _ _ _ ?_ hs
    rw [PetitionsQ_insert_location]
    cases inp.Location <;> rfl

/-- An Update of `PetitionsQ` keeps every location NULL or a point. -/
theorem PetitionsQ_update_located (db : DB) (ops : List PetitionsOp) (e : Engine) (s : Store)
    (ctx : Context) (inp : UpdatePetitionInput) (hs : s.Located) :
    ((((PetitionsQ.chain db ops).UpdateOn e s ctx inp).map Prod.fst).getD s).Located := by
  rcases updateOn_store ((PetitionsQ.chain db ops).Update ctx inp) e s
      ((PetitionsQ.chain db ops).updater.SetMap (PetitionsQ.updates inp)) with h | h
  · show (((updateOn ((PetitionsQ.chain db ops).Update ctx inp) e s
      ((PetitionsQ.chain db ops).updater.SetMap (PetitionsQ.updates inp))).map Prod.fst).getD s).Located
    rw [h]
    exact hs
  · show (((updateOn ((PetitionsQ.chain db ops).Update ctx inp) e s
      ((PetitionsQ.chain db ops).updater.SetMap (PetitionsQ.updates inp))).map Prod.fst).getD s).Located
    rw [h]
    refine applyTo_located e s _ ?_ hs
    intro c hc hcol
    obtain ⟨loc, _, hv⟩ := PetitionsQ_update_location db ops inp c hc hcol
    exact ⟨loc, hv⟩

/-- The coordinates `PetitionsQ` scans from a row, with the destinations of
its Get. -/
theorem PetitionsQ_get_coordinates (r : Row) (m : PetitionModel)
    (h : scanInto PetitionsQ.getDests PetitionModel.zero (project (NewPetitionsQ ⟨0⟩).selector.columns r)
      = (m, none)) :
    (m.Lat = none ↔ m.Lng = none) ∧
      ((r.get "location").isLocation = true → (m.Lat = none ↔ r.get "location" = .null)) := by
  have hd : PetitionsQ.getDests = PetitionsQ.getDests.take 12 ++
      [fun c p => (scanFloatPtr c).map (fun v => { p with Lat := v }),
       fun c p => (scanFloatPtr c).map (fun v => { p with Lng := v })] := rfl
  have hp : project (NewPetitionsQ ⟨0⟩).selector.columns r
      = (project (NewPetitionsQ ⟨0⟩).selector.columns r).take 12 ++
        [match r.get "location" with
         | .point _ y => .float y
         | _ => .null,
         match r.get "location" with
         | .point x _ => .float x
         | _ => .null] := rfl
  have hlen : ((project (NewPetitionsQ ⟨0⟩).selector.columns r).take 12).length
      = (PetitionsQ.getDests.take 12).length := rfl
  rw [hd, hp] at h
  exact scan_coordinates (fun v (p : PetitionModel) => { p with Lat := v })
    (fun v (p : PetitionModel) => { p with Lng := v })
    (fun m : PetitionModel => m.Lat) (fun m : PetitionModel => m.Lng)
    (fun _ _ => rfl) (fun _ _ => rfl) (fun _ _ => rfl) _ _ PetitionModel.zero m r hlen h

/-- The coordinates `PetitionsQ` scans from a row, with the destinations of
its Select. -/
theorem PetitionsQ_select_coordinates (r : Row) (m : PetitionModel)
    (h : scanInto PetitionsQ.selectDests PetitionModel.zero (project (NewPetitionsQ ⟨0⟩).selector.columns r)
      = (m, none)) :
    (m.Lat = none ↔ m.Lng = none) ∧
      ((r.get "location").isLocation = true → (m.Lat = none ↔ r.get "location" = .null)) := by
  have hd : PetitionsQ.selectDests = PetitionsQ.selectDests.take 12 ++
      [fun c p => (scanFloatPtr c).map (fun v => { p with Lat := v }),
       fun c p => (scanFloatPtr c).map (fun v => { p with Lng := v })] := rfl
  have hp : project (NewPetitionsQ ⟨0⟩).selector.columns r
      = (project (NewPetitionsQ ⟨0⟩).selector.columns r).take 12 ++
        [match r.get "location" with
         | .point _ y => .float y
         | _ => .null,
         match r.get "location" with
         | .point x _ => .float x
         | _ => .null] := rfl
  have hlen : ((project (NewPetitionsQ ⟨0⟩).selector.columns r).take 12).length
      = (PetitionsQ.selectDests.take 12).length := rfl
  rw [hd, hp] at h
  exact scan_coordinates (fun v (p : PetitionModel) => { p with Lat := v })
    (fun v (p : PetitionModel) => { p with Lng := v })
    (fun m : PetitionModel => m.Lat) (fun m : PetitionModel => m.Lng)
    (fun _ _ => rfl) (fun _ _ => rfl) (fun _ _ => rfl) _ _ PetitionModel.zero m r hlen h

/-- Among the assignments `UpdatePollInput` asks for, `location` is assigned only
for a `Location` that is not nil, and then the point built from it. -/
theorem PollsQ_assignments_location (inp : UpdatePollInput) :
    ∀ c ∈ inp.assignments, c.column = "location" →
      ∃ loc, inp.Location = some loc ∧ c.value = pointExpr loc := by
  intro c hc hcol
  simp only [UpdatePollInput.assignments, List.mem_append, mem_assignOf, or_assoc] at hc
  rcases hc with ⟨v, hv, rfl⟩ | ⟨v, hv, rfl⟩ | ⟨v, hv, rfl⟩ | ⟨v, hv, rfl⟩ | ⟨v, hv, rfl⟩ | ⟨v, hv, rfl⟩
  all_goals first
    | exact ⟨v, hv, rfl⟩
    | simp at hcol

/-- The SET clauses `PollsQ.Update` builds assign `location` only for a
`Location` that is not nil, and then the point built from it. -/
theorem PollsQ_update_location (db : DB) (ops : List PollsOp) (inp : UpdatePollInput) :
    ∀ c ∈ (PollsQ.chain db ops).updateClauses inp, c.column = "location" →
      ∃ loc, inp.Location = some loc ∧ c.value = pointExpr loc := by
  intro c hc hcol
  exact PollsQ_assignments_location inp c
    ((PollsQ_updateClauses_perm db ops inp).mem_iff.mp hc) hcol

/-- The location of the row `PollsQ.Insert` writes. -/
theorem PollsQ_insert_location (db : DB) (ops : List PollsOp) (inp : InsertPollInput) :
    (((PollsQ.chain db ops).inserter.SetMap (PollsQ.insertValues inp)).row pollsSchema).get "location"
      = writtenLocation inp.Location := by
  rw [PollsQ_insert_row]
  rfl

/-- An Insert of `PollsQ` keeps every location NULL or a point. -/
theorem PollsQ_insert_located (db : DB) (ops : List PollsOp) (s : Store) (ctx : Context)
    (inp : InsertPollInput) (hs : s.Located) :
    ((((PollsQ.chain db ops).InsertOn s ctx inp).map Prod.fst).getD s).Located := by
  rcases insertOn_store ((PollsQ.chain db ops).Insert ctx inp) pollsSchema s
      ((PollsQ.chain db ops).inserter.SetMap (PollsQ.insertValues inp)) with h | h
  · show (((insertOn ((PollsQ.chain db ops).Insert ctx inp) pollsSchema s
      ((PollsQ.chain db ops).inserter.SetMap (PollsQ.insertValues inp))).map Prod.fst).getD s).Located
    rw [h]
    exact hs
  · show (((insertOn ((PollsQ.chain db ops).Insert ctx inp) pollsSchema s
      ((PollsQ.chain db ops).inserter.SetMap (PollsQ.insertValues inp))).map Prod.fst).getD s).Located
    rw [h]
    refine insert_located _ _ _ _ ?_ hs
    rw [PollsQ_insert_location]
    cases inp.Location <;> rfl

/-- An Update of `PollsQ` keeps every location NULL or a point. -/
theorem PollsQ_update_located (db : DB) (ops : List PollsOp) (e : Engine) (s : Store)
    (ctx : Context) (inp : UpdatePollInput) (hs : s.Located) :
    ((((PollsQ.chain db ops).UpdateOn e s ctx inp).map Prod.fst).getD s).Located := by
  rcases updateOn_store ((PollsQ.chain db ops).Update ctx inp) e s
      ((PollsQ.chain db ops).updater.SetMap (PollsQ.updates inp)) with h | h
  · show (((updateOn ((PollsQ.chain db ops).Update ctx inp) e s
      ((PollsQ.chain db ops).updater.SetMap (PollsQ.updates inp))).map Prod.fst).getD s).Located
    rw [h]
    exact hs
  · show (((updateOn ((PollsQ.chain db ops).Update ctx inp) e s
      ((PollsQ.chain db ops).updater.SetMap (PollsQ.updates inp))).map Prod.fst).getD s).Located
    rw [h]
    refine applyTo_located e s _ ?_ hs
    intro c hc hcol
    obtain ⟨loc, _, hv⟩ := PollsQ_update_location db ops inp c hc hcol
    exact ⟨loc, hv⟩

/-- The coordinates `PollsQ` scans from a row, with the destinations of
its Get. -/
theorem PollsQ_get_coordinates (r : Row) (m : PollModel)
    (h : scanInto PollsQ.getDests PollModel.zero (project (NewPollsQ ⟨0⟩).selector.columns r)
      = (m, none)) :
    (m.Lat = none ↔ m.Lng = none) ∧
      ((r.get "location").isLocation = true → (m.Lat = none ↔ r.get "location" = .null)) := by
  have hd : PollsQ.getDests = PollsQ.getDests.take 9 ++
      [fun c p => (scanFloatPtr c).map (fun v => { p with Lat := v }),
       fun c p => (scanFloatPtr c).map (fun v => { p with Lng := v })] := rfl
  have hp : project (NewPollsQ ⟨0⟩).selector.columns r
      = (project (NewPollsQ ⟨0⟩).selector.columns r).take 9 ++
        [match r.get "location" with
         | .point _ y => .float y
         | _ => .null,
         match r.get "location" with
         | .point x _ => .float x
         | _ => .null] := rfl
  have hlen : ((project (NewPollsQ ⟨0⟩).selector.columns r).take 9).length
      = (PollsQ.getDests.take 9).length := rfl
  rw [hd, hp] at h
  exact scan_coordinates (fun v (p : PollModel) => { p with Lat := v })
    (fun v (p : PollModel) => { p with Lng := v })
    (fun m : PollModel => m.Lat) (fun m : PollModel => m.Lng)
    (fun _ _ => rfl) (fun _ _ => rfl) (fun _ _ => rfl) _ _ PollModel.zero m r hlen h

/-- The coordinates `PollsQ` scans from a row, with the destinations of
its Select. -/
theorem PollsQ_select_coordinates (r : Row) (m : PollModel)
    (h : scanInto PollsQ.selectDests PollModel.zero (project (NewPollsQ ⟨0⟩).selector.columns r)
      = (m, none)) :
    (m.Lat = none ↔ m.Lng = none) ∧
      ((r.get "location").isLocation = true → (m.Lat = none ↔ r.get "location" = .null)) := by
  have hd : PollsQ.selectDests = PollsQ.selectDests.take 9 ++
      [fun c p => (scanFloatPtr c).map (fun v => { p with Lat := v }),
       fun c p => (scanFloatPtr c).map (fun v => { p with Lng := v })] := rfl
  have hp : project (NewPollsQ ⟨0⟩).selector.columns r
      = (project (NewPollsQ ⟨0⟩).selector.columns r).take 9 ++
        [match r.get "location" with
         | .point _ y => .float y
         | _ => .null,
         match r.get "location" with
         | .point x _ => .float x
         | _ => .null] := rfl
  have hlen : ((project (NewPollsQ ⟨0⟩).selector.columns r).take 9).length
      = (PollsQ.selectDests.take 9).length := rfl
  rw [hd, hp] at h
  exact scan_coordinates (fun v (p : PollModel) => { p with Lat := v })
    (fun v (p : PollModel) => { p with Lng := v })
    (fun m : PollModel => m.Lat) (fun m : PollModel => m.Lng)
    (fun _ _ => rfl) (fun _ _ => rfl) (fun _ _ => rfl) _ _ PollModel.zero m r hlen h

/-- Among the assignments `UpdateProposalInput` asks for, `location` is assigned only
for a `Location` that is not nil, and then the point built from it. -/
theorem ProposalsQ_assignments_location (inp : UpdateProposalInput) :
    ∀ c ∈ inp.assignments, c.column = "location" →
      ∃ loc, inp.Location = some loc ∧ c.value = pointExpr loc := by
  intro c hc hcol
  simp only [UpdateProposalInput.assignments, List.mem_append, mem_assignOf, or_assoc] at hc
  rcases hc with ⟨v, hv, rfl⟩ | ⟨v, hv, rfl⟩ | ⟨v, hv, rfl⟩ | ⟨v, hv, rfl⟩ | ⟨v, hv, rfl⟩ | ⟨v, hv, rfl⟩ | ⟨v, hv, rfl⟩
  all_goals first
    | exact ⟨v, hv, rfl⟩
    | simp at hcol

/-- The SET clauses `ProposalsQ.Update` builds assign `location` only for a
`Location` that is not nil, and then the point built from it. -/
theorem ProposalsQ_update_location (db : DB) (ops : List ProposalsOp) (inp : UpdateProposalInput) :
    ∀ c ∈ (ProposalsQ.chain db ops).updateClauses inp, c.column = "location" →
      ∃ loc, inp.Location = some loc ∧ c.value = pointExpr loc := by
  intro c hc hcol
  exact ProposalsQ_assignments_location inp c
    ((ProposalsQ_updateClauses_perm db ops inp).mem_iff.mp hc) hcol

/-- The location of the row `ProposalsQ.Insert` writes. -/
theorem ProposalsQ_insert_location (db : DB) (ops : List ProposalsOp) (inp : InsertProposalInput) :
    (((ProposalsQ.chain db ops).inserter.SetMap (ProposalsQ.insertValues inp)).row proposalsSchema).get "location"
      = writtenLocation inp.Location := by
  rw [ProposalsQ_insert_row]
  rfl

/-- An Insert of `ProposalsQ` keeps every location NULL or a point. -/
theorem ProposalsQ_insert_located (db : DB) (ops : List ProposalsOp) (s : Store) (ctx : Context)
    (inp : InsertProposalInput) (hs : s.Located) :
    ((((ProposalsQ.chain db ops).InsertOn s ctx inp).map Prod.fst).getD s).Located := by
  rcases insertOn_store ((ProposalsQ.chain db ops).Insert ctx inp) proposalsSchema s
      ((ProposalsQ.chain db ops).inserter.SetMap (ProposalsQ.insertValues inp)) with h | h
  · show (((insertOn ((ProposalsQ.chain db ops).Insert ctx inp) proposalsSchema s
      ((ProposalsQ.chain db ops).inserter.SetMap (ProposalsQ.insertValues inp))).map Prod.fst).getD s).Located
    rw [h]
    exact hs
  · show (((insertOn ((ProposalsQ.chain db ops).Insert ctx inp) proposalsSchema s
      ((ProposalsQ.chain db ops).inserter.SetMap (ProposalsQ.insertValues inp))).map Prod.fst).getD s).Located
    rw [h]
    refine insert_located _ _ _ _ ?_ hs
    rw [ProposalsQ_insert_location]
    cases inp.Location <;> rfl

/-- An Update of `ProposalsQ` keeps every location NULL or a point. -/
theorem ProposalsQ_update_located (db : DB) (ops : List ProposalsOp) (e : Engine) (s : Store)
    (ctx : Context) (inp : UpdateProposalInput) (hs : s.Located) :
    ((((ProposalsQ.chain db ops).UpdateOn e s ctx inp).map Prod.fst).getD s).Located := by
  rcases updateOn_store ((ProposalsQ.chain db ops).Update ctx inp) e s
      ((ProposalsQ.chain db ops).updater.SetMap (ProposalsQ.updates inp)) with h | h
  · show (((updateOn ((ProposalsQ.chain db ops).Update ctx inp) e s
      ((ProposalsQ.chain db ops).updater.SetMap (ProposalsQ.updates inp))).map Prod.fst).getD s).Located
    rw [h]
    exact hs
  · show (((updateOn ((ProposalsQ.chain db ops).Update ctx inp) e s
      ((ProposalsQ.chain db ops).updater.SetMap (ProposalsQ.updates inp))).map Prod.fst).getD s).Located
    rw [h]
    refine applyTo_located e s _ ?_ hs
    intro c hc hcol
    obtain ⟨loc, _, hv⟩ := ProposalsQ_update_location db ops inp c hc hcol
    exact ⟨loc, hv⟩

/-- The coordinates `ProposalsQ` scans from a row, with the destinations of
its Get. -/
theorem ProposalsQ_get_coordinates (r : Row) (m : Proposal)
    (h : scanInto ProposalsQ.getDests Proposal.zero (project (NewProposalsQ ⟨0⟩).selector.columns r)
      = (m, none)) :
    (m.Lat = none ↔ m.Lng = none) ∧
      ((r.get "location").isLocation = true → (m.Lat = none ↔ r.get "location" = .null)) := by
  have hd : ProposalsQ.getDests = ProposalsQ.getDests.take 12 ++
      [fun c p => (scanFloatPtr c).map (fun v => { p with Lat := v }),
       fun c p => (scanFloatPtr c).map (fun v => { p with Lng := v })] := rfl
  have hp : project (NewProposalsQ ⟨0⟩).selector.columns r
      = (project (NewProposalsQ ⟨0⟩).selector.columns r).take 12 ++
        [match r.get "location" with
         | .point _ y => .float y
         | _ => .null,
         match r.get "location" with
         | .point x _ => .float x
         | _ => .null] := rfl
  have hlen : ((project (NewProposalsQ ⟨0⟩).selector.columns r).take 12).length
      = (ProposalsQ.getDests.take 12).length := rfl
  rw [hd, hp] at h
  exact scan_coordinates (fun v (p : Proposal) => { p with Lat := v })
    (fun v (p : Proposal) => { p with Lng := v })
    (fun m : Proposal => m.Lat) (fun m : Proposal => m.Lng)
    (fun _ _ => rfl) (fun _ _ => rfl) (fun _ _ => rfl) _ _ Proposal.zero m r hlen h

/-- The coordinates `ProposalsQ` scans from a row, with the destinations of
its Select. -/
theorem ProposalsQ_select_coordinates (r : Row) (m : Proposal)
    (h : scanInto ProposalsQ.selectDests Proposal.zero (project (NewProposalsQ ⟨0⟩).selector.columns r)
      = (m, none)) :
    (m.Lat = none ↔ m.Lng = none) ∧
      ((r.get "location").isLocation = true → (m.Lat = none ↔ r.get "location" = .null)) := by
  have hd : ProposalsQ.selectDests = ProposalsQ.selectDests.take 12 ++
      [fun c p => (scanFloatPtr c).map (fun v => { p with Lat := v }),
       fun c p => (scanFloatPtr c).map (fun v => { p with Lng := v })] := rfl
  have hp : project (NewProposalsQ ⟨0⟩).selector.columns r
      = (project (NewProposalsQ ⟨0⟩).selector.columns r).take 12 ++
        [match r.get "location" with
         | .point _ y => .float y
         | _ => .null,
         match r.get "location" with
         | .point x _ => .float x
         | _ => .null] := rfl
  have hlen : ((project (NewProposalsQ ⟨0⟩).selector.columns r).take 12).length
      = (ProposalsQ.selectDests.take 12).length := rfl
  rw [hd, hp] at h
  exact scan_coordinates (fun v (p : Proposal) => { p with Lat := v })
    (fun v (p : Proposal) => { p with Lng := v })
    (fun m : Proposal => m.Lat) (fun m : Proposal => m.Lng)
    (fun _ _ => rfl) (fun _ _ => rfl) (fun _ _ => rfl) _ _ Proposal.zero m r hlen h

/-- A write of the three repositories keeps every location NULL or a point. -/
theorem run_located (db : DB) (e : Engine) (s : Store) (w : GeoWrite) (hs : s.Located) :
    (GeoWrite.run db e s w).Located := by
  cases w with
  | petitionsInsert ops ctx inp => exact PetitionsQ_insert_located db ops s ctx inp hs
  | petitionsUpdate ops ctx inp => exact PetitionsQ_update_located db ops e s ctx inp hs
  | pollsInsert ops ctx inp => exact PollsQ_insert_located db ops s ctx inp hs
  | pollsUpdate ops ctx inp => exact PollsQ_update_located db ops e s ctx inp hs
  | proposalsInsert ops ctx inp => exact ProposalsQ_insert_located db ops s ctx inp hs
  | proposalsUpdate ops ctx inp => exact ProposalsQ_update_located db ops e s ctx inp hs

/-- Every location of a reachable store is NULL or a point. -/
theorem reached_located (db : DB) (e : Engine) (writes : List GeoWrite) :
    (reachedStore db e writes).Located := by
  unfold reachedStore
  have h : ∀ (ws : List GeoWrite) (s : Store), s.Located →
      (ws.foldl (GeoWrite.run db e) s).Located := by
    intro ws
    induction ws with
    | nil => intro s hs; exact hs
    | cons w rest ih => intro s hs; exact ih _ (run_located db e s w hs)
  exact h writes Store.empty (fun t r hr => nomatch hr)

/-- What Select and Get of `PetitionsQ` read of the location on a reachable store. -/
theorem PetitionsQ_reads_location (db : DB) (e : Engine) (writes : List GeoWrite)
    (ops : List PetitionsOp) (ctx : Context) :
    (∀ g, (PetitionsQ.chain db ops).SelectOn e (reachedStore db e writes) ctx = some (g, none) →
      ∀ m ∈ g.elems, ReadsLocation (fun m : PetitionModel => m.Lat) (fun m : PetitionModel => m.Lng)
        PetitionsQ.selectDests PetitionModel.zero (PetitionsQ.chain db ops).selector.columns
        (reachedStore db e writes petitionsTable) m) ∧
    (∀ m, (PetitionsQ.chain db ops).GetOn e (reachedStore db e writes) ctx = some (m, none) →
      ReadsLocation (fun m : PetitionModel => m.Lat) (fun m : PetitionModel => m.Lng)
        PetitionsQ.getDests PetitionModel.zero (PetitionsQ.chain db ops).selector.columns
        (reachedStore db e writes petitionsTable) m) := by
  obtain ⟨hc, hn, _⟩ := PetitionsQ_chain_reads db ops
  obtain ⟨⟨h1, h2, _⟩, _⟩ := PetitionsQ_chain_shaped db ops
  have h1 : (PetitionsQ.chain db ops).selector.columns = (NewPetitionsQ ⟨0⟩).selector.columns := h1
  have h2 : (PetitionsQ.chain db ops).selector.table = petitionsTable := h2
  constructor
  · intro g hg m hm
    obtain ⟨r, hr, hscan⟩ := selectOn_elems _ hc hn _ ctx _ _ _ e _ g hg m hm
    rw [h2] at hr
    have hloc := reached_located db e writes petitionsTable r hr
    have hscan2 := hscan
    rw [h1] at hscan2
    obtain ⟨ha, hb⟩ := PetitionsQ_select_coordinates r m hscan2
    exact ⟨r, hr, hscan, ha, hb hloc⟩
  · intro m hg
    obtain ⟨r, hr, hscan⟩ := getOn_elem _ hc hn _ ctx _ _ _ e _ m hg
    rw [h2] at hr
    have hloc := reached_located db e writes petitionsTable r hr
    have hscan2 := hscan
    rw [h1] at hscan2
    obtain ⟨ha, hb⟩ := PetitionsQ_get_coordinates r m hscan2
    exact ⟨r, hr, hscan, ha, hb hloc⟩

/-- What Select and Get of `PollsQ` read of the location on a reachable store. -/
theorem PollsQ_reads_location (db : DB) (e : Engine) (writes : List GeoWrite)
    (ops : List PollsOp) (ctx : Context) :
    (∀ g, (PollsQ.chain db ops).SelectOn e (reachedStore db e writes) ctx = some (g, none) →
      ∀ m ∈ g.elems, ReadsLocation (fun m : PollModel => m.Lat) (fun m : PollModel => m.Lng)
        PollsQ.selectDests PollModel.zero (PollsQ.chain db ops).selector.columns
        (reachedStore db e writes pollsTable) m) ∧
    (∀ m, (PollsQ.chain db ops).GetOn e (reachedStore db e writes) ctx = some (m, none) →
      ReadsLocation (fun m : PollModel => m.Lat) (fun m : PollModel => m.Lng)
        PollsQ.getDests PollModel.zero (PollsQ.chain db ops).selector.columns
        (reachedStore db e writes pollsTable) m) := by
  obtain ⟨hc, hn, _⟩ := PollsQ_chain_reads db ops
  obtain ⟨⟨h1, h2, _⟩, _⟩ := PollsQ_chain_shaped db ops
  have h1 : (PollsQ.chain db ops).selector.columns = (NewPollsQ ⟨0⟩).selector.columns := h1
  have h2 : (PollsQ.chain db ops).selector.table = pollsTable := h2
  constructor
  · intro g hg m hm
    obtain ⟨r, hr, hscan⟩ := selectOn_elems _ hc hn _ ctx _ _ _ e _ g hg m hm
    rw [h2] at hr
    have hloc := reached_located db e writes pollsTable r hr
    have hscan2 := hscan
    rw [h1] at hscan2
    obtain ⟨ha, hb⟩ := PollsQ_select_coordinates r m hscan2
    exact ⟨r, hr, hscan, ha, hb hloc⟩
  · intro m hg
    obtain ⟨r, hr, hscan⟩ := getOn_elem _ hc hn _ ctx _ _ _ e _ m hg
    rw [h2] at hr
    have hloc := reached_located db e writes pollsTable r hr
    have hscan2 := hscan
    rw [h1] at hscan2
    obtain ⟨ha, hb⟩ := PollsQ_get_coordinates r m hscan2
    exact ⟨r, hr, hscan, ha, hb hloc⟩

/-- What Select and Get of `ProposalsQ` read of the location on a reachable store. -/
theorem ProposalsQ_reads_location (db : DB) (e : Engine) (writes : List GeoWrite)
    (ops : List ProposalsOp) (ctx : Context) :
    (∀ g, (ProposalsQ.chain db ops).SelectOn e (reachedStore db e writes) ctx = some (g, none) →
      ∀ m ∈ g.elems, ReadsLocation (fun m : Proposal => m.Lat) (fun m : Proposal => m.Lng)
        ProposalsQ.selectDests Proposal.zero (ProposalsQ.chain db ops).selector.columns
        (reachedStore db e writes proposalsTable) m) ∧
    (∀ m, (ProposalsQ.chain db ops).GetOn e (reachedStore db e writes) ctx = some (m, none) →
      ReadsLocation (fun m : Proposal => m.Lat) (fun m : Proposal => m.Lng)
        ProposalsQ.getDests Proposal.zero (ProposalsQ.chain db ops).selector.columns
        (reachedStore db e writes proposalsTable) m) := by
  obtain ⟨hc, hn, _⟩ := ProposalsQ_chain_reads db ops
  obtain ⟨⟨h1, h2, _⟩, _⟩ := ProposalsQ_chain_shaped db ops
  have h1 : (ProposalsQ.chain db ops).selector.columns = (NewProposalsQ ⟨0⟩).selector.columns := h1
  have h2 : (ProposalsQ.chain db ops).selector.table = proposalsTable := h2
  constructor
  · intro g hg m hm
    obtain ⟨r, hr, hscan⟩ := selectOn_elems _ hc hn _ ctx _ _ _ e _ g hg m hm
    rw [h2] at hr
    have hloc := reached_located db e writes proposalsTable r hr
    have hscan2 := hscan
    rw [h1] at hscan2
    obtain ⟨ha, hb⟩ := ProposalsQ_select_coordinates r m hscan2
    exact ⟨r, hr, hscan, ha, hb hloc⟩
  · intro m hg
    obtain ⟨r, hr, hscan⟩ := getOn_elem _ hc hn _ ctx _ _ _ e _ m hg
    rw [h2] at hr
    have hloc := reached_located db e writes proposalsTable r hr
    have hscan2 := hscan
    rw [h1] at hscan2
    obtain ⟨ha, hb⟩ := ProposalsQ_get_coordinates r m hscan2
    exact ⟨r, hr, hscan, ha, hb hloc⟩

/-- C18: on every store reached from the empty store by Insert and Update calls
of PetitionsQ, PollsQ and ProposalsQ, every model that a Select or a Get of
these repositories returns without error is the scan of a row of the table,
its Lat is nil if and only if its Lng is nil, and they are nil if and only if
the stored location of that row is NULL. No sentinel is written: Insert writes
NULL as the location for a nil `Location` and the point otherwise, and Update
assigns the location only for a `Location` that is not nil, the point built
from it. -/
theorem C18_coordinates_are_nil_together_with_the_location :
    (∀ (db : DB) (e : Engine) (writes : List GeoWrite) (ops : List PetitionsOp) (ctx : Context),
      (∀ g, (PetitionsQ.chain db ops).SelectOn e (reachedStore db e writes) ctx = some (g, none) →
        ∀ m ∈ g.elems, ReadsLocation (fun m : PetitionModel => m.Lat) (fun m : PetitionModel => m.Lng)
          PetitionsQ.selectDests PetitionModel.zero (PetitionsQ.chain db ops).selector.columns
          (reachedStore db e writes petitionsTable) m) ∧
      (∀ m, (PetitionsQ.chain db ops).GetOn e (reachedStore db e writes) ctx = some (m, none) →
        ReadsLocation (fun m : PetitionModel => m.Lat) (fun m : PetitionModel => m.Lng)
          PetitionsQ.getDests PetitionModel.zero (PetitionsQ.chain db ops).selector.columns
          (reachedStore db e writes petitionsTable) m)) ∧
    (∀ (db : DB) (ops : List PetitionsOp) (inp : InsertPetitionInput),
      (((PetitionsQ.chain db ops).inserter.SetMap (PetitionsQ.insertValues inp)).row petitionsSchema).get "location"
        = writtenLocation inp.Location) ∧
    (∀ (db : DB) (ops : List PetitionsOp) (inp : UpdatePetitionInput),
      ∀ c ∈ (PetitionsQ.chain db ops).updateClauses inp, c.column = "location" →
        ∃ loc, inp.Location = some loc ∧ c.value = pointExpr loc) ∧
    (∀ (db : DB) (e : Engine) (writes : List GeoWrite) (ops : List PollsOp) (ctx : Context),
      (∀ g, (PollsQ.chain db ops).SelectOn e (reachedStore db e writes) ctx = some (g, none) →
        ∀ m ∈ g.elems, ReadsLocation (fun m : PollModel => m.Lat) (fun m : PollModel => m.Lng)
          PollsQ.selectDests PollModel.zero (PollsQ.chain db ops).selector.columns
          (reachedStore db e writes pollsTable) m) ∧
      (∀ m, (PollsQ.chain db ops).GetOn e (reachedStore db e writes) ctx = some (m, none) →
        ReadsLocation (fun m : PollModel => m.Lat) (fun m : PollModel => m.Lng)
          PollsQ.getDests PollModel.zero (PollsQ.chain db ops).selector.columns
          (reachedStore db e writes pollsTable) m)) ∧
    (∀ (db : DB) (ops : List PollsOp) (inp : InsertPollInput),
      (((PollsQ.chain db ops).inserter.SetMap (PollsQ.insertValues inp)).row pollsSchema).get "location"
        = writtenLocation inp.Location) ∧
    (∀ (db : DB) (ops : List PollsOp) (inp : UpdatePollInput),
      ∀ c ∈ (PollsQ.chain db ops).updateClauses inp, c.column = "location" →
        ∃ loc, inp.Location = some loc ∧ c.value = pointExpr loc) ∧
    (∀ (db : DB) (e : Engine) (writes : List GeoWrite) (ops : List ProposalsOp) (ctx : Context),
      (∀ g, (ProposalsQ.chain db ops).SelectOn e (reachedStore db e writes) ctx = some (g, none) →
        ∀ m ∈ g.elems, ReadsLocation (fun m : Proposal => m.Lat) (fun m : Proposal => m.Lng)
          ProposalsQ.selectDests Proposal.zero (ProposalsQ.chain db ops).selector.columns
          (reachedStore db e writes proposalsTable) m) ∧
      (∀ m, (ProposalsQ.chain db ops).GetOn e (reachedStore db e writes) ctx = some (m, none) →
        ReadsLocation (fun m : Proposal => m.Lat) (fun m : Proposal => m.Lng)
          ProposalsQ.getDests Proposal.zero (ProposalsQ.chain db ops).selector.columns
          (reachedStore db e writes proposalsTable) m)) ∧
    (∀ (db : DB) (ops : List ProposalsOp) (inp : InsertProposalInput),
      (((ProposalsQ.chain db ops).inserter.SetMap (ProposalsQ.insertValues inp)).row proposalsSchema).get "location"
        = writtenLocation inp.Location) ∧
    (∀ (db : DB) (ops : List ProposalsOp) (inp : UpdateProposalInput),
      ∀ c ∈ (ProposalsQ.chain db ops).updateClauses inp, c.column = "location" →
        ∃ loc, inp.Location = some loc ∧ c.value = pointExpr loc) :=
  ⟨fun db e writes ops ctx => PetitionsQ_reads_location db e writes ops ctx,
   fun db ops inp => PetitionsQ_insert_location db ops inp,
   fun db ops inp => PetitionsQ_update_location db ops inp,
   fun db e writes ops ctx => PollsQ_reads_location db e writes ops ctx,
   fun db ops inp => PollsQ_insert_location db ops inp,
   fun db ops inp => PollsQ_update_location db ops inp,
   fun db e writes ops ctx => ProposalsQ_reads_location db e writes ops ctx,
   fun db ops inp => ProposalsQ_insert_location db ops inp,
   fun db ops inp => ProposalsQ_update_location db ops inp⟩

set_option maxRecDepth 100000 in
/-- C18 on the store reached by two Inserts of petitions, one with the location
of latitude 111 and longitude 222 and one without a location: Get by the
identifier of the first returns Lat 111 and Lng 222, Get by the identifier of
the second returns nil for both, and each model is read from a row whose
location is NULL exactly when the coordinates are nil. -/
theorem C18_coordinates_witness :
    ((PetitionsQ.chain ⟨0⟩ [.FilterID ⟨1⟩]).GetOn Engine.strict
        (reachedStore ⟨0⟩ Engine.strict
          [.petitionsInsert [] Context.background
            ⟨⟨1⟩, ⟨2⟩, "t", "d", ⟨3⟩, none, "active", 0, 10, ⟨5000⟩, ⟨6000⟩, ⟨7000⟩,
              some ⟨⟨111⟩, ⟨222⟩⟩⟩,
           .petitionsInsert [] Context.background
            ⟨⟨8⟩, ⟨2⟩, "u", "d", ⟨3⟩, none, "active", 0, 10, ⟨5000⟩, ⟨6000⟩, ⟨7000⟩, none⟩])
        Context.background
      = some (⟨⟨1⟩, ⟨2⟩, "t", "d", ⟨3⟩, none, "active", 0, 10, ⟨5000⟩, ⟨6000⟩, ⟨7000⟩,
          some ⟨111⟩, some ⟨222⟩⟩, none)) ∧
    ReadsLocation (fun m : PetitionModel => m.Lat) (fun m : PetitionModel => m.Lng)
      PetitionsQ.getDests PetitionModel.zero
      (PetitionsQ.chain ⟨0⟩ [.FilterID ⟨1⟩]).selector.columns
      (reachedStore ⟨0⟩ Engine.strict
          [.petitionsInsert [] Context.background
            ⟨⟨1⟩, ⟨2⟩, "t", "d", ⟨3⟩, none, "active", 0, 10, ⟨5000⟩, ⟨6000⟩, ⟨7000⟩,
              some ⟨⟨111⟩, ⟨222⟩⟩⟩,
           .petitionsInsert [] Context.background
            ⟨⟨8⟩, ⟨2⟩, "u", "d", ⟨3⟩, none, "active", 0, 10, ⟨5000⟩, ⟨6000⟩, ⟨7000⟩, none⟩]
        petitionsTable)
      ⟨⟨1⟩, ⟨2⟩, "t", "d", ⟨3⟩, none, "active", 0, 10, ⟨5000⟩, ⟨6000⟩, ⟨7000⟩, some ⟨111⟩, some ⟨222⟩⟩ :=
  ⟨by decide,
   (C18_coordinates_are_nil_together_with_the_location.1 ⟨0⟩ Engine.strict _ [.FilterID ⟨1⟩]
      Context.background).2 _ (by decide)⟩

/-! ## The spatial filters -/

/-- A WHERE part among those of a selector holds of every row the selector
matches. -/
theorem matching_holds (b : SelectBuilder) (p : Pred) (hp : p ∈ b.whereParts) (e : Engine)
    (s : Store) (r : Row) (hr : r ∈ b.matching e s) : p.holds e r = true := by
  unfold SelectBuilder.matching at hr
  have h := (List.mem_filter.mp hr).2
  exact List.all_eq_true.mp h p hp

/-- The part `BBox` appends does not hold of a row whose location is NULL. -/
theorem bboxPred_null (minLng minLat maxLng maxLat : Float64) (e : Engine) (row : Row)
    (h : row.get "location" = .null) :
    (bboxPred minLng minLat maxLng maxLat).holds e row = false := by
  simp [bboxPred, Pred.holds, Pred.cond, Cond.isTrue, h]

/-- The part `WithinRadius` appends does not hold of a row whose location is NULL. -/
theorem withinRadiusPred_null (lng lat radiusMeters : Float64) (e : Engine) (row : Row)
    (h : row.get "location" = .null) :
    (withinRadiusPred lng lat radiusMeters).holds e row = false := by
  simp [withinRadiusPred, Pred.holds, Pred.cond, Cond.isTrue, h]

/-- A row matched by a select builder whose last WHERE part is a part that does
not hold of NULL locations has a location. -/
theorem matching_located (b c : SelectBuilder) (p : Pred)
    (hc : c = { b with whereParts := b.whereParts ++ [p] })
    (hnull : ∀ e row, row.get "location" = .null → p.holds e row = false)
    (e : Engine) (s : Store) (r : Row) (hr : r ∈ c.matching e s) :
    r.get "location" ≠ .null := by
  intro h
  have hp : p ∈ c.whereParts := by
    rw [hc]
    exact List.mem_append_right _ (List.mem_singleton_self _)
  have := matching_holds c p hp e s r hr
  rw [hnull e r h] at this
  exact Bool.noConfusion this

/-- C19: for all minLng, minLat, maxLng, maxLat, the WHERE part `BBox` appends is
written `location IS NOT NULL AND ST_Intersects(location, ST_MakeEnvelope(?, ?,
?, ?, 4326))`, the conjunction of `location IS NOT NULL` with the intersection
of location and an envelope of SRID 4326; its bound arguments are exactly
minLng, minLat, maxLng, maxLat in that order, four in all; it does not hold of
a row whose location is NULL. On PetitionsQ, PollsQ and ProposalsQ, `BBox`
appends this one part to the selector and to the counter, and neither then
matches a row whose location is NULL. -/
theorem C19_bbox_appends_the_envelope_test :
    (∀ (minLng minLat maxLng maxLat : Float64),
      (bboxPred minLng minLat maxLng maxLat).ToSql = (bboxCond minLng minLat maxLng maxLat).render ∧
      (bboxPred minLng minLat maxLng maxLat).ToSql.1 = "location IS NOT NULL AND ST_Intersects(location, ST_MakeEnvelope(?, ?, ?, ?, 4326))" ∧
      (bboxPred minLng minLat maxLng maxLat).cond = some (bboxCond minLng minLat maxLng maxLat) ∧
      (bboxPred minLng minLat maxLng maxLat).ToSql.2
        = [.val (.float minLng), .val (.float minLat), .val (.float maxLng),
          .val (.float maxLat)] ∧
      (bboxPred minLng minLat maxLng maxLat).ToSql.2.length = 4 ∧
      ∀ (e : Engine) (row : Row), row.get "location" = .null →
        (bboxPred minLng minLat maxLng maxLat).holds e row = false) ∧
    (∀ (q : PetitionsQ) (minLng minLat maxLng maxLat : Float64),
      Statements.AppendedToReads q.statements (q.BBox minLng minLat maxLng maxLat).statements
        (bboxPred minLng minLat maxLng maxLat) ∧
      ∀ (e : Engine) (s : Store) (r : Row),
        (r ∈ (q.BBox minLng minLat maxLng maxLat).selector.matching e s → r.get "location" ≠ .null) ∧
        (r ∈ (q.BBox minLng minLat maxLng maxLat).counter.matching e s → r.get "location" ≠ .null)) ∧
    (∀ (q : PollsQ) (minLng minLat maxLng maxLat : Float64),
      Statements.AppendedToReads q.statements (q.BBox minLng minLat maxLng maxLat).statements
        (bboxPred minLng minLat maxLng maxLat) ∧
      ∀ (e : Engine) (s : Store) (r : Row),
        (r ∈ (q.BBox minLng minLat maxLng maxLat).selector.matching e s → r.get "location" ≠ .null) ∧
        (r ∈ (q.BBox minLng minLat maxLng maxLat).counter.matching e s → r.get "location" ≠ .null)) ∧
    (∀ (q : ProposalsQ) (minLng minLat maxLng maxLat : Float64),
      Statements.AppendedToReads q.statements (q.BBox minLng minLat maxLng maxLat).statements
        (bboxPred minLng minLat maxLng maxLat) ∧
      ∀ (e : Engine) (s : Store) (r : Row),
        (r ∈ (q.BBox minLng minLat maxLng maxLat).selector.matching e s → r.get "location" ≠ .null) ∧
        (r ∈ (q.BBox minLng minLat maxLng maxLat).counter.matching e s → r.get "location" ≠ .null)) := by
  refine ⟨?_, ?_, ?_, ?_⟩
  · intro minLng minLat maxLng maxLat
    exact ⟨rfl, rfl, rfl, rfl, rfl, fun e row h => bboxPred_null minLng minLat maxLng maxLat e row h⟩
  · intro q minLng minLat maxLng maxLat
    have happ : Statements.AppendedToReads q.statements (q.BBox minLng minLat maxLng maxLat).statements
        (bboxPred minLng minLat maxLng maxLat) := ⟨rfl, rfl, rfl, rfl, rfl⟩
    refine ⟨happ, fun e s r => ⟨?_, ?_⟩⟩
    · exact matching_located _ _ _ happ.1 (fun e row h => bboxPred_null minLng minLat maxLng maxLat e row h)
        e s r
    · exact matching_located _ _ _ happ.2.1 (fun e row h => bboxPred_null minLng minLat maxLng maxLat e row h)
        e s r
  · intro q minLng minLat maxLng maxLat
    have happ : Statements.AppendedToReads q.statements (q.BBox minLng minLat maxLng maxLat).statements
        (bboxPred minLng minLat maxLng maxLat) := ⟨rfl, rfl, rfl, rfl, rfl⟩
    refine ⟨happ, fun e s r => ⟨?_, ?_⟩⟩
    · exact matching_located _ _ _ happ.1 (fun e row h => bboxPred_null minLng minLat maxLng maxLat e row h)
        e s r
    · exact matching_located _ _ _ happ.2.1 (fun e row h => bboxPred_null minLng minLat maxLng maxLat e row h)
        e s r
  · intro q minLng minLat maxLng maxLat
    have happ : Statements.AppendedToReads q.statements (q.BBox minLng minLat maxLng maxLat).statements
        (bboxPred minLng minLat maxLng maxLat) := ⟨rfl, rfl, rfl, rfl, rfl⟩
    refine ⟨happ, fun e s r => ⟨?_, ?_⟩⟩
    · exact matching_located _ _ _ happ.1 (fun e row h => bboxPred_null minLng minLat maxLng maxLat e row h)
        e s r
    · exact matching_located _ _ _ happ.2.1 (fun e row h => bboxPred_null minLng minLat maxLng maxLat e row h)
        e s r

/-- C20: for all lng, lat, radiusMeters, the WHERE part `WithinRadius` appends is
written `location IS NOT NULL AND ST_DWithin(location::geography,
(ST_SetSRID(ST_MakePoint(?, ?), 4326) )::geography, ?)`, the conjunction of
`location IS NOT NULL` with a distance-within test on the geography casts of
location and of the SRID-4326 point built from lng and lat in that order; its
bound arguments are exactly lng, lat, radiusMeters, three in all, the radius
last; it does not hold of a row whose location is NULL. On PetitionsQ, PollsQ
and ProposalsQ, `WithinRadius` appends this one part to the selector and to
the counter, and neither then matches a row whose location is NULL. -/
theorem C20_within_radius_appends_the_distance_test :
    (∀ (lng lat radiusMeters : Float64),
      (withinRadiusPred lng lat radiusMeters).ToSql = (withinRadiusCond lng lat radiusMeters).render ∧
      (withinRadiusPred lng lat radiusMeters).ToSql.1 = "location IS NOT NULL AND ST_DWithin(location::geography, (ST_SetSRID(ST_MakePoint(?, ?), 4326) )::geography, ?)" ∧
      (withinRadiusPred lng lat radiusMeters).cond = some (withinRadiusCond lng lat radiusMeters) ∧
      (withinRadiusPred lng lat radiusMeters).ToSql.2
        = [.val (.float lng), .val (.float lat), .val (.float radiusMeters)] ∧
      (withinRadiusPred lng lat radiusMeters).ToSql.2.length = 3 ∧
      ∀ (e : Engine) (row : Row), row.get "location" = .null →
        (withinRadiusPred lng lat radiusMeters).holds e row = false) ∧
    (∀ (q : PetitionsQ) (lng lat radiusMeters : Float64),
      Statements.AppendedToReads q.statements (q.WithinRadius lng lat radiusMeters).statements
        (withinRadiusPred lng lat radiusMeters) ∧
      ∀ (e : Engine) (s : Store) (r : Row),
        (r ∈ (q.WithinRadius lng lat radiusMeters).selector.matching e s → r.get "location" ≠ .null) ∧
        (r ∈ (q.WithinRadius lng lat radiusMeters).counter.matching e s → r.get "location" ≠ .null)) ∧
    (∀ (q : PollsQ) (lng lat radiusMeters : Float64),
      Statements.AppendedToReads q.statements (q.WithinRadius lng lat radiusMeters).statements
        (withinRadiusPred lng lat radiusMeters) ∧
      ∀ (e : Engine) (s : Store) (r : Row),
        (r ∈ (q.WithinRadius lng lat radiusMeters).selector.matching e s → r.get "location" ≠ .null) ∧
        (r ∈ (q.WithinRadius lng lat radiusMeters).counter.matching e s → r.get "location" ≠ .null)) ∧
    (∀ (q : ProposalsQ) (lng lat radiusMeters : Float64),
      Statements.AppendedToReads q.statements (q.WithinRadius lng lat radiusMeters).statements
        (withinRadiusPred lng lat radiusMeters) ∧
      ∀ (e : Engine) (s : Store) (r : Row),
        (r ∈ (q.WithinRadius lng lat radiusMeters).selector.matching e s → r.get "location" ≠ .null) ∧
        (r ∈ (q.WithinRadius lng lat radiusMeters).counter.matching e s → r.get "location" ≠ .null)) := by
  refine ⟨?_, ?_, ?_, ?_⟩
  · intro lng lat radiusMeters
    exact ⟨rfl, rfl, rfl, rfl, rfl, fun e row h => withinRadiusPred_null lng lat radiusMeters e row h⟩
  · intro q lng lat radiusMeters
    have happ : Statements.AppendedToReads q.statements (q.WithinRadius lng lat radiusMeters).statements
        (withinRadiusPred lng lat radiusMeters) := ⟨rfl, rfl, rfl, rfl, rfl⟩
    refine ⟨happ, fun e s r => ⟨?_, ?_⟩⟩
    · exact matching_located _ _ _ happ.1 (fun e row h => withinRadiusPred_null lng lat radiusMeters e row h)
        e s r
    · exact matching_located _ _ _ happ.2.1 (fun e row h => withinRadiusPred_null lng lat radiusMeters e row h)
        e s r
  · intro q lng lat radiusMeters
    have happ : Statements.AppendedToReads q.statements (q.WithinRadius lng lat radiusMeters).statements
        (withinRadiusPred lng lat radiusMeters) := ⟨rfl, rfl, rfl, rfl, rfl⟩
    refine ⟨happ, fun e s r => ⟨?_, ?_⟩⟩
    · exact matching_located _ _ _ happ.1 (fun e row h => withinRadiusPred_null lng lat radiusMeters e row h)
        e s r
    · exact matching_located _ _ _ happ.2.1 (fun e row h => withinRadiusPred_null lng lat radiusMeters e row h)
        e s r
  · intro q lng lat radiusMeters
    have happ : Statements.AppendedToReads q.statements (q.WithinRadius lng lat radiusMeters).statements
        (withinRadiusPred lng lat radiusMeters) := ⟨rfl, rfl, rfl, rfl, rfl⟩
    refine ⟨happ, fun e s r => ⟨?_, ?_⟩⟩
    · exact matching_located _ _ _ happ.1 (fun e row h => withinRadiusPred_null lng lat radiusMeters e row h)
        e s r
    · exact matching_located _ _ _ happ.2.1 (fun e row h => withinRadiusPred_null lng lat radiusMeters e row h)
        e s r

/-! ## The pattern filter -/

/-- The pattern of `TitleLike`: a percent sign, the characters of `s` as they
are, a percent sign. -/
theorem titlePattern_toList (s : String) :
    ("%" ++ s ++ "%").toList = '%' :: (s.toList ++ ['%']) := by
  show ("%" ++ s ++ "%").data = _
  rw [String.data_append, String.data_append]
  rfl

/-- The bytes of two strings joined. -/
theorem utf8ByteSize_append (a b : String) :
    (a ++ b).utf8ByteSize = a.utf8ByteSize + b.utf8ByteSize := by
  obtain ⟨a⟩ := a
  obtain ⟨b⟩ := b
  show String.utf8ByteSize ⟨a ++ b⟩ = _
  simp [String.utf8Len_append]

/-- C21: for every string s, `TitleLike(s)` appends to the selector and to the
counter, and to nothing else, the part `title ILIKE ?` bound to the one
argument "%" ++ s ++ "%". The characters of s are copied as they are, between
the two percent signs, so a `%`, a `_` or a backslash in s reaches the
statement unescaped; the argument has two characters and two bytes more than
s. The store reads the part as the case-insensitive match of `title` against
that pattern. -/
theorem C21_title_like_binds_the_wrapped_pattern :
    (∀ s : String,
      ("%" ++ s ++ "%").toList = '%' :: (s.toList ++ ['%']) ∧
      ("%" ++ s ++ "%").length = s.length + 2 ∧
      ("%" ++ s ++ "%").utf8ByteSize = s.utf8ByteSize + 2 ∧
      (Pred.str "title ILIKE ?" [.val (.str ("%" ++ s ++ "%"))]).ToSql
        = ("title ILIKE ?", [.val (.str ("%" ++ s ++ "%"))]) ∧
      (Pred.str "title ILIKE ?" [.val (.str ("%" ++ s ++ "%"))]).cond
        = some (.ilike "title" (.str ("%" ++ s ++ "%")))) ∧
    (∀ (q : PetitionsQ) (s : String),
      Statements.AppendedToReads q.statements (q.TitleLike s).statements
        (.str "title ILIKE ?" [.val (.str ("%" ++ s ++ "%"))])) ∧
    (∀ (q : PollsQ) (s : String),
      Statements.AppendedToReads q.statements (q.TitleLike s).statements
        (.str "title ILIKE ?" [.val (.str ("%" ++ s ++ "%"))])) ∧
    (∀ (q : ProposalsQ) (s : String),
      Statements.AppendedToReads q.statements (q.TitleLike s).statements
        (.str "title ILIKE ?" [.val (.str ("%" ++ s ++ "%"))])) ∧
    (NewPetitionsQ ⟨0⟩).TitleLike "50%_a" =
      { NewPetitionsQ ⟨0⟩ with
        selector := (NewPetitionsQ ⟨0⟩).selector.Where
          (.str "title ILIKE ?" [.val (.str "%50%_a%")]),
        counter := (NewPetitionsQ ⟨0⟩).counter.Where
          (.str "title ILIKE ?" [.val (.str "%50%_a%")]) } := by
  refine ⟨?_, ?_, ?_, ?_, ?_⟩
  · intro s
    refine ⟨titlePattern_toList s, ?_, ?_, rfl, rfl⟩
    · have h1 : "%".length = 1 := rfl
      rw [String.length_append, String.length_append, h1]
      omega
    · have h1 : "%".utf8ByteSize = 1 := rfl
      rw [utf8ByteSize_append, utf8ByteSize_append, h1]
      omega
  · intro q s; exact ⟨rfl, rfl, rfl, rfl, rfl⟩
  · intro q s; exact ⟨rfl, rfl, rfl, rfl, rfl⟩
  · intro q s; exact ⟨rfl, rfl, rfl, rfl, rfl⟩
  · decide

/-! ## The columns Update leaves alone -/

/-- No assignment `UpdatePetitionInput` asks for is to a protected column. -/
theorem PetitionsQ_assignments_unprotected (inp : UpdatePetitionInput) :
    ∀ c ∈ inp.assignments, c.column ∉ protectedColumns := by
  intro c hc
  simp only [UpdatePetitionInput.assignments, List.mem_append, mem_assignOf, or_assoc] at hc
  rcases hc with ⟨v, hv, rfl⟩ | ⟨v, hv, rfl⟩ | ⟨v, hv, rfl⟩ | ⟨v, hv, rfl⟩ | ⟨v, hv, rfl⟩ | ⟨v, hv, rfl⟩ | ⟨v, hv, rfl⟩ | ⟨v, hv, rfl⟩
  all_goals simp [protectedColumns]

/-- No assignment `UpdatePollInput` asks for is to a protected column. -/
theorem PollsQ_assignments_unprotected (inp : UpdatePollInput) :
    ∀ c ∈ inp.assignments, c.column ∉ protectedColumns := by
  intro c hc
  simp only [UpdatePollInput.assignments, List.mem_append, mem_assignOf, or_assoc] at hc
  rcases hc with ⟨v, hv, rfl⟩ | ⟨v, hv, rfl⟩ | ⟨v, hv, rfl⟩ | ⟨v, hv, rfl⟩ | ⟨v, hv, rfl⟩ | ⟨v, hv, rfl⟩
  all_goals simp [protectedColumns]

/-- No assignment `UpdatePollVoteInput` asks for is to a protected column. -/
theorem PollVotesQ_assignments_unprotected (inp : UpdatePollVoteInput) :
    ∀ c ∈ inp.assignments, c.column ∉ protectedColumns := by
  intro c hc
  simp only [UpdatePollVoteInput.assignments, List.mem_append, mem_assignOf, or_assoc] at hc
  rcases hc with ⟨v, hv, rfl⟩
  all_goals simp [protectedColumns]

/-- No assignment `UpdateProposalInput` asks for is to a protected column. -/
theorem ProposalsQ_assignments_unprotected (inp : UpdateProposalInput) :
    ∀ c ∈ inp.assignments, c.column ∉ protectedColumns := by
  intro c hc
  simp only [UpdateProposalInput.assignments, List.mem_append, mem_assignOf, or_assoc] at hc
  rcases hc with ⟨v, hv, rfl⟩ | ⟨v, hv, rfl⟩ | ⟨v, hv, rfl⟩ | ⟨v, hv, rfl⟩ | ⟨v, hv, rfl⟩ | ⟨v, hv, rfl⟩ | ⟨v, hv, rfl⟩
  all_goals simp [protectedColumns]

/-- No assignment `UpdateProposalVoteInput` asks for is to a protected column. -/
theorem ProposalVotesQ_assignments_unprotected (inp : UpdateProposalVoteInput) :
    ∀ c ∈ inp.assignments, c.column ∉ protectedColumns := by
  intro c hc
  simp only [UpdateProposalVoteInput.assignments, List.mem_append, mem_assignOf, or_assoc] at hc
  rcases hc with ⟨v, hv, rfl⟩
  all_goals simp [protectedColumns]

/-- C26: for every Update input of every repository with an Update and every
repository value reached from the constructor, no SET clause of the UPDATE is
on id, on created_at, or on one of the counters signatures, agreed_num and
disagreed_num. -/
theorem C26_update_never_assigns_the_protected_columns :
    (∀ (db : DB) (ops : List PetitionsOp) (inp : UpdatePetitionInput),
      ∀ c ∈ (PetitionsQ.chain db ops).updateClauses inp, c.column ∉ protectedColumns) ∧
    (∀ (db : DB) (ops : List PollsOp) (inp : UpdatePollInput),
      ∀ c ∈ (PollsQ.chain db ops).updateClauses inp, c.column ∉ protectedColumns) ∧
    (∀ (db : DB) (ops : List PollVotesOp) (inp : UpdatePollVoteInput),
      ∀ c ∈ (PollVotesQ.chain db ops).updateClauses inp, c.column ∉ protectedColumns) ∧
    (∀ (db : DB) (ops : List ProposalsOp) (inp : UpdateProposalInput),
      ∀ c ∈ (ProposalsQ.chain db ops).updateClauses inp, c.column ∉ protectedColumns) ∧
    (∀ (db : DB) (ops : List ProposalVotesOp) (inp : UpdateProposalVoteInput),
      ∀ c ∈ (ProposalVotesQ.chain db ops).updateClauses inp, c.column ∉ protectedColumns) :=
  ⟨fun db ops inp c hc => PetitionsQ_assignments_unprotected inp c
     ((PetitionsQ_updateClauses_perm db ops inp).mem_iff.mp hc),
   fun db ops inp c hc => PollsQ_assignments_unprotected inp c
     ((PollsQ_updateClauses_perm db ops inp).mem_iff.mp hc),
   fun db ops inp c hc => PollVotesQ_assignments_unprotected inp c
     ((PollVotesQ_updateClauses_perm db ops inp).mem_iff.mp hc),
   fun db ops inp c hc => ProposalsQ_assignments_unprotected inp c
     ((ProposalsQ_updateClauses_perm db ops inp).mem_iff.mp hc),
   fun db ops inp c hc => ProposalVotesQ_assignments_unprotected inp c
     ((ProposalVotesQ_updateClauses_perm db ops inp).mem_iff.mp hc)⟩

/-- C27, as the code behaves: `UpdatePollVoteInput` has the one field `OptionID`,
so on every repository value reached from the constructor every SET clause of
the UPDATE that `PollVotesQ.Update` builds is on option_id, and none is on
poll_id, whatever the input; an input with `OptionID` set assigns option_id. -/
theorem C27_poll_vote_update_assigns_option_id_only :
    (∀ (db : DB) (ops : List PollVotesOp) (inp : UpdatePollVoteInput),
      ∀ c ∈ (PollVotesQ.chain db ops).updateClauses inp,
        c.column = "option_id" ∧ c.column ≠ "poll_id") ∧
    (∀ (db : DB) (ops : List PollVotesOp) (u : UUID),
      (PollVotesQ.chain db ops).updateClauses ⟨some u⟩ = [⟨"option_id", .val (.uuid u)⟩]) ∧
    ¬ ∃ (inp : UpdatePollVoteInput) (c : SetClause),
      c ∈ (PollVotesQ.chain ⟨0⟩ []).updateClauses inp ∧ c.column = "poll_id" := by
  have key : ∀ (db : DB) (ops : List PollVotesOp) (inp : UpdatePollVoteInput),
      ∀ c ∈ (PollVotesQ.chain db ops).updateClauses inp, c.column = "option_id" := by
    intro db ops inp c hc
    have h := (PollVotesQ_updateClauses_perm db ops inp).mem_iff.mp hc
    simp only [UpdatePollVoteInput.assignments, mem_assignOf] at h
    obtain ⟨v, _, rfl⟩ := h
    rfl
  refine ⟨?_, ?_, ?_⟩
  · intro db ops inp c hc
    have h := key db ops inp c hc
    exact ⟨h, by rw [h]; decide⟩
  · intro db ops u
    rw [PollVotesQ_updateClauses_eq]
    rfl
  · rintro ⟨inp, c, hc, hcol⟩
    have h := key ⟨0⟩ [] inp c hc
    rw [h] at hcol
    exact absurd hcol (by decide)

/-- C27 on a fresh `PollVotesQ`: an Update with `OptionID` set issues
`UPDATE poll_votes SET option_id = $1`, with no assignment of poll_id. -/
theorem C27_poll_vote_update_witness :
    (NewPollVotesQ ⟨0⟩).Update Context.background ⟨some ⟨7⟩⟩
      = .roundTrip ⟨.pool ⟨0⟩, .ExecContext, Context.background,
          "UPDATE poll_votes SET option_id = $1", [.val (.uuid ⟨7⟩)]⟩ ∧
    (∀ c ∈ (PollVotesQ.chain ⟨0⟩ []).updateClauses ⟨some ⟨7⟩⟩,
      c.column = "option_id" ∧ c.column ≠ "poll_id") :=
  ⟨by decide, C27_poll_vote_update_assigns_option_id_only.1 ⟨0⟩ [] ⟨some ⟨7⟩⟩⟩

/-! ## One statement, errors as they come -/

/-- A statement that builds goes, as it is, to the resolved target. -/
theorem issue_ok (db : DB) (ctx : Context) (m : Method) (wrap : String)
    (built : Except Error (String × List Arg)) (sql : String) (args : List Arg)
    (h : built = .ok (sql, args)) :
    issue db ctx m wrap built = .roundTrip ⟨resolveTarget db ctx, m, ctx, sql, args⟩ := by
  subst h
  rfl

/-- The shared tail returns on its own only with the wrapped build error. -/
theorem issue_returned (db : DB) (ctx : Context) (m : Method) (wrap : String)
    (built : Except Error (String × List Arg)) (err : Option Error)
    (h : issue db ctx m wrap built = .returned err) :
    ∃ cause, built = .error cause ∧ err = some (.wrapf wrap cause) := by
  cases built with
  | error cause => exact ⟨cause, rfl, by simpa [issue] using h.symm⟩
  | ok r => simp [issue] at h

/-- A SELECT fails to build only with a build error. -/
theorem select_build_error (b : SelectBuilder) (cause : Error) (h : b.ToSql = .error cause) :
    ∃ msg, cause = .build msg := by
  unfold SelectBuilder.ToSql at h
  cases hraw : b.toSqlRaw with
  | ok r => rw [hraw] at h; simp at h
  | error e =>
      rw [hraw] at h
      simp only [Except.error.injEq] at h
      subst h
      unfold SelectBuilder.toSqlRaw at hraw
      split_ifs at hraw
      simp at hraw
      exact ⟨_, hraw.symm⟩

/-- An INSERT fails to build only with a build error. -/
theorem insert_build_error (b : InsertBuilder) (cause : Error) (h : b.ToSql = .error cause) :
    ∃ msg, cause = .build msg := by
  unfold InsertBuilder.ToSql at h
  cases hraw : b.toSqlRaw with
  | ok r => rw [hraw] at h; simp at h
  | error e =>
      rw [hraw] at h
      simp only [Except.error.injEq] at h
      subst h
      unfold InsertBuilder.toSqlRaw at hraw
      split_ifs at hraw <;> simp at hraw <;> exact ⟨_, hraw.symm⟩

/-- An UPDATE fails to build only with a build error. -/
theorem update_build_error (b : UpdateBuilder) (cause : Error) (h : b.ToSql = .error cause) :
    ∃ msg, cause = .build msg := by
  unfold UpdateBuilder.ToSql at h
  cases hraw : b.toSqlRaw with
  | ok r => rw [hraw] at h; simp at h
  | error e =>
      rw [hraw] at h
      simp only [Except.error.injEq] at h
      subst h
      unfold UpdateBuilder.toSqlRaw at hraw
      split_ifs at hraw <;> simp at hraw <;> exact ⟨_, hraw.symm⟩

/-- A DELETE fails to build only with a build error. -/
theorem delete_build_error (b : DeleteBuilder) (cause : Error) (h : b.ToSql = .error cause) :
    ∃ msg, cause = .build msg := by
  unfold DeleteBuilder.ToSql at h
  cases hraw : b.toSqlRaw with
  | ok r => rw [hraw] at h; simp at h
  | error e =>
      rw [hraw] at h
      simp only [Except.error.injEq] at h
      subst h
      unfold DeleteBuilder.toSqlRaw at hraw
      split_ifs at hraw
      simp at hraw
      exact ⟨_, hraw.symm⟩

/-- What a terminal call builds fails only with a build error. -/
theorem built_error (t : Terminal) (cause : Error) (h : t.built = .error cause) :
    ∃ msg, cause = .build msg := by
  cases t <;> simp only [Terminal.built] at h <;>
    first
      | exact select_build_error _ _ h
      | exact insert_build_error _ _ h
      | exact update_build_error _ _ h
      | exact delete_build_error _ _ h

/-- A terminal call either skips its statement and returns nil (an Update
without fields), or hands what it builds to the shared tail. -/
theorem run_eq (t : Terminal) (ctx : Context) :
    (t.skips = true ∧ t.run ctx = .returned none) ∨
    (t.skips = false ∧ ∃ wrap, t.run ctx = issue t.db ctx t.method wrap t.built) := by
  cases t
  case petitionsUpdate q inp =>
    by_cases h : (PetitionsQ.updates inp).length = 0
    · left; exact ⟨by simp [Terminal.skips, h], by simp [Terminal.run, PetitionsQ.Update, h]⟩
    · right
      exact ⟨by simp [Terminal.skips, h], _, by simp only [Terminal.run, PetitionsQ.Update, h]; rfl⟩
  case pollsUpdate q inp =>
    by_cases h : (PollsQ.updates inp).length = 0
    · left; exact ⟨by simp [Terminal.skips, h], by simp [Terminal.run, PollsQ.Update, h]⟩
    · right
      exact ⟨by simp [Terminal.skips, h], _, by simp only [Terminal.run, PollsQ.Update, h]; rfl⟩
  case pollVotesUpdate q inp =>
    by_cases h : (PollVotesQ.updates inp).length = 0
    · left; exact ⟨by simp [Terminal.skips, h], by simp [Terminal.run, PollVotesQ.Update, h]⟩
    · right
      exact ⟨by simp [Terminal.skips, h], _, by simp only [Terminal.run, PollVotesQ.Update, h]; rfl⟩
  case proposalsUpdate q inp =>
    by_cases h : (ProposalsQ.updates inp).length = 0
    · left; exact ⟨by simp [Terminal.skips, h], by simp [Terminal.run, ProposalsQ.Update, h]⟩
    · right
      exact ⟨by simp [Terminal.skips, h], _, by simp only [Terminal.run, ProposalsQ.Update, h]; rfl⟩
  case proposalVotesUpdate q inp =>
    by_cases h : (ProposalVotesQ.updates inp).length = 0
    · left; exact ⟨by simp [Terminal.skips, h], by simp [Terminal.run, ProposalVotesQ.Update, h]⟩
    · right
      exact ⟨by simp [Terminal.skips, h], _, by simp only [Terminal.run, ProposalVotesQ.Update, h]; rfl⟩
  all_goals exact Or.inr ⟨rfl, _, rfl⟩

/-- A call of `database/sql` fails only with the error of the context. -/
theorem call_answer_error {α : Type} (c : Call) (a : α) (err : Error)
    (h : c.answer a = some (.error err)) : err = .canceled := by
  unfold Call.answer at h
  split at h
  · simp at h
  · split_ifs at h
    · simpa using h.symm
    · simp at h

/-- A call of `database/sql` that answers gives the result on the store. -/
theorem call_answer_value {α : Type} (c : Call) (a b : α)
    (h : c.answer a = some (.ok b)) : b = a := by
  unfold Call.answer at h
  split at h
  · simp at h
  · split_ifs at h
    · simp at h
    · simpa using h.symm

/-- The loop of Scan fails only with a scan error. -/
theorem scanLoop_error {M : Type} :
    ∀ (ds : List (Dest M)) (cs : List Cell) (i : Nat) (p m : M) (err : Error),
      scanLoop i ds cs p = (m, some err) → ∃ j msg, err = .scan j msg := by
  intro ds
  induction ds with
  | nil => intro cs i p m err h; simp [scanLoop] at h
  | cons d rest ih =>
      intro cs i p m err h
      cases cs with
      | nil => simp [scanLoop] at h
      | cons c cs =>
          simp only [scanLoop] at h
          cases hd : d c p with
          | error msg =>
              rw [hd] at h
              simp only [Prod.mk.injEq, Option.some.injEq] at h
              exact ⟨i, msg, h.2.symm⟩
          | ok p2 =>
              rw [hd] at h
              exact ih cs (i + 1) p2 m err h

/-- Scan on a row fails only with a scan error or with the error of the number
of destinations. -/
theorem scanInto_error {M : Type} (dests : List (Dest M)) (p m : M) (cells : List Cell)
    (err : Error) (h : scanInto dests p cells = (m, some err)) :
    (∃ j msg, err = .scan j msg) ∨ ∃ a b, err = .scanCount a b := by
  unfold scanInto at h
  split_ifs at h
  · simp only [Prod.mk.injEq, Option.some.injEq] at h
    exact Or.inr ⟨_, _, h.2.symm⟩
  · exact Or.inl (scanLoop_error _ _ _ _ _ _ h)

/-- The loop of Select fails only with the error of a Scan. -/
theorem rowsLoop_error {M : Type} (dests : List (Dest M)) (zero : M) :
    ∀ (cells : List (List Cell)) (out g : GoSlice M) (err : Error),
      rowsLoop dests zero cells out = (g, some err) →
      (∃ j msg, err = .scan j msg) ∨ ∃ a b, err = .scanCount a b := by
  intro cells
  induction cells with
  | nil => intro out g err h; simp [rowsLoop] at h
  | cons c rest ih =>
      intro out g err h
      rw [rowsLoop] at h
      cases hs : scanInto dests zero c with
      | mk p e =>
          rw [hs] at h
          cases e with
          | some e1 =>
              simp only [Prod.mk.injEq, Option.some.injEq] at h
              exact scanInto_error dests zero p c err (by rw [hs, h.2])
          | none => exact ih _ _ _ h

/-- The errors `Row.Scan` returns after a round trip. -/
theorem rowScan_error {M : Type} (dests : List (Dest M)) (zero m : M) (c : Call)
    (cells : List (List Cell)) (err : Error)
    (h : (c.answer (Rows.mk cells none)).map (rowScan dests zero) = some (m, some err)) :
    err = .canceled ∨ err = .noRows ∨ (∃ j msg, err = .scan j msg) ∨
      ∃ a b, err = .scanCount a b := by
  rcases ha : c.answer (Rows.mk cells none) with _ | (e | rows)
  · rw [ha] at h; simp at h
  · rw [ha] at h
    simp only [Option.map_some', rowScan, Option.some.injEq, Prod.mk.injEq] at h
    rw [← h.2, call_answer_error c _ e ha]
    exact Or.inl rfl
  · rw [ha] at h
    have hv := call_answer_value c _ _ ha
    subst hv
    simp only [Option.map_some', rowScan, Option.some.injEq] at h
    cases cells with
    | nil =>
        simp only [Option.getD_none, Prod.mk.injEq, Option.some.injEq] at h
        exact Or.inr (Or.inl h.2.symm)
    | cons r rest => exact Or.inr (Or.inr (scanInto_error _ _ _ _ _ h))

/-- The loop of every Select leaves out the error the result set ends with. -/
theorem selectRows_drops_err {M : Type} (dests : List (Dest M)) (zero : M)
    (cells : List (List Cell)) (err : Error)
    (h : ∀ c ∈ cells, (scanInto dests zero c).2 = none) :
    selectRows dests zero (.ok ⟨cells, some err⟩)
      = (GoSlice.ofList (cells.map (fun c => (scanInto dests zero c).1)), none) := by
  have := rowsLoop_scanned dests zero cells [] h
  simpa [selectRows] using this

/-- The requests and the result of the shared body of the writes. -/
theorem execScript_run (db : DB) (ctx : Context) (wrap : String)
    (built : Except Error (String × List Arg)) (d : Driver) (n : Nat) :
    (execScript db ctx wrap built).run d n
      = match built with
        | .error cause => (some (.wrapf wrap cause), [])
        | .ok r =>
            (replyError (d.reply n ⟨resolveTarget db ctx, .ExecContext, ctx, r.1, r.2⟩),
             [.statement ⟨resolveTarget db ctx, .ExecContext, ctx, r.1, r.2⟩]) := by
  cases built with
  | error cause => rfl
  | ok r =>
      obtain ⟨sql, args⟩ := r
      unfold execScript resolveTarget
      rcases h : ctx.Value CtxKey.TxKey with _ | (p | k) <;> simp [Script.run]

/-- The requests and the returned error of the shared body of Get. -/
theorem getScript_run {M : Type} (db : DB) (ctx : Context) (wrap : String)
    (built : Except Error (String × List Arg)) (dests : List (Dest M)) (zero : M)
    (d : Driver) (n : Nat) :
    ((getScript db ctx wrap built dests zero).map Prod.snd).run d n
      = match built with
        | .error cause => (some (.wrapf wrap cause), [])
        | .ok r =>
            ((rowScan dests zero
                (d.reply n ⟨resolveTarget db ctx, .QueryRowContext, ctx, r.1, r.2⟩)).2,
             [.statement ⟨resolveTarget db ctx, .QueryRowContext, ctx, r.1, r.2⟩]) := by
  cases built with
  | error cause => rfl
  | ok r =>
      obtain ⟨sql, args⟩ := r
      unfold getScript resolveTarget
      rcases h : ctx.Value CtxKey.TxKey with _ | (p | k) <;> simp [Script.run, Script.map]

/-- The requests and the returned error of the shared body of Select. -/
theorem selectScript_run {M : Type} (db : DB) (ctx : Context) (wrap : String)
    (built : Except Error (String × List Arg)) (dests : List (Dest M)) (zero : M)
    (d : Driver) (n : Nat) :
    ((selectScript db ctx wrap built dests zero).map Prod.snd).run d n
      = match built with
        | .error cause => (some (.wrapf wrap cause), [])
        | .ok r =>
            ((selectRows dests zero
                (d.reply n ⟨resolveTarget db ctx, .QueryContext, ctx, r.1, r.2⟩)).2,
             [.statement ⟨resolveTarget db ctx, .QueryContext, ctx, r.1, r.2⟩]) := by
  cases built with
  | error cause => rfl
  | ok r =>
      obtain ⟨sql, args⟩ := r
      unfold selectScript resolveTarget
      rcases h : ctx.Value CtxKey.TxKey with _ | (p | k) <;> simp [Script.run, Script.map]

/-- The requests and the returned error of the shared body of Count. -/
theorem countScript_run (db : DB) (ctx : Context) (wrap : String)
    (built : Except Error (String × List Arg)) (d : Driver) (n : Nat) :
    ((countScript db ctx wrap built).map Prod.snd).run d n
      = match built with
        | .error cause => (some (.wrapf wrap cause), [])
        | .ok r =>
            ((rowScan countDests 0
                (d.reply n ⟨resolveTarget db ctx, .QueryRowContext, ctx, r.1, r.2⟩)).2,
             [.statement ⟨resolveTarget db ctx, .QueryRowContext, ctx, r.1, r.2⟩]) := by
  cases built with
  | error cause => rfl
  | ok r =>
      obtain ⟨sql, args⟩ := r
      unfold countScript resolveTarget
      rcases h : ctx.Value CtxKey.TxKey with _ | (p | k) <;> simp [Script.run, Script.map]

/-- The error of a write is the error of its call. -/
theorem replyError_after :
    (∀ e, replyError (.error e) = some e) ∧ ∀ rows, ReturnedAfter (replyError (.ok rows)) rows :=
  ⟨fun _ => rfl, fun _ => Or.inl rfl⟩

/-- The error of `Row.Scan` is the error of the query, or after a result set
what the result set ends with, `sql.ErrNoRows` or the error of Scan. -/
theorem rowScan_after {M : Type} (dests : List (Dest M)) (zero : M) :
    (∀ e, (rowScan dests zero (.error e)).2 = some e) ∧
    ∀ rows, ReturnedAfter (rowScan dests zero (.ok rows)).2 rows := by
  refine ⟨fun _ => rfl, ?_⟩
  intro rows
  obtain ⟨cells, err⟩ := rows
  cases cells with
  | nil =>
      cases err with
      | none => exact Or.inr (Or.inr (Or.inl rfl))
      | some e => exact Or.inr (Or.inl rfl)
  | cons c rest =>
      show ReturnedAfter (scanInto dests zero c).2 _
      cases h : scanInto dests zero c with
      | mk m e =>
          cases e with
          | none => exact Or.inl rfl
          | some e1 =>
              rcases scanInto_error dests zero m c e1 h with ⟨j, msg, hj⟩ | ⟨a, b, hab⟩
              · exact Or.inr (Or.inr (Or.inr (Or.inl ⟨j, msg, by rw [hj]⟩)))
              · exact Or.inr (Or.inr (Or.inr (Or.inr ⟨a, b, by rw [hab]⟩)))

/-- The error of the tail of Select is the error of the query, or after a
result set nil or the error of Scan. -/
theorem selectRows_after {M : Type} (dests : List (Dest M)) (zero : M) :
    (∀ e, (selectRows dests zero (.error e)).2 = some e) ∧
    ∀ rows, ReturnedAfter (selectRows dests zero (.ok rows)).2 rows := by
  refine ⟨fun _ => rfl, ?_⟩
  intro rows
  show ReturnedAfter (rowsLoop dests zero rows.cells none).2 _
  cases h : rowsLoop dests zero rows.cells none with
  | mk g e =>
      cases e with
      | none => exact Or.inl rfl
      | some e1 =>
          rcases rowsLoop_error dests zero _ _ g e1 h with ⟨j, msg, hj⟩ | ⟨a, b, hab⟩
          · exact Or.inr (Or.inr (Or.inr (Or.inl ⟨j, msg, by rw [hj]⟩)))
          · exact Or.inr (Or.inr (Or.inr (Or.inr ⟨a, b, by rw [hab]⟩)))

/-- The script of a terminal call that builds a statement: a build failure is
returned wrapped in the text of the operation and nothing is requested; else
the one statement goes to the resolved target and the returned error is made
from the answer alone, the error of the call as it came. -/
theorem script_run (t : Terminal) (ctx : Context) (hs : t.skips = false) :
    ∃ after : Except Error Rows → Option Error,
      (∀ e, after (.error e) = some e) ∧
      (∀ rows, ReturnedAfter (after (.ok rows)) rows) ∧
      ∀ (d : Driver) (n : Nat), (t.script ctx).run d n
        = match t.built with
          | .error cause => (some (.wrapf t.wrapText cause), [])
          | .ok r =>
              (after (d.reply n ⟨resolveTarget t.db ctx, t.method, ctx, r.1, r.2⟩),
               [.statement ⟨resolveTarget t.db ctx, t.method, ctx, r.1, r.2⟩]) := by
  cases t
  case petitionsUpdate q inp =>
    have h : ¬ (PetitionsQ.updates inp).length = 0 := by simpa [Terminal.skips] using hs
    exact ⟨replyError, replyError_after.1, replyError_after.2, fun d n => by
      simp only [Terminal.script, h, if_false]; exact execScript_run _ _ _ _ _ _⟩
  case pollsUpdate q inp =>
    have h : ¬ (PollsQ.updates inp).length = 0 := by simpa [Terminal.skips] using hs
    exact ⟨replyError, replyError_after.1, replyError_after.2, fun d n => by
      simp only [Terminal.script, h, if_false]; exact execScript_run _ _ _ _ _ _⟩
  case pollVotesUpdate q inp =>
    have h : ¬ (PollVotesQ.updates inp).length = 0 := by simpa [Terminal.skips] using hs
    exact ⟨replyError, replyError_after.1, replyError_after.2, fun d n => by
      simp only [Terminal.script, h, if_false]; exact execScript_run _ _ _ _ _ _⟩
  case proposalsUpdate q inp =>
    have h : ¬ (ProposalsQ.updates inp).length = 0 := by simpa [Terminal.skips] using hs
    exact ⟨replyError, replyError_after.1, replyError_after.2, fun d n => by
      simp only [Terminal.script, h, if_false]; exact execScript_run _ _ _ _ _ _⟩
  case proposalVotesUpdate q inp =>
    have h : ¬ (ProposalVotesQ.updates inp).length = 0 := by simpa [Terminal.skips] using hs
    exact ⟨replyError, replyError_after.1, replyError_after.2, fun d n => by
      simp only [Terminal.script, h, if_false]; exact execScript_run _ _ _ _ _ _⟩
  case petitionsInsert q inp =>
    exact ⟨replyError, replyError_after.1, replyError_after.2,
      fun d n => execScript_run _ _ _ _ d n⟩
  case petitionsGet q =>
    exact ⟨fun r => (rowScan PetitionsQ.getDests PetitionModel.zero r).2, (rowScan_after _ _).1,
      (rowScan_after _ _).2, fun d n => getScript_run _ _ _ _ _ _ d n⟩
  case petitionsSelect q =>
    exact ⟨fun r => (selectRows PetitionsQ.selectDests PetitionModel.zero r).2, (selectRows_after _ _).1,
      (selectRows_after _ _).2, fun d n => selectScript_run _ _ _ _ _ _ d n⟩
  case petitionsDelete q =>
    exact ⟨replyError, replyError_after.1, replyError_after.2,
      fun d n => execScript_run _ _ _ _ d n⟩
  case petitionsCount q =>
    exact ⟨fun r => (rowScan countDests 0 r).2, (rowScan_after _ _).1,
      (rowScan_after _ _).2, fun d n => countScript_run _ _ _ _ d n⟩
  case petitionsIncrementSignatures q delta =>
    exact ⟨replyError, replyError_after.1, replyError_after.2,
      fun d n => execScript_run _ _ _ _ d n⟩
  case petitionSignaturesInsert q inp =>
    exact ⟨replyError, replyError_after.1, replyError_after.2,
      fun d n => execScript_run _ _ _ _ d n⟩
  case petitionSignaturesGet q =>
    exact ⟨fun r => (rowScan PetitionSignaturesQ.getDests PetitionSignature.zero r).2, (rowScan_after _ _).1,
      (rowScan_after _ _).2, fun d n => getScript_run _ _ _ _ _ _ d n⟩
  case petitionSignaturesSelect q =>
    exact ⟨fun r => (selectRows PetitionSignaturesQ.selectDests PetitionSignature.zero r).2, (selectRows_after _ _).1,
      (selectRows_after _ _).2, fun d n => selectScript_run _ _ _ _ _ _ d n⟩
  case petitionSignaturesDelete q =>
    exact ⟨replyError, replyError_after.1, replyError_after.2,
      fun d n => execScript_run _ _ _ _ d n⟩
  case petitionSignaturesCount q =>
    exact ⟨fun r => (rowScan countDests 0 r).2, (rowScan_after _ _).1,
      (rowScan_after _ _).2, fun d n => countScript_run _ _ _ _ d n⟩
  case pollsInsert q inp =>
    exact ⟨replyError, replyError_after.1, replyError_after.2,
      fun d n => execScript_run _ _ _ _ d n⟩
  case pollsDelete q =>
    exact ⟨replyError, replyError_after.1, replyError_after.2,
      fun d n => execScript_run _ _ _ _ d n⟩
  case pollsGet q =>
    exact ⟨fun r => (rowScan PollsQ.getDests PollModel.zero r).2, (rowScan_after _ _).1,
      (rowScan_after _ _).2, fun d n => getScript_run _ _ _ _ _ _ d n⟩
  case pollsSelect q =>
    exact ⟨fun r => (selectRows PollsQ.selectDests PollModel.zero r).2, (selectRows_after _ _).1,
      (selectRows_after _ _).2, fun d n => selectScript_run _ _ _ _ _ _ d n⟩
  case pollsCount q =>
    exact ⟨fun r => (rowScan countDests 0 r).2, (rowScan_after _ _).1,
      (rowScan_after _ _).2, fun d n => countScript_run _ _ _ _ d n⟩
  case pollOptionsInsert q inp =>
    exact ⟨replyError, replyError_after.1, replyError_after.2,
      fun d n => execScript_run _ _ _ _ d n⟩
  case pollOptionsGet q =>
    exact ⟨fun r => (rowScan PollOptionsQ.getDests PollOption.zero r).2, (rowScan_after _ _).1,
      (rowScan_after _ _).2, fun d n => getScript_run _ _ _ _ _ _ d n⟩
  case pollOptionsSelect q =>
    exact ⟨fun r => (selectRows PollOptionsQ.selectDests PollOption.zero r).2, (selectRows_after _ _).1,
      (selectRows_after _ _).2, fun d n => selectScript_run _ _ _ _ _ _ d n⟩
  case pollOptionsDelete q =>
    exact ⟨replyError, replyError_after.1, replyError_after.2,
      fun d n => execScript_run _ _ _ _ d n⟩
  case pollOptionsCount q =>
    exact ⟨fun r => (rowScan countDests 0 r).2, (rowScan_after _ _).1,
      (rowScan_after _ _).2, fun d n => countScript_run _ _ _ _ d n⟩
  case pollVotesInsert q inp =>
    exact ⟨replyError, replyError_after.1, replyError_after.2,
      fun d n => execScript_run _ _ _ _ d n⟩
  case pollVotesGet q =>
    exact ⟨fun r => (rowScan PollVotesQ.getDests PollVoteModel.zero r).2, (rowScan_after _ _).1,
      (rowScan_after _ _).2, fun d n => getScript_run _ _ _ _ _ _ d n⟩
  case pollVotesSelect q =>
    exact ⟨fun r => (selectRows PollVotesQ.selectDests PollVoteModel.zero r).2, (selectRows_after _ _).1,
      (selectRows_after _ _).2, fun d n => selectScript_run _ _ _ _ _ _ d n⟩
  case pollVotesDelete q =>
    exact ⟨replyError, replyError_after.1, replyError_after.2,
      fun d n => execScript_run _ _ _ _ d n⟩
  case pollVotesCount q =>
    exact ⟨fun r => (rowScan countDests 0 r).2, (rowScan_after _ _).1,
      (rowScan_after _ _).2, fun d n => countScript_run _ _ _ _ d n⟩
  case proposalsInsert q inp =>
    exact ⟨replyError, replyError_after.1, replyError_after.2,
      fun d n => execScript_run _ _ _ _ d n⟩
  case proposalsGet q =>
    exact ⟨fun r => (rowScan ProposalsQ.getDests Proposal.zero r).2, (rowScan_after _ _).1,
      (rowScan_after _ _).2, fun d n => getScript_run _ _ _ _ _ _ d n⟩
  case proposalsSelect q =>
    exact ⟨fun r => (selectRows ProposalsQ.selectDests Proposal.zero r).2, (selectRows_after _ _).1,
      (selectRows_after _ _).2, fun d n => selectScript_run _ _ _ _ _ _ d n⟩
  case proposalsDelete q =>
    exact ⟨replyError, replyError_after.1, replyError_after.2,
      fun d n => execScript_run _ _ _ _ d n⟩
  case proposalsCount q =>
    exact ⟨fun r => (rowScan countDests 0 r).2, (rowScan_after _ _).1,
      (rowScan_after _ _).2, fun d n => countScript_run _ _ _ _ d n⟩
  case proposalVotesInsert q inp =>
    exact ⟨replyError, replyError_after.1, replyError_after.2,
      fun d n => execScript_run _ _ _ _ d n⟩
  case proposalVotesGet q =>
    exact ⟨fun r => (rowScan ProposalVotesQ.getDests ProposalVoteModel.zero r).2, (rowScan_after _ _).1,
      (rowScan_after _ _).2, fun d n => getScript_run _ _ _ _ _ _ d n⟩
  case proposalVotesSelect q =>
    exact ⟨fun r => (selectRows ProposalVotesQ.selectDests ProposalVoteModel.zero r).2, (selectRows_after _ _).1,
      (selectRows_after _ _).2, fun d n => selectScript_run _ _ _ _ _ _ d n⟩
  case proposalVotesDelete q =>
    exact ⟨replyError, replyError_after.1, replyError_after.2,
      fun d n => execScript_run _ _ _ _ d n⟩
  case proposalVotesCount q =>
    exact ⟨fun r => (rowScan countDests 0 r).2, (rowScan_after _ _).1,
      (rowScan_after _ _).2, fun d n => countScript_run _ _ _ _ d n⟩

/-- The script of a terminal call makes the request of its outcome: both
return the same error without a request, or the one statement of the outcome
is the first request of the script. -/
theorem script_agrees (t : Terminal) (ctx : Context) : (t.script ctx).Agrees (t.run ctx) := by
  have key : ∀ (db : DB) (m : Method) (wrap : String) (built : Except Error (String × List Arg)),
      (m = .ExecContext → (execScript db ctx wrap built).Agrees (issue db ctx m wrap built)) := by
    intro db m wrap built hm
    subst hm
    cases built with
    | error cause => rfl
    | ok r =>
        obtain ⟨sql, args⟩ := r
        unfold execScript issue resolveTarget
        rcases h : ctx.Value CtxKey.TxKey with _ | (p | k) <;> simp [Script.Agrees]
  have kget : ∀ (M : Type) (db : DB) (wrap : String) (built : Except Error (String × List Arg))
      (dests : List (Dest M)) (zero : M),
      ((getScript db ctx wrap built dests zero).map Prod.snd).Agrees
        (issue db ctx .QueryRowContext wrap built) := by
    intro M db wrap built dests zero
    cases built with
    | error cause => rfl
    | ok r =>
        obtain ⟨sql, args⟩ := r
        unfold getScript issue resolveTarget
        rcases h : ctx.Value CtxKey.TxKey with _ | (p | k) <;> simp [Script.Agrees, Script.map]
  have ksel : ∀ (M : Type) (db : DB) (wrap : String) (built : Except Error (String × List Arg))
      (dests : List (Dest M)) (zero : M),
      ((selectScript db ctx wrap built dests zero).map Prod.snd).Agrees
        (issue db ctx .QueryContext wrap built) := by
    intro M db wrap built dests zero
    cases built with
    | error cause => rfl
    | ok r =>
        obtain ⟨sql, args⟩ := r
        unfold selectScript issue resolveTarget
        rcases h : ctx.Value CtxKey.TxKey with _ | (p | k) <;> simp [Script.Agrees, Script.map]
  cases t
  case petitionsUpdate q inp =>
    by_cases h : (PetitionsQ.updates inp).length = 0
    · simp [Terminal.script, Terminal.run, PetitionsQ.Update, h, Script.Agrees]
    · simp only [Terminal.script, Terminal.run, PetitionsQ.Update, h, if_false]
      exact key _ _ _ _ rfl
  case pollsUpdate q inp =>
    by_cases h : (PollsQ.updates inp).length = 0
    · simp [Terminal.script, Terminal.run, PollsQ.Update, h, Script.Agrees]
    · simp only [Terminal.script, Terminal.run, PollsQ.Update, h, if_false]
      exact key _ _ _ _ rfl
  case pollVotesUpdate q inp =>
    by_cases h : (PollVotesQ.updates inp).length = 0
    · simp [Terminal.script, Terminal.run, PollVotesQ.Update, h, Script.Agrees]
    · simp only [Terminal.script, Terminal.run, PollVotesQ.Update, h, if_false]
      exact key _ _ _ _ rfl
  case proposalsUpdate q inp =>
    by_cases h : (ProposalsQ.updates inp).length = 0
    · simp [Terminal.script, Terminal.run, ProposalsQ.Update, h, Script.Agrees]
    · simp only [Terminal.script, Terminal.run, ProposalsQ.Update, h, if_false]
      exact key _ _ _ _ rfl
  case proposalVotesUpdate q inp =>
    by_cases h : (ProposalVotesQ.updates inp).length = 0
    · simp [Terminal.script, Terminal.run, ProposalVotesQ.Update, h, Script.Agrees]
    · simp only [Terminal.script, Terminal.run, ProposalVotesQ.Update, h, if_false]
      exact key _ _ _ _ rfl
  all_goals
    first
      | exact key _ _ _ _ rfl
      | exact kget _ _ _ _ _ _
      | exact ksel _ _ _ _ _ _

/-- An Update without fields makes no request and returns nil. -/
theorem script_skips (t : Terminal) (ctx : Context) (d : Driver) (n : Nat)
    (hs : t.skips = true) : (t.script ctx).run d n = (none, []) := by
  cases t <;> simp only [Terminal.skips, decide_eq_true_eq] at hs <;>
    first
      | exact Bool.noConfusion hs
      | (simp only [Terminal.script, hs, if_true]; rfl)

/-- C25: a terminal call whose statement builds, and that is not an Update
without fields, hands exactly that one statement with its arguments to the
one target resolved from the context, by the method of the operation.
Whatever `database/sql` answers, an error or a result, the requests the body
makes are that one statement and nothing else: no second statement, no
repetition after an error, and no request to begin, commit or roll back a
transaction. -/
theorem C25_one_statement_to_one_target (t : Terminal) (ctx : Context) (sql : String)
    (args : List Arg) (hb : t.built = .ok (sql, args)) (hs : t.skips = false) :
    t.run ctx = .roundTrip ⟨resolveTarget t.db ctx, t.method, ctx, sql, args⟩ ∧
    ∀ d : Driver, ((t.script ctx).run d 0).2
      = [.statement ⟨resolveTarget t.db ctx, t.method, ctx, sql, args⟩] := by
  have hrun : t.run ctx = .roundTrip ⟨resolveTarget t.db ctx, t.method, ctx, sql, args⟩ := by
    rcases run_eq t ctx with ⟨h, _⟩ | ⟨_, wrap, h⟩
    · rw [hs] at h; exact Bool.noConfusion h
    · rw [h]; exact issue_ok _ _ _ _ _ _ _ hb
  refine ⟨hrun, fun d => ?_⟩
  obtain ⟨after, -, -, h⟩ := script_run t ctx hs
  rw [h d 0, hb]

/-- C25 on the Delete of a fresh PetitionsQ, with an open transaction in the
context and a driver that fails every request: the one statement
`DELETE FROM petitions` goes to the transaction, and nothing follows it. -/
theorem C25_one_statement_witness :
    (Terminal.petitionsDelete (NewPetitionsQ ⟨0⟩)).built = .ok ("DELETE FROM petitions", []) ∧
    (Terminal.petitionsDelete (NewPetitionsQ ⟨0⟩)).skips = false ∧
    (((Terminal.petitionsDelete (NewPetitionsQ ⟨0⟩)).script
        ⟨[(.TxKey, .tx (some ⟨7⟩))], false⟩).run
        ⟨fun _ _ => .error .canceled, fun _ _ _ => .error .canceled, fun _ _ => none⟩ 0).2
      = [.statement ⟨.tx (some ⟨7⟩), .ExecContext, ⟨[(.TxKey, .tx (some ⟨7⟩))], false⟩,
          "DELETE FROM petitions", []⟩] :=
  ⟨rfl, rfl,
   (C25_one_statement_to_one_target (Terminal.petitionsDelete (NewPetitionsQ ⟨0⟩))
      ⟨[(.TxKey, .tx (some ⟨7⟩))], false⟩ "DELETE FROM petitions" [] rfl rfl).2 _⟩

/-- A terminal call that builds a statement hands what it builds to the shared
tail, with the text of the operation for a build failure. -/
theorem run_issue (t : Terminal) (ctx : Context) (hs : t.skips = false) :
    t.run ctx = issue t.db ctx t.method t.wrapText t.built := by
  cases t
  case petitionsUpdate q inp =>
    have h : ¬ (PetitionsQ.updates inp).length = 0 := by simpa [Terminal.skips] using hs
    simp only [Terminal.run, PetitionsQ.Update, h, if_false]
    rfl
  case pollsUpdate q inp =>
    have h : ¬ (PollsQ.updates inp).length = 0 := by simpa [Terminal.skips] using hs
    simp only [Terminal.run, PollsQ.Update, h, if_false]
    rfl
  case pollVotesUpdate q inp =>
    have h : ¬ (PollVotesQ.updates inp).length = 0 := by simpa [Terminal.skips] using hs
    simp only [Terminal.run, PollVotesQ.Update, h, if_false]
    rfl
  case proposalsUpdate q inp =>
    have h : ¬ (ProposalsQ.updates inp).length = 0 := by simpa [Terminal.skips] using hs
    simp only [Terminal.run, ProposalsQ.Update, h, if_false]
    rfl
  case proposalVotesUpdate q inp =>
    have h : ¬ (ProposalVotesQ.updates inp).length = 0 := by simpa [Terminal.skips] using hs
    simp only [Terminal.run, ProposalVotesQ.Update, h, if_false]
    rfl
  all_goals rfl

/-- C23, amended: a terminal operation wraps one kind of failure only. A
failure to build the statement is returned, without any request, as the build
error wrapped by `fmt.Errorf` with `%w` in the text of the operation, which
names the statement being built and the table (for IncrementSignatures the
operation and no table), the cause kept. After the round trip every error is
returned as it came, whatever `database/sql` answers: the error of the call
itself, and after a result set the error it ends with, `sql.ErrNoRows` or the
error of Scan; none is wrapped, and an Update without fields returns nil. -/
theorem C23_only_build_errors_are_wrapped :
    (∀ (t : Terminal) (ctx : Context) (d : Driver) (cause : Error),
      t.skips = false → t.built = .error cause →
      (∃ msg, cause = .build msg) ∧
      t.run ctx = .returned (some (.wrapf t.wrapText cause)) ∧
      (t.script ctx).run d 0 = (some (.wrapf t.wrapText cause), [])) ∧
    (∀ (t : Terminal) (ctx : Context) (d : Driver) (sql : String) (args : List Arg) (e : Error),
      t.skips = false → t.built = .ok (sql, args) →
      d.reply 0 ⟨resolveTarget t.db ctx, t.method, ctx, sql, args⟩ = .error e →
      ((t.script ctx).run d 0).1 = some e) ∧
    (∀ (t : Terminal) (ctx : Context) (d : Driver) (sql : String) (args : List Arg) (rows : Rows),
      t.skips = false → t.built = .ok (sql, args) →
      d.reply 0 ⟨resolveTarget t.db ctx, t.method, ctx, sql, args⟩ = .ok rows →
      ReturnedAfter ((t.script ctx).run d 0).1 rows) ∧
    (∀ (t : Terminal) (ctx : Context) (d : Driver),
      t.skips = true → t.run ctx = .returned none ∧ (t.script ctx).run d 0 = (none, [])) := by
  refine ⟨?_, ?_, ?_, ?_⟩
  · intro t ctx d cause hs hb
    obtain ⟨after, -, -, h⟩ := script_run t ctx hs
    refine ⟨built_error t cause hb, ?_, ?_⟩
    · rw [run_issue t ctx hs, hb]
      rfl
    · rw [h d 0, hb]
  · intro t ctx d sql args e hs hb hd
    obtain ⟨after, h1, -, h⟩ := script_run t ctx hs
    rw [h d 0, hb]
    show after _ = some e
    rw [hd, h1]
  · intro t ctx d sql args rows hs hb hd
    obtain ⟨after, -, h2, h⟩ := script_run t ctx hs
    rw [h d 0, hb]
    show ReturnedAfter (after _) rows
    rw [hd]
    exact h2 rows
  · intro t ctx d hs
    refine ⟨?_, script_skips t ctx d 0 hs⟩
    rcases run_eq t ctx with ⟨_, h⟩ | ⟨h, _⟩
    · exact h
    · rw [hs] at h; exact Bool.noConfusion h

/-- C23 as stated fails for every failure but a build failure. The Insert of
a petition signature returns the uniqueness error of the store as the driver
gave it; Get on poll votes returns `sql.ErrNoRows` for a result without rows,
and the error of the context when the context is cancelled; Select on poll
options returns the error of Scan for a NULL option text. None is wrapped, and
none names a table or an operation. The one wrapped failure of
IncrementSignatures, on a receiver without a table, names no table. -/
theorem C23_counterexample_errors_after_the_round_trip_are_not_wrapped :
    (((Terminal.petitionSignaturesInsert (NewPetitionSignaturesQ ⟨0⟩)
          ⟨⟨1⟩, ⟨1⟩, ⟨11⟩, ⟨5⟩⟩).script Context.background).run
        ⟨fun _ _ => .error (.store "23505"), fun _ _ _ => .error .canceled, fun _ _ => none⟩ 0).1
      = some (.store "23505") ∧
    (((Terminal.pollVotesGet (NewPollVotesQ ⟨0⟩)).script Context.background).run
        ⟨fun _ _ => .ok ⟨[], none⟩, fun _ _ _ => .error .canceled, fun _ _ => none⟩ 0).1
      = some .noRows ∧
    (PollVotesQ.chain ⟨0⟩ []).GetOn Engine.strict sampleStore ⟨[], true⟩
      = some (PollVoteModel.zero, some .canceled) ∧
    (((Terminal.pollOptionsSelect (NewPollOptionsQ ⟨0⟩)).script Context.background).run
        ⟨fun _ _ => .ok ⟨[[.uuid ⟨1⟩, .uuid ⟨2⟩, .null, .int 0, .timestamp ⟨4⟩]], none⟩,
          fun _ _ _ => .error .canceled, fun _ _ => none⟩ 0).1
      = some (.scan 2 "converting NULL to string is unsupported") ∧
    (Terminal.petitionsIncrementSignatures
        { db := ⟨0⟩, selector := selectFrom [] "", inserter := insertInto "",
          updater := updateTable "", deleter := deleteFrom "",
          counter := selectFrom [] "" } 1).run Context.background
      = .returned (some (.wrapf "building increment signatures query: "
          (.build "update statements must specify a table"))) := by
  refine ⟨by decide, by decide, by decide, by decide, by decide⟩

/-- C24, as the code behaves: no Select reads `rows.Err()`. When the iteration
ends because of an error after rows that scan, the loop of every Select has
appended the rows read so far and Select returns them with a nil error, the
same as when the rows are exhausted. -/
theorem C24_select_returns_the_rows_read_and_no_error :
    (∀ (cells : List (List Cell)) (err : Error),
      (∀ c ∈ cells, (scanInto PetitionsQ.selectDests PetitionModel.zero c).2 = none) →
      selectRows PetitionsQ.selectDests PetitionModel.zero (.ok ⟨cells, some err⟩)
        = (GoSlice.ofList (cells.map (fun c => (scanInto PetitionsQ.selectDests PetitionModel.zero c).1)),
            none)) ∧
    (∀ (cells : List (List Cell)) (err : Error),
      (∀ c ∈ cells, (scanInto PetitionSignaturesQ.selectDests PetitionSignature.zero c).2 = none) →
      selectRows PetitionSignaturesQ.selectDests PetitionSignature.zero (.ok ⟨cells, some err⟩)
        = (GoSlice.ofList (cells.map (fun c => (scanInto PetitionSignaturesQ.selectDests PetitionSignature.zero c).1)),
            none)) ∧
    (∀ (cells : List (List Cell)) (err : Error),
      (∀ c ∈ cells, (scanInto PollsQ.selectDests PollModel.zero c).2 = none) →
      selectRows PollsQ.selectDests PollModel.zero (.ok ⟨cells, some err⟩)
        = (GoSlice.ofList (cells.map (fun c => (scanInto PollsQ.selectDests PollModel.zero c).1)),
            none)) ∧
    (∀ (cells : List (List Cell)) (err : Error),
      (∀ c ∈ cells, (scanInto PollOptionsQ.selectDests PollOption.zero c).2 = none) →
      selectRows PollOptionsQ.selectDests PollOption.zero (.ok ⟨cells, some err⟩)
        = (GoSlice.ofList (cells.map (fun c => (scanInto PollOptionsQ.selectDests PollOption.zero c).1)),
            none)) ∧
    (∀ (cells : List (List Cell)) (err : Error),
      (∀ c ∈ cells, (scanInto PollVotesQ.selectDests PollVoteModel.zero c).2 = none) →
      selectRows PollVotesQ.selectDests PollVoteModel.zero (.ok ⟨cells, some err⟩)
        = (GoSlice.ofList (cells.map (fun c => (scanInto PollVotesQ.selectDests PollVoteModel.zero c).1)),
            none)) ∧
    (∀ (cells : List (List Cell)) (err : Error),
      (∀ c ∈ cells, (scanInto ProposalsQ.selectDests Proposal.zero c).2 = none) →
      selectRows ProposalsQ.selectDests Proposal.zero (.ok ⟨cells, some err⟩)
        = (GoSlice.ofList (cells.map (fun c => (scanInto ProposalsQ.selectDests Proposal.zero c).1)),
            none)) ∧
    (∀ (cells : List (List Cell)) (err : Error),
      (∀ c ∈ cells, (scanInto ProposalVotesQ.selectDests ProposalVoteModel.zero c).2 = none) →
      selectRows ProposalVotesQ.selectDests ProposalVoteModel.zero (.ok ⟨cells, some err⟩)
        = (GoSlice.ofList (cells.map (fun c => (scanInto ProposalVotesQ.selectDests ProposalVoteModel.zero c).1)),
            none)) :=
  ⟨fun cells err h => selectRows_drops_err _ _ cells err h,
   fun cells err h => selectRows_drops_err _ _ cells err h,
   fun cells err h => selectRows_drops_err _ _ cells err h,
   fun cells err h => selectRows_drops_err _ _ cells err h,
   fun cells err h => selectRows_drops_err _ _ cells err h,
   fun cells err h => selectRows_drops_err _ _ cells err h,
   fun cells err h => selectRows_drops_err _ _ cells err h⟩

/-- C24 on one result row of `poll_votes` followed by the error of a cancelled
context: Select returns the one vote and a nil error. -/
theorem C24_select_witness :
    (∀ c ∈ [project (NewPollVotesQ ⟨0⟩).selector.columns (sampleVote 1)],
      (scanInto PollVotesQ.selectDests PollVoteModel.zero c).2 = none) ∧
    selectRows PollVotesQ.selectDests PollVoteModel.zero
        (.ok ⟨[project (NewPollVotesQ ⟨0⟩).selector.columns (sampleVote 1)], some .canceled⟩)
      = (some [⟨⟨1⟩, ⟨1⟩, ⟨11⟩, ⟨7⟩, ⟨99⟩⟩], none) :=
  ⟨by decide,
   (C24_select_returns_the_rows_read_and_no_error.2.2.2.2.1
      [project (NewPollVotesQ ⟨0⟩).selector.columns (sampleVote 1)] .canceled
      (by decide)).trans (by decide)⟩

/-! ## Get after Page -/

/-- The scan of the first row from position o on. -/
theorem scanFirst_drop {M : Type} (dests : List (Dest M)) (zero : M) (columns : List String)
    (rows : List Row) (o : Nat) :
    (rows.length < o + 1 → scanFirst dests zero columns (rows.drop o) = (zero, some .noRows)) ∧
    (∀ r, rows[o]? = some r →
      scanFirst dests zero columns (rows.drop o) = scanInto dests zero (project columns r)) := by
  constructor
  · intro h
    rw [List.drop_eq_nil_of_le (by omega)]
    rfl
  · intro r hr
    obtain ⟨ho, hget⟩ := List.getElem?_eq_some_iff.mp hr
    rw [List.drop_eq_getElem_cons ho, hget]
    rfl

/-- A selector with result columns builds with LIMIT 1. -/
theorem limit_builds (b : SelectBuilder) (hc : b.columns.isEmpty = false) :
    ∃ sql args, (b.Limit 1).ToSql = .ok (sql, args) := by
  have hc2 : (b.Limit 1).columns.isEmpty = false := hc
  unfold SelectBuilder.ToSql SelectBuilder.toSqlRaw
  simp only [hc2]
  exact ⟨_, _, rfl⟩

/-- Get after Page on a value reached from `NewPetitionsQ`. -/
theorem PetitionsQ_page_get (db : DB) (ops : List PetitionsOp) (e : Engine) (s : Store)
    (ctx : Context) (l o : Nat) :
    (∃ sql args, (((PetitionsQ.chain db ops).Page l o).selector.Limit 1).ToSql = .ok (sql, args) ∧
      ((PetitionsQ.chain db ops).Page l o).Get ctx
        = .roundTrip ⟨resolveTarget db ctx, .QueryRowContext, ctx, sql, args⟩) ∧
    (((PetitionsQ.chain db ops).Page l o).selector.Limit 1).limit = some 1 ∧
    (((PetitionsQ.chain db ops).Page l o).selector.Limit 1).offset = some o ∧
    ((PetitionsQ.chain db ops).Page l o).selector.limit = some l ∧
    (ctx.Live → GetsAt (((PetitionsQ.chain db ops).Page l o).GetOn e s ctx) PetitionsQ.getDests PetitionModel.zero
      (PetitionsQ.chain db ops).selector.columns ((PetitionsQ.chain db ops).selector.ordered e s) o) := by
  obtain ⟨hc, hn, _⟩ := PetitionsQ_chain_reads db ops
  have hdb : (PetitionsQ.chain db ops).db = db := (PetitionsQ_chain_shaped db ops).2
  refine ⟨?_, rfl, rfl, rfl, ?_⟩
  · obtain ⟨sql, args, h1⟩ := limit_builds ((PetitionsQ.chain db ops).Page l o).selector hc
    have h4 : ((PetitionsQ.chain db ops).Page l o).Get ctx
        = .roundTrip ⟨resolveTarget (PetitionsQ.chain db ops).db ctx, .QueryRowContext, ctx, sql, args⟩ :=
      issue_ok _ _ _ _ _ _ _ h1
    rw [hdb] at h4
    exact ⟨sql, args, h1, h4⟩
  · intro hlive
    have hg : ((PetitionsQ.chain db ops).Page l o).GetOn e s ctx
        = some (scanFirst PetitionsQ.getDests PetitionModel.zero (PetitionsQ.chain db ops).selector.columns
            (((PetitionsQ.chain db ops).selector.ordered e s).drop o)) :=
      getOn_live ((PetitionsQ.chain db ops).Page l o).selector hc hn _ ctx _ _ _ e s hlive
    unfold GetsAt
    rw [hg]
    obtain ⟨h1, h2⟩ := scanFirst_drop PetitionsQ.getDests PetitionModel.zero (PetitionsQ.chain db ops).selector.columns
      ((PetitionsQ.chain db ops).selector.ordered e s) o
    exact ⟨fun h => congrArg some (h1 h), fun r hr => congrArg some (h2 r hr)⟩

/-- Get after Page on a value reached from `NewPetitionSignaturesQ`. -/
theorem PetitionSignaturesQ_page_get (db : DB) (ops : List PetitionSignaturesOp) (e : Engine) (s : Store)
    (ctx : Context) (l o : Nat) :
    (∃ sql args, (((PetitionSignaturesQ.chain db ops).Page l o).selector.Limit 1).ToSql = .ok (sql, args) ∧
      ((PetitionSignaturesQ.chain db ops).Page l o).Get ctx
        = .roundTrip ⟨resolveTarget db ctx, .QueryRowContext, ctx, sql, args⟩) ∧
    (((PetitionSignaturesQ.chain db ops).Page l o).selector.Limit 1).limit = some 1 ∧
    (((PetitionSignaturesQ.chain db ops).Page l o).selector.Limit 1).offset = some o ∧
    ((PetitionSignaturesQ.chain db ops).Page l o).selector.limit = some l ∧
    (ctx.Live → GetsAt (((PetitionSignaturesQ.chain db ops).Page l o).GetOn e s ctx) PetitionSignaturesQ.getDests PetitionSignature.zero
      (PetitionSignaturesQ.chain db ops).selector.columns ((PetitionSignaturesQ.chain db ops).selector.ordered e s) o) := by
  obtain ⟨hc, hn, _⟩ := PetitionSignaturesQ_chain_reads db ops
  have hdb : (PetitionSignaturesQ.chain db ops).db = db := (PetitionSignaturesQ_chain_shaped db ops).2
  refine ⟨?_, rfl, rfl, rfl, ?_⟩
  · obtain ⟨sql, args, h1⟩ := limit_builds ((PetitionSignaturesQ.chain db ops).Page l o).selector hc
    have h4 : ((PetitionSignaturesQ.chain db ops).Page l o).Get ctx
        = .roundTrip ⟨resolveTarget (PetitionSignaturesQ.chain db ops).db ctx, .QueryRowContext, ctx, sql, args⟩ :=
      issue_ok _ _ _ _ _ _ _ h1
    rw [hdb] at h4
    exact ⟨sql, args, h1, h4⟩
  · intro hlive
    have hg : ((PetitionSignaturesQ.chain db ops).Page l o).GetOn e s ctx
        = some (scanFirst PetitionSignaturesQ.getDests PetitionSignature.zero (PetitionSignaturesQ.chain db ops).selector.columns
            (((PetitionSignaturesQ.chain db ops).selector.ordered e s).drop o)) :=
      getOn_live ((PetitionSignaturesQ.chain db ops).Page l o).selector hc hn _ ctx _ _ _ e s hlive
    unfold GetsAt
    rw [hg]
    obtain ⟨h1, h2⟩ := scanFirst_drop PetitionSignaturesQ.getDests PetitionSignature.zero (PetitionSignaturesQ.chain db ops).selector.columns
      ((PetitionSignaturesQ.chain db ops).selector.ordered e s) o
    exact ⟨fun h => congrArg some (h1 h), fun r hr => congrArg some (h2 r hr)⟩

/-- Get after Page on a value reached from `NewPollsQ`. -/
theorem PollsQ_page_get (db : DB) (ops : List PollsOp) (e : Engine) (s : Store)
    (ctx : Context) (l o : Nat) :
    (∃ sql args, (((PollsQ.chain db ops).Page l o).selector.Limit 1).ToSql = .ok (sql, args) ∧
      ((PollsQ.chain db ops).Page l o).Get ctx
        = .roundTrip ⟨resolveTarget db ctx, .QueryRowContext, ctx, sql, args⟩) ∧
    (((PollsQ.chain db ops).Page l o).selector.Limit 1).limit = some 1 ∧
    (((PollsQ.chain db ops).Page l o).selector.Limit 1).offset = some o ∧
    ((PollsQ.chain db ops).Page l o).selector.limit = some l ∧
    (ctx.Live → GetsAt (((PollsQ.chain db ops).Page l o).GetOn e s ctx) PollsQ.getDests PollModel.zero
      (PollsQ.chain db ops).selector.columns ((PollsQ.chain db ops).selector.ordered e s) o) := by
  obtain ⟨hc, hn, _⟩ := PollsQ_chain_reads db ops
  have hdb : (PollsQ.chain db ops).db = db := (PollsQ_chain_shaped db ops).2
  refine ⟨?_, rfl, rfl, rfl, ?_⟩
  · obtain ⟨sql, args, h1⟩ := limit_builds ((PollsQ.chain db ops).Page l o).selector hc
    have h4 : ((PollsQ.chain db ops).Page l o).Get ctx
        = .roundTrip ⟨resolveTarget (PollsQ.chain db ops).db ctx, .QueryRowContext, ctx, sql, args⟩ :=
      issue_ok _ _ _ _ _ _ _ h1
    rw [hdb] at h4
    exact ⟨sql, args, h1, h4⟩
  · intro hlive
    have hg : ((PollsQ.chain db ops).Page l o).GetOn e s ctx
        = some (scanFirst PollsQ.getDests PollModel.zero (PollsQ.chain db ops).selector.columns
            (((PollsQ.chain db ops).selector.ordered e s).drop o)) :=
      getOn_live ((PollsQ.chain db ops).Page l o).selector hc hn _ ctx _ _ _ e s hlive
    unfold GetsAt
    rw [hg]
    obtain ⟨h1, h2⟩ := scanFirst_drop PollsQ.getDests PollModel.zero (PollsQ.chain db ops).selector.columns
      ((PollsQ.chain db ops).selector.ordered e s) o
    exact ⟨fun h => congrArg some (h1 h), fun r hr => congrArg some (h2 r hr)⟩

/-- Get after Page on a value reached from `NewPollOptionsQ`. -/
theorem PollOptionsQ_page_get (db : DB) (ops : List PollOptionsOp) (e : Engine) (s : Store)
    (ctx : Context) (l o : Nat) :
    (∃ sql args, (((PollOptionsQ.chain db ops).Page l o).selector.Limit 1).ToSql = .ok (sql, args) ∧
      ((PollOptionsQ.chain db ops).Page l o).Get ctx
        = .roundTrip ⟨resolveTarget db ctx, .QueryRowContext, ctx, sql, args⟩) ∧
    (((PollOptionsQ.chain db ops).Page l o).selector.Limit 1).limit = some 1 ∧
    (((PollOptionsQ.chain db ops).Page l o).selector.Limit 1).offset = some o ∧
    ((PollOptionsQ.chain db ops).Page l o).selector.limit = some l ∧
    (ctx.Live → GetsAt (((PollOptionsQ.chain db ops).Page l o).GetOn e s ctx) PollOptionsQ.getDests PollOption.zero
      (PollOptionsQ.chain db ops).selector.columns ((PollOptionsQ.chain db ops).selector.ordered e s) o) := by
  obtain ⟨hc, hn, _⟩ := PollOptionsQ_chain_reads db ops
  have hdb : (PollOptionsQ.chain db ops).db = db := (PollOptionsQ_chain_shaped db ops).2
  refine ⟨?_, rfl, rfl, rfl, ?_⟩
  · obtain ⟨sql, args, h1⟩ := limit_builds ((PollOptionsQ.chain db ops).Page l o).selector hc
    have h4 : ((PollOptionsQ.chain db ops).Page l o).Get ctx
        = .roundTrip ⟨resolveTarget (PollOptionsQ.chain db ops).db ctx, .QueryRowContext, ctx, sql, args⟩ :=
      issue_ok _ _ _ _ _ _ _ h1
    rw [hdb] at h4
    exact ⟨sql, args, h1, h4⟩
  · intro hlive
    have hg : ((PollOptionsQ.chain db ops).Page l o).GetOn e s ctx
        = some (scanFirst PollOptionsQ.getDests PollOption.zero (PollOptionsQ.chain db ops).selector.columns
            (((PollOptionsQ.chain db ops).selector.ordered e s).drop o)) :=
      getOn_live ((PollOptionsQ.chain db ops).Page l o).selector hc hn _ ctx _ _ _ e s hlive
    unfold GetsAt
    rw [hg]
    obtain ⟨h1, h2⟩ := scanFirst_drop PollOptionsQ.getDests PollOption.zero (PollOptionsQ.chain db ops).selector.columns
      ((PollOptionsQ.chain db ops).selector.ordered e s) o
    exact ⟨fun h => congrArg some (h1 h), fun r hr => congrArg some (h2 r hr)⟩

/-- Get after Page on a value reached from `NewPollVotesQ`. -/
theorem PollVotesQ_page_get (db : DB) (ops : List PollVotesOp) (e : Engine) (s : Store)
    (ctx : Context) (l o : Nat) :
    (∃ sql args, (((PollVotesQ.chain db ops).Page l o).selector.Limit 1).ToSql = .ok (sql, args) ∧
      ((PollVotesQ.chain db ops).Page l o).Get ctx
        = .roundTrip ⟨resolveTarget db ctx, .QueryRowContext, ctx, sql, args⟩) ∧
    (((PollVotesQ.chain db ops).Page l o).selector.Limit 1).limit = some 1 ∧
    (((PollVotesQ.chain db ops).Page l o).selector.Limit 1).offset = some o ∧
    ((PollVotesQ.chain db ops).Page l o).selector.limit = some l ∧
    (ctx.Live → GetsAt (((PollVotesQ.chain db ops).Page l o).GetOn e s ctx) PollVotesQ.getDests PollVoteModel.zero
      (PollVotesQ.chain db ops).selector.columns ((PollVotesQ.chain db ops).selector.ordered e s) o) := by
  obtain ⟨hc, hn, _⟩ := PollVotesQ_chain_reads db ops
  have hdb : (PollVotesQ.chain db ops).db = db := (PollVotesQ_chain_shaped db ops).2
  refine ⟨?_, rfl, rfl, rfl, ?_⟩
  · obtain ⟨sql, args, h1⟩ := limit_builds ((PollVotesQ.chain db ops).Page l o).selector hc
    have h4 : ((PollVotesQ.chain db ops).Page l o).Get ctx
        = .roundTrip ⟨resolveTarget (PollVotesQ.chain db ops).db ctx, .QueryRowContext, ctx, sql, args⟩ :=
      issue_ok _ _ _ _ _ _ _ h1
    rw [hdb] at h4
    exact ⟨sql, args, h1, h4⟩
  · intro hlive
    have hg : ((PollVotesQ.chain db ops).Page l o).GetOn e s ctx
        = some (scanFirst PollVotesQ.getDests PollVoteModel.zero (PollVotesQ.chain db ops).selector.columns
            (((PollVotesQ.chain db ops).selector.ordered e s).drop o)) :=
      getOn_live ((PollVotesQ.chain db ops).Page l o).selector hc hn _ ctx _ _ _ e s hlive
    unfold GetsAt
    rw [hg]
    obtain ⟨h1, h2⟩ := scanFirst_drop PollVotesQ.getDests PollVoteModel.zero (PollVotesQ.chain db ops).selector.columns
      ((PollVotesQ.chain db ops).selector.ordered e s) o
    exact ⟨fun h => congrArg some (h1 h), fun r hr => congrArg some (h2 r hr)⟩

/-- Get after Page on a value reached from `NewProposalsQ`. -/
theorem ProposalsQ_page_get (db : DB) (ops : List ProposalsOp) (e : Engine) (s : Store)
    (ctx : Context) (l o : Nat) :
    (∃ sql args, (((ProposalsQ.chain db ops).Page l o).selector.Limit 1).ToSql = .ok (sql, args) ∧
      ((ProposalsQ.chain db ops).Page l o).Get ctx
        = .roundTrip ⟨resolveTarget db ctx, .QueryRowContext, ctx, sql, args⟩) ∧
    (((ProposalsQ.chain db ops).Page l o).selector.Limit 1).limit = some 1 ∧
    (((ProposalsQ.chain db ops).Page l o).selector.Limit 1).offset = some o ∧
    ((ProposalsQ.chain db ops).Page l o).selector.limit = some l ∧
    (ctx.Live → GetsAt (((ProposalsQ.chain db ops).Page l o).GetOn e s ctx) ProposalsQ.getDests Proposal.zero
      (ProposalsQ.chain db ops).selector.columns ((ProposalsQ.chain db ops).selector.ordered e s) o) := by
  obtain ⟨hc, hn, _⟩ := ProposalsQ_chain_reads db ops
  have hdb : (ProposalsQ.chain db ops).db = db := (ProposalsQ_chain_shaped db ops).2
  refine ⟨?_, rfl, rfl, rfl, ?_⟩
  · obtain ⟨sql, args, h1⟩ := limit_builds ((ProposalsQ.chain db ops).Page l o).selector hc
    have h4 : ((ProposalsQ.chain db ops).Page l o).Get ctx
        = .roundTrip ⟨resolveTarget (ProposalsQ.chain db ops).db ctx, .QueryRowContext, ctx, sql, args⟩ :=
      issue_ok _ _ _ _ _ _ _ h1
    rw [hdb] at h4
    exact ⟨sql, args, h1, h4⟩
  · intro hlive
    have hg : ((ProposalsQ.chain db ops).Page l o).GetOn e s ctx
        = some (scanFirst ProposalsQ.getDests Proposal.zero (ProposalsQ.chain db ops).selector.columns
            (((ProposalsQ.chain db ops).selector.ordered e s).drop o)) :=
      getOn_live ((ProposalsQ.chain db ops).Page l o).selector hc hn _ ctx _ _ _ e s hlive
    unfold GetsAt
    rw [hg]
    obtain ⟨h1, h2⟩ := scanFirst_drop ProposalsQ.getDests Proposal.zero (ProposalsQ.chain db ops).selector.columns
      ((ProposalsQ.chain db ops).selector.ordered e s) o
    exact ⟨fun h => congrArg some (h1 h), fun r hr => congrArg some (h2 r hr)⟩

/-- Get after Page on a value reached from `NewProposalVotesQ`. -/
theorem ProposalVotesQ_page_get (db : DB) (ops : List ProposalVotesOp) (e : Engine) (s : Store)
    (ctx : Context) (l o : Nat) :
    (∃ sql args, (((ProposalVotesQ.chain db ops).Page l o).selector.Limit 1).ToSql = .ok (sql, args) ∧
      ((ProposalVotesQ.chain db ops).Page l o).Get ctx
        = .roundTrip ⟨resolveTarget db ctx, .QueryRowContext, ctx, sql, args⟩) ∧
    (((ProposalVotesQ.chain db ops).Page l o).selector.Limit 1).limit = some 1 ∧
    (((ProposalVotesQ.chain db ops).Page l o).selector.Limit 1).offset = some o ∧
    ((ProposalVotesQ.chain db ops).Page l o).selector.limit = some l ∧
    (ctx.Live → GetsAt (((ProposalVotesQ.chain db ops).Page l o).GetOn e s ctx) ProposalVotesQ.getDests ProposalVoteModel.zero
      (ProposalVotesQ.chain db ops).selector.columns ((ProposalVotesQ.chain db ops).selector.ordered e s) o) := by
  obtain ⟨hc, hn, _⟩ := ProposalVotesQ_chain_reads db ops
  have hdb : (ProposalVotesQ.chain db ops).db = db := (ProposalVotesQ_chain_shaped db ops).2
  refine ⟨?_, rfl, rfl, rfl, ?_⟩
  · obtain ⟨sql, args, h1⟩ := limit_builds ((ProposalVotesQ.chain db ops).Page l o).selector hc
    have h4 : ((ProposalVotesQ.chain db ops).Page l o).Get ctx
        = .roundTrip ⟨resolveTarget (ProposalVotesQ.chain db ops).db ctx, .QueryRowContext, ctx, sql, args⟩ :=
      issue_ok _ _ _ _ _ _ _ h1
    rw [hdb] at h4
    exact ⟨sql, args, h1, h4⟩
  · intro hlive
    have hg : ((ProposalVotesQ.chain db ops).Page l o).GetOn e s ctx
        = some (scanFirst ProposalVotesQ.getDests ProposalVoteModel.zero (ProposalVotesQ.chain db ops).selector.columns
            (((ProposalVotesQ.chain db ops).selector.ordered e s).drop o)) :=
      getOn_live ((ProposalVotesQ.chain db ops).Page l o).selector hc hn _ ctx _ _ _ e s hlive
    unfold GetsAt
    rw [hg]
    obtain ⟨h1, h2⟩ := scanFirst_drop ProposalVotesQ.getDests ProposalVoteModel.zero (ProposalVotesQ.chain db ops).selector.columns
      ((ProposalVotesQ.chain db ops).selector.ordered e s) o
    exact ⟨fun h => congrArg some (h1 h), fun r hr => congrArg some (h2 r hr)⟩

/-- C30: for every repository value R reached from a constructor and every
limit and offset, R.Page(limit, offset).Get hands to the resolved target the
statement of the selector with LIMIT 1 in place of the page limit and the
OFFSET kept, while the selector of R.Page(limit, offset) keeps its limit. On a
live context it returns `sql.ErrNoRows` with a zero model when fewer than
offset + 1 rows satisfy R's filters, and otherwise the scan of the row at
position offset of those rows in R's ordering. -/
theorem C30_get_after_page_reads_at_the_offset :
    (∀ (db : DB) (ops : List PetitionsOp) (e : Engine) (s : Store) (ctx : Context) (l o : Nat),
      (∃ sql args, (((PetitionsQ.chain db ops).Page l o).selector.Limit 1).ToSql = .ok (sql, args) ∧
        ((PetitionsQ.chain db ops).Page l o).Get ctx
          = .roundTrip ⟨resolveTarget db ctx, .QueryRowContext, ctx, sql, args⟩) ∧
      (((PetitionsQ.chain db ops).Page l o).selector.Limit 1).limit = some 1 ∧
      (((PetitionsQ.chain db ops).Page l o).selector.Limit 1).offset = some o ∧
      ((PetitionsQ.chain db ops).Page l o).selector.limit = some l ∧
      (ctx.Live → GetsAt (((PetitionsQ.chain db ops).Page l o).GetOn e s ctx) PetitionsQ.getDests PetitionModel.zero
        (PetitionsQ.chain db ops).selector.columns ((PetitionsQ.chain db ops).selector.ordered e s) o)) ∧
    (∀ (db : DB) (ops : List PetitionSignaturesOp) (e : Engine) (s : Store) (ctx : Context) (l o : Nat),
      (∃ sql args, (((PetitionSignaturesQ.chain db ops).Page l o).selector.Limit 1).ToSql = .ok (sql, args) ∧
        ((PetitionSignaturesQ.chain db ops).Page l o).Get ctx
          = .roundTrip ⟨resolveTarget db ctx, .QueryRowContext, ctx, sql, args⟩) ∧
      (((PetitionSignaturesQ.chain db ops).Page l o).selector.Limit 1).limit = some 1 ∧
      (((PetitionSignaturesQ.chain db ops).Page l o).selector.Limit 1).offset = some o ∧
      ((PetitionSignaturesQ.chain db ops).Page l o).selector.limit = some l ∧
      (ctx.Live → GetsAt (((PetitionSignaturesQ.chain db ops).Page l o).GetOn e s ctx) PetitionSignaturesQ.getDests PetitionSignature.zero
        (PetitionSignaturesQ.chain db ops).selector.columns ((PetitionSignaturesQ.chain db ops).selector.ordered e s) o)) ∧
    (∀ (db : DB) (ops : List PollsOp) (e : Engine) (s : Store) (ctx : Context) (l o : Nat),
      (∃ sql args, (((PollsQ.chain db ops).Page l o).selector.Limit 1).ToSql = .ok (sql, args) ∧
        ((PollsQ.chain db ops).Page l o).Get ctx
          = .roundTrip ⟨resolveTarget db ctx, .QueryRowContext, ctx, sql, args⟩) ∧
      (((PollsQ.chain db ops).Page l o).selector.Limit 1).limit = some 1 ∧
      (((PollsQ.chain db ops).Page l o).selector.Limit 1).offset = some o ∧
      ((PollsQ.chain db ops).Page l o).selector.limit = some l ∧
      (ctx.Live → GetsAt (((PollsQ.chain db ops).Page l o).GetOn e s ctx) PollsQ.getDests PollModel.zero
        (PollsQ.chain db ops).selector.columns ((PollsQ.chain db ops).selector.ordered e s) o)) ∧
    (∀ (db : DB) (ops : List PollOptionsOp) (e : Engine) (s : Store) (ctx : Context) (l o : Nat),
      (∃ sql args, (((PollOptionsQ.chain db ops).Page l o).selector.Limit 1).ToSql = .ok (sql, args) ∧
        ((PollOptionsQ.chain db ops).Page l o).Get ctx
          = .roundTrip ⟨resolveTarget db ctx, .QueryRowContext, ctx, sql, args⟩) ∧
      (((PollOptionsQ.chain db ops).Page l o).selector.Limit 1).limit = some 1 ∧
      (((PollOptionsQ.chain db ops).Page l o).selector.Limit 1).offset = some o ∧
      ((PollOptionsQ.chain db ops).Page l o).selector.limit = some l ∧
      (ctx.Live → GetsAt (((PollOptionsQ.chain db ops).Page l o).GetOn e s ctx) PollOptionsQ.getDests PollOption.zero
        (PollOptionsQ.chain db ops).selector.columns ((PollOptionsQ.chain db ops).selector.ordered e s) o)) ∧
    (∀ (db : DB) (ops : List PollVotesOp) (e : Engine) (s : Store) (ctx : Context) (l o : Nat),
      (∃ sql args, (((PollVotesQ.chain db ops).Page l o).selector.Limit 1).ToSql = .ok (sql, args) ∧
        ((PollVotesQ.chain db ops).Page l o).Get ctx
          = .roundTrip ⟨resolveTarget db ctx, .QueryRowContext, ctx, sql, args⟩) ∧
      (((PollVotesQ.chain db ops).Page l o).selector.Limit 1).limit = some 1 ∧
      (((PollVotesQ.chain db ops).Page l o).selector.Limit 1).offset = some o ∧
      ((PollVotesQ.chain db ops).Page l o).selector.limit = some l ∧
      (ctx.Live → GetsAt (((PollVotesQ.chain db ops).Page l o).GetOn e s ctx) PollVotesQ.getDests PollVoteModel.zero
        (PollVotesQ.chain db ops).selector.columns ((PollVotesQ.chain db ops).selector.ordered e s) o)) ∧
    (∀ (db : DB) (ops : List ProposalsOp) (e : Engine) (s : Store) (ctx : Context) (l o : Nat),
      (∃ sql args, (((ProposalsQ.chain db ops).Page l o).selector.Limit 1).ToSql = .ok (sql, args) ∧
        ((ProposalsQ.chain db ops).Page l o).Get ctx
          = .roundTrip ⟨resolveTarget db ctx, .QueryRowContext, ctx, sql, args⟩) ∧
      (((ProposalsQ.chain db ops).Page l o).selector.Limit 1).limit = some 1 ∧
      (((ProposalsQ.chain db ops).Page l o).selector.Limit 1).offset = some o ∧
      ((ProposalsQ.chain db ops).Page l o).selector.limit = some l ∧
      (ctx.Live → GetsAt (((ProposalsQ.chain db ops).Page l o).GetOn e s ctx) ProposalsQ.getDests Proposal.zero
        (ProposalsQ.chain db ops).selector.columns ((ProposalsQ.chain db ops).selector.ordered e s) o)) ∧
    (∀ (db : DB) (ops : List ProposalVotesOp) (e : Engine) (s : Store) (ctx : Context) (l o : Nat),
      (∃ sql args, (((ProposalVotesQ.chain db ops).Page l o).selector.Limit 1).ToSql = .ok (sql, args) ∧
        ((ProposalVotesQ.chain db ops).Page l o).Get ctx
          = .roundTrip ⟨resolveTarget db ctx, .QueryRowContext, ctx, sql, args⟩) ∧
      (((ProposalVotesQ.chain db ops).Page l o).selector.Limit 1).limit = some 1 ∧
      (((ProposalVotesQ.chain db ops).Page l o).selector.Limit 1).offset = some o ∧
      ((ProposalVotesQ.chain db ops).Page l o).selector.limit = some l ∧
      (ctx.Live → GetsAt (((ProposalVotesQ.chain db ops).Page l o).GetOn e s ctx) ProposalVotesQ.getDests ProposalVoteModel.zero
        (ProposalVotesQ.chain db ops).selector.columns ((ProposalVotesQ.chain db ops).selector.ordered e s) o)) :=
  ⟨fun db ops e s ctx l o => PetitionsQ_page_get db ops e s ctx l o,
   fun db ops e s ctx l o => PetitionSignaturesQ_page_get db ops e s ctx l o,
   fun db ops e s ctx l o => PollsQ_page_get db ops e s ctx l o,
   fun db ops e s ctx l o => PollOptionsQ_page_get db ops e s ctx l o,
   fun db ops e s ctx l o => PollVotesQ_page_get db ops e s ctx l o,
   fun db ops e s ctx l o => ProposalsQ_page_get db ops e s ctx l o,
   fun db ops e s ctx l o => ProposalVotesQ_page_get db ops e s ctx l o⟩

/-- C30 on three poll votes and on one: after `Page(10, 1)` Get issues the
statement with `LIMIT 1 OFFSET 1`; with three votes it returns the second,
with one vote it returns `sql.ErrNoRows` although the vote matches. -/
theorem C30_get_after_page_witness :
    ((NewPollVotesQ ⟨0⟩).Page 10 1).Get Context.background
      = .roundTrip ⟨.pool ⟨0⟩, .QueryRowContext, Context.background,
          "SELECT id, poll_id, user_id, option_id, created_at FROM poll_votes LIMIT 1 OFFSET 1",
          []⟩ ∧
    ((PollVotesQ.chain ⟨0⟩ []).Page 10 1).GetOn Engine.strict sampleStore Context.background
      = some (⟨⟨2⟩, ⟨1⟩, ⟨12⟩, ⟨7⟩, ⟨98⟩⟩, none) ∧
    ((PollVotesQ.chain ⟨0⟩ []).Page 10 1).GetOn Engine.strict oneVoteStore Context.background
      = some (PollVoteModel.zero, some .noRows) :=
  ⟨by decide,
   (((C30_get_after_page_reads_at_the_offset.2.2.2.2.1 ⟨0⟩ [] Engine.strict sampleStore
      Context.background 10 1).2.2.2.2 (by decide)).2 (sampleVote 2) (by decide)).trans
      (by decide),
   ((C30_get_after_page_reads_at_the_offset.2.2.2.2.1 ⟨0⟩ [] Engine.strict oneVoteStore
      Context.background 10 1).2.2.2.2 (by decide)).1 (by decide)⟩

/-! ## The order of the rows -/

/-- Comparing two integers the other way round gives the opposite. -/
theorem int_compare_swap (a b : Int) : compare b a = (compare a b).swap := by
  rcases lt_trichotomy a b with h | h | h
  · rw [compare_lt_iff_lt.mpr h, compare_gt_iff_gt.mpr h]
    rfl
  · subst h
    rw [compare_eq_iff_eq.mpr rfl]
    rfl
  · rw [compare_gt_iff_gt.mpr h, compare_lt_iff_lt.mpr h]
    rfl

/-- Comparing two cells the other way round gives the opposite. -/
theorem Cell.compare_swap (a b : Cell) : Cell.compare b a = (Cell.compare a b).swap := by
  cases a <;> cases b <;>
    first
      | exact int_compare_swap _ _
      | rfl

/-- Comparing two rows under a term the other way round gives the opposite. -/
theorem compareByTerm_swap (t : String) (a b : Row) :
    compareByTerm t b a = (compareByTerm t a b).swap := by
  unfold compareByTerm
  split_ifs <;> first | exact Cell.compare_swap _ _ | rfl

/-- Comparing two rows under the terms the other way round gives the opposite. -/
theorem compareByTerms_swap (ts : List String) (a b : Row) :
    compareByTerms ts b a = (compareByTerms ts a b).swap := by
  induction ts with
  | nil => rfl
  | cons t rest ih =>
      simp only [compareByTerms]
      rw [compareByTerm_swap t a b]
      cases h : compareByTerm t a b <;> simp [Ordering.swap, ih]

/-- Of two rows one does not come after the other. -/
theorem compareByTerms_total (ts : List String) (a b : Row) :
    compareByTerms ts a b ≠ .gt ∨ compareByTerms ts b a ≠ .gt := by
  rw [compareByTerms_swap ts a b]
  cases compareByTerms ts a b <;> simp [Ordering.swap]

/-- The first element after an ordered insertion is the inserted one or the
first of the list. -/
theorem head_orderedInsert {α : Type} (r : α → α → Prop) [DecidableRel r] (a : α)
    (l : List α) (y : α) (h : y ∈ (l.orderedInsert r a).head?) : y = a ∨ y ∈ l.head? := by
  cases l with
  | nil => left; simpa using h.symm
  | cons b rest =>
      rw [List.orderedInsert] at h
      split_ifs at h
      · left; simpa using h.symm
      · right; simpa using h

/-- An ordered insertion into a list whose neighbours are in order leaves the
neighbours in order, for a relation that holds one way or the other. -/
theorem chain_orderedInsert {α : Type} (r : α → α → Prop) [DecidableRel r]
    (total : ∀ a b, r a b ∨ r b a) (a : α) :
    ∀ l : List α, l.Chain' r → (l.orderedInsert r a).Chain' r := by
  intro l
  induction l with
  | nil => intro _; simp
  | cons b rest ih =>
      intro h
      rw [List.orderedInsert]
      split_ifs with hab
      · exact List.Chain'.cons hab h
      · rw [List.chain'_cons'] at h ⊢
        refine ⟨?_, ih h.2⟩
        intro y hy
        rcases head_orderedInsert r a rest y hy with rfl | hy2
        · exact (total y b).resolve_left hab
        · exact h.1 y hy2

/-- The neighbours of a sorted list are in order, for a relation that holds one
way or the other. -/
theorem chain_insertionSort {α : Type} (r : α → α → Prop) [DecidableRel r]
    (total : ∀ a b, r a b ∨ r b a) : ∀ l : List α, (l.insertionSort r).Chain' r := by
  intro l
  induction l with
  | nil => simp
  | cons a rest ih =>
      rw [List.insertionSort]
      exact chain_orderedInsert r total a _ ih

/-- Of two neighbours among the rows a statement picks, the second does not
come before the first under the ORDER BY terms. -/
theorem rowsOn_chain (b : SelectBuilder) (e : Engine) (s : Store) :
    (b.rowsOn e s).Chain' (fun x y => compareByTerms b.orderBys x y ≠ .gt) := by
  have hs : (sortRows b.orderBys (b.matching e s)).Chain'
      (fun x y => compareByTerms b.orderBys x y ≠ .gt) :=
    chain_insertionSort _ (compareByTerms_total b.orderBys) _
  unfold SelectBuilder.rowsOn SelectBuilder.paged
  cases b.offset <;> cases b.limit <;> simp only
  · exact hs
  · exact hs.take _
  · exact hs.drop _
  · exact (hs.drop _).take _

/-- Under several terms the first decides: rows in order under the terms are in
order under the first term, and under the rest where the first does not tell
them apart. -/
theorem compareByTerms_first (t : String) (ts : List String) (a b : Row)
    (h : compareByTerms (t :: ts) a b ≠ .gt) :
    compareByTerm t a b ≠ .gt ∧ (compareByTerm t a b = .eq → compareByTerms ts a b ≠ .gt) := by
  simp only [compareByTerms] at h
  cases hc : compareByTerm t a b <;> rw [hc] at h <;> simp at h ⊢
  exact h

/-- The models a Select without error returns are the scans of the rows its
statement picks, in their order. -/
theorem selectOn_rows {M : Type} (b : SelectBuilder) (hc : b.columns.isEmpty = false)
    (hn : b.columns ≠ ["COUNT(*) AS count"])
    (db : DB) (ctx : Context) (wrap : String) (dests : List (Dest M)) (zero : M)
    (e : Engine) (s : Store) (g : GoSlice M)
    (h : selectOn (issue db ctx .QueryContext wrap b.ToSql) dests zero e s b = some (g, none)) :
    g.elems = (b.rowsOn e s).map (fun r => (scanInto dests zero (project b.columns r)).1) := by
  obtain ⟨_, _, hg⟩ := selectOn_ok b hc db ctx wrap dests zero e s g h
  rw [hg, GoSlice.elems_ofList, answer_rows b hn e s, List.map_map]
  rfl

/-- Every operation of `PollOptionsQ` appends its ORDER BY terms, if any, to
those of the selector. -/
theorem PollOptionsOp_apply_orderBys (op : PollOptionsOp) (q : PollOptionsQ) :
    (op.apply q).selector.orderBys = q.selector.orderBys ++ op.terms := by
  cases op <;>
    simp [PollOptionsOp.apply, PollOptionsOp.terms, PollOptionsQ.FilterID, PollOptionsQ.FilterPollID, PollOptionsQ.OrderByCreatedAsc, PollOptionsQ.OrderByCreatedDesc, PollOptionsQ.OrderByVotesDesc, PollOptionsQ.Page, NewPollOptionsQ,
      selectFrom, SelectBuilder.Where, SelectBuilder.Limit, SelectBuilder.Offset,
      SelectBuilder.OrderBy, Pred.isBlank, titleLike_not_empty, cityGov_not_empty]

/-- The ORDER BY terms of a value reached from `NewPollOptionsQ`: those of the calls,
in call order. -/
theorem PollOptionsQ_chain_orderBys (db : DB) (ops : List PollOptionsOp) :
    (PollOptionsQ.chain db ops).selector.orderBys = ops.flatMap PollOptionsOp.terms := by
  have h : ∀ (l : List PollOptionsOp) (q : PollOptionsQ),
      (l.foldl (fun q op => op.apply q) q).selector.orderBys
        = q.selector.orderBys ++ l.flatMap PollOptionsOp.terms := by
    intro l
    induction l with
    | nil => intro q; simp
    | cons op rest ih =>
        intro q
        rw [List.foldl_cons, ih, PollOptionsOp_apply_orderBys, List.flatMap_cons, List.append_assoc]
  have := h ops (NewPollOptionsQ db)
  simpa [PollOptionsQ.chain, NewPollOptionsQ, selectFrom] using this

/-- The order of what Select returns on a value reached from `NewPollOptionsQ`. -/
theorem PollOptionsQ_select_order (db : DB) (ops : List PollOptionsOp) (e : Engine) (s : Store) :
    ((PollOptionsQ.chain db ops).selector.rowsOn e s).Chain'
        (fun x y => compareByTerms (ops.flatMap PollOptionsOp.terms) x y ≠ .gt) ∧
    ∀ (ctx : Context) (g : GoSlice PollOption), (PollOptionsQ.chain db ops).SelectOn e s ctx = some (g, none) →
      g.elems = ((PollOptionsQ.chain db ops).selector.rowsOn e s).map
        (fun r => (scanInto PollOptionsQ.selectDests PollOption.zero
          (project (PollOptionsQ.chain db ops).selector.columns r)).1) := by
  obtain ⟨hc, hn, _⟩ := PollOptionsQ_chain_reads db ops
  constructor
  · have := rowsOn_chain (PollOptionsQ.chain db ops).selector e s
    rw [PollOptionsQ_chain_orderBys] at this
    exact this
  · intro ctx g h
    exact selectOn_rows _ hc hn _ ctx _ _ _ e s g h

/-- Every operation of `PollVotesQ` appends its ORDER BY terms, if any, to
those of the selector. -/
theorem PollVotesOp_apply_orderBys (op : PollVotesOp) (q : PollVotesQ) :
    (op.apply q).selector.orderBys = q.selector.orderBys ++ op.terms := by
  cases op <;>
    simp [PollVotesOp.apply, PollVotesOp.terms, PollVotesQ.FilterID, PollVotesQ.FilterPollID, PollVotesQ.FilterUserID, PollVotesQ.FilterOptionID, PollVotesQ.OrderByCreatedAsc, PollVotesQ.OrderByCreatedDesc, PollVotesQ.Page, NewPollVotesQ,
      selectFrom, SelectBuilder.Where, SelectBuilder.Limit, SelectBuilder.Offset,
      SelectBuilder.OrderBy, Pred.isBlank, titleLike_not_empty, cityGov_not_empty]

/-- The ORDER BY terms of a value reached from `NewPollVotesQ`: those of the calls,
in call order. -/
theorem PollVotesQ_chain_orderBys (db : DB) (ops : List PollVotesOp) :
    (PollVotesQ.chain db ops).selector.orderBys = ops.flatMap PollVotesOp.terms := by
  have h : ∀ (l : List PollVotesOp) (q : PollVotesQ),
      (l.foldl (fun q op => op.apply q) q).selector.orderBys
        = q.selector.orderBys ++ l.flatMap PollVotesOp.terms := by
    intro l
    induction l with
    | nil => intro q; simp
    | cons op rest ih =>
        intro q
        rw [List.foldl_cons, ih, PollVotesOp_apply_orderBys, List.flatMap_cons, List.append_assoc]
  have := h ops (NewPollVotesQ db)
  simpa [PollVotesQ.chain, NewPollVotesQ, selectFrom] using this

/-- The order of what Select returns on a value reached from `NewPollVotesQ`. -/
theorem PollVotesQ_select_order (db : DB) (ops : List PollVotesOp) (e : Engine) (s : Store) :
    ((PollVotesQ.chain db ops).selector.rowsOn e s).Chain'
        (fun x y => compareByTerms (ops.flatMap PollVotesOp.terms) x y ≠ .gt) ∧
    ∀ (ctx : Context) (g : GoSlice PollVoteModel), (PollVotesQ.chain db ops).SelectOn e s ctx = some (g, none) →
      g.elems = ((PollVotesQ.chain db ops).selector.rowsOn e s).map
        (fun r => (scanInto PollVotesQ.selectDests PollVoteModel.zero
          (project (PollVotesQ.chain db ops).selector.columns r)).1) := by
  obtain ⟨hc, hn, _⟩ := PollVotesQ_chain_reads db ops
  constructor
  · have := rowsOn_chain (PollVotesQ.chain db ops).selector e s
    rw [PollVotesQ_chain_orderBys] at this
    exact this
  · intro ctx g h
    exact selectOn_rows _ hc hn _ ctx _ _ _ e s g h

/-- Every operation of `ProposalsQ` appends its ORDER BY terms, if any, to
those of the selector. -/
theorem ProposalsOp_apply_orderBys (op : ProposalsOp) (q : ProposalsQ) :
    (op.apply q).selector.orderBys = q.selector.orderBys ++ op.terms := by
  cases op <;>
    simp [ProposalsOp.apply, ProposalsOp.terms, ProposalsQ.FilterID, ProposalsQ.FilterCityID, ProposalsQ.FilterInitiatorID, ProposalsQ.FilterStatus, ProposalsQ.FilterAddressedTo, ProposalsQ.FilterAddressedToCityGov, ProposalsQ.TitleLike, ProposalsQ.BBox, ProposalsQ.WithinRadius, ProposalsQ.OrderByCreatedAsc, ProposalsQ.OrderByCreatedDesc, ProposalsQ.OrderByAgreedDesc, ProposalsQ.OrderByDisagreedDesc, ProposalsQ.Page, NewProposalsQ,
      selectFrom, SelectBuilder.Where, SelectBuilder.Limit, SelectBuilder.Offset,
      SelectBuilder.OrderBy, Pred.isBlank, titleLike_not_empty, cityGov_not_empty]

/-- The ORDER BY terms of a value reached from `NewProposalsQ`: those of the calls,
in call order. -/
theorem ProposalsQ_chain_orderBys (db : DB) (ops : List ProposalsOp) :
    (ProposalsQ.chain db ops).selector.orderBys = ops.flatMap ProposalsOp.terms := by
  have h : ∀ (l : List ProposalsOp) (q : ProposalsQ),
      (l.foldl (fun q op => op.apply q) q).selector.orderBys
        = q.selector.orderBys ++ l.flatMap ProposalsOp.terms := by
    intro l
    induction l with
    | nil => intro q; simp
    | cons op rest ih =>
        intro q
        rw [List.foldl_cons, ih, ProposalsOp_apply_orderBys, List.flatMap_cons, List.append_assoc]
  have := h ops (NewProposalsQ db)
  simpa [ProposalsQ.chain, NewProposalsQ, selectFrom] using this

/-- The order of what Select returns on a value reached from `NewProposalsQ`. -/
theorem ProposalsQ_select_order (db : DB) (ops : List ProposalsOp) (e : Engine) (s : Store) :
    ((ProposalsQ.chain db ops).selector.rowsOn e s).Chain'
        (fun x y => compareByTerms (ops.flatMap ProposalsOp.terms) x y ≠ .gt) ∧
    ∀ (ctx : Context) (g : GoSlice Proposal), (ProposalsQ.chain db ops).SelectOn e s ctx = some (g, none) →
      g.elems = ((ProposalsQ.chain db ops).selector.rowsOn e s).map
        (fun r => (scanInto ProposalsQ.selectDests Proposal.zero
          (project (ProposalsQ.chain db ops).selector.columns r)).1) := by
  obtain ⟨hc, hn, _⟩ := ProposalsQ_chain_reads db ops
  constructor
  · have := rowsOn_chain (ProposalsQ.chain db ops).selector e s
    rw [ProposalsQ_chain_orderBys] at this
    exact this
  · intro ctx g h
    exact selectOn_rows _ hc hn _ ctx _ _ _ e s g h

/-- Every operation of `ProposalVotesQ` appends its ORDER BY terms, if any, to
those of the selector. -/
theorem ProposalVotesOp_apply_orderBys (op : ProposalVotesOp) (q : ProposalVotesQ) :
    (op.apply q).selector.orderBys = q.selector.orderBys ++ op.terms := by
  cases op <;>
    simp [ProposalVotesOp.apply, ProposalVotesOp.terms, ProposalVotesQ.FilterID, ProposalVotesQ.FilterProposalID, ProposalVotesQ.FilterUserID, ProposalVotesQ.FilterVote, ProposalVotesQ.OrderByCreatedAsc, ProposalVotesQ.OrderByCreatedDesc, ProposalVotesQ.Page, NewProposalVotesQ,
      selectFrom, SelectBuilder.Where, SelectBuilder.Limit, SelectBuilder.Offset,
      SelectBuilder.OrderBy, Pred.isBlank, titleLike_not_empty, cityGov_not_empty]

/-- The ORDER BY terms of a value reached from `NewProposalVotesQ`: those of the calls,
in call order. -/
theorem ProposalVotesQ_chain_orderBys (db : DB) (ops : List ProposalVotesOp) :
    (ProposalVotesQ.chain db ops).selector.orderBys = ops.flatMap ProposalVotesOp.terms := by
  have h : ∀ (l : List ProposalVotesOp) (q : ProposalVotesQ),
      (l.foldl (fun q op => op.apply q) q).selector.orderBys
        = q.selector.orderBys ++ l.flatMap ProposalVotesOp.terms := by
    intro l
    induction l with
    | nil => intro q; simp
    | cons op rest ih =>
        intro q
        rw [List.foldl_cons, ih, ProposalVotesOp_apply_orderBys, List.flatMap_cons, List.append_assoc]
  have := h ops (NewProposalVotesQ db)
  simpa [ProposalVotesQ.chain, NewProposalVotesQ, selectFrom] using this

/-- The order of what Select returns on a value reached from `NewProposalVotesQ`. -/
theorem ProposalVotesQ_select_order (db : DB) (ops : List ProposalVotesOp) (e : Engine) (s : Store) :
    ((ProposalVotesQ.chain db ops).selector.rowsOn e s).Chain'
        (fun x y => compareByTerms (ops.flatMap ProposalVotesOp.terms) x y ≠ .gt) ∧
    ∀ (ctx : Context) (g : GoSlice ProposalVoteModel), (ProposalVotesQ.chain db ops).SelectOn e s ctx = some (g, none) →
      g.elems = ((ProposalVotesQ.chain db ops).selector.rowsOn e s).map
        (fun r => (scanInto ProposalVotesQ.selectDests ProposalVoteModel.zero
          (project (ProposalVotesQ.chain db ops).selector.columns r)).1) := by
  obtain ⟨hc, hn, _⟩ := ProposalVotesQ_chain_reads db ops
  constructor
  · have := rowsOn_chain (ProposalVotesQ.chain db ops).selector e s
    rw [ProposalVotesQ_chain_orderBys] at this
    exact this
  · intro ctx g h
    exact selectOn_rows _ hc hn _ ctx _ _ _ e s g h

/-- C22, amended: on PollOptionsQ, PollVotesQ, ProposalsQ and ProposalVotesQ two
chained calls append their ORDER BY terms to the selector in call order, with
no term dropped or merged, so that the ORDER BY clause of a reached value
lists the terms of its calls in call order. The first term takes precedence:
of two neighbours in what Select returns the second never comes before the
first under the terms, which means under the first call's term, and under the
later terms only where the first does not tell the rows apart. -/
theorem C22_order_terms_are_kept_and_the_first_decides :
    (∀ (t : String) (ts : List String) (a b : Row), compareByTerms (t :: ts) a b ≠ .gt →
      compareByTerm t a b ≠ .gt ∧
      (compareByTerm t a b = .eq → compareByTerms ts a b ≠ .gt)) ∧
    (∀ (q : PollOptionsQ) (F G : PollOptionsOp),
      (G.apply (F.apply q)).selector.orderBys = q.selector.orderBys ++ F.terms ++ G.terms) ∧
    (∀ (db : DB) (ops : List PollOptionsOp) (e : Engine) (s : Store),
      (PollOptionsQ.chain db ops).selector.orderBys = ops.flatMap PollOptionsOp.terms ∧
      ((PollOptionsQ.chain db ops).selector.rowsOn e s).Chain'
        (fun x y => compareByTerms (ops.flatMap PollOptionsOp.terms) x y ≠ .gt) ∧
      ∀ (ctx : Context) (g : GoSlice PollOption), (PollOptionsQ.chain db ops).SelectOn e s ctx = some (g, none) →
        g.elems = ((PollOptionsQ.chain db ops).selector.rowsOn e s).map
          (fun r => (scanInto PollOptionsQ.selectDests PollOption.zero
            (project (PollOptionsQ.chain db ops).selector.columns r)).1)) ∧
    (∀ (q : PollVotesQ) (F G : PollVotesOp),
      (G.apply (F.apply q)).selector.orderBys = q.selector.orderBys ++ F.terms ++ G.terms) ∧
    (∀ (db : DB) (ops : List PollVotesOp) (e : Engine) (s : Store),
      (PollVotesQ.chain db ops).selector.orderBys = ops.flatMap PollVotesOp.terms ∧
      ((PollVotesQ.chain db ops).selector.rowsOn e s).Chain'
        (fun x y => compareByTerms (ops.flatMap PollVotesOp.terms) x y ≠ .gt) ∧
      ∀ (ctx : Context) (g : GoSlice PollVoteModel), (PollVotesQ.chain db ops).SelectOn e s ctx = some (g, none) →
        g.elems = ((PollVotesQ.chain db ops).selector.rowsOn e s).map
          (fun r => (scanInto PollVotesQ.selectDests PollVoteModel.zero
            (project (PollVotesQ.chain db ops).selector.columns r)).1)) ∧
    (∀ (q : ProposalsQ) (F G : ProposalsOp),
      (G.apply (F.apply q)).selector.orderBys = q.selector.orderBys ++ F.terms ++ G.terms) ∧
    (∀ (db : DB) (ops : List ProposalsOp) (e : Engine) (s : Store),
      (ProposalsQ.chain db ops).selector.orderBys = ops.flatMap ProposalsOp.terms ∧
      ((ProposalsQ.chain db ops).selector.rowsOn e s).Chain'
        (fun x y => compareByTerms (ops.flatMap ProposalsOp.terms) x y ≠ .gt) ∧
      ∀ (ctx : Context) (g : GoSlice Proposal), (ProposalsQ.chain db ops).SelectOn e s ctx = some (g, none) →
        g.elems = ((ProposalsQ.chain db ops).selector.rowsOn e s).map
          (fun r => (scanInto ProposalsQ.selectDests Proposal.zero
            (project (ProposalsQ.chain db ops).selector.columns r)).1)) ∧
    (∀ (q : ProposalVotesQ) (F G : ProposalVotesOp),
      (G.apply (F.apply q)).selector.orderBys = q.selector.orderBys ++ F.terms ++ G.terms) ∧
    (∀ (db : DB) (ops : List ProposalVotesOp) (e : Engine) (s : Store),
      (ProposalVotesQ.chain db ops).selector.orderBys = ops.flatMap ProposalVotesOp.terms ∧
      ((ProposalVotesQ.chain db ops).selector.rowsOn e s).Chain'
        (fun x y => compareByTerms (ops.flatMap ProposalVotesOp.terms) x y ≠ .gt) ∧
      ∀ (ctx : Context) (g : GoSlice ProposalVoteModel), (ProposalVotesQ.chain db ops).SelectOn e s ctx = some (g, none) →
        g.elems = ((ProposalVotesQ.chain db ops).selector.rowsOn e s).map
          (fun r => (scanInto ProposalVotesQ.selectDests ProposalVoteModel.zero
            (project (ProposalVotesQ.chain db ops).selector.columns r)).1)) :=
  ⟨compareByTerms_first,
   fun q F G => by rw [PollOptionsOp_apply_orderBys, PollOptionsOp_apply_orderBys],
   fun db ops e s => ⟨PollOptionsQ_chain_orderBys db ops, PollOptionsQ_select_order db ops e s⟩,
   fun q F G => by rw [PollVotesOp_apply_orderBys, PollVotesOp_apply_orderBys],
   fun db ops e s => ⟨PollVotesQ_chain_orderBys db ops, PollVotesQ_select_order db ops e s⟩,
   fun q F G => by rw [ProposalsOp_apply_orderBys, ProposalsOp_apply_orderBys],
   fun db ops e s => ⟨ProposalsQ_chain_orderBys db ops, ProposalsQ_select_order db ops e s⟩,
   fun q F G => by rw [ProposalVotesOp_apply_orderBys, ProposalVotesOp_apply_orderBys],
   fun db ops e s => ⟨ProposalVotesQ_chain_orderBys db ops, ProposalVotesQ_select_order db ops e s⟩⟩

/-- C22 on three poll votes cast at times 99, 98 and 97: after
`OrderByCreatedAsc` then `OrderByCreatedDesc` both terms are in the clause in
call order and Select returns the votes oldest first. -/
theorem C22_order_witness :
    (PollVotesQ.chain ⟨0⟩ [.OrderByCreatedAsc, .OrderByCreatedDesc]).selector.orderBys
      = ["created_at ASC", "created_at DESC"] ∧
    (PollVotesQ.chain ⟨0⟩ [.OrderByCreatedAsc, .OrderByCreatedDesc]).selector.rowsOn
        Engine.strict sampleStore
      = [sampleVote 3, sampleVote 2, sampleVote 1] :=
  ⟨(C22_order_terms_are_kept_and_the_first_decides.2.2.2.2.1 ⟨0⟩
      [.OrderByCreatedAsc, .OrderByCreatedDesc] Engine.strict sampleStore).1.trans (by decide),
   by decide⟩

/-- C22 as stated fails: the last call's term does not take precedence. On three
poll votes cast at times 99, 98 and 97, `OrderByCreatedAsc` then
`OrderByCreatedDesc` issues `ORDER BY created_at ASC, created_at DESC` and
Select returns the votes oldest first, as after `OrderByCreatedAsc` alone, and
not newest first, as after `OrderByCreatedDesc` alone. -/
theorem C22_counterexample_the_last_term_does_not_decide :
    (PollVotesQ.chain ⟨0⟩ [.OrderByCreatedAsc, .OrderByCreatedDesc]).Select Context.background
      = .roundTrip ⟨.pool ⟨0⟩, .QueryContext, Context.background,
          "SELECT id, poll_id, user_id, option_id, created_at FROM poll_votes ORDER BY created_at ASC, created_at DESC",
          []⟩ ∧
    (PollVotesQ.chain ⟨0⟩ [.OrderByCreatedAsc, .OrderByCreatedDesc]).SelectOn Engine.strict
        sampleStore Context.background
      = some (some [⟨⟨3⟩, ⟨1⟩, ⟨13⟩, ⟨7⟩, ⟨97⟩⟩, ⟨⟨2⟩, ⟨1⟩, ⟨12⟩, ⟨7⟩, ⟨98⟩⟩,
          ⟨⟨1⟩, ⟨1⟩, ⟨11⟩, ⟨7⟩, ⟨99⟩⟩], none) ∧
    (PollVotesQ.chain ⟨0⟩ [.OrderByCreatedAsc]).SelectOn Engine.strict sampleStore
        Context.background
      = some (some [⟨⟨3⟩, ⟨1⟩, ⟨13⟩, ⟨7⟩, ⟨97⟩⟩, ⟨⟨2⟩, ⟨1⟩, ⟨12⟩, ⟨7⟩, ⟨98⟩⟩,
          ⟨⟨1⟩, ⟨1⟩, ⟨11⟩, ⟨7⟩, ⟨99⟩⟩], none) ∧
    (PollVotesQ.chain ⟨0⟩ [.OrderByCreatedDesc]).SelectOn Engine.strict sampleStore
        Context.background
      = some (some [⟨⟨1⟩, ⟨1⟩, ⟨11⟩, ⟨7⟩, ⟨99⟩⟩, ⟨⟨2⟩, ⟨1⟩, ⟨12⟩, ⟨7⟩, ⟨98⟩⟩,
          ⟨⟨3⟩, ⟨1⟩, ⟨13⟩, ⟨7⟩, ⟨97⟩⟩], none) := by
  refine ⟨by decide, by decide, by decide, by decide⟩

/-! ## The signatures counter -/

/-- The cell `GREATEST(signatures + d, 0)` stores on a row. -/
theorem arg_cell_greatest (old : Row) (d : Int) :
    Arg.cell old (.expr ⟨"GREATEST(signatures + ?, 0)", [.int d]⟩)
      = match old.get "signatures" with
        | .int n => .int (max (n + d) 0)
        | .null => .int 0
        | _ => .null := rfl

/-- The sum of `GREATEST(signatures + d, 0)` is out of range on a row that
holds an integer n with n + d out of range. -/
theorem arg_outOfRange_greatest (bits : Nat) (old : Row) (d : Int) :
    Arg.outOfRange bits old (.expr ⟨"GREATEST(signatures + ?, 0)", [.int d]⟩)
      = match old.get "signatures" with
        | .int n => !fitsInt bits (n + d)
        | _ => false := rfl

/-- An assignment leaves the other columns as they were. -/
theorem Row.get_set_other (r : Row) (c k : String) (v : Cell) (h : k ≠ c) :
    (r.set c v).get k = r.get k := by
  rcases Row.get_set r c k v with h1 | ⟨h1, _⟩
  · exact h1
  · exact absurd h1 h

/-- An assignment to a column that holds a value gives the column the new
value. -/
theorem Row.get_set_self (r : Row) (c : String) (v : Cell) (h : r.get c ≠ .null) :
    (r.set c v).get c = v := by
  induction r with
  | nil => exact absurd rfl h
  | cons e rest ih =>
      rw [Row.set_cons, Row.get_cons]
      rw [Row.get_cons] at h
      by_cases hec : e.1 = c
      · simp [hec]
      · rw [if_neg hec] at h ⊢
        rw [if_neg hec]
        exact ih h

/-- Every operation of `PetitionsQ` appends its write predicates, if any, to
the WHERE parts of the updater. -/
theorem PetitionsOp_apply_updater (op : PetitionsOp) (q : PetitionsQ) :
    (op.apply q).updater.whereParts = q.updater.whereParts ++ op.writePreds := by
  cases op <;>
    simp [PetitionsOp.apply, PetitionsOp.writePreds, PetitionsQ.FilterID,
      PetitionsQ.FilterCityID, PetitionsQ.FilterInitiatorID, PetitionsQ.FilterStatus,
      PetitionsQ.TitleLike, PetitionsQ.BBox, PetitionsQ.WithinRadius, PetitionsQ.Page,
      NewPetitionsQ, updateTable, UpdateBuilder.Where, SelectBuilder.Where,
      SelectBuilder.Limit, SelectBuilder.Offset, Pred.isBlank, titleLike_not_empty]

/-- The WHERE parts of the updater of a value reached from `NewPetitionsQ`:
the write predicates of the calls, in call order. -/
theorem PetitionsQ_chain_updater (db : DB) (ops : List PetitionsOp) :
    (PetitionsQ.chain db ops).updater.whereParts = ops.flatMap PetitionsOp.writePreds := by
  have h : ∀ (l : List PetitionsOp) (q : PetitionsQ),
      (l.foldl (fun q op => op.apply q) q).updater.whereParts
        = q.updater.whereParts ++ l.flatMap PetitionsOp.writePreds := by
    intro l
    induction l with
    | nil => intro q; simp
    | cons op rest ih =>
        intro q
        rw [List.foldl_cons, ih, PetitionsOp_apply_updater, List.flatMap_cons,
          List.append_assoc]
  have := h ops (NewPetitionsQ db)
  simpa [PetitionsQ.chain, NewPetitionsQ, updateTable] using this

/-- An UPDATE with a table and a SET clause builds, so the operation makes its
round trip. -/
theorem issue_update (b : UpdateBuilder) (ht : b.table.isEmpty = false)
    (hs : b.setClauses.isEmpty = false) (db : DB) (ctx : Context) (wrap : String) :
    ∃ sql args, issue db ctx .ExecContext wrap b.ToSql
      = .roundTrip ⟨resolveTarget db ctx, .ExecContext, ctx, sql, args⟩ := by
  unfold issue UpdateBuilder.ToSql UpdateBuilder.toSqlRaw
  simp only [ht, hs]
  exact ⟨_, _, rfl⟩

/-- An UPDATE that builds, on a live context, is refused as a whole when a
value is out of range and is applied to the store otherwise. -/
theorem updateOn_live (b : UpdateBuilder) (ht : b.table.isEmpty = false)
    (hs : b.setClauses.isEmpty = false) (db : DB) (ctx : Context) (wrap : String)
    (e : Engine) (s : Store) (hlive : ctx.Live) :
    updateOn (issue db ctx .ExecContext wrap b.ToSql) e s b
      = if b.outOfRange e s then some (s, some (.store "22003"))
        else some (b.applyTo e s, none) := by
  obtain ⟨sql, args, hi⟩ := issue_update b ht hs db ctx wrap
  have hc := carries_of_issue _ _ _ _ _ _ hi
  rw [hi]
  simp only [updateOn, hc, if_true]
  rw [call_answer_live _ _ _ _ _ _ hlive]

/-- The statement IncrementSignatures builds on a value reached from
`NewPetitionsQ`. -/
theorem PetitionsQ_increment_builder (db : DB) (ops : List PetitionsOp) (delta : Int) :
    (PetitionsQ.chain db ops).updater.Set "signatures"
        (.expr ⟨"GREATEST(signatures + ?, 0)", [.int delta]⟩)
      = ⟨petitionsTable, [⟨"signatures", .expr ⟨"GREATEST(signatures + ?, 0)", [.int delta]⟩⟩],
          (PetitionsQ.chain db ops).updater.whereParts⟩ := by
  obtain ⟨⟨_, _, _, _, h5, h6, _, _⟩, _⟩ := PetitionsQ_chain_shaped db ops
  have h5 : (PetitionsQ.chain db ops).updater.table = petitionsTable := h5
  have h6 : (PetitionsQ.chain db ops).updater.setClauses = [] := h6
  simp [UpdateBuilder.Set, h5, h6]

/-- Whether the store refuses the UPDATE of IncrementSignatures: the bound
delta does not fit, or the sum does not fit on a row that satisfies the WHERE
parts. -/
theorem increment_outOfRange (e : Engine) (s : Store) (ws : List Pred) (delta : Int) :
    UpdateBuilder.outOfRange e s
        ⟨petitionsTable,
          [⟨"signatures", .expr ⟨"GREATEST(signatures + ?, 0)", [.int delta]⟩⟩], ws⟩
      = (!fitsInt e.intBits delta ||
          (s petitionsTable).any (fun r =>
            ws.all (fun p => p.holds e r) &&
              Arg.outOfRange e.intBits r
                (.expr ⟨"GREATEST(signatures + ?, 0)", [.int delta]⟩))) := by
  unfold UpdateBuilder.outOfRange
  simp only [List.any_cons, List.any_nil, Bool.or_false]
  rfl

/-- The statement IncrementSignatures issues on a value reached from
`NewPetitionsQ` is the UPDATE that assigns `GREATEST(signatures + ?, 0)` to
`signatures` under the predicates of the equality filters called. -/
theorem PetitionsQ_increment_issue (db : DB) (ops : List PetitionsOp) (ctx : Context)
    (delta : Int) :
    (PetitionsQ.chain db ops).IncrementSignatures ctx delta
      = issue db ctx .ExecContext "building increment signatures query: "
          (UpdateBuilder.ToSql ⟨petitionsTable,
            [⟨"signatures", .expr ⟨"GREATEST(signatures + ?, 0)", [.int delta]⟩⟩],
            ops.flatMap PetitionsOp.writePreds⟩) := by
  have hdb : (PetitionsQ.chain db ops).db = db := (PetitionsQ_chain_shaped db ops).2
  unfold PetitionsQ.IncrementSignatures
  rw [PetitionsQ_increment_builder, PetitionsQ_chain_updater, hdb]

/-- C28: on every repository value R reached from `NewPetitionsQ`,
IncrementSignatures(delta) issues one UPDATE of `petitions` that assigns
`GREATEST(signatures + ?, 0)`, bound to delta, to `signatures` under the
predicates of the equality filters called on R, in call order (TitleLike, BBox,
WithinRadius and Page add none). On every store and every live context: when
delta is out of the range of the integer type, or the sum n + delta is out of
range on a row that satisfies those predicates and holds the integer n, the
call returns the error 22003 of the store and no row changes; otherwise it
succeeds and rewrites the rows of `petitions` one by one, the other tables
staying as they are: a row that does not satisfy the predicates stays as it
is, a row that satisfies them and holds n then holds max(n + delta, 0), which
is not negative, and no other column of any row changes. -/
theorem C28_increment_signatures_clamps_at_zero :
    (∀ (db : DB) (ops : List PetitionsOp) (ctx : Context) (delta : Int),
      ∃ sql args,
        UpdateBuilder.ToSql ⟨petitionsTable,
            [⟨"signatures", .expr ⟨"GREATEST(signatures + ?, 0)", [.int delta]⟩⟩],
            ops.flatMap PetitionsOp.writePreds⟩ = .ok (sql, args) ∧
        (PetitionsQ.chain db ops).IncrementSignatures ctx delta
          = .roundTrip ⟨resolveTarget db ctx, .ExecContext, ctx, sql, args⟩) ∧
    (∀ (db : DB) (ops : List PetitionsOp) (e : Engine) (s : Store) (ctx : Context)
        (delta : Int), ctx.Live →
      ((fitsInt e.intBits delta = false ∨
          ∃ r ∈ s petitionsTable,
            (ops.flatMap PetitionsOp.writePreds).all (fun p => p.holds e r) = true ∧
            ∃ n : Int, r.get "signatures" = .int n ∧ fitsInt e.intBits (n + delta) = false) →
        (PetitionsQ.chain db ops).IncrementSignaturesOn e s ctx delta
          = some (s, some (.store "22003"))) ∧
      ((fitsInt e.intBits delta = true ∧
          ∀ r ∈ s petitionsTable,
            (ops.flatMap PetitionsOp.writePreds).all (fun p => p.holds e r) = true →
            ∀ n : Int, r.get "signatures" = .int n → fitsInt e.intBits (n + delta) = true) →
        ∃ f : Row → Row,
          (PetitionsQ.chain db ops).IncrementSignaturesOn e s ctx delta
            = some (s.setTable petitionsTable ((s petitionsTable).map f), none) ∧
          ∀ r : Row,
            (∀ k, k ≠ "signatures" → (f r).get k = r.get k) ∧
            ((ops.flatMap PetitionsOp.writePreds).all (fun p => p.holds e r) = false →
              f r = r) ∧
            (∀ n : Int, r.get "signatures" = .int n →
              (ops.flatMap PetitionsOp.writePreds).all (fun p => p.holds e r) = true →
              (f r).get "signatures" = .int (max (n + delta) 0) ∧ 0 ≤ max (n + delta) 0))) ∧
    (∀ (db : DB) (ops : List PetitionsOp),
      (PetitionsQ.chain db ops).updater.whereParts = ops.flatMap PetitionsOp.writePreds) := by
  refine ⟨?_, ?_, PetitionsQ_chain_updater⟩
  · intro db ops ctx delta
    obtain ⟨sql, args, hi⟩ := issue_update
      ⟨petitionsTable, [⟨"signatures", .expr ⟨"GREATEST(signatures + ?, 0)", [.int delta]⟩⟩],
        ops.flatMap PetitionsOp.writePreds⟩ (by rfl) (by rfl) db ctx
      "building increment signatures query: "
    refine ⟨sql, args, ?_, ?_⟩
    · cases hb : UpdateBuilder.ToSql ⟨petitionsTable,
          [⟨"signatures", .expr ⟨"GREATEST(signatures + ?, 0)", [.int delta]⟩⟩],
          ops.flatMap PetitionsOp.writePreds⟩ with
      | error err => rw [hb] at hi; simp [issue] at hi
      | ok r =>
          rw [hb] at hi
          simp only [issue, Outcome.roundTrip.injEq, Call.mk.injEq] at hi
          obtain ⟨_, _, _, h1, h2⟩ := hi
          rw [← h1, ← h2]
    · rw [PetitionsQ_increment_issue, hi]
  · intro db ops e s ctx delta hlive
    have hon : (PetitionsQ.chain db ops).IncrementSignaturesOn e s ctx delta
        = if UpdateBuilder.outOfRange e s ⟨petitionsTable,
            [⟨"signatures", .expr ⟨"GREATEST(signatures + ?, 0)", [.int delta]⟩⟩],
            ops.flatMap PetitionsOp.writePreds⟩ then some (s, some (.store "22003"))
          else some (UpdateBuilder.applyTo e s ⟨petitionsTable,
            [⟨"signatures", .expr ⟨"GREATEST(signatures + ?, 0)", [.int delta]⟩⟩],
            ops.flatMap PetitionsOp.writePreds⟩, none) := by
      unfold PetitionsQ.IncrementSignaturesOn
      rw [PetitionsQ_increment_issue, PetitionsQ_increment_builder, PetitionsQ_chain_updater]
      exact updateOn_live _ (by rfl) (by rfl) _ _ _ _ _ hlive
    constructor
    · intro h
      rw [hon, increment_outOfRange]
      have hout : (!fitsInt e.intBits delta ||
          (s petitionsTable).any (fun r =>
            (ops.flatMap PetitionsOp.writePreds).all (fun p => p.holds e r) &&
              Arg.outOfRange e.intBits r
                (.expr ⟨"GREATEST(signatures + ?, 0)", [.int delta]⟩))) = true := by
        rcases h with h | ⟨r, hr, hw, n, hn, hf⟩
        · rw [h]; rfl
        · refine Bool.or_eq_true_iff.2 (Or.inr (List.any_eq_true.2 ⟨r, hr, ?_⟩))
          rw [hw, arg_outOfRange_greatest, hn]
          simp [hf]
      rw [hout]
      rfl
    · rintro ⟨hd, hrows⟩
      have hout : (!fitsInt e.intBits delta ||
          (s petitionsTable).any (fun r =>
            (ops.flatMap PetitionsOp.writePreds).all (fun p => p.holds e r) &&
              Arg.outOfRange e.intBits r
                (.expr ⟨"GREATEST(signatures + ?, 0)", [.int delta]⟩))) = false := by
        rw [hd]
        simp only [Bool.not_true, Bool.false_or]
        rw [List.any_eq_false]
        intro r hr
        cases hw : (ops.flatMap PetitionsOp.writePreds).all (fun p => p.holds e r) with
        | false => simp
        | true =>
            rw [arg_outOfRange_greatest]
            cases hc : r.get "signatures" with
            | int n => simp [hrows r hr hw n hc]
            | _ => simp
      refine ⟨fun r =>
        if (ops.flatMap PetitionsOp.writePreds).all (fun p => p.holds e r) then
          r.set "signatures"
            (Arg.cell r (.expr ⟨"GREATEST(signatures + ?, 0)", [.int delta]⟩))
        else r, ?_, ?_⟩
      · rw [hon, increment_outOfRange, hout]
        rfl
      · intro r
        refine ⟨?_, ?_, ?_⟩
        · intro k hk
          show (if _ then _ else _ : Row).get k = _
          split_ifs
          · exact Row.get_set_other r "signatures" k _ hk
          · rfl
        · intro h
          show (if _ then _ else _ : Row) = _
          rw [if_neg (by rw [h]; simp)]
        · intro n hn hw
          show (if _ then _ else _ : Row).get "signatures" = _ ∧ _
          rw [if_pos hw]
          rw [Row.get_set_self r "signatures" _ (by rw [hn]; simp), arg_cell_greatest, hn]
          exact ⟨rfl, le_max_right _ _⟩

set_option maxRecDepth 100000 in
/-- C28 on a store with two petitions of 3 signatures each, the integers being
of 64 bits: `FilterID(1)` and IncrementSignatures(-5) issue the UPDATE with the
placeholders `$1` and `$2`, after it the petition 1 holds 0 signatures and the
petition 2 still 3. -/
theorem C28_increment_witness :
    Context.background.Live ∧
    (PetitionsQ.chain ⟨0⟩ [.FilterID ⟨1⟩]).IncrementSignatures Context.background (-5)
      = .roundTrip ⟨resolveTarget ⟨0⟩ Context.background, .ExecContext, Context.background,
          "UPDATE petitions SET signatures = GREATEST(signatures + $1, 0) WHERE id = $2",
          [.val (.int (-5)), .val (.str "00000000-0000-0000-0000-000000000001")]⟩ ∧
    ((PetitionsQ.chain ⟨0⟩ [.FilterID ⟨1⟩]).IncrementSignaturesOn Engine.strict
        (Store.empty.setTable "petitions"
          [[("id", .uuid ⟨1⟩), ("signatures", .int 3)],
           [("id", .uuid ⟨2⟩), ("signatures", .int 3)]])
        Context.background (-5)).map (fun r => (r.1 "petitions", r.2))
      = some ([[("id", .uuid ⟨1⟩), ("signatures", .int 0)],
               [("id", .uuid ⟨2⟩), ("signatures", .int 3)]], none) ∧
    ∃ f : Row → Row,
      (PetitionsQ.chain ⟨0⟩ [.FilterID ⟨1⟩]).IncrementSignaturesOn Engine.strict
        (Store.empty.setTable "petitions"
          [[("id", .uuid ⟨1⟩), ("signatures", .int 3)],
           [("id", .uuid ⟨2⟩), ("signatures", .int 3)]])
        Context.background (-5)
      = some ((Store.empty.setTable "petitions"
          [[("id", .uuid ⟨1⟩), ("signatures", .int 3)],
           [("id", .uuid ⟨2⟩), ("signatures", .int 3)]]).setTable petitionsTable
            (((Store.empty.setTable "petitions"
              [[("id", .uuid ⟨1⟩), ("signatures", .int 3)],
               [("id", .uuid ⟨2⟩), ("signatures", .int 3)]]) petitionsTable).map f), none) :=
  ⟨by decide, by decide, by decide,
   (((C28_increment_signatures_clamps_at_zero.2.1 ⟨0⟩ [.FilterID ⟨1⟩] Engine.strict
      (Store.empty.setTable "petitions"
          [[("id", .uuid ⟨1⟩), ("signatures", .int 3)],
           [("id", .uuid ⟨2⟩), ("signatures", .int 3)]])
      Context.background (-5) (by decide)).2
      ⟨by decide, by
        intro r hr _ n hn
        have hr2 : r = [("id", .uuid ⟨1⟩), ("signatures", .int 3)] ∨
            r = [("id", .uuid ⟨2⟩), ("signatures", .int 3)] := by
          simpa [Store.setTable, petitionsTable] using hr
        have h3 : n = 3 := by
          rcases hr2 with h | h <;> rw [h] at hn <;>
            simpa [Row.get, List.find?] using hn.symm
        rw [h3]
        decide⟩)).imp (fun _ h => h.1)⟩

set_option maxRecDepth 100000 in
/-- C28 fails at the upper end of the integer type: on a petition that holds
2^63 - 1 signatures in a store of 64-bit integers, and on one that holds
2^31 - 1 in a store of 32-bit integers, IncrementSignatures(1) after
`FilterID(1)` returns the error 22003 of the store and the petition keeps its
signatures, which are not max(n + 1, 0). -/
theorem C28_counterexample_increment_overflows :
    Context.background.Live ∧
    ((PetitionsQ.chain ⟨0⟩ [.FilterID ⟨1⟩]).IncrementSignaturesOn Engine.strict
        (Store.empty.setTable "petitions"
          [[("id", .uuid ⟨1⟩), ("signatures", .int 9223372036854775807)]])
        Context.background 1).map (fun r => (r.1 "petitions", r.2))
      = some ([[("id", .uuid ⟨1⟩), ("signatures", .int 9223372036854775807)]],
          some (.store "22003")) ∧
    ((PetitionsQ.chain ⟨0⟩ [.FilterID ⟨1⟩]).IncrementSignaturesOn
        ⟨fun _ _ => false, fun _ _ _ _ _ _ => false, fun _ _ _ _ _ => false, 32⟩
        (Store.empty.setTable "petitions"
          [[("id", .uuid ⟨1⟩), ("signatures", .int 2147483647)]])
        Context.background 1).map (fun r => (r.1 "petitions", r.2))
      = some ([[("id", .uuid ⟨1⟩), ("signatures", .int 2147483647)]],
          some (.store "22003")) ∧
    (Cell.int 9223372036854775807 ≠ .int (max (9223372036854775807 + 1) 0)) ∧
    (Cell.int 2147483647 ≠ .int (max (2147483647 + 1) 0)) := by
  refine ⟨by decide, by decide, by decide, by decide, by decide⟩

/-! ## Scan targets and `db` tags -/

/-- The destination `&m.ID` of `PetitionModel` writes the field tagged `id`. -/
theorem PetitionModel_writes_ID :
    WritesTag PetitionModel.get (fun c p => (scanUUID p.ID c).map (fun v => { p with ID := v })) "id" := by
  intro c p p1 h
  cases c <;> simp [scanUUID, Except.map] at h <;> subst h <;>
    exact ⟨fun k hk => by simp [PetitionModel.get, hk, Cell.ofUUIDPtr, Cell.ofFloatPtr],
      fun _ => by simp_all [PetitionModel.get, Cell.ofUUIDPtr, Cell.ofFloatPtr]⟩

/-- The destination `&m.CityID` of `PetitionModel` writes the field tagged `city_id`. -/
theorem PetitionModel_writes_CityID :
    WritesTag PetitionModel.get (fun c p => (scanUUID p.CityID c).map (fun v => { p with CityID := v })) "city_id" := by
  intro c p p1 h
  cases c <;> simp [scanUUID, Except.map] at h <;> subst h <;>
    exact ⟨fun k hk => by simp [PetitionModel.get, hk, Cell.ofUUIDPtr, Cell.ofFloatPtr],
      fun _ => by simp_all [PetitionModel.get, Cell.ofUUIDPtr, Cell.ofFloatPtr]⟩

/-- The destination `&m.Title` of `PetitionModel` writes the field tagged `title`. -/
theorem PetitionModel_writes_Title :
    WritesTag PetitionModel.get (fun c p => (scanString c).map (fun v => { p with Title := v })) "title" := by
  intro c p p1 h
  cases c <;> simp [scanString, Except.map] at h
  subst h
  exact ⟨fun k hk => by simp [PetitionModel.get, hk, Cell.ofUUIDPtr, Cell.ofFloatPtr],
    fun _ => by simp_all [PetitionModel.get, Cell.ofUUIDPtr, Cell.ofFloatPtr]⟩

/-- The destination `&m.Description` of `PetitionModel` writes the field tagged `description`. -/
theorem PetitionModel_writes_Description :
    WritesTag PetitionModel.get (fun c p => (scanString c).map (fun v => { p with Description := v })) "description" := by
  intro c p p1 h
  cases c <;> simp [scanString, Except.map] at h
  subst h
  exact ⟨fun k hk => by simp [PetitionModel.get, hk, Cell.ofUUIDPtr, Cell.ofFloatPtr],
    fun _ => by simp_all [PetitionModel.get, Cell.ofUUIDPtr, Cell.ofFloatPtr]⟩

/-- The destination `&m.InitiatorID` of `PetitionModel` writes the field tagged `initiator_id`. -/
theorem PetitionModel_writes_InitiatorID :
    WritesTag PetitionModel.get (fun c p => (scanUUID p.InitiatorID c).map (fun v => { p with InitiatorID := v })) "initiator_id" := by
  intro c p p1 h
  cases c <;> simp [scanUUID, Except.map] at h <;> subst h <;>
    exact ⟨fun k hk => by simp [PetitionModel.get, hk, Cell.ofUUIDPtr, Cell.ofFloatPtr],
      fun _ => by simp_all [PetitionModel.get, Cell.ofUUIDPtr, Cell.ofFloatPtr]⟩

/-- The destination `&m.AddressToID` of `PetitionModel` writes the field tagged `address_to_id`. -/
theorem PetitionModel_writes_AddressToID :
    WritesTag PetitionModel.get (fun c p => (scanUUIDPtr c).map (fun v => { p with AddressToID := v })) "address_to_id" := by
  intro c p p1 h
  cases c <;> simp [scanUUIDPtr, Except.map] at h <;> subst h <;>
    exact ⟨fun k hk => by simp [PetitionModel.get, hk, Cell.ofUUIDPtr, Cell.ofFloatPtr],
      fun _ => by simp_all [PetitionModel.get, Cell.ofUUIDPtr, Cell.ofFloatPtr]⟩

/-- The destination `&m.Status` of `PetitionModel` writes the field tagged `status`. -/
theorem PetitionModel_writes_Status :
    WritesTag PetitionModel.get (fun c p => (scanString c).map (fun v => { p with Status := v })) "status" := by
  intro c p p1 h
  cases c <;> simp [scanString, Except.map] at h
  subst h
  exact ⟨fun k hk => by simp [PetitionModel.get, hk, Cell.ofUUIDPtr, Cell.ofFloatPtr],
    fun _ => by simp_all [PetitionModel.get, Cell.ofUUIDPtr, Cell.ofFloatPtr]⟩

/-- The destination `&m.Signatures` of `PetitionModel` writes the field tagged `signatures`. -/
theorem PetitionModel_writes_Signatures :
    WritesTag PetitionModel.get (fun c p => (scanInt c).map (fun v => { p with Signatures := v })) "signatures" := by
  intro c p p1 h
  cases c <;> simp [scanInt, Except.map] at h
  subst h
  exact ⟨fun k hk => by simp [PetitionModel.get, hk, Cell.ofUUIDPtr, Cell.ofFloatPtr],
    fun _ => by simp_all [PetitionModel.get, Cell.ofUUIDPtr, Cell.ofFloatPtr]⟩

/-- The destination `&m.Goal` of `PetitionModel` writes the field tagged `goal`. -/
theorem PetitionModel_writes_Goal :
    WritesTag PetitionModel.get (fun c p => (scanInt c).map (fun v => { p with Goal := v })) "goal" := by
  intro c p p1 h
  cases c <;> simp [scanInt, Except.map] at h
  subst h
  exact ⟨fun k hk => by simp [PetitionModel.get, hk, Cell.ofUUIDPtr, Cell.ofFloatPtr],
    fun _ => by simp_all [PetitionModel.get, Cell.ofUUIDPtr, Cell.ofFloatPtr]⟩

/-- The destination `&m.EndDate` of `PetitionModel` writes the field tagged `end_date`. -/
theorem PetitionModel_writes_EndDate :
    WritesTag PetitionModel.get (fun c p => (scanTime c).map (fun v => { p with EndDate := v })) "end_date" := by
  intro c p p1 h
  cases c <;> simp [scanTime, Except.map] at h
  subst h
  exact ⟨fun k hk => by simp [PetitionModel.get, hk, Cell.ofUUIDPtr, Cell.ofFloatPtr],
    fun _ => by simp_all [PetitionModel.get, Cell.ofUUIDPtr, Cell.ofFloatPtr]⟩

/-- The destination `&m.CreatedAt` of `PetitionModel` writes the field tagged `created_at`. -/
theorem PetitionModel_writes_CreatedAt :
    WritesTag PetitionModel.get (fun c p => (scanTime c).map (fun v => { p with CreatedAt := v })) "created_at" := by
  intro c p p1 h
  cases c <;> simp [scanTime, Except.map] at h
  subst h
  exact ⟨fun k hk => by simp [PetitionModel.get, hk, Cell.ofUUIDPtr, Cell.ofFloatPtr],
    fun _ => by simp_all [PetitionModel.get, Cell.ofUUIDPtr, Cell.ofFloatPtr]⟩

/-- The destination `&m.UpdatedAt` of `PetitionModel` writes the field tagged `updated_at`. -/
theorem PetitionModel_writes_UpdatedAt :
    WritesTag PetitionModel.get (fun c p => (scanTime c).map (fun v => { p with UpdatedAt := v })) "updated_at" := by
  intro c p p1 h
  cases c <;> simp [scanTime, Except.map] at h
  subst h
  exact ⟨fun k hk => by simp [PetitionModel.get, hk, Cell.ofUUIDPtr, Cell.ofFloatPtr],
    fun _ => by simp_all [PetitionModel.get, Cell.ofUUIDPtr, Cell.ofFloatPtr]⟩

/-- The destination `&m.Lat` of `PetitionModel` writes the field tagged `lat`. -/
theorem PetitionModel_writes_Lat :
    WritesTag PetitionModel.get (fun c p => (scanFloatPtr c).map (fun v => { p with Lat := v })) "lat" := by
  intro c p p1 h
  cases c <;> simp [scanFloatPtr, Except.map] at h <;> subst h <;>
    exact ⟨fun k hk => by simp [PetitionModel.get, hk, Cell.ofUUIDPtr, Cell.ofFloatPtr],
      fun _ => by simp_all [PetitionModel.get, Cell.ofUUIDPtr, Cell.ofFloatPtr]⟩

/-- The destination `&m.Lng` of `PetitionModel` writes the field tagged `lng`. -/
theorem PetitionModel_writes_Lng :
    WritesTag PetitionModel.get (fun c p => (scanFloatPtr c).map (fun v => { p with Lng := v })) "lng" := by
  intro c p p1 h
  cases c <;> simp [scanFloatPtr, Except.map] at h <;> subst h <;>
    exact ⟨fun k hk => by simp [PetitionModel.get, hk, Cell.ofUUIDPtr, Cell.ofFloatPtr],
      fun _ => by simp_all [PetitionModel.get, Cell.ofUUIDPtr, Cell.ofFloatPtr]⟩

/-- The destinations of Get and of Select of `PetitionsQ` against the columns of
its selector. -/
theorem PetitionsQ_targets :
    PetitionsQ.selectDests = PetitionsQ.getDests ∧
    PetitionsQ.getDests.length = (NewPetitionsQ ⟨0⟩).selector.columns.length ∧
    List.Forall₂ (fun d column => WritesTag PetitionModel.get d (columnAlias column))
      PetitionsQ.getDests (NewPetitionsQ ⟨0⟩).selector.columns :=
  ⟨rfl, rfl, (.cons PetitionModel_writes_ID (.cons PetitionModel_writes_CityID (.cons PetitionModel_writes_Title (.cons PetitionModel_writes_Description (.cons PetitionModel_writes_InitiatorID (.cons PetitionModel_writes_AddressToID (.cons PetitionModel_writes_Status (.cons PetitionModel_writes_Signatures (.cons PetitionModel_writes_Goal (.cons PetitionModel_writes_EndDate (.cons PetitionModel_writes_CreatedAt (.cons PetitionModel_writes_UpdatedAt (.cons PetitionModel_writes_Lat (.cons PetitionModel_writes_Lng .nil))))))))))))))⟩

/-- The destination `&m.ID` of `PollModel` writes the field tagged `id`. -/
theorem PollModel_writes_ID :
    WritesTag PollModel.get (fun c p => (scanUUID p.ID c).map (fun v => { p with ID := v })) "id" := by
  intro c p p1 h
  cases c <;> simp [scanUUID, Except.map] at h <;> subst h <;>
    exact ⟨fun k hk => by simp [PollModel.get, hk, Cell.ofUUIDPtr, Cell.ofFloatPtr],
      fun _ => by simp_all [PollModel.get, Cell.ofUUIDPtr, Cell.ofFloatPtr]⟩

/-- The destination `&m.CityID` of `PollModel` writes the field tagged `city_id`. -/
theorem PollModel_writes_CityID :
    WritesTag PollModel.get (fun c p => (scanUUID p.CityID c).map (fun v => { p with CityID := v })) "city_id" := by
  intro c p p1 h
  cases c <;> simp [scanUUID, Except.map] at h <;> subst h <;>
    exact ⟨fun k hk => by simp [PollModel.get, hk, Cell.ofUUIDPtr, Cell.ofFloatPtr],
      fun _ => by simp_all [PollModel.get, Cell.ofUUIDPtr, Cell.ofFloatPtr]⟩

/-- The destination `&m.Title` of `PollModel` writes the field tagged `title`. -/
theorem PollModel_writes_Title :
    WritesTag PollModel.get (fun c p => (scanString c).map (fun v => { p with Title := v })) "title" := by
  intro c p p1 h
  cases c <;> simp [scanString, Except.map] at h
  subst h
  exact ⟨fun k hk => by simp [PollModel.get, hk, Cell.ofUUIDPtr, Cell.ofFloatPtr],
    fun _ => by simp_all [PollModel.get, Cell.ofUUIDPtr, Cell.ofFloatPtr]⟩

/-- The destination `&m.Description` of `PollModel` writes the field tagged `description`. -/
theorem PollModel_writes_Description :
    WritesTag PollModel.get (fun c p => (scanString c).map (fun v => { p with Description := v })) "description" := by
  intro c p p1 h
  cases c <;> simp [scanString, Except.map] at h
  subst h
  exact ⟨fun k hk => by simp [PollModel.get, hk, Cell.ofUUIDPtr, Cell.ofFloatPtr],
    fun _ => by simp_all [PollModel.get, Cell.ofUUIDPtr, Cell.ofFloatPtr]⟩

/-- The destination `&m.Status` of `PollModel` writes the field tagged `status`. -/
theorem PollModel_writes_Status :
    WritesTag PollModel.get (fun c p => (scanString c).map (fun v => { p with Status := v })) "status" := by
  intro c p p1 h
  cases c <;> simp [scanString, Except.map] at h
  subst h
  exact ⟨fun k hk => by simp [PollModel.get, hk, Cell.ofUUIDPtr, Cell.ofFloatPtr],
    fun _ => by simp_all [PollModel.get, Cell.ofUUIDPtr, Cell.ofFloatPtr]⟩

/-- The destination `&m.InitiatorID` of `PollModel` writes the field tagged `initiator_id`. -/
theorem PollModel_writes_InitiatorID :
    WritesTag PollModel.get (fun c p => (scanUUID p.InitiatorID c).map (fun v => { p with InitiatorID := v })) "initiator_id" := by
  intro c p p1 h
  cases c <;> simp [scanUUID, Except.map] at h <;> subst h <;>
    exact ⟨fun k hk => by simp [PollModel.get, hk, Cell.ofUUIDPtr, Cell.ofFloatPtr],
      fun _ => by simp_all [PollModel.get, Cell.ofUUIDPtr, Cell.ofFloatPtr]⟩

/-- The destination `&m.EndDate` of `PollModel` writes the field tagged `end_date`. -/
theorem PollModel_writes_EndDate :
    WritesTag PollModel.get (fun c p => (scanTime c).map (fun v => { p with EndDate := v })) "end_date" := by
  intro c p p1 h
  cases c <;> simp [scanTime, Except.map] at h
  subst h
  exact ⟨fun k hk => by simp [PollModel.get, hk, Cell.ofUUIDPtr, Cell.ofFloatPtr],
    fun _ => by simp_all [PollModel.get, Cell.ofUUIDPtr, Cell.ofFloatPtr]⟩

/-- The destination `&m.CreatedAt` of `PollModel` writes the field tagged `created_at`. -/
theorem PollModel_writes_CreatedAt :
    WritesTag PollModel.get (fun c p => (scanTime c).map (fun v => { p with CreatedAt := v })) "created_at" := by
  intro c p p1 h
  cases c <;> simp [scanTime, Except.map] at h
  subst h
  exact ⟨fun k hk => by simp [PollModel.get, hk, Cell.ofUUIDPtr, Cell.ofFloatPtr],
    fun _ => by simp_all [PollModel.get, Cell.ofUUIDPtr, Cell.ofFloatPtr]⟩

/-- The destination `&m.UpdatedAt` of `PollModel` writes the field tagged `updated_at`. -/
theorem PollModel_writes_UpdatedAt :
    WritesTag PollModel.get (fun c p => (scanTime c).map (fun v => { p with UpdatedAt := v })) "updated_at" := by
  intro c p p1 h
  cases c <;> simp [scanTime, Except.map] at h
  subst h
  exact ⟨fun k hk => by simp [PollModel.get, hk, Cell.ofUUIDPtr, Cell.ofFloatPtr],
    fun _ => by simp_all [PollModel.get, Cell.ofUUIDPtr, Cell.ofFloatPtr]⟩

/-- The destination `&m.Lat` of `PollModel` writes the field tagged `lat`. -/
theorem PollModel_writes_Lat :
    WritesTag PollModel.get (fun c p => (scanFloatPtr c).map (fun v => { p with Lat := v })) "lat" := by
  intro c p p1 h
  cases c <;> simp [scanFloatPtr, Except.map] at h <;> subst h <;>
    exact ⟨fun k hk => by simp [PollModel.get, hk, Cell.ofUUIDPtr, Cell.ofFloatPtr],
      fun _ => by simp_all [PollModel.get, Cell.ofUUIDPtr, Cell.ofFloatPtr]⟩

/-- The destination `&m.Lng` of `PollModel` writes the field tagged `lng`. -/
theorem PollModel_writes_Lng :
    WritesTag PollModel.get (fun c p => (scanFloatPtr c).map (fun v => { p with Lng := v })) "lng" := by
  intro c p p1 h
  cases c <;> simp [scanFloatPtr, Except.map] at h <;> subst h <;>
    exact ⟨fun k hk => by simp [PollModel.get, hk, Cell.ofUUIDPtr, Cell.ofFloatPtr],
      fun _ => by simp_all [PollModel.get, Cell.ofUUIDPtr, Cell.ofFloatPtr]⟩

/-- The destinations of Get and of Select of `PollsQ` against the columns of
its selector. -/
theorem PollsQ_targets :
    PollsQ.selectDests = PollsQ.getDests ∧
    PollsQ.getDests.length = (NewPollsQ ⟨0⟩).selector.columns.length ∧
    List.Forall₂ (fun d column => WritesTag PollModel.get d (columnAlias column))
      PollsQ.getDests (NewPollsQ ⟨0⟩).selector.columns :=
  ⟨rfl, rfl, (.cons PollModel_writes_ID (.cons PollModel_writes_CityID (.cons PollModel_writes_Title (.cons PollModel_writes_Description (.cons PollModel_writes_Status (.cons PollModel_writes_InitiatorID (.cons PollModel_writes_EndDate (.cons PollModel_writes_CreatedAt (.cons PollModel_writes_UpdatedAt (.cons PollModel_writes_Lat (.cons PollModel_writes_Lng .nil)))))))))))⟩

/-- The destination `&m.ID` of `Proposal` writes the field tagged `id`. -/
theorem Proposal_writes_ID :
    WritesTag Proposal.get (fun c p => (scanUUID p.ID c).map (fun v => { p with ID := v })) "id" := by
  intro c p p1 h
  cases c <;> simp [scanUUID, Except.map] at h <;> subst h <;>
    exact ⟨fun k hk => by simp [Proposal.get, hk, Cell.ofUUIDPtr, Cell.ofFloatPtr],
      fun _ => by simp_all [Proposal.get, Cell.ofUUIDPtr, Cell.ofFloatPtr]⟩

/-- The destination `&m.CityID` of `Proposal` writes the field tagged `city_id`. -/
theorem Proposal_writes_CityID :
    WritesTag Proposal.get (fun c p => (scanUUID p.CityID c).map (fun v => { p with CityID := v })) "city_id" := by
  intro c p p1 h
  cases c <;> simp [scanUUID, Except.map] at h <;> subst h <;>
    exact ⟨fun k hk => by simp [Proposal.get, hk, Cell.ofUUIDPtr, Cell.ofFloatPtr],
      fun _ => by simp_all [Proposal.get, Cell.ofUUIDPtr, Cell.ofFloatPtr]⟩

/-- The destination `&m.Title` of `Proposal` writes the field tagged `title`. -/
theorem Proposal_writes_Title :
    WritesTag Proposal.get (fun c p => (scanString c).map (fun v => { p with Title := v })) "title" := by
  intro c p p1 h
  cases c <;> simp [scanString, Except.map] at h
  subst h
  exact ⟨fun k hk => by simp [Proposal.get, hk, Cell.ofUUIDPtr, Cell.ofFloatPtr],
    fun _ => by simp_all [Proposal.get, Cell.ofUUIDPtr, Cell.ofFloatPtr]⟩

/-- The destination `&m.Description` of `Proposal` writes the field tagged `description`. -/
theorem Proposal_writes_Description :
    WritesTag Proposal.get (fun c p => (scanString c).map (fun v => { p with Description := v })) "description" := by
  intro c p p1 h
  cases c <;> simp [scanString, Except.map] at h
  subst h
  exact ⟨fun k hk => by simp [Proposal.get, hk, Cell.ofUUIDPtr, Cell.ofFloatPtr],
    fun _ => by simp_all [Proposal.get, Cell.ofUUIDPtr, Cell.ofFloatPtr]⟩

/-- The destination `&m.Status` of `Proposal` writes the field tagged `status`. -/
theorem Proposal_writes_Status :
    WritesTag Proposal.get (fun c p => (scanString c).map (fun v => { p with Status := v })) "status" := by
  intro c p p1 h
  cases c <;> simp [scanString, Except.map] at h
  subst h
  exact ⟨fun k hk => by simp [Proposal.get, hk, Cell.ofUUIDPtr, Cell.ofFloatPtr],
    fun _ => by simp_all [Proposal.get, Cell.ofUUIDPtr, Cell.ofFloatPtr]⟩

/-- The destination `&m.InitiatorID` of `Proposal` writes the field tagged `initiator_id`. -/
theorem Proposal_writes_InitiatorID :
    WritesTag Proposal.get (fun c p => (scanUUID p.InitiatorID c).map (fun v => { p with InitiatorID := v })) "initiator_id" := by
  intro c p p1 h
  cases c <;> simp [scanUUID, Except.map] at h <;> subst h <;>
    exact ⟨fun k hk => by simp [Proposal.get, hk, Cell.ofUUIDPtr, Cell.ofFloatPtr],
      fun _ => by simp_all [Proposal.get, Cell.ofUUIDPtr, Cell.ofFloatPtr]⟩

/-- The destination `&m.AddressToID` of `Proposal` writes the field tagged `address_to_id`. -/
theorem Proposal_writes_AddressToID :
    WritesTag Proposal.get (fun c p => (scanUUIDPtr c).map (fun v => { p with AddressToID := v })) "address_to_id" := by
  intro c p p1 h
  cases c <;> simp [scanUUIDPtr, Except.map] at h <;> subst h <;>
    exact ⟨fun k hk => by simp [Proposal.get, hk, Cell.ofUUIDPtr, Cell.ofFloatPtr],
      fun _ => by simp_all [Proposal.get, Cell.ofUUIDPtr, Cell.ofFloatPtr]⟩

/-- The destination `&m.AgreedNum` of `Proposal` writes the field tagged `agreed_num`. -/
theorem Proposal_writes_AgreedNum :
    WritesTag Proposal.get (fun c p => (scanInt c).map (fun v => { p with AgreedNum := v })) "agreed_num" := by
  intro c p p1 h
  cases c <;> simp [scanInt, Except.map] at h
  subst h
  exact ⟨fun k hk => by simp [Proposal.get, hk, Cell.ofUUIDPtr, Cell.ofFloatPtr],
    fun _ => by simp_all [Proposal.get, Cell.ofUUIDPtr, Cell.ofFloatPtr]⟩

/-- The destination `&m.DisagreedNum` of `Proposal` writes the field tagged `disagreed_num`. -/
theorem Proposal_writes_DisagreedNum :
    WritesTag Proposal.get (fun c p => (scanInt c).map (fun v => { p with DisagreedNum := v })) "disagreed_num" := by
  intro c p p1 h
  cases c <;> simp [scanInt, Except.map] at h
  subst h
  exact ⟨fun k hk => by simp [Proposal.get, hk, Cell.ofUUIDPtr, Cell.ofFloatPtr],
    fun _ => by simp_all [Proposal.get, Cell.ofUUIDPtr, Cell.ofFloatPtr]⟩

/-- The destination `&m.EndDate` of `Proposal` writes the field tagged `end_date`. -/
theorem Proposal_writes_EndDate :
    WritesTag Proposal.get (fun c p => (scanTime c).map (fun v => { p with EndDate := v })) "end_date" := by
  intro c p p1 h
  cases c <;> simp [scanTime, Except.map] at h
  subst h
  exact ⟨fun k hk => by simp [Proposal.get, hk, Cell.ofUUIDPtr, Cell.ofFloatPtr],
    fun _ => by simp_all [Proposal.get, Cell.ofUUIDPtr, Cell.ofFloatPtr]⟩

/-- The destination `&m.CreatedAt` of `Proposal` writes the field tagged `created_at`. -/
theorem Proposal_writes_CreatedAt :
    WritesTag Proposal.get (fun c p => (scanTime c).map (fun v => { p with CreatedAt := v })) "created_at" := by
  intro c p p1 h
  cases c <;> simp [scanTime, Except.map] at h
  subst h
  exact ⟨fun k hk => by simp [Proposal.get, hk, Cell.ofUUIDPtr, Cell.ofFloatPtr],
    fun _ => by simp_all [Proposal.get, Cell.ofUUIDPtr, Cell.ofFloatPtr]⟩

/-- The destination `&m.UpdatedAt` of `Proposal` writes the field tagged `updated_at`. -/
theorem Proposal_writes_UpdatedAt :
    WritesTag Proposal.get (fun c p => (scanTime c).map (fun v => { p with UpdatedAt := v })) "updated_at" := by
  intro c p p1 h
  cases c <;> simp [scanTime, Except.map] at h
  subst h
  exact ⟨fun k hk => by simp [Proposal.get, hk, Cell.ofUUIDPtr, Cell.ofFloatPtr],
    fun _ => by simp_all [Proposal.get, Cell.ofUUIDPtr, Cell.ofFloatPtr]⟩

/-- The destination `&m.Lat` of `Proposal` writes the field tagged `lat`. -/
theorem Proposal_writes_Lat :
    WritesTag Proposal.get (fun c p => (scanFloatPtr c).map (fun v => { p with Lat := v })) "lat" := by
  intro c p p1 h
  cases c <;> simp [scanFloatPtr, Except.map] at h <;> subst h <;>
    exact ⟨fun k hk => by simp [Proposal.get, hk, Cell.ofUUIDPtr, Cell.ofFloatPtr],
      fun _ => by simp_all [Proposal.get, Cell.ofUUIDPtr, Cell.ofFloatPtr]⟩

/-- The destination `&m.Lng` of `Proposal` writes the field tagged `lng`. -/
theorem Proposal_writes_Lng :
    WritesTag Proposal.get (fun c p => (scanFloatPtr c).map (fun v => { p with Lng := v })) "lng" := by
  intro c p p1 h
  cases c <;> simp [scanFloatPtr, Except.map] at h <;> subst h <;>
    exact ⟨fun k hk => by simp [Proposal.get, hk, Cell.ofUUIDPtr, Cell.ofFloatPtr],
      fun _ => by simp_all [Proposal.get, Cell.ofUUIDPtr, Cell.ofFloatPtr]⟩

/-- The destinations of Get and of Select of `ProposalsQ` against the columns of
its selector. -/
theorem ProposalsQ_targets :
    ProposalsQ.selectDests = ProposalsQ.getDests ∧
    ProposalsQ.getDests.length = (NewProposalsQ ⟨0⟩).selector.columns.length ∧
    List.Forall₂ (fun d column => WritesTag Proposal.get d (columnAlias column))
      ProposalsQ.getDests (NewProposalsQ ⟨0⟩).selector.columns :=
  ⟨rfl, rfl, (.cons Proposal_writes_ID (.cons Proposal_writes_CityID (.cons Proposal_writes_Title (.cons Proposal_writes_Description (.cons Proposal_writes_Status (.cons Proposal_writes_InitiatorID (.cons Proposal_writes_AddressToID (.cons Proposal_writes_AgreedNum (.cons Proposal_writes_DisagreedNum (.cons Proposal_writes_EndDate (.cons Proposal_writes_CreatedAt (.cons Proposal_writes_UpdatedAt (.cons Proposal_writes_Lat (.cons Proposal_writes_Lng .nil))))))))))))))⟩

/-- The destination `&m.ID` of `PollOption` writes the field tagged `id`. -/
theorem PollOption_writes_ID :
    WritesTag PollOption.get (fun c p => (scanUUID p.ID c).map (fun v => { p with ID := v })) "id" := by
  intro c p p1 h
  cases c <;> simp [scanUUID, Except.map] at h <;> subst h <;>
    exact ⟨fun k hk => by simp [PollOption.get, hk, Cell.ofUUIDPtr, Cell.ofFloatPtr],
      fun _ => by simp_all [PollOption.get, Cell.ofUUIDPtr, Cell.ofFloatPtr]⟩

/-- The destination `&m.PollID` of `PollOption` writes the field tagged `poll_id`. -/
theorem PollOption_writes_PollID :
    WritesTag PollOption.get (fun c p => (scanUUID p.PollID c).map (fun v => { p with PollID := v })) "poll_id" := by
  intro c p p1 h
  cases c <;> simp [scanUUID, Except.map] at h <;> subst h <;>
    exact ⟨fun k hk => by simp [PollOption.get, hk, Cell.ofUUIDPtr, Cell.ofFloatPtr],
      fun _ => by simp_all [PollOption.get, Cell.ofUUIDPtr, Cell.ofFloatPtr]⟩

/-- The destination `&m.OptionText` of `PollOption` writes the field tagged `option_text`. -/
theorem PollOption_writes_OptionText :
    WritesTag PollOption.get (fun c p => (scanString c).map (fun v => { p with OptionText := v })) "option_text" := by
  intro c p p1 h
  cases c <;> simp [scanString, Except.map] at h
  subst h
  exact ⟨fun k hk => by simp [PollOption.get, hk, Cell.ofUUIDPtr, Cell.ofFloatPtr],
    fun _ => by simp_all [PollOption.get, Cell.ofUUIDPtr, Cell.ofFloatPtr]⟩

/-- The destination `&m.VotesCount` of `PollOption` writes the field tagged `votes_count`. -/
theorem PollOption_writes_VotesCount :
    WritesTag PollOption.get (fun c p => (scanInt c).map (fun v => { p with VotesCount := v })) "votes_count" := by
  intro c p p1 h
  cases c <;> simp [scanInt, Except.map] at h
  subst h
  exact ⟨fun k hk => by simp [PollOption.get, hk, Cell.ofUUIDPtr, Cell.ofFloatPtr],
    fun _ => by simp_all [PollOption.get, Cell.ofUUIDPtr, Cell.ofFloatPtr]⟩

/-- The destination `&m.CreatedAt` of `PollOption` writes the field tagged `created_at`. -/
theorem PollOption_writes_CreatedAt :
    WritesTag PollOption.get (fun c p => (scanTime c).map (fun v => { p with CreatedAt := v })) "created_at" := by
  intro c p p1 h
  cases c <;> simp [scanTime, Except.map] at h
  subst h
  exact ⟨fun k hk => by simp [PollOption.get, hk, Cell.ofUUIDPtr, Cell.ofFloatPtr],
    fun _ => by simp_all [PollOption.get, Cell.ofUUIDPtr, Cell.ofFloatPtr]⟩

/-- The destinations of Get and of Select of `PollOptionsQ` against the columns of
its selector. -/
theorem PollOptionsQ_targets :
    PollOptionsQ.selectDests = PollOptionsQ.getDests ∧
    PollOptionsQ.getDests.length = (NewPollOptionsQ ⟨0⟩).selector.columns.length ∧
    List.Forall₂ (fun d column => WritesTag PollOption.get d (columnAlias column))
      PollOptionsQ.getDests (NewPollOptionsQ ⟨0⟩).selector.columns :=
  ⟨rfl, rfl, (.cons PollOption_writes_ID (.cons PollOption_writes_PollID (.cons PollOption_writes_OptionText (.cons PollOption_writes_VotesCount (.cons PollOption_writes_CreatedAt .nil)))))⟩

/-- The destination `&m.ID` of `PollVoteModel` writes the field tagged `id`. -/
theorem PollVoteModel_writes_ID :
    WritesTag PollVoteModel.get (fun c p => (scanUUID p.ID c).map (fun v => { p with ID := v })) "id" := by
  intro c p p1 h
  cases c <;> simp [scanUUID, Except.map] at h <;> subst h <;>
    exact ⟨fun k hk => by simp [PollVoteModel.get, hk, Cell.ofUUIDPtr, Cell.ofFloatPtr],
      fun _ => by simp_all [PollVoteModel.get, Cell.ofUUIDPtr, Cell.ofFloatPtr]⟩

/-- The destination `&m.PollID` of `PollVoteModel` writes the field tagged `poll_id`. -/
theorem PollVoteModel_writes_PollID :
    WritesTag PollVoteModel.get (fun c p => (scanUUID p.PollID c).map (fun v => { p with PollID := v })) "poll_id" := by
  intro c p p1 h
  cases c <;> simp [scanUUID, Except.map] at h <;> subst h <;>
    exact ⟨fun k hk => by simp [PollVoteModel.get, hk, Cell.ofUUIDPtr, Cell.ofFloatPtr],
      fun _ => by simp_all [PollVoteModel.get, Cell.ofUUIDPtr, Cell.ofFloatPtr]⟩

/-- The destination `&m.UserID` of `PollVoteModel` writes the field tagged `user_id`. -/
theorem PollVoteModel_writes_UserID :
    WritesTag PollVoteModel.get (fun c p => (scanUUID p.UserID c).map (fun v => { p with UserID := v })) "user_id" := by
  intro c p p1 h
  cases c <;> simp [scanUUID, Except.map] at h <;> subst h <;>
    exact ⟨fun k hk => by simp [PollVoteModel.get, hk, Cell.ofUUIDPtr, Cell.ofFloatPtr],
      fun _ => by simp_all [PollVoteModel.get, Cell.ofUUIDPtr, Cell.ofFloatPtr]⟩

/-- The destination `&m.OptionID` of `PollVoteModel` writes the field tagged `option_id`. -/
theorem PollVoteModel_writes_OptionID :
    WritesTag PollVoteModel.get (fun c p => (scanUUID p.OptionID c).map (fun v => { p with OptionID := v })) "option_id" := by
  intro c p p1 h
  cases c <;> simp [scanUUID, Except.map] at h <;> subst h <;>
    exact ⟨fun k hk => by simp [PollVoteModel.get, hk, Cell.ofUUIDPtr, Cell.ofFloatPtr],
      fun _ => by simp_all [PollVoteModel.get, Cell.ofUUIDPtr, Cell.ofFloatPtr]⟩

/-- The destination `&m.CreatedAt` of `PollVoteModel` writes the field tagged `created_at`. -/
theorem PollVoteModel_writes_CreatedAt :
    WritesTag PollVoteModel.get (fun c p => (scanTime c).map (fun v => { p with CreatedAt := v })) "created_at" := by
  intro c p p1 h
  cases c <;> simp [scanTime, Except.map] at h
  subst h
  exact ⟨fun k hk => by simp [PollVoteModel.get, hk, Cell.ofUUIDPtr, Cell.ofFloatPtr],
    fun _ => by simp_all [PollVoteModel.get, Cell.ofUUIDPtr, Cell.ofFloatPtr]⟩

/-- The destinations of Get and of Select of `PollVotesQ` against the columns of
its selector. -/
theorem PollVotesQ_targets :
    PollVotesQ.selectDests = PollVotesQ.getDests ∧
    PollVotesQ.getDests.length = (NewPollVotesQ ⟨0⟩).selector.columns.length ∧
    List.Forall₂ (fun d column => WritesTag PollVoteModel.get d (columnAlias column))
      PollVotesQ.getDests (NewPollVotesQ ⟨0⟩).selector.columns :=
  ⟨rfl, rfl, (.cons PollVoteModel_writes_ID (.cons PollVoteModel_writes_PollID (.cons PollVoteModel_writes_UserID (.cons PollVoteModel_writes_OptionID (.cons PollVoteModel_writes_CreatedAt .nil)))))⟩

/-- The destination `&m.ID` of `ProposalVoteModel` writes the field tagged `id`. -/
theorem ProposalVoteModel_writes_ID :
    WritesTag ProposalVoteModel.get (fun c p => (scanUUID p.ID c).map (fun v => { p with ID := v })) "id" := by
  intro c p p1 h
  cases c <;> simp [scanUUID, Except.map] at h <;> subst h <;>
    exact ⟨fun k hk => by simp [ProposalVoteModel.get, hk, Cell.ofUUIDPtr, Cell.ofFloatPtr],
      fun _ => by simp_all [ProposalVoteModel.get, Cell.ofUUIDPtr, Cell.ofFloatPtr]⟩

/-- The destination `&m.ProposalID` of `ProposalVoteModel` writes the field tagged `proposal_id`. -/
theorem ProposalVoteModel_writes_ProposalID :
    WritesTag ProposalVoteModel.get (fun c p => (scanUUID p.ProposalID c).map (fun v => { p with ProposalID := v })) "proposal_id" := by
  intro c p p1 h
  cases c <;> simp [scanUUID, Except.map] at h <;> subst h <;>
    exact ⟨fun k hk => by simp [ProposalVoteModel.get, hk, Cell.ofUUIDPtr, Cell.ofFloatPtr],
      fun _ => by simp_all [ProposalVoteModel.get, Cell.ofUUIDPtr, Cell.ofFloatPtr]⟩

/-- The destination `&m.UserID` of `ProposalVoteModel` writes the field tagged `user_id`. -/
theorem ProposalVoteModel_writes_UserID :
    WritesTag ProposalVoteModel.get (fun c p => (scanUUID p.UserID c).map (fun v => { p with UserID := v })) "user_id" := by
  intro c p p1 h
  cases c <;> simp [scanUUID, Except.map] at h <;> subst h <;>
    exact ⟨fun k hk => by simp [ProposalVoteModel.get, hk, Cell.ofUUIDPtr, Cell.ofFloatPtr],
      fun _ => by simp_all [ProposalVoteModel.get, Cell.ofUUIDPtr, Cell.ofFloatPtr]⟩

/-- The destination `&m.Vote` of `ProposalVoteModel` writes the field tagged `vote`. -/
theorem ProposalVoteModel_writes_Vote :
    WritesTag ProposalVoteModel.get (fun c p => (scanBool c).map (fun v => { p with Vote := v })) "vote" := by
  intro c p p1 h
  cases c <;> simp [scanBool, Except.map] at h
  subst h
  exact ⟨fun k hk => by simp [ProposalVoteModel.get, hk, Cell.ofUUIDPtr, Cell.ofFloatPtr],
    fun _ => by simp_all [ProposalVoteModel.get, Cell.ofUUIDPtr, Cell.ofFloatPtr]⟩

/-- The destination `&m.CreatedAt` of `ProposalVoteModel` writes the field tagged `created_at`. -/
theorem ProposalVoteModel_writes_CreatedAt :
    WritesTag ProposalVoteModel.get (fun c p => (scanTime c).map (fun v => { p with CreatedAt := v })) "created_at" := by
  intro c p p1 h
  cases c <;> simp [scanTime, Except.map] at h
  subst h
  exact ⟨fun k hk => by simp [ProposalVoteModel.get, hk, Cell.ofUUIDPtr, Cell.ofFloatPtr],
    fun _ => by simp_all [ProposalVoteModel.get, Cell.ofUUIDPtr, Cell.ofFloatPtr]⟩

/-- The destinations of Get and of Select of `ProposalVotesQ` against the columns of
its selector. -/
theorem ProposalVotesQ_targets :
    ProposalVotesQ.selectDests = ProposalVotesQ.getDests ∧
    ProposalVotesQ.getDests.length = (NewProposalVotesQ ⟨0⟩).selector.columns.length ∧
    List.Forall₂ (fun d column => WritesTag ProposalVoteModel.get d (columnAlias column))
      ProposalVotesQ.getDests (NewProposalVotesQ ⟨0⟩).selector.columns :=
  ⟨rfl, rfl, (.cons ProposalVoteModel_writes_ID (.cons ProposalVoteModel_writes_ProposalID (.cons ProposalVoteModel_writes_UserID (.cons ProposalVoteModel_writes_Vote (.cons ProposalVoteModel_writes_CreatedAt .nil)))))⟩

/-- C29: for PetitionsQ, PollsQ, ProposalsQ, PollOptionsQ, PollVotesQ and
ProposalVotesQ, Get and Select scan into the same destinations in the same
order, as many as the selector of the constructor has result columns, and
the destination at each position writes the field of the model whose `db` tag
is the name of the column at that position, `lat` and `lng` for the two
aliased columns: a successful scan leaves the fields of all other tags as they
were, and a value that is not NULL becomes the value of that field. The
selector of a reached value has the columns of the constructor's. -/
theorem C29_scan_targets_follow_the_columns :
    (PetitionsQ.selectDests = PetitionsQ.getDests ∧
      PetitionsQ.getDests.length = (NewPetitionsQ ⟨0⟩).selector.columns.length ∧
      List.Forall₂ (fun d column => WritesTag PetitionModel.get d (columnAlias column))
        PetitionsQ.getDests (NewPetitionsQ ⟨0⟩).selector.columns ∧
      ∀ (db : DB) (ops : List PetitionsOp),
        (PetitionsQ.chain db ops).selector.columns = (NewPetitionsQ ⟨0⟩).selector.columns) ∧
    (PollsQ.selectDests = PollsQ.getDests ∧
      PollsQ.getDests.length = (NewPollsQ ⟨0⟩).selector.columns.length ∧
      List.Forall₂ (fun d column => WritesTag PollModel.get d (columnAlias column))
        PollsQ.getDests (NewPollsQ ⟨0⟩).selector.columns ∧
      ∀ (db : DB) (ops : List PollsOp),
        (PollsQ.chain db ops).selector.columns = (NewPollsQ ⟨0⟩).selector.columns) ∧
    (ProposalsQ.selectDests = ProposalsQ.getDests ∧
      ProposalsQ.getDests.length = (NewProposalsQ ⟨0⟩).selector.columns.length ∧
      List.Forall₂ (fun d column => WritesTag Proposal.get d (columnAlias column))
        ProposalsQ.getDests (NewProposalsQ ⟨0⟩).selector.columns ∧
      ∀ (db : DB) (ops : List ProposalsOp),
        (ProposalsQ.chain db ops).selector.columns = (NewProposalsQ ⟨0⟩).selector.columns) ∧
    (PollOptionsQ.selectDests = PollOptionsQ.getDests ∧
      PollOptionsQ.getDests.length = (NewPollOptionsQ ⟨0⟩).selector.columns.length ∧
      List.Forall₂ (fun d column => WritesTag PollOption.get d (columnAlias column))
        PollOptionsQ.getDests (NewPollOptionsQ ⟨0⟩).selector.columns ∧
      ∀ (db : DB) (ops : List PollOptionsOp),
        (PollOptionsQ.chain db ops).selector.columns = (NewPollOptionsQ ⟨0⟩).selector.columns) ∧
    (PollVotesQ.selectDests = PollVotesQ.getDests ∧
      PollVotesQ.getDests.length = (NewPollVotesQ ⟨0⟩).selector.columns.length ∧
      List.Forall₂ (fun d column => WritesTag PollVoteModel.get d (columnAlias column))
        PollVotesQ.getDests (NewPollVotesQ ⟨0⟩).selector.columns ∧
      ∀ (db : DB) (ops : List PollVotesOp),
        (PollVotesQ.chain db ops).selector.columns = (NewPollVotesQ ⟨0⟩).selector.columns) ∧
    (ProposalVotesQ.selectDests = ProposalVotesQ.getDests ∧
      ProposalVotesQ.getDests.length = (NewProposalVotesQ ⟨0⟩).selector.columns.length ∧
      List.Forall₂ (fun d column => WritesTag ProposalVoteModel.get d (columnAlias column))
        ProposalVotesQ.getDests (NewProposalVotesQ ⟨0⟩).selector.columns ∧
      ∀ (db : DB) (ops : List ProposalVotesOp),
        (ProposalVotesQ.chain db ops).selector.columns = (NewProposalVotesQ ⟨0⟩).selector.columns) :=
  ⟨⟨PetitionsQ_targets.1, PetitionsQ_targets.2.1, PetitionsQ_targets.2.2,
    fun db ops => (PetitionsQ_chain_shaped db ops).1.1⟩,
   ⟨PollsQ_targets.1, PollsQ_targets.2.1, PollsQ_targets.2.2,
    fun db ops => (PollsQ_chain_shaped db ops).1.1⟩,
   ⟨ProposalsQ_targets.1, ProposalsQ_targets.2.1, ProposalsQ_targets.2.2,
    fun db ops => (ProposalsQ_chain_shaped db ops).1.1⟩,
   ⟨PollOptionsQ_targets.1, PollOptionsQ_targets.2.1, PollOptionsQ_targets.2.2,
    fun db ops => (PollOptionsQ_chain_shaped db ops).1.1⟩,
   ⟨PollVotesQ_targets.1, PollVotesQ_targets.2.1, PollVotesQ_targets.2.2,
    fun db ops => (PollVotesQ_chain_shaped db ops).1.1⟩,
   ⟨ProposalVotesQ_targets.1, ProposalVotesQ_targets.2.1, ProposalVotesQ_targets.2.2,
    fun db ops => (ProposalVotesQ_chain_shaped db ops).1.1⟩⟩

end Dbx
